import Mathlib

/-!
Verification of the roguelike dungeon-crawler (Rust sources under src/):
a shallow embedding of the map generator, melee combat, damage/death
systems, level transition, game-over cleanup, save/load and the top-level
tick loop, together with theorems settling the specification claims.

Machine integers (Rust i32) are modelled as Int: none of the verified
code paths can overflow 32 bits on the inputs the theorems quantify over;
Int.tdiv models Rust's truncating division.  Rust's `usize` casts in
index arithmetic are modelled by Int.toNat; every call site guarantees
nonnegative coordinates.  The specs entity store is modelled as a list of
live entity identifiers plus a function assigning each identifier its
record of optional components — extensionally the same data as specs'
one-storage-per-type layout, with joins iterating the entity list in
order.  The random number generator is modelled as an arbitrary stream of
naturals consumed left to right, reduced into the requested range by a
modulus; every sequence of draws the real generator can produce is some
stream, so universally quantified theorems cover all seeds.  Functions
whose Rust original can panic (.unwrap(), .expect(), indexing) return
Option, with none modelling the panic.
-/

namespace Roguelike

/-- Entity identifiers are opaque; we model them as naturals. -/
abbrev Entity := Nat

/-- Modelled from the spec: rect.rs is not present under src/ (only its
callers are).  Per §4.1 a Rect is an axis-aligned rectangle given by its
corners (x1,y1)-(x2,y2), constructed from an origin and width/height. -/
structure Rect where
  x1 : Int
  y1 : Int
  x2 : Int
  y2 : Int
  deriving Repr, DecidableEq

/-- Modelled from the spec: construct a Rect from origin and size. -/
def Rect.new (x y w h : Int) : Rect := ⟨x, y, x + w, y + h⟩

/-- Modelled from the spec: the overlap test is on open intervals, i.e.
rectangles that merely touch at an edge do not count as intersecting. -/
def Rect.intersect (a b : Rect) : Bool :=
  a.x1 < b.x2 && a.x2 > b.x1 && a.y1 < b.y2 && a.y2 > b.y1

/-- Modelled from the spec: the integer center point of a rectangle.
Int.tdiv models Rust's truncating i32 division. -/
def Rect.center (r : Rect) : Int × Int :=
  (Int.tdiv (r.x1 + r.x2) 2, Int.tdiv (r.y1 + r.y2) 2)

/-- map.rs: tile kinds. -/
inductive TileType where
  | Wall
  | Floor
  deriving Repr, DecidableEq

/-- map.rs: MAP_WIDTH. -/
def MAP_WIDTH : Nat := 80
/-- map.rs: MAP_HEIGHT. -/
def MAP_HEIGHT : Nat := 43
/-- map.rs: MAP_COUNT. -/
def MAP_COUNT : Nat := MAP_HEIGHT * MAP_WIDTH

/-- map.rs: the Map resource.  Per-tile parallel arrays are modelled as
functions from the row-major index; `tile_content` is kept as a concrete
list of buckets because save/load re-creates it wholesale.  The `depth`
and `bloodstains` fields belong to the feature-complete snapshot of the
map (main.rs reads `map.depth`, damage_system.rs inserts into
`map.bloodstains`); bloodstains is a set, modelled as a dedup list. -/
structure Map where
  tiles : Nat → TileType
  rooms : List Rect
  width : Int
  height : Int
  revealed_tiles : Nat → Bool
  visible_tiles : Nat → Bool
  blocked : Nat → Bool
  depth : Int
  bloodstains : List Nat
  tile_content : List (List Entity)

/-- map.rs: row-major index arithmetic, `(y as usize) * width + x as usize`.
The usize casts are modelled by toNat; all call sites pass nonnegative
coordinates. -/
def Map.xy_idx (m : Map) (x y : Int) : Nat :=
  y.toNat * m.width.toNat + x.toNat

/-- Point update of the tile array, modelling `self.tiles[idx] = t`. -/
def Map.setTile (m : Map) (idx : Nat) (t : TileType) : Map :=
  { m with tiles := fun i => if i = idx then t else m.tiles i }

/-- The inclusive integer range a..=b as a list, empty when b < a. -/
def intRange (a b : Int) : List Int :=
  (List.range (b + 1 - a).toNat).map (fun i => a + (i : Int))

/-- map.rs: apply_room_to_map — carve the room interior
(x1+1..=x2) x (y1+1..=y2) to floor. -/
def Map.apply_room_to_map (m : Map) (room : Rect) : Map :=
  (intRange (room.y1 + 1) room.y2).foldl (fun acc y =>
    (intRange (room.x1 + 1) room.x2).foldl (fun acc2 x =>
      acc2.setTile (acc2.xy_idx x y) TileType.Floor) acc) m

/-- map.rs: apply_horizontal_tunnel, including the source's
`idx > 0 && idx < width*height` guard. -/
def Map.apply_horizontal_tunnel (m : Map) (x1 x2 y : Int) : Map :=
  (intRange (min x1 x2) (max x1 x2)).foldl (fun acc x =>
    let idx := acc.xy_idx x y
    if 0 < idx ∧ idx < acc.width.toNat * acc.height.toNat then
      acc.setTile idx TileType.Floor
    else acc) m

/-- map.rs: apply_vertical_tunnel, including the source's index guard. -/
def Map.apply_vertical_tunnel (m : Map) (y1 y2 x : Int) : Map :=
  (intRange (min y1 y2) (max y1 y2)).foldl (fun acc y =>
    let idx := acc.xy_idx x y
    if 0 < idx ∧ idx < acc.width.toNat * acc.height.toNat then
      acc.setTile idx TileType.Floor
    else acc) m

/-- rltk RandomNumberGenerator::range(a, b): uniform draw from [a, b),
modelled by reducing the stream value at position p with a modulus. -/
def rngRange (rng : Nat → Nat) (p : Nat) (a b : Int) : Int :=
  a + Int.ofNat (rng p % (b - a).toNat)

/-- rltk RandomNumberGenerator::roll_dice(1, n): uniform draw from [1, n]. -/
def rollDice (rng : Nat → Nat) (p : Nat) (n : Int) : Int :=
  1 + Int.ofNat (rng p % n.toNat)

/-- map.rs: the initial all-wall map built at the top of
new_map_rooms_and_corridors. -/
def initialMap (new_depth : Int) : Map :=
  { tiles := fun _ => TileType.Wall
    rooms := []
    width := (MAP_WIDTH : Int)
    height := (MAP_HEIGHT : Int)
    revealed_tiles := fun _ => false
    visible_tiles := fun _ => false
    blocked := fun _ => false
    depth := new_depth
    bloodstains := []
    tile_content := List.replicate MAP_COUNT [] }

/-- map.rs: one iteration of the room-placement loop in
new_map_rooms_and_corridors.  The state carries the map under
construction and the position of the next unconsumed random draw.
A proposed room consumes four draws (w, h, x, y); the corridor
orientation coin is drawn only for an accepted non-first room,
exactly as in the source. -/
def roomAttempt (rng : Nat → Nat) (st : Map × Nat) : Map × Nat :=
  let m := st.1
  let p := st.2
  let w := rngRange rng p 6 10
  let h := rngRange rng (p + 1) 6 10
  let x := rollDice rng (p + 2) (m.width - w - 1) - 1
  let y := rollDice rng (p + 3) (m.height - h - 1) - 1
  let new_room := Rect.new x y w h
  let ok := m.rooms.all (fun other_room => !(new_room.intersect other_room))
  if ok then
    let m1 := m.apply_room_to_map new_room
    if m1.rooms.isEmpty then
      ({ m1 with rooms := m1.rooms ++ [new_room] }, p + 4)
    else
      let c := new_room.center
      let prev := (m1.rooms.getLast?).getD new_room
      let pc := prev.center
      let m2 :=
        if rngRange rng (p + 4) 0 2 = 1 then
          (m1.apply_horizontal_tunnel pc.1 c.1 pc.2).apply_vertical_tunnel pc.2 c.2 c.1
        else
          (m1.apply_vertical_tunnel pc.2 c.2 pc.1).apply_horizontal_tunnel pc.1 c.1 c.2
      ({ m2 with rooms := m2.rooms ++ [new_room] }, p + 5)
  else (m, p + 4)

/-- The generation state after n loop iterations. -/
def genSteps (new_depth : Int) (rng : Nat → Nat) (n : Nat) : Map × Nat :=
  (List.range n).foldl (fun st _ => roomAttempt rng st) (initialMap new_depth, 0)

/-- map.rs: new_map_rooms_and_corridors — 30 placement attempts
(MAX_ROOMS) starting from the all-wall map. -/
def new_map_rooms_and_corridors (new_depth : Int) (rng : Nat → Nat) : Map :=
  (genSteps new_depth rng 30).1

/-- map.rs: is_exit_valid — the source rejects only x < 1, x > width-1,
y < 1, y > height-1, then tests the blocked index. -/
def Map.is_exit_valid (m : Map) (x y : Int) : Bool :=
  if x < 1 || x > m.width - 1 || y < 1 || y > m.height - 1 then false
  else !(m.blocked (m.xy_idx x y))

/-- game_log.rs is not under src/, but the structure is fixed by its
construction site main.rs:496 (GameLog { entries: vec![...] }): an
ordered list of message strings, newest first. -/
structure GameLog where
  entries : List String
  deriving Repr, DecidableEq

/-- components.rs: Position. -/
structure Position where
  x : Int
  y : Int
  deriving Repr, DecidableEq

/-- components.rs: Viewshed.  rltk Points are modelled as integer pairs. -/
structure Viewshed where
  visible_tiles : List (Int × Int)
  range : Int
  dirty : Bool
  deriving Repr, DecidableEq

/-- components.rs: Name. -/
structure Name where
  name : String
  deriving Repr, DecidableEq

/-- components.rs: CombatStats. -/
structure CombatStats where
  max_hp : Int
  hp : Int
  defense : Int
  power : Int
  deriving Repr, DecidableEq

/-- components.rs: WantsToMelee. -/
structure WantsToMelee where
  target : Entity
  deriving Repr, DecidableEq

/-- components.rs: SufferDamage. -/
structure SufferDamage where
  amount : Int
  deriving Repr, DecidableEq

/-- components.rs: InBackpack. -/
structure InBackpack where
  owner : Entity
  deriving Repr, DecidableEq

/-- components.rs: WantsToUseItem. -/
structure WantsToUseItem where
  item : Entity
  target : Option (Int × Int)
  deriving Repr, DecidableEq

/-- components.rs: WantsToDropItem. -/
structure WantsToDropItem where
  item : Entity
  deriving Repr, DecidableEq

/-- Modelled from the spec: WantsToRemoveItem is declared in a snapshot of
components.rs not under src/; §3 gives WantsToRemoveItem{item: entity}. -/
structure WantsToRemoveItem where
  item : Entity
  deriving Repr, DecidableEq

/-- components.rs: Ranged. -/
structure Ranged where
  range : Int
  deriving Repr, DecidableEq

/-- components.rs: AreaOfEffect. -/
structure AreaOfEffect where
  radius : Int
  deriving Repr, DecidableEq

/-- rltk::RGB (the rltk crate is not under src/): a float colour triple
(§7: colors as RGB float triples). -/
structure RGB where
  r : Float
  g : Float
  b : Float
  deriving Repr

/-- components.rs: Renderable (glyph is a u8 code point, carried as a Nat;
no arithmetic is performed on it). -/
structure Renderable where
  glyph : Nat
  fg : RGB
  bg : RGB
  render_order : Int
  deriving Repr

/-- components.rs: ProvidesHealing. -/
structure ProvidesHealing where
  heal_amount : Int
  deriving Repr, DecidableEq

/-- components.rs: InflictsDamage. -/
structure InflictsDamage where
  damage : Int
  deriving Repr, DecidableEq

/-- components.rs: Confusion. -/
structure Confusion where
  turns : Int
  deriving Repr, DecidableEq

/-- components.rs: WantsToPickupItem — two entity references. -/
structure WantsToPickupItem where
  collected_by : Entity
  item : Entity
  deriving Repr, DecidableEq

/-- Modelled from the spec: the equipment slot enum of the
feature-complete snapshot (§3: slot: enum Melee|Shield). -/
inductive EquipmentSlot where
  | Melee
  | Shield
  deriving Repr, DecidableEq

/-- Modelled from the spec: Equipped{owner: entity, slot} (§3); the
declaration is in a snapshot of components.rs not under src/, but
melee_combat_system.rs reads its owner field. -/
structure Equipped where
  owner : Entity
  slot : EquipmentSlot
  deriving Repr, DecidableEq

/-- Modelled from the spec: MeleePowerBonus{power: int} (§3); read by
melee_combat_system.rs. -/
structure MeleePowerBonus where
  power : Int
  deriving Repr, DecidableEq

/-- Modelled from the spec: DefenseBonus{defense: int} (§3); read by
melee_combat_system.rs. -/
structure DefenseBonus where
  defense : Int
  deriving Repr, DecidableEq

/-- Modelled from the spec: Equippable{slot} (§3); the declaration is in
a snapshot of components.rs not under src/, but saveload_system.rs
serializes it. -/
structure Equippable where
  slot : EquipmentSlot
  deriving Repr, DecidableEq

/-- Modelled from the spec: ParticleLifetime{remaining: float/int} (§3);
the declaration is in a snapshot of components.rs not under src/, but
saveload_system.rs serializes it. -/
structure ParticleLifetime where
  remaining : Float
  deriving Repr

/-- Modelled from the spec: the hunger clock (§3 describes it as a
per-entity satiety counter; its declaration is in a snapshot of
components.rs not under src/, but saveload_system.rs serializes it). -/
structure HungerClock where
  satiety : Int
  deriving Repr, DecidableEq

/-- saveload_system.rs / components.rs: the transient resource-carrier
component; the feature-complete snapshot carries the map and the log. -/
structure SerializationHelper where
  map : Map
  game_log : GameLog

/-- gui.rs is not under src/; main.rs matches on these three selections. -/
inductive MainMenuSelection where
  | NewGame
  | LoadGame
  | Quit
  deriving Repr, DecidableEq

/-- main.rs: the run-state enum. -/
inductive RunState where
  | AwaitingInput
  | PreRun
  | PlayerTurn
  | MonsterTurn
  | ShowInventory
  | ShowDropItem
  | ShowTargeting (range : Int) (item : Entity)
  | MainMenu (menu_selection : MainMenuSelection)
  | SaveGame
  | NextLevel
  | ShowRemoveItem
  | GameOver
  deriving Repr, DecidableEq

/-- The components an entity may carry — every component type of the
serialize/deserialize blocks of saveload_system.rs (the componentless
marker structs Player, Monster, BlocksTile, Item, Consumable and
ProvidesFood are carried as Option Unit) — together with its
SimpleMarker<SerializeMe> persistence marker.  One Comps record per
entity identifier is extensionally the same data as specs'
one-storage-per-type layout. -/
structure Comps where
  position : Option Position := none
  renderable : Option Renderable := none
  player : Option Unit := none
  viewshed : Option Viewshed := none
  monster : Option Unit := none
  name : Option Name := none
  blocks_tile : Option Unit := none
  combat_stats : Option CombatStats := none
  suffer_damage : Option SufferDamage := none
  wants_melee : Option WantsToMelee := none
  item : Option Unit := none
  consumable : Option Unit := none
  ranged : Option Ranged := none
  inflicts_damage : Option InflictsDamage := none
  area_of_effect : Option AreaOfEffect := none
  confusion : Option Confusion := none
  provides_healing : Option ProvidesHealing := none
  in_backpack : Option InBackpack := none
  wants_to_pickup : Option WantsToPickupItem := none
  wants_to_use : Option WantsToUseItem := none
  wants_to_drop : Option WantsToDropItem := none
  serialization_helper : Option SerializationHelper := none
  equippable : Option Equippable := none
  equipped : Option Equipped := none
  melee_power_bonus : Option MeleePowerBonus := none
  defense_bonus : Option DefenseBonus := none
  wants_to_remove : Option WantsToRemoveItem := none
  particle_lifetime : Option ParticleLifetime := none
  hunger_clock : Option HungerClock := none
  provides_food : Option Unit := none
  marker : Option Nat := none

/-- The specs World: the live entities (in join/iteration order), each
entity's components, the fresh-identifier allocator, the
SimpleMarkerAllocator counter, and the singleton resources. -/
structure World where
  next_entity : Nat
  entities : List Entity
  comps : Entity → Comps
  next_marker : Nat
  map : Map
  log : GameLog
  runstate : RunState
  player_entity : Entity
  player_point : Int × Int

/-- Read access mirroring the per-type storages of specs. -/
def World.positions (w : World) (e : Entity) : Option Position := (w.comps e).position

/-- Player marker storage. -/
def World.players (w : World) (e : Entity) : Option Unit := (w.comps e).player

/-- Viewshed storage. -/
def World.viewsheds (w : World) (e : Entity) : Option Viewshed := (w.comps e).viewshed

/-- Name storage. -/
def World.names (w : World) (e : Entity) : Option Name := (w.comps e).name

/-- CombatStats storage. -/
def World.combat_stats (w : World) (e : Entity) : Option CombatStats := (w.comps e).combat_stats

/-- SufferDamage storage. -/
def World.suffer_damage (w : World) (e : Entity) : Option SufferDamage := (w.comps e).suffer_damage

/-- WantsToMelee storage. -/
def World.wants_melee (w : World) (e : Entity) : Option WantsToMelee := (w.comps e).wants_melee

/-- InBackpack storage. -/
def World.in_backpack (w : World) (e : Entity) : Option InBackpack := (w.comps e).in_backpack

/-- Equipped storage. -/
def World.equipped (w : World) (e : Entity) : Option Equipped := (w.comps e).equipped

/-- MeleePowerBonus storage. -/
def World.melee_power_bonuses (w : World) (e : Entity) : Option MeleePowerBonus :=
  (w.comps e).melee_power_bonus

/-- DefenseBonus storage. -/
def World.defense_bonuses (w : World) (e : Entity) : Option DefenseBonus :=
  (w.comps e).defense_bonus

/-- Ranged storage. -/
def World.ranged (w : World) (e : Entity) : Option Ranged := (w.comps e).ranged

/-- AreaOfEffect storage. -/
def World.area_of_effect (w : World) (e : Entity) : Option AreaOfEffect :=
  (w.comps e).area_of_effect

/-- WantsToUseItem storage. -/
def World.wants_to_use (w : World) (e : Entity) : Option WantsToUseItem :=
  (w.comps e).wants_to_use

/-- WantsToDropItem storage. -/
def World.wants_to_drop (w : World) (e : Entity) : Option WantsToDropItem :=
  (w.comps e).wants_to_drop

/-- WantsToRemoveItem storage. -/
def World.wants_to_remove (w : World) (e : Entity) : Option WantsToRemoveItem :=
  (w.comps e).wants_to_remove

/-- SerializationHelper storage. -/
def World.serialization_helpers (w : World) (e : Entity) : Option SerializationHelper :=
  (w.comps e).serialization_helper

/-- SimpleMarker<SerializeMe> storage. -/
def World.markers (w : World) (e : Entity) : Option Nat := (w.comps e).marker

/-- Update one entity's component record in place. -/
def World.updComps (w : World) (e : Entity) (f : Comps → Comps) : World :=
  { w with comps := fun x => if x = e then f (w.comps x) else w.comps x }

/-- Update every entity's component record (used for storage .clear()). -/
def World.mapComps (w : World) (f : Comps → Comps) : World :=
  { w with comps := fun x => f (w.comps x) }

/-- specs World::delete_entity: the entity leaves the live set and every
storage drops its components. -/
def deleteEntity (w : World) (e : Entity) : World :=
  { w with
    entities := w.entities.filter (fun x => x ≠ e)
    comps := fun x => if x = e then {} else w.comps x }

/-- specs World::create_entity().with(...).build(): allocate a fresh
identifier and attach the bundle's components. -/
def createEntity (w : World) (d : Comps) : World × Entity :=
  let e := w.next_entity
  ({ w with
      next_entity := w.next_entity + 1
      entities := w.entities ++ [e]
      comps := fun x => if x = e then d else w.comps x }, e)

/-- melee_combat_system.rs lines 40-46: sum MeleePowerBonus.power over
the (entities, melee_power_bonuses, equipped) join entries whose
Equipped.owner is the attacker. -/
def offensiveBonus (w : World) (attacker : Entity) : Int :=
  w.entities.foldl (fun acc e =>
    match w.melee_power_bonuses e, w.equipped e with
    | some power_bonus, some equipped_by =>
        if equipped_by.owner = attacker then acc + power_bonus.power else acc
    | _, _ => acc) 0

/-- melee_combat_system.rs lines 52-59: sum DefenseBonus.defense over
the (entities, defense_bonuses, equipped) join entries whose
Equipped.owner is the target. -/
def defensiveBonus (w : World) (target : Entity) : Int :=
  w.entities.foldl (fun acc e =>
    match w.defense_bonuses e, w.equipped e with
    | some defense_bonus, some equipped_by =>
        if equipped_by.owner = target then acc + defense_bonus.defense else acc
    | _, _ => acc) 0

/-- melee_combat_system.rs lines 38-83: the body of the per-attacker
loop.  The two .unwrap() calls on the target's CombatStats and Name are
modelled as none (a panic).  A successful hit is recorded with
WriteStorage::insert, which REPLACES any SufferDamage already on the
target. -/
def meleeAttack (w : World) (entity : Entity) (wants_melee : WantsToMelee)
    (name : Name) (stats : CombatStats) : Option World :=
  if stats.hp > 0 then
    let offensive_bonus := offensiveBonus w entity
    match w.combat_stats wants_melee.target with
    | none => none
    | some target_stats =>
      if target_stats.hp > 0 then
        match w.names wants_melee.target with
        | none => none
        | some target_name =>
          let defensive_bonus := defensiveBonus w wants_melee.target
          let damage := max 0
            ((stats.power + offensive_bonus) - (target_stats.defense + defensive_bonus))
          if damage = 0 then
            some { w with log :=
              ⟨(name.name ++ " is unable to hurt " ++ target_name.name) :: w.log.entries⟩ }
          else
            let w1 := { w with log :=
              ⟨(name.name ++ " hits " ++ target_name.name ++ ", for " ++
                toString damage ++ " hp.") :: w.log.entries⟩ }
            some (w1.updComps wants_melee.target
              (fun c => { c with suffer_damage := some ⟨damage⟩ }))
      else some w
  else some w

/-- melee_combat_system.rs lines 35-36: the
(entities, wants_melee, names, combat_stats) join, in entity order.
The loop never mutates these four storages, so the join may be taken up
front. -/
def meleeJoin (w : World) : List (Entity × WantsToMelee × Name × CombatStats) :=
  w.entities.filterMap (fun e =>
    match w.wants_melee e, w.names e, w.combat_stats e with
    | some wm, some n, some st => some (e, wm, n, st)
    | _, _, _ => none)

/-- melee_combat_system.rs: MeleeCombatSystem::run — process every join
entry in order, then clear all WantsToMelee intents. -/
def meleeCombatRun (w : World) : Option World :=
  match (meleeJoin w).foldlM
      (fun acc entry => meleeAttack acc entry.1 entry.2.1 entry.2.2.1 entry.2.2.2) w with
  | none => none
  | some w1 => some (w1.mapComps (fun c => { c with wants_melee := none }))

/-- damage_system.rs lines 17-24: apply one entity's accumulated damage
and mark a bloodstain when it has a Position. -/
def damageOne (w : World) (e : Entity) (stats : CombatStats) (damage : SufferDamage) : World :=
  let w1 := w.updComps e
    (fun c => { c with combat_stats := some { stats with hp := stats.hp - damage.amount } })
  match w.positions e with
  | some pos =>
    let idx := w1.map.xy_idx pos.x pos.y
    { w1 with map := { w1.map with bloodstains :=
        if idx ∈ w1.map.bloodstains then w1.map.bloodstains else idx :: w1.map.bloodstains } }
  | none => w1

/-- One iteration of the DamageSystem join loop: entities without both
CombatStats and SufferDamage are skipped. -/
def damageStep (acc : World) (e : Entity) : World :=
  match acc.combat_stats e, acc.suffer_damage e with
  | some stats, some damage => damageOne acc e stats damage
  | _, _ => acc

/-- damage_system.rs: DamageSystem::run — subtract each SufferDamage
from the owner's hp, then clear every SufferDamage. -/
def damageSystemRun (w : World) : World :=
  (w.entities.foldl damageStep w).mapComps (fun c => { c with suffer_damage := none })

/-- damage_system.rs lines 39-56: one iteration of the death-sweep
loop, accumulating the dead list, the log and the run-state; the
storages are read from the pre-pass world (the loop mutates only the
accumulated three). -/
def sweepStep (w : World) (acc : List Entity × GameLog × RunState) (e : Entity) :
    List Entity × GameLog × RunState :=
  match w.combat_stats e with
  | some stats =>
    if stats.hp < 1 then
      match w.players e with
      | none =>
        let log1 :=
          match w.names e with
          | some victim_name => GameLog.mk ((victim_name.name ++ " is dead") :: acc.2.1.entries)
          | none => acc.2.1
        (acc.1 ++ [e], log1, acc.2.2)
      | some _ => (acc.1, acc.2.1, RunState.GameOver)
    else acc
  | none => acc

/-- damage_system.rs lines 39-57: the collection pass of
delete_the_dead. -/
def deadSweep (w : World) : List Entity × GameLog × RunState :=
  w.entities.foldl (sweepStep w) ([], w.log, w.runstate)

/-- damage_system.rs: delete_the_dead — collect the dead, then delete
them after the sweep. -/
def delete_the_dead (w : World) : World :=
  let s := deadSweep w
  let w1 := { w with log := s.2.1, runstate := s.2.2 }
  s.1.foldl deleteEntity w1

/-- Modelled from the spec: spawner.rs is not under src/.  §4.11: the
spawner populates rooms by creating monster and item entities with
fresh identifiers and component bundles; it never deletes or alters
existing entities.  The concrete bundles depend on random rolls, so
they are taken as a parameter. -/
def spawnEntities (w : World) (spawned : List Comps) : World :=
  spawned.foldl (fun acc d => (createEntity acc d).1) w

/-- Modelled from the spec: spawner::player (spawner.rs is not under
src/).  §4.11: creates the player entity at a given tile with full
starting CombatStats, a Viewshed of range 8 (dirty), a Name of
"Player", the Player marker and a Position, marked for persistence; the
starting stats are a parameter because spawner.rs gives no numbers in
this source slice. -/
def spawnerPlayer (w : World) (x y : Int) (starting_stats : CombatStats) : World × Entity :=
  createEntity { w with next_marker := w.next_marker + 1 }
    { position := some ⟨x, y⟩
      player := some ()
      viewshed := some ⟨[], 8, true⟩
      name := some ⟨"Player"⟩
      combat_stats := some starting_stats
      marker := some w.next_marker }

/-- main.rs lines 91-129: entities_to_remove_on_level_change — every
entity is deleted unless it carries the Player marker, or is an item in
the backpack of the player-entity resource, or is equipped by it. -/
def entities_to_remove_on_level_change (w : World) : List Entity :=
  w.entities.filter (fun entity =>
    let keep_player := (w.players entity).isSome
    let keep_backpack :=
      match w.in_backpack entity with
      | some bp => bp.owner = w.player_entity
      | none => false
    let keep_equipped :=
      match w.equipped entity with
      | some eq => eq.owner = w.player_entity
      | none => false
    !(keep_player || keep_backpack || keep_equipped))

/-- main.rs lines 156-185: the tail of goto_next_level — place the
player at the first room's center, mark its viewshed dirty, log the
descent line and heal to at least half of max_hp.  Int.tdiv models
Rust's truncating division in max_hp / 2. -/
def descendPlayerUpdate (w3 : World) (c : Int × Int) : World :=
  let w4 := { w3 with player_point := c }
  let w5 := w4.updComps w4.player_entity
    (fun cm => { cm with position := cm.position.map (fun _ => ⟨c.1, c.2⟩) })
  let w6 := w5.updComps w5.player_entity
    (fun cm => { cm with viewshed := cm.viewshed.map (fun vs => { vs with dirty := true }) })
  let w7 := { w6 with log :=
    ⟨("You descend to the next level, and take a moment to heal.") :: w6.log.entries⟩ }
  w7.updComps w7.player_entity
    (fun cm => { cm with combat_stats :=
      cm.combat_stats.map (fun s => { s with hp := max s.hp (Int.tdiv s.max_hp 2) }) })

/-- main.rs lines 131-186: goto_next_level.  The spawner's bundles and
the generator's random stream are parameters; the rooms[0] read is a
panic (none) on an empty room list. -/
def goto_next_level (w : World) (rng : Nat → Nat) (spawned : List Comps) :
    Option World :=
  let to_delete := entities_to_remove_on_level_change w
  let w1 := to_delete.foldl deleteEntity w
  let current_depth := w1.map.depth
  let worldmap := new_map_rooms_and_corridors (current_depth + 1) rng
  let w2 := { w1 with map := worldmap }
  let w3 := spawnEntities w2 spawned
  match worldmap.rooms.head? with
  | none => none
  | some room0 => some (descendPlayerUpdate w3 room0.center)

/-- main.rs lines 211-230: the tail of game_over_cleanup — create the
fresh player at the first room's center, reset the player resources and
mark the new viewshed dirty. -/
def newGamePlayerSetup (w3 : World) (c : Int × Int) (starting_stats : CombatStats) : World :=
  let pr := spawnerPlayer w3 c.1 c.2 starting_stats
  let w4 := { pr.1 with player_point := c, player_entity := pr.2 }
  let w5 := w4.updComps pr.2
    (fun cm => { cm with position := cm.position.map (fun _ => ⟨c.1, c.2⟩) })
  w5.updComps pr.2
    (fun cm => { cm with viewshed := cm.viewshed.map (fun vs => { vs with dirty := true }) })

/-- main.rs lines 188-231: game_over_cleanup — delete every entity,
generate a depth-1 map, spawn its rooms, create a fresh player and
reset the player resources.  The game log is not touched. -/
def game_over_cleanup (w : World) (rng : Nat → Nat) (spawned : List Comps)
    (starting_stats : CombatStats) : Option World :=
  let w1 := w.entities.foldl deleteEntity w
  let worldmap := new_map_rooms_and_corridors 1 rng
  let w2 := { w1 with map := worldmap }
  let w3 := spawnEntities w2 spawned
  match worldmap.rooms.head? with
  | none => none
  | some room0 => some (newGamePlayerSetup w3 room0.center starting_stats)

/-- map.rs: the serialized form of the Map — every field except
`tile_content`, which carries #[serde(skip_serializing)]. -/
structure MapSave where
  tiles : Nat → TileType
  rooms : List Rect
  width : Int
  height : Int
  revealed_tiles : Nat → Bool
  visible_tiles : Nat → Bool
  blocked : Nat → Bool
  depth : Int
  bloodstains : List Nat

/-- Serialize a Map, dropping tile_content. -/
def Map.toSave (m : Map) : MapSave :=
  { tiles := m.tiles, rooms := m.rooms, width := m.width, height := m.height
    revealed_tiles := m.revealed_tiles, visible_tiles := m.visible_tiles
    blocked := m.blocked, depth := m.depth, bloodstains := m.bloodstains }

/-- Deserialize a Map: tile_content carries #[serde(skip_deserializing)]
and takes its Default — an empty vector. -/
def MapSave.toMap (m : MapSave) : Map :=
  { tiles := m.tiles, rooms := m.rooms, width := m.width, height := m.height
    revealed_tiles := m.revealed_tiles, visible_tiles := m.visible_tiles
    blocked := m.blocked, depth := m.depth, bloodstains := m.bloodstains
    tile_content := [] }

/-- The serialized form of the SerializationHelper component. -/
structure HelperSave where
  map : MapSave
  game_log : GameLog

/-- saveload_system.rs: the save file content — one
(marker id, serialized component) list per persisted component type
(all thirty of the serialize_individually! block), in the declared
serialization order.  ConvertSaveload replaces every Entity field by the
referenced entity's marker id (WantsToPickupItem carries two such
fields, so it serializes to a pair of marker ids). -/
structure SaveData where
  positions : List (Nat × Position)
  renderables : List (Nat × Renderable)
  players : List (Nat × Unit)
  viewsheds : List (Nat × Viewshed)
  monsters : List (Nat × Unit)
  names : List (Nat × Name)
  blocks_tile : List (Nat × Unit)
  combat_stats : List (Nat × CombatStats)
  suffer_damage : List (Nat × SufferDamage)
  wants_melee : List (Nat × Nat)
  items : List (Nat × Unit)
  consumables : List (Nat × Unit)
  ranged : List (Nat × Ranged)
  inflicts_damage : List (Nat × InflictsDamage)
  area_of_effect : List (Nat × AreaOfEffect)
  confusion : List (Nat × Confusion)
  provides_healing : List (Nat × ProvidesHealing)
  in_backpack : List (Nat × Nat)
  wants_to_pickup : List (Nat × Nat × Nat)
  wants_to_use : List (Nat × Nat × Option (Int × Int))
  wants_to_drop : List (Nat × Nat)
  helpers : List (Nat × HelperSave)
  equippables : List (Nat × Equippable)
  equipped : List (Nat × Nat × EquipmentSlot)
  melee_power_bonuses : List (Nat × MeleePowerBonus)
  defense_bonuses : List (Nat × DefenseBonus)
  wants_to_remove : List (Nat × Nat)
  particle_lifetimes : List (Nat × ParticleLifetime)
  hunger_clocks : List (Nat × HungerClock)
  provides_food : List (Nat × Unit)

/-- specs SerializeComponents for one component type: the
(marker, storage) join in entity order, each component converted by f. -/
def serializeComp (w : World) (get : Comps → Option α) (f : α → β) : List (Nat × β) :=
  w.entities.filterMap (fun e =>
    match (w.comps e).marker, get (w.comps e) with
    | some m, some c => some (m, f c)
    | _, _ => none)

/-- specs SerializeComponents for a component type whose conversion can
fail: ConvertSaveload panics (none) when a referenced entity carries no
marker. -/
def serializeCompM (w : World) (get : Comps → Option α) (f : α → Option β) :
    Option (List (Nat × β)) :=
  w.entities.foldlM (fun acc e =>
    match (w.comps e).marker, get (w.comps e) with
    | some m, some c => (f c).map (fun b => acc ++ [(m, b)])
    | _, _ => some acc) []

/-- saveload_system.rs lines 43-86: serialize every persisted component
type of the world (the serialize_individually! block). -/
def serializeWorld (w : World) : Option SaveData := do
  let wants_melee ← serializeCompM w (fun c => c.wants_melee)
    (fun wm => (w.comps wm.target).marker)
  let in_backpack ← serializeCompM w (fun c => c.in_backpack)
    (fun bp => (w.comps bp.owner).marker)
  let wants_to_pickup ← serializeCompM w (fun c => c.wants_to_pickup)
    (fun wp => ((w.comps wp.collected_by).marker).bind (fun a =>
      ((w.comps wp.item).marker).map (fun b => (a, b))))
  let wants_to_use ← serializeCompM w (fun c => c.wants_to_use)
    (fun wu => ((w.comps wu.item).marker).map (fun m => (m, wu.target)))
  let wants_to_drop ← serializeCompM w (fun c => c.wants_to_drop)
    (fun wd => (w.comps wd.item).marker)
  let equipped ← serializeCompM w (fun c => c.equipped)
    (fun eq => ((w.comps eq.owner).marker).map (fun m => (m, eq.slot)))
  let wants_to_remove ← serializeCompM w (fun c => c.wants_to_remove)
    (fun wr => (w.comps wr.item).marker)
  some
    { positions := serializeComp w (fun c => c.position) id
      renderables := serializeComp w (fun c => c.renderable) id
      players := serializeComp w (fun c => c.player) id
      viewsheds := serializeComp w (fun c => c.viewshed) id
      monsters := serializeComp w (fun c => c.monster) id
      names := serializeComp w (fun c => c.name) id
      blocks_tile := serializeComp w (fun c => c.blocks_tile) id
      combat_stats := serializeComp w (fun c => c.combat_stats) id
      suffer_damage := serializeComp w (fun c => c.suffer_damage) id
      wants_melee := wants_melee
      items := serializeComp w (fun c => c.item) id
      consumables := serializeComp w (fun c => c.consumable) id
      ranged := serializeComp w (fun c => c.ranged) id
      inflicts_damage := serializeComp w (fun c => c.inflicts_damage) id
      area_of_effect := serializeComp w (fun c => c.area_of_effect) id
      confusion := serializeComp w (fun c => c.confusion) id
      provides_healing := serializeComp w (fun c => c.provides_healing) id
      in_backpack := in_backpack
      wants_to_pickup := wants_to_pickup
      wants_to_use := wants_to_use
      wants_to_drop := wants_to_drop
      helpers := serializeComp w (fun c => c.serialization_helper)
        (fun h => ⟨h.map.toSave, h.game_log⟩)
      equippables := serializeComp w (fun c => c.equippable) id
      equipped := equipped
      melee_power_bonuses := serializeComp w (fun c => c.melee_power_bonus) id
      defense_bonuses := serializeComp w (fun c => c.defense_bonus) id
      wants_to_remove := wants_to_remove
      particle_lifetimes := serializeComp w (fun c => c.particle_lifetime) id
      hunger_clocks := serializeComp w (fun c => c.hunger_clock) id
      provides_food := serializeComp w (fun c => c.provides_food) id }

/-- saveload_system.rs lines 29-90: save_game — snapshot the Map and
GameLog resources, smuggle them through a freshly created, marked
helper entity, serialize every component type, then delete the
helper. -/
def save_game (w : World) : Option (World × SaveData) :=
  let map_copy := w.map
  let gamelog_copy := w.log
  let r := createEntity { w with next_marker := w.next_marker + 1 }
    { serialization_helper := some ⟨map_copy, gamelog_copy⟩
      marker := some w.next_marker }
  match serializeWorld r.1 with
  | none => none
  | some data => some (deleteEntity r.1 r.2, data)

/-- specs SimpleMarkerAllocator::retrieve_entity: return the live entity
already carrying the marker, or create a fresh entity carrying it
(bumping the allocator counter past the marker id). -/
def retrieveEntity (w : World) (m : Nat) : World × Entity :=
  match w.entities.find? (fun e => (w.comps e).marker == some m) with
  | some e => (w, e)
  | none =>
    let e := w.next_entity
    ({ w with
        next_entity := w.next_entity + 1
        entities := w.entities ++ [e]
        comps := fun x => if x = e then { marker := some m } else w.comps x
        next_marker := max w.next_marker (m + 1) }, e)

/-- specs DeserializeComponents for one component type: for each
(marker, data) entry, get-or-create the marked entity, convert the
serialized data back (the conversion may itself get-or-create entities
for the marker ids in entity-reference fields), and insert the
component. -/
def loadComp (set : Comps → α → Comps) (conv : World → β → World × α)
    (w : World) (l : List (Nat × β)) : World :=
  l.foldl (fun acc p =>
    let r := retrieveEntity acc p.1
    let cv := conv r.1 p.2
    cv.1.updComps r.2 (fun c => set c cv.2)) w

/-- Conversion for components without entity references. -/
def convPure (w : World) (b : α) : World × α := (w, b)

/-- Conversion resolving one marker id back to an entity. -/
def convRef (mk : Nat → α) (w : World) (m : Nat) : World × α :=
  let r := retrieveEntity w m
  (r.1, mk r.2)

/-- Conversion resolving the first component of a pair. -/
def convRefPair (mk : Entity → γ → α) (w : World) (p : Nat × γ) : World × α :=
  let r := retrieveEntity w p.1
  (r.1, mk r.2 p.2)

/-- Conversion resolving two marker ids back to entities (the
WantsToPickupItem shape: both fields are entity references). -/
def convRef2 (mk : Entity → Entity → α) (w : World) (p : Nat × Nat) : World × α :=
  let r1 := retrieveEntity w p.1
  let r2 := retrieveEntity r1.1 p.2
  (r2.1, mk r1.2 r2.2)

/-- saveload_system.rs lines 111-199: load_game — delete every existing
entity, deserialize each component type in declared order, restore the
Map (tile_content re-created empty) and GameLog (prepending "Loaded game
from save") from each helper entity found, restore the player-entity
and player-point resources from the (player, position) join, and delete
the helper entities. -/
def load_game (w : World) (data : SaveData) : World :=
  let w0 := w.entities.foldl deleteEntity w
  let w1 := loadComp (fun c v => { c with position := some v }) convPure w0 data.positions
  let w2 := loadComp (fun c v => { c with renderable := some v }) convPure w1 data.renderables
  let w3 := loadComp (fun c v => { c with player := some v }) convPure w2 data.players
  let w4 := loadComp (fun c v => { c with viewshed := some v }) convPure w3 data.viewsheds
  let w5 := loadComp (fun c v => { c with monster := some v }) convPure w4 data.monsters
  let w6 := loadComp (fun c v => { c with name := some v }) convPure w5 data.names
  let w7 := loadComp (fun c v => { c with blocks_tile := some v }) convPure w6 data.blocks_tile
  let w8 := loadComp (fun c v => { c with combat_stats := some v }) convPure w7 data.combat_stats
  let w9 := loadComp (fun c v => { c with suffer_damage := some v }) convPure w8 data.suffer_damage
  let w10 := loadComp (fun c v => { c with wants_melee := some v })
    (convRef WantsToMelee.mk) w9 data.wants_melee
  let w11 := loadComp (fun c v => { c with item := some v }) convPure w10 data.items
  let w12 := loadComp (fun c v => { c with consumable := some v }) convPure w11 data.consumables
  let w13 := loadComp (fun c v => { c with ranged := some v }) convPure w12 data.ranged
  let w14 := loadComp (fun c v => { c with inflicts_damage := some v })
    convPure w13 data.inflicts_damage
  let w15 := loadComp (fun c v => { c with area_of_effect := some v })
    convPure w14 data.area_of_effect
  let w16 := loadComp (fun c v => { c with confusion := some v }) convPure w15 data.confusion
  let w17 := loadComp (fun c v => { c with provides_healing := some v })
    convPure w16 data.provides_healing
  let w18 := loadComp (fun c v => { c with in_backpack := some v })
    (convRef InBackpack.mk) w17 data.in_backpack
  let w19 := loadComp (fun c v => { c with wants_to_pickup := some v })
    (convRef2 WantsToPickupItem.mk) w18 data.wants_to_pickup
  let w20 := loadComp (fun c v => { c with wants_to_use := some v })
    (convRefPair WantsToUseItem.mk) w19 data.wants_to_use
  let w21 := loadComp (fun c v => { c with wants_to_drop := some v })
    (convRef WantsToDropItem.mk) w20 data.wants_to_drop
  let w22 := loadComp (fun c v => { c with serialization_helper := some v })
    (fun wld (h : HelperSave) => (wld, SerializationHelper.mk h.map.toMap h.game_log))
    w21 data.helpers
  let w23 := loadComp (fun c v => { c with equippable := some v })
    convPure w22 data.equippables
  let w24 := loadComp (fun c v => { c with equipped := some v })
    (convRefPair Equipped.mk) w23 data.equipped
  let w25 := loadComp (fun c v => { c with melee_power_bonus := some v })
    convPure w24 data.melee_power_bonuses
  let w26 := loadComp (fun c v => { c with defense_bonus := some v })
    convPure w25 data.defense_bonuses
  let w27 := loadComp (fun c v => { c with wants_to_remove := some v })
    (convRef WantsToRemoveItem.mk) w26 data.wants_to_remove
  let w28 := loadComp (fun c v => { c with particle_lifetime := some v })
    convPure w27 data.particle_lifetimes
  let w29 := loadComp (fun c v => { c with hunger_clock := some v })
    convPure w28 data.hunger_clocks
  let w30 := loadComp (fun c v => { c with provides_food := some v })
    convPure w29 data.provides_food
  let helperJoin := w30.entities.filterMap (fun e =>
    ((w30.comps e).serialization_helper).map (fun h => (e, h)))
  let w31 := helperJoin.foldl (fun acc p =>
    { acc with
      map := { p.2.map with tile_content := List.replicate MAP_COUNT [] }
      log := ⟨"Loaded game from save" :: p.2.game_log.entries⟩ }) w30
  let resources_only := helperJoin.map Prod.fst
  let playerJoin := w31.entities.filterMap (fun e =>
    match (w31.comps e).player, (w31.comps e).position with
    | some _, some pos => some (e, pos)
    | _, _ => none)
  let w32 := playerJoin.foldl (fun acc p =>
    { acc with player_point := (p.2.x, p.2.y), player_entity := p.1 }) w31
  resources_only.foldl deleteEntity w32

/-- gui.rs is not under src/; main.rs matches on these item-menu
outcomes. -/
inductive ItemMenuResult where
  | Cancel
  | NoResponse
  | Selected
  deriving Repr, DecidableEq

/-- gui.rs is not under src/; main.rs matches on these game-over-screen
outcomes. -/
inductive GameOverResult where
  | NoSelection
  | QuitToMenu
  deriving Repr, DecidableEq

/-- gui.rs is not under src/; main.rs matches on these main-menu
outcomes. -/
inductive MainMenuResult where
  | NoSelection (selected : MainMenuSelection)
  | Selected (selected : MainMenuSelection)
  deriving Repr, DecidableEq

/-- The per-frame inputs of tick that come from modules not under src/:
the gui modal results, player.rs player_input, the system
implementations whose sources are absent (visibility, monster AI, map
indexing, the four inventory systems), the random stream, and the
spawner bundles used on map regeneration.  Quantifying theorems over
this record covers every behaviour of the missing modules. -/
structure TickCtx where
  main_menu_result : MainMenuResult
  game_over_result : GameOverResult
  inventory_result : ItemMenuResult × Option Entity
  drop_item_result : ItemMenuResult × Option Entity
  remove_item_result : ItemMenuResult × Option Entity
  ranged_target_result : ItemMenuResult × Option (Int × Int)
  player_input : World → World × RunState
  visibility_run : World → World
  monster_ai_run : World → World
  map_indexing_run : World → World
  item_collection_run : World → World
  item_use_run : World → World
  item_drop_run : World → World
  item_remove_run : World → World
  rng : Nat → Nat
  spawned : List Comps
  starting_stats : CombatStats

/-- The driver state: the world plus the save file at ./savegame.json
(none when absent). -/
structure GState where
  world : World
  save_file : Option SaveData

/-- main.rs lines 73-87: State::run_systems — the fixed system order
Visibility, MonsterAI, MapIndexing, MeleeCombat, Damage, ItemCollection,
ItemUse, ItemDrop, ItemRemove, then maintain (our structural changes
apply immediately, so maintain is the identity). -/
def run_systems (ctx : TickCtx) (w : World) : Option World :=
  let w1 := ctx.visibility_run w
  let w2 := ctx.monster_ai_run w1
  let w3 := ctx.map_indexing_run w2
  match meleeCombatRun w3 with
  | none => none
  | some w4 =>
    let w5 := damageSystemRun w4
    let w6 := ctx.item_collection_run w5
    let w7 := ctx.item_use_run w6
    let w8 := ctx.item_drop_run w7
    some (ctx.item_remove_run w8)

/-- main.rs lines 236-429: the run-state dispatch of State::tick — from
reading the RunState resource through the big match, yielding the
post-branch world, the new_run_state value to commit, and the save
file.  none models both ::std::process::exit(0) on Quit and any panic
inside a branch. -/
def tickBranch (g : GState) (ctx : TickCtx) : Option (World × RunState × Option SaveData) :=
  let w := g.world
  let new_run_state := w.runstate
  match new_run_state with
  | RunState.GameOver =>
    match ctx.game_over_result with
    | GameOverResult.NoSelection => some (w, new_run_state, g.save_file)
    | GameOverResult.QuitToMenu =>
      match game_over_cleanup w ctx.rng ctx.spawned ctx.starting_stats with
      | none => none
      | some w1 => some (w1, RunState.MainMenu MainMenuSelection.NewGame, g.save_file)
  | RunState.SaveGame =>
    match save_game w with
    | none => none
    | some r => some (r.1, RunState.MainMenu MainMenuSelection.LoadGame, some r.2)
  | RunState.MainMenu _ =>
    match ctx.main_menu_result with
    | MainMenuResult.NoSelection selected =>
      some (w, RunState.MainMenu selected, g.save_file)
    | MainMenuResult.Selected selected =>
      match selected with
      | MainMenuSelection.NewGame =>
        match game_over_cleanup w ctx.rng ctx.spawned ctx.starting_stats with
        | none => none
        | some w1 => some (w1, RunState.PreRun, g.save_file)
      | MainMenuSelection.LoadGame =>
        match g.save_file with
        | none => none
        | some data => some (load_game w data, RunState.AwaitingInput, none)
      | MainMenuSelection.Quit => none
  | RunState.PreRun =>
    (run_systems ctx w).map (fun w1 => (w1, RunState.AwaitingInput, g.save_file))
  | RunState.AwaitingInput =>
    let r := ctx.player_input w
    some (r.1, r.2, g.save_file)
  | RunState.PlayerTurn =>
    (run_systems ctx w).map (fun w1 => (w1, RunState.MonsterTurn, g.save_file))
  | RunState.MonsterTurn =>
    (run_systems ctx w).map (fun w1 => (w1, RunState.AwaitingInput, g.save_file))
  | RunState.ShowInventory =>
    match ctx.inventory_result.1 with
    | ItemMenuResult.Cancel => some (w, RunState.AwaitingInput, g.save_file)
    | ItemMenuResult.NoResponse => some (w, new_run_state, g.save_file)
    | ItemMenuResult.Selected =>
      match ctx.inventory_result.2 with
      | none => none
      | some item_entity =>
        match w.ranged item_entity with
        | some is_item_ranged =>
          some (w, RunState.ShowTargeting is_item_ranged.range item_entity, g.save_file)
        | none =>
          some (w.updComps w.player_entity
              (fun c => { c with wants_to_use := some ⟨item_entity, none⟩ }),
            RunState.PlayerTurn, g.save_file)
  | RunState.ShowRemoveItem =>
    match ctx.remove_item_result.1 with
    | ItemMenuResult.Cancel => some (w, RunState.AwaitingInput, g.save_file)
    | ItemMenuResult.NoResponse => some (w, new_run_state, g.save_file)
    | ItemMenuResult.Selected =>
      match ctx.remove_item_result.2 with
      | none => none
      | some item_entity =>
        some (w.updComps w.player_entity
            (fun c => { c with wants_to_remove := some ⟨item_entity⟩ }),
          RunState.PlayerTurn, g.save_file)
  | RunState.ShowTargeting _ item =>
    match ctx.ranged_target_result.1 with
    | ItemMenuResult.Cancel => some (w, RunState.AwaitingInput, g.save_file)
    | ItemMenuResult.NoResponse => some (w, new_run_state, g.save_file)
    | ItemMenuResult.Selected =>
      some (w.updComps w.player_entity
          (fun c => { c with wants_to_use := some ⟨item, ctx.ranged_target_result.2⟩ }),
        RunState.PlayerTurn, g.save_file)
  | RunState.ShowDropItem =>
    match ctx.drop_item_result.1 with
    | ItemMenuResult.Cancel => some (w, RunState.AwaitingInput, g.save_file)
    | ItemMenuResult.NoResponse => some (w, new_run_state, g.save_file)
    | ItemMenuResult.Selected =>
      match ctx.drop_item_result.2 with
      | none => none
      | some item_entity =>
        some (w.updComps w.player_entity
            (fun c => { c with wants_to_drop := some ⟨item_entity⟩ }),
          RunState.PlayerTurn, g.save_file)
  | RunState.NextLevel =>
    (goto_next_level w ctx.rng ctx.spawned).map
      (fun w1 => (w1, RunState.PreRun, g.save_file))

/-- main.rs lines 235-436: State::tick — run the branch dispatch, commit
new_run_state to the RunState resource, then run
damage_system::delete_the_dead. -/
def tick (g : GState) (ctx : TickCtx) : Option GState :=
  match tickBranch g ctx with
  | none => none
  | some r => some ⟨delete_the_dead { r.1 with runstate := r.2.1 }, r.2.2⟩

/-! ## Theorems -/

/-- C6 counterexample: on the all-unblocked 80x43 map, the source
accepts x = 79 = width-1 as an exit target, which the claimed bound
1 <= x < width-1 rejects. -/
theorem is_exit_valid_border_counterexample :
    (initialMap 1).is_exit_valid 79 1 = true ∧
      ¬(1 ≤ (79 : Int) ∧ (79 : Int) < (initialMap 1).width - 1 ∧
        1 ≤ (1 : Int) ∧ (1 : Int) < (initialMap 1).height - 1 ∧
        (initialMap 1).blocked ((initialMap 1).xy_idx 79 1) = false) := by
  constructor
  · decide
  · intro h
    have := h.2.1
    have hw : (initialMap 1).width = 80 := rfl
    omega

/-- C6 (amended): is_exit_valid accepts exactly the coordinates with
1 <= x <= width-1 and 1 <= y <= height-1 whose blocked flag is false —
the upper bounds are inclusive, unlike the claimed strict ones. -/
theorem is_exit_valid_spec (m : Map) (x y : Int) :
    m.is_exit_valid x y = true ↔
      (1 ≤ x ∧ x ≤ m.width - 1 ∧ 1 ≤ y ∧ y ≤ m.height - 1 ∧
        m.blocked (m.xy_idx x y) = false) := by
  unfold Map.is_exit_valid
  split_ifs with h
  · simp only [decide_eq_true_eq, Bool.or_eq_true] at h
    constructor
    · intro hf
      exact absurd hf (by simp)
    · intro ⟨h1, h2, h3, h4, _⟩
      omega
  · simp only [decide_eq_true_eq, Bool.or_eq_true, not_or, not_lt] at h
    simp only [Bool.not_eq_true']
    constructor
    · intro hb
      exact ⟨by omega, by omega, by omega, by omega, hb⟩
    · intro hcl
      exact hcl.2.2.2.2

/-- The offensive-bonus fold is the sum, over all entities, of the
equipped melee power bonuses owned by the attacker. -/
lemma offensiveBonus_eq_sum (w : World) (a : Entity) :
    offensiveBonus w a = (w.entities.map (fun e =>
      match w.melee_power_bonuses e, w.equipped e with
      | some power_bonus, some equipped_by =>
          if equipped_by.owner = a then power_bonus.power else 0
      | _, _ => 0)).sum := by
  unfold offensiveBonus
  generalize w.entities = l
  suffices h : ∀ (init : Int), (l.foldl (fun acc e =>
      match w.melee_power_bonuses e, w.equipped e with
      | some power_bonus, some equipped_by =>
          if equipped_by.owner = a then acc + power_bonus.power else acc
      | _, _ => acc) init) = init + (l.map (fun e =>
      match w.melee_power_bonuses e, w.equipped e with
      | some power_bonus, some equipped_by =>
          if equipped_by.owner = a then power_bonus.power else 0
      | _, _ => 0)).sum by
    simpa using h 0
  induction l with
  | nil => intro init; simp
  | cons e t ih =>
    intro init
    simp only [List.foldl_cons, List.map_cons, List.sum_cons, ih]
    rcases hpb : w.melee_power_bonuses e with _ | pb <;>
      rcases heq : w.equipped e with _ | eqp <;> simp <;> split_ifs <;> ring

/-- The defensive-bonus fold is the sum, over all entities, of the
equipped defense bonuses owned by the target. -/
lemma defensiveBonus_eq_sum (w : World) (t : Entity) :
    defensiveBonus w t = (w.entities.map (fun e =>
      match w.defense_bonuses e, w.equipped e with
      | some defense_bonus, some equipped_by =>
          if equipped_by.owner = t then defense_bonus.defense else 0
      | _, _ => 0)).sum := by
  unfold defensiveBonus
  generalize w.entities = l
  suffices h : ∀ (init : Int), (l.foldl (fun acc e =>
      match w.defense_bonuses e, w.equipped e with
      | some defense_bonus, some equipped_by =>
          if equipped_by.owner = t then acc + defense_bonus.defense else acc
      | _, _ => acc) init) = init + (l.map (fun e =>
      match w.defense_bonuses e, w.equipped e with
      | some defense_bonus, some equipped_by =>
          if equipped_by.owner = t then defense_bonus.defense else 0
      | _, _ => 0)).sum by
    simpa using h 0
  induction l with
  | nil => intro init; simp
  | cons e l2 ih =>
    intro init
    simp only [List.foldl_cons, List.map_cons, List.sum_cons, ih]
    rcases hpb : w.defense_bonuses e with _ | db <;>
      rcases heq : w.equipped e with _ | eqp <;> simp <;> split_ifs <;> ring

/-- C1: for an attacker with WantsToMelee, Name and live CombatStats
whose target is alive and named, the melee pass body computes
damage = max 0 ((power + equipped melee bonuses) - (defense + equipped
defense bonuses)); a zero yields only the "is unable to hurt" log line,
a positive damage yields the "hits ... for ... hp." line and records
the damage on the target's SufferDamage. -/
theorem melee_attack_spec (w : World) (a : Entity) (wm : WantsToMelee)
    (an : Name) (st ts : CombatStats) (tn : Name)
    (hja : w.wants_melee a = some wm) (hjn : w.names a = some an)
    (hjs : w.combat_stats a = some st)
    (hst : st.hp > 0)
    (hts : w.combat_stats wm.target = some ts) (hthp : ts.hp > 0)
    (htn : w.names wm.target = some tn) :
    ∃ w', meleeAttack w a wm an st = some w' ∧
      offensiveBonus w a = (w.entities.map (fun e =>
        match w.melee_power_bonuses e, w.equipped e with
        | some power_bonus, some equipped_by =>
            if equipped_by.owner = a then power_bonus.power else 0
        | _, _ => 0)).sum ∧
      defensiveBonus w wm.target = (w.entities.map (fun e =>
        match w.defense_bonuses e, w.equipped e with
        | some defense_bonus, some equipped_by =>
            if equipped_by.owner = wm.target then defense_bonus.defense else 0
        | _, _ => 0)).sum ∧
      (max 0 ((st.power + offensiveBonus w a) -
          (ts.defense + defensiveBonus w wm.target)) = 0 →
        w'.log.entries = (an.name ++ " is unable to hurt " ++ tn.name) :: w.log.entries ∧
        ∀ e, w'.suffer_damage e = w.suffer_damage e) ∧
      (0 < max 0 ((st.power + offensiveBonus w a) -
          (ts.defense + defensiveBonus w wm.target)) →
        w'.log.entries = (an.name ++ " hits " ++ tn.name ++ ", for " ++
          toString (max 0 ((st.power + offensiveBonus w a) -
            (ts.defense + defensiveBonus w wm.target))) ++ " hp.") :: w.log.entries ∧
        w'.suffer_damage wm.target =
          some ⟨max 0 ((st.power + offensiveBonus w a) -
            (ts.defense + defensiveBonus w wm.target))⟩ ∧
        ∀ e, e ≠ wm.target → w'.suffer_damage e = w.suffer_damage e) := by
  unfold meleeAttack
  rw [if_pos hst, hts, htn]
  simp only [if_pos hthp]
  split_ifs with hd
  · refine ⟨_, rfl, offensiveBonus_eq_sum w a, defensiveBonus_eq_sum w wm.target, ?_, ?_⟩
    · intro _
      exact ⟨rfl, fun e => rfl⟩
    · intro hpos
      omega
  · refine ⟨_, rfl, offensiveBonus_eq_sum w a, defensiveBonus_eq_sum w wm.target, ?_, ?_⟩
    · intro h0
      exact absurd h0 hd
    · intro _
      refine ⟨rfl, ?_, ?_⟩
      · simp [World.suffer_damage, World.updComps]
      · intro e he
        simp [World.suffer_damage, World.updComps, he]

/-- The worked example from the spec (§8.3): attacker power 10 with an
equipped +2 melee bonus against defense 3 with an equipped +1 defense
bonus. -/
def meleeExampleWorld : World :=
  { next_entity := 4
    entities := [0, 1, 2, 3]
    comps := fun e =>
      if e = 0 then
        { name := some ⟨"Hero"⟩, combat_stats := some ⟨30, 30, 2, 10⟩
          wants_melee := some ⟨1⟩ }
      else if e = 1 then
        { name := some ⟨"Orc"⟩, combat_stats := some ⟨16, 16, 3, 4⟩ }
      else if e = 2 then
        { melee_power_bonus := some ⟨2⟩, equipped := some ⟨0, EquipmentSlot.Melee⟩ }
      else if e = 3 then
        { defense_bonus := some ⟨1⟩, equipped := some ⟨1, EquipmentSlot.Shield⟩ }
      else {}
    next_marker := 0
    map := initialMap 1
    log := ⟨[]⟩
    runstate := RunState.PreRun
    player_entity := 0
    player_point := (0, 0) }

/-- Updating one entity's components changes nothing observed by a field
accessor that the update function commutes with. -/
lemma updComps_field (w : World) (t : Entity) (f : Comps → Comps) (g : Comps → β)
    (hp : ∀ c, g (f c) = g c) (e : Entity) :
    g ((w.updComps t f).comps e) = g (w.comps e) := by
  simp only [World.updComps]
  split_ifs with h
  · exact hp _
  · rfl

/-- The offensive bonus only reads the entity list and the
melee-power-bonus and equipped fields. -/
lemma offensiveBonus_congr (w w' : World) (a : Entity)
    (hent : w'.entities = w.entities)
    (hpb : ∀ e, (w'.comps e).melee_power_bonus = (w.comps e).melee_power_bonus)
    (heq : ∀ e, (w'.comps e).equipped = (w.comps e).equipped) :
    offensiveBonus w' a = offensiveBonus w a := by
  unfold offensiveBonus World.melee_power_bonuses World.equipped
  rw [hent]
  apply List.foldl_ext
  intro acc e _
  rw [hpb e, heq e]

/-- The defensive bonus only reads the entity list and the
defense-bonus and equipped fields. -/
lemma defensiveBonus_congr (w w' : World) (t : Entity)
    (hent : w'.entities = w.entities)
    (hdb : ∀ e, (w'.comps e).defense_bonus = (w.comps e).defense_bonus)
    (heq : ∀ e, (w'.comps e).equipped = (w.comps e).equipped) :
    defensiveBonus w' t = defensiveBonus w t := by
  unfold defensiveBonus World.defense_bonuses World.equipped
  rw [hent]
  apply List.foldl_ext
  intro acc e _
  rw [hdb e, heq e]

/-- A melee hit with positive damage: the exact world produced by the
loop body. -/
lemma meleeAttack_hit (w : World) (a t : Entity)
    (n : Name) (st ts : CombatStats) (tn : Name)
    (hst : st.hp > 0) (hts : w.combat_stats t = some ts) (hthp : ts.hp > 0)
    (htn : w.names t = some tn)
    (hd : ¬(max 0 ((st.power + offensiveBonus w a) -
      (ts.defense + defensiveBonus w t)) = 0)) :
    meleeAttack w a ⟨t⟩ n st = some
      (World.updComps
        { w with log := ⟨(n.name ++ " hits " ++ tn.name ++ ", for " ++
            toString (max 0 ((st.power + offensiveBonus w a) -
              (ts.defense + defensiveBonus w t))) ++ " hp.") :: w.log.entries⟩ }
        t
        (fun c => { c with suffer_damage := some ⟨max 0 ((st.power + offensiveBonus w a) -
          (ts.defense + defensiveBonus w t))⟩ })) := by
  unfold meleeAttack
  rw [show (({ target := t } : WantsToMelee).target) = t from rfl]
  rw [if_pos hst, hts, htn]
  simp only [if_pos hthp]
  rw [if_neg hd]

/-- C1 witness: on the worked example the attack lands for
max 0 ((10+2)-(3+1)) = 8 hp, with the exact log line and SufferDamage. -/
theorem melee_attack_spec_witness :
    ∃ w', meleeAttack meleeExampleWorld 0 ⟨1⟩ ⟨"Hero"⟩ ⟨30, 30, 2, 10⟩ = some w' ∧
      w'.log.entries = ["Hero hits Orc, for 8 hp."] ∧
      w'.suffer_damage 1 = some ⟨8⟩ := by
  obtain ⟨w', hw, _, _, _, hpos⟩ :=
    melee_attack_spec meleeExampleWorld 0 ⟨1⟩ ⟨"Hero"⟩ ⟨30, 30, 2, 10⟩ ⟨16, 16, 3, 4⟩
      ⟨"Orc"⟩ (by decide) (by decide) (by decide) (by decide) (by decide) (by decide)
      (by decide)
  have hob : offensiveBonus meleeExampleWorld 0 = 2 := by decide
  have hdb : defensiveBonus meleeExampleWorld 1 = 1 := by decide
  rw [hob, hdb] at hpos
  obtain ⟨hlog, hsuf, _⟩ := hpos (by decide)
  exact ⟨w', hw, by simpa using hlog, by simpa using hsuf⟩

/-- Projection of updComps. -/
lemma comps_updComps (w : World) (e : Entity) (f : Comps → Comps) (x : Entity) :
    (w.updComps e f).comps x = if x = e then f (w.comps x) else w.comps x := rfl

/-- updComps leaves the entity list unchanged. -/
lemma entities_updComps (w : World) (e : Entity) (f : Comps → Comps) :
    (w.updComps e f).entities = w.entities := rfl

/-- Projection of deleteEntity's component store. -/
lemma comps_deleteEntity (w : World) (e : Entity) (x : Entity) :
    (deleteEntity w e).comps x = if x = e then {} else w.comps x := rfl

/-- deleteEntity filters the entity list. -/
lemma entities_deleteEntity (w : World) (e : Entity) :
    (deleteEntity w e).entities = w.entities.filter (fun x => x ≠ e) := rfl

/-- damageOne only rewrites the victim's CombatStats (and the map). -/
lemma damageOne_comps (w : World) (e : Entity) (stats : CombatStats)
    (damage : SufferDamage) (x : Entity) :
    (damageOne w e stats damage).comps x =
      if x = e then
        { w.comps x with combat_stats := some { stats with hp := stats.hp - damage.amount } }
      else w.comps x := by
  unfold damageOne
  rcases hp : w.positions e with _ | pos
  · rfl
  · rfl

/-- damageOne leaves the entity list unchanged. -/
lemma damageOne_entities (w : World) (e : Entity) (stats : CombatStats)
    (damage : SufferDamage) :
    (damageOne w e stats damage).entities = w.entities := by
  unfold damageOne
  rcases hp : w.positions e with _ | pos
  · rfl
  · rfl

/-- One damage iteration leaves every other entity's components
unchanged. -/
lemma damageStep_comps_other (acc : World) (e t : Entity) (h : t ≠ e) :
    (damageStep acc e).comps t = acc.comps t := by
  unfold damageStep
  rcases hcs : acc.combat_stats e with _ | stats
  · rfl
  · rcases hsd : acc.suffer_damage e with _ | dmg
    · rfl
    · rw [damageOne_comps, if_neg h]

/-- One damage iteration leaves the entity list unchanged. -/
lemma damageStep_entities (acc : World) (e : Entity) :
    (damageStep acc e).entities = acc.entities := by
  unfold damageStep
  rcases hcs : acc.combat_stats e with _ | stats
  · rfl
  · rcases hsd : acc.suffer_damage e with _ | dmg
    · rfl
    · rw [damageOne_entities]

/-- Iterations of the damage loop on other entities leave an absent
entity's components untouched. -/
lemma damage_fold_other (t : Entity) (l : List Entity) (ht : t ∉ l) :
    ∀ acc : World, ((l.foldl damageStep acc).comps t) = acc.comps t := by
  induction l with
  | nil => intro acc; rfl
  | cons e l2 ih =>
    intro acc
    have hne : t ≠ e := fun h => ht (h ▸ List.mem_cons_self e l2)
    have ht2 : t ∉ l2 := fun h => ht (List.mem_cons_of_mem e h)
    simp only [List.foldl_cons]
    rw [ih ht2 (damageStep acc e), damageStep_comps_other acc e t hne]

/-- The damage loop on a world whose t carries SufferDamage d and stats
ts subtracts exactly that amount from t's hp. -/
lemma damage_fold_only_t (t : Entity) (ts : CombatStats) (d : SufferDamage)
    (l : List Entity) :
    ∀ acc : World, l.Nodup → t ∈ l →
      acc.combat_stats t = some ts → acc.suffer_damage t = some d →
      ((l.foldl damageStep acc).comps t).combat_stats =
        some { ts with hp := ts.hp - d.amount } := by
  induction l with
  | nil =>
    intro acc _ htl _ _
    exact absurd htl (List.not_mem_nil t)
  | cons e l2 ih =>
    intro acc hnd htl hcs hsd
    simp only [List.foldl_cons]
    by_cases he : t = e
    · subst he
      have hnotin : t ∉ l2 := (List.nodup_cons.mp hnd).1
      have hstep : (damageStep acc t).comps t =
          { acc.comps t with
            combat_stats := some { ts with hp := ts.hp - d.amount } } := by
        unfold damageStep
        rw [hcs, hsd, damageOne_comps, if_pos rfl]
      rw [damage_fold_other t l2 hnotin (damageStep acc t), hstep]
    · have hm : t ∈ l2 := by
        rcases List.mem_cons.mp htl with h | h
        · exact absurd h he
        · exact h
      have hpre : (damageStep acc e).comps t = acc.comps t :=
        damageStep_comps_other acc e t he
      refine ih (damageStep acc e) (List.nodup_cons.mp hnd).2 hm ?_ ?_
      · unfold World.combat_stats at hcs ⊢
        rw [hpre]
        exact hcs
      · unfold World.suffer_damage at hsd ⊢
        rw [hpre]
        exact hsd

/-- Two attackers striking the same target in one melee pass: entities
0 (power 3) and 1 (power 5) both target entity 2 (hp 10, defense 0). -/
def doubleHitWorld : World :=
  { next_entity := 3
    entities := [0, 1, 2]
    comps := fun e =>
      if e = 0 then
        { name := some ⟨"A"⟩, combat_stats := some ⟨12, 12, 0, 3⟩
          wants_melee := some ⟨2⟩ }
      else if e = 1 then
        { name := some ⟨"B"⟩, combat_stats := some ⟨12, 12, 0, 5⟩
          wants_melee := some ⟨2⟩ }
      else if e = 2 then
        { name := some ⟨"C"⟩, combat_stats := some ⟨16, 10, 0, 1⟩ }
      else {}
    next_marker := 0
    map := initialMap 1
    log := ⟨[]⟩
    runstate := RunState.MonsterTurn
    player_entity := 0
    player_point := (0, 0) }

/-- C2 counterexample: after hits of 3 then 5 hp in one melee pass, the
damage pass leaves the target at hp 10 - 5 = 5, not 10 - (3 + 5) = 2 —
the second insert REPLACED the first SufferDamage instead of summing. -/
theorem suffer_damage_not_accumulated :
    ((meleeCombatRun doubleHitWorld).map (fun w1 =>
        ((damageSystemRun w1).combat_stats 2).map (fun s => s.hp))) = some (some 5) ∧
      ((10 : Int) - (3 + 5) ≠ 5) := by
  constructor
  · decide
  · decide

/-- C2 (amended): when several melee hits land on one target in the same
combat pass, each SufferDamage insert replaces the previous one, so only
the LAST hit's damage is recorded and the damage pass subtracts exactly
that amount from the target's hp. -/
theorem suffer_damage_last_hit_wins (w : World) (a1 a2 t : Entity)
    (n1 n2 tn : Name) (st1 st2 ts : CombatStats)
    (hjoin : meleeJoin w = [(a1, ⟨t⟩, n1, st1), (a2, ⟨t⟩, n2, st2)])
    (h1 : st1.hp > 0) (h2 : st2.hp > 0)
    (hts : w.combat_stats t = some ts) (hthp : ts.hp > 0)
    (htn : w.names t = some tn)
    (hsuf : ∀ e, w.suffer_damage e = none)
    (htin : t ∈ w.entities) (hnd : w.entities.Nodup)
    (hd1 : 0 < max 0 ((st1.power + offensiveBonus w a1) - (ts.defense + defensiveBonus w t)))
    (hd2 : 0 < max 0 ((st2.power + offensiveBonus w a2) - (ts.defense + defensiveBonus w t))) :
    ∃ w', meleeCombatRun w = some w' ∧
      w'.suffer_damage t = some ⟨max 0 ((st2.power + offensiveBonus w a2) -
        (ts.defense + defensiveBonus w t))⟩ ∧
      ((damageSystemRun w').combat_stats t).map (fun s => s.hp) =
        some (ts.hp - max 0 ((st2.power + offensiveBonus w a2) -
          (ts.defense + defensiveBonus w t))) := by
  have h1eq := meleeAttack_hit w a1 t n1 st1 ts tn h1 hts hthp htn (by omega)
  set W1 := World.updComps
    { w with log := ⟨(n1.name ++ " hits " ++ tn.name ++ ", for " ++
        toString (max 0 ((st1.power + offensiveBonus w a1) -
          (ts.defense + defensiveBonus w t))) ++ " hp.") ::
        w.log.entries⟩ }
    t
    (fun c => { c with suffer_damage := some ⟨max 0 ((st1.power + offensiveBonus w a1) -
      (ts.defense + defensiveBonus w t))⟩ }) with hW1
  have hW1ent : W1.entities = w.entities := rfl
  have hW1pb : ∀ e, (W1.comps e).melee_power_bonus = (w.comps e).melee_power_bonus := by
    intro e
    rw [hW1, comps_updComps]
    split_ifs
    · rfl
    · rfl
  have hW1db : ∀ e, (W1.comps e).defense_bonus = (w.comps e).defense_bonus := by
    intro e
    rw [hW1, comps_updComps]
    split_ifs
    · rfl
    · rfl
  have hW1eq : ∀ e, (W1.comps e).equipped = (w.comps e).equipped := by
    intro e
    rw [hW1, comps_updComps]
    split_ifs
    · rfl
    · rfl
  have hW1cs : ∀ e, (W1.comps e).combat_stats = (w.comps e).combat_stats := by
    intro e
    rw [hW1, comps_updComps]
    split_ifs
    · rfl
    · rfl
  have hW1nm : ∀ e, (W1.comps e).name = (w.comps e).name := by
    intro e
    rw [hW1, comps_updComps]
    split_ifs
    · rfl
    · rfl
  have hob : offensiveBonus W1 a2 = offensiveBonus w a2 :=
    offensiveBonus_congr w W1 a2 hW1ent hW1pb hW1eq
  have hdb : defensiveBonus W1 t = defensiveBonus w t :=
    defensiveBonus_congr w W1 t hW1ent hW1db hW1eq
  have hW1ts : W1.combat_stats t = some ts := by
    unfold World.combat_stats
    rw [hW1cs]
    exact hts
  have hW1tn : W1.names t = some tn := by
    unfold World.names
    rw [hW1nm]
    exact htn
  have h2eq := meleeAttack_hit W1 a2 t n2 st2 ts tn h2 hW1ts hthp hW1tn
    (by rw [hob, hdb]; omega)
  rw [hob, hdb] at h2eq
  set D2 := max 0 ((st2.power + offensiveBonus w a2) - (ts.defense + defensiveBonus w t))
    with hD2
  set W2 := World.updComps
    { W1 with log := ⟨(n2.name ++ " hits " ++ tn.name ++ ", for " ++
        toString D2 ++ " hp.") :: W1.log.entries⟩ }
    t
    (fun c => { c with suffer_damage := some ⟨D2⟩ }) with hW2
  have hrun : meleeCombatRun w =
      some (W2.mapComps (fun c => { c with wants_melee := none })) := by
    unfold meleeCombatRun
    rw [hjoin]
    simp only [List.foldlM_cons, List.foldlM_nil]
    rw [h1eq]
    simp only [Option.bind_eq_bind, Option.some_bind]
    rw [h2eq]
    rfl
  refine ⟨_, hrun, ?_, ?_⟩
  · unfold World.suffer_damage World.mapComps
    simp only
    rw [hW2, comps_updComps, if_pos rfl]
  · set W3 := W2.mapComps (fun c => { c with wants_melee := none }) with hW3
    have hW3ent : W3.entities = w.entities := rfl
    have hW3cs : W3.combat_stats t = some ts := by
      unfold World.combat_stats
      rw [hW3]
      show ((W2.comps t)).combat_stats = some ts
      rw [hW2, comps_updComps, if_pos rfl]
      show (W1.comps t).combat_stats = some ts
      rw [hW1cs]
      exact hts
    have hW3sd : W3.suffer_damage t = some ⟨D2⟩ := by
      unfold World.suffer_damage
      rw [hW3]
      show ((W2.comps t)).suffer_damage = some ⟨D2⟩
      rw [hW2, comps_updComps, if_pos rfl]
    unfold damageSystemRun
    have hfold := damage_fold_only_t t ts ⟨D2⟩ W3.entities W3
      (by rw [hW3ent]; exact hnd) (by rw [hW3ent]; exact htin) hW3cs hW3sd
    unfold World.combat_stats World.mapComps
    simp only
    rw [hfold]
    rfl

/-- C2 amended witness: on the double-hit world, only the second hit's
5 damage lands, leaving the target at hp 5. -/
theorem suffer_damage_last_hit_wins_witness :
    ∃ w', meleeCombatRun doubleHitWorld = some w' ∧
      w'.suffer_damage 2 = some ⟨max 0 ((5 + offensiveBonus doubleHitWorld 1) -
        (0 + defensiveBonus doubleHitWorld 2))⟩ ∧
      ((damageSystemRun w').combat_stats 2).map (fun s => s.hp) =
        some (10 - max 0 ((5 + offensiveBonus doubleHitWorld 1) -
          (0 + defensiveBonus doubleHitWorld 2))) :=
  suffer_damage_last_hit_wins doubleHitWorld 0 1 2 ⟨"A"⟩ ⟨"B"⟩ ⟨"C"⟩
    ⟨12, 12, 0, 3⟩ ⟨12, 12, 0, 5⟩ ⟨16, 10, 0, 1⟩
    (by decide) (by decide) (by decide) (by decide) (by decide) (by decide)
    (by
      intro e
      show (doubleHitWorld.comps e).suffer_damage = none
      unfold doubleHitWorld
      simp only
      split_ifs
      · rfl
      · rfl
      · rfl
      · rfl)
    (by decide) (by decide) (by decide) (by decide)

/-- An entity the death sweep considers dead: it has CombatStats with
hp below 1. -/
def isDeadB (w : World) (e : Entity) : Bool :=
  match w.combat_stats e with
  | some stats => stats.hp < 1
  | none => false

/-- The entities the sweep queues for deletion: dead non-players, in
entity order. -/
def deadList (w : World) (l : List Entity) : List Entity :=
  l.filter (fun e => isDeadB w e && (w.players e).isNone)

/-- The "<name> is dead" lines the sweep produces, one per NAMED dead
non-player, in entity order. -/
def deadLines (w : World) (l : List Entity) : List String :=
  (deadList w l).filterMap (fun e => (w.names e).map (fun n => n.name ++ " is dead"))

/-- Whether some entity in the list is a dead player. -/
def deadAmong (w : World) (l : List Entity) : Bool :=
  l.any (fun e => isDeadB w e && (w.players e).isSome)

/-- Closed form of the death-sweep fold. -/
lemma sweep_fold (w : World) (l : List Entity) :
    ∀ acc : List Entity × GameLog × RunState,
      l.foldl (sweepStep w) acc =
        (acc.1 ++ deadList w l,
          ⟨(deadLines w l).reverse ++ acc.2.1.entries⟩,
          if deadAmong w l then RunState.GameOver else acc.2.2) := by
  induction l with
  | nil =>
    intro acc
    simp [deadList, deadLines, deadAmong]
  | cons e l2 ih =>
    intro acc
    simp only [List.foldl_cons]
    rw [ih (sweepStep w acc e)]
    rcases hcs : w.combat_stats e with _ | stats
    · have hstep : sweepStep w acc e = acc := by
        unfold sweepStep
        simp only [hcs]
      have hdead : isDeadB w e = false := by
        unfold isDeadB
        simp only [hcs]
      have h1 : deadList w (e :: l2) = deadList w l2 := by
        unfold deadList
        rw [List.filter_cons]
        simp [hdead]
      have h2 : deadLines w (e :: l2) = deadLines w l2 := by
        unfold deadLines
        rw [h1]
      have h3 : deadAmong w (e :: l2) = deadAmong w l2 := by
        unfold deadAmong
        simp [hdead]
      rw [hstep, h1, h2, h3]
    · by_cases hhp : stats.hp < 1
      · have hdead : isDeadB w e = true := by
          unfold isDeadB
          simp only [hcs]
          simpa using hhp
        rcases hpl : w.players e with _ | u
        · have h1 : deadList w (e :: l2) = e :: deadList w l2 := by
            unfold deadList
            rw [List.filter_cons]
            simp [hdead, hpl]
          have h3 : deadAmong w (e :: l2) = deadAmong w l2 := by
            unfold deadAmong
            simp [hdead, hpl]
          rcases hnm : w.names e with _ | n
          · have hstep : sweepStep w acc e = (acc.1 ++ [e], acc.2.1, acc.2.2) := by
              unfold sweepStep
              simp only [hcs, hpl, hnm]
              rw [if_pos hhp]
            have h2 : deadLines w (e :: l2) = deadLines w l2 := by
              unfold deadLines
              rw [h1]
              simp [hnm]
            rw [hstep, h1, h2, h3]
            simp [List.append_assoc]
          · have hstep : sweepStep w acc e =
                (acc.1 ++ [e], ⟨(n.name ++ " is dead") :: acc.2.1.entries⟩, acc.2.2) := by
              unfold sweepStep
              simp only [hcs, hpl, hnm]
              rw [if_pos hhp]
            have h2 : deadLines w (e :: l2) =
                (n.name ++ " is dead") :: deadLines w l2 := by
              unfold deadLines
              rw [h1]
              simp [hnm]
            rw [hstep, h1, h2, h3]
            simp [List.append_assoc]
        · have hstep : sweepStep w acc e = (acc.1, acc.2.1, RunState.GameOver) := by
            unfold sweepStep
            simp only [hcs, hpl]
            rw [if_pos hhp]
          have h1 : deadList w (e :: l2) = deadList w l2 := by
            unfold deadList
            rw [List.filter_cons]
            simp [hpl]
          have h2 : deadLines w (e :: l2) = deadLines w l2 := by
            unfold deadLines
            rw [h1]
          have h3 : deadAmong w (e :: l2) = true := by
            unfold deadAmong
            simp [hdead, hpl]
          rw [hstep, h1, h2, h3]
          simp only [if_true]
          rcases hda : deadAmong w l2 with _ | _
          · simp
          · simp
      · have hdead : isDeadB w e = false := by
          unfold isDeadB
          simp only [hcs]
          simpa using hhp
        have hstep : sweepStep w acc e = acc := by
          unfold sweepStep
          simp only [hcs]
          rw [if_neg hhp]
        have h1 : deadList w (e :: l2) = deadList w l2 := by
          unfold deadList
          rw [List.filter_cons]
          simp [hdead]
        have h2 : deadLines w (e :: l2) = deadLines w l2 := by
          unfold deadLines
          rw [h1]
        have h3 : deadAmong w (e :: l2) = deadAmong w l2 := by
          unfold deadAmong
          simp [hdead]
        rw [hstep, h1, h2, h3]

/-- Deleting a list of entities removes exactly those from the live
set. -/
lemma foldl_deleteEntity_mem (ds : List Entity) :
    ∀ (w : World) (e : Entity),
      e ∈ (ds.foldl deleteEntity w).entities ↔ (e ∈ w.entities ∧ e ∉ ds) := by
  induction ds with
  | nil =>
    intro w e
    simp
  | cons d ds2 ih =>
    intro w e
    simp only [List.foldl_cons]
    rw [ih (deleteEntity w d) e]
    rw [entities_deleteEntity]
    simp only [List.mem_filter, decide_eq_true_eq, List.mem_cons]
    constructor
    · intro ⟨⟨h1, h2⟩, h3⟩
      exact ⟨h1, by tauto⟩
    · intro ⟨h1, h2⟩
      exact ⟨⟨h1, by tauto⟩, by tauto⟩

/-- Deletions do not touch the log or the run-state. -/
lemma foldl_deleteEntity_log (ds : List Entity) :
    ∀ w : World, (ds.foldl deleteEntity w).log = w.log ∧
      (ds.foldl deleteEntity w).runstate = w.runstate := by
  induction ds with
  | nil => intro w; exact ⟨rfl, rfl⟩
  | cons d ds2 ih =>
    intro w
    simp only [List.foldl_cons]
    exact ih (deleteEntity w d)

/-- Full characterisation of delete_the_dead: membership, log and
run-state. -/
lemma delete_the_dead_char (w : World) :
    (∀ e : Entity, e ∈ (delete_the_dead w).entities ↔
      (e ∈ w.entities ∧ ¬(isDeadB w e = true ∧ w.players e = none))) ∧
    (delete_the_dead w).log.entries = (deadLines w w.entities).reverse ++ w.log.entries ∧
    (delete_the_dead w).runstate =
      (if deadAmong w w.entities then RunState.GameOver else w.runstate) := by
  unfold delete_the_dead deadSweep
  rw [sweep_fold w w.entities ([], w.log, w.runstate)]
  simp only [List.nil_append]
  refine ⟨?_, ?_, ?_⟩
  · intro e
    rw [foldl_deleteEntity_mem]
    have hmem : e ∈ deadList w w.entities ↔
        (e ∈ w.entities ∧ (isDeadB w e = true ∧ w.players e = none)) := by
      unfold deadList
      rw [List.mem_filter]
      simp [Option.isNone_iff_eq_none]
    constructor
    · intro ⟨h1, h2⟩
      refine ⟨h1, fun hc => h2 (hmem.mpr ⟨h1, hc⟩)⟩
    · intro ⟨h1, h2⟩
      exact ⟨h1, fun hc => h2 (hmem.mp hc).2⟩
  · rw [(foldl_deleteEntity_log (deadList w w.entities) _).1]
  · rw [(foldl_deleteEntity_log (deadList w w.entities) _).2]

/-- C3: the death sweep deletes exactly the dead (hp < 1) non-player
entities, prepends "<name> is dead" exactly for the named ones, never
deletes an entity carrying Player, and sets the RunState resource to
GameOver exactly when a dead player exists. -/
theorem delete_the_dead_spec (w : World) :
    (∀ e : Entity, e ∈ (delete_the_dead w).entities ↔
      (e ∈ w.entities ∧ ¬(isDeadB w e = true ∧ w.players e = none))) ∧
    (delete_the_dead w).log.entries = (deadLines w w.entities).reverse ++ w.log.entries ∧
    (delete_the_dead w).runstate =
      (if deadAmong w w.entities then RunState.GameOver else w.runstate) :=
  delete_the_dead_char w

/-- A world with a dead named monster (1), a dead player (0) and a live
monster (2). -/
def deathExampleWorld : World :=
  { next_entity := 3
    entities := [0, 1, 2]
    comps := fun e =>
      if e = 0 then
        { player := some (), name := some ⟨"Player"⟩, combat_stats := some ⟨30, 0, 2, 5⟩ }
      else if e = 1 then
        { name := some ⟨"Rat"⟩, combat_stats := some ⟨2, -1, 0, 1⟩ }
      else if e = 2 then
        { name := some ⟨"Orc"⟩, combat_stats := some ⟨16, 5, 1, 4⟩ }
      else {}
    next_marker := 0
    map := initialMap 1
    log := ⟨["old"]⟩
    runstate := RunState.MonsterTurn
    player_entity := 0
    player_point := (0, 0) }

/-- C3 witness: the dead Rat is deleted with its log line, the dead
player survives and flips the run-state to GameOver, the live Orc
survives. -/
theorem delete_the_dead_spec_witness :
    (1 ∉ (delete_the_dead deathExampleWorld).entities) ∧
    (0 ∈ (delete_the_dead deathExampleWorld).entities) ∧
    (2 ∈ (delete_the_dead deathExampleWorld).entities) ∧
    (delete_the_dead deathExampleWorld).log.entries = ["Rat is dead", "old"] ∧
    (delete_the_dead deathExampleWorld).runstate = RunState.GameOver := by
  obtain ⟨hmem, hlog, hrs⟩ := delete_the_dead_spec deathExampleWorld
  refine ⟨?_, ?_, ?_, ?_, ?_⟩
  · intro hc
    have := (hmem 1).mp hc
    exact this.2 (by decide)
  · exact (hmem 0).mpr (by decide)
  · exact (hmem 2).mpr (by decide)
  · rw [hlog]
    decide
  · rw [hrs]
    decide

/-- Folds of tile-writing steps leave rooms, width and height alone. -/
lemma foldl_map_preserve {α : Type} (f : Map → α → Map)
    (hf : ∀ m x, (f m x).rooms = m.rooms ∧ (f m x).width = m.width ∧
      (f m x).height = m.height) :
    ∀ (l : List α) (m : Map), (l.foldl f m).rooms = m.rooms ∧
      (l.foldl f m).width = m.width ∧ (l.foldl f m).height = m.height := by
  intro l
  induction l with
  | nil => intro m; exact ⟨rfl, rfl, rfl⟩
  | cons x l2 ih =>
    intro m
    simp only [List.foldl_cons]
    obtain ⟨h1, h2, h3⟩ := ih (f m x)
    obtain ⟨g1, g2, g3⟩ := hf m x
    exact ⟨h1.trans g1, h2.trans g2, h3.trans g3⟩

/-- Carving a room touches only tiles. -/
lemma apply_room_preserve (room : Rect) (m : Map) :
    (m.apply_room_to_map room).rooms = m.rooms ∧
    (m.apply_room_to_map room).width = m.width ∧
    (m.apply_room_to_map room).height = m.height := by
  unfold Map.apply_room_to_map
  apply foldl_map_preserve
  intro m1 y
  apply foldl_map_preserve
  intro m2 x
  exact ⟨rfl, rfl, rfl⟩

/-- Horizontal tunnels touch only tiles. -/
lemma horizontal_tunnel_preserve (x1 x2 y : Int) (m : Map) :
    (m.apply_horizontal_tunnel x1 x2 y).rooms = m.rooms ∧
    (m.apply_horizontal_tunnel x1 x2 y).width = m.width ∧
    (m.apply_horizontal_tunnel x1 x2 y).height = m.height := by
  unfold Map.apply_horizontal_tunnel
  apply foldl_map_preserve
  intro m1 x
  simp only
  split_ifs
  · exact ⟨rfl, rfl, rfl⟩
  · exact ⟨rfl, rfl, rfl⟩

/-- Vertical tunnels touch only tiles. -/
lemma vertical_tunnel_preserve (y1 y2 x : Int) (m : Map) :
    (m.apply_vertical_tunnel y1 y2 x).rooms = m.rooms ∧
    (m.apply_vertical_tunnel y1 y2 x).width = m.width ∧
    (m.apply_vertical_tunnel y1 y2 x).height = m.height := by
  unfold Map.apply_vertical_tunnel
  apply foldl_map_preserve
  intro m1 y
  simp only
  split_ifs
  · exact ⟨rfl, rfl, rfl⟩
  · exact ⟨rfl, rfl, rfl⟩

/-- Range draws stay in [a, b-1]. -/
lemma rngRange_bounds (rng : Nat → Nat) (p : Nat) (a b : Int) (hab : a < b) :
    a ≤ rngRange rng p a b ∧ rngRange rng p a b ≤ b - 1 := by
  unfold rngRange
  have h1 := Nat.mod_lt (rng p) (show 0 < (b - a).toNat by omega)
  have h2 : (Int.ofNat (rng p % (b - a).toNat)) = ((rng p % (b - a).toNat : Nat) : Int) := rfl
  rw [h2]
  omega

/-- Dice rolls stay in [1, n]. -/
lemma rollDice_bounds (rng : Nat → Nat) (p : Nat) (n : Int) (hn : 0 < n) :
    1 ≤ rollDice rng p n ∧ rollDice rng p n ≤ n := by
  unfold rollDice
  have h1 := Nat.mod_lt (rng p) (show 0 < n.toNat by omega)
  have h2 : (Int.ofNat (rng p % n.toNat)) = ((rng p % n.toNat : Nat) : Int) := rfl
  rw [h2]
  omega

/-- One generation attempt: width/height persist, and the room list
either stays as it is or gains one rectangle that intersects no earlier
room (open-interval test) and carves only tiles with
1 <= x <= 78, 1 <= y <= 41; on an empty room list the attempt always
accepts. -/
lemma roomAttempt_char (rng : Nat → Nat) (st : Map × Nat)
    (hw : st.1.width = 80) (hh : st.1.height = 43) :
    (roomAttempt rng st).1.width = 80 ∧ (roomAttempt rng st).1.height = 43 ∧
    ((roomAttempt rng st).1.rooms = st.1.rooms ∨
      ∃ r, (roomAttempt rng st).1.rooms = st.1.rooms ++ [r] ∧
        (∀ other ∈ st.1.rooms, r.intersect other = false) ∧
        0 ≤ r.x1 ∧ r.x2 ≤ 78 ∧ 0 ≤ r.y1 ∧ r.y2 ≤ 41) ∧
    (st.1.rooms = [] → ∃ r, (roomAttempt rng st).1.rooms = [r]) := by
  have hW := rngRange_bounds rng st.2 6 10 (by omega)
  have hH := rngRange_bounds rng (st.2 + 1) 6 10 (by omega)
  have hX := rollDice_bounds rng (st.2 + 2)
    (st.1.width - rngRange rng st.2 6 10 - 1) (by omega)
  have hY := rollDice_bounds rng (st.2 + 3)
    (st.1.height - rngRange rng (st.2 + 1) 6 10 - 1) (by omega)
  unfold roomAttempt
  simp only
  split_ifs with hok hemp hcoin
  · -- accepted, first room
    obtain ⟨h1, h2, h3⟩ := apply_room_preserve
      (Rect.new (rollDice rng (st.2 + 2) (st.1.width - rngRange rng st.2 6 10 - 1) - 1)
        (rollDice rng (st.2 + 3) (st.1.height - rngRange rng (st.2 + 1) 6 10 - 1) - 1)
        (rngRange rng st.2 6 10) (rngRange rng (st.2 + 1) 6 10)) st.1
    rw [List.isEmpty_iff] at hemp
    have hst : st.1.rooms = [] := h1.symm.trans hemp
    refine ⟨h2.trans hw, h3.trans hh, Or.inr ⟨_, by rw [h1], ?_, ?_⟩, ?_⟩
    · intro other hother
      rw [hst] at hother
      exact absurd hother (List.not_mem_nil other)
    · unfold Rect.new
      simp only
      omega
    · intro _
      exact ⟨_, by rw [hemp]; rfl⟩
  · -- accepted, corridor with horizontal-first
    obtain ⟨h1, h2, h3⟩ := apply_room_preserve
      (Rect.new (rollDice rng (st.2 + 2) (st.1.width - rngRange rng st.2 6 10 - 1) - 1)
        (rollDice rng (st.2 + 3) (st.1.height - rngRange rng (st.2 + 1) 6 10 - 1) - 1)
        (rngRange rng st.2 6 10) (rngRange rng (st.2 + 1) 6 10)) st.1
    rw [List.isEmpty_iff] at hemp
    obtain ⟨t1, t2, t3⟩ := horizontal_tunnel_preserve _ _ _
      (st.1.apply_room_to_map
        (Rect.new (rollDice rng (st.2 + 2) (st.1.width - rngRange rng st.2 6 10 - 1) - 1)
          (rollDice rng (st.2 + 3) (st.1.height - rngRange rng (st.2 + 1) 6 10 - 1) - 1)
          (rngRange rng st.2 6 10) (rngRange rng (st.2 + 1) 6 10)))
    obtain ⟨u1, u2, u3⟩ := vertical_tunnel_preserve _ _ _ _
    refine ⟨by rw [u2, t2, h2, hw], by rw [u3, t3, h3, hh],
      Or.inr ⟨_, by rw [u1, t1, h1], ?_, ?_⟩, fun hc => absurd (h1.trans hc) hemp⟩
    · intro other hother
      simp only [List.all_eq_true, Bool.not_eq_true'] at hok
      exact hok other hother
    · unfold Rect.new
      simp only
      omega
  · -- accepted, corridor with vertical-first
    obtain ⟨h1, h2, h3⟩ := apply_room_preserve
      (Rect.new (rollDice rng (st.2 + 2) (st.1.width - rngRange rng st.2 6 10 - 1) - 1)
        (rollDice rng (st.2 + 3) (st.1.height - rngRange rng (st.2 + 1) 6 10 - 1) - 1)
        (rngRange rng st.2 6 10) (rngRange rng (st.2 + 1) 6 10)) st.1
    rw [List.isEmpty_iff] at hemp
    obtain ⟨t1, t2, t3⟩ := vertical_tunnel_preserve _ _ _
      (st.1.apply_room_to_map
        (Rect.new (rollDice rng (st.2 + 2) (st.1.width - rngRange rng st.2 6 10 - 1) - 1)
          (rollDice rng (st.2 + 3) (st.1.height - rngRange rng (st.2 + 1) 6 10 - 1) - 1)
          (rngRange rng st.2 6 10) (rngRange rng (st.2 + 1) 6 10)))
    obtain ⟨u1, u2, u3⟩ := horizontal_tunnel_preserve _ _ _ _
    refine ⟨by rw [u2, t2, h2, hw], by rw [u3, t3, h3, hh],
      Or.inr ⟨_, by rw [u1, t1, h1], ?_, ?_⟩, fun hc => absurd (h1.trans hc) hemp⟩
    · intro other hother
      simp only [List.all_eq_true, Bool.not_eq_true'] at hok
      exact hok other hother
    · unfold Rect.new
      simp only
      omega
  · -- rejected
    refine ⟨hw, hh, Or.inl rfl, ?_⟩
    intro hempty
    exfalso
    apply hok
    rw [hempty]
    rfl

/-- The open-interval intersection test is symmetric. -/
lemma intersect_symm (a b : Rect) : a.intersect b = b.intersect a := by
  unfold Rect.intersect
  by_cases h1 : a.x1 < b.x2 <;> by_cases h2 : a.x2 > b.x1 <;>
    by_cases h3 : a.y1 < b.y2 <;> by_cases h4 : a.y2 > b.y1 <;>
    simp [h1, h2, h3, h4] <;> omega

/-- Unrolling one generation attempt. -/
lemma genSteps_succ (d : Int) (rng : Nat → Nat) (n : Nat) :
    genSteps d rng (n + 1) = roomAttempt rng (genSteps d rng n) := by
  unfold genSteps
  rw [List.range_succ, List.foldl_append]
  rfl

/-- The generation invariant: width/height fixed, pairwise
non-intersecting rooms in-border, at most one room gained per attempt,
at least one room once any attempt has run. -/
lemma genSteps_invariant (d : Int) (rng : Nat → Nat) :
    ∀ n : Nat,
      (genSteps d rng n).1.width = 80 ∧ (genSteps d rng n).1.height = 43 ∧
      List.Pairwise (fun a b => a.intersect b = false ∧ b.intersect a = false)
        (genSteps d rng n).1.rooms ∧
      (∀ r ∈ (genSteps d rng n).1.rooms,
        0 ≤ r.x1 ∧ r.x2 ≤ 78 ∧ 0 ≤ r.y1 ∧ r.y2 ≤ 41) ∧
      (genSteps d rng n).1.rooms.length ≤ n ∧
      (1 ≤ n → 1 ≤ (genSteps d rng n).1.rooms.length) := by
  intro n
  induction n with
  | zero =>
    refine ⟨rfl, rfl, ?_, ?_, ?_, ?_⟩
    · show List.Pairwise _ (initialMap d).rooms
      exact List.Pairwise.nil
    · intro r hr
      exact absurd hr (List.not_mem_nil r)
    · show (initialMap d).rooms.length ≤ 0
      rfl
    · omega
  | succ n ih =>
    obtain ⟨hw, hh, hpw, hbd, hlen, hpos⟩ := ih
    obtain ⟨gw, gh, grooms, gfirst⟩ := roomAttempt_char rng (genSteps d rng n) hw hh
    rw [genSteps_succ]
    rcases grooms with hsame | ⟨r, hr, hnint, hb1, hb2, hb3, hb4⟩
    · refine ⟨gw, gh, by rw [hsame]; exact hpw, by rw [hsame]; exact hbd,
        by rw [hsame]; omega, ?_⟩
      intro _
      by_cases hz : (genSteps d rng n).1.rooms = []
      · obtain ⟨r0, hr0⟩ := gfirst hz
        rw [hr0]
        simp
      · rw [hsame]
        have : 0 < (genSteps d rng n).1.rooms.length := List.length_pos.mpr hz
        omega
    · refine ⟨gw, gh, ?_, ?_, ?_, ?_⟩
      · rw [hr]
        rw [List.pairwise_append]
        refine ⟨hpw, List.pairwise_singleton _ _, ?_⟩
        intro a ha b hb
        rw [List.mem_singleton] at hb
        subst hb
        have := hnint a ha
        exact ⟨by rw [intersect_symm]; exact this, this⟩
      · intro r2 hr2
        rw [hr] at hr2
        rcases List.mem_append.mp hr2 with h | h
        · exact hbd r2 h
        · rw [List.mem_singleton] at h
          subst h
          exact ⟨hb1, hb2, hb3, hb4⟩
      · rw [hr]
        simp only [List.length_append, List.length_singleton]
        omega
      · intro _
        rw [hr]
        simp only [List.length_append, List.length_singleton]
        omega

/-- C5: for every depth, every random stream and every number of loop
iterations — in particular after each accepted insertion and for the
final 30-attempt map of new_map_rooms_and_corridors — the accepted
rooms are pairwise non-intersecting under the open-interval test and
every accepted room's carved interior (x1+1..x2) x (y1+1..y2) lies
strictly inside the 1-tile border of the 80x43 grid. -/
theorem rooms_invariant (d : Int) (rng : Nat → Nat) :
    (∀ n : Nat,
      List.Pairwise (fun a b => a.intersect b = false ∧ b.intersect a = false)
        (genSteps d rng n).1.rooms ∧
      (∀ r ∈ (genSteps d rng n).1.rooms, ∀ x y : Int,
        r.x1 + 1 ≤ x → x ≤ r.x2 → r.y1 + 1 ≤ y → y ≤ r.y2 →
          1 ≤ x ∧ x ≤ 78 ∧ 1 ≤ y ∧ y ≤ 41)) ∧
    List.Pairwise (fun a b => a.intersect b = false ∧ b.intersect a = false)
      (new_map_rooms_and_corridors d rng).rooms ∧
    (∀ r ∈ (new_map_rooms_and_corridors d rng).rooms, ∀ x y : Int,
      r.x1 + 1 ≤ x → x ≤ r.x2 → r.y1 + 1 ≤ y → y ≤ r.y2 →
        1 ≤ x ∧ x ≤ 78 ∧ 1 ≤ y ∧ y ≤ 41) := by
  have hmain : ∀ n : Nat,
      List.Pairwise (fun a b => a.intersect b = false ∧ b.intersect a = false)
        (genSteps d rng n).1.rooms ∧
      (∀ r ∈ (genSteps d rng n).1.rooms, ∀ x y : Int,
        r.x1 + 1 ≤ x → x ≤ r.x2 → r.y1 + 1 ≤ y → y ≤ r.y2 →
          1 ≤ x ∧ x ≤ 78 ∧ 1 ≤ y ∧ y ≤ 41) := by
    intro n
    obtain ⟨_, _, hpw, hbd, _, _⟩ := genSteps_invariant d rng n
    refine ⟨hpw, ?_⟩
    intro r hr x y h1 h2 h3 h4
    obtain ⟨b1, b2, b3, b4⟩ := hbd r hr
    omega
  refine ⟨hmain, ?_, ?_⟩
  · unfold new_map_rooms_and_corridors
    exact (hmain 30).1
  · unfold new_map_rooms_and_corridors
    exact (hmain 30).2

/-- C10: generation always accepts the very first proposed room and
never runs more than 30 attempts, so the final room list has between 1
and 30 rooms and the driver's rooms[0] reads are in bounds. -/
theorem rooms_count (d : Int) (rng : Nat → Nat) :
    1 ≤ (new_map_rooms_and_corridors d rng).rooms.length ∧
    (new_map_rooms_and_corridors d rng).rooms.length ≤ 30 ∧
    (genSteps d rng 1).1.rooms.length = 1 ∧
    ((new_map_rooms_and_corridors d rng).rooms.head?).isSome = true := by
  unfold new_map_rooms_and_corridors
  obtain ⟨_, _, _, _, hlen, hpos⟩ := genSteps_invariant d rng 30
  have h1 : 1 ≤ (genSteps d rng 30).1.rooms.length := hpos (by omega)
  have hone : (genSteps d rng 1).1.rooms.length = 1 := by
    obtain ⟨hw0, hh0, _, _, _, _⟩ := genSteps_invariant d rng 0
    obtain ⟨_, _, _, gfirst⟩ := roomAttempt_char rng (genSteps d rng 0) hw0 hh0
    have hz : (genSteps d rng 0).1.rooms = [] := rfl
    obtain ⟨r0, hr0⟩ := gfirst hz
    rw [genSteps_succ, hr0]
    rfl
  refine ⟨h1, hlen, hone, ?_⟩
  rcases hhead : (genSteps d rng 30).1.rooms with _ | ⟨a, t⟩
  · exfalso
    rw [hhead] at h1
    exact absurd h1 (by norm_num)
  · rfl

/-- Deletion folds leave the components of entities outside the deleted
list alone. -/
lemma foldl_deleteEntity_comps (ds : List Entity) :
    ∀ (w : World) (e : Entity), e ∉ ds → (ds.foldl deleteEntity w).comps e = w.comps e := by
  induction ds with
  | nil => intro w e _; rfl
  | cons d ds2 ih =>
    intro w e he
    have h1 : e ≠ d := fun h => he (h ▸ List.mem_cons_self d ds2)
    have h2 : e ∉ ds2 := fun h => he (List.mem_cons_of_mem d h)
    simp only [List.foldl_cons]
    rw [ih (deleteEntity w d) e h2, comps_deleteEntity, if_neg h1]

/-- Deletion folds leave every resource of the world alone. -/
lemma foldl_deleteEntity_resources (ds : List Entity) :
    ∀ w : World, (ds.foldl deleteEntity w).next_entity = w.next_entity ∧
      (ds.foldl deleteEntity w).map = w.map ∧
      (ds.foldl deleteEntity w).player_entity = w.player_entity := by
  induction ds with
  | nil => intro w; exact ⟨rfl, rfl, rfl⟩
  | cons d ds2 ih =>
    intro w
    simp only [List.foldl_cons]
    exact ih (deleteEntity w d)

/-- Spawning fresh entities does not disturb any entity with an
identifier below the allocator. -/
lemma spawnEntities_old (spawned : List Comps) :
    ∀ (w : World) (e : Entity), e < w.next_entity →
      (spawnEntities w spawned).comps e = w.comps e ∧
      (e ∈ (spawnEntities w spawned).entities ↔ e ∈ w.entities) ∧
      w.next_entity ≤ (spawnEntities w spawned).next_entity ∧
      (spawnEntities w spawned).map = w.map ∧
      (spawnEntities w spawned).player_entity = w.player_entity := by
  induction spawned with
  | nil => intro w e _; exact ⟨rfl, Iff.rfl, le_refl _, rfl, rfl⟩
  | cons d rest ih =>
    intro w e he
    have hstep : spawnEntities w (d :: rest) = spawnEntities (createEntity w d).1 rest := rfl
    rw [hstep]
    have hnx : (createEntity w d).1.next_entity = w.next_entity + 1 := rfl
    have hlt : e < (createEntity w d).1.next_entity := by
      rw [hnx]
      exact Nat.lt_succ_of_lt he
    obtain ⟨h1, h2, h3, h4, h5⟩ := ih (createEntity w d).1 e hlt
    have hcomps : (createEntity w d).1.comps e = w.comps e := by
      show (if e = w.next_entity then d else w.comps e) = w.comps e
      rw [if_neg (fun hc => absurd (hc ▸ he) (Nat.lt_irrefl _))]
    have hmem : e ∈ (createEntity w d).1.entities ↔ e ∈ w.entities := by
      show e ∈ w.entities ++ [w.next_entity] ↔ _
      rw [List.mem_append, List.mem_singleton]
      constructor
      · intro h
        rcases h with h | h
        · exact h
        · exact absurd (h ▸ he) (Nat.lt_irrefl _)
      · intro h
        exact Or.inl h
    refine ⟨h1.trans hcomps, h2.trans hmem, ?_, h4, h5⟩
    rw [hnx] at h3
    exact le_trans (Nat.le_succ _) h3

/-- The keep test of entities_to_remove_on_level_change. -/
def keepB (w : World) (e : Entity) : Bool :=
  (w.players e).isSome ||
    (match w.in_backpack e with
      | some bp => bp.owner = w.player_entity
      | none => false) ||
    (match w.equipped e with
      | some eq => eq.owner = w.player_entity
      | none => false)

/-- entities_to_remove_on_level_change keeps exactly the keepB
entities. -/
lemma entities_to_remove_eq (w : World) :
    entities_to_remove_on_level_change w = w.entities.filter (fun e => !(keepB w e)) := by
  unfold entities_to_remove_on_level_change keepB
  rfl

/-- keepB as a proposition. -/
lemma keepB_iff (w : World) (e : Entity) :
    keepB w e = true ↔
      ((w.players e).isSome ∨
        (∃ bp, w.in_backpack e = some bp ∧ bp.owner = w.player_entity) ∨
        (∃ eq, w.equipped e = some eq ∧ eq.owner = w.player_entity)) := by
  unfold keepB
  simp only [Bool.or_eq_true]
  constructor
  · intro h
    rcases h with (h | h) | h
    · exact Or.inl h
    · rcases hbp : w.in_backpack e with _ | bp
      · rw [hbp] at h
        exact absurd h (by simp)
      · rw [hbp] at h
        simp only [decide_eq_true_eq] at h
        exact Or.inr (Or.inl ⟨bp, rfl, h⟩)
    · rcases heq : w.equipped e with _ | eqp
      · rw [heq] at h
        exact absurd h (by simp)
      · rw [heq] at h
        simp only [decide_eq_true_eq] at h
        exact Or.inr (Or.inr ⟨eqp, rfl, h⟩)
  · intro h
    rcases h with h | ⟨bp, hbp, hown⟩ | ⟨eqp, heq, hown⟩
    · exact Or.inl (Or.inl h)
    · refine Or.inl (Or.inr ?_)
      rw [hbp]
      simpa using hown
    · refine Or.inr ?_
      rw [heq]
      simpa using hown

/-- updComps leaves the player-entity resource alone. -/
lemma updComps_player_entity (w : World) (e : Entity) (f : Comps → Comps) :
    (w.updComps e f).player_entity = w.player_entity := rfl

/-- The post-descent update chain does not change the entity list. -/
lemma descendPlayerUpdate_entities (w3 : World) (c : Int × Int) :
    (descendPlayerUpdate w3 c).entities = w3.entities := rfl

/-- The post-descent update chain applies exactly the
hp := max(hp, max_hp / 2) adjustment to the player's CombatStats. -/
lemma descendPlayerUpdate_stats (w3 : World) (c : Int × Int) :
    ((descendPlayerUpdate w3 c).comps w3.player_entity).combat_stats =
      ((w3.comps w3.player_entity).combat_stats).map
        (fun s => { s with hp := max s.hp (Int.tdiv s.max_hp 2) }) := by
  unfold descendPlayerUpdate
  simp [comps_updComps, updComps_player_entity]

/-- The value of goto_next_level when the generated room list is
nonempty. -/
lemma goto_next_level_eq (w : World) (rng : Nat → Nat) (spawned : List Comps)
    (r0 : Rect) (rt : List Rect)
    (hr : (new_map_rooms_and_corridors
      ((List.foldl deleteEntity w (entities_to_remove_on_level_change w)).map.depth + 1)
      rng).rooms = r0 :: rt) :
    goto_next_level w rng spawned = some (descendPlayerUpdate
      (spawnEntities
        { List.foldl deleteEntity w (entities_to_remove_on_level_change w) with
          map := new_map_rooms_and_corridors
            ((List.foldl deleteEntity w (entities_to_remove_on_level_change w)).map.depth + 1)
            rng }
        spawned)
      r0.center) := by
  unfold goto_next_level
  simp only [hr, List.head?_cons]

/-- C7: goto_next_level keeps exactly the player-marked entities and the
items carried or equipped by the player-entity resource, deletes every
other previous-level entity (freshly spawned entities use new
identifiers), and sets the surviving player's hp to
max(hp, max_hp / 2) — never lower than before and at least half of
max_hp. -/
theorem goto_next_level_spec (w : World) (rng : Nat → Nat) (spawned : List Comps)
    (hfresh : ∀ e ∈ w.entities, e < w.next_entity)
    (hpin : w.player_entity ∈ w.entities)
    (hpmark : (w.players w.player_entity).isSome) :
    ∃ w', goto_next_level w rng spawned = some w' ∧
      (∀ e ∈ w.entities, (e ∈ w'.entities ↔
        ((w.players e).isSome ∨
          (∃ bp, w.in_backpack e = some bp ∧ bp.owner = w.player_entity) ∨
          (∃ eq, w.equipped e = some eq ∧ eq.owner = w.player_entity)))) ∧
      (∀ s, w.combat_stats w.player_entity = some s →
        ∃ s', w'.combat_stats w.player_entity = some s' ∧
          s'.hp = max s.hp (Int.tdiv s.max_hp 2) ∧ s.hp ≤ s'.hp ∧
          Int.tdiv s.max_hp 2 ≤ s'.hp ∧ s'.max_hp = s.max_hp ∧
          s'.defense = s.defense ∧ s'.power = s.power) := by
  set ds := entities_to_remove_on_level_change w with hds
  set w1 := List.foldl deleteEntity w ds with hw1
  obtain ⟨hnx1, hmap1, hpe1⟩ := foldl_deleteEntity_resources ds w
  set worldmap := new_map_rooms_and_corridors (w1.map.depth + 1) rng with hwm
  set w2 : World := { w1 with map := worldmap } with hw2
  set w3 := spawnEntities w2 spawned with hw3
  obtain ⟨_, _, _, _, _, hpos⟩ := genSteps_invariant (w1.map.depth + 1) rng 30
  have hne : worldmap.rooms ≠ [] := by
    intro hc
    have h1 := hpos (by omega)
    unfold new_map_rooms_and_corridors at hwm
    rw [hwm] at hc
    rw [hc] at h1
    exact absurd h1 (by norm_num)
  rcases hrooms : worldmap.rooms with _ | ⟨r0, rt⟩
  · exact absurd hrooms hne
  · have hrooms' := hrooms
    rw [hwm, hw1, hds] at hrooms'
    have hrun := goto_next_level_eq w rng spawned r0 rt hrooms'
    rw [← hds, ← hw1, ← hwm, ← hw2, ← hw3] at hrun
    have hpenotds : w.player_entity ∉ ds := by
      have hkeep : keepB w w.player_entity = true :=
        (keepB_iff w w.player_entity).mpr (Or.inl hpmark)
      rw [hds, entities_to_remove_eq]
      intro hc
      rw [List.mem_filter] at hc
      have h2 := hc.2
      rw [Bool.not_eq_true', hkeep] at h2
      cases h2
    have hpelt : w.player_entity < w2.next_entity := by
      have h := hfresh w.player_entity hpin
      show w.player_entity < w1.next_entity
      rw [hw1, hnx1]
      exact h
    obtain ⟨hpc3, _, _, _, hpe3⟩ := spawnEntities_old spawned w2 w.player_entity hpelt
    have hpew3 : w3.player_entity = w.player_entity := by
      rw [hw3, hpe3]
      show w1.player_entity = w.player_entity
      exact hpe1
    have hpcomps : w3.comps w.player_entity = w.comps w.player_entity := by
      rw [hw3, hpc3]
      show w1.comps w.player_entity = w.comps w.player_entity
      exact foldl_deleteEntity_comps ds w w.player_entity hpenotds
    refine ⟨_, hrun, ?_, ?_⟩
    · intro e hein
      have hlt2 : e < w2.next_entity := by
        have h := hfresh e hein
        show e < w1.next_entity
        rw [hw1, hnx1]
        exact h
      obtain ⟨_, hm3, _, _, _⟩ := spawnEntities_old spawned w2 e hlt2
      rw [← hw3] at hm3
      rw [descendPlayerUpdate_entities, hm3]
      have hm2 : e ∈ w2.entities ↔ e ∈ w1.entities := Iff.rfl
      rw [hm2, hw1, foldl_deleteEntity_mem]
      rw [hds, entities_to_remove_eq]
      constructor
      · intro ⟨_, hnot⟩
        by_cases hk : keepB w e = true
        · exact (keepB_iff w e).mp hk
        · exfalso
          apply hnot
          rw [List.mem_filter]
          exact ⟨hein, by simp [hk]⟩
      · intro h
        refine ⟨hein, ?_⟩
        intro hc
        rw [List.mem_filter] at hc
        have h2 := hc.2
        rw [Bool.not_eq_true'] at h2
        rw [(keepB_iff w e).mpr h] at h2
        cases h2
    · intro s hs
      refine ⟨{ s with hp := max s.hp (Int.tdiv s.max_hp 2) }, ?_, rfl, le_max_left _ _,
        le_max_right _ _, rfl, rfl, rfl⟩
      show ((descendPlayerUpdate w3 r0.center).comps w.player_entity).combat_stats = _
      rw [← hpew3, descendPlayerUpdate_stats, hpew3, hpcomps]
      unfold World.combat_stats at hs
      rw [hs]
      rfl

/-- A level-transition example: player 0 at hp 3/20 with a backpack item
1, an equipped item 2 and a monster 3. -/
def levelExampleWorld : World :=
  { next_entity := 4
    entities := [0, 1, 2, 3]
    comps := fun e =>
      if e = 0 then
        { player := some (), name := some ⟨"Player"⟩, combat_stats := some ⟨20, 3, 2, 5⟩
          position := some ⟨1, 1⟩, viewshed := some ⟨[], 8, false⟩ }
      else if e = 1 then
        { name := some ⟨"Potion"⟩, in_backpack := some ⟨0⟩ }
      else if e = 2 then
        { name := some ⟨"Shield"⟩, equipped := some ⟨0, EquipmentSlot.Shield⟩ }
      else if e = 3 then
        { name := some ⟨"Orc"⟩, combat_stats := some ⟨16, 16, 1, 4⟩, position := some ⟨5, 5⟩ }
      else {}
    next_marker := 0
    map := initialMap 1
    log := ⟨["old"]⟩
    runstate := RunState.NextLevel
    player_entity := 0
    player_point := (1, 1) }

/-- C7 witness: on the example, the player and its carried/equipped
items survive the descent, the monster is gone, and hp is healed from 3
to max(3, 20/2) = 10. -/
theorem goto_next_level_spec_witness :
    ∃ w', goto_next_level levelExampleWorld (fun _ => 0) [] = some w' ∧
      0 ∈ w'.entities ∧ 1 ∈ w'.entities ∧ 2 ∈ w'.entities ∧ 3 ∉ w'.entities ∧
      ∃ s', w'.combat_stats 0 = some s' ∧ s'.hp = 10 := by
  obtain ⟨w', hrun, hmem, hstats⟩ :=
    goto_next_level_spec levelExampleWorld (fun _ => 0) []
      (by decide) (by decide) (by decide)
  obtain ⟨s', hcs, hhp, _⟩ := hstats ⟨20, 3, 2, 5⟩ (by decide)
  refine ⟨w', hrun, ?_, ?_, ?_, ?_, s', hcs, by rw [hhp]; decide⟩
  · exact (hmem 0 (by decide)).mpr (Or.inl (by decide))
  · exact (hmem 1 (by decide)).mpr (Or.inr (Or.inl ⟨⟨0⟩, by decide, rfl⟩))
  · exact (hmem 2 (by decide)).mpr
      (Or.inr (Or.inr ⟨⟨0, EquipmentSlot.Shield⟩, by decide, rfl⟩))
  · intro hc
    rcases (hmem 3 (by decide)).mp hc with h | ⟨bp, hbp, _⟩ | ⟨eqp, heqp, _⟩
    · exact absurd h (by decide)
    · have hn : levelExampleWorld.in_backpack 3 = none := by decide
      rw [hn] at hbp
      exact Option.noConfusion hbp
    · have hn : levelExampleWorld.equipped 3 = none := by decide
      rw [hn] at heqp
      exact Option.noConfusion heqp

/-- Spawning does not touch the game log. -/
lemma spawnEntities_log (spawned : List Comps) :
    ∀ w : World, (spawnEntities w spawned).log = w.log := by
  induction spawned with
  | nil => intro w; rfl
  | cons d rest ih =>
    intro w
    have hstep : spawnEntities w (d :: rest) = spawnEntities (createEntity w d).1 rest := rfl
    rw [hstep, ih (createEntity w d).1]
    rfl

/-- The game log passes through the new-game player setup untouched. -/
lemma newGamePlayerSetup_log (w3 : World) (c : Int × Int) (st : CombatStats) :
    (newGamePlayerSetup w3 c st).log = w3.log := rfl

/-- The value of game_over_cleanup when the generated room list is
nonempty. -/
lemma game_over_cleanup_eq (w : World) (rng : Nat → Nat) (spawned : List Comps)
    (st : CombatStats) (r0 : Rect) (rt : List Rect)
    (hr : (new_map_rooms_and_corridors 1 rng).rooms = r0 :: rt) :
    game_over_cleanup w rng spawned st = some (newGamePlayerSetup
      (spawnEntities
        { List.foldl deleteEntity w w.entities with
          map := new_map_rooms_and_corridors 1 rng }
        spawned)
      r0.center st) := by
  unfold game_over_cleanup
  simp only [hr, List.head?_cons]

/-- game_over_cleanup never touches the GameLog resource. -/
lemma game_over_cleanup_log (w : World) (rng : Nat → Nat) (spawned : List Comps)
    (starting_stats : CombatStats) (w' : World)
    (h : game_over_cleanup w rng spawned starting_stats = some w') : w'.log = w.log := by
  rcases hrooms : (new_map_rooms_and_corridors 1 rng).rooms with _ | ⟨r0, rt⟩
  · have hnone : game_over_cleanup w rng spawned starting_stats = none := by
      unfold game_over_cleanup
      simp only [hrooms, List.head?_nil]
    rw [hnone] at h
    exact Option.noConfusion h
  · rw [game_over_cleanup_eq w rng spawned starting_stats r0 rt hrooms] at h
    rw [Option.some.injEq] at h
    subst h
    rw [newGamePlayerSetup_log, spawnEntities_log]
    show (List.foldl deleteEntity w w.entities).log = w.log
    exact (foldl_deleteEntity_log w.entities w).1

/-- C8 (amended): selecting New Game from the main menu runs
game_over_cleanup and commits PreRun, but the game log is left exactly
as it was — it is set to the single welcome entry only once, at program
startup in main(). -/
theorem new_game_keeps_log (g : GState) (ctx : TickCtx) (sel : MainMenuSelection)
    (hrs : g.world.runstate = RunState.MainMenu sel)
    (hmm : ctx.main_menu_result = MainMenuResult.Selected MainMenuSelection.NewGame)
    (w1 : World) (rs : RunState) (f : Option SaveData)
    (h : tickBranch g ctx = some (w1, rs, f)) :
    w1.log = g.world.log ∧ rs = RunState.PreRun := by
  unfold tickBranch at h
  simp only [hrs, hmm] at h
  rcases hgo : game_over_cleanup g.world ctx.rng ctx.spawned ctx.starting_stats with _ | wng
  · simp only [hgo] at h
    exact Option.noConfusion h
  · simp only [hgo, Option.some.injEq, Prod.mk.injEq] at h
    obtain ⟨h1, h2, _⟩ := h
    subst h1
    exact ⟨game_over_cleanup_log _ _ _ _ _ hgo, h2.symm⟩

/-- A state sitting in the main menu with a two-entry log carried over
from a previous game. -/
def menuExampleState : GState :=
  { world :=
    { next_entity := 1
      entities := [0]
      comps := fun e =>
        if e = 0 then
          { player := some (), name := some ⟨"Player"⟩, combat_stats := some ⟨30, 30, 2, 5⟩
            position := some ⟨1, 1⟩ }
        else {}
      next_marker := 0
      map := initialMap 1
      log := ⟨["a", "b"]⟩
      runstate := RunState.MainMenu MainMenuSelection.NewGame
      player_entity := 0
      player_point := (1, 1) }
    save_file := none }

/-- A frame context that selects New Game; the missing-module oracles
are identities. -/
def newGameCtx : TickCtx :=
  { main_menu_result := MainMenuResult.Selected MainMenuSelection.NewGame
    game_over_result := GameOverResult.NoSelection
    inventory_result := (ItemMenuResult.NoResponse, none)
    drop_item_result := (ItemMenuResult.NoResponse, none)
    remove_item_result := (ItemMenuResult.NoResponse, none)
    ranged_target_result := (ItemMenuResult.NoResponse, none)
    player_input := fun w => (w, RunState.AwaitingInput)
    visibility_run := id
    monster_ai_run := id
    map_indexing_run := id
    item_collection_run := id
    item_use_run := id
    item_drop_run := id
    item_remove_run := id
    rng := fun _ => 0
    spawned := []
    starting_stats := ⟨30, 30, 2, 5⟩ }

set_option maxRecDepth 8000 in
/-- C8 counterexample: with the carried-over log ["a", "b"], selecting
New Game leaves the log as ["a", "b"] — it is NOT reset to a single
welcome entry. -/
theorem new_game_log_not_reset :
    ((game_over_cleanup menuExampleState.world (fun _ => 0) [] ⟨30, 30, 2, 5⟩).map
      (fun w' => w'.log.entries)) = some ["a", "b"] ∧
      ["a", "b"] ≠ ["Welcome to my game"] := by
  constructor
  · rcases hgo : game_over_cleanup menuExampleState.world (fun _ => 0) [] ⟨30, 30, 2, 5⟩
      with _ | w'
    · exfalso
      have hsome : (game_over_cleanup menuExampleState.world (fun _ => 0) []
          ⟨30, 30, 2, 5⟩).isSome = true := by decide
      rw [hgo] at hsome
      exact Bool.noConfusion hsome
    · have hlog := game_over_cleanup_log menuExampleState.world (fun _ => 0) []
        ⟨30, 30, 2, 5⟩ w' hgo
      show some (w'.log.entries) = some ["a", "b"]
      rw [hlog]
      rfl
  · decide

set_option maxRecDepth 8000 in
/-- C8 witness: the New Game transition out of the menu example commits
PreRun and keeps the two-entry log. -/
theorem new_game_keeps_log_witness :
    ∃ w1 rs f, tickBranch menuExampleState newGameCtx = some (w1, rs, f) ∧
      w1.log = menuExampleState.world.log ∧ rs = RunState.PreRun := by
  rcases hb : tickBranch menuExampleState newGameCtx with _ | ⟨w1, rs, f⟩
  · exfalso
    have hsome : (tickBranch menuExampleState newGameCtx).isSome = true := by decide
    rw [hb] at hsome
    exact Bool.noConfusion hsome
  · obtain ⟨h1, h2⟩ := new_game_keeps_log menuExampleState newGameCtx
      MainMenuSelection.NewGame rfl rfl w1 rs f hb
    exact ⟨w1, rs, f, rfl, h1, h2⟩

/-- C9: every completed frame of State::tick first commits the branch's
new_run_state to the RunState resource and then runs the death sweep on
the post-branch world — so every dead non-player of the post-branch
world is gone from the final state, and the final run-state is the
committed one unless the sweep itself finds a dead player, in which case
it is GameOver. -/
theorem tick_commits_then_sweeps (g : GState) (ctx : TickCtx) (g' : GState)
    (h : tick g ctx = some g') :
    ∃ wb rs f, tickBranch g ctx = some (wb, rs, f) ∧
      g'.save_file = f ∧
      g'.world = delete_the_dead { wb with runstate := rs } ∧
      (∀ e ∈ wb.entities, isDeadB wb e = true → wb.players e = none →
        e ∉ g'.world.entities) ∧
      (deadAmong wb wb.entities = false → g'.world.runstate = rs) ∧
      (deadAmong wb wb.entities = true → g'.world.runstate = RunState.GameOver) := by
  unfold tick at h
  rcases hb : tickBranch g ctx with _ | ⟨wb, rs, f⟩
  · rw [hb] at h
    exact Option.noConfusion h
  · rw [hb] at h
    rw [Option.some.injEq] at h
    subst h
    obtain ⟨hmem, _, hrs⟩ := delete_the_dead_char { wb with runstate := rs }
    have hdead_eq : ∀ e, isDeadB { wb with runstate := rs } e = isDeadB wb e := fun e => rfl
    have hpl_eq : ∀ e, ({ wb with runstate := rs } : World).players e = wb.players e :=
      fun e => rfl
    have hda_eq : deadAmong { wb with runstate := rs }
        ({ wb with runstate := rs } : World).entities = deadAmong wb wb.entities := rfl
    refine ⟨wb, rs, f, rfl, rfl, rfl, ?_, ?_, ?_⟩
    · intro e he hd hp hc
      have h2 := (hmem e).mp hc
      apply h2.2
      rw [hdead_eq, hpl_eq]
      exact ⟨hd, hp⟩
    · intro hda
      show (delete_the_dead { wb with runstate := rs }).runstate = rs
      rw [hrs, hda_eq, hda]
      rfl
    · intro hda
      show (delete_the_dead { wb with runstate := rs }).runstate = RunState.GameOver
      rw [hrs, hda_eq, hda]
      rfl

/-- A frame context that makes no menu selection. -/
def idleCtx : TickCtx :=
  { newGameCtx with main_menu_result := MainMenuResult.NoSelection MainMenuSelection.NewGame }

set_option maxRecDepth 8000 in
/-- C9 witness: on the menu example with no selection, the frame
completes, the committed run-state survives the (empty) sweep, and the
commit-then-sweep decomposition holds. -/
theorem tick_commits_then_sweeps_witness :
    ∃ g' wb rs f, tick menuExampleState idleCtx = some g' ∧
      tickBranch menuExampleState idleCtx = some (wb, rs, f) ∧
      g'.world.runstate = rs := by
  rcases ht : tick menuExampleState idleCtx with _ | g'
  · exfalso
    have hsome : (tick menuExampleState idleCtx).isSome = true := by decide
    rw [ht] at hsome
    exact Bool.noConfusion hsome
  · obtain ⟨wb, rs, f, hbr, _, _, _, hnodead, _⟩ :=
      tick_commits_then_sweeps menuExampleState idleCtx g' ht
    refine ⟨g', wb, rs, f, rfl, hbr, ?_⟩
    apply hnodead
    have hwb : wb = menuExampleState.world := by
      have hb2 : tickBranch menuExampleState idleCtx =
          some (menuExampleState.world,
            RunState.MainMenu MainMenuSelection.NewGame, none) := rfl
      rw [hb2] at hbr
      rw [Option.some.injEq] at hbr
      exact (congrArg (fun p => p.1) hbr).symm
    rw [hwb]
    decide

/-- Find the value stored under marker key m in one serialized component
list (specs keys each serialized row by its SimpleMarker id). -/
def lookupKey {β : Type} (l : List (Nat × β)) (m : Nat) : Option β :=
  (l.find? (fun q => q.1 == m)).map Prod.snd

/-- Some live entity carries the given marker id. -/
def liveMarker (v : World) (m : Nat) : Prop :=
  ∃ e ∈ v.entities, (v.comps e).marker = some m

/-- World extension during deserialization: the live set only grows and
the markers of already-live entities never change. -/
def MarkerLe (v v2 : World) : Prop :=
  (∀ e ∈ v.entities, e ∈ v2.entities) ∧
  (∀ e ∈ v.entities, (v2.comps e).marker = (v.comps e).marker)

/-- The structural invariant maintained by the deserialization passes:
live ids below the allocator, no duplicate ids, every live entity
marked, markers injective. -/
structure LoadInv (v : World) : Prop where
  bound : ∀ e ∈ v.entities, e < v.next_entity
  nodup : v.entities.Nodup
  marked : ∀ e ∈ v.entities, ((v.comps e).marker).isSome = true
  inj : ∀ e ∈ v.entities, ∀ x ∈ v.entities,
    (v.comps e).marker = (v.comps x).marker → e = x

/-- What a ConvertSaveload conversion may do to the world: leave every
live entity and its components alone, and create only fresh marked
blank entities whose marker ids were not yet live and come from the
sound id set A. -/
def ConvOK {β α : Type} (A : Nat → Prop) (Ab : β → Prop)
    (conv : World → β → World × α) : Prop :=
  ∀ v b, LoadInv v → Ab b →
    LoadInv (conv v b).1 ∧
    (∀ e ∈ v.entities, e ∈ (conv v b).1.entities) ∧
    (∀ e ∈ v.entities, (conv v b).1.comps e = v.comps e) ∧
    (∀ e ∈ (conv v b).1.entities, e ∉ v.entities →
      ∃ m, (conv v b).1.comps e = ({ marker := some m } : Comps) ∧
        ¬ liveMarker v m ∧ A m)

/-- Deserialized-value relation for a component without entity
references: the stored value comes back through f. -/
def RPure {α β : Type} (f : β → α) : World → α → β → Prop :=
  fun _ a b => a = f b

/-- Deserialized-value relation for a component holding one entity
reference: the stored marker id resolves to a live entity carrying it. -/
def RRef {α : Type} (mk : Entity → α) : World → α → Nat → Prop :=
  fun v a b => ∃ t, a = mk t ∧ t ∈ v.entities ∧ (v.comps t).marker = some b

/-- Deserialized-value relation for a component holding one entity
reference plus a plain payload. -/
def RRefPair {α γ : Type} (mk : Entity → γ → α) : World → α → Nat × γ → Prop :=
  fun v a b => ∃ t, a = mk t b.2 ∧ t ∈ v.entities ∧ (v.comps t).marker = some b.1

/-- Deserialized-value relation for a component holding two entity
references: both stored marker ids resolve to live carriers. -/
def RRef2 {α : Type} (mk : Entity → Entity → α) : World → α → Nat × Nat → Prop :=
  fun v a b => ∃ t1 t2, a = mk t1 t2 ∧
    t1 ∈ v.entities ∧ (v.comps t1).marker = some b.1 ∧
    t2 ∈ v.entities ∧ (v.comps t2).marker = some b.2

/-- Every marker key of the list is carried by some live entity. -/
def KeysLive {β : Type} (l : List (Nat × β)) (v : World) : Prop :=
  ∀ m ∈ l.map Prod.fst, liveMarker v m

/-- The live entities hold exactly the component values of the list,
marker by marker. -/
def FieldVals {α β : Type} (get : Comps → Option α) (R : World → α → β → Prop)
    (l : List (Nat × β)) (v : World) : Prop :=
  ∀ e ∈ v.entities, ∀ mm, (v.comps e).marker = some mm →
    match lookupKey l mm with
    | some b => ∃ a, get (v.comps e) = some a ∧ R v a b
    | none => get (v.comps e) = none

/-- No live entity carries the component yet. -/
def AllNone {α : Type} (get : Comps → Option α) (v : World) : Prop :=
  ∀ e ∈ v.entities, get (v.comps e) = none

/-- Every live marker id belongs to the sound id set A. -/
def MarksIn (A : Nat → Prop) (v : World) : Prop :=
  ∀ e ∈ v.entities, ∀ m, (v.comps e).marker = some m → A m

/-- One DeserializeComponents row: get or create the marked entity,
convert the stored data, insert the component. -/
def loadStep {α β : Type} (set : Comps → α → Comps)
    (conv : World → β → World × α) (acc : World) (p : Nat × β) : World :=
  let r := retrieveEntity acc p.1
  let cv := conv r.1 p.2
  cv.1.updComps r.2 (fun c => set c cv.2)

/-- The thirty deserialization passes of load_game, from the
post-deletion world. -/
def loadPasses (w0 : World) (data : SaveData) : World :=
  let w1 := loadComp (fun c v => { c with position := some v }) convPure w0 data.positions
  let w2 := loadComp (fun c v => { c with renderable := some v }) convPure w1 data.renderables
  let w3 := loadComp (fun c v => { c with player := some v }) convPure w2 data.players
  let w4 := loadComp (fun c v => { c with viewshed := some v }) convPure w3 data.viewsheds
  let w5 := loadComp (fun c v => { c with monster := some v }) convPure w4 data.monsters
  let w6 := loadComp (fun c v => { c with name := some v }) convPure w5 data.names
  let w7 := loadComp (fun c v => { c with blocks_tile := some v }) convPure w6 data.blocks_tile
  let w8 := loadComp (fun c v => { c with combat_stats := some v }) convPure w7 data.combat_stats
  let w9 := loadComp (fun c v => { c with suffer_damage := some v }) convPure w8 data.suffer_damage
  let w10 := loadComp (fun c v => { c with wants_melee := some v })
    (convRef WantsToMelee.mk) w9 data.wants_melee
  let w11 := loadComp (fun c v => { c with item := some v }) convPure w10 data.items
  let w12 := loadComp (fun c v => { c with consumable := some v }) convPure w11 data.consumables
  let w13 := loadComp (fun c v => { c with ranged := some v }) convPure w12 data.ranged
  let w14 := loadComp (fun c v => { c with inflicts_damage := some v })
    convPure w13 data.inflicts_damage
  let w15 := loadComp (fun c v => { c with area_of_effect := some v })
    convPure w14 data.area_of_effect
  let w16 := loadComp (fun c v => { c with confusion := some v }) convPure w15 data.confusion
  let w17 := loadComp (fun c v => { c with provides_healing := some v })
    convPure w16 data.provides_healing
  let w18 := loadComp (fun c v => { c with in_backpack := some v })
    (convRef InBackpack.mk) w17 data.in_backpack
  let w19 := loadComp (fun c v => { c with wants_to_pickup := some v })
    (convRef2 WantsToPickupItem.mk) w18 data.wants_to_pickup
  let w20 := loadComp (fun c v => { c with wants_to_use := some v })
    (convRefPair WantsToUseItem.mk) w19 data.wants_to_use
  let w21 := loadComp (fun c v => { c with wants_to_drop := some v })
    (convRef WantsToDropItem.mk) w20 data.wants_to_drop
  let w22 := loadComp (fun c v => { c with serialization_helper := some v })
    (fun wld (h : HelperSave) => (wld, SerializationHelper.mk h.map.toMap h.game_log))
    w21 data.helpers
  let w23 := loadComp (fun c v => { c with equippable := some v })
    convPure w22 data.equippables
  let w24 := loadComp (fun c v => { c with equipped := some v })
    (convRefPair Equipped.mk) w23 data.equipped
  let w25 := loadComp (fun c v => { c with melee_power_bonus := some v })
    convPure w24 data.melee_power_bonuses
  let w26 := loadComp (fun c v => { c with defense_bonus := some v })
    convPure w25 data.defense_bonuses
  let w27 := loadComp (fun c v => { c with wants_to_remove := some v })
    (convRef WantsToRemoveItem.mk) w26 data.wants_to_remove
  let w28 := loadComp (fun c v => { c with particle_lifetime := some v })
    convPure w27 data.particle_lifetimes
  let w29 := loadComp (fun c v => { c with hunger_clock := some v })
    convPure w28 data.hunger_clocks
  loadComp (fun c v => { c with provides_food := some v })
    convPure w29 data.provides_food

/-- The resource-restoring tail of load_game: the helper join rewrites
the Map and GameLog resources, the player join rewrites the player
resources, and the helper entities are deleted. -/
def loadFinish (w17 : World) : World :=
  let helperJoin := w17.entities.filterMap (fun e =>
    ((w17.comps e).serialization_helper).map (fun h => (e, h)))
  let w18 := helperJoin.foldl (fun acc p =>
    { acc with
      map := { p.2.map with tile_content := List.replicate MAP_COUNT [] }
      log := ⟨"Loaded game from save" :: p.2.game_log.entries⟩ }) w17
  let resources_only := helperJoin.map Prod.fst
  let playerJoin := w18.entities.filterMap (fun e =>
    match (w18.comps e).player, (w18.comps e).position with
    | some _, some pos => some (e, pos)
    | _, _ => none)
  let w19 := playerJoin.foldl (fun acc p =>
    { acc with player_point := (p.2.x, p.2.y), player_entity := p.1 }) w18
  resources_only.foldl deleteEntity w19

/-- The persisted, marker-resolved observation of one entity: every
saved component field, with entity references replaced by the
referenced entity's marker id (the transient SerializationHelper is
excluded). -/
structure CompsView where
  position : Option Position
  renderable : Option Renderable
  player : Option Unit
  viewshed : Option Viewshed
  monster : Option Unit
  name : Option Name
  blocks_tile : Option Unit
  combat_stats : Option CombatStats
  suffer_damage : Option SufferDamage
  wants_melee : Option Nat
  item : Option Unit
  consumable : Option Unit
  ranged : Option Ranged
  inflicts_damage : Option InflictsDamage
  area_of_effect : Option AreaOfEffect
  confusion : Option Confusion
  provides_healing : Option ProvidesHealing
  in_backpack : Option Nat
  wants_to_pickup : Option (Nat × Nat)
  wants_to_use : Option (Nat × Option (Int × Int))
  wants_to_drop : Option Nat
  equippable : Option Equippable
  equipped : Option (Nat × EquipmentSlot)
  melee_power_bonus : Option MeleePowerBonus
  defense_bonus : Option DefenseBonus
  wants_to_remove : Option Nat
  particle_lifetime : Option ParticleLifetime
  hunger_clock : Option HungerClock
  provides_food : Option Unit
  deriving Repr

/-- The view of an entity carrying no persisted component. -/
def emptyView : CompsView :=
  { position := none, renderable := none, player := none, viewshed := none
    monster := none, name := none, blocks_tile := none
    combat_stats := none, suffer_damage := none, wants_melee := none
    item := none, consumable := none, ranged := none
    inflicts_damage := none, area_of_effect := none, confusion := none
    provides_healing := none, in_backpack := none, wants_to_pickup := none
    wants_to_use := none, wants_to_drop := none, equippable := none
    equipped := none, melee_power_bonus := none, defense_bonus := none
    wants_to_remove := none, particle_lifetime := none
    hunger_clock := none, provides_food := none }

/-- Observe one entity of a world through its persisted components. -/
def viewOf (w : World) (e : Entity) : CompsView :=
  { position := (w.comps e).position
    renderable := (w.comps e).renderable
    player := (w.comps e).player
    viewshed := (w.comps e).viewshed
    monster := (w.comps e).monster
    name := (w.comps e).name
    blocks_tile := (w.comps e).blocks_tile
    combat_stats := (w.comps e).combat_stats
    suffer_damage := (w.comps e).suffer_damage
    wants_melee := ((w.comps e).wants_melee).bind (fun c => (w.comps c.target).marker)
    item := (w.comps e).item
    consumable := (w.comps e).consumable
    ranged := (w.comps e).ranged
    inflicts_damage := (w.comps e).inflicts_damage
    area_of_effect := (w.comps e).area_of_effect
    confusion := (w.comps e).confusion
    provides_healing := (w.comps e).provides_healing
    in_backpack := ((w.comps e).in_backpack).bind (fun c => (w.comps c.owner).marker)
    wants_to_pickup := ((w.comps e).wants_to_pickup).bind (fun c =>
      ((w.comps c.collected_by).marker).bind (fun a =>
        ((w.comps c.item).marker).map (fun b => (a, b))))
    wants_to_use := ((w.comps e).wants_to_use).bind (fun c =>
      ((w.comps c.item).marker).map (fun m => (m, c.target)))
    wants_to_drop := ((w.comps e).wants_to_drop).bind (fun c => (w.comps c.item).marker)
    equippable := (w.comps e).equippable
    equipped := ((w.comps e).equipped).bind (fun c =>
      ((w.comps c.owner).marker).map (fun m => (m, c.slot)))
    melee_power_bonus := (w.comps e).melee_power_bonus
    defense_bonus := (w.comps e).defense_bonus
    wants_to_remove := ((w.comps e).wants_to_remove).bind (fun c => (w.comps c.item).marker)
    particle_lifetime := (w.comps e).particle_lifetime
    hunger_clock := (w.comps e).hunger_clock
    provides_food := (w.comps e).provides_food }

/-- Every entity reference held by the entity points at a live entity. -/
def refTargetsLive (w : World) (e : Entity) : Bool :=
  ((w.comps e).wants_melee).all (fun c => w.entities.contains c.target) &&
  ((w.comps e).in_backpack).all (fun c => w.entities.contains c.owner) &&
  ((w.comps e).wants_to_pickup).all (fun c =>
    w.entities.contains c.collected_by && w.entities.contains c.item) &&
  ((w.comps e).wants_to_use).all (fun c => w.entities.contains c.item) &&
  ((w.comps e).wants_to_drop).all (fun c => w.entities.contains c.item) &&
  ((w.comps e).equipped).all (fun c => w.entities.contains c.owner) &&
  ((w.comps e).wants_to_remove).all (fun c => w.entities.contains c.item)

/-- load_game is exactly: delete everything, run the thirty
passes, restore the resources and delete the helpers. -/
lemma load_game_decomp (w : World) (data : SaveData) :
    load_game w data = loadFinish (loadPasses (w.entities.foldl deleteEntity w) data) := rfl

/-- loadComp is the fold of single rows. -/
lemma loadComp_eq_foldl {α β : Type} (set : Comps → α → Comps)
    (conv : World → β → World × α) (v : World) (l : List (Nat × β)) :
    loadComp set conv v l = l.foldl (loadStep set conv) v := rfl

/-- A key absent from the list looks up to nothing. -/
lemma lookupKey_eq_none {β : Type} (l : List (Nat × β)) (m : Nat)
    (h : m ∉ l.map Prod.fst) : lookupKey l m = none := by
  have hf : l.find? (fun q => q.1 == m) = none := by
    rw [List.find?_eq_none]
    intro q hq
    simp only [beq_iff_eq]
    intro hm
    exact h (List.mem_map.mpr ⟨q, hq, hm⟩)
  unfold lookupKey
  rw [hf]
  rfl

/-- A successful lookup comes from a list entry. -/
lemma lookupKey_mem {β : Type} : ∀ {l : List (Nat × β)} {m : Nat} {b : β},
    lookupKey l m = some b → (m, b) ∈ l := by
  intro l
  induction l with
  | nil =>
    intro m b h
    simp [lookupKey] at h
  | cons p l2 ih =>
    intro m b h
    unfold lookupKey at h
    rw [List.find?_cons] at h
    cases hpm : (p.1 == m) with
    | false =>
      rw [hpm] at h
      exact List.mem_cons_of_mem _ (ih h)
    | true =>
      rw [hpm] at h
      simp only [cond_true, Option.map_some, Option.some.injEq] at h
      have hp1 : p.1 = m := by simpa using hpm
      have hp : p = (m, b) := by
        obtain ⟨p1, p2⟩ := p
        have h2 : p2 = b := by simpa using h
        have h3 : p1 = m := hp1
        rw [h2, h3]
      exact hp ▸ List.mem_cons_self _ _

/-- With distinct keys, every list entry is found by lookup. -/
lemma mem_lookupKey {β : Type} : ∀ {l : List (Nat × β)} {m : Nat} {b : β},
    (l.map Prod.fst).Nodup → (m, b) ∈ l → lookupKey l m = some b := by
  intro l
  induction l with
  | nil =>
    intro m b _ h
    exact absurd h (List.not_mem_nil _)
  | cons p l2 ih =>
    intro m b hk hm
    rw [List.map_cons, List.nodup_cons] at hk
    rcases List.mem_cons.mp hm with h | h
    · subst h
      unfold lookupKey
      rw [List.find?_cons]
      have hp : ((m, b).1 == m) = true := by simp
      rw [hp]
      rfl
    · have hne : (p.1 == m) = false := by
        simp only [beq_eq_false_iff_ne, ne_eq]
        intro hpm
        exact hk.1 (hpm ▸ List.mem_map.mpr ⟨(m, b), h, rfl⟩)
      unfold lookupKey
      rw [List.find?_cons, hne]
      exact ih hk.2 h

/-- A filterMap with exactly one productive element of a duplicate-free
list is that element's singleton. -/
lemma filterMap_eq_singleton {α β : Type} :
    ∀ (l : List α) (F : α → Option β) (e : α) (v : β), l.Nodup → e ∈ l →
      F e = some v → (∀ x ∈ l, x ≠ e → F x = none) → l.filterMap F = [v] := by
  intro l
  induction l with
  | nil =>
    intro F e v _ he
    exact absurd he (List.not_mem_nil _)
  | cons a l2 ih =>
    intro F e v hn he hFe hrest
    rw [List.nodup_cons] at hn
    rcases List.mem_cons.mp he with h | h
    · subst h
      rw [List.filterMap_cons, hFe]
      have hz : l2.filterMap F = [] := by
        rw [List.filterMap_eq_nil]
        intro x hx
        exact hrest x (List.mem_cons_of_mem _ hx) (fun hxe => hn.1 (hxe ▸ hx))
      rw [hz]
    · have hae : a ≠ e := fun hh => hn.1 (hh ▸ h)
      rw [List.filterMap_cons, hrest a (List.mem_cons_self _ _) hae]
      exact ih F e v hn.2 h hFe (fun x hx => hrest x (List.mem_cons_of_mem _ hx))

/-- Serialized rows of marker-keyed components have distinct keys when
the source markers are injective. -/
lemma filterMap_keys_nodup {β : Type} (mk : Entity → Option Nat)
    (F : Entity → Option (Nat × β))
    (hFm : ∀ e m b, F e = some (m, b) → mk e = some m) :
    ∀ l : List Entity, l.Nodup →
      (∀ e ∈ l, ∀ x ∈ l, mk e = mk x → e = x) →
      ((l.filterMap F).map Prod.fst).Nodup := by
  intro l
  induction l with
  | nil =>
    intro _ _
    simp
  | cons a l2 ih =>
    intro hn hinj
    rw [List.nodup_cons] at hn
    rw [List.filterMap_cons]
    rcases hFa : F a with _ | q
    · exact ih hn.2 (fun e he x hx hm =>
        hinj e (List.mem_cons_of_mem _ he) x (List.mem_cons_of_mem _ hx) hm)
    · obtain ⟨m, b⟩ := q
      rw [List.map_cons, List.nodup_cons]
      constructor
      · intro hmem
        obtain ⟨p, hp, hp1⟩ := List.mem_map.mp hmem
        obtain ⟨x, hx, hFx⟩ := List.mem_filterMap.mp hp
        obtain ⟨p1, p2⟩ := p
        have hx1 : mk x = some p1 := hFm x p1 p2 hFx
        have ha1 : mk a = some m := hFm a m b hFa
        have hp1b : p1 = m := hp1
        have hax : a = x := hinj a (List.mem_cons_self _ _) x
          (List.mem_cons_of_mem _ hx) (by rw [ha1, hx1, hp1b])
        exact hn.1 (hax ▸ hx)
      · exact ih hn.2 (fun e he x hx hm =>
          hinj e (List.mem_cons_of_mem _ he) x (List.mem_cons_of_mem _ hx) hm)

/-- Membership in a serialized component list. -/
lemma serializeComp_mem {α β : Type} (w : World) (get : Comps → Option α)
    (f : α → β) (m : Nat) (b : β) :
    (m, b) ∈ serializeComp w get f ↔
      ∃ e ∈ w.entities, (w.comps e).marker = some m ∧
        ∃ c, get (w.comps e) = some c ∧ f c = b := by
  unfold serializeComp
  rw [List.mem_filterMap]
  constructor
  · rintro ⟨e, he, hfe⟩
    rcases h1 : (w.comps e).marker with _ | mm <;>
      rcases h2 : get (w.comps e) with _ | c <;>
      rw [h1, h2] at hfe <;> simp at hfe
    obtain ⟨hm, hb⟩ := hfe
    exact ⟨e, he, hm ▸ h1, c, h2, hb⟩
  · rintro ⟨e, he, hm, c, hc, hb⟩
    refine ⟨e, he, ?_⟩
    rw [hm, hc]
    simp [hb]

/-- Evaluating the fallible serialization fold when every stored
reference is convertible. -/
lemma serializeCompM_foldl {α β : Type} (w : World) (get : Comps → Option α)
    (f : α → Option β) :
    ∀ (l : List Entity) (acc : List (Nat × β)),
      (∀ e ∈ l, ∀ m c, (w.comps e).marker = some m → get (w.comps e) = some c →
        (f c).isSome = true) →
      (l.foldlM (fun acc e =>
        match (w.comps e).marker, get (w.comps e) with
        | some m, some c => (f c).map (fun b => acc ++ [(m, b)])
        | _, _ => some acc) acc) =
      some (acc ++ l.filterMap (fun e =>
        match (w.comps e).marker, get (w.comps e) with
        | some m, some c => (f c).map (fun b => (m, b))
        | _, _ => none)) := by
  intro l
  induction l with
  | nil =>
    intro acc _
    simp
  | cons e l2 ih =>
    intro acc h
    rw [List.foldlM_cons, List.filterMap_cons]
    rcases h1 : (w.comps e).marker with _ | mm <;>
      rcases h2 : get (w.comps e) with _ | c
    · simp only [h1, h2]
      exact ih acc (fun x hx => h x (List.mem_cons_of_mem _ hx))
    · simp only [h1, h2]
      exact ih acc (fun x hx => h x (List.mem_cons_of_mem _ hx))
    · simp only [h1, h2]
      exact ih acc (fun x hx => h x (List.mem_cons_of_mem _ hx))
    · have hs : (f c).isSome = true := h e (List.mem_cons_self _ _) mm c h1 h2
      rcases h3 : f c with _ | fb
      · rw [h3] at hs
        exact absurd hs (by simp)
      · simp only [h1, h2, h3, Option.map_some]
        exact (ih (acc ++ [(mm, fb)])
          (fun x hx => h x (List.mem_cons_of_mem _ hx))).trans (by simp)

/-- serializeCompM succeeds, and equals the row list, when every stored
reference is convertible. -/
lemma serializeCompM_eq {α β : Type} (w : World) (get : Comps → Option α)
    (f : α → Option β)
    (h : ∀ e ∈ w.entities, ∀ m c, (w.comps e).marker = some m →
      get (w.comps e) = some c → (f c).isSome = true) :
    serializeCompM w get f = some (w.entities.filterMap (fun e =>
      match (w.comps e).marker, get (w.comps e) with
      | some m, some c => (f c).map (fun b => (m, b))
      | _, _ => none)) := by
  unfold serializeCompM
  have hh := serializeCompM_foldl w get f w.entities [] h
  simpa using hh

/-- Everything SimpleMarkerAllocator::retrieve_entity guarantees: the
invariant is kept, existing entities are untouched, the returned entity
is live and carries the requested marker, and a created entity is a
blank fresh record for a marker that was not yet live. -/
lemma retrieveEntity_facts (v : World) (m : Nat) (hI : LoadInv v) :
    LoadInv (retrieveEntity v m).1 ∧
    (∀ e ∈ v.entities, e ∈ (retrieveEntity v m).1.entities) ∧
    (∀ e ∈ v.entities, (retrieveEntity v m).1.comps e = v.comps e) ∧
    (retrieveEntity v m).2 ∈ (retrieveEntity v m).1.entities ∧
    ((retrieveEntity v m).1.comps (retrieveEntity v m).2).marker = some m ∧
    (∀ e ∈ (retrieveEntity v m).1.entities, e ∉ v.entities →
      (retrieveEntity v m).1.comps e = ({ marker := some m } : Comps) ∧
        ¬ liveMarker v m) := by
  rcases hf : v.entities.find? (fun e => (v.comps e).marker == some m) with _ | e
  · have hw : retrieveEntity v m =
        ({ v with
            next_entity := v.next_entity + 1
            entities := v.entities ++ [v.next_entity]
            comps := fun x => if x = v.next_entity then { marker := some m }
              else v.comps x
            next_marker := max v.next_marker (m + 1) }, v.next_entity) := by
      unfold retrieveEntity
      rw [hf]
    rw [hw]
    have hnl : ¬ liveMarker v m := by
      rintro ⟨x, hx, hmx⟩
      have h2 := List.find?_eq_none.mp hf x hx
      simp only [beq_iff_eq] at h2
      exact h2 hmx
    have hnm : v.next_entity ∉ v.entities := fun hmem =>
      absurd (hI.bound _ hmem) (Nat.lt_irrefl _)
    have hent : (({ v with
        next_entity := v.next_entity + 1
        entities := v.entities ++ [v.next_entity]
        comps := fun x => if x = v.next_entity then { marker := some m }
          else v.comps x
        next_marker := max v.next_marker (m + 1) } : World)).entities =
        v.entities ++ [v.next_entity] := rfl
    have hcomps : ∀ x, (({ v with
        next_entity := v.next_entity + 1
        entities := v.entities ++ [v.next_entity]
        comps := fun x => if x = v.next_entity then { marker := some m }
          else v.comps x
        next_marker := max v.next_marker (m + 1) } : World)).comps x =
        if x = v.next_entity then ({ marker := some m } : Comps) else v.comps x :=
      fun x => rfl
    refine ⟨⟨?_, ?_, ?_, ?_⟩, ?_, ?_, ?_, ?_, ?_⟩
    · intro e he
      rw [hent] at he
      show e < v.next_entity + 1
      rcases List.mem_append.mp he with h | h
      · exact Nat.lt_succ_of_lt (hI.bound e h)
      · rw [List.mem_singleton.mp h]
        exact Nat.lt_succ_self _
    · show (v.entities ++ [v.next_entity]).Nodup
      rw [List.nodup_append]
      exact ⟨hI.nodup, List.nodup_singleton _,
        fun x hx hx2 => hnm ((List.mem_singleton.mp hx2) ▸ hx)⟩
    · intro e he
      rw [hent] at he
      rw [hcomps]
      by_cases hc : e = v.next_entity
      · rw [if_pos hc]
        rfl
      · rw [if_neg hc]
        apply hI.marked
        rcases List.mem_append.mp he with h | h
        · exact h
        · exact absurd (List.mem_singleton.mp h) hc
    · intro e he x hx hme
      rw [hent] at he hx
      rw [hcomps, hcomps] at hme
      by_cases hce : e = v.next_entity <;> by_cases hcx : x = v.next_entity
      · rw [hce, hcx]
      · rw [if_pos hce, if_neg hcx] at hme
        have hxv : x ∈ v.entities := by
          rcases List.mem_append.mp hx with h | h
          · exact h
          · exact absurd (List.mem_singleton.mp h) hcx
        exact absurd ⟨x, hxv, hme.symm⟩ hnl
      · rw [if_neg hce, if_pos hcx] at hme
        have hev : e ∈ v.entities := by
          rcases List.mem_append.mp he with h | h
          · exact h
          · exact absurd (List.mem_singleton.mp h) hce
        exact absurd ⟨e, hev, hme⟩ hnl
      · rw [if_neg hce, if_neg hcx] at hme
        have hev : e ∈ v.entities := by
          rcases List.mem_append.mp he with h | h
          · exact h
          · exact absurd (List.mem_singleton.mp h) hce
        have hxv : x ∈ v.entities := by
          rcases List.mem_append.mp hx with h | h
          · exact h
          · exact absurd (List.mem_singleton.mp h) hcx
        exact hI.inj e hev x hxv hme
    · intro e he
      rw [hent]
      exact List.mem_append.mpr (Or.inl he)
    · intro e he
      have hcne : ¬ (e = v.next_entity) := by
        intro hc
        rw [hc] at he
        exact hnm he
      rw [hcomps, if_neg hcne]
    · show v.next_entity ∈ v.entities ++ [v.next_entity]
      exact List.mem_append.mpr (Or.inr (List.mem_singleton.mpr rfl))
    · show ((if v.next_entity = v.next_entity then ({ marker := some m } : Comps)
        else v.comps v.next_entity)).marker = some m
      rw [if_pos rfl]
    · intro e he hne
      rw [hent] at he
      have hce : e = v.next_entity := by
        rcases List.mem_append.mp he with h | h
        · exact absurd h hne
        · exact List.mem_singleton.mp h
      rw [hcomps, if_pos hce]
      exact ⟨rfl, hnl⟩
  · have hw : retrieveEntity v m = (v, e) := by
      unfold retrieveEntity
      rw [hf]
    rw [hw]
    have he : e ∈ v.entities := List.mem_of_find?_eq_some hf
    have hme : (v.comps e).marker = some m := by
      have h2 := List.find?_some hf
      simpa using h2
    exact ⟨hI, fun x hx => hx, fun x _ => rfl, he, hme,
      fun x hx hnx => absurd hx hnx⟩

/-- A conversion that only maps the stored value is world-sound. -/
lemma convOK_mapF {β α : Type} (A : Nat → Prop) (f : β → α) :
    ConvOK A (fun _ => True) (fun (w : World) (b : β) => (w, f b)) := by
  intro v b hI _
  exact ⟨hI, fun e he => he, fun e _ => rfl, fun e he hne => absurd he hne⟩

/-- convPure is world-sound. -/
lemma convOK_pure {α : Type} (A : Nat → Prop) :
    ConvOK A (fun _ => True) (fun (w : World) (b : α) => convPure w b) := by
  intro v b hI _
  exact ⟨hI, fun e he => he, fun e _ => rfl, fun e he hne => absurd he hne⟩

/-- convRef is world-sound: it creates at most the referenced marker's
blank entity. -/
lemma convOK_ref {α : Type} (A : Nat → Prop) (mk : Entity → α) :
    ConvOK A A (convRef mk) := by
  intro v b hI hA
  obtain ⟨hI2, hmono, hpres, _, _, hfresh⟩ := retrieveEntity_facts v b hI
  refine ⟨hI2, hmono, hpres, ?_⟩
  intro e he hne
  obtain ⟨hc, hnl⟩ := hfresh e he hne
  exact ⟨b, hc, hnl, hA⟩

/-- convRefPair is world-sound. -/
lemma convOK_refPair {α γ : Type} (A : Nat → Prop) (mk : Entity → γ → α) :
    ConvOK A (fun p => A p.1) (convRefPair mk) := by
  intro v b hI hA
  obtain ⟨hI2, hmono, hpres, _, _, hfresh⟩ := retrieveEntity_facts v b.1 hI
  refine ⟨hI2, hmono, hpres, ?_⟩
  intro e he hne
  obtain ⟨hc, hnl⟩ := hfresh e he hne
  exact ⟨b.1, hc, hnl, hA⟩

/-- convRef2 is world-sound: it creates at most the two referenced
markers' blank entities. -/
lemma convOK_ref2 {α : Type} (A : Nat → Prop) (mk : Entity → Entity → α) :
    ConvOK A (fun p => A p.1 ∧ A p.2) (convRef2 mk) := by
  intro v b hI hA
  obtain ⟨hI1, hmono1, hpres1, _, _, hfresh1⟩ := retrieveEntity_facts v b.1 hI
  obtain ⟨hI2, hmono2, hpres2, _, _, hfresh2⟩ :=
    retrieveEntity_facts (retrieveEntity v b.1).1 b.2 hI1
  refine ⟨hI2, fun e he => hmono2 e (hmono1 e he),
    fun e he => (hpres2 e (hmono1 e he)).trans (hpres1 e he), ?_⟩
  intro e he hne
  by_cases h1 : e ∈ (retrieveEntity v b.1).1.entities
  · obtain ⟨hc, hnl⟩ := hfresh1 e h1 hne
    exact ⟨b.1, (hpres2 e h1).trans hc, hnl, hA.1⟩
  · obtain ⟨hc, hnl⟩ := hfresh2 e he h1
    refine ⟨b.2, hc, fun hl => hnl ?_, hA.2⟩
    obtain ⟨x, hx, hxm⟩ := hl
    exact ⟨x, hmono1 x hx, (congrArg Comps.marker (hpres1 x hx)).trans hxm⟩

/-- The value produced by convRef is the live carrier of the stored
marker. -/
lemma rval_ref {α : Type} (mk : Entity → α) (v : World) (b : Nat)
    (hI : LoadInv v) :
    RRef mk (convRef mk v b).1 (convRef mk v b).2 b := by
  obtain ⟨_, _, _, hmem, hmk, _⟩ := retrieveEntity_facts v b hI
  exact ⟨(retrieveEntity v b).2, rfl, hmem, hmk⟩

/-- The value produced by convRefPair is the live carrier of the stored
marker together with the payload. -/
lemma rval_refPair {α γ : Type} (mk : Entity → γ → α) (v : World) (b : Nat × γ)
    (hI : LoadInv v) :
    RRefPair mk (convRefPair mk v b).1 (convRefPair mk v b).2 b := by
  obtain ⟨_, _, _, hmem, hmk, _⟩ := retrieveEntity_facts v b.1 hI
  exact ⟨(retrieveEntity v b.1).2, rfl, hmem, hmk⟩

/-- The value produced by convRef2 is the pair of live carriers of the
two stored markers. -/
lemma rval_ref2 {α : Type} (mk : Entity → Entity → α) (v : World) (b : Nat × Nat)
    (hI : LoadInv v) :
    RRef2 mk (convRef2 mk v b).1 (convRef2 mk v b).2 b := by
  obtain ⟨hI1, hmono1, hpres1, hmem1, hmk1, _⟩ := retrieveEntity_facts v b.1 hI
  obtain ⟨_, hmono2, hpres2, hmem2, hmk2, _⟩ :=
    retrieveEntity_facts (retrieveEntity v b.1).1 b.2 hI1
  exact ⟨(retrieveEntity v b.1).2, (retrieveEntity (retrieveEntity v b.1).1 b.2).2,
    rfl, hmono2 _ hmem1,
    (congrArg Comps.marker (hpres2 _ hmem1)).trans hmk1, hmem2, hmk2⟩

/-- RPure is stable under world extension. -/
lemma RPure_mono {α β : Type} (f : β → α) (v v2 : World) (a : α) (b : β)
    (hle : MarkerLe v v2) (h : RPure f v a b) : RPure f v2 a b := h

/-- RRef is stable under world extension. -/
lemma RRef_mono {α : Type} (mk : Entity → α) (v v2 : World) (a : α) (b : Nat)
    (hle : MarkerLe v v2) (h : RRef mk v a b) : RRef mk v2 a b := by
  obtain ⟨t, h1, h2, h3⟩ := h
  exact ⟨t, h1, hle.1 t h2, (hle.2 t h2).trans h3⟩

/-- RRefPair is stable under world extension. -/
lemma RRefPair_mono {α γ : Type} (mk : Entity → γ → α) (v v2 : World) (a : α)
    (b : Nat × γ) (hle : MarkerLe v v2) (h : RRefPair mk v a b) :
    RRefPair mk v2 a b := by
  obtain ⟨t, h1, h2, h3⟩ := h
  exact ⟨t, h1, hle.1 t h2, (hle.2 t h2).trans h3⟩

/-- RRef2 is stable under world extension. -/
lemma RRef2_mono {α : Type} (mk : Entity → Entity → α) (v v2 : World) (a : α)
    (b : Nat × Nat) (hle : MarkerLe v v2) (h : RRef2 mk v a b) :
    RRef2 mk v2 a b := by
  obtain ⟨t1, t2, h1, h2, h3, h4, h5⟩ := h
  exact ⟨t1, t2, h1, hle.1 t1 h2, (hle.2 t1 h2).trans h3,
    hle.1 t2 h4, (hle.2 t2 h4).trans h5⟩

/-- MarkerLe is reflexive. -/
lemma MarkerLe_refl (v : World) : MarkerLe v v :=
  ⟨fun _ he => he, fun _ _ => rfl⟩

/-- MarkerLe is transitive. -/
lemma MarkerLe_trans {v1 v2 v3 : World} (h1 : MarkerLe v1 v2)
    (h2 : MarkerLe v2 v3) : MarkerLe v1 v3 :=
  ⟨fun e he => h2.1 e (h1.1 e he),
   fun e he => (h2.2 e (h1.1 e he)).trans (h1.2 e he)⟩

/-- Live markers persist under world extension. -/
lemma liveMarker_mono {v v2 : World} (hle : MarkerLe v v2) {m : Nat}
    (h : liveMarker v m) : liveMarker v2 m := by
  obtain ⟨e, he, hme⟩ := h
  exact ⟨e, hle.1 e he, (hle.2 e he).trans hme⟩

/-- Key liveness persists under world extension. -/
lemma KeysLive_mono {β : Type} {l : List (Nat × β)} {v v2 : World}
    (hle : MarkerLe v v2) (h : KeysLive l v) : KeysLive l v2 :=
  fun m hm => liveMarker_mono hle (h m hm)

/-- One deserialization row keeps the invariant, extends the world,
creates only sound fresh markers, and makes its key live. -/
lemma loadStep_facts {α β : Type} (set : Comps → α → Comps)
    (conv : World → β → World × α) (A : Nat → Prop) (Ab : β → Prop)
    (hmk : ∀ c a, (set c a).marker = c.marker)
    (hOK : ConvOK A Ab conv) (acc : World) (p : Nat × β)
    (hI : LoadInv acc) (hA : A p.1) (hAb : Ab p.2) :
    LoadInv (loadStep set conv acc p) ∧
    MarkerLe acc (loadStep set conv acc p) ∧
    (∀ e ∈ (loadStep set conv acc p).entities, e ∉ acc.entities →
      ∃ m, ((loadStep set conv acc p).comps e).marker = some m ∧
        ¬ liveMarker acc m ∧ A m) ∧
    liveMarker (loadStep set conv acc p) p.1 := by
  obtain ⟨hIr, hmonor, hpresr, hrmem, hrmk, hfreshr⟩ := retrieveEntity_facts acc p.1 hI
  obtain ⟨hIc, hmonoc, hpresc, hfreshc⟩ :=
    hOK (retrieveEntity acc p.1).1 p.2 hIr hAb
  have hFeq : loadStep set conv acc p =
      ((conv (retrieveEntity acc p.1).1 p.2).1).updComps (retrieveEntity acc p.1).2
        (fun c => set c (conv (retrieveEntity acc p.1).1 p.2).2) := rfl
  rw [hFeq]
  have hcompsF : ∀ x,
      ((((conv (retrieveEntity acc p.1).1 p.2).1).updComps (retrieveEntity acc p.1).2
        (fun c => set c (conv (retrieveEntity acc p.1).1 p.2).2)).comps x) =
      if x = (retrieveEntity acc p.1).2 then
        set ((conv (retrieveEntity acc p.1).1 p.2).1.comps x)
          (conv (retrieveEntity acc p.1).1 p.2).2
      else (conv (retrieveEntity acc p.1).1 p.2).1.comps x :=
    fun x => comps_updComps _ _ _ x
  have hmkF : ∀ x,
      (((((conv (retrieveEntity acc p.1).1 p.2).1).updComps (retrieveEntity acc p.1).2
        (fun c => set c (conv (retrieveEntity acc p.1).1 p.2).2)).comps x)).marker =
      (((conv (retrieveEntity acc p.1).1 p.2).1.comps x)).marker := by
    intro x
    rw [hcompsF]
    split_ifs with h
    · exact hmk _ _
    · rfl
  have hr2c : (conv (retrieveEntity acc p.1).1 p.2).1.comps (retrieveEntity acc p.1).2 =
      (retrieveEntity acc p.1).1.comps (retrieveEntity acc p.1).2 := hpresc _ hrmem
  refine ⟨⟨?_, ?_, ?_, ?_⟩, ⟨?_, ?_⟩, ?_, ?_⟩
  · intro e he
    exact hIc.bound e he
  · exact hIc.nodup
  · intro e he
    rw [hmkF]
    exact hIc.marked e he
  · intro e he x hx hme
    rw [hmkF, hmkF] at hme
    exact hIc.inj e he x hx hme
  · intro e he
    exact hmonoc e (hmonor e he)
  · intro e he
    rw [hmkF, hpresc e (hmonor e he), hpresr e he]
  · intro e he hne
    by_cases hm : e ∈ (retrieveEntity acc p.1).1.entities
    · obtain ⟨hc, hnl⟩ := hfreshr e hm hne
      refine ⟨p.1, ?_, hnl, hA⟩
      rw [hmkF, hpresc e hm, hc]
    · obtain ⟨m, hc, hnl, hAm⟩ := hfreshc e he hm
      refine ⟨m, ?_, ?_, hAm⟩
      · rw [hmkF, hc]
      · intro hlm
        obtain ⟨x, hx, hmx⟩ := hlm
        exact hnl ⟨x, hmonor x hx, (hpresr x hx).symm ▸ hmx⟩
  · refine ⟨(retrieveEntity acc p.1).2, hmonoc _ hrmem, ?_⟩
    rw [hmkF, hr2c, hrmk]

/-- The fold of deserialization rows keeps the invariant, extends the
world, creates only sound fresh markers, and makes every key live. -/
lemma loadComp_struct {α β : Type} (set : Comps → α → Comps)
    (conv : World → β → World × α) (A : Nat → Prop) (Ab : β → Prop)
    (hmk : ∀ c a, (set c a).marker = c.marker) (hOK : ConvOK A Ab conv) :
    ∀ (l : List (Nat × β)) (v : World), LoadInv v → (∀ p ∈ l, A p.1 ∧ Ab p.2) →
      LoadInv (loadComp set conv v l) ∧
      MarkerLe v (loadComp set conv v l) ∧
      (∀ e ∈ (loadComp set conv v l).entities, e ∉ v.entities →
        ∃ m, ((loadComp set conv v l).comps e).marker = some m ∧
          ¬ liveMarker v m ∧ A m) ∧
      KeysLive l (loadComp set conv v l) := by
  intro l
  induction l with
  | nil =>
    intro v hI _
    exact ⟨hI, MarkerLe_refl v, fun e he hne => absurd he hne,
      fun m hm => absurd hm (List.not_mem_nil _)⟩
  | cons p l2 ih =>
    intro v hI hA
    rw [loadComp_eq_foldl, List.foldl_cons, ← loadComp_eq_foldl]
    obtain ⟨hI1, hle1, hfresh1, hlive1⟩ := loadStep_facts set conv A Ab hmk hOK v p hI
      (hA p (List.mem_cons_self _ _)).1 (hA p (List.mem_cons_self _ _)).2
    obtain ⟨hI2, hle2, hfresh2, hlive2⟩ := ih (loadStep set conv v p) hI1
      (fun q hq => hA q (List.mem_cons_of_mem _ hq))
    refine ⟨hI2, MarkerLe_trans hle1 hle2, ?_, ?_⟩
    · intro e he hne
      by_cases hm : e ∈ (loadStep set conv v p).entities
      · obtain ⟨m, h1, h2, h3⟩ := hfresh1 e hm hne
        refine ⟨m, ?_, h2, h3⟩
        rw [hle2.2 e hm, h1]
      · obtain ⟨m, h1, h2, h3⟩ := hfresh2 e he hm
        refine ⟨m, h1, ?_, h3⟩
        intro hlm
        exact h2 (liveMarker_mono hle1 hlm)
    · intro m hm
      rw [List.map_cons] at hm
      rcases List.mem_cons.mp hm with h | h
      · exact h ▸ liveMarker_mono hle2 hlive1
      · exact hlive2 m h

/-- One deserialization row does not disturb any other component
observer: old entities keep their value and fresh entities have none. -/
lemma loadStep_obs {α β γ : Type} (set : Comps → α → Comps)
    (conv : World → β → World × α) (obs : Comps → Option γ)
    (A : Nat → Prop) (Ab : β → Prop) (hOK : ConvOK A Ab conv)
    (hso : ∀ c a, obs (set c a) = obs c)
    (hfr : ∀ m, obs ({ marker := some m } : Comps) = none)
    (acc : World) (p : Nat × β) (hI : LoadInv acc) (hAb : Ab p.2) :
    (∀ e ∈ acc.entities,
      obs ((loadStep set conv acc p).comps e) = obs (acc.comps e)) ∧
    (∀ e ∈ (loadStep set conv acc p).entities, e ∉ acc.entities →
      obs ((loadStep set conv acc p).comps e) = none) := by
  obtain ⟨hIr, hmonor, hpresr, hrmem, hrmk, hfreshr⟩ := retrieveEntity_facts acc p.1 hI
  obtain ⟨hIc, hmonoc, hpresc, hfreshc⟩ :=
    hOK (retrieveEntity acc p.1).1 p.2 hIr hAb
  have hFeq : loadStep set conv acc p =
      ((conv (retrieveEntity acc p.1).1 p.2).1).updComps (retrieveEntity acc p.1).2
        (fun c => set c (conv (retrieveEntity acc p.1).1 p.2).2) := rfl
  rw [hFeq]
  have hobsF : ∀ x,
      obs ((((conv (retrieveEntity acc p.1).1 p.2).1).updComps (retrieveEntity acc p.1).2
        (fun c => set c (conv (retrieveEntity acc p.1).1 p.2).2)).comps x) =
      obs ((conv (retrieveEntity acc p.1).1 p.2).1.comps x) := by
    intro x
    rw [comps_updComps]
    split_ifs with h
    · exact hso _ _
    · rfl
  constructor
  · intro e he
    rw [hobsF, hpresc e (hmonor e he), hpresr e he]
  · intro e he hne
    by_cases hm : e ∈ (retrieveEntity acc p.1).1.entities
    · obtain ⟨hc, _⟩ := hfreshr e hm hne
      rw [hobsF, hpresc e hm, hc, hfr]
    · obtain ⟨m, hc, _, _⟩ := hfreshc e he hm
      rw [hobsF, hc, hfr]

/-- A whole pass does not disturb any other component observer. -/
lemma loadComp_obs {α β γ : Type} (set : Comps → α → Comps)
    (conv : World → β → World × α) (obs : Comps → Option γ)
    (A : Nat → Prop) (Ab : β → Prop)
    (hmk : ∀ c a, (set c a).marker = c.marker) (hOK : ConvOK A Ab conv)
    (hso : ∀ c a, obs (set c a) = obs c)
    (hfr : ∀ m, obs ({ marker := some m } : Comps) = none) :
    ∀ (l : List (Nat × β)) (v : World), LoadInv v → (∀ p ∈ l, A p.1 ∧ Ab p.2) →
      (∀ e ∈ v.entities,
        obs ((loadComp set conv v l).comps e) = obs (v.comps e)) ∧
      (∀ e ∈ (loadComp set conv v l).entities, e ∉ v.entities →
        obs ((loadComp set conv v l).comps e) = none) := by
  intro l
  induction l with
  | nil =>
    intro v _ _
    exact ⟨fun e _ => rfl, fun e he hne => absurd he hne⟩
  | cons p l2 ih =>
    intro v hI hA
    rw [loadComp_eq_foldl, List.foldl_cons, ← loadComp_eq_foldl]
    obtain ⟨hI1, hle1, hfresh1, hlive1⟩ := loadStep_facts set conv A Ab hmk hOK v p hI
      (hA p (List.mem_cons_self _ _)).1 (hA p (List.mem_cons_self _ _)).2
    obtain ⟨hsold, hsnew⟩ := loadStep_obs set conv obs A Ab hOK hso hfr v p hI
      (hA p (List.mem_cons_self _ _)).2
    obtain ⟨hold2, hnew2⟩ := ih (loadStep set conv v p) hI1
      (fun q hq => hA q (List.mem_cons_of_mem _ hq))
    constructor
    · intro e he
      rw [hold2 e (hle1.1 e he), hsold e he]
    · intro e he hne
      by_cases hm : e ∈ (loadStep set conv v p).entities
      · rw [hold2 e hm]
        exact hsnew e hm hne
      · exact hnew2 e he hm

/-- Component absence is preserved by a non-disturbing pass. -/
lemma AllNone_mono {α : Type} (get : Comps → Option α) (v v2 : World)
    (hold : ∀ e ∈ v.entities, get (v2.comps e) = get (v.comps e))
    (hnew : ∀ e ∈ v2.entities, e ∉ v.entities → get (v2.comps e) = none)
    (h : AllNone get v) : AllNone get v2 := by
  intro e he
  by_cases hm : e ∈ v.entities
  · rw [hold e hm]
    exact h e hm
  · exact hnew e he hm

/-- An established marker-to-value correspondence is preserved by a
non-disturbing pass. -/
lemma FieldVals_mono {α β : Type} (get : Comps → Option α)
    (R : World → α → β → Prop) (l : List (Nat × β)) {v v2 : World}
    (hle : MarkerLe v v2)
    (hRm : ∀ a b, R v a b → R v2 a b)
    (hfresh : ∀ e ∈ v2.entities, e ∉ v.entities →
      ∃ m, ((v2.comps e).marker) = some m ∧ ¬ liveMarker v m)
    (hold : ∀ e ∈ v.entities, get (v2.comps e) = get (v.comps e))
    (hnew : ∀ e ∈ v2.entities, e ∉ v.entities → get (v2.comps e) = none)
    (hkl : KeysLive l v)
    (h : FieldVals get R l v) : FieldVals get R l v2 := by
  intro e he mm hmm
  by_cases hm : e ∈ v.entities
  · have hmm0 : (v.comps e).marker = some mm := by rw [← hle.2 e hm, hmm]
    have h2 := h e hm mm hmm0
    rcases hlk : lookupKey l mm with _ | b
    · simp only [hlk] at h2 ⊢
      rw [hold e hm]
      exact h2
    · simp only [hlk] at h2 ⊢
      obtain ⟨a, ha1, ha2⟩ := h2
      refine ⟨a, ?_, hRm a b ha2⟩
      rw [hold e hm]
      exact ha1
  · obtain ⟨m, hm1, hm2⟩ := hfresh e he hm
    rw [hmm] at hm1
    injection hm1 with h3
    have hnk : mm ∉ l.map Prod.fst := fun hk => hm2 (h3 ▸ hkl mm hk)
    simp only [lookupKey_eq_none l mm hnk]
    exact hnew e he hm

/-- Marker soundness is preserved by a pass with sound fresh markers. -/
lemma MarksIn_mono {A : Nat → Prop} {v v2 : World} (hle : MarkerLe v v2)
    (hfresh : ∀ e ∈ v2.entities, e ∉ v.entities →
      ∃ m, ((v2.comps e).marker) = some m ∧ A m)
    (h : MarksIn A v) : MarksIn A v2 := by
  intro e he m hm
  by_cases hmem : e ∈ v.entities
  · exact h e hmem m (by rw [← hle.2 e hmem, hm])
  · obtain ⟨m2, h1, h2⟩ := hfresh e he hmem
    rw [hm] at h1
    injection h1 with h3
    exact h3 ▸ h2

/-- Appending a row with a fresh key does not change other lookups. -/
lemma lookupKey_append_ne {β : Type} :
    ∀ (l2 : List (Nat × β)) (p : Nat × β) (m : Nat), m ≠ p.1 →
      lookupKey (l2 ++ [p]) m = lookupKey l2 m := by
  intro l2
  induction l2 with
  | nil =>
    intro p m h
    unfold lookupKey
    rw [List.nil_append, List.find?_cons]
    have hp : (p.1 == m) = false := by
      simp only [beq_eq_false_iff_ne, ne_eq]
      exact fun hh => h hh.symm
    rw [hp]
  | cons q l ih =>
    intro p m h
    unfold lookupKey
    rw [List.cons_append, List.find?_cons, List.find?_cons]
    cases hq : (q.1 == m) with
    | true => rfl
    | false => exact ih p m h

/-- The pass for one component list establishes the marker-to-value
correspondence for that list. -/
lemma loadComp_est {α β : Type} (set : Comps → α → Comps) (get : Comps → Option α)
    (conv : World → β → World × α) (A : Nat → Prop) (Ab : β → Prop)
    (R : World → α → β → Prop)
    (hOK : ConvOK A Ab conv)
    (hval : ∀ v b, LoadInv v → Ab b → R (conv v b).1 (conv v b).2 b)
    (hRm : ∀ v v2 a b, MarkerLe v v2 → R v a b → R v2 a b)
    (hget : ∀ c a, get (set c a) = some a)
    (hmk : ∀ c a, (set c a).marker = c.marker)
    (hfr : ∀ m, get ({ marker := some m } : Comps) = none) :
    ∀ (l : List (Nat × β)) (v : World), LoadInv v →
      (l.map Prod.fst).Nodup → (∀ p ∈ l, A p.1 ∧ Ab p.2) →
      AllNone get v →
      FieldVals get R l (loadComp set conv v l) := by
  intro l
  induction l using List.reverseRecOn with
  | nil =>
    intro v hI _ _ hnone
    intro e he mm hmm
    have hz : lookupKey ([] : List (Nat × β)) mm = none := rfl
    simp only [hz]
    exact hnone e he
  | append_singleton l2 p ih =>
    intro v hI hkeys hA hnone
    have hsplit : loadComp set conv v (l2 ++ [p]) =
        loadStep set conv (loadComp set conv v l2) p := by
      rw [loadComp_eq_foldl, List.foldl_append, List.foldl_cons, List.foldl_nil,
        ← loadComp_eq_foldl]
    rw [hsplit]
    have hkeys0 := hkeys
    rw [List.map_append] at hkeys0
    rw [List.nodup_append] at hkeys0
    have hkeys2 : (l2.map Prod.fst).Nodup := hkeys0.1
    have hpk : p.1 ∉ l2.map Prod.fst := by
      intro hk
      exact hkeys0.2.2 hk (by simp)
    have hA2 : ∀ q ∈ l2, A q.1 ∧ Ab q.2 :=
      fun q hq => hA q (List.mem_append.mpr (Or.inl hq))
    have hAp : A p.1 ∧ Ab p.2 :=
      hA p (List.mem_append.mpr (Or.inr (List.mem_singleton.mpr rfl)))
    obtain ⟨hI2, hle2, hfresh2, hkl2⟩ := loadComp_struct set conv A Ab hmk hOK l2 v hI hA2
    have hFV2 := ih v hI hkeys2 hA2 hnone
    obtain ⟨hIF, hleF, hfreshF, hliveF⟩ :=
      loadStep_facts set conv A Ab hmk hOK (loadComp set conv v l2) p hI2 hAp.1 hAp.2
    obtain ⟨hIr, hmonor, hpresr, hrmem, hrmk, hfreshr⟩ :=
      retrieveEntity_facts (loadComp set conv v l2) p.1 hI2
    obtain ⟨hIc, hmonoc, hpresc, hfreshc⟩ :=
      hOK (retrieveEntity (loadComp set conv v l2) p.1).1 p.2 hIr hAp.2
    have hval2 := hval (retrieveEntity (loadComp set conv v l2) p.1).1 p.2 hIr hAp.2
    have hFeq : loadStep set conv (loadComp set conv v l2) p =
        ((conv (retrieveEntity (loadComp set conv v l2) p.1).1 p.2).1).updComps
          (retrieveEntity (loadComp set conv v l2) p.1).2
          (fun c => set c (conv (retrieveEntity (loadComp set conv v l2) p.1).1 p.2).2) :=
      rfl
    have hcompsF : ∀ x,
        ((loadStep set conv (loadComp set conv v l2) p).comps x) =
        if x = (retrieveEntity (loadComp set conv v l2) p.1).2 then
          set ((conv (retrieveEntity (loadComp set conv v l2) p.1).1 p.2).1.comps x)
            (conv (retrieveEntity (loadComp set conv v l2) p.1).1 p.2).2
        else (conv (retrieveEntity (loadComp set conv v l2) p.1).1 p.2).1.comps x := by
      intro x
      rw [hFeq, comps_updComps]
    have hmleCF :
        MarkerLe (conv (retrieveEntity (loadComp set conv v l2) p.1).1 p.2).1
          (loadStep set conv (loadComp set conv v l2) p) := by
      constructor
      · intro e he
        exact he
      · intro e he
        rw [hcompsF]
        split_ifs with h
        · exact hmk _ _
        · rfl
    have hr2F : ((loadStep set conv (loadComp set conv v l2) p).comps
        (retrieveEntity (loadComp set conv v l2) p.1).2) =
        set ((conv (retrieveEntity (loadComp set conv v l2) p.1).1 p.2).1.comps
          (retrieveEntity (loadComp set conv v l2) p.1).2)
          (conv (retrieveEntity (loadComp set conv v l2) p.1).1 p.2).2 := by
      rw [hcompsF, if_pos rfl]
    have hr2mkF : (((loadStep set conv (loadComp set conv v l2) p).comps
        (retrieveEntity (loadComp set conv v l2) p.1).2)).marker = some p.1 := by
      rw [hr2F, hmk, hpresc _ hrmem, hrmk]
    have hr2memF : (retrieveEntity (loadComp set conv v l2) p.1).2 ∈
        (loadStep set conv (loadComp set conv v l2) p).entities :=
      hmonoc _ hrmem
    intro e he mm hmm
    by_cases hmp : mm = p.1
    · have hlkp : lookupKey (l2 ++ [p]) mm = some p.2 := by
        rw [hmp]
        apply mem_lookupKey hkeys
        exact List.mem_append.mpr (Or.inr (by simp))
      simp only [hlkp]
      have her2 : e = (retrieveEntity (loadComp set conv v l2) p.1).2 := by
        apply hIF.inj e he _ hr2memF
        rw [hmm, hr2mkF, hmp]
      subst her2
      refine ⟨(conv (retrieveEntity (loadComp set conv v l2) p.1).1 p.2).2, ?_, ?_⟩
      · rw [hr2F, hget]
      · exact hRm _ _ _ _ hmleCF hval2
    · have hlkne : lookupKey (l2 ++ [p]) mm = lookupKey l2 mm :=
        lookupKey_append_ne l2 p mm hmp
      have her2 : e ≠ (retrieveEntity (loadComp set conv v l2) p.1).2 := by
        intro hh
        rw [hh, hr2mkF] at hmm
        injection hmm with hmm2
        exact hmp hmm2.symm
      by_cases hm : e ∈ (loadComp set conv v l2).entities
      · have hceq : (loadStep set conv (loadComp set conv v l2) p).comps e =
            (loadComp set conv v l2).comps e := by
          rw [hcompsF, if_neg her2, hpresc e (hmonor e hm), hpresr e hm]
        have hmm0 : ((loadComp set conv v l2).comps e).marker = some mm := by
          rw [← hceq, hmm]
        have h2 := hFV2 e hm mm hmm0
        rw [hlkne]
        rcases hlk : lookupKey l2 mm with _ | b
        · simp only [hlk] at h2 ⊢
          rw [hceq]
          exact h2
        · simp only [hlk] at h2 ⊢
          obtain ⟨a, ha1, ha2⟩ := h2
          refine ⟨a, ?_, hRm _ _ a b (MarkerLe_trans (MarkerLe_trans (MarkerLe_refl _) hleF) (MarkerLe_refl _)) ha2⟩
          rw [hceq]
          exact ha1
      · obtain ⟨m, hm1, hm2, _⟩ := hfreshF e he hm
        rw [hmm] at hm1
        injection hm1 with h3
        have hnk : mm ∉ l2.map Prod.fst := fun hk => hm2 (h3 ▸ hkl2 mm hk)
        rw [hlkne]
        simp only [lookupKey_eq_none l2 mm hnk]
        by_cases hmr : e ∈ (retrieveEntity (loadComp set conv v l2) p.1).1.entities
        · obtain ⟨hc, _⟩ := hfreshr e hmr hm
          exfalso
          apply her2
          apply hIr.inj e hmr _ hrmem
          rw [hc, hrmk]
        · obtain ⟨m2, hc, _, _⟩ := hfreshc e he hmr
          rw [hcompsF, if_neg her2, hc, hfr]



/-- Everything the thirty passes establish: the structural invariant,
marker soundness, and one key-liveness plus one marker-to-value
correspondence per persisted component list. -/
structure LoadedFacts (A : Nat → Prop) (data : SaveData) (v : World) : Prop where
  inv : LoadInv v
  marks : MarksIn A v
  kl_pos : KeysLive data.positions v
  fv_pos : FieldVals (fun c => c.position) (RPure id) data.positions v
  kl_rnd : KeysLive data.renderables v
  fv_rnd : FieldVals (fun c => c.renderable) (RPure id) data.renderables v
  kl_pl : KeysLive data.players v
  fv_pl : FieldVals (fun c => c.player) (RPure id) data.players v
  kl_vs : KeysLive data.viewsheds v
  fv_vs : FieldVals (fun c => c.viewshed) (RPure id) data.viewsheds v
  kl_mon : KeysLive data.monsters v
  fv_mon : FieldVals (fun c => c.monster) (RPure id) data.monsters v
  kl_nm : KeysLive data.names v
  fv_nm : FieldVals (fun c => c.name) (RPure id) data.names v
  kl_bt : KeysLive data.blocks_tile v
  fv_bt : FieldVals (fun c => c.blocks_tile) (RPure id) data.blocks_tile v
  kl_cs : KeysLive data.combat_stats v
  fv_cs : FieldVals (fun c => c.combat_stats) (RPure id) data.combat_stats v
  kl_sd : KeysLive data.suffer_damage v
  fv_sd : FieldVals (fun c => c.suffer_damage) (RPure id) data.suffer_damage v
  kl_wm : KeysLive data.wants_melee v
  fv_wm : FieldVals (fun c => c.wants_melee) (RRef WantsToMelee.mk) data.wants_melee v
  kl_it : KeysLive data.items v
  fv_it : FieldVals (fun c => c.item) (RPure id) data.items v
  kl_con : KeysLive data.consumables v
  fv_con : FieldVals (fun c => c.consumable) (RPure id) data.consumables v
  kl_rg : KeysLive data.ranged v
  fv_rg : FieldVals (fun c => c.ranged) (RPure id) data.ranged v
  kl_inf : KeysLive data.inflicts_damage v
  fv_inf : FieldVals (fun c => c.inflicts_damage) (RPure id) data.inflicts_damage v
  kl_ae : KeysLive data.area_of_effect v
  fv_ae : FieldVals (fun c => c.area_of_effect) (RPure id) data.area_of_effect v
  kl_cf : KeysLive data.confusion v
  fv_cf : FieldVals (fun c => c.confusion) (RPure id) data.confusion v
  kl_ph : KeysLive data.provides_healing v
  fv_ph : FieldVals (fun c => c.provides_healing) (RPure id) data.provides_healing v
  kl_ib : KeysLive data.in_backpack v
  fv_ib : FieldVals (fun c => c.in_backpack) (RRef InBackpack.mk) data.in_backpack v
  kl_wp : KeysLive data.wants_to_pickup v
  fv_wp : FieldVals (fun c => c.wants_to_pickup) (RRef2 WantsToPickupItem.mk) data.wants_to_pickup v
  kl_wu : KeysLive data.wants_to_use v
  fv_wu : FieldVals (fun c => c.wants_to_use) (RRefPair WantsToUseItem.mk) data.wants_to_use v
  kl_wd : KeysLive data.wants_to_drop v
  fv_wd : FieldVals (fun c => c.wants_to_drop) (RRef WantsToDropItem.mk) data.wants_to_drop v
  kl_sh : KeysLive data.helpers v
  fv_sh : FieldVals (fun c => c.serialization_helper) (RPure (fun (h : HelperSave) => SerializationHelper.mk h.map.toMap h.game_log)) data.helpers v
  kl_eqb : KeysLive data.equippables v
  fv_eqb : FieldVals (fun c => c.equippable) (RPure id) data.equippables v
  kl_eqp : KeysLive data.equipped v
  fv_eqp : FieldVals (fun c => c.equipped) (RRefPair Equipped.mk) data.equipped v
  kl_mp : KeysLive data.melee_power_bonuses v
  fv_mp : FieldVals (fun c => c.melee_power_bonus) (RPure id) data.melee_power_bonuses v
  kl_db : KeysLive data.defense_bonuses v
  fv_db : FieldVals (fun c => c.defense_bonus) (RPure id) data.defense_bonuses v
  kl_wr : KeysLive data.wants_to_remove v
  fv_wr : FieldVals (fun c => c.wants_to_remove) (RRef WantsToRemoveItem.mk) data.wants_to_remove v
  kl_plt : KeysLive data.particle_lifetimes v
  fv_plt : FieldVals (fun c => c.particle_lifetime) (RPure id) data.particle_lifetimes v
  kl_hc : KeysLive data.hunger_clocks v
  fv_hc : FieldVals (fun c => c.hunger_clock) (RPure id) data.hunger_clocks v
  kl_pf : KeysLive data.provides_food v
  fv_pf : FieldVals (fun c => c.provides_food) (RPure id) data.provides_food v

set_option maxHeartbeats 800000 in
/-- Deserialization pass 1 (position): it establishes its own list facts
and preserves those of the earlier passes. -/
lemma loadStage1 (A : Nat → Prop) (data : SaveData) (v : World)
    (hI : LoadInv v)
    (hkeys : ((data.positions).map Prod.fst).Nodup)
    (hA : ∀ p ∈ data.positions, A p.1)
    (hM : MarksIn A v)
    (hN1 : AllNone (fun c => c.position) v)
    (hN2 : AllNone (fun c => c.renderable) v)
    (hN3 : AllNone (fun c => c.player) v)
    (hN4 : AllNone (fun c => c.viewshed) v)
    (hN5 : AllNone (fun c => c.monster) v)
    (hN6 : AllNone (fun c => c.name) v)
    (hN7 : AllNone (fun c => c.blocks_tile) v)
    (hN8 : AllNone (fun c => c.combat_stats) v)
    (hN9 : AllNone (fun c => c.suffer_damage) v)
    (hN10 : AllNone (fun c => c.wants_melee) v)
    (hN11 : AllNone (fun c => c.item) v)
    (hN12 : AllNone (fun c => c.consumable) v)
    (hN13 : AllNone (fun c => c.ranged) v)
    (hN14 : AllNone (fun c => c.inflicts_damage) v)
    (hN15 : AllNone (fun c => c.area_of_effect) v)
    (hN16 : AllNone (fun c => c.confusion) v)
    (hN17 : AllNone (fun c => c.provides_healing) v)
    (hN18 : AllNone (fun c => c.in_backpack) v)
    (hN19 : AllNone (fun c => c.wants_to_pickup) v)
    (hN20 : AllNone (fun c => c.wants_to_use) v)
    (hN21 : AllNone (fun c => c.wants_to_drop) v)
    (hN22 : AllNone (fun c => c.serialization_helper) v)
    (hN23 : AllNone (fun c => c.equippable) v)
    (hN24 : AllNone (fun c => c.equipped) v)
    (hN25 : AllNone (fun c => c.melee_power_bonus) v)
    (hN26 : AllNone (fun c => c.defense_bonus) v)
    (hN27 : AllNone (fun c => c.wants_to_remove) v)
    (hN28 : AllNone (fun c => c.particle_lifetime) v)
    (hN29 : AllNone (fun c => c.hunger_clock) v)
    (hN30 : AllNone (fun c => c.provides_food) v)
    :
    LoadInv (loadComp (fun c v2 => { c with position := some v2 }) convPure v data.positions) ∧
    MarksIn A (loadComp (fun c v2 => { c with position := some v2 }) convPure v data.positions) ∧
    KeysLive data.positions (loadComp (fun c v2 => { c with position := some v2 }) convPure v data.positions) ∧
    FieldVals (fun c => c.position) (RPure id) data.positions (loadComp (fun c v2 => { c with position := some v2 }) convPure v data.positions) ∧
    AllNone (fun c => c.renderable) (loadComp (fun c v2 => { c with position := some v2 }) convPure v data.positions) ∧
    AllNone (fun c => c.player) (loadComp (fun c v2 => { c with position := some v2 }) convPure v data.positions) ∧
    AllNone (fun c => c.viewshed) (loadComp (fun c v2 => { c with position := some v2 }) convPure v data.positions) ∧
    AllNone (fun c => c.monster) (loadComp (fun c v2 => { c with position := some v2 }) convPure v data.positions) ∧
    AllNone (fun c => c.name) (loadComp (fun c v2 => { c with position := some v2 }) convPure v data.positions) ∧
    AllNone (fun c => c.blocks_tile) (loadComp (fun c v2 => { c with position := some v2 }) convPure v data.positions) ∧
    AllNone (fun c => c.combat_stats) (loadComp (fun c v2 => { c with position := some v2 }) convPure v data.positions) ∧
    AllNone (fun c => c.suffer_damage) (loadComp (fun c v2 => { c with position := some v2 }) convPure v data.positions) ∧
    AllNone (fun c => c.wants_melee) (loadComp (fun c v2 => { c with position := some v2 }) convPure v data.positions) ∧
    AllNone (fun c => c.item) (loadComp (fun c v2 => { c with position := some v2 }) convPure v data.positions) ∧
    AllNone (fun c => c.consumable) (loadComp (fun c v2 => { c with position := some v2 }) convPure v data.positions) ∧
    AllNone (fun c => c.ranged) (loadComp (fun c v2 => { c with position := some v2 }) convPure v data.positions) ∧
    AllNone (fun c => c.inflicts_damage) (loadComp (fun c v2 => { c with position := some v2 }) convPure v data.positions) ∧
    AllNone (fun c => c.area_of_effect) (loadComp (fun c v2 => { c with position := some v2 }) convPure v data.positions) ∧
    AllNone (fun c => c.confusion) (loadComp (fun c v2 => { c with position := some v2 }) convPure v data.positions) ∧
    AllNone (fun c => c.provides_healing) (loadComp (fun c v2 => { c with position := some v2 }) convPure v data.positions) ∧
    AllNone (fun c => c.in_backpack) (loadComp (fun c v2 => { c with position := some v2 }) convPure v data.positions) ∧
    AllNone (fun c => c.wants_to_pickup) (loadComp (fun c v2 => { c with position := some v2 }) convPure v data.positions) ∧
    AllNone (fun c => c.wants_to_use) (loadComp (fun c v2 => { c with position := some v2 }) convPure v data.positions) ∧
    AllNone (fun c => c.wants_to_drop) (loadComp (fun c v2 => { c with position := some v2 }) convPure v data.positions) ∧
    AllNone (fun c => c.serialization_helper) (loadComp (fun c v2 => { c with position := some v2 }) convPure v data.positions) ∧
    AllNone (fun c => c.equippable) (loadComp (fun c v2 => { c with position := some v2 }) convPure v data.positions) ∧
    AllNone (fun c => c.equipped) (loadComp (fun c v2 => { c with position := some v2 }) convPure v data.positions) ∧
    AllNone (fun c => c.melee_power_bonus) (loadComp (fun c v2 => { c with position := some v2 }) convPure v data.positions) ∧
    AllNone (fun c => c.defense_bonus) (loadComp (fun c v2 => { c with position := some v2 }) convPure v data.positions) ∧
    AllNone (fun c => c.wants_to_remove) (loadComp (fun c v2 => { c with position := some v2 }) convPure v data.positions) ∧
    AllNone (fun c => c.particle_lifetime) (loadComp (fun c v2 => { c with position := some v2 }) convPure v data.positions) ∧
    AllNone (fun c => c.hunger_clock) (loadComp (fun c v2 => { c with position := some v2 }) convPure v data.positions) ∧
    AllNone (fun c => c.provides_food) (loadComp (fun c v2 => { c with position := some v2 }) convPure v data.positions) := by
  obtain ⟨hI2, hle2, hfr2, hklx⟩ := loadComp_struct (fun c v2 => { c with position := some v2 }) convPure A (fun _ => True)
    (fun c a => rfl) (convOK_pure A) data.positions _ hI (fun p hp => ⟨hA p hp, trivial⟩)
  have hfvk := loadComp_est (fun c v2 => { c with position := some v2 }) (fun c => c.position) convPure A (fun _ => True)
    (RPure id) (convOK_pure A) (fun v2 b hIv hAb => rfl)
    (fun va vb a b hle h => h) (fun c a => rfl) (fun c a => rfl) (fun m => rfl)
    data.positions _ hI hkeys (fun p hp => ⟨hA p hp, trivial⟩) hN1
  obtain ⟨hoF2, hnF2⟩ := loadComp_obs (fun c v2 => { c with position := some v2 }) convPure (fun c => c.renderable) A (fun _ => True)
    (fun c a => rfl) (convOK_pure A) (fun c a => rfl) (fun m => rfl) data.positions _ hI (fun p hp => ⟨hA p hp, trivial⟩)
  have hN2b := AllNone_mono (fun c => c.renderable) _ _ hoF2 hnF2 hN2
  obtain ⟨hoF3, hnF3⟩ := loadComp_obs (fun c v2 => { c with position := some v2 }) convPure (fun c => c.player) A (fun _ => True)
    (fun c a => rfl) (convOK_pure A) (fun c a => rfl) (fun m => rfl) data.positions _ hI (fun p hp => ⟨hA p hp, trivial⟩)
  have hN3b := AllNone_mono (fun c => c.player) _ _ hoF3 hnF3 hN3
  obtain ⟨hoF4, hnF4⟩ := loadComp_obs (fun c v2 => { c with position := some v2 }) convPure (fun c => c.viewshed) A (fun _ => True)
    (fun c a => rfl) (convOK_pure A) (fun c a => rfl) (fun m => rfl) data.positions _ hI (fun p hp => ⟨hA p hp, trivial⟩)
  have hN4b := AllNone_mono (fun c => c.viewshed) _ _ hoF4 hnF4 hN4
  obtain ⟨hoF5, hnF5⟩ := loadComp_obs (fun c v2 => { c with position := some v2 }) convPure (fun c => c.monster) A (fun _ => True)
    (fun c a => rfl) (convOK_pure A) (fun c a => rfl) (fun m => rfl) data.positions _ hI (fun p hp => ⟨hA p hp, trivial⟩)
  have hN5b := AllNone_mono (fun c => c.monster) _ _ hoF5 hnF5 hN5
  obtain ⟨hoF6, hnF6⟩ := loadComp_obs (fun c v2 => { c with position := some v2 }) convPure (fun c => c.name) A (fun _ => True)
    (fun c a => rfl) (convOK_pure A) (fun c a => rfl) (fun m => rfl) data.positions _ hI (fun p hp => ⟨hA p hp, trivial⟩)
  have hN6b := AllNone_mono (fun c => c.name) _ _ hoF6 hnF6 hN6
  obtain ⟨hoF7, hnF7⟩ := loadComp_obs (fun c v2 => { c with position := some v2 }) convPure (fun c => c.blocks_tile) A (fun _ => True)
    (fun c a => rfl) (convOK_pure A) (fun c a => rfl) (fun m => rfl) data.positions _ hI (fun p hp => ⟨hA p hp, trivial⟩)
  have hN7b := AllNone_mono (fun c => c.blocks_tile) _ _ hoF7 hnF7 hN7
  obtain ⟨hoF8, hnF8⟩ := loadComp_obs (fun c v2 => { c with position := some v2 }) convPure (fun c => c.combat_stats) A (fun _ => True)
    (fun c a => rfl) (convOK_pure A) (fun c a => rfl) (fun m => rfl) data.positions _ hI (fun p hp => ⟨hA p hp, trivial⟩)
  have hN8b := AllNone_mono (fun c => c.combat_stats) _ _ hoF8 hnF8 hN8
  obtain ⟨hoF9, hnF9⟩ := loadComp_obs (fun c v2 => { c with position := some v2 }) convPure (fun c => c.suffer_damage) A (fun _ => True)
    (fun c a => rfl) (convOK_pure A) (fun c a => rfl) (fun m => rfl) data.positions _ hI (fun p hp => ⟨hA p hp, trivial⟩)
  have hN9b := AllNone_mono (fun c => c.suffer_damage) _ _ hoF9 hnF9 hN9
  obtain ⟨hoF10, hnF10⟩ := loadComp_obs (fun c v2 => { c with position := some v2 }) convPure (fun c => c.wants_melee) A (fun _ => True)
    (fun c a => rfl) (convOK_pure A) (fun c a => rfl) (fun m => rfl) data.positions _ hI (fun p hp => ⟨hA p hp, trivial⟩)
  have hN10b := AllNone_mono (fun c => c.wants_melee) _ _ hoF10 hnF10 hN10
  obtain ⟨hoF11, hnF11⟩ := loadComp_obs (fun c v2 => { c with position := some v2 }) convPure (fun c => c.item) A (fun _ => True)
    (fun c a => rfl) (convOK_pure A) (fun c a => rfl) (fun m => rfl) data.positions _ hI (fun p hp => ⟨hA p hp, trivial⟩)
  have hN11b := AllNone_mono (fun c => c.item) _ _ hoF11 hnF11 hN11
  obtain ⟨hoF12, hnF12⟩ := loadComp_obs (fun c v2 => { c with position := some v2 }) convPure (fun c => c.consumable) A (fun _ => True)
    (fun c a => rfl) (convOK_pure A) (fun c a => rfl) (fun m => rfl) data.positions _ hI (fun p hp => ⟨hA p hp, trivial⟩)
  have hN12b := AllNone_mono (fun c => c.consumable) _ _ hoF12 hnF12 hN12
  obtain ⟨hoF13, hnF13⟩ := loadComp_obs (fun c v2 => { c with position := some v2 }) convPure (fun c => c.ranged) A (fun _ => True)
    (fun c a => rfl) (convOK_pure A) (fun c a => rfl) (fun m => rfl) data.positions _ hI (fun p hp => ⟨hA p hp, trivial⟩)
  have hN13b := AllNone_mono (fun c => c.ranged) _ _ hoF13 hnF13 hN13
  obtain ⟨hoF14, hnF14⟩ := loadComp_obs (fun c v2 => { c with position := some v2 }) convPure (fun c => c.inflicts_damage) A (fun _ => True)
    (fun c a => rfl) (convOK_pure A) (fun c a => rfl) (fun m => rfl) data.positions _ hI (fun p hp => ⟨hA p hp, trivial⟩)
  have hN14b := AllNone_mono (fun c => c.inflicts_damage) _ _ hoF14 hnF14 hN14
  obtain ⟨hoF15, hnF15⟩ := loadComp_obs (fun c v2 => { c with position := some v2 }) convPure (fun c => c.area_of_effect) A (fun _ => True)
    (fun c a => rfl) (convOK_pure A) (fun c a => rfl) (fun m => rfl) data.positions _ hI (fun p hp => ⟨hA p hp, trivial⟩)
  have hN15b := AllNone_mono (fun c => c.area_of_effect) _ _ hoF15 hnF15 hN15
  obtain ⟨hoF16, hnF16⟩ := loadComp_obs (fun c v2 => { c with position := some v2 }) convPure (fun c => c.confusion) A (fun _ => True)
    (fun c a => rfl) (convOK_pure A) (fun c a => rfl) (fun m => rfl) data.positions _ hI (fun p hp => ⟨hA p hp, trivial⟩)
  have hN16b := AllNone_mono (fun c => c.confusion) _ _ hoF16 hnF16 hN16
  obtain ⟨hoF17, hnF17⟩ := loadComp_obs (fun c v2 => { c with position := some v2 }) convPure (fun c => c.provides_healing) A (fun _ => True)
    (fun c a => rfl) (convOK_pure A) (fun c a => rfl) (fun m => rfl) data.positions _ hI (fun p hp => ⟨hA p hp, trivial⟩)
  have hN17b := AllNone_mono (fun c => c.provides_healing) _ _ hoF17 hnF17 hN17
  obtain ⟨hoF18, hnF18⟩ := loadComp_obs (fun c v2 => { c with position := some v2 }) convPure (fun c => c.in_backpack) A (fun _ => True)
    (fun c a => rfl) (convOK_pure A) (fun c a => rfl) (fun m => rfl) data.positions _ hI (fun p hp => ⟨hA p hp, trivial⟩)
  have hN18b := AllNone_mono (fun c => c.in_backpack) _ _ hoF18 hnF18 hN18
  obtain ⟨hoF19, hnF19⟩ := loadComp_obs (fun c v2 => { c with position := some v2 }) convPure (fun c => c.wants_to_pickup) A (fun _ => True)
    (fun c a => rfl) (convOK_pure A) (fun c a => rfl) (fun m => rfl) data.positions _ hI (fun p hp => ⟨hA p hp, trivial⟩)
  have hN19b := AllNone_mono (fun c => c.wants_to_pickup) _ _ hoF19 hnF19 hN19
  obtain ⟨hoF20, hnF20⟩ := loadComp_obs (fun c v2 => { c with position := some v2 }) convPure (fun c => c.wants_to_use) A (fun _ => True)
    (fun c a => rfl) (convOK_pure A) (fun c a => rfl) (fun m => rfl) data.positions _ hI (fun p hp => ⟨hA p hp, trivial⟩)
  have hN20b := AllNone_mono (fun c => c.wants_to_use) _ _ hoF20 hnF20 hN20
  obtain ⟨hoF21, hnF21⟩ := loadComp_obs (fun c v2 => { c with position := some v2 }) convPure (fun c => c.wants_to_drop) A (fun _ => True)
    (fun c a => rfl) (convOK_pure A) (fun c a => rfl) (fun m => rfl) data.positions _ hI (fun p hp => ⟨hA p hp, trivial⟩)
  have hN21b := AllNone_mono (fun c => c.wants_to_drop) _ _ hoF21 hnF21 hN21
  obtain ⟨hoF22, hnF22⟩ := loadComp_obs (fun c v2 => { c with position := some v2 }) convPure (fun c => c.serialization_helper) A (fun _ => True)
    (fun c a => rfl) (convOK_pure A) (fun c a => rfl) (fun m => rfl) data.positions _ hI (fun p hp => ⟨hA p hp, trivial⟩)
  have hN22b := AllNone_mono (fun c => c.serialization_helper) _ _ hoF22 hnF22 hN22
  obtain ⟨hoF23, hnF23⟩ := loadComp_obs (fun c v2 => { c with position := some v2 }) convPure (fun c => c.equippable) A (fun _ => True)
    (fun c a => rfl) (convOK_pure A) (fun c a => rfl) (fun m => rfl) data.positions _ hI (fun p hp => ⟨hA p hp, trivial⟩)
  have hN23b := AllNone_mono (fun c => c.equippable) _ _ hoF23 hnF23 hN23
  obtain ⟨hoF24, hnF24⟩ := loadComp_obs (fun c v2 => { c with position := some v2 }) convPure (fun c => c.equipped) A (fun _ => True)
    (fun c a => rfl) (convOK_pure A) (fun c a => rfl) (fun m => rfl) data.positions _ hI (fun p hp => ⟨hA p hp, trivial⟩)
  have hN24b := AllNone_mono (fun c => c.equipped) _ _ hoF24 hnF24 hN24
  obtain ⟨hoF25, hnF25⟩ := loadComp_obs (fun c v2 => { c with position := some v2 }) convPure (fun c => c.melee_power_bonus) A (fun _ => True)
    (fun c a => rfl) (convOK_pure A) (fun c a => rfl) (fun m => rfl) data.positions _ hI (fun p hp => ⟨hA p hp, trivial⟩)
  have hN25b := AllNone_mono (fun c => c.melee_power_bonus) _ _ hoF25 hnF25 hN25
  obtain ⟨hoF26, hnF26⟩ := loadComp_obs (fun c v2 => { c with position := some v2 }) convPure (fun c => c.defense_bonus) A (fun _ => True)
    (fun c a => rfl) (convOK_pure A) (fun c a => rfl) (fun m => rfl) data.positions _ hI (fun p hp => ⟨hA p hp, trivial⟩)
  have hN26b := AllNone_mono (fun c => c.defense_bonus) _ _ hoF26 hnF26 hN26
  obtain ⟨hoF27, hnF27⟩ := loadComp_obs (fun c v2 => { c with position := some v2 }) convPure (fun c => c.wants_to_remove) A (fun _ => True)
    (fun c a => rfl) (convOK_pure A) (fun c a => rfl) (fun m => rfl) data.positions _ hI (fun p hp => ⟨hA p hp, trivial⟩)
  have hN27b := AllNone_mono (fun c => c.wants_to_remove) _ _ hoF27 hnF27 hN27
  obtain ⟨hoF28, hnF28⟩ := loadComp_obs (fun c v2 => { c with position := some v2 }) convPure (fun c => c.particle_lifetime) A (fun _ => True)
    (fun c a => rfl) (convOK_pure A) (fun c a => rfl) (fun m => rfl) data.positions _ hI (fun p hp => ⟨hA p hp, trivial⟩)
  have hN28b := AllNone_mono (fun c => c.particle_lifetime) _ _ hoF28 hnF28 hN28
  obtain ⟨hoF29, hnF29⟩ := loadComp_obs (fun c v2 => { c with position := some v2 }) convPure (fun c => c.hunger_clock) A (fun _ => True)
    (fun c a => rfl) (convOK_pure A) (fun c a => rfl) (fun m => rfl) data.positions _ hI (fun p hp => ⟨hA p hp, trivial⟩)
  have hN29b := AllNone_mono (fun c => c.hunger_clock) _ _ hoF29 hnF29 hN29
  obtain ⟨hoF30, hnF30⟩ := loadComp_obs (fun c v2 => { c with position := some v2 }) convPure (fun c => c.provides_food) A (fun _ => True)
    (fun c a => rfl) (convOK_pure A) (fun c a => rfl) (fun m => rfl) data.positions _ hI (fun p hp => ⟨hA p hp, trivial⟩)
  have hN30b := AllNone_mono (fun c => c.provides_food) _ _ hoF30 hnF30 hN30
  have hMb := MarksIn_mono hle2 (fun e he hn => let ⟨m, h1, _, h3⟩ := hfr2 e he hn; ⟨m, h1, h3⟩) hM
  exact ⟨hI2, hMb, hklx, hfvk, hN2b, hN3b, hN4b, hN5b, hN6b, hN7b, hN8b, hN9b, hN10b, hN11b, hN12b, hN13b, hN14b, hN15b, hN16b, hN17b, hN18b, hN19b, hN20b, hN21b, hN22b, hN23b, hN24b, hN25b, hN26b, hN27b, hN28b, hN29b, hN30b⟩

set_option maxHeartbeats 800000 in
/-- Deserialization pass 2 (renderable): it establishes its own list facts
and preserves those of the earlier passes. -/
lemma loadStage2 (A : Nat → Prop) (data : SaveData) (v : World)
    (hI : LoadInv v)
    (hkeys : ((data.renderables).map Prod.fst).Nodup)
    (hA : ∀ p ∈ data.renderables, A p.1)
    (hM : MarksIn A v)
    (hkl1 : KeysLive data.positions v)
    (hfv1 : FieldVals (fun c => c.position) (RPure id) data.positions v)
    (hN2 : AllNone (fun c => c.renderable) v)
    (hN3 : AllNone (fun c => c.player) v)
    (hN4 : AllNone (fun c => c.viewshed) v)
    (hN5 : AllNone (fun c => c.monster) v)
    (hN6 : AllNone (fun c => c.name) v)
    (hN7 : AllNone (fun c => c.blocks_tile) v)
    (hN8 : AllNone (fun c => c.combat_stats) v)
    (hN9 : AllNone (fun c => c.suffer_damage) v)
    (hN10 : AllNone (fun c => c.wants_melee) v)
    (hN11 : AllNone (fun c => c.item) v)
    (hN12 : AllNone (fun c => c.consumable) v)
    (hN13 : AllNone (fun c => c.ranged) v)
    (hN14 : AllNone (fun c => c.inflicts_damage) v)
    (hN15 : AllNone (fun c => c.area_of_effect) v)
    (hN16 : AllNone (fun c => c.confusion) v)
    (hN17 : AllNone (fun c => c.provides_healing) v)
    (hN18 : AllNone (fun c => c.in_backpack) v)
    (hN19 : AllNone (fun c => c.wants_to_pickup) v)
    (hN20 : AllNone (fun c => c.wants_to_use) v)
    (hN21 : AllNone (fun c => c.wants_to_drop) v)
    (hN22 : AllNone (fun c => c.serialization_helper) v)
    (hN23 : AllNone (fun c => c.equippable) v)
    (hN24 : AllNone (fun c => c.equipped) v)
    (hN25 : AllNone (fun c => c.melee_power_bonus) v)
    (hN26 : AllNone (fun c => c.defense_bonus) v)
    (hN27 : AllNone (fun c => c.wants_to_remove) v)
    (hN28 : AllNone (fun c => c.particle_lifetime) v)
    (hN29 : AllNone (fun c => c.hunger_clock) v)
    (hN30 : AllNone (fun c => c.provides_food) v)
    :
    LoadInv (loadComp (fun c v2 => { c with renderable := some v2 }) convPure v data.renderables) ∧
    MarksIn A (loadComp (fun c v2 => { c with renderable := some v2 }) convPure v data.renderables) ∧
    KeysLive data.positions (loadComp (fun c v2 => { c with renderable := some v2 }) convPure v data.renderables) ∧
    FieldVals (fun c => c.position) (RPure id) data.positions (loadComp (fun c v2 => { c with renderable := some v2 }) convPure v data.renderables) ∧
    KeysLive data.renderables (loadComp (fun c v2 => { c with renderable := some v2 }) convPure v data.renderables) ∧
    FieldVals (fun c => c.renderable) (RPure id) data.renderables (loadComp (fun c v2 => { c with renderable := some v2 }) convPure v data.renderables) ∧
    AllNone (fun c => c.player) (loadComp (fun c v2 => { c with renderable := some v2 }) convPure v data.renderables) ∧
    AllNone (fun c => c.viewshed) (loadComp (fun c v2 => { c with renderable := some v2 }) convPure v data.renderables) ∧
    AllNone (fun c => c.monster) (loadComp (fun c v2 => { c with renderable := some v2 }) convPure v data.renderables) ∧
    AllNone (fun c => c.name) (loadComp (fun c v2 => { c with renderable := some v2 }) convPure v data.renderables) ∧
    AllNone (fun c => c.blocks_tile) (loadComp (fun c v2 => { c with renderable := some v2 }) convPure v data.renderables) ∧
    AllNone (fun c => c.combat_stats) (loadComp (fun c v2 => { c with renderable := some v2 }) convPure v data.renderables) ∧
    AllNone (fun c => c.suffer_damage) (loadComp (fun c v2 => { c with renderable := some v2 }) convPure v data.renderables) ∧
    AllNone (fun c => c.wants_melee) (loadComp (fun c v2 => { c with renderable := some v2 }) convPure v data.renderables) ∧
    AllNone (fun c => c.item) (loadComp (fun c v2 => { c with renderable := some v2 }) convPure v data.renderables) ∧
    AllNone (fun c => c.consumable) (loadComp (fun c v2 => { c with renderable := some v2 }) convPure v data.renderables) ∧
    AllNone (fun c => c.ranged) (loadComp (fun c v2 => { c with renderable := some v2 }) convPure v data.renderables) ∧
    AllNone (fun c => c.inflicts_damage) (loadComp (fun c v2 => { c with renderable := some v2 }) convPure v data.renderables) ∧
    AllNone (fun c => c.area_of_effect) (loadComp (fun c v2 => { c with renderable := some v2 }) convPure v data.renderables) ∧
    AllNone (fun c => c.confusion) (loadComp (fun c v2 => { c with renderable := some v2 }) convPure v data.renderables) ∧
    AllNone (fun c => c.provides_healing) (loadComp (fun c v2 => { c with renderable := some v2 }) convPure v data.renderables) ∧
    AllNone (fun c => c.in_backpack) (loadComp (fun c v2 => { c with renderable := some v2 }) convPure v data.renderables) ∧
    AllNone (fun c => c.wants_to_pickup) (loadComp (fun c v2 => { c with renderable := some v2 }) convPure v data.renderables) ∧
    AllNone (fun c => c.wants_to_use) (loadComp (fun c v2 => { c with renderable := some v2 }) convPure v data.renderables) ∧
    AllNone (fun c => c.wants_to_drop) (loadComp (fun c v2 => { c with renderable := some v2 }) convPure v data.renderables) ∧
    AllNone (fun c => c.serialization_helper) (loadComp (fun c v2 => { c with renderable := some v2 }) convPure v data.renderables) ∧
    AllNone (fun c => c.equippable) (loadComp (fun c v2 => { c with renderable := some v2 }) convPure v data.renderables) ∧
    AllNone (fun c => c.equipped) (loadComp (fun c v2 => { c with renderable := some v2 }) convPure v data.renderables) ∧
    AllNone (fun c => c.melee_power_bonus) (loadComp (fun c v2 => { c with renderable := some v2 }) convPure v data.renderables) ∧
    AllNone (fun c => c.defense_bonus) (loadComp (fun c v2 => { c with renderable := some v2 }) convPure v data.renderables) ∧
    AllNone (fun c => c.wants_to_remove) (loadComp (fun c v2 => { c with renderable := some v2 }) convPure v data.renderables) ∧
    AllNone (fun c => c.particle_lifetime) (loadComp (fun c v2 => { c with renderable := some v2 }) convPure v data.renderables) ∧
    AllNone (fun c => c.hunger_clock) (loadComp (fun c v2 => { c with renderable := some v2 }) convPure v data.renderables) ∧
    AllNone (fun c => c.provides_food) (loadComp (fun c v2 => { c with renderable := some v2 }) convPure v data.renderables) := by
  obtain ⟨hI2, hle2, hfr2, hklx⟩ := loadComp_struct (fun c v2 => { c with renderable := some v2 }) convPure A (fun _ => True)
    (fun c a => rfl) (convOK_pure A) data.renderables _ hI (fun p hp => ⟨hA p hp, trivial⟩)
  have hfvk := loadComp_est (fun c v2 => { c with renderable := some v2 }) (fun c => c.renderable) convPure A (fun _ => True)
    (RPure id) (convOK_pure A) (fun v2 b hIv hAb => rfl)
    (fun va vb a b hle h => h) (fun c a => rfl) (fun c a => rfl) (fun m => rfl)
    data.renderables _ hI hkeys (fun p hp => ⟨hA p hp, trivial⟩) hN2
  obtain ⟨hoF1, hnF1⟩ := loadComp_obs (fun c v2 => { c with renderable := some v2 }) convPure (fun c => c.position) A (fun _ => True)
    (fun c a => rfl) (convOK_pure A) (fun c a => rfl) (fun m => rfl) data.renderables _ hI (fun p hp => ⟨hA p hp, trivial⟩)
  have hfv1b := FieldVals_mono (fun c => c.position) (RPure id) data.positions hle2
    (fun a b h => h)
    (fun e he hn => let ⟨m, h1, h2, _⟩ := hfr2 e he hn; ⟨m, h1, h2⟩)
    hoF1 hnF1 hkl1 hfv1
  have hkl1b := KeysLive_mono hle2 hkl1
  obtain ⟨hoF3, hnF3⟩ := loadComp_obs (fun c v2 => { c with renderable := some v2 }) convPure (fun c => c.player) A (fun _ => True)
    (fun c a => rfl) (convOK_pure A) (fun c a => rfl) (fun m => rfl) data.renderables _ hI (fun p hp => ⟨hA p hp, trivial⟩)
  have hN3b := AllNone_mono (fun c => c.player) _ _ hoF3 hnF3 hN3
  obtain ⟨hoF4, hnF4⟩ := loadComp_obs (fun c v2 => { c with renderable := some v2 }) convPure (fun c => c.viewshed) A (fun _ => True)
    (fun c a => rfl) (convOK_pure A) (fun c a => rfl) (fun m => rfl) data.renderables _ hI (fun p hp => ⟨hA p hp, trivial⟩)
  have hN4b := AllNone_mono (fun c => c.viewshed) _ _ hoF4 hnF4 hN4
  obtain ⟨hoF5, hnF5⟩ := loadComp_obs (fun c v2 => { c with renderable := some v2 }) convPure (fun c => c.monster) A (fun _ => True)
    (fun c a => rfl) (convOK_pure A) (fun c a => rfl) (fun m => rfl) data.renderables _ hI (fun p hp => ⟨hA p hp, trivial⟩)
  have hN5b := AllNone_mono (fun c => c.monster) _ _ hoF5 hnF5 hN5
  obtain ⟨hoF6, hnF6⟩ := loadComp_obs (fun c v2 => { c with renderable := some v2 }) convPure (fun c => c.name) A (fun _ => True)
    (fun c a => rfl) (convOK_pure A) (fun c a => rfl) (fun m => rfl) data.renderables _ hI (fun p hp => ⟨hA p hp, trivial⟩)
  have hN6b := AllNone_mono (fun c => c.name) _ _ hoF6 hnF6 hN6
  obtain ⟨hoF7, hnF7⟩ := loadComp_obs (fun c v2 => { c with renderable := some v2 }) convPure (fun c => c.blocks_tile) A (fun _ => True)
    (fun c a => rfl) (convOK_pure A) (fun c a => rfl) (fun m => rfl) data.renderables _ hI (fun p hp => ⟨hA p hp, trivial⟩)
  have hN7b := AllNone_mono (fun c => c.blocks_tile) _ _ hoF7 hnF7 hN7
  obtain ⟨hoF8, hnF8⟩ := loadComp_obs (fun c v2 => { c with renderable := some v2 }) convPure (fun c => c.combat_stats) A (fun _ => True)
    (fun c a => rfl) (convOK_pure A) (fun c a => rfl) (fun m => rfl) data.renderables _ hI (fun p hp => ⟨hA p hp, trivial⟩)
  have hN8b := AllNone_mono (fun c => c.combat_stats) _ _ hoF8 hnF8 hN8
  obtain ⟨hoF9, hnF9⟩ := loadComp_obs (fun c v2 => { c with renderable := some v2 }) convPure (fun c => c.suffer_damage) A (fun _ => True)
    (fun c a => rfl) (convOK_pure A) (fun c a => rfl) (fun m => rfl) data.renderables _ hI (fun p hp => ⟨hA p hp, trivial⟩)
  have hN9b := AllNone_mono (fun c => c.suffer_damage) _ _ hoF9 hnF9 hN9
  obtain ⟨hoF10, hnF10⟩ := loadComp_obs (fun c v2 => { c with renderable := some v2 }) convPure (fun c => c.wants_melee) A (fun _ => True)
    (fun c a => rfl) (convOK_pure A) (fun c a => rfl) (fun m => rfl) data.renderables _ hI (fun p hp => ⟨hA p hp, trivial⟩)
  have hN10b := AllNone_mono (fun c => c.wants_melee) _ _ hoF10 hnF10 hN10
  obtain ⟨hoF11, hnF11⟩ := loadComp_obs (fun c v2 => { c with renderable := some v2 }) convPure (fun c => c.item) A (fun _ => True)
    (fun c a => rfl) (convOK_pure A) (fun c a => rfl) (fun m => rfl) data.renderables _ hI (fun p hp => ⟨hA p hp, trivial⟩)
  have hN11b := AllNone_mono (fun c => c.item) _ _ hoF11 hnF11 hN11
  obtain ⟨hoF12, hnF12⟩ := loadComp_obs (fun c v2 => { c with renderable := some v2 }) convPure (fun c => c.consumable) A (fun _ => True)
    (fun c a => rfl) (convOK_pure A) (fun c a => rfl) (fun m => rfl) data.renderables _ hI (fun p hp => ⟨hA p hp, trivial⟩)
  have hN12b := AllNone_mono (fun c => c.consumable) _ _ hoF12 hnF12 hN12
  obtain ⟨hoF13, hnF13⟩ := loadComp_obs (fun c v2 => { c with renderable := some v2 }) convPure (fun c => c.ranged) A (fun _ => True)
    (fun c a => rfl) (convOK_pure A) (fun c a => rfl) (fun m => rfl) data.renderables _ hI (fun p hp => ⟨hA p hp, trivial⟩)
  have hN13b := AllNone_mono (fun c => c.ranged) _ _ hoF13 hnF13 hN13
  obtain ⟨hoF14, hnF14⟩ := loadComp_obs (fun c v2 => { c with renderable := some v2 }) convPure (fun c => c.inflicts_damage) A (fun _ => True)
    (fun c a => rfl) (convOK_pure A) (fun c a => rfl) (fun m => rfl) data.renderables _ hI (fun p hp => ⟨hA p hp, trivial⟩)
  have hN14b := AllNone_mono (fun c => c.inflicts_damage) _ _ hoF14 hnF14 hN14
  obtain ⟨hoF15, hnF15⟩ := loadComp_obs (fun c v2 => { c with renderable := some v2 }) convPure (fun c => c.area_of_effect) A (fun _ => True)
    (fun c a => rfl) (convOK_pure A) (fun c a => rfl) (fun m => rfl) data.renderables _ hI (fun p hp => ⟨hA p hp, trivial⟩)
  have hN15b := AllNone_mono (fun c => c.area_of_effect) _ _ hoF15 hnF15 hN15
  obtain ⟨hoF16, hnF16⟩ := loadComp_obs (fun c v2 => { c with renderable := some v2 }) convPure (fun c => c.confusion) A (fun _ => True)
    (fun c a => rfl) (convOK_pure A) (fun c a => rfl) (fun m => rfl) data.renderables _ hI (fun p hp => ⟨hA p hp, trivial⟩)
  have hN16b := AllNone_mono (fun c => c.confusion) _ _ hoF16 hnF16 hN16
  obtain ⟨hoF17, hnF17⟩ := loadComp_obs (fun c v2 => { c with renderable := some v2 }) convPure (fun c => c.provides_healing) A (fun _ => True)
    (fun c a => rfl) (convOK_pure A) (fun c a => rfl) (fun m => rfl) data.renderables _ hI (fun p hp => ⟨hA p hp, trivial⟩)
  have hN17b := AllNone_mono (fun c => c.provides_healing) _ _ hoF17 hnF17 hN17
  obtain ⟨hoF18, hnF18⟩ := loadComp_obs (fun c v2 => { c with renderable := some v2 }) convPure (fun c => c.in_backpack) A (fun _ => True)
    (fun c a => rfl) (convOK_pure A) (fun c a => rfl) (fun m => rfl) data.renderables _ hI (fun p hp => ⟨hA p hp, trivial⟩)
  have hN18b := AllNone_mono (fun c => c.in_backpack) _ _ hoF18 hnF18 hN18
  obtain ⟨hoF19, hnF19⟩ := loadComp_obs (fun c v2 => { c with renderable := some v2 }) convPure (fun c => c.wants_to_pickup) A (fun _ => True)
    (fun c a => rfl) (convOK_pure A) (fun c a => rfl) (fun m => rfl) data.renderables _ hI (fun p hp => ⟨hA p hp, trivial⟩)
  have hN19b := AllNone_mono (fun c => c.wants_to_pickup) _ _ hoF19 hnF19 hN19
  obtain ⟨hoF20, hnF20⟩ := loadComp_obs (fun c v2 => { c with renderable := some v2 }) convPure (fun c => c.wants_to_use) A (fun _ => True)
    (fun c a => rfl) (convOK_pure A) (fun c a => rfl) (fun m => rfl) data.renderables _ hI (fun p hp => ⟨hA p hp, trivial⟩)
  have hN20b := AllNone_mono (fun c => c.wants_to_use) _ _ hoF20 hnF20 hN20
  obtain ⟨hoF21, hnF21⟩ := loadComp_obs (fun c v2 => { c with renderable := some v2 }) convPure (fun c => c.wants_to_drop) A (fun _ => True)
    (fun c a => rfl) (convOK_pure A) (fun c a => rfl) (fun m => rfl) data.renderables _ hI (fun p hp => ⟨hA p hp, trivial⟩)
  have hN21b := AllNone_mono (fun c => c.wants_to_drop) _ _ hoF21 hnF21 hN21
  obtain ⟨hoF22, hnF22⟩ := loadComp_obs (fun c v2 => { c with renderable := some v2 }) convPure (fun c => c.serialization_helper) A (fun _ => True)
    (fun c a => rfl) (convOK_pure A) (fun c a => rfl) (fun m => rfl) data.renderables _ hI (fun p hp => ⟨hA p hp, trivial⟩)
  have hN22b := AllNone_mono (fun c => c.serialization_helper) _ _ hoF22 hnF22 hN22
  obtain ⟨hoF23, hnF23⟩ := loadComp_obs (fun c v2 => { c with renderable := some v2 }) convPure (fun c => c.equippable) A (fun _ => True)
    (fun c a => rfl) (convOK_pure A) (fun c a => rfl) (fun m => rfl) data.renderables _ hI (fun p hp => ⟨hA p hp, trivial⟩)
  have hN23b := AllNone_mono (fun c => c.equippable) _ _ hoF23 hnF23 hN23
  obtain ⟨hoF24, hnF24⟩ := loadComp_obs (fun c v2 => { c with renderable := some v2 }) convPure (fun c => c.equipped) A (fun _ => True)
    (fun c a => rfl) (convOK_pure A) (fun c a => rfl) (fun m => rfl) data.renderables _ hI (fun p hp => ⟨hA p hp, trivial⟩)
  have hN24b := AllNone_mono (fun c => c.equipped) _ _ hoF24 hnF24 hN24
  obtain ⟨hoF25, hnF25⟩ := loadComp_obs (fun c v2 => { c with renderable := some v2 }) convPure (fun c => c.melee_power_bonus) A (fun _ => True)
    (fun c a => rfl) (convOK_pure A) (fun c a => rfl) (fun m => rfl) data.renderables _ hI (fun p hp => ⟨hA p hp, trivial⟩)
  have hN25b := AllNone_mono (fun c => c.melee_power_bonus) _ _ hoF25 hnF25 hN25
  obtain ⟨hoF26, hnF26⟩ := loadComp_obs (fun c v2 => { c with renderable := some v2 }) convPure (fun c => c.defense_bonus) A (fun _ => True)
    (fun c a => rfl) (convOK_pure A) (fun c a => rfl) (fun m => rfl) data.renderables _ hI (fun p hp => ⟨hA p hp, trivial⟩)
  have hN26b := AllNone_mono (fun c => c.defense_bonus) _ _ hoF26 hnF26 hN26
  obtain ⟨hoF27, hnF27⟩ := loadComp_obs (fun c v2 => { c with renderable := some v2 }) convPure (fun c => c.wants_to_remove) A (fun _ => True)
    (fun c a => rfl) (convOK_pure A) (fun c a => rfl) (fun m => rfl) data.renderables _ hI (fun p hp => ⟨hA p hp, trivial⟩)
  have hN27b := AllNone_mono (fun c => c.wants_to_remove) _ _ hoF27 hnF27 hN27
  obtain ⟨hoF28, hnF28⟩ := loadComp_obs (fun c v2 => { c with renderable := some v2 }) convPure (fun c => c.particle_lifetime) A (fun _ => True)
    (fun c a => rfl) (convOK_pure A) (fun c a => rfl) (fun m => rfl) data.renderables _ hI (fun p hp => ⟨hA p hp, trivial⟩)
  have hN28b := AllNone_mono (fun c => c.particle_lifetime) _ _ hoF28 hnF28 hN28
  obtain ⟨hoF29, hnF29⟩ := loadComp_obs (fun c v2 => { c with renderable := some v2 }) convPure (fun c => c.hunger_clock) A (fun _ => True)
    (fun c a => rfl) (convOK_pure A) (fun c a => rfl) (fun m => rfl) data.renderables _ hI (fun p hp => ⟨hA p hp, trivial⟩)
  have hN29b := AllNone_mono (fun c => c.hunger_clock) _ _ hoF29 hnF29 hN29
  obtain ⟨hoF30, hnF30⟩ := loadComp_obs (fun c v2 => { c with renderable := some v2 }) convPure (fun c => c.provides_food) A (fun _ => True)
    (fun c a => rfl) (convOK_pure A) (fun c a => rfl) (fun m => rfl) data.renderables _ hI (fun p hp => ⟨hA p hp, trivial⟩)
  have hN30b := AllNone_mono (fun c => c.provides_food) _ _ hoF30 hnF30 hN30
  have hMb := MarksIn_mono hle2 (fun e he hn => let ⟨m, h1, _, h3⟩ := hfr2 e he hn; ⟨m, h1, h3⟩) hM
  exact ⟨hI2, hMb, hkl1b, hfv1b, hklx, hfvk, hN3b, hN4b, hN5b, hN6b, hN7b, hN8b, hN9b, hN10b, hN11b, hN12b, hN13b, hN14b, hN15b, hN16b, hN17b, hN18b, hN19b, hN20b, hN21b, hN22b, hN23b, hN24b, hN25b, hN26b, hN27b, hN28b, hN29b, hN30b⟩

set_option maxHeartbeats 800000 in
/-- Deserialization pass 3 (player): it establishes its own list facts
and preserves those of the earlier passes. -/
lemma loadStage3 (A : Nat → Prop) (data : SaveData) (v : World)
    (hI : LoadInv v)
    (hkeys : ((data.players).map Prod.fst).Nodup)
    (hA : ∀ p ∈ data.players, A p.1)
    (hM : MarksIn A v)
    (hkl1 : KeysLive data.positions v)
    (hfv1 : FieldVals (fun c => c.position) (RPure id) data.positions v)
    (hkl2 : KeysLive data.renderables v)
    (hfv2 : FieldVals (fun c => c.renderable) (RPure id) data.renderables v)
    (hN3 : AllNone (fun c => c.player) v)
    (hN4 : AllNone (fun c => c.viewshed) v)
    (hN5 : AllNone (fun c => c.monster) v)
    (hN6 : AllNone (fun c => c.name) v)
    (hN7 : AllNone (fun c => c.blocks_tile) v)
    (hN8 : AllNone (fun c => c.combat_stats) v)
    (hN9 : AllNone (fun c => c.suffer_damage) v)
    (hN10 : AllNone (fun c => c.wants_melee) v)
    (hN11 : AllNone (fun c => c.item) v)
    (hN12 : AllNone (fun c => c.consumable) v)
    (hN13 : AllNone (fun c => c.ranged) v)
    (hN14 : AllNone (fun c => c.inflicts_damage) v)
    (hN15 : AllNone (fun c => c.area_of_effect) v)
    (hN16 : AllNone (fun c => c.confusion) v)
    (hN17 : AllNone (fun c => c.provides_healing) v)
    (hN18 : AllNone (fun c => c.in_backpack) v)
    (hN19 : AllNone (fun c => c.wants_to_pickup) v)
    (hN20 : AllNone (fun c => c.wants_to_use) v)
    (hN21 : AllNone (fun c => c.wants_to_drop) v)
    (hN22 : AllNone (fun c => c.serialization_helper) v)
    (hN23 : AllNone (fun c => c.equippable) v)
    (hN24 : AllNone (fun c => c.equipped) v)
    (hN25 : AllNone (fun c => c.melee_power_bonus) v)
    (hN26 : AllNone (fun c => c.defense_bonus) v)
    (hN27 : AllNone (fun c => c.wants_to_remove) v)
    (hN28 : AllNone (fun c => c.particle_lifetime) v)
    (hN29 : AllNone (fun c => c.hunger_clock) v)
    (hN30 : AllNone (fun c => c.provides_food) v)
    :
    LoadInv (loadComp (fun c v2 => { c with player := some v2 }) convPure v data.players) ∧
    MarksIn A (loadComp (fun c v2 => { c with player := some v2 }) convPure v data.players) ∧
    KeysLive data.positions (loadComp (fun c v2 => { c with player := some v2 }) convPure v data.players) ∧
    FieldVals (fun c => c.position) (RPure id) data.positions (loadComp (fun c v2 => { c with player := some v2 }) convPure v data.players) ∧
    KeysLive data.renderables (loadComp (fun c v2 => { c with player := some v2 }) convPure v data.players) ∧
    FieldVals (fun c => c.renderable) (RPure id) data.renderables (loadComp (fun c v2 => { c with player := some v2 }) convPure v data.players) ∧
    KeysLive data.players (loadComp (fun c v2 => { c with player := some v2 }) convPure v data.players) ∧
    FieldVals (fun c => c.player) (RPure id) data.players (loadComp (fun c v2 => { c with player := some v2 }) convPure v data.players) ∧
    AllNone (fun c => c.viewshed) (loadComp (fun c v2 => { c with player := some v2 }) convPure v data.players) ∧
    AllNone (fun c => c.monster) (loadComp (fun c v2 => { c with player := some v2 }) convPure v data.players) ∧
    AllNone (fun c => c.name) (loadComp (fun c v2 => { c with player := some v2 }) convPure v data.players) ∧
    AllNone (fun c => c.blocks_tile) (loadComp (fun c v2 => { c with player := some v2 }) convPure v data.players) ∧
    AllNone (fun c => c.combat_stats) (loadComp (fun c v2 => { c with player := some v2 }) convPure v data.players) ∧
    AllNone (fun c => c.suffer_damage) (loadComp (fun c v2 => { c with player := some v2 }) convPure v data.players) ∧
    AllNone (fun c => c.wants_melee) (loadComp (fun c v2 => { c with player := some v2 }) convPure v data.players) ∧
    AllNone (fun c => c.item) (loadComp (fun c v2 => { c with player := some v2 }) convPure v data.players) ∧
    AllNone (fun c => c.consumable) (loadComp (fun c v2 => { c with player := some v2 }) convPure v data.players) ∧
    AllNone (fun c => c.ranged) (loadComp (fun c v2 => { c with player := some v2 }) convPure v data.players) ∧
    AllNone (fun c => c.inflicts_damage) (loadComp (fun c v2 => { c with player := some v2 }) convPure v data.players) ∧
    AllNone (fun c => c.area_of_effect) (loadComp (fun c v2 => { c with player := some v2 }) convPure v data.players) ∧
    AllNone (fun c => c.confusion) (loadComp (fun c v2 => { c with player := some v2 }) convPure v data.players) ∧
    AllNone (fun c => c.provides_healing) (loadComp (fun c v2 => { c with player := some v2 }) convPure v data.players) ∧
    AllNone (fun c => c.in_backpack) (loadComp (fun c v2 => { c with player := some v2 }) convPure v data.players) ∧
    AllNone (fun c => c.wants_to_pickup) (loadComp (fun c v2 => { c with player := some v2 }) convPure v data.players) ∧
    AllNone (fun c => c.wants_to_use) (loadComp (fun c v2 => { c with player := some v2 }) convPure v data.players) ∧
    AllNone (fun c => c.wants_to_drop) (loadComp (fun c v2 => { c with player := some v2 }) convPure v data.players) ∧
    AllNone (fun c => c.serialization_helper) (loadComp (fun c v2 => { c with player := some v2 }) convPure v data.players) ∧
    AllNone (fun c => c.equippable) (loadComp (fun c v2 => { c with player := some v2 }) convPure v data.players) ∧
    AllNone (fun c => c.equipped) (loadComp (fun c v2 => { c with player := some v2 }) convPure v data.players) ∧
    AllNone (fun c => c.melee_power_bonus) (loadComp (fun c v2 => { c with player := some v2 }) convPure v data.players) ∧
    AllNone (fun c => c.defense_bonus) (loadComp (fun c v2 => { c with player := some v2 }) convPure v data.players) ∧
    AllNone (fun c => c.wants_to_remove) (loadComp (fun c v2 => { c with player := some v2 }) convPure v data.players) ∧
    AllNone (fun c => c.particle_lifetime) (loadComp (fun c v2 => { c with player := some v2 }) convPure v data.players) ∧
    AllNone (fun c => c.hunger_clock) (loadComp (fun c v2 => { c with player := some v2 }) convPure v data.players) ∧
    AllNone (fun c => c.provides_food) (loadComp (fun c v2 => { c with player := some v2 }) convPure v data.players) := by
  obtain ⟨hI2, hle2, hfr2, hklx⟩ := loadComp_struct (fun c v2 => { c with player := some v2 }) convPure A (fun _ => True)
    (fun c a => rfl) (convOK_pure A) data.players _ hI (fun p hp => ⟨hA p hp, trivial⟩)
  have hfvk := loadComp_est (fun c v2 => { c with player := some v2 }) (fun c => c.player) convPure A (fun _ => True)
    (RPure id) (convOK_pure A) (fun v2 b hIv hAb => rfl)
    (fun va vb a b hle h => h) (fun c a => rfl) (fun c a => rfl) (fun m => rfl)
    data.players _ hI hkeys (fun p hp => ⟨hA p hp, trivial⟩) hN3
  obtain ⟨hoF1, hnF1⟩ := loadComp_obs (fun c v2 => { c with player := some v2 }) convPure (fun c => c.position) A (fun _ => True)
    (fun c a => rfl) (convOK_pure A) (fun c a => rfl) (fun m => rfl) data.players _ hI (fun p hp => ⟨hA p hp, trivial⟩)
  have hfv1b := FieldVals_mono (fun c => c.position) (RPure id) data.positions hle2
    (fun a b h => h)
    (fun e he hn => let ⟨m, h1, h2, _⟩ := hfr2 e he hn; ⟨m, h1, h2⟩)
    hoF1 hnF1 hkl1 hfv1
  have hkl1b := KeysLive_mono hle2 hkl1
  obtain ⟨hoF2, hnF2⟩ := loadComp_obs (fun c v2 => { c with player := some v2 }) convPure (fun c => c.renderable) A (fun _ => True)
    (fun c a => rfl) (convOK_pure A) (fun c a => rfl) (fun m => rfl) data.players _ hI (fun p hp => ⟨hA p hp, trivial⟩)
  have hfv2b := FieldVals_mono (fun c => c.renderable) (RPure id) data.renderables hle2
    (fun a b h => h)
    (fun e he hn => let ⟨m, h1, h2, _⟩ := hfr2 e he hn; ⟨m, h1, h2⟩)
    hoF2 hnF2 hkl2 hfv2
  have hkl2b := KeysLive_mono hle2 hkl2
  obtain ⟨hoF4, hnF4⟩ := loadComp_obs (fun c v2 => { c with player := some v2 }) convPure (fun c => c.viewshed) A (fun _ => True)
    (fun c a => rfl) (convOK_pure A) (fun c a => rfl) (fun m => rfl) data.players _ hI (fun p hp => ⟨hA p hp, trivial⟩)
  have hN4b := AllNone_mono (fun c => c.viewshed) _ _ hoF4 hnF4 hN4
  obtain ⟨hoF5, hnF5⟩ := loadComp_obs (fun c v2 => { c with player := some v2 }) convPure (fun c => c.monster) A (fun _ => True)
    (fun c a => rfl) (convOK_pure A) (fun c a => rfl) (fun m => rfl) data.players _ hI (fun p hp => ⟨hA p hp, trivial⟩)
  have hN5b := AllNone_mono (fun c => c.monster) _ _ hoF5 hnF5 hN5
  obtain ⟨hoF6, hnF6⟩ := loadComp_obs (fun c v2 => { c with player := some v2 }) convPure (fun c => c.name) A (fun _ => True)
    (fun c a => rfl) (convOK_pure A) (fun c a => rfl) (fun m => rfl) data.players _ hI (fun p hp => ⟨hA p hp, trivial⟩)
  have hN6b := AllNone_mono (fun c => c.name) _ _ hoF6 hnF6 hN6
  obtain ⟨hoF7, hnF7⟩ := loadComp_obs (fun c v2 => { c with player := some v2 }) convPure (fun c => c.blocks_tile) A (fun _ => True)
    (fun c a => rfl) (convOK_pure A) (fun c a => rfl) (fun m => rfl) data.players _ hI (fun p hp => ⟨hA p hp, trivial⟩)
  have hN7b := AllNone_mono (fun c => c.blocks_tile) _ _ hoF7 hnF7 hN7
  obtain ⟨hoF8, hnF8⟩ := loadComp_obs (fun c v2 => { c with player := some v2 }) convPure (fun c => c.combat_stats) A (fun _ => True)
    (fun c a => rfl) (convOK_pure A) (fun c a => rfl) (fun m => rfl) data.players _ hI (fun p hp => ⟨hA p hp, trivial⟩)
  have hN8b := AllNone_mono (fun c => c.combat_stats) _ _ hoF8 hnF8 hN8
  obtain ⟨hoF9, hnF9⟩ := loadComp_obs (fun c v2 => { c with player := some v2 }) convPure (fun c => c.suffer_damage) A (fun _ => True)
    (fun c a => rfl) (convOK_pure A) (fun c a => rfl) (fun m => rfl) data.players _ hI (fun p hp => ⟨hA p hp, trivial⟩)
  have hN9b := AllNone_mono (fun c => c.suffer_damage) _ _ hoF9 hnF9 hN9
  obtain ⟨hoF10, hnF10⟩ := loadComp_obs (fun c v2 => { c with player := some v2 }) convPure (fun c => c.wants_melee) A (fun _ => True)
    (fun c a => rfl) (convOK_pure A) (fun c a => rfl) (fun m => rfl) data.players _ hI (fun p hp => ⟨hA p hp, trivial⟩)
  have hN10b := AllNone_mono (fun c => c.wants_melee) _ _ hoF10 hnF10 hN10
  obtain ⟨hoF11, hnF11⟩ := loadComp_obs (fun c v2 => { c with player := some v2 }) convPure (fun c => c.item) A (fun _ => True)
    (fun c a => rfl) (convOK_pure A) (fun c a => rfl) (fun m => rfl) data.players _ hI (fun p hp => ⟨hA p hp, trivial⟩)
  have hN11b := AllNone_mono (fun c => c.item) _ _ hoF11 hnF11 hN11
  obtain ⟨hoF12, hnF12⟩ := loadComp_obs (fun c v2 => { c with player := some v2 }) convPure (fun c => c.consumable) A (fun _ => True)
    (fun c a => rfl) (convOK_pure A) (fun c a => rfl) (fun m => rfl) data.players _ hI (fun p hp => ⟨hA p hp, trivial⟩)
  have hN12b := AllNone_mono (fun c => c.consumable) _ _ hoF12 hnF12 hN12
  obtain ⟨hoF13, hnF13⟩ := loadComp_obs (fun c v2 => { c with player := some v2 }) convPure (fun c => c.ranged) A (fun _ => True)
    (fun c a => rfl) (convOK_pure A) (fun c a => rfl) (fun m => rfl) data.players _ hI (fun p hp => ⟨hA p hp, trivial⟩)
  have hN13b := AllNone_mono (fun c => c.ranged) _ _ hoF13 hnF13 hN13
  obtain ⟨hoF14, hnF14⟩ := loadComp_obs (fun c v2 => { c with player := some v2 }) convPure (fun c => c.inflicts_damage) A (fun _ => True)
    (fun c a => rfl) (convOK_pure A) (fun c a => rfl) (fun m => rfl) data.players _ hI (fun p hp => ⟨hA p hp, trivial⟩)
  have hN14b := AllNone_mono (fun c => c.inflicts_damage) _ _ hoF14 hnF14 hN14
  obtain ⟨hoF15, hnF15⟩ := loadComp_obs (fun c v2 => { c with player := some v2 }) convPure (fun c => c.area_of_effect) A (fun _ => True)
    (fun c a => rfl) (convOK_pure A) (fun c a => rfl) (fun m => rfl) data.players _ hI (fun p hp => ⟨hA p hp, trivial⟩)
  have hN15b := AllNone_mono (fun c => c.area_of_effect) _ _ hoF15 hnF15 hN15
  obtain ⟨hoF16, hnF16⟩ := loadComp_obs (fun c v2 => { c with player := some v2 }) convPure (fun c => c.confusion) A (fun _ => True)
    (fun c a => rfl) (convOK_pure A) (fun c a => rfl) (fun m => rfl) data.players _ hI (fun p hp => ⟨hA p hp, trivial⟩)
  have hN16b := AllNone_mono (fun c => c.confusion) _ _ hoF16 hnF16 hN16
  obtain ⟨hoF17, hnF17⟩ := loadComp_obs (fun c v2 => { c with player := some v2 }) convPure (fun c => c.provides_healing) A (fun _ => True)
    (fun c a => rfl) (convOK_pure A) (fun c a => rfl) (fun m => rfl) data.players _ hI (fun p hp => ⟨hA p hp, trivial⟩)
  have hN17b := AllNone_mono (fun c => c.provides_healing) _ _ hoF17 hnF17 hN17
  obtain ⟨hoF18, hnF18⟩ := loadComp_obs (fun c v2 => { c with player := some v2 }) convPure (fun c => c.in_backpack) A (fun _ => True)
    (fun c a => rfl) (convOK_pure A) (fun c a => rfl) (fun m => rfl) data.players _ hI (fun p hp => ⟨hA p hp, trivial⟩)
  have hN18b := AllNone_mono (fun c => c.in_backpack) _ _ hoF18 hnF18 hN18
  obtain ⟨hoF19, hnF19⟩ := loadComp_obs (fun c v2 => { c with player := some v2 }) convPure (fun c => c.wants_to_pickup) A (fun _ => True)
    (fun c a => rfl) (convOK_pure A) (fun c a => rfl) (fun m => rfl) data.players _ hI (fun p hp => ⟨hA p hp, trivial⟩)
  have hN19b := AllNone_mono (fun c => c.wants_to_pickup) _ _ hoF19 hnF19 hN19
  obtain ⟨hoF20, hnF20⟩ := loadComp_obs (fun c v2 => { c with player := some v2 }) convPure (fun c => c.wants_to_use) A (fun _ => True)
    (fun c a => rfl) (convOK_pure A) (fun c a => rfl) (fun m => rfl) data.players _ hI (fun p hp => ⟨hA p hp, trivial⟩)
  have hN20b := AllNone_mono (fun c => c.wants_to_use) _ _ hoF20 hnF20 hN20
  obtain ⟨hoF21, hnF21⟩ := loadComp_obs (fun c v2 => { c with player := some v2 }) convPure (fun c => c.wants_to_drop) A (fun _ => True)
    (fun c a => rfl) (convOK_pure A) (fun c a => rfl) (fun m => rfl) data.players _ hI (fun p hp => ⟨hA p hp, trivial⟩)
  have hN21b := AllNone_mono (fun c => c.wants_to_drop) _ _ hoF21 hnF21 hN21
  obtain ⟨hoF22, hnF22⟩ := loadComp_obs (fun c v2 => { c with player := some v2 }) convPure (fun c => c.serialization_helper) A (fun _ => True)
    (fun c a => rfl) (convOK_pure A) (fun c a => rfl) (fun m => rfl) data.players _ hI (fun p hp => ⟨hA p hp, trivial⟩)
  have hN22b := AllNone_mono (fun c => c.serialization_helper) _ _ hoF22 hnF22 hN22
  obtain ⟨hoF23, hnF23⟩ := loadComp_obs (fun c v2 => { c with player := some v2 }) convPure (fun c => c.equippable) A (fun _ => True)
    (fun c a => rfl) (convOK_pure A) (fun c a => rfl) (fun m => rfl) data.players _ hI (fun p hp => ⟨hA p hp, trivial⟩)
  have hN23b := AllNone_mono (fun c => c.equippable) _ _ hoF23 hnF23 hN23
  obtain ⟨hoF24, hnF24⟩ := loadComp_obs (fun c v2 => { c with player := some v2 }) convPure (fun c => c.equipped) A (fun _ => True)
    (fun c a => rfl) (convOK_pure A) (fun c a => rfl) (fun m => rfl) data.players _ hI (fun p hp => ⟨hA p hp, trivial⟩)
  have hN24b := AllNone_mono (fun c => c.equipped) _ _ hoF24 hnF24 hN24
  obtain ⟨hoF25, hnF25⟩ := loadComp_obs (fun c v2 => { c with player := some v2 }) convPure (fun c => c.melee_power_bonus) A (fun _ => True)
    (fun c a => rfl) (convOK_pure A) (fun c a => rfl) (fun m => rfl) data.players _ hI (fun p hp => ⟨hA p hp, trivial⟩)
  have hN25b := AllNone_mono (fun c => c.melee_power_bonus) _ _ hoF25 hnF25 hN25
  obtain ⟨hoF26, hnF26⟩ := loadComp_obs (fun c v2 => { c with player := some v2 }) convPure (fun c => c.defense_bonus) A (fun _ => True)
    (fun c a => rfl) (convOK_pure A) (fun c a => rfl) (fun m => rfl) data.players _ hI (fun p hp => ⟨hA p hp, trivial⟩)
  have hN26b := AllNone_mono (fun c => c.defense_bonus) _ _ hoF26 hnF26 hN26
  obtain ⟨hoF27, hnF27⟩ := loadComp_obs (fun c v2 => { c with player := some v2 }) convPure (fun c => c.wants_to_remove) A (fun _ => True)
    (fun c a => rfl) (convOK_pure A) (fun c a => rfl) (fun m => rfl) data.players _ hI (fun p hp => ⟨hA p hp, trivial⟩)
  have hN27b := AllNone_mono (fun c => c.wants_to_remove) _ _ hoF27 hnF27 hN27
  obtain ⟨hoF28, hnF28⟩ := loadComp_obs (fun c v2 => { c with player := some v2 }) convPure (fun c => c.particle_lifetime) A (fun _ => True)
    (fun c a => rfl) (convOK_pure A) (fun c a => rfl) (fun m => rfl) data.players _ hI (fun p hp => ⟨hA p hp, trivial⟩)
  have hN28b := AllNone_mono (fun c => c.particle_lifetime) _ _ hoF28 hnF28 hN28
  obtain ⟨hoF29, hnF29⟩ := loadComp_obs (fun c v2 => { c with player := some v2 }) convPure (fun c => c.hunger_clock) A (fun _ => True)
    (fun c a => rfl) (convOK_pure A) (fun c a => rfl) (fun m => rfl) data.players _ hI (fun p hp => ⟨hA p hp, trivial⟩)
  have hN29b := AllNone_mono (fun c => c.hunger_clock) _ _ hoF29 hnF29 hN29
  obtain ⟨hoF30, hnF30⟩ := loadComp_obs (fun c v2 => { c with player := some v2 }) convPure (fun c => c.provides_food) A (fun _ => True)
    (fun c a => rfl) (convOK_pure A) (fun c a => rfl) (fun m => rfl) data.players _ hI (fun p hp => ⟨hA p hp, trivial⟩)
  have hN30b := AllNone_mono (fun c => c.provides_food) _ _ hoF30 hnF30 hN30
  have hMb := MarksIn_mono hle2 (fun e he hn => let ⟨m, h1, _, h3⟩ := hfr2 e he hn; ⟨m, h1, h3⟩) hM
  exact ⟨hI2, hMb, hkl1b, hfv1b, hkl2b, hfv2b, hklx, hfvk, hN4b, hN5b, hN6b, hN7b, hN8b, hN9b, hN10b, hN11b, hN12b, hN13b, hN14b, hN15b, hN16b, hN17b, hN18b, hN19b, hN20b, hN21b, hN22b, hN23b, hN24b, hN25b, hN26b, hN27b, hN28b, hN29b, hN30b⟩

set_option maxHeartbeats 800000 in
/-- Deserialization pass 4 (viewshed): it establishes its own list facts
and preserves those of the earlier passes. -/
lemma loadStage4 (A : Nat → Prop) (data : SaveData) (v : World)
    (hI : LoadInv v)
    (hkeys : ((data.viewsheds).map Prod.fst).Nodup)
    (hA : ∀ p ∈ data.viewsheds, A p.1)
    (hM : MarksIn A v)
    (hkl1 : KeysLive data.positions v)
    (hfv1 : FieldVals (fun c => c.position) (RPure id) data.positions v)
    (hkl2 : KeysLive data.renderables v)
    (hfv2 : FieldVals (fun c => c.renderable) (RPure id) data.renderables v)
    (hkl3 : KeysLive data.players v)
    (hfv3 : FieldVals (fun c => c.player) (RPure id) data.players v)
    (hN4 : AllNone (fun c => c.viewshed) v)
    (hN5 : AllNone (fun c => c.monster) v)
    (hN6 : AllNone (fun c => c.name) v)
    (hN7 : AllNone (fun c => c.blocks_tile) v)
    (hN8 : AllNone (fun c => c.combat_stats) v)
    (hN9 : AllNone (fun c => c.suffer_damage) v)
    (hN10 : AllNone (fun c => c.wants_melee) v)
    (hN11 : AllNone (fun c => c.item) v)
    (hN12 : AllNone (fun c => c.consumable) v)
    (hN13 : AllNone (fun c => c.ranged) v)
    (hN14 : AllNone (fun c => c.inflicts_damage) v)
    (hN15 : AllNone (fun c => c.area_of_effect) v)
    (hN16 : AllNone (fun c => c.confusion) v)
    (hN17 : AllNone (fun c => c.provides_healing) v)
    (hN18 : AllNone (fun c => c.in_backpack) v)
    (hN19 : AllNone (fun c => c.wants_to_pickup) v)
    (hN20 : AllNone (fun c => c.wants_to_use) v)
    (hN21 : AllNone (fun c => c.wants_to_drop) v)
    (hN22 : AllNone (fun c => c.serialization_helper) v)
    (hN23 : AllNone (fun c => c.equippable) v)
    (hN24 : AllNone (fun c => c.equipped) v)
    (hN25 : AllNone (fun c => c.melee_power_bonus) v)
    (hN26 : AllNone (fun c => c.defense_bonus) v)
    (hN27 : AllNone (fun c => c.wants_to_remove) v)
    (hN28 : AllNone (fun c => c.particle_lifetime) v)
    (hN29 : AllNone (fun c => c.hunger_clock) v)
    (hN30 : AllNone (fun c => c.provides_food) v)
    :
    LoadInv (loadComp (fun c v2 => { c with viewshed := some v2 }) convPure v data.viewsheds) ∧
    MarksIn A (loadComp (fun c v2 => { c with viewshed := some v2 }) convPure v data.viewsheds) ∧
    KeysLive data.positions (loadComp (fun c v2 => { c with viewshed := some v2 }) convPure v data.viewsheds) ∧
    FieldVals (fun c => c.position) (RPure id) data.positions (loadComp (fun c v2 => { c with viewshed := some v2 }) convPure v data.viewsheds) ∧
    KeysLive data.renderables (loadComp (fun c v2 => { c with viewshed := some v2 }) convPure v data.viewsheds) ∧
    FieldVals (fun c => c.renderable) (RPure id) data.renderables (loadComp (fun c v2 => { c with viewshed := some v2 }) convPure v data.viewsheds) ∧
    KeysLive data.players (loadComp (fun c v2 => { c with viewshed := some v2 }) convPure v data.viewsheds) ∧
    FieldVals (fun c => c.player) (RPure id) data.players (loadComp (fun c v2 => { c with viewshed := some v2 }) convPure v data.viewsheds) ∧
    KeysLive data.viewsheds (loadComp (fun c v2 => { c with viewshed := some v2 }) convPure v data.viewsheds) ∧
    FieldVals (fun c => c.viewshed) (RPure id) data.viewsheds (loadComp (fun c v2 => { c with viewshed := some v2 }) convPure v data.viewsheds) ∧
    AllNone (fun c => c.monster) (loadComp (fun c v2 => { c with viewshed := some v2 }) convPure v data.viewsheds) ∧
    AllNone (fun c => c.name) (loadComp (fun c v2 => { c with viewshed := some v2 }) convPure v data.viewsheds) ∧
    AllNone (fun c => c.blocks_tile) (loadComp (fun c v2 => { c with viewshed := some v2 }) convPure v data.viewsheds) ∧
    AllNone (fun c => c.combat_stats) (loadComp (fun c v2 => { c with viewshed := some v2 }) convPure v data.viewsheds) ∧
    AllNone (fun c => c.suffer_damage) (loadComp (fun c v2 => { c with viewshed := some v2 }) convPure v data.viewsheds) ∧
    AllNone (fun c => c.wants_melee) (loadComp (fun c v2 => { c with viewshed := some v2 }) convPure v data.viewsheds) ∧
    AllNone (fun c => c.item) (loadComp (fun c v2 => { c with viewshed := some v2 }) convPure v data.viewsheds) ∧
    AllNone (fun c => c.consumable) (loadComp (fun c v2 => { c with viewshed := some v2 }) convPure v data.viewsheds) ∧
    AllNone (fun c => c.ranged) (loadComp (fun c v2 => { c with viewshed := some v2 }) convPure v data.viewsheds) ∧
    AllNone (fun c => c.inflicts_damage) (loadComp (fun c v2 => { c with viewshed := some v2 }) convPure v data.viewsheds) ∧
    AllNone (fun c => c.area_of_effect) (loadComp (fun c v2 => { c with viewshed := some v2 }) convPure v data.viewsheds) ∧
    AllNone (fun c => c.confusion) (loadComp (fun c v2 => { c with viewshed := some v2 }) convPure v data.viewsheds) ∧
    AllNone (fun c => c.provides_healing) (loadComp (fun c v2 => { c with viewshed := some v2 }) convPure v data.viewsheds) ∧
    AllNone (fun c => c.in_backpack) (loadComp (fun c v2 => { c with viewshed := some v2 }) convPure v data.viewsheds) ∧
    AllNone (fun c => c.wants_to_pickup) (loadComp (fun c v2 => { c with viewshed := some v2 }) convPure v data.viewsheds) ∧
    AllNone (fun c => c.wants_to_use) (loadComp (fun c v2 => { c with viewshed := some v2 }) convPure v data.viewsheds) ∧
    AllNone (fun c => c.wants_to_drop) (loadComp (fun c v2 => { c with viewshed := some v2 }) convPure v data.viewsheds) ∧
    AllNone (fun c => c.serialization_helper) (loadComp (fun c v2 => { c with viewshed := some v2 }) convPure v data.viewsheds) ∧
    AllNone (fun c => c.equippable) (loadComp (fun c v2 => { c with viewshed := some v2 }) convPure v data.viewsheds) ∧
    AllNone (fun c => c.equipped) (loadComp (fun c v2 => { c with viewshed := some v2 }) convPure v data.viewsheds) ∧
    AllNone (fun c => c.melee_power_bonus) (loadComp (fun c v2 => { c with viewshed := some v2 }) convPure v data.viewsheds) ∧
    AllNone (fun c => c.defense_bonus) (loadComp (fun c v2 => { c with viewshed := some v2 }) convPure v data.viewsheds) ∧
    AllNone (fun c => c.wants_to_remove) (loadComp (fun c v2 => { c with viewshed := some v2 }) convPure v data.viewsheds) ∧
    AllNone (fun c => c.particle_lifetime) (loadComp (fun c v2 => { c with viewshed := some v2 }) convPure v data.viewsheds) ∧
    AllNone (fun c => c.hunger_clock) (loadComp (fun c v2 => { c with viewshed := some v2 }) convPure v data.viewsheds) ∧
    AllNone (fun c => c.provides_food) (loadComp (fun c v2 => { c with viewshed := some v2 }) convPure v data.viewsheds) := by
  obtain ⟨hI2, hle2, hfr2, hklx⟩ := loadComp_struct (fun c v2 => { c with viewshed := some v2 }) convPure A (fun _ => True)
    (fun c a => rfl) (convOK_pure A) data.viewsheds _ hI (fun p hp => ⟨hA p hp, trivial⟩)
  have hfvk := loadComp_est (fun c v2 => { c with viewshed := some v2 }) (fun c => c.viewshed) convPure A (fun _ => True)
    (RPure id) (convOK_pure A) (fun v2 b hIv hAb => rfl)
    (fun va vb a b hle h => h) (fun c a => rfl) (fun c a => rfl) (fun m => rfl)
    data.viewsheds _ hI hkeys (fun p hp => ⟨hA p hp, trivial⟩) hN4
  obtain ⟨hoF1, hnF1⟩ := loadComp_obs (fun c v2 => { c with viewshed := some v2 }) convPure (fun c => c.position) A (fun _ => True)
    (fun c a => rfl) (convOK_pure A) (fun c a => rfl) (fun m => rfl) data.viewsheds _ hI (fun p hp => ⟨hA p hp, trivial⟩)
  have hfv1b := FieldVals_mono (fun c => c.position) (RPure id) data.positions hle2
    (fun a b h => h)
    (fun e he hn => let ⟨m, h1, h2, _⟩ := hfr2 e he hn; ⟨m, h1, h2⟩)
    hoF1 hnF1 hkl1 hfv1
  have hkl1b := KeysLive_mono hle2 hkl1
  obtain ⟨hoF2, hnF2⟩ := loadComp_obs (fun c v2 => { c with viewshed := some v2 }) convPure (fun c => c.renderable) A (fun _ => True)
    (fun c a => rfl) (convOK_pure A) (fun c a => rfl) (fun m => rfl) data.viewsheds _ hI (fun p hp => ⟨hA p hp, trivial⟩)
  have hfv2b := FieldVals_mono (fun c => c.renderable) (RPure id) data.renderables hle2
    (fun a b h => h)
    (fun e he hn => let ⟨m, h1, h2, _⟩ := hfr2 e he hn; ⟨m, h1, h2⟩)
    hoF2 hnF2 hkl2 hfv2
  have hkl2b := KeysLive_mono hle2 hkl2
  obtain ⟨hoF3, hnF3⟩ := loadComp_obs (fun c v2 => { c with viewshed := some v2 }) convPure (fun c => c.player) A (fun _ => True)
    (fun c a => rfl) (convOK_pure A) (fun c a => rfl) (fun m => rfl) data.viewsheds _ hI (fun p hp => ⟨hA p hp, trivial⟩)
  have hfv3b := FieldVals_mono (fun c => c.player) (RPure id) data.players hle2
    (fun a b h => h)
    (fun e he hn => let ⟨m, h1, h2, _⟩ := hfr2 e he hn; ⟨m, h1, h2⟩)
    hoF3 hnF3 hkl3 hfv3
  have hkl3b := KeysLive_mono hle2 hkl3
  obtain ⟨hoF5, hnF5⟩ := loadComp_obs (fun c v2 => { c with viewshed := some v2 }) convPure (fun c => c.monster) A (fun _ => True)
    (fun c a => rfl) (convOK_pure A) (fun c a => rfl) (fun m => rfl) data.viewsheds _ hI (fun p hp => ⟨hA p hp, trivial⟩)
  have hN5b := AllNone_mono (fun c => c.monster) _ _ hoF5 hnF5 hN5
  obtain ⟨hoF6, hnF6⟩ := loadComp_obs (fun c v2 => { c with viewshed := some v2 }) convPure (fun c => c.name) A (fun _ => True)
    (fun c a => rfl) (convOK_pure A) (fun c a => rfl) (fun m => rfl) data.viewsheds _ hI (fun p hp => ⟨hA p hp, trivial⟩)
  have hN6b := AllNone_mono (fun c => c.name) _ _ hoF6 hnF6 hN6
  obtain ⟨hoF7, hnF7⟩ := loadComp_obs (fun c v2 => { c with viewshed := some v2 }) convPure (fun c => c.blocks_tile) A (fun _ => True)
    (fun c a => rfl) (convOK_pure A) (fun c a => rfl) (fun m => rfl) data.viewsheds _ hI (fun p hp => ⟨hA p hp, trivial⟩)
  have hN7b := AllNone_mono (fun c => c.blocks_tile) _ _ hoF7 hnF7 hN7
  obtain ⟨hoF8, hnF8⟩ := loadComp_obs (fun c v2 => { c with viewshed := some v2 }) convPure (fun c => c.combat_stats) A (fun _ => True)
    (fun c a => rfl) (convOK_pure A) (fun c a => rfl) (fun m => rfl) data.viewsheds _ hI (fun p hp => ⟨hA p hp, trivial⟩)
  have hN8b := AllNone_mono (fun c => c.combat_stats) _ _ hoF8 hnF8 hN8
  obtain ⟨hoF9, hnF9⟩ := loadComp_obs (fun c v2 => { c with viewshed := some v2 }) convPure (fun c => c.suffer_damage) A (fun _ => True)
    (fun c a => rfl) (convOK_pure A) (fun c a => rfl) (fun m => rfl) data.viewsheds _ hI (fun p hp => ⟨hA p hp, trivial⟩)
  have hN9b := AllNone_mono (fun c => c.suffer_damage) _ _ hoF9 hnF9 hN9
  obtain ⟨hoF10, hnF10⟩ := loadComp_obs (fun c v2 => { c with viewshed := some v2 }) convPure (fun c => c.wants_melee) A (fun _ => True)
    (fun c a => rfl) (convOK_pure A) (fun c a => rfl) (fun m => rfl) data.viewsheds _ hI (fun p hp => ⟨hA p hp, trivial⟩)
  have hN10b := AllNone_mono (fun c => c.wants_melee) _ _ hoF10 hnF10 hN10
  obtain ⟨hoF11, hnF11⟩ := loadComp_obs (fun c v2 => { c with viewshed := some v2 }) convPure (fun c => c.item) A (fun _ => True)
    (fun c a => rfl) (convOK_pure A) (fun c a => rfl) (fun m => rfl) data.viewsheds _ hI (fun p hp => ⟨hA p hp, trivial⟩)
  have hN11b := AllNone_mono (fun c => c.item) _ _ hoF11 hnF11 hN11
  obtain ⟨hoF12, hnF12⟩ := loadComp_obs (fun c v2 => { c with viewshed := some v2 }) convPure (fun c => c.consumable) A (fun _ => True)
    (fun c a => rfl) (convOK_pure A) (fun c a => rfl) (fun m => rfl) data.viewsheds _ hI (fun p hp => ⟨hA p hp, trivial⟩)
  have hN12b := AllNone_mono (fun c => c.consumable) _ _ hoF12 hnF12 hN12
  obtain ⟨hoF13, hnF13⟩ := loadComp_obs (fun c v2 => { c with viewshed := some v2 }) convPure (fun c => c.ranged) A (fun _ => True)
    (fun c a => rfl) (convOK_pure A) (fun c a => rfl) (fun m => rfl) data.viewsheds _ hI (fun p hp => ⟨hA p hp, trivial⟩)
  have hN13b := AllNone_mono (fun c => c.ranged) _ _ hoF13 hnF13 hN13
  obtain ⟨hoF14, hnF14⟩ := loadComp_obs (fun c v2 => { c with viewshed := some v2 }) convPure (fun c => c.inflicts_damage) A (fun _ => True)
    (fun c a => rfl) (convOK_pure A) (fun c a => rfl) (fun m => rfl) data.viewsheds _ hI (fun p hp => ⟨hA p hp, trivial⟩)
  have hN14b := AllNone_mono (fun c => c.inflicts_damage) _ _ hoF14 hnF14 hN14
  obtain ⟨hoF15, hnF15⟩ := loadComp_obs (fun c v2 => { c with viewshed := some v2 }) convPure (fun c => c.area_of_effect) A (fun _ => True)
    (fun c a => rfl) (convOK_pure A) (fun c a => rfl) (fun m => rfl) data.viewsheds _ hI (fun p hp => ⟨hA p hp, trivial⟩)
  have hN15b := AllNone_mono (fun c => c.area_of_effect) _ _ hoF15 hnF15 hN15
  obtain ⟨hoF16, hnF16⟩ := loadComp_obs (fun c v2 => { c with viewshed := some v2 }) convPure (fun c => c.confusion) A (fun _ => True)
    (fun c a => rfl) (convOK_pure A) (fun c a => rfl) (fun m => rfl) data.viewsheds _ hI (fun p hp => ⟨hA p hp, trivial⟩)
  have hN16b := AllNone_mono (fun c => c.confusion) _ _ hoF16 hnF16 hN16
  obtain ⟨hoF17, hnF17⟩ := loadComp_obs (fun c v2 => { c with viewshed := some v2 }) convPure (fun c => c.provides_healing) A (fun _ => True)
    (fun c a => rfl) (convOK_pure A) (fun c a => rfl) (fun m => rfl) data.viewsheds _ hI (fun p hp => ⟨hA p hp, trivial⟩)
  have hN17b := AllNone_mono (fun c => c.provides_healing) _ _ hoF17 hnF17 hN17
  obtain ⟨hoF18, hnF18⟩ := loadComp_obs (fun c v2 => { c with viewshed := some v2 }) convPure (fun c => c.in_backpack) A (fun _ => True)
    (fun c a => rfl) (convOK_pure A) (fun c a => rfl) (fun m => rfl) data.viewsheds _ hI (fun p hp => ⟨hA p hp, trivial⟩)
  have hN18b := AllNone_mono (fun c => c.in_backpack) _ _ hoF18 hnF18 hN18
  obtain ⟨hoF19, hnF19⟩ := loadComp_obs (fun c v2 => { c with viewshed := some v2 }) convPure (fun c => c.wants_to_pickup) A (fun _ => True)
    (fun c a => rfl) (convOK_pure A) (fun c a => rfl) (fun m => rfl) data.viewsheds _ hI (fun p hp => ⟨hA p hp, trivial⟩)
  have hN19b := AllNone_mono (fun c => c.wants_to_pickup) _ _ hoF19 hnF19 hN19
  obtain ⟨hoF20, hnF20⟩ := loadComp_obs (fun c v2 => { c with viewshed := some v2 }) convPure (fun c => c.wants_to_use) A (fun _ => True)
    (fun c a => rfl) (convOK_pure A) (fun c a => rfl) (fun m => rfl) data.viewsheds _ hI (fun p hp => ⟨hA p hp, trivial⟩)
  have hN20b := AllNone_mono (fun c => c.wants_to_use) _ _ hoF20 hnF20 hN20
  obtain ⟨hoF21, hnF21⟩ := loadComp_obs (fun c v2 => { c with viewshed := some v2 }) convPure (fun c => c.wants_to_drop) A (fun _ => True)
    (fun c a => rfl) (convOK_pure A) (fun c a => rfl) (fun m => rfl) data.viewsheds _ hI (fun p hp => ⟨hA p hp, trivial⟩)
  have hN21b := AllNone_mono (fun c => c.wants_to_drop) _ _ hoF21 hnF21 hN21
  obtain ⟨hoF22, hnF22⟩ := loadComp_obs (fun c v2 => { c with viewshed := some v2 }) convPure (fun c => c.serialization_helper) A (fun _ => True)
    (fun c a => rfl) (convOK_pure A) (fun c a => rfl) (fun m => rfl) data.viewsheds _ hI (fun p hp => ⟨hA p hp, trivial⟩)
  have hN22b := AllNone_mono (fun c => c.serialization_helper) _ _ hoF22 hnF22 hN22
  obtain ⟨hoF23, hnF23⟩ := loadComp_obs (fun c v2 => { c with viewshed := some v2 }) convPure (fun c => c.equippable) A (fun _ => True)
    (fun c a => rfl) (convOK_pure A) (fun c a => rfl) (fun m => rfl) data.viewsheds _ hI (fun p hp => ⟨hA p hp, trivial⟩)
  have hN23b := AllNone_mono (fun c => c.equippable) _ _ hoF23 hnF23 hN23
  obtain ⟨hoF24, hnF24⟩ := loadComp_obs (fun c v2 => { c with viewshed := some v2 }) convPure (fun c => c.equipped) A (fun _ => True)
    (fun c a => rfl) (convOK_pure A) (fun c a => rfl) (fun m => rfl) data.viewsheds _ hI (fun p hp => ⟨hA p hp, trivial⟩)
  have hN24b := AllNone_mono (fun c => c.equipped) _ _ hoF24 hnF24 hN24
  obtain ⟨hoF25, hnF25⟩ := loadComp_obs (fun c v2 => { c with viewshed := some v2 }) convPure (fun c => c.melee_power_bonus) A (fun _ => True)
    (fun c a => rfl) (convOK_pure A) (fun c a => rfl) (fun m => rfl) data.viewsheds _ hI (fun p hp => ⟨hA p hp, trivial⟩)
  have hN25b := AllNone_mono (fun c => c.melee_power_bonus) _ _ hoF25 hnF25 hN25
  obtain ⟨hoF26, hnF26⟩ := loadComp_obs (fun c v2 => { c with viewshed := some v2 }) convPure (fun c => c.defense_bonus) A (fun _ => True)
    (fun c a => rfl) (convOK_pure A) (fun c a => rfl) (fun m => rfl) data.viewsheds _ hI (fun p hp => ⟨hA p hp, trivial⟩)
  have hN26b := AllNone_mono (fun c => c.defense_bonus) _ _ hoF26 hnF26 hN26
  obtain ⟨hoF27, hnF27⟩ := loadComp_obs (fun c v2 => { c with viewshed := some v2 }) convPure (fun c => c.wants_to_remove) A (fun _ => True)
    (fun c a => rfl) (convOK_pure A) (fun c a => rfl) (fun m => rfl) data.viewsheds _ hI (fun p hp => ⟨hA p hp, trivial⟩)
  have hN27b := AllNone_mono (fun c => c.wants_to_remove) _ _ hoF27 hnF27 hN27
  obtain ⟨hoF28, hnF28⟩ := loadComp_obs (fun c v2 => { c with viewshed := some v2 }) convPure (fun c => c.particle_lifetime) A (fun _ => True)
    (fun c a => rfl) (convOK_pure A) (fun c a => rfl) (fun m => rfl) data.viewsheds _ hI (fun p hp => ⟨hA p hp, trivial⟩)
  have hN28b := AllNone_mono (fun c => c.particle_lifetime) _ _ hoF28 hnF28 hN28
  obtain ⟨hoF29, hnF29⟩ := loadComp_obs (fun c v2 => { c with viewshed := some v2 }) convPure (fun c => c.hunger_clock) A (fun _ => True)
    (fun c a => rfl) (convOK_pure A) (fun c a => rfl) (fun m => rfl) data.viewsheds _ hI (fun p hp => ⟨hA p hp, trivial⟩)
  have hN29b := AllNone_mono (fun c => c.hunger_clock) _ _ hoF29 hnF29 hN29
  obtain ⟨hoF30, hnF30⟩ := loadComp_obs (fun c v2 => { c with viewshed := some v2 }) convPure (fun c => c.provides_food) A (fun _ => True)
    (fun c a => rfl) (convOK_pure A) (fun c a => rfl) (fun m => rfl) data.viewsheds _ hI (fun p hp => ⟨hA p hp, trivial⟩)
  have hN30b := AllNone_mono (fun c => c.provides_food) _ _ hoF30 hnF30 hN30
  have hMb := MarksIn_mono hle2 (fun e he hn => let ⟨m, h1, _, h3⟩ := hfr2 e he hn; ⟨m, h1, h3⟩) hM
  exact ⟨hI2, hMb, hkl1b, hfv1b, hkl2b, hfv2b, hkl3b, hfv3b, hklx, hfvk, hN5b, hN6b, hN7b, hN8b, hN9b, hN10b, hN11b, hN12b, hN13b, hN14b, hN15b, hN16b, hN17b, hN18b, hN19b, hN20b, hN21b, hN22b, hN23b, hN24b, hN25b, hN26b, hN27b, hN28b, hN29b, hN30b⟩

set_option maxHeartbeats 800000 in
/-- Deserialization pass 5 (monster): it establishes its own list facts
and preserves those of the earlier passes. -/
lemma loadStage5 (A : Nat → Prop) (data : SaveData) (v : World)
    (hI : LoadInv v)
    (hkeys : ((data.monsters).map Prod.fst).Nodup)
    (hA : ∀ p ∈ data.monsters, A p.1)
    (hM : MarksIn A v)
    (hkl1 : KeysLive data.positions v)
    (hfv1 : FieldVals (fun c => c.position) (RPure id) data.positions v)
    (hkl2 : KeysLive data.renderables v)
    (hfv2 : FieldVals (fun c => c.renderable) (RPure id) data.renderables v)
    (hkl3 : KeysLive data.players v)
    (hfv3 : FieldVals (fun c => c.player) (RPure id) data.players v)
    (hkl4 : KeysLive data.viewsheds v)
    (hfv4 : FieldVals (fun c => c.viewshed) (RPure id) data.viewsheds v)
    (hN5 : AllNone (fun c => c.monster) v)
    (hN6 : AllNone (fun c => c.name) v)
    (hN7 : AllNone (fun c => c.blocks_tile) v)
    (hN8 : AllNone (fun c => c.combat_stats) v)
    (hN9 : AllNone (fun c => c.suffer_damage) v)
    (hN10 : AllNone (fun c => c.wants_melee) v)
    (hN11 : AllNone (fun c => c.item) v)
    (hN12 : AllNone (fun c => c.consumable) v)
    (hN13 : AllNone (fun c => c.ranged) v)
    (hN14 : AllNone (fun c => c.inflicts_damage) v)
    (hN15 : AllNone (fun c => c.area_of_effect) v)
    (hN16 : AllNone (fun c => c.confusion) v)
    (hN17 : AllNone (fun c => c.provides_healing) v)
    (hN18 : AllNone (fun c => c.in_backpack) v)
    (hN19 : AllNone (fun c => c.wants_to_pickup) v)
    (hN20 : AllNone (fun c => c.wants_to_use) v)
    (hN21 : AllNone (fun c => c.wants_to_drop) v)
    (hN22 : AllNone (fun c => c.serialization_helper) v)
    (hN23 : AllNone (fun c => c.equippable) v)
    (hN24 : AllNone (fun c => c.equipped) v)
    (hN25 : AllNone (fun c => c.melee_power_bonus) v)
    (hN26 : AllNone (fun c => c.defense_bonus) v)
    (hN27 : AllNone (fun c => c.wants_to_remove) v)
    (hN28 : AllNone (fun c => c.particle_lifetime) v)
    (hN29 : AllNone (fun c => c.hunger_clock) v)
    (hN30 : AllNone (fun c => c.provides_food) v)
    :
    LoadInv (loadComp (fun c v2 => { c with monster := some v2 }) convPure v data.monsters) ∧
    MarksIn A (loadComp (fun c v2 => { c with monster := some v2 }) convPure v data.monsters) ∧
    KeysLive data.positions (loadComp (fun c v2 => { c with monster := some v2 }) convPure v data.monsters) ∧
    FieldVals (fun c => c.position) (RPure id) data.positions (loadComp (fun c v2 => { c with monster := some v2 }) convPure v data.monsters) ∧
    KeysLive data.renderables (loadComp (fun c v2 => { c with monster := some v2 }) convPure v data.monsters) ∧
    FieldVals (fun c => c.renderable) (RPure id) data.renderables (loadComp (fun c v2 => { c with monster := some v2 }) convPure v data.monsters) ∧
    KeysLive data.players (loadComp (fun c v2 => { c with monster := some v2 }) convPure v data.monsters) ∧
    FieldVals (fun c => c.player) (RPure id) data.players (loadComp (fun c v2 => { c with monster := some v2 }) convPure v data.monsters) ∧
    KeysLive data.viewsheds (loadComp (fun c v2 => { c with monster := some v2 }) convPure v data.monsters) ∧
    FieldVals (fun c => c.viewshed) (RPure id) data.viewsheds (loadComp (fun c v2 => { c with monster := some v2 }) convPure v data.monsters) ∧
    KeysLive data.monsters (loadComp (fun c v2 => { c with monster := some v2 }) convPure v data.monsters) ∧
    FieldVals (fun c => c.monster) (RPure id) data.monsters (loadComp (fun c v2 => { c with monster := some v2 }) convPure v data.monsters) ∧
    AllNone (fun c => c.name) (loadComp (fun c v2 => { c with monster := some v2 }) convPure v data.monsters) ∧
    AllNone (fun c => c.blocks_tile) (loadComp (fun c v2 => { c with monster := some v2 }) convPure v data.monsters) ∧
    AllNone (fun c => c.combat_stats) (loadComp (fun c v2 => { c with monster := some v2 }) convPure v data.monsters) ∧
    AllNone (fun c => c.suffer_damage) (loadComp (fun c v2 => { c with monster := some v2 }) convPure v data.monsters) ∧
    AllNone (fun c => c.wants_melee) (loadComp (fun c v2 => { c with monster := some v2 }) convPure v data.monsters) ∧
    AllNone (fun c => c.item) (loadComp (fun c v2 => { c with monster := some v2 }) convPure v data.monsters) ∧
    AllNone (fun c => c.consumable) (loadComp (fun c v2 => { c with monster := some v2 }) convPure v data.monsters) ∧
    AllNone (fun c => c.ranged) (loadComp (fun c v2 => { c with monster := some v2 }) convPure v data.monsters) ∧
    AllNone (fun c => c.inflicts_damage) (loadComp (fun c v2 => { c with monster := some v2 }) convPure v data.monsters) ∧
    AllNone (fun c => c.area_of_effect) (loadComp (fun c v2 => { c with monster := some v2 }) convPure v data.monsters) ∧
    AllNone (fun c => c.confusion) (loadComp (fun c v2 => { c with monster := some v2 }) convPure v data.monsters) ∧
    AllNone (fun c => c.provides_healing) (loadComp (fun c v2 => { c with monster := some v2 }) convPure v data.monsters) ∧
    AllNone (fun c => c.in_backpack) (loadComp (fun c v2 => { c with monster := some v2 }) convPure v data.monsters) ∧
    AllNone (fun c => c.wants_to_pickup) (loadComp (fun c v2 => { c with monster := some v2 }) convPure v data.monsters) ∧
    AllNone (fun c => c.wants_to_use) (loadComp (fun c v2 => { c with monster := some v2 }) convPure v data.monsters) ∧
    AllNone (fun c => c.wants_to_drop) (loadComp (fun c v2 => { c with monster := some v2 }) convPure v data.monsters) ∧
    AllNone (fun c => c.serialization_helper) (loadComp (fun c v2 => { c with monster := some v2 }) convPure v data.monsters) ∧
    AllNone (fun c => c.equippable) (loadComp (fun c v2 => { c with monster := some v2 }) convPure v data.monsters) ∧
    AllNone (fun c => c.equipped) (loadComp (fun c v2 => { c with monster := some v2 }) convPure v data.monsters) ∧
    AllNone (fun c => c.melee_power_bonus) (loadComp (fun c v2 => { c with monster := some v2 }) convPure v data.monsters) ∧
    AllNone (fun c => c.defense_bonus) (loadComp (fun c v2 => { c with monster := some v2 }) convPure v data.monsters) ∧
    AllNone (fun c => c.wants_to_remove) (loadComp (fun c v2 => { c with monster := some v2 }) convPure v data.monsters) ∧
    AllNone (fun c => c.particle_lifetime) (loadComp (fun c v2 => { c with monster := some v2 }) convPure v data.monsters) ∧
    AllNone (fun c => c.hunger_clock) (loadComp (fun c v2 => { c with monster := some v2 }) convPure v data.monsters) ∧
    AllNone (fun c => c.provides_food) (loadComp (fun c v2 => { c with monster := some v2 }) convPure v data.monsters) := by
  obtain ⟨hI2, hle2, hfr2, hklx⟩ := loadComp_struct (fun c v2 => { c with monster := some v2 }) convPure A (fun _ => True)
    (fun c a => rfl) (convOK_pure A) data.monsters _ hI (fun p hp => ⟨hA p hp, trivial⟩)
  have hfvk := loadComp_est (fun c v2 => { c with monster := some v2 }) (fun c => c.monster) convPure A (fun _ => True)
    (RPure id) (convOK_pure A) (fun v2 b hIv hAb => rfl)
    (fun va vb a b hle h => h) (fun c a => rfl) (fun c a => rfl) (fun m => rfl)
    data.monsters _ hI hkeys (fun p hp => ⟨hA p hp, trivial⟩) hN5
  obtain ⟨hoF1, hnF1⟩ := loadComp_obs (fun c v2 => { c with monster := some v2 }) convPure (fun c => c.position) A (fun _ => True)
    (fun c a => rfl) (convOK_pure A) (fun c a => rfl) (fun m => rfl) data.monsters _ hI (fun p hp => ⟨hA p hp, trivial⟩)
  have hfv1b := FieldVals_mono (fun c => c.position) (RPure id) data.positions hle2
    (fun a b h => h)
    (fun e he hn => let ⟨m, h1, h2, _⟩ := hfr2 e he hn; ⟨m, h1, h2⟩)
    hoF1 hnF1 hkl1 hfv1
  have hkl1b := KeysLive_mono hle2 hkl1
  obtain ⟨hoF2, hnF2⟩ := loadComp_obs (fun c v2 => { c with monster := some v2 }) convPure (fun c => c.renderable) A (fun _ => True)
    (fun c a => rfl) (convOK_pure A) (fun c a => rfl) (fun m => rfl) data.monsters _ hI (fun p hp => ⟨hA p hp, trivial⟩)
  have hfv2b := FieldVals_mono (fun c => c.renderable) (RPure id) data.renderables hle2
    (fun a b h => h)
    (fun e he hn => let ⟨m, h1, h2, _⟩ := hfr2 e he hn; ⟨m, h1, h2⟩)
    hoF2 hnF2 hkl2 hfv2
  have hkl2b := KeysLive_mono hle2 hkl2
  obtain ⟨hoF3, hnF3⟩ := loadComp_obs (fun c v2 => { c with monster := some v2 }) convPure (fun c => c.player) A (fun _ => True)
    (fun c a => rfl) (convOK_pure A) (fun c a => rfl) (fun m => rfl) data.monsters _ hI (fun p hp => ⟨hA p hp, trivial⟩)
  have hfv3b := FieldVals_mono (fun c => c.player) (RPure id) data.players hle2
    (fun a b h => h)
    (fun e he hn => let ⟨m, h1, h2, _⟩ := hfr2 e he hn; ⟨m, h1, h2⟩)
    hoF3 hnF3 hkl3 hfv3
  have hkl3b := KeysLive_mono hle2 hkl3
  obtain ⟨hoF4, hnF4⟩ := loadComp_obs (fun c v2 => { c with monster := some v2 }) convPure (fun c => c.viewshed) A (fun _ => True)
    (fun c a => rfl) (convOK_pure A) (fun c a => rfl) (fun m => rfl) data.monsters _ hI (fun p hp => ⟨hA p hp, trivial⟩)
  have hfv4b := FieldVals_mono (fun c => c.viewshed) (RPure id) data.viewsheds hle2
    (fun a b h => h)
    (fun e he hn => let ⟨m, h1, h2, _⟩ := hfr2 e he hn; ⟨m, h1, h2⟩)
    hoF4 hnF4 hkl4 hfv4
  have hkl4b := KeysLive_mono hle2 hkl4
  obtain ⟨hoF6, hnF6⟩ := loadComp_obs (fun c v2 => { c with monster := some v2 }) convPure (fun c => c.name) A (fun _ => True)
    (fun c a => rfl) (convOK_pure A) (fun c a => rfl) (fun m => rfl) data.monsters _ hI (fun p hp => ⟨hA p hp, trivial⟩)
  have hN6b := AllNone_mono (fun c => c.name) _ _ hoF6 hnF6 hN6
  obtain ⟨hoF7, hnF7⟩ := loadComp_obs (fun c v2 => { c with monster := some v2 }) convPure (fun c => c.blocks_tile) A (fun _ => True)
    (fun c a => rfl) (convOK_pure A) (fun c a => rfl) (fun m => rfl) data.monsters _ hI (fun p hp => ⟨hA p hp, trivial⟩)
  have hN7b := AllNone_mono (fun c => c.blocks_tile) _ _ hoF7 hnF7 hN7
  obtain ⟨hoF8, hnF8⟩ := loadComp_obs (fun c v2 => { c with monster := some v2 }) convPure (fun c => c.combat_stats) A (fun _ => True)
    (fun c a => rfl) (convOK_pure A) (fun c a => rfl) (fun m => rfl) data.monsters _ hI (fun p hp => ⟨hA p hp, trivial⟩)
  have hN8b := AllNone_mono (fun c => c.combat_stats) _ _ hoF8 hnF8 hN8
  obtain ⟨hoF9, hnF9⟩ := loadComp_obs (fun c v2 => { c with monster := some v2 }) convPure (fun c => c.suffer_damage) A (fun _ => True)
    (fun c a => rfl) (convOK_pure A) (fun c a => rfl) (fun m => rfl) data.monsters _ hI (fun p hp => ⟨hA p hp, trivial⟩)
  have hN9b := AllNone_mono (fun c => c.suffer_damage) _ _ hoF9 hnF9 hN9
  obtain ⟨hoF10, hnF10⟩ := loadComp_obs (fun c v2 => { c with monster := some v2 }) convPure (fun c => c.wants_melee) A (fun _ => True)
    (fun c a => rfl) (convOK_pure A) (fun c a => rfl) (fun m => rfl) data.monsters _ hI (fun p hp => ⟨hA p hp, trivial⟩)
  have hN10b := AllNone_mono (fun c => c.wants_melee) _ _ hoF10 hnF10 hN10
  obtain ⟨hoF11, hnF11⟩ := loadComp_obs (fun c v2 => { c with monster := some v2 }) convPure (fun c => c.item) A (fun _ => True)
    (fun c a => rfl) (convOK_pure A) (fun c a => rfl) (fun m => rfl) data.monsters _ hI (fun p hp => ⟨hA p hp, trivial⟩)
  have hN11b := AllNone_mono (fun c => c.item) _ _ hoF11 hnF11 hN11
  obtain ⟨hoF12, hnF12⟩ := loadComp_obs (fun c v2 => { c with monster := some v2 }) convPure (fun c => c.consumable) A (fun _ => True)
    (fun c a => rfl) (convOK_pure A) (fun c a => rfl) (fun m => rfl) data.monsters _ hI (fun p hp => ⟨hA p hp, trivial⟩)
  have hN12b := AllNone_mono (fun c => c.consumable) _ _ hoF12 hnF12 hN12
  obtain ⟨hoF13, hnF13⟩ := loadComp_obs (fun c v2 => { c with monster := some v2 }) convPure (fun c => c.ranged) A (fun _ => True)
    (fun c a => rfl) (convOK_pure A) (fun c a => rfl) (fun m => rfl) data.monsters _ hI (fun p hp => ⟨hA p hp, trivial⟩)
  have hN13b := AllNone_mono (fun c => c.ranged) _ _ hoF13 hnF13 hN13
  obtain ⟨hoF14, hnF14⟩ := loadComp_obs (fun c v2 => { c with monster := some v2 }) convPure (fun c => c.inflicts_damage) A (fun _ => True)
    (fun c a => rfl) (convOK_pure A) (fun c a => rfl) (fun m => rfl) data.monsters _ hI (fun p hp => ⟨hA p hp, trivial⟩)
  have hN14b := AllNone_mono (fun c => c.inflicts_damage) _ _ hoF14 hnF14 hN14
  obtain ⟨hoF15, hnF15⟩ := loadComp_obs (fun c v2 => { c with monster := some v2 }) convPure (fun c => c.area_of_effect) A (fun _ => True)
    (fun c a => rfl) (convOK_pure A) (fun c a => rfl) (fun m => rfl) data.monsters _ hI (fun p hp => ⟨hA p hp, trivial⟩)
  have hN15b := AllNone_mono (fun c => c.area_of_effect) _ _ hoF15 hnF15 hN15
  obtain ⟨hoF16, hnF16⟩ := loadComp_obs (fun c v2 => { c with monster := some v2 }) convPure (fun c => c.confusion) A (fun _ => True)
    (fun c a => rfl) (convOK_pure A) (fun c a => rfl) (fun m => rfl) data.monsters _ hI (fun p hp => ⟨hA p hp, trivial⟩)
  have hN16b := AllNone_mono (fun c => c.confusion) _ _ hoF16 hnF16 hN16
  obtain ⟨hoF17, hnF17⟩ := loadComp_obs (fun c v2 => { c with monster := some v2 }) convPure (fun c => c.provides_healing) A (fun _ => True)
    (fun c a => rfl) (convOK_pure A) (fun c a => rfl) (fun m => rfl) data.monsters _ hI (fun p hp => ⟨hA p hp, trivial⟩)
  have hN17b := AllNone_mono (fun c => c.provides_healing) _ _ hoF17 hnF17 hN17
  obtain ⟨hoF18, hnF18⟩ := loadComp_obs (fun c v2 => { c with monster := some v2 }) convPure (fun c => c.in_backpack) A (fun _ => True)
    (fun c a => rfl) (convOK_pure A) (fun c a => rfl) (fun m => rfl) data.monsters _ hI (fun p hp => ⟨hA p hp, trivial⟩)
  have hN18b := AllNone_mono (fun c => c.in_backpack) _ _ hoF18 hnF18 hN18
  obtain ⟨hoF19, hnF19⟩ := loadComp_obs (fun c v2 => { c with monster := some v2 }) convPure (fun c => c.wants_to_pickup) A (fun _ => True)
    (fun c a => rfl) (convOK_pure A) (fun c a => rfl) (fun m => rfl) data.monsters _ hI (fun p hp => ⟨hA p hp, trivial⟩)
  have hN19b := AllNone_mono (fun c => c.wants_to_pickup) _ _ hoF19 hnF19 hN19
  obtain ⟨hoF20, hnF20⟩ := loadComp_obs (fun c v2 => { c with monster := some v2 }) convPure (fun c => c.wants_to_use) A (fun _ => True)
    (fun c a => rfl) (convOK_pure A) (fun c a => rfl) (fun m => rfl) data.monsters _ hI (fun p hp => ⟨hA p hp, trivial⟩)
  have hN20b := AllNone_mono (fun c => c.wants_to_use) _ _ hoF20 hnF20 hN20
  obtain ⟨hoF21, hnF21⟩ := loadComp_obs (fun c v2 => { c with monster := some v2 }) convPure (fun c => c.wants_to_drop) A (fun _ => True)
    (fun c a => rfl) (convOK_pure A) (fun c a => rfl) (fun m => rfl) data.monsters _ hI (fun p hp => ⟨hA p hp, trivial⟩)
  have hN21b := AllNone_mono (fun c => c.wants_to_drop) _ _ hoF21 hnF21 hN21
  obtain ⟨hoF22, hnF22⟩ := loadComp_obs (fun c v2 => { c with monster := some v2 }) convPure (fun c => c.serialization_helper) A (fun _ => True)
    (fun c a => rfl) (convOK_pure A) (fun c a => rfl) (fun m => rfl) data.monsters _ hI (fun p hp => ⟨hA p hp, trivial⟩)
  have hN22b := AllNone_mono (fun c => c.serialization_helper) _ _ hoF22 hnF22 hN22
  obtain ⟨hoF23, hnF23⟩ := loadComp_obs (fun c v2 => { c with monster := some v2 }) convPure (fun c => c.equippable) A (fun _ => True)
    (fun c a => rfl) (convOK_pure A) (fun c a => rfl) (fun m => rfl) data.monsters _ hI (fun p hp => ⟨hA p hp, trivial⟩)
  have hN23b := AllNone_mono (fun c => c.equippable) _ _ hoF23 hnF23 hN23
  obtain ⟨hoF24, hnF24⟩ := loadComp_obs (fun c v2 => { c with monster := some v2 }) convPure (fun c => c.equipped) A (fun _ => True)
    (fun c a => rfl) (convOK_pure A) (fun c a => rfl) (fun m => rfl) data.monsters _ hI (fun p hp => ⟨hA p hp, trivial⟩)
  have hN24b := AllNone_mono (fun c => c.equipped) _ _ hoF24 hnF24 hN24
  obtain ⟨hoF25, hnF25⟩ := loadComp_obs (fun c v2 => { c with monster := some v2 }) convPure (fun c => c.melee_power_bonus) A (fun _ => True)
    (fun c a => rfl) (convOK_pure A) (fun c a => rfl) (fun m => rfl) data.monsters _ hI (fun p hp => ⟨hA p hp, trivial⟩)
  have hN25b := AllNone_mono (fun c => c.melee_power_bonus) _ _ hoF25 hnF25 hN25
  obtain ⟨hoF26, hnF26⟩ := loadComp_obs (fun c v2 => { c with monster := some v2 }) convPure (fun c => c.defense_bonus) A (fun _ => True)
    (fun c a => rfl) (convOK_pure A) (fun c a => rfl) (fun m => rfl) data.monsters _ hI (fun p hp => ⟨hA p hp, trivial⟩)
  have hN26b := AllNone_mono (fun c => c.defense_bonus) _ _ hoF26 hnF26 hN26
  obtain ⟨hoF27, hnF27⟩ := loadComp_obs (fun c v2 => { c with monster := some v2 }) convPure (fun c => c.wants_to_remove) A (fun _ => True)
    (fun c a => rfl) (convOK_pure A) (fun c a => rfl) (fun m => rfl) data.monsters _ hI (fun p hp => ⟨hA p hp, trivial⟩)
  have hN27b := AllNone_mono (fun c => c.wants_to_remove) _ _ hoF27 hnF27 hN27
  obtain ⟨hoF28, hnF28⟩ := loadComp_obs (fun c v2 => { c with monster := some v2 }) convPure (fun c => c.particle_lifetime) A (fun _ => True)
    (fun c a => rfl) (convOK_pure A) (fun c a => rfl) (fun m => rfl) data.monsters _ hI (fun p hp => ⟨hA p hp, trivial⟩)
  have hN28b := AllNone_mono (fun c => c.particle_lifetime) _ _ hoF28 hnF28 hN28
  obtain ⟨hoF29, hnF29⟩ := loadComp_obs (fun c v2 => { c with monster := some v2 }) convPure (fun c => c.hunger_clock) A (fun _ => True)
    (fun c a => rfl) (convOK_pure A) (fun c a => rfl) (fun m => rfl) data.monsters _ hI (fun p hp => ⟨hA p hp, trivial⟩)
  have hN29b := AllNone_mono (fun c => c.hunger_clock) _ _ hoF29 hnF29 hN29
  obtain ⟨hoF30, hnF30⟩ := loadComp_obs (fun c v2 => { c with monster := some v2 }) convPure (fun c => c.provides_food) A (fun _ => True)
    (fun c a => rfl) (convOK_pure A) (fun c a => rfl) (fun m => rfl) data.monsters _ hI (fun p hp => ⟨hA p hp, trivial⟩)
  have hN30b := AllNone_mono (fun c => c.provides_food) _ _ hoF30 hnF30 hN30
  have hMb := MarksIn_mono hle2 (fun e he hn => let ⟨m, h1, _, h3⟩ := hfr2 e he hn; ⟨m, h1, h3⟩) hM
  exact ⟨hI2, hMb, hkl1b, hfv1b, hkl2b, hfv2b, hkl3b, hfv3b, hkl4b, hfv4b, hklx, hfvk, hN6b, hN7b, hN8b, hN9b, hN10b, hN11b, hN12b, hN13b, hN14b, hN15b, hN16b, hN17b, hN18b, hN19b, hN20b, hN21b, hN22b, hN23b, hN24b, hN25b, hN26b, hN27b, hN28b, hN29b, hN30b⟩

set_option maxHeartbeats 800000 in
/-- Deserialization pass 6 (name): it establishes its own list facts
and preserves those of the earlier passes. -/
lemma loadStage6 (A : Nat → Prop) (data : SaveData) (v : World)
    (hI : LoadInv v)
    (hkeys : ((data.names).map Prod.fst).Nodup)
    (hA : ∀ p ∈ data.names, A p.1)
    (hM : MarksIn A v)
    (hkl1 : KeysLive data.positions v)
    (hfv1 : FieldVals (fun c => c.position) (RPure id) data.positions v)
    (hkl2 : KeysLive data.renderables v)
    (hfv2 : FieldVals (fun c => c.renderable) (RPure id) data.renderables v)
    (hkl3 : KeysLive data.players v)
    (hfv3 : FieldVals (fun c => c.player) (RPure id) data.players v)
    (hkl4 : KeysLive data.viewsheds v)
    (hfv4 : FieldVals (fun c => c.viewshed) (RPure id) data.viewsheds v)
    (hkl5 : KeysLive data.monsters v)
    (hfv5 : FieldVals (fun c => c.monster) (RPure id) data.monsters v)
    (hN6 : AllNone (fun c => c.name) v)
    (hN7 : AllNone (fun c => c.blocks_tile) v)
    (hN8 : AllNone (fun c => c.combat_stats) v)
    (hN9 : AllNone (fun c => c.suffer_damage) v)
    (hN10 : AllNone (fun c => c.wants_melee) v)
    (hN11 : AllNone (fun c => c.item) v)
    (hN12 : AllNone (fun c => c.consumable) v)
    (hN13 : AllNone (fun c => c.ranged) v)
    (hN14 : AllNone (fun c => c.inflicts_damage) v)
    (hN15 : AllNone (fun c => c.area_of_effect) v)
    (hN16 : AllNone (fun c => c.confusion) v)
    (hN17 : AllNone (fun c => c.provides_healing) v)
    (hN18 : AllNone (fun c => c.in_backpack) v)
    (hN19 : AllNone (fun c => c.wants_to_pickup) v)
    (hN20 : AllNone (fun c => c.wants_to_use) v)
    (hN21 : AllNone (fun c => c.wants_to_drop) v)
    (hN22 : AllNone (fun c => c.serialization_helper) v)
    (hN23 : AllNone (fun c => c.equippable) v)
    (hN24 : AllNone (fun c => c.equipped) v)
    (hN25 : AllNone (fun c => c.melee_power_bonus) v)
    (hN26 : AllNone (fun c => c.defense_bonus) v)
    (hN27 : AllNone (fun c => c.wants_to_remove) v)
    (hN28 : AllNone (fun c => c.particle_lifetime) v)
    (hN29 : AllNone (fun c => c.hunger_clock) v)
    (hN30 : AllNone (fun c => c.provides_food) v)
    :
    LoadInv (loadComp (fun c v2 => { c with name := some v2 }) convPure v data.names) ∧
    MarksIn A (loadComp (fun c v2 => { c with name := some v2 }) convPure v data.names) ∧
    KeysLive data.positions (loadComp (fun c v2 => { c with name := some v2 }) convPure v data.names) ∧
    FieldVals (fun c => c.position) (RPure id) data.positions (loadComp (fun c v2 => { c with name := some v2 }) convPure v data.names) ∧
    KeysLive data.renderables (loadComp (fun c v2 => { c with name := some v2 }) convPure v data.names) ∧
    FieldVals (fun c => c.renderable) (RPure id) data.renderables (loadComp (fun c v2 => { c with name := some v2 }) convPure v data.names) ∧
    KeysLive data.players (loadComp (fun c v2 => { c with name := some v2 }) convPure v data.names) ∧
    FieldVals (fun c => c.player) (RPure id) data.players (loadComp (fun c v2 => { c with name := some v2 }) convPure v data.names) ∧
    KeysLive data.viewsheds (loadComp (fun c v2 => { c with name := some v2 }) convPure v data.names) ∧
    FieldVals (fun c => c.viewshed) (RPure id) data.viewsheds (loadComp (fun c v2 => { c with name := some v2 }) convPure v data.names) ∧
    KeysLive data.monsters (loadComp (fun c v2 => { c with name := some v2 }) convPure v data.names) ∧
    FieldVals (fun c => c.monster) (RPure id) data.monsters (loadComp (fun c v2 => { c with name := some v2 }) convPure v data.names) ∧
    KeysLive data.names (loadComp (fun c v2 => { c with name := some v2 }) convPure v data.names) ∧
    FieldVals (fun c => c.name) (RPure id) data.names (loadComp (fun c v2 => { c with name := some v2 }) convPure v data.names) ∧
    AllNone (fun c => c.blocks_tile) (loadComp (fun c v2 => { c with name := some v2 }) convPure v data.names) ∧
    AllNone (fun c => c.combat_stats) (loadComp (fun c v2 => { c with name := some v2 }) convPure v data.names) ∧
    AllNone (fun c => c.suffer_damage) (loadComp (fun c v2 => { c with name := some v2 }) convPure v data.names) ∧
    AllNone (fun c => c.wants_melee) (loadComp (fun c v2 => { c with name := some v2 }) convPure v data.names) ∧
    AllNone (fun c => c.item) (loadComp (fun c v2 => { c with name := some v2 }) convPure v data.names) ∧
    AllNone (fun c => c.consumable) (loadComp (fun c v2 => { c with name := some v2 }) convPure v data.names) ∧
    AllNone (fun c => c.ranged) (loadComp (fun c v2 => { c with name := some v2 }) convPure v data.names) ∧
    AllNone (fun c => c.inflicts_damage) (loadComp (fun c v2 => { c with name := some v2 }) convPure v data.names) ∧
    AllNone (fun c => c.area_of_effect) (loadComp (fun c v2 => { c with name := some v2 }) convPure v data.names) ∧
    AllNone (fun c => c.confusion) (loadComp (fun c v2 => { c with name := some v2 }) convPure v data.names) ∧
    AllNone (fun c => c.provides_healing) (loadComp (fun c v2 => { c with name := some v2 }) convPure v data.names) ∧
    AllNone (fun c => c.in_backpack) (loadComp (fun c v2 => { c with name := some v2 }) convPure v data.names) ∧
    AllNone (fun c => c.wants_to_pickup) (loadComp (fun c v2 => { c with name := some v2 }) convPure v data.names) ∧
    AllNone (fun c => c.wants_to_use) (loadComp (fun c v2 => { c with name := some v2 }) convPure v data.names) ∧
    AllNone (fun c => c.wants_to_drop) (loadComp (fun c v2 => { c with name := some v2 }) convPure v data.names) ∧
    AllNone (fun c => c.serialization_helper) (loadComp (fun c v2 => { c with name := some v2 }) convPure v data.names) ∧
    AllNone (fun c => c.equippable) (loadComp (fun c v2 => { c with name := some v2 }) convPure v data.names) ∧
    AllNone (fun c => c.equipped) (loadComp (fun c v2 => { c with name := some v2 }) convPure v data.names) ∧
    AllNone (fun c => c.melee_power_bonus) (loadComp (fun c v2 => { c with name := some v2 }) convPure v data.names) ∧
    AllNone (fun c => c.defense_bonus) (loadComp (fun c v2 => { c with name := some v2 }) convPure v data.names) ∧
    AllNone (fun c => c.wants_to_remove) (loadComp (fun c v2 => { c with name := some v2 }) convPure v data.names) ∧
    AllNone (fun c => c.particle_lifetime) (loadComp (fun c v2 => { c with name := some v2 }) convPure v data.names) ∧
    AllNone (fun c => c.hunger_clock) (loadComp (fun c v2 => { c with name := some v2 }) convPure v data.names) ∧
    AllNone (fun c => c.provides_food) (loadComp (fun c v2 => { c with name := some v2 }) convPure v data.names) := by
  obtain ⟨hI2, hle2, hfr2, hklx⟩ := loadComp_struct (fun c v2 => { c with name := some v2 }) convPure A (fun _ => True)
    (fun c a => rfl) (convOK_pure A) data.names _ hI (fun p hp => ⟨hA p hp, trivial⟩)
  have hfvk := loadComp_est (fun c v2 => { c with name := some v2 }) (fun c => c.name) convPure A (fun _ => True)
    (RPure id) (convOK_pure A) (fun v2 b hIv hAb => rfl)
    (fun va vb a b hle h => h) (fun c a => rfl) (fun c a => rfl) (fun m => rfl)
    data.names _ hI hkeys (fun p hp => ⟨hA p hp, trivial⟩) hN6
  obtain ⟨hoF1, hnF1⟩ := loadComp_obs (fun c v2 => { c with name := some v2 }) convPure (fun c => c.position) A (fun _ => True)
    (fun c a => rfl) (convOK_pure A) (fun c a => rfl) (fun m => rfl) data.names _ hI (fun p hp => ⟨hA p hp, trivial⟩)
  have hfv1b := FieldVals_mono (fun c => c.position) (RPure id) data.positions hle2
    (fun a b h => h)
    (fun e he hn => let ⟨m, h1, h2, _⟩ := hfr2 e he hn; ⟨m, h1, h2⟩)
    hoF1 hnF1 hkl1 hfv1
  have hkl1b := KeysLive_mono hle2 hkl1
  obtain ⟨hoF2, hnF2⟩ := loadComp_obs (fun c v2 => { c with name := some v2 }) convPure (fun c => c.renderable) A (fun _ => True)
    (fun c a => rfl) (convOK_pure A) (fun c a => rfl) (fun m => rfl) data.names _ hI (fun p hp => ⟨hA p hp, trivial⟩)
  have hfv2b := FieldVals_mono (fun c => c.renderable) (RPure id) data.renderables hle2
    (fun a b h => h)
    (fun e he hn => let ⟨m, h1, h2, _⟩ := hfr2 e he hn; ⟨m, h1, h2⟩)
    hoF2 hnF2 hkl2 hfv2
  have hkl2b := KeysLive_mono hle2 hkl2
  obtain ⟨hoF3, hnF3⟩ := loadComp_obs (fun c v2 => { c with name := some v2 }) convPure (fun c => c.player) A (fun _ => True)
    (fun c a => rfl) (convOK_pure A) (fun c a => rfl) (fun m => rfl) data.names _ hI (fun p hp => ⟨hA p hp, trivial⟩)
  have hfv3b := FieldVals_mono (fun c => c.player) (RPure id) data.players hle2
    (fun a b h => h)
    (fun e he hn => let ⟨m, h1, h2, _⟩ := hfr2 e he hn; ⟨m, h1, h2⟩)
    hoF3 hnF3 hkl3 hfv3
  have hkl3b := KeysLive_mono hle2 hkl3
  obtain ⟨hoF4, hnF4⟩ := loadComp_obs (fun c v2 => { c with name := some v2 }) convPure (fun c => c.viewshed) A (fun _ => True)
    (fun c a => rfl) (convOK_pure A) (fun c a => rfl) (fun m => rfl) data.names _ hI (fun p hp => ⟨hA p hp, trivial⟩)
  have hfv4b := FieldVals_mono (fun c => c.viewshed) (RPure id) data.viewsheds hle2
    (fun a b h => h)
    (fun e he hn => let ⟨m, h1, h2, _⟩ := hfr2 e he hn; ⟨m, h1, h2⟩)
    hoF4 hnF4 hkl4 hfv4
  have hkl4b := KeysLive_mono hle2 hkl4
  obtain ⟨hoF5, hnF5⟩ := loadComp_obs (fun c v2 => { c with name := some v2 }) convPure (fun c => c.monster) A (fun _ => True)
    (fun c a => rfl) (convOK_pure A) (fun c a => rfl) (fun m => rfl) data.names _ hI (fun p hp => ⟨hA p hp, trivial⟩)
  have hfv5b := FieldVals_mono (fun c => c.monster) (RPure id) data.monsters hle2
    (fun a b h => h)
    (fun e he hn => let ⟨m, h1, h2, _⟩ := hfr2 e he hn; ⟨m, h1, h2⟩)
    hoF5 hnF5 hkl5 hfv5
  have hkl5b := KeysLive_mono hle2 hkl5
  obtain ⟨hoF7, hnF7⟩ := loadComp_obs (fun c v2 => { c with name := some v2 }) convPure (fun c => c.blocks_tile) A (fun _ => True)
    (fun c a => rfl) (convOK_pure A) (fun c a => rfl) (fun m => rfl) data.names _ hI (fun p hp => ⟨hA p hp, trivial⟩)
  have hN7b := AllNone_mono (fun c => c.blocks_tile) _ _ hoF7 hnF7 hN7
  obtain ⟨hoF8, hnF8⟩ := loadComp_obs (fun c v2 => { c with name := some v2 }) convPure (fun c => c.combat_stats) A (fun _ => True)
    (fun c a => rfl) (convOK_pure A) (fun c a => rfl) (fun m => rfl) data.names _ hI (fun p hp => ⟨hA p hp, trivial⟩)
  have hN8b := AllNone_mono (fun c => c.combat_stats) _ _ hoF8 hnF8 hN8
  obtain ⟨hoF9, hnF9⟩ := loadComp_obs (fun c v2 => { c with name := some v2 }) convPure (fun c => c.suffer_damage) A (fun _ => True)
    (fun c a => rfl) (convOK_pure A) (fun c a => rfl) (fun m => rfl) data.names _ hI (fun p hp => ⟨hA p hp, trivial⟩)
  have hN9b := AllNone_mono (fun c => c.suffer_damage) _ _ hoF9 hnF9 hN9
  obtain ⟨hoF10, hnF10⟩ := loadComp_obs (fun c v2 => { c with name := some v2 }) convPure (fun c => c.wants_melee) A (fun _ => True)
    (fun c a => rfl) (convOK_pure A) (fun c a => rfl) (fun m => rfl) data.names _ hI (fun p hp => ⟨hA p hp, trivial⟩)
  have hN10b := AllNone_mono (fun c => c.wants_melee) _ _ hoF10 hnF10 hN10
  obtain ⟨hoF11, hnF11⟩ := loadComp_obs (fun c v2 => { c with name := some v2 }) convPure (fun c => c.item) A (fun _ => True)
    (fun c a => rfl) (convOK_pure A) (fun c a => rfl) (fun m => rfl) data.names _ hI (fun p hp => ⟨hA p hp, trivial⟩)
  have hN11b := AllNone_mono (fun c => c.item) _ _ hoF11 hnF11 hN11
  obtain ⟨hoF12, hnF12⟩ := loadComp_obs (fun c v2 => { c with name := some v2 }) convPure (fun c => c.consumable) A (fun _ => True)
    (fun c a => rfl) (convOK_pure A) (fun c a => rfl) (fun m => rfl) data.names _ hI (fun p hp => ⟨hA p hp, trivial⟩)
  have hN12b := AllNone_mono (fun c => c.consumable) _ _ hoF12 hnF12 hN12
  obtain ⟨hoF13, hnF13⟩ := loadComp_obs (fun c v2 => { c with name := some v2 }) convPure (fun c => c.ranged) A (fun _ => True)
    (fun c a => rfl) (convOK_pure A) (fun c a => rfl) (fun m => rfl) data.names _ hI (fun p hp => ⟨hA p hp, trivial⟩)
  have hN13b := AllNone_mono (fun c => c.ranged) _ _ hoF13 hnF13 hN13
  obtain ⟨hoF14, hnF14⟩ := loadComp_obs (fun c v2 => { c with name := some v2 }) convPure (fun c => c.inflicts_damage) A (fun _ => True)
    (fun c a => rfl) (convOK_pure A) (fun c a => rfl) (fun m => rfl) data.names _ hI (fun p hp => ⟨hA p hp, trivial⟩)
  have hN14b := AllNone_mono (fun c => c.inflicts_damage) _ _ hoF14 hnF14 hN14
  obtain ⟨hoF15, hnF15⟩ := loadComp_obs (fun c v2 => { c with name := some v2 }) convPure (fun c => c.area_of_effect) A (fun _ => True)
    (fun c a => rfl) (convOK_pure A) (fun c a => rfl) (fun m => rfl) data.names _ hI (fun p hp => ⟨hA p hp, trivial⟩)
  have hN15b := AllNone_mono (fun c => c.area_of_effect) _ _ hoF15 hnF15 hN15
  obtain ⟨hoF16, hnF16⟩ := loadComp_obs (fun c v2 => { c with name := some v2 }) convPure (fun c => c.confusion) A (fun _ => True)
    (fun c a => rfl) (convOK_pure A) (fun c a => rfl) (fun m => rfl) data.names _ hI (fun p hp => ⟨hA p hp, trivial⟩)
  have hN16b := AllNone_mono (fun c => c.confusion) _ _ hoF16 hnF16 hN16
  obtain ⟨hoF17, hnF17⟩ := loadComp_obs (fun c v2 => { c with name := some v2 }) convPure (fun c => c.provides_healing) A (fun _ => True)
    (fun c a => rfl) (convOK_pure A) (fun c a => rfl) (fun m => rfl) data.names _ hI (fun p hp => ⟨hA p hp, trivial⟩)
  have hN17b := AllNone_mono (fun c => c.provides_healing) _ _ hoF17 hnF17 hN17
  obtain ⟨hoF18, hnF18⟩ := loadComp_obs (fun c v2 => { c with name := some v2 }) convPure (fun c => c.in_backpack) A (fun _ => True)
    (fun c a => rfl) (convOK_pure A) (fun c a => rfl) (fun m => rfl) data.names _ hI (fun p hp => ⟨hA p hp, trivial⟩)
  have hN18b := AllNone_mono (fun c => c.in_backpack) _ _ hoF18 hnF18 hN18
  obtain ⟨hoF19, hnF19⟩ := loadComp_obs (fun c v2 => { c with name := some v2 }) convPure (fun c => c.wants_to_pickup) A (fun _ => True)
    (fun c a => rfl) (convOK_pure A) (fun c a => rfl) (fun m => rfl) data.names _ hI (fun p hp => ⟨hA p hp, trivial⟩)
  have hN19b := AllNone_mono (fun c => c.wants_to_pickup) _ _ hoF19 hnF19 hN19
  obtain ⟨hoF20, hnF20⟩ := loadComp_obs (fun c v2 => { c with name := some v2 }) convPure (fun c => c.wants_to_use) A (fun _ => True)
    (fun c a => rfl) (convOK_pure A) (fun c a => rfl) (fun m => rfl) data.names _ hI (fun p hp => ⟨hA p hp, trivial⟩)
  have hN20b := AllNone_mono (fun c => c.wants_to_use) _ _ hoF20 hnF20 hN20
  obtain ⟨hoF21, hnF21⟩ := loadComp_obs (fun c v2 => { c with name := some v2 }) convPure (fun c => c.wants_to_drop) A (fun _ => True)
    (fun c a => rfl) (convOK_pure A) (fun c a => rfl) (fun m => rfl) data.names _ hI (fun p hp => ⟨hA p hp, trivial⟩)
  have hN21b := AllNone_mono (fun c => c.wants_to_drop) _ _ hoF21 hnF21 hN21
  obtain ⟨hoF22, hnF22⟩ := loadComp_obs (fun c v2 => { c with name := some v2 }) convPure (fun c => c.serialization_helper) A (fun _ => True)
    (fun c a => rfl) (convOK_pure A) (fun c a => rfl) (fun m => rfl) data.names _ hI (fun p hp => ⟨hA p hp, trivial⟩)
  have hN22b := AllNone_mono (fun c => c.serialization_helper) _ _ hoF22 hnF22 hN22
  obtain ⟨hoF23, hnF23⟩ := loadComp_obs (fun c v2 => { c with name := some v2 }) convPure (fun c => c.equippable) A (fun _ => True)
    (fun c a => rfl) (convOK_pure A) (fun c a => rfl) (fun m => rfl) data.names _ hI (fun p hp => ⟨hA p hp, trivial⟩)
  have hN23b := AllNone_mono (fun c => c.equippable) _ _ hoF23 hnF23 hN23
  obtain ⟨hoF24, hnF24⟩ := loadComp_obs (fun c v2 => { c with name := some v2 }) convPure (fun c => c.equipped) A (fun _ => True)
    (fun c a => rfl) (convOK_pure A) (fun c a => rfl) (fun m => rfl) data.names _ hI (fun p hp => ⟨hA p hp, trivial⟩)
  have hN24b := AllNone_mono (fun c => c.equipped) _ _ hoF24 hnF24 hN24
  obtain ⟨hoF25, hnF25⟩ := loadComp_obs (fun c v2 => { c with name := some v2 }) convPure (fun c => c.melee_power_bonus) A (fun _ => True)
    (fun c a => rfl) (convOK_pure A) (fun c a => rfl) (fun m => rfl) data.names _ hI (fun p hp => ⟨hA p hp, trivial⟩)
  have hN25b := AllNone_mono (fun c => c.melee_power_bonus) _ _ hoF25 hnF25 hN25
  obtain ⟨hoF26, hnF26⟩ := loadComp_obs (fun c v2 => { c with name := some v2 }) convPure (fun c => c.defense_bonus) A (fun _ => True)
    (fun c a => rfl) (convOK_pure A) (fun c a => rfl) (fun m => rfl) data.names _ hI (fun p hp => ⟨hA p hp, trivial⟩)
  have hN26b := AllNone_mono (fun c => c.defense_bonus) _ _ hoF26 hnF26 hN26
  obtain ⟨hoF27, hnF27⟩ := loadComp_obs (fun c v2 => { c with name := some v2 }) convPure (fun c => c.wants_to_remove) A (fun _ => True)
    (fun c a => rfl) (convOK_pure A) (fun c a => rfl) (fun m => rfl) data.names _ hI (fun p hp => ⟨hA p hp, trivial⟩)
  have hN27b := AllNone_mono (fun c => c.wants_to_remove) _ _ hoF27 hnF27 hN27
  obtain ⟨hoF28, hnF28⟩ := loadComp_obs (fun c v2 => { c with name := some v2 }) convPure (fun c => c.particle_lifetime) A (fun _ => True)
    (fun c a => rfl) (convOK_pure A) (fun c a => rfl) (fun m => rfl) data.names _ hI (fun p hp => ⟨hA p hp, trivial⟩)
  have hN28b := AllNone_mono (fun c => c.particle_lifetime) _ _ hoF28 hnF28 hN28
  obtain ⟨hoF29, hnF29⟩ := loadComp_obs (fun c v2 => { c with name := some v2 }) convPure (fun c => c.hunger_clock) A (fun _ => True)
    (fun c a => rfl) (convOK_pure A) (fun c a => rfl) (fun m => rfl) data.names _ hI (fun p hp => ⟨hA p hp, trivial⟩)
  have hN29b := AllNone_mono (fun c => c.hunger_clock) _ _ hoF29 hnF29 hN29
  obtain ⟨hoF30, hnF30⟩ := loadComp_obs (fun c v2 => { c with name := some v2 }) convPure (fun c => c.provides_food) A (fun _ => True)
    (fun c a => rfl) (convOK_pure A) (fun c a => rfl) (fun m => rfl) data.names _ hI (fun p hp => ⟨hA p hp, trivial⟩)
  have hN30b := AllNone_mono (fun c => c.provides_food) _ _ hoF30 hnF30 hN30
  have hMb := MarksIn_mono hle2 (fun e he hn => let ⟨m, h1, _, h3⟩ := hfr2 e he hn; ⟨m, h1, h3⟩) hM
  exact ⟨hI2, hMb, hkl1b, hfv1b, hkl2b, hfv2b, hkl3b, hfv3b, hkl4b, hfv4b, hkl5b, hfv5b, hklx, hfvk, hN7b, hN8b, hN9b, hN10b, hN11b, hN12b, hN13b, hN14b, hN15b, hN16b, hN17b, hN18b, hN19b, hN20b, hN21b, hN22b, hN23b, hN24b, hN25b, hN26b, hN27b, hN28b, hN29b, hN30b⟩

set_option maxHeartbeats 800000 in
/-- Deserialization pass 7 (blocks_tile): it establishes its own list facts
and preserves those of the earlier passes. -/
lemma loadStage7 (A : Nat → Prop) (data : SaveData) (v : World)
    (hI : LoadInv v)
    (hkeys : ((data.blocks_tile).map Prod.fst).Nodup)
    (hA : ∀ p ∈ data.blocks_tile, A p.1)
    (hM : MarksIn A v)
    (hkl1 : KeysLive data.positions v)
    (hfv1 : FieldVals (fun c => c.position) (RPure id) data.positions v)
    (hkl2 : KeysLive data.renderables v)
    (hfv2 : FieldVals (fun c => c.renderable) (RPure id) data.renderables v)
    (hkl3 : KeysLive data.players v)
    (hfv3 : FieldVals (fun c => c.player) (RPure id) data.players v)
    (hkl4 : KeysLive data.viewsheds v)
    (hfv4 : FieldVals (fun c => c.viewshed) (RPure id) data.viewsheds v)
    (hkl5 : KeysLive data.monsters v)
    (hfv5 : FieldVals (fun c => c.monster) (RPure id) data.monsters v)
    (hkl6 : KeysLive data.names v)
    (hfv6 : FieldVals (fun c => c.name) (RPure id) data.names v)
    (hN7 : AllNone (fun c => c.blocks_tile) v)
    (hN8 : AllNone (fun c => c.combat_stats) v)
    (hN9 : AllNone (fun c => c.suffer_damage) v)
    (hN10 : AllNone (fun c => c.wants_melee) v)
    (hN11 : AllNone (fun c => c.item) v)
    (hN12 : AllNone (fun c => c.consumable) v)
    (hN13 : AllNone (fun c => c.ranged) v)
    (hN14 : AllNone (fun c => c.inflicts_damage) v)
    (hN15 : AllNone (fun c => c.area_of_effect) v)
    (hN16 : AllNone (fun c => c.confusion) v)
    (hN17 : AllNone (fun c => c.provides_healing) v)
    (hN18 : AllNone (fun c => c.in_backpack) v)
    (hN19 : AllNone (fun c => c.wants_to_pickup) v)
    (hN20 : AllNone (fun c => c.wants_to_use) v)
    (hN21 : AllNone (fun c => c.wants_to_drop) v)
    (hN22 : AllNone (fun c => c.serialization_helper) v)
    (hN23 : AllNone (fun c => c.equippable) v)
    (hN24 : AllNone (fun c => c.equipped) v)
    (hN25 : AllNone (fun c => c.melee_power_bonus) v)
    (hN26 : AllNone (fun c => c.defense_bonus) v)
    (hN27 : AllNone (fun c => c.wants_to_remove) v)
    (hN28 : AllNone (fun c => c.particle_lifetime) v)
    (hN29 : AllNone (fun c => c.hunger_clock) v)
    (hN30 : AllNone (fun c => c.provides_food) v)
    :
    LoadInv (loadComp (fun c v2 => { c with blocks_tile := some v2 }) convPure v data.blocks_tile) ∧
    MarksIn A (loadComp (fun c v2 => { c with blocks_tile := some v2 }) convPure v data.blocks_tile) ∧
    KeysLive data.positions (loadComp (fun c v2 => { c with blocks_tile := some v2 }) convPure v data.blocks_tile) ∧
    FieldVals (fun c => c.position) (RPure id) data.positions (loadComp (fun c v2 => { c with blocks_tile := some v2 }) convPure v data.blocks_tile) ∧
    KeysLive data.renderables (loadComp (fun c v2 => { c with blocks_tile := some v2 }) convPure v data.blocks_tile) ∧
    FieldVals (fun c => c.renderable) (RPure id) data.renderables (loadComp (fun c v2 => { c with blocks_tile := some v2 }) convPure v data.blocks_tile) ∧
    KeysLive data.players (loadComp (fun c v2 => { c with blocks_tile := some v2 }) convPure v data.blocks_tile) ∧
    FieldVals (fun c => c.player) (RPure id) data.players (loadComp (fun c v2 => { c with blocks_tile := some v2 }) convPure v data.blocks_tile) ∧
    KeysLive data.viewsheds (loadComp (fun c v2 => { c with blocks_tile := some v2 }) convPure v data.blocks_tile) ∧
    FieldVals (fun c => c.viewshed) (RPure id) data.viewsheds (loadComp (fun c v2 => { c with blocks_tile := some v2 }) convPure v data.blocks_tile) ∧
    KeysLive data.monsters (loadComp (fun c v2 => { c with blocks_tile := some v2 }) convPure v data.blocks_tile) ∧
    FieldVals (fun c => c.monster) (RPure id) data.monsters (loadComp (fun c v2 => { c with blocks_tile := some v2 }) convPure v data.blocks_tile) ∧
    KeysLive data.names (loadComp (fun c v2 => { c with blocks_tile := some v2 }) convPure v data.blocks_tile) ∧
    FieldVals (fun c => c.name) (RPure id) data.names (loadComp (fun c v2 => { c with blocks_tile := some v2 }) convPure v data.blocks_tile) ∧
    KeysLive data.blocks_tile (loadComp (fun c v2 => { c with blocks_tile := some v2 }) convPure v data.blocks_tile) ∧
    FieldVals (fun c => c.blocks_tile) (RPure id) data.blocks_tile (loadComp (fun c v2 => { c with blocks_tile := some v2 }) convPure v data.blocks_tile) ∧
    AllNone (fun c => c.combat_stats) (loadComp (fun c v2 => { c with blocks_tile := some v2 }) convPure v data.blocks_tile) ∧
    AllNone (fun c => c.suffer_damage) (loadComp (fun c v2 => { c with blocks_tile := some v2 }) convPure v data.blocks_tile) ∧
    AllNone (fun c => c.wants_melee) (loadComp (fun c v2 => { c with blocks_tile := some v2 }) convPure v data.blocks_tile) ∧
    AllNone (fun c => c.item) (loadComp (fun c v2 => { c with blocks_tile := some v2 }) convPure v data.blocks_tile) ∧
    AllNone (fun c => c.consumable) (loadComp (fun c v2 => { c with blocks_tile := some v2 }) convPure v data.blocks_tile) ∧
    AllNone (fun c => c.ranged) (loadComp (fun c v2 => { c with blocks_tile := some v2 }) convPure v data.blocks_tile) ∧
    AllNone (fun c => c.inflicts_damage) (loadComp (fun c v2 => { c with blocks_tile := some v2 }) convPure v data.blocks_tile) ∧
    AllNone (fun c => c.area_of_effect) (loadComp (fun c v2 => { c with blocks_tile := some v2 }) convPure v data.blocks_tile) ∧
    AllNone (fun c => c.confusion) (loadComp (fun c v2 => { c with blocks_tile := some v2 }) convPure v data.blocks_tile) ∧
    AllNone (fun c => c.provides_healing) (loadComp (fun c v2 => { c with blocks_tile := some v2 }) convPure v data.blocks_tile) ∧
    AllNone (fun c => c.in_backpack) (loadComp (fun c v2 => { c with blocks_tile := some v2 }) convPure v data.blocks_tile) ∧
    AllNone (fun c => c.wants_to_pickup) (loadComp (fun c v2 => { c with blocks_tile := some v2 }) convPure v data.blocks_tile) ∧
    AllNone (fun c => c.wants_to_use) (loadComp (fun c v2 => { c with blocks_tile := some v2 }) convPure v data.blocks_tile) ∧
    AllNone (fun c => c.wants_to_drop) (loadComp (fun c v2 => { c with blocks_tile := some v2 }) convPure v data.blocks_tile) ∧
    AllNone (fun c => c.serialization_helper) (loadComp (fun c v2 => { c with blocks_tile := some v2 }) convPure v data.blocks_tile) ∧
    AllNone (fun c => c.equippable) (loadComp (fun c v2 => { c with blocks_tile := some v2 }) convPure v data.blocks_tile) ∧
    AllNone (fun c => c.equipped) (loadComp (fun c v2 => { c with blocks_tile := some v2 }) convPure v data.blocks_tile) ∧
    AllNone (fun c => c.melee_power_bonus) (loadComp (fun c v2 => { c with blocks_tile := some v2 }) convPure v data.blocks_tile) ∧
    AllNone (fun c => c.defense_bonus) (loadComp (fun c v2 => { c with blocks_tile := some v2 }) convPure v data.blocks_tile) ∧
    AllNone (fun c => c.wants_to_remove) (loadComp (fun c v2 => { c with blocks_tile := some v2 }) convPure v data.blocks_tile) ∧
    AllNone (fun c => c.particle_lifetime) (loadComp (fun c v2 => { c with blocks_tile := some v2 }) convPure v data.blocks_tile) ∧
    AllNone (fun c => c.hunger_clock) (loadComp (fun c v2 => { c with blocks_tile := some v2 }) convPure v data.blocks_tile) ∧
    AllNone (fun c => c.provides_food) (loadComp (fun c v2 => { c with blocks_tile := some v2 }) convPure v data.blocks_tile) := by
  obtain ⟨hI2, hle2, hfr2, hklx⟩ := loadComp_struct (fun c v2 => { c with blocks_tile := some v2 }) convPure A (fun _ => True)
    (fun c a => rfl) (convOK_pure A) data.blocks_tile _ hI (fun p hp => ⟨hA p hp, trivial⟩)
  have hfvk := loadComp_est (fun c v2 => { c with blocks_tile := some v2 }) (fun c => c.blocks_tile) convPure A (fun _ => True)
    (RPure id) (convOK_pure A) (fun v2 b hIv hAb => rfl)
    (fun va vb a b hle h => h) (fun c a => rfl) (fun c a => rfl) (fun m => rfl)
    data.blocks_tile _ hI hkeys (fun p hp => ⟨hA p hp, trivial⟩) hN7
  obtain ⟨hoF1, hnF1⟩ := loadComp_obs (fun c v2 => { c with blocks_tile := some v2 }) convPure (fun c => c.position) A (fun _ => True)
    (fun c a => rfl) (convOK_pure A) (fun c a => rfl) (fun m => rfl) data.blocks_tile _ hI (fun p hp => ⟨hA p hp, trivial⟩)
  have hfv1b := FieldVals_mono (fun c => c.position) (RPure id) data.positions hle2
    (fun a b h => h)
    (fun e he hn => let ⟨m, h1, h2, _⟩ := hfr2 e he hn; ⟨m, h1, h2⟩)
    hoF1 hnF1 hkl1 hfv1
  have hkl1b := KeysLive_mono hle2 hkl1
  obtain ⟨hoF2, hnF2⟩ := loadComp_obs (fun c v2 => { c with blocks_tile := some v2 }) convPure (fun c => c.renderable) A (fun _ => True)
    (fun c a => rfl) (convOK_pure A) (fun c a => rfl) (fun m => rfl) data.blocks_tile _ hI (fun p hp => ⟨hA p hp, trivial⟩)
  have hfv2b := FieldVals_mono (fun c => c.renderable) (RPure id) data.renderables hle2
    (fun a b h => h)
    (fun e he hn => let ⟨m, h1, h2, _⟩ := hfr2 e he hn; ⟨m, h1, h2⟩)
    hoF2 hnF2 hkl2 hfv2
  have hkl2b := KeysLive_mono hle2 hkl2
  obtain ⟨hoF3, hnF3⟩ := loadComp_obs (fun c v2 => { c with blocks_tile := some v2 }) convPure (fun c => c.player) A (fun _ => True)
    (fun c a => rfl) (convOK_pure A) (fun c a => rfl) (fun m => rfl) data.blocks_tile _ hI (fun p hp => ⟨hA p hp, trivial⟩)
  have hfv3b := FieldVals_mono (fun c => c.player) (RPure id) data.players hle2
    (fun a b h => h)
    (fun e he hn => let ⟨m, h1, h2, _⟩ := hfr2 e he hn; ⟨m, h1, h2⟩)
    hoF3 hnF3 hkl3 hfv3
  have hkl3b := KeysLive_mono hle2 hkl3
  obtain ⟨hoF4, hnF4⟩ := loadComp_obs (fun c v2 => { c with blocks_tile := some v2 }) convPure (fun c => c.viewshed) A (fun _ => True)
    (fun c a => rfl) (convOK_pure A) (fun c a => rfl) (fun m => rfl) data.blocks_tile _ hI (fun p hp => ⟨hA p hp, trivial⟩)
  have hfv4b := FieldVals_mono (fun c => c.viewshed) (RPure id) data.viewsheds hle2
    (fun a b h => h)
    (fun e he hn => let ⟨m, h1, h2, _⟩ := hfr2 e he hn; ⟨m, h1, h2⟩)
    hoF4 hnF4 hkl4 hfv4
  have hkl4b := KeysLive_mono hle2 hkl4
  obtain ⟨hoF5, hnF5⟩ := loadComp_obs (fun c v2 => { c with blocks_tile := some v2 }) convPure (fun c => c.monster) A (fun _ => True)
    (fun c a => rfl) (convOK_pure A) (fun c a => rfl) (fun m => rfl) data.blocks_tile _ hI (fun p hp => ⟨hA p hp, trivial⟩)
  have hfv5b := FieldVals_mono (fun c => c.monster) (RPure id) data.monsters hle2
    (fun a b h => h)
    (fun e he hn => let ⟨m, h1, h2, _⟩ := hfr2 e he hn; ⟨m, h1, h2⟩)
    hoF5 hnF5 hkl5 hfv5
  have hkl5b := KeysLive_mono hle2 hkl5
  obtain ⟨hoF6, hnF6⟩ := loadComp_obs (fun c v2 => { c with blocks_tile := some v2 }) convPure (fun c => c.name) A (fun _ => True)
    (fun c a => rfl) (convOK_pure A) (fun c a => rfl) (fun m => rfl) data.blocks_tile _ hI (fun p hp => ⟨hA p hp, trivial⟩)
  have hfv6b := FieldVals_mono (fun c => c.name) (RPure id) data.names hle2
    (fun a b h => h)
    (fun e he hn => let ⟨m, h1, h2, _⟩ := hfr2 e he hn; ⟨m, h1, h2⟩)
    hoF6 hnF6 hkl6 hfv6
  have hkl6b := KeysLive_mono hle2 hkl6
  obtain ⟨hoF8, hnF8⟩ := loadComp_obs (fun c v2 => { c with blocks_tile := some v2 }) convPure (fun c => c.combat_stats) A (fun _ => True)
    (fun c a => rfl) (convOK_pure A) (fun c a => rfl) (fun m => rfl) data.blocks_tile _ hI (fun p hp => ⟨hA p hp, trivial⟩)
  have hN8b := AllNone_mono (fun c => c.combat_stats) _ _ hoF8 hnF8 hN8
  obtain ⟨hoF9, hnF9⟩ := loadComp_obs (fun c v2 => { c with blocks_tile := some v2 }) convPure (fun c => c.suffer_damage) A (fun _ => True)
    (fun c a => rfl) (convOK_pure A) (fun c a => rfl) (fun m => rfl) data.blocks_tile _ hI (fun p hp => ⟨hA p hp, trivial⟩)
  have hN9b := AllNone_mono (fun c => c.suffer_damage) _ _ hoF9 hnF9 hN9
  obtain ⟨hoF10, hnF10⟩ := loadComp_obs (fun c v2 => { c with blocks_tile := some v2 }) convPure (fun c => c.wants_melee) A (fun _ => True)
    (fun c a => rfl) (convOK_pure A) (fun c a => rfl) (fun m => rfl) data.blocks_tile _ hI (fun p hp => ⟨hA p hp, trivial⟩)
  have hN10b := AllNone_mono (fun c => c.wants_melee) _ _ hoF10 hnF10 hN10
  obtain ⟨hoF11, hnF11⟩ := loadComp_obs (fun c v2 => { c with blocks_tile := some v2 }) convPure (fun c => c.item) A (fun _ => True)
    (fun c a => rfl) (convOK_pure A) (fun c a => rfl) (fun m => rfl) data.blocks_tile _ hI (fun p hp => ⟨hA p hp, trivial⟩)
  have hN11b := AllNone_mono (fun c => c.item) _ _ hoF11 hnF11 hN11
  obtain ⟨hoF12, hnF12⟩ := loadComp_obs (fun c v2 => { c with blocks_tile := some v2 }) convPure (fun c => c.consumable) A (fun _ => True)
    (fun c a => rfl) (convOK_pure A) (fun c a => rfl) (fun m => rfl) data.blocks_tile _ hI (fun p hp => ⟨hA p hp, trivial⟩)
  have hN12b := AllNone_mono (fun c => c.consumable) _ _ hoF12 hnF12 hN12
  obtain ⟨hoF13, hnF13⟩ := loadComp_obs (fun c v2 => { c with blocks_tile := some v2 }) convPure (fun c => c.ranged) A (fun _ => True)
    (fun c a => rfl) (convOK_pure A) (fun c a => rfl) (fun m => rfl) data.blocks_tile _ hI (fun p hp => ⟨hA p hp, trivial⟩)
  have hN13b := AllNone_mono (fun c => c.ranged) _ _ hoF13 hnF13 hN13
  obtain ⟨hoF14, hnF14⟩ := loadComp_obs (fun c v2 => { c with blocks_tile := some v2 }) convPure (fun c => c.inflicts_damage) A (fun _ => True)
    (fun c a => rfl) (convOK_pure A) (fun c a => rfl) (fun m => rfl) data.blocks_tile _ hI (fun p hp => ⟨hA p hp, trivial⟩)
  have hN14b := AllNone_mono (fun c => c.inflicts_damage) _ _ hoF14 hnF14 hN14
  obtain ⟨hoF15, hnF15⟩ := loadComp_obs (fun c v2 => { c with blocks_tile := some v2 }) convPure (fun c => c.area_of_effect) A (fun _ => True)
    (fun c a => rfl) (convOK_pure A) (fun c a => rfl) (fun m => rfl) data.blocks_tile _ hI (fun p hp => ⟨hA p hp, trivial⟩)
  have hN15b := AllNone_mono (fun c => c.area_of_effect) _ _ hoF15 hnF15 hN15
  obtain ⟨hoF16, hnF16⟩ := loadComp_obs (fun c v2 => { c with blocks_tile := some v2 }) convPure (fun c => c.confusion) A (fun _ => True)
    (fun c a => rfl) (convOK_pure A) (fun c a => rfl) (fun m => rfl) data.blocks_tile _ hI (fun p hp => ⟨hA p hp, trivial⟩)
  have hN16b := AllNone_mono (fun c => c.confusion) _ _ hoF16 hnF16 hN16
  obtain ⟨hoF17, hnF17⟩ := loadComp_obs (fun c v2 => { c with blocks_tile := some v2 }) convPure (fun c => c.provides_healing) A (fun _ => True)
    (fun c a => rfl) (convOK_pure A) (fun c a => rfl) (fun m => rfl) data.blocks_tile _ hI (fun p hp => ⟨hA p hp, trivial⟩)
  have hN17b := AllNone_mono (fun c => c.provides_healing) _ _ hoF17 hnF17 hN17
  obtain ⟨hoF18, hnF18⟩ := loadComp_obs (fun c v2 => { c with blocks_tile := some v2 }) convPure (fun c => c.in_backpack) A (fun _ => True)
    (fun c a => rfl) (convOK_pure A) (fun c a => rfl) (fun m => rfl) data.blocks_tile _ hI (fun p hp => ⟨hA p hp, trivial⟩)
  have hN18b := AllNone_mono (fun c => c.in_backpack) _ _ hoF18 hnF18 hN18
  obtain ⟨hoF19, hnF19⟩ := loadComp_obs (fun c v2 => { c with blocks_tile := some v2 }) convPure (fun c => c.wants_to_pickup) A (fun _ => True)
    (fun c a => rfl) (convOK_pure A) (fun c a => rfl) (fun m => rfl) data.blocks_tile _ hI (fun p hp => ⟨hA p hp, trivial⟩)
  have hN19b := AllNone_mono (fun c => c.wants_to_pickup) _ _ hoF19 hnF19 hN19
  obtain ⟨hoF20, hnF20⟩ := loadComp_obs (fun c v2 => { c with blocks_tile := some v2 }) convPure (fun c => c.wants_to_use) A (fun _ => True)
    (fun c a => rfl) (convOK_pure A) (fun c a => rfl) (fun m => rfl) data.blocks_tile _ hI (fun p hp => ⟨hA p hp, trivial⟩)
  have hN20b := AllNone_mono (fun c => c.wants_to_use) _ _ hoF20 hnF20 hN20
  obtain ⟨hoF21, hnF21⟩ := loadComp_obs (fun c v2 => { c with blocks_tile := some v2 }) convPure (fun c => c.wants_to_drop) A (fun _ => True)
    (fun c a => rfl) (convOK_pure A) (fun c a => rfl) (fun m => rfl) data.blocks_tile _ hI (fun p hp => ⟨hA p hp, trivial⟩)
  have hN21b := AllNone_mono (fun c => c.wants_to_drop) _ _ hoF21 hnF21 hN21
  obtain ⟨hoF22, hnF22⟩ := loadComp_obs (fun c v2 => { c with blocks_tile := some v2 }) convPure (fun c => c.serialization_helper) A (fun _ => True)
    (fun c a => rfl) (convOK_pure A) (fun c a => rfl) (fun m => rfl) data.blocks_tile _ hI (fun p hp => ⟨hA p hp, trivial⟩)
  have hN22b := AllNone_mono (fun c => c.serialization_helper) _ _ hoF22 hnF22 hN22
  obtain ⟨hoF23, hnF23⟩ := loadComp_obs (fun c v2 => { c with blocks_tile := some v2 }) convPure (fun c => c.equippable) A (fun _ => True)
    (fun c a => rfl) (convOK_pure A) (fun c a => rfl) (fun m => rfl) data.blocks_tile _ hI (fun p hp => ⟨hA p hp, trivial⟩)
  have hN23b := AllNone_mono (fun c => c.equippable) _ _ hoF23 hnF23 hN23
  obtain ⟨hoF24, hnF24⟩ := loadComp_obs (fun c v2 => { c with blocks_tile := some v2 }) convPure (fun c => c.equipped) A (fun _ => True)
    (fun c a => rfl) (convOK_pure A) (fun c a => rfl) (fun m => rfl) data.blocks_tile _ hI (fun p hp => ⟨hA p hp, trivial⟩)
  have hN24b := AllNone_mono (fun c => c.equipped) _ _ hoF24 hnF24 hN24
  obtain ⟨hoF25, hnF25⟩ := loadComp_obs (fun c v2 => { c with blocks_tile := some v2 }) convPure (fun c => c.melee_power_bonus) A (fun _ => True)
    (fun c a => rfl) (convOK_pure A) (fun c a => rfl) (fun m => rfl) data.blocks_tile _ hI (fun p hp => ⟨hA p hp, trivial⟩)
  have hN25b := AllNone_mono (fun c => c.melee_power_bonus) _ _ hoF25 hnF25 hN25
  obtain ⟨hoF26, hnF26⟩ := loadComp_obs (fun c v2 => { c with blocks_tile := some v2 }) convPure (fun c => c.defense_bonus) A (fun _ => True)
    (fun c a => rfl) (convOK_pure A) (fun c a => rfl) (fun m => rfl) data.blocks_tile _ hI (fun p hp => ⟨hA p hp, trivial⟩)
  have hN26b := AllNone_mono (fun c => c.defense_bonus) _ _ hoF26 hnF26 hN26
  obtain ⟨hoF27, hnF27⟩ := loadComp_obs (fun c v2 => { c with blocks_tile := some v2 }) convPure (fun c => c.wants_to_remove) A (fun _ => True)
    (fun c a => rfl) (convOK_pure A) (fun c a => rfl) (fun m => rfl) data.blocks_tile _ hI (fun p hp => ⟨hA p hp, trivial⟩)
  have hN27b := AllNone_mono (fun c => c.wants_to_remove) _ _ hoF27 hnF27 hN27
  obtain ⟨hoF28, hnF28⟩ := loadComp_obs (fun c v2 => { c with blocks_tile := some v2 }) convPure (fun c => c.particle_lifetime) A (fun _ => True)
    (fun c a => rfl) (convOK_pure A) (fun c a => rfl) (fun m => rfl) data.blocks_tile _ hI (fun p hp => ⟨hA p hp, trivial⟩)
  have hN28b := AllNone_mono (fun c => c.particle_lifetime) _ _ hoF28 hnF28 hN28
  obtain ⟨hoF29, hnF29⟩ := loadComp_obs (fun c v2 => { c with blocks_tile := some v2 }) convPure (fun c => c.hunger_clock) A (fun _ => True)
    (fun c a => rfl) (convOK_pure A) (fun c a => rfl) (fun m => rfl) data.blocks_tile _ hI (fun p hp => ⟨hA p hp, trivial⟩)
  have hN29b := AllNone_mono (fun c => c.hunger_clock) _ _ hoF29 hnF29 hN29
  obtain ⟨hoF30, hnF30⟩ := loadComp_obs (fun c v2 => { c with blocks_tile := some v2 }) convPure (fun c => c.provides_food) A (fun _ => True)
    (fun c a => rfl) (convOK_pure A) (fun c a => rfl) (fun m => rfl) data.blocks_tile _ hI (fun p hp => ⟨hA p hp, trivial⟩)
  have hN30b := AllNone_mono (fun c => c.provides_food) _ _ hoF30 hnF30 hN30
  have hMb := MarksIn_mono hle2 (fun e he hn => let ⟨m, h1, _, h3⟩ := hfr2 e he hn; ⟨m, h1, h3⟩) hM
  exact ⟨hI2, hMb, hkl1b, hfv1b, hkl2b, hfv2b, hkl3b, hfv3b, hkl4b, hfv4b, hkl5b, hfv5b, hkl6b, hfv6b, hklx, hfvk, hN8b, hN9b, hN10b, hN11b, hN12b, hN13b, hN14b, hN15b, hN16b, hN17b, hN18b, hN19b, hN20b, hN21b, hN22b, hN23b, hN24b, hN25b, hN26b, hN27b, hN28b, hN29b, hN30b⟩

set_option maxHeartbeats 800000 in
/-- Deserialization pass 8 (combat_stats): it establishes its own list facts
and preserves those of the earlier passes. -/
lemma loadStage8 (A : Nat → Prop) (data : SaveData) (v : World)
    (hI : LoadInv v)
    (hkeys : ((data.combat_stats).map Prod.fst).Nodup)
    (hA : ∀ p ∈ data.combat_stats, A p.1)
    (hM : MarksIn A v)
    (hkl1 : KeysLive data.positions v)
    (hfv1 : FieldVals (fun c => c.position) (RPure id) data.positions v)
    (hkl2 : KeysLive data.renderables v)
    (hfv2 : FieldVals (fun c => c.renderable) (RPure id) data.renderables v)
    (hkl3 : KeysLive data.players v)
    (hfv3 : FieldVals (fun c => c.player) (RPure id) data.players v)
    (hkl4 : KeysLive data.viewsheds v)
    (hfv4 : FieldVals (fun c => c.viewshed) (RPure id) data.viewsheds v)
    (hkl5 : KeysLive data.monsters v)
    (hfv5 : FieldVals (fun c => c.monster) (RPure id) data.monsters v)
    (hkl6 : KeysLive data.names v)
    (hfv6 : FieldVals (fun c => c.name) (RPure id) data.names v)
    (hkl7 : KeysLive data.blocks_tile v)
    (hfv7 : FieldVals (fun c => c.blocks_tile) (RPure id) data.blocks_tile v)
    (hN8 : AllNone (fun c => c.combat_stats) v)
    (hN9 : AllNone (fun c => c.suffer_damage) v)
    (hN10 : AllNone (fun c => c.wants_melee) v)
    (hN11 : AllNone (fun c => c.item) v)
    (hN12 : AllNone (fun c => c.consumable) v)
    (hN13 : AllNone (fun c => c.ranged) v)
    (hN14 : AllNone (fun c => c.inflicts_damage) v)
    (hN15 : AllNone (fun c => c.area_of_effect) v)
    (hN16 : AllNone (fun c => c.confusion) v)
    (hN17 : AllNone (fun c => c.provides_healing) v)
    (hN18 : AllNone (fun c => c.in_backpack) v)
    (hN19 : AllNone (fun c => c.wants_to_pickup) v)
    (hN20 : AllNone (fun c => c.wants_to_use) v)
    (hN21 : AllNone (fun c => c.wants_to_drop) v)
    (hN22 : AllNone (fun c => c.serialization_helper) v)
    (hN23 : AllNone (fun c => c.equippable) v)
    (hN24 : AllNone (fun c => c.equipped) v)
    (hN25 : AllNone (fun c => c.melee_power_bonus) v)
    (hN26 : AllNone (fun c => c.defense_bonus) v)
    (hN27 : AllNone (fun c => c.wants_to_remove) v)
    (hN28 : AllNone (fun c => c.particle_lifetime) v)
    (hN29 : AllNone (fun c => c.hunger_clock) v)
    (hN30 : AllNone (fun c => c.provides_food) v)
    :
    LoadInv (loadComp (fun c v2 => { c with combat_stats := some v2 }) convPure v data.combat_stats) ∧
    MarksIn A (loadComp (fun c v2 => { c with combat_stats := some v2 }) convPure v data.combat_stats) ∧
    KeysLive data.positions (loadComp (fun c v2 => { c with combat_stats := some v2 }) convPure v data.combat_stats) ∧
    FieldVals (fun c => c.position) (RPure id) data.positions (loadComp (fun c v2 => { c with combat_stats := some v2 }) convPure v data.combat_stats) ∧
    KeysLive data.renderables (loadComp (fun c v2 => { c with combat_stats := some v2 }) convPure v data.combat_stats) ∧
    FieldVals (fun c => c.renderable) (RPure id) data.renderables (loadComp (fun c v2 => { c with combat_stats := some v2 }) convPure v data.combat_stats) ∧
    KeysLive data.players (loadComp (fun c v2 => { c with combat_stats := some v2 }) convPure v data.combat_stats) ∧
    FieldVals (fun c => c.player) (RPure id) data.players (loadComp (fun c v2 => { c with combat_stats := some v2 }) convPure v data.combat_stats) ∧
    KeysLive data.viewsheds (loadComp (fun c v2 => { c with combat_stats := some v2 }) convPure v data.combat_stats) ∧
    FieldVals (fun c => c.viewshed) (RPure id) data.viewsheds (loadComp (fun c v2 => { c with combat_stats := some v2 }) convPure v data.combat_stats) ∧
    KeysLive data.monsters (loadComp (fun c v2 => { c with combat_stats := some v2 }) convPure v data.combat_stats) ∧
    FieldVals (fun c => c.monster) (RPure id) data.monsters (loadComp (fun c v2 => { c with combat_stats := some v2 }) convPure v data.combat_stats) ∧
    KeysLive data.names (loadComp (fun c v2 => { c with combat_stats := some v2 }) convPure v data.combat_stats) ∧
    FieldVals (fun c => c.name) (RPure id) data.names (loadComp (fun c v2 => { c with combat_stats := some v2 }) convPure v data.combat_stats) ∧
    KeysLive data.blocks_tile (loadComp (fun c v2 => { c with combat_stats := some v2 }) convPure v data.combat_stats) ∧
    FieldVals (fun c => c.blocks_tile) (RPure id) data.blocks_tile (loadComp (fun c v2 => { c with combat_stats := some v2 }) convPure v data.combat_stats) ∧
    KeysLive data.combat_stats (loadComp (fun c v2 => { c with combat_stats := some v2 }) convPure v data.combat_stats) ∧
    FieldVals (fun c => c.combat_stats) (RPure id) data.combat_stats (loadComp (fun c v2 => { c with combat_stats := some v2 }) convPure v data.combat_stats) ∧
    AllNone (fun c => c.suffer_damage) (loadComp (fun c v2 => { c with combat_stats := some v2 }) convPure v data.combat_stats) ∧
    AllNone (fun c => c.wants_melee) (loadComp (fun c v2 => { c with combat_stats := some v2 }) convPure v data.combat_stats) ∧
    AllNone (fun c => c.item) (loadComp (fun c v2 => { c with combat_stats := some v2 }) convPure v data.combat_stats) ∧
    AllNone (fun c => c.consumable) (loadComp (fun c v2 => { c with combat_stats := some v2 }) convPure v data.combat_stats) ∧
    AllNone (fun c => c.ranged) (loadComp (fun c v2 => { c with combat_stats := some v2 }) convPure v data.combat_stats) ∧
    AllNone (fun c => c.inflicts_damage) (loadComp (fun c v2 => { c with combat_stats := some v2 }) convPure v data.combat_stats) ∧
    AllNone (fun c => c.area_of_effect) (loadComp (fun c v2 => { c with combat_stats := some v2 }) convPure v data.combat_stats) ∧
    AllNone (fun c => c.confusion) (loadComp (fun c v2 => { c with combat_stats := some v2 }) convPure v data.combat_stats) ∧
    AllNone (fun c => c.provides_healing) (loadComp (fun c v2 => { c with combat_stats := some v2 }) convPure v data.combat_stats) ∧
    AllNone (fun c => c.in_backpack) (loadComp (fun c v2 => { c with combat_stats := some v2 }) convPure v data.combat_stats) ∧
    AllNone (fun c => c.wants_to_pickup) (loadComp (fun c v2 => { c with combat_stats := some v2 }) convPure v data.combat_stats) ∧
    AllNone (fun c => c.wants_to_use) (loadComp (fun c v2 => { c with combat_stats := some v2 }) convPure v data.combat_stats) ∧
    AllNone (fun c => c.wants_to_drop) (loadComp (fun c v2 => { c with combat_stats := some v2 }) convPure v data.combat_stats) ∧
    AllNone (fun c => c.serialization_helper) (loadComp (fun c v2 => { c with combat_stats := some v2 }) convPure v data.combat_stats) ∧
    AllNone (fun c => c.equippable) (loadComp (fun c v2 => { c with combat_stats := some v2 }) convPure v data.combat_stats) ∧
    AllNone (fun c => c.equipped) (loadComp (fun c v2 => { c with combat_stats := some v2 }) convPure v data.combat_stats) ∧
    AllNone (fun c => c.melee_power_bonus) (loadComp (fun c v2 => { c with combat_stats := some v2 }) convPure v data.combat_stats) ∧
    AllNone (fun c => c.defense_bonus) (loadComp (fun c v2 => { c with combat_stats := some v2 }) convPure v data.combat_stats) ∧
    AllNone (fun c => c.wants_to_remove) (loadComp (fun c v2 => { c with combat_stats := some v2 }) convPure v data.combat_stats) ∧
    AllNone (fun c => c.particle_lifetime) (loadComp (fun c v2 => { c with combat_stats := some v2 }) convPure v data.combat_stats) ∧
    AllNone (fun c => c.hunger_clock) (loadComp (fun c v2 => { c with combat_stats := some v2 }) convPure v data.combat_stats) ∧
    AllNone (fun c => c.provides_food) (loadComp (fun c v2 => { c with combat_stats := some v2 }) convPure v data.combat_stats) := by
  obtain ⟨hI2, hle2, hfr2, hklx⟩ := loadComp_struct (fun c v2 => { c with combat_stats := some v2 }) convPure A (fun _ => True)
    (fun c a => rfl) (convOK_pure A) data.combat_stats _ hI (fun p hp => ⟨hA p hp, trivial⟩)
  have hfvk := loadComp_est (fun c v2 => { c with combat_stats := some v2 }) (fun c => c.combat_stats) convPure A (fun _ => True)
    (RPure id) (convOK_pure A) (fun v2 b hIv hAb => rfl)
    (fun va vb a b hle h => h) (fun c a => rfl) (fun c a => rfl) (fun m => rfl)
    data.combat_stats _ hI hkeys (fun p hp => ⟨hA p hp, trivial⟩) hN8
  obtain ⟨hoF1, hnF1⟩ := loadComp_obs (fun c v2 => { c with combat_stats := some v2 }) convPure (fun c => c.position) A (fun _ => True)
    (fun c a => rfl) (convOK_pure A) (fun c a => rfl) (fun m => rfl) data.combat_stats _ hI (fun p hp => ⟨hA p hp, trivial⟩)
  have hfv1b := FieldVals_mono (fun c => c.position) (RPure id) data.positions hle2
    (fun a b h => h)
    (fun e he hn => let ⟨m, h1, h2, _⟩ := hfr2 e he hn; ⟨m, h1, h2⟩)
    hoF1 hnF1 hkl1 hfv1
  have hkl1b := KeysLive_mono hle2 hkl1
  obtain ⟨hoF2, hnF2⟩ := loadComp_obs (fun c v2 => { c with combat_stats := some v2 }) convPure (fun c => c.renderable) A (fun _ => True)
    (fun c a => rfl) (convOK_pure A) (fun c a => rfl) (fun m => rfl) data.combat_stats _ hI (fun p hp => ⟨hA p hp, trivial⟩)
  have hfv2b := FieldVals_mono (fun c => c.renderable) (RPure id) data.renderables hle2
    (fun a b h => h)
    (fun e he hn => let ⟨m, h1, h2, _⟩ := hfr2 e he hn; ⟨m, h1, h2⟩)
    hoF2 hnF2 hkl2 hfv2
  have hkl2b := KeysLive_mono hle2 hkl2
  obtain ⟨hoF3, hnF3⟩ := loadComp_obs (fun c v2 => { c with combat_stats := some v2 }) convPure (fun c => c.player) A (fun _ => True)
    (fun c a => rfl) (convOK_pure A) (fun c a => rfl) (fun m => rfl) data.combat_stats _ hI (fun p hp => ⟨hA p hp, trivial⟩)
  have hfv3b := FieldVals_mono (fun c => c.player) (RPure id) data.players hle2
    (fun a b h => h)
    (fun e he hn => let ⟨m, h1, h2, _⟩ := hfr2 e he hn; ⟨m, h1, h2⟩)
    hoF3 hnF3 hkl3 hfv3
  have hkl3b := KeysLive_mono hle2 hkl3
  obtain ⟨hoF4, hnF4⟩ := loadComp_obs (fun c v2 => { c with combat_stats := some v2 }) convPure (fun c => c.viewshed) A (fun _ => True)
    (fun c a => rfl) (convOK_pure A) (fun c a => rfl) (fun m => rfl) data.combat_stats _ hI (fun p hp => ⟨hA p hp, trivial⟩)
  have hfv4b := FieldVals_mono (fun c => c.viewshed) (RPure id) data.viewsheds hle2
    (fun a b h => h)
    (fun e he hn => let ⟨m, h1, h2, _⟩ := hfr2 e he hn; ⟨m, h1, h2⟩)
    hoF4 hnF4 hkl4 hfv4
  have hkl4b := KeysLive_mono hle2 hkl4
  obtain ⟨hoF5, hnF5⟩ := loadComp_obs (fun c v2 => { c with combat_stats := some v2 }) convPure (fun c => c.monster) A (fun _ => True)
    (fun c a => rfl) (convOK_pure A) (fun c a => rfl) (fun m => rfl) data.combat_stats _ hI (fun p hp => ⟨hA p hp, trivial⟩)
  have hfv5b := FieldVals_mono (fun c => c.monster) (RPure id) data.monsters hle2
    (fun a b h => h)
    (fun e he hn => let ⟨m, h1, h2, _⟩ := hfr2 e he hn; ⟨m, h1, h2⟩)
    hoF5 hnF5 hkl5 hfv5
  have hkl5b := KeysLive_mono hle2 hkl5
  obtain ⟨hoF6, hnF6⟩ := loadComp_obs (fun c v2 => { c with combat_stats := some v2 }) convPure (fun c => c.name) A (fun _ => True)
    (fun c a => rfl) (convOK_pure A) (fun c a => rfl) (fun m => rfl) data.combat_stats _ hI (fun p hp => ⟨hA p hp, trivial⟩)
  have hfv6b := FieldVals_mono (fun c => c.name) (RPure id) data.names hle2
    (fun a b h => h)
    (fun e he hn => let ⟨m, h1, h2, _⟩ := hfr2 e he hn; ⟨m, h1, h2⟩)
    hoF6 hnF6 hkl6 hfv6
  have hkl6b := KeysLive_mono hle2 hkl6
  obtain ⟨hoF7, hnF7⟩ := loadComp_obs (fun c v2 => { c with combat_stats := some v2 }) convPure (fun c => c.blocks_tile) A (fun _ => True)
    (fun c a => rfl) (convOK_pure A) (fun c a => rfl) (fun m => rfl) data.combat_stats _ hI (fun p hp => ⟨hA p hp, trivial⟩)
  have hfv7b := FieldVals_mono (fun c => c.blocks_tile) (RPure id) data.blocks_tile hle2
    (fun a b h => h)
    (fun e he hn => let ⟨m, h1, h2, _⟩ := hfr2 e he hn; ⟨m, h1, h2⟩)
    hoF7 hnF7 hkl7 hfv7
  have hkl7b := KeysLive_mono hle2 hkl7
  obtain ⟨hoF9, hnF9⟩ := loadComp_obs (fun c v2 => { c with combat_stats := some v2 }) convPure (fun c => c.suffer_damage) A (fun _ => True)
    (fun c a => rfl) (convOK_pure A) (fun c a => rfl) (fun m => rfl) data.combat_stats _ hI (fun p hp => ⟨hA p hp, trivial⟩)
  have hN9b := AllNone_mono (fun c => c.suffer_damage) _ _ hoF9 hnF9 hN9
  obtain ⟨hoF10, hnF10⟩ := loadComp_obs (fun c v2 => { c with combat_stats := some v2 }) convPure (fun c => c.wants_melee) A (fun _ => True)
    (fun c a => rfl) (convOK_pure A) (fun c a => rfl) (fun m => rfl) data.combat_stats _ hI (fun p hp => ⟨hA p hp, trivial⟩)
  have hN10b := AllNone_mono (fun c => c.wants_melee) _ _ hoF10 hnF10 hN10
  obtain ⟨hoF11, hnF11⟩ := loadComp_obs (fun c v2 => { c with combat_stats := some v2 }) convPure (fun c => c.item) A (fun _ => True)
    (fun c a => rfl) (convOK_pure A) (fun c a => rfl) (fun m => rfl) data.combat_stats _ hI (fun p hp => ⟨hA p hp, trivial⟩)
  have hN11b := AllNone_mono (fun c => c.item) _ _ hoF11 hnF11 hN11
  obtain ⟨hoF12, hnF12⟩ := loadComp_obs (fun c v2 => { c with combat_stats := some v2 }) convPure (fun c => c.consumable) A (fun _ => True)
    (fun c a => rfl) (convOK_pure A) (fun c a => rfl) (fun m => rfl) data.combat_stats _ hI (fun p hp => ⟨hA p hp, trivial⟩)
  have hN12b := AllNone_mono (fun c => c.consumable) _ _ hoF12 hnF12 hN12
  obtain ⟨hoF13, hnF13⟩ := loadComp_obs (fun c v2 => { c with combat_stats := some v2 }) convPure (fun c => c.ranged) A (fun _ => True)
    (fun c a => rfl) (convOK_pure A) (fun c a => rfl) (fun m => rfl) data.combat_stats _ hI (fun p hp => ⟨hA p hp, trivial⟩)
  have hN13b := AllNone_mono (fun c => c.ranged) _ _ hoF13 hnF13 hN13
  obtain ⟨hoF14, hnF14⟩ := loadComp_obs (fun c v2 => { c with combat_stats := some v2 }) convPure (fun c => c.inflicts_damage) A (fun _ => True)
    (fun c a => rfl) (convOK_pure A) (fun c a => rfl) (fun m => rfl) data.combat_stats _ hI (fun p hp => ⟨hA p hp, trivial⟩)
  have hN14b := AllNone_mono (fun c => c.inflicts_damage) _ _ hoF14 hnF14 hN14
  obtain ⟨hoF15, hnF15⟩ := loadComp_obs (fun c v2 => { c with combat_stats := some v2 }) convPure (fun c => c.area_of_effect) A (fun _ => True)
    (fun c a => rfl) (convOK_pure A) (fun c a => rfl) (fun m => rfl) data.combat_stats _ hI (fun p hp => ⟨hA p hp, trivial⟩)
  have hN15b := AllNone_mono (fun c => c.area_of_effect) _ _ hoF15 hnF15 hN15
  obtain ⟨hoF16, hnF16⟩ := loadComp_obs (fun c v2 => { c with combat_stats := some v2 }) convPure (fun c => c.confusion) A (fun _ => True)
    (fun c a => rfl) (convOK_pure A) (fun c a => rfl) (fun m => rfl) data.combat_stats _ hI (fun p hp => ⟨hA p hp, trivial⟩)
  have hN16b := AllNone_mono (fun c => c.confusion) _ _ hoF16 hnF16 hN16
  obtain ⟨hoF17, hnF17⟩ := loadComp_obs (fun c v2 => { c with combat_stats := some v2 }) convPure (fun c => c.provides_healing) A (fun _ => True)
    (fun c a => rfl) (convOK_pure A) (fun c a => rfl) (fun m => rfl) data.combat_stats _ hI (fun p hp => ⟨hA p hp, trivial⟩)
  have hN17b := AllNone_mono (fun c => c.provides_healing) _ _ hoF17 hnF17 hN17
  obtain ⟨hoF18, hnF18⟩ := loadComp_obs (fun c v2 => { c with combat_stats := some v2 }) convPure (fun c => c.in_backpack) A (fun _ => True)
    (fun c a => rfl) (convOK_pure A) (fun c a => rfl) (fun m => rfl) data.combat_stats _ hI (fun p hp => ⟨hA p hp, trivial⟩)
  have hN18b := AllNone_mono (fun c => c.in_backpack) _ _ hoF18 hnF18 hN18
  obtain ⟨hoF19, hnF19⟩ := loadComp_obs (fun c v2 => { c with combat_stats := some v2 }) convPure (fun c => c.wants_to_pickup) A (fun _ => True)
    (fun c a => rfl) (convOK_pure A) (fun c a => rfl) (fun m => rfl) data.combat_stats _ hI (fun p hp => ⟨hA p hp, trivial⟩)
  have hN19b := AllNone_mono (fun c => c.wants_to_pickup) _ _ hoF19 hnF19 hN19
  obtain ⟨hoF20, hnF20⟩ := loadComp_obs (fun c v2 => { c with combat_stats := some v2 }) convPure (fun c => c.wants_to_use) A (fun _ => True)
    (fun c a => rfl) (convOK_pure A) (fun c a => rfl) (fun m => rfl) data.combat_stats _ hI (fun p hp => ⟨hA p hp, trivial⟩)
  have hN20b := AllNone_mono (fun c => c.wants_to_use) _ _ hoF20 hnF20 hN20
  obtain ⟨hoF21, hnF21⟩ := loadComp_obs (fun c v2 => { c with combat_stats := some v2 }) convPure (fun c => c.wants_to_drop) A (fun _ => True)
    (fun c a => rfl) (convOK_pure A) (fun c a => rfl) (fun m => rfl) data.combat_stats _ hI (fun p hp => ⟨hA p hp, trivial⟩)
  have hN21b := AllNone_mono (fun c => c.wants_to_drop) _ _ hoF21 hnF21 hN21
  obtain ⟨hoF22, hnF22⟩ := loadComp_obs (fun c v2 => { c with combat_stats := some v2 }) convPure (fun c => c.serialization_helper) A (fun _ => True)
    (fun c a => rfl) (convOK_pure A) (fun c a => rfl) (fun m => rfl) data.combat_stats _ hI (fun p hp => ⟨hA p hp, trivial⟩)
  have hN22b := AllNone_mono (fun c => c.serialization_helper) _ _ hoF22 hnF22 hN22
  obtain ⟨hoF23, hnF23⟩ := loadComp_obs (fun c v2 => { c with combat_stats := some v2 }) convPure (fun c => c.equippable) A (fun _ => True)
    (fun c a => rfl) (convOK_pure A) (fun c a => rfl) (fun m => rfl) data.combat_stats _ hI (fun p hp => ⟨hA p hp, trivial⟩)
  have hN23b := AllNone_mono (fun c => c.equippable) _ _ hoF23 hnF23 hN23
  obtain ⟨hoF24, hnF24⟩ := loadComp_obs (fun c v2 => { c with combat_stats := some v2 }) convPure (fun c => c.equipped) A (fun _ => True)
    (fun c a => rfl) (convOK_pure A) (fun c a => rfl) (fun m => rfl) data.combat_stats _ hI (fun p hp => ⟨hA p hp, trivial⟩)
  have hN24b := AllNone_mono (fun c => c.equipped) _ _ hoF24 hnF24 hN24
  obtain ⟨hoF25, hnF25⟩ := loadComp_obs (fun c v2 => { c with combat_stats := some v2 }) convPure (fun c => c.melee_power_bonus) A (fun _ => True)
    (fun c a => rfl) (convOK_pure A) (fun c a => rfl) (fun m => rfl) data.combat_stats _ hI (fun p hp => ⟨hA p hp, trivial⟩)
  have hN25b := AllNone_mono (fun c => c.melee_power_bonus) _ _ hoF25 hnF25 hN25
  obtain ⟨hoF26, hnF26⟩ := loadComp_obs (fun c v2 => { c with combat_stats := some v2 }) convPure (fun c => c.defense_bonus) A (fun _ => True)
    (fun c a => rfl) (convOK_pure A) (fun c a => rfl) (fun m => rfl) data.combat_stats _ hI (fun p hp => ⟨hA p hp, trivial⟩)
  have hN26b := AllNone_mono (fun c => c.defense_bonus) _ _ hoF26 hnF26 hN26
  obtain ⟨hoF27, hnF27⟩ := loadComp_obs (fun c v2 => { c with combat_stats := some v2 }) convPure (fun c => c.wants_to_remove) A (fun _ => True)
    (fun c a => rfl) (convOK_pure A) (fun c a => rfl) (fun m => rfl) data.combat_stats _ hI (fun p hp => ⟨hA p hp, trivial⟩)
  have hN27b := AllNone_mono (fun c => c.wants_to_remove) _ _ hoF27 hnF27 hN27
  obtain ⟨hoF28, hnF28⟩ := loadComp_obs (fun c v2 => { c with combat_stats := some v2 }) convPure (fun c => c.particle_lifetime) A (fun _ => True)
    (fun c a => rfl) (convOK_pure A) (fun c a => rfl) (fun m => rfl) data.combat_stats _ hI (fun p hp => ⟨hA p hp, trivial⟩)
  have hN28b := AllNone_mono (fun c => c.particle_lifetime) _ _ hoF28 hnF28 hN28
  obtain ⟨hoF29, hnF29⟩ := loadComp_obs (fun c v2 => { c with combat_stats := some v2 }) convPure (fun c => c.hunger_clock) A (fun _ => True)
    (fun c a => rfl) (convOK_pure A) (fun c a => rfl) (fun m => rfl) data.combat_stats _ hI (fun p hp => ⟨hA p hp, trivial⟩)
  have hN29b := AllNone_mono (fun c => c.hunger_clock) _ _ hoF29 hnF29 hN29
  obtain ⟨hoF30, hnF30⟩ := loadComp_obs (fun c v2 => { c with combat_stats := some v2 }) convPure (fun c => c.provides_food) A (fun _ => True)
    (fun c a => rfl) (convOK_pure A) (fun c a => rfl) (fun m => rfl) data.combat_stats _ hI (fun p hp => ⟨hA p hp, trivial⟩)
  have hN30b := AllNone_mono (fun c => c.provides_food) _ _ hoF30 hnF30 hN30
  have hMb := MarksIn_mono hle2 (fun e he hn => let ⟨m, h1, _, h3⟩ := hfr2 e he hn; ⟨m, h1, h3⟩) hM
  exact ⟨hI2, hMb, hkl1b, hfv1b, hkl2b, hfv2b, hkl3b, hfv3b, hkl4b, hfv4b, hkl5b, hfv5b, hkl6b, hfv6b, hkl7b, hfv7b, hklx, hfvk, hN9b, hN10b, hN11b, hN12b, hN13b, hN14b, hN15b, hN16b, hN17b, hN18b, hN19b, hN20b, hN21b, hN22b, hN23b, hN24b, hN25b, hN26b, hN27b, hN28b, hN29b, hN30b⟩

set_option maxHeartbeats 800000 in
/-- Deserialization pass 9 (suffer_damage): it establishes its own list facts
and preserves those of the earlier passes. -/
lemma loadStage9 (A : Nat → Prop) (data : SaveData) (v : World)
    (hI : LoadInv v)
    (hkeys : ((data.suffer_damage).map Prod.fst).Nodup)
    (hA : ∀ p ∈ data.suffer_damage, A p.1)
    (hM : MarksIn A v)
    (hkl1 : KeysLive data.positions v)
    (hfv1 : FieldVals (fun c => c.position) (RPure id) data.positions v)
    (hkl2 : KeysLive data.renderables v)
    (hfv2 : FieldVals (fun c => c.renderable) (RPure id) data.renderables v)
    (hkl3 : KeysLive data.players v)
    (hfv3 : FieldVals (fun c => c.player) (RPure id) data.players v)
    (hkl4 : KeysLive data.viewsheds v)
    (hfv4 : FieldVals (fun c => c.viewshed) (RPure id) data.viewsheds v)
    (hkl5 : KeysLive data.monsters v)
    (hfv5 : FieldVals (fun c => c.monster) (RPure id) data.monsters v)
    (hkl6 : KeysLive data.names v)
    (hfv6 : FieldVals (fun c => c.name) (RPure id) data.names v)
    (hkl7 : KeysLive data.blocks_tile v)
    (hfv7 : FieldVals (fun c => c.blocks_tile) (RPure id) data.blocks_tile v)
    (hkl8 : KeysLive data.combat_stats v)
    (hfv8 : FieldVals (fun c => c.combat_stats) (RPure id) data.combat_stats v)
    (hN9 : AllNone (fun c => c.suffer_damage) v)
    (hN10 : AllNone (fun c => c.wants_melee) v)
    (hN11 : AllNone (fun c => c.item) v)
    (hN12 : AllNone (fun c => c.consumable) v)
    (hN13 : AllNone (fun c => c.ranged) v)
    (hN14 : AllNone (fun c => c.inflicts_damage) v)
    (hN15 : AllNone (fun c => c.area_of_effect) v)
    (hN16 : AllNone (fun c => c.confusion) v)
    (hN17 : AllNone (fun c => c.provides_healing) v)
    (hN18 : AllNone (fun c => c.in_backpack) v)
    (hN19 : AllNone (fun c => c.wants_to_pickup) v)
    (hN20 : AllNone (fun c => c.wants_to_use) v)
    (hN21 : AllNone (fun c => c.wants_to_drop) v)
    (hN22 : AllNone (fun c => c.serialization_helper) v)
    (hN23 : AllNone (fun c => c.equippable) v)
    (hN24 : AllNone (fun c => c.equipped) v)
    (hN25 : AllNone (fun c => c.melee_power_bonus) v)
    (hN26 : AllNone (fun c => c.defense_bonus) v)
    (hN27 : AllNone (fun c => c.wants_to_remove) v)
    (hN28 : AllNone (fun c => c.particle_lifetime) v)
    (hN29 : AllNone (fun c => c.hunger_clock) v)
    (hN30 : AllNone (fun c => c.provides_food) v)
    :
    LoadInv (loadComp (fun c v2 => { c with suffer_damage := some v2 }) convPure v data.suffer_damage) ∧
    MarksIn A (loadComp (fun c v2 => { c with suffer_damage := some v2 }) convPure v data.suffer_damage) ∧
    KeysLive data.positions (loadComp (fun c v2 => { c with suffer_damage := some v2 }) convPure v data.suffer_damage) ∧
    FieldVals (fun c => c.position) (RPure id) data.positions (loadComp (fun c v2 => { c with suffer_damage := some v2 }) convPure v data.suffer_damage) ∧
    KeysLive data.renderables (loadComp (fun c v2 => { c with suffer_damage := some v2 }) convPure v data.suffer_damage) ∧
    FieldVals (fun c => c.renderable) (RPure id) data.renderables (loadComp (fun c v2 => { c with suffer_damage := some v2 }) convPure v data.suffer_damage) ∧
    KeysLive data.players (loadComp (fun c v2 => { c with suffer_damage := some v2 }) convPure v data.suffer_damage) ∧
    FieldVals (fun c => c.player) (RPure id) data.players (loadComp (fun c v2 => { c with suffer_damage := some v2 }) convPure v data.suffer_damage) ∧
    KeysLive data.viewsheds (loadComp (fun c v2 => { c with suffer_damage := some v2 }) convPure v data.suffer_damage) ∧
    FieldVals (fun c => c.viewshed) (RPure id) data.viewsheds (loadComp (fun c v2 => { c with suffer_damage := some v2 }) convPure v data.suffer_damage) ∧
    KeysLive data.monsters (loadComp (fun c v2 => { c with suffer_damage := some v2 }) convPure v data.suffer_damage) ∧
    FieldVals (fun c => c.monster) (RPure id) data.monsters (loadComp (fun c v2 => { c with suffer_damage := some v2 }) convPure v data.suffer_damage) ∧
    KeysLive data.names (loadComp (fun c v2 => { c with suffer_damage := some v2 }) convPure v data.suffer_damage) ∧
    FieldVals (fun c => c.name) (RPure id) data.names (loadComp (fun c v2 => { c with suffer_damage := some v2 }) convPure v data.suffer_damage) ∧
    KeysLive data.blocks_tile (loadComp (fun c v2 => { c with suffer_damage := some v2 }) convPure v data.suffer_damage) ∧
    FieldVals (fun c => c.blocks_tile) (RPure id) data.blocks_tile (loadComp (fun c v2 => { c with suffer_damage := some v2 }) convPure v data.suffer_damage) ∧
    KeysLive data.combat_stats (loadComp (fun c v2 => { c with suffer_damage := some v2 }) convPure v data.suffer_damage) ∧
    FieldVals (fun c => c.combat_stats) (RPure id) data.combat_stats (loadComp (fun c v2 => { c with suffer_damage := some v2 }) convPure v data.suffer_damage) ∧
    KeysLive data.suffer_damage (loadComp (fun c v2 => { c with suffer_damage := some v2 }) convPure v data.suffer_damage) ∧
    FieldVals (fun c => c.suffer_damage) (RPure id) data.suffer_damage (loadComp (fun c v2 => { c with suffer_damage := some v2 }) convPure v data.suffer_damage) ∧
    AllNone (fun c => c.wants_melee) (loadComp (fun c v2 => { c with suffer_damage := some v2 }) convPure v data.suffer_damage) ∧
    AllNone (fun c => c.item) (loadComp (fun c v2 => { c with suffer_damage := some v2 }) convPure v data.suffer_damage) ∧
    AllNone (fun c => c.consumable) (loadComp (fun c v2 => { c with suffer_damage := some v2 }) convPure v data.suffer_damage) ∧
    AllNone (fun c => c.ranged) (loadComp (fun c v2 => { c with suffer_damage := some v2 }) convPure v data.suffer_damage) ∧
    AllNone (fun c => c.inflicts_damage) (loadComp (fun c v2 => { c with suffer_damage := some v2 }) convPure v data.suffer_damage) ∧
    AllNone (fun c => c.area_of_effect) (loadComp (fun c v2 => { c with suffer_damage := some v2 }) convPure v data.suffer_damage) ∧
    AllNone (fun c => c.confusion) (loadComp (fun c v2 => { c with suffer_damage := some v2 }) convPure v data.suffer_damage) ∧
    AllNone (fun c => c.provides_healing) (loadComp (fun c v2 => { c with suffer_damage := some v2 }) convPure v data.suffer_damage) ∧
    AllNone (fun c => c.in_backpack) (loadComp (fun c v2 => { c with suffer_damage := some v2 }) convPure v data.suffer_damage) ∧
    AllNone (fun c => c.wants_to_pickup) (loadComp (fun c v2 => { c with suffer_damage := some v2 }) convPure v data.suffer_damage) ∧
    AllNone (fun c => c.wants_to_use) (loadComp (fun c v2 => { c with suffer_damage := some v2 }) convPure v data.suffer_damage) ∧
    AllNone (fun c => c.wants_to_drop) (loadComp (fun c v2 => { c with suffer_damage := some v2 }) convPure v data.suffer_damage) ∧
    AllNone (fun c => c.serialization_helper) (loadComp (fun c v2 => { c with suffer_damage := some v2 }) convPure v data.suffer_damage) ∧
    AllNone (fun c => c.equippable) (loadComp (fun c v2 => { c with suffer_damage := some v2 }) convPure v data.suffer_damage) ∧
    AllNone (fun c => c.equipped) (loadComp (fun c v2 => { c with suffer_damage := some v2 }) convPure v data.suffer_damage) ∧
    AllNone (fun c => c.melee_power_bonus) (loadComp (fun c v2 => { c with suffer_damage := some v2 }) convPure v data.suffer_damage) ∧
    AllNone (fun c => c.defense_bonus) (loadComp (fun c v2 => { c with suffer_damage := some v2 }) convPure v data.suffer_damage) ∧
    AllNone (fun c => c.wants_to_remove) (loadComp (fun c v2 => { c with suffer_damage := some v2 }) convPure v data.suffer_damage) ∧
    AllNone (fun c => c.particle_lifetime) (loadComp (fun c v2 => { c with suffer_damage := some v2 }) convPure v data.suffer_damage) ∧
    AllNone (fun c => c.hunger_clock) (loadComp (fun c v2 => { c with suffer_damage := some v2 }) convPure v data.suffer_damage) ∧
    AllNone (fun c => c.provides_food) (loadComp (fun c v2 => { c with suffer_damage := some v2 }) convPure v data.suffer_damage) := by
  obtain ⟨hI2, hle2, hfr2, hklx⟩ := loadComp_struct (fun c v2 => { c with suffer_damage := some v2 }) convPure A (fun _ => True)
    (fun c a => rfl) (convOK_pure A) data.suffer_damage _ hI (fun p hp => ⟨hA p hp, trivial⟩)
  have hfvk := loadComp_est (fun c v2 => { c with suffer_damage := some v2 }) (fun c => c.suffer_damage) convPure A (fun _ => True)
    (RPure id) (convOK_pure A) (fun v2 b hIv hAb => rfl)
    (fun va vb a b hle h => h) (fun c a => rfl) (fun c a => rfl) (fun m => rfl)
    data.suffer_damage _ hI hkeys (fun p hp => ⟨hA p hp, trivial⟩) hN9
  obtain ⟨hoF1, hnF1⟩ := loadComp_obs (fun c v2 => { c with suffer_damage := some v2 }) convPure (fun c => c.position) A (fun _ => True)
    (fun c a => rfl) (convOK_pure A) (fun c a => rfl) (fun m => rfl) data.suffer_damage _ hI (fun p hp => ⟨hA p hp, trivial⟩)
  have hfv1b := FieldVals_mono (fun c => c.position) (RPure id) data.positions hle2
    (fun a b h => h)
    (fun e he hn => let ⟨m, h1, h2, _⟩ := hfr2 e he hn; ⟨m, h1, h2⟩)
    hoF1 hnF1 hkl1 hfv1
  have hkl1b := KeysLive_mono hle2 hkl1
  obtain ⟨hoF2, hnF2⟩ := loadComp_obs (fun c v2 => { c with suffer_damage := some v2 }) convPure (fun c => c.renderable) A (fun _ => True)
    (fun c a => rfl) (convOK_pure A) (fun c a => rfl) (fun m => rfl) data.suffer_damage _ hI (fun p hp => ⟨hA p hp, trivial⟩)
  have hfv2b := FieldVals_mono (fun c => c.renderable) (RPure id) data.renderables hle2
    (fun a b h => h)
    (fun e he hn => let ⟨m, h1, h2, _⟩ := hfr2 e he hn; ⟨m, h1, h2⟩)
    hoF2 hnF2 hkl2 hfv2
  have hkl2b := KeysLive_mono hle2 hkl2
  obtain ⟨hoF3, hnF3⟩ := loadComp_obs (fun c v2 => { c with suffer_damage := some v2 }) convPure (fun c => c.player) A (fun _ => True)
    (fun c a => rfl) (convOK_pure A) (fun c a => rfl) (fun m => rfl) data.suffer_damage _ hI (fun p hp => ⟨hA p hp, trivial⟩)
  have hfv3b := FieldVals_mono (fun c => c.player) (RPure id) data.players hle2
    (fun a b h => h)
    (fun e he hn => let ⟨m, h1, h2, _⟩ := hfr2 e he hn; ⟨m, h1, h2⟩)
    hoF3 hnF3 hkl3 hfv3
  have hkl3b := KeysLive_mono hle2 hkl3
  obtain ⟨hoF4, hnF4⟩ := loadComp_obs (fun c v2 => { c with suffer_damage := some v2 }) convPure (fun c => c.viewshed) A (fun _ => True)
    (fun c a => rfl) (convOK_pure A) (fun c a => rfl) (fun m => rfl) data.suffer_damage _ hI (fun p hp => ⟨hA p hp, trivial⟩)
  have hfv4b := FieldVals_mono (fun c => c.viewshed) (RPure id) data.viewsheds hle2
    (fun a b h => h)
    (fun e he hn => let ⟨m, h1, h2, _⟩ := hfr2 e he hn; ⟨m, h1, h2⟩)
    hoF4 hnF4 hkl4 hfv4
  have hkl4b := KeysLive_mono hle2 hkl4
  obtain ⟨hoF5, hnF5⟩ := loadComp_obs (fun c v2 => { c with suffer_damage := some v2 }) convPure (fun c => c.monster) A (fun _ => True)
    (fun c a => rfl) (convOK_pure A) (fun c a => rfl) (fun m => rfl) data.suffer_damage _ hI (fun p hp => ⟨hA p hp, trivial⟩)
  have hfv5b := FieldVals_mono (fun c => c.monster) (RPure id) data.monsters hle2
    (fun a b h => h)
    (fun e he hn => let ⟨m, h1, h2, _⟩ := hfr2 e he hn; ⟨m, h1, h2⟩)
    hoF5 hnF5 hkl5 hfv5
  have hkl5b := KeysLive_mono hle2 hkl5
  obtain ⟨hoF6, hnF6⟩ := loadComp_obs (fun c v2 => { c with suffer_damage := some v2 }) convPure (fun c => c.name) A (fun _ => True)
    (fun c a => rfl) (convOK_pure A) (fun c a => rfl) (fun m => rfl) data.suffer_damage _ hI (fun p hp => ⟨hA p hp, trivial⟩)
  have hfv6b := FieldVals_mono (fun c => c.name) (RPure id) data.names hle2
    (fun a b h => h)
    (fun e he hn => let ⟨m, h1, h2, _⟩ := hfr2 e he hn; ⟨m, h1, h2⟩)
    hoF6 hnF6 hkl6 hfv6
  have hkl6b := KeysLive_mono hle2 hkl6
  obtain ⟨hoF7, hnF7⟩ := loadComp_obs (fun c v2 => { c with suffer_damage := some v2 }) convPure (fun c => c.blocks_tile) A (fun _ => True)
    (fun c a => rfl) (convOK_pure A) (fun c a => rfl) (fun m => rfl) data.suffer_damage _ hI (fun p hp => ⟨hA p hp, trivial⟩)
  have hfv7b := FieldVals_mono (fun c => c.blocks_tile) (RPure id) data.blocks_tile hle2
    (fun a b h => h)
    (fun e he hn => let ⟨m, h1, h2, _⟩ := hfr2 e he hn; ⟨m, h1, h2⟩)
    hoF7 hnF7 hkl7 hfv7
  have hkl7b := KeysLive_mono hle2 hkl7
  obtain ⟨hoF8, hnF8⟩ := loadComp_obs (fun c v2 => { c with suffer_damage := some v2 }) convPure (fun c => c.combat_stats) A (fun _ => True)
    (fun c a => rfl) (convOK_pure A) (fun c a => rfl) (fun m => rfl) data.suffer_damage _ hI (fun p hp => ⟨hA p hp, trivial⟩)
  have hfv8b := FieldVals_mono (fun c => c.combat_stats) (RPure id) data.combat_stats hle2
    (fun a b h => h)
    (fun e he hn => let ⟨m, h1, h2, _⟩ := hfr2 e he hn; ⟨m, h1, h2⟩)
    hoF8 hnF8 hkl8 hfv8
  have hkl8b := KeysLive_mono hle2 hkl8
  obtain ⟨hoF10, hnF10⟩ := loadComp_obs (fun c v2 => { c with suffer_damage := some v2 }) convPure (fun c => c.wants_melee) A (fun _ => True)
    (fun c a => rfl) (convOK_pure A) (fun c a => rfl) (fun m => rfl) data.suffer_damage _ hI (fun p hp => ⟨hA p hp, trivial⟩)
  have hN10b := AllNone_mono (fun c => c.wants_melee) _ _ hoF10 hnF10 hN10
  obtain ⟨hoF11, hnF11⟩ := loadComp_obs (fun c v2 => { c with suffer_damage := some v2 }) convPure (fun c => c.item) A (fun _ => True)
    (fun c a => rfl) (convOK_pure A) (fun c a => rfl) (fun m => rfl) data.suffer_damage _ hI (fun p hp => ⟨hA p hp, trivial⟩)
  have hN11b := AllNone_mono (fun c => c.item) _ _ hoF11 hnF11 hN11
  obtain ⟨hoF12, hnF12⟩ := loadComp_obs (fun c v2 => { c with suffer_damage := some v2 }) convPure (fun c => c.consumable) A (fun _ => True)
    (fun c a => rfl) (convOK_pure A) (fun c a => rfl) (fun m => rfl) data.suffer_damage _ hI (fun p hp => ⟨hA p hp, trivial⟩)
  have hN12b := AllNone_mono (fun c => c.consumable) _ _ hoF12 hnF12 hN12
  obtain ⟨hoF13, hnF13⟩ := loadComp_obs (fun c v2 => { c with suffer_damage := some v2 }) convPure (fun c => c.ranged) A (fun _ => True)
    (fun c a => rfl) (convOK_pure A) (fun c a => rfl) (fun m => rfl) data.suffer_damage _ hI (fun p hp => ⟨hA p hp, trivial⟩)
  have hN13b := AllNone_mono (fun c => c.ranged) _ _ hoF13 hnF13 hN13
  obtain ⟨hoF14, hnF14⟩ := loadComp_obs (fun c v2 => { c with suffer_damage := some v2 }) convPure (fun c => c.inflicts_damage) A (fun _ => True)
    (fun c a => rfl) (convOK_pure A) (fun c a => rfl) (fun m => rfl) data.suffer_damage _ hI (fun p hp => ⟨hA p hp, trivial⟩)
  have hN14b := AllNone_mono (fun c => c.inflicts_damage) _ _ hoF14 hnF14 hN14
  obtain ⟨hoF15, hnF15⟩ := loadComp_obs (fun c v2 => { c with suffer_damage := some v2 }) convPure (fun c => c.area_of_effect) A (fun _ => True)
    (fun c a => rfl) (convOK_pure A) (fun c a => rfl) (fun m => rfl) data.suffer_damage _ hI (fun p hp => ⟨hA p hp, trivial⟩)
  have hN15b := AllNone_mono (fun c => c.area_of_effect) _ _ hoF15 hnF15 hN15
  obtain ⟨hoF16, hnF16⟩ := loadComp_obs (fun c v2 => { c with suffer_damage := some v2 }) convPure (fun c => c.confusion) A (fun _ => True)
    (fun c a => rfl) (convOK_pure A) (fun c a => rfl) (fun m => rfl) data.suffer_damage _ hI (fun p hp => ⟨hA p hp, trivial⟩)
  have hN16b := AllNone_mono (fun c => c.confusion) _ _ hoF16 hnF16 hN16
  obtain ⟨hoF17, hnF17⟩ := loadComp_obs (fun c v2 => { c with suffer_damage := some v2 }) convPure (fun c => c.provides_healing) A (fun _ => True)
    (fun c a => rfl) (convOK_pure A) (fun c a => rfl) (fun m => rfl) data.suffer_damage _ hI (fun p hp => ⟨hA p hp, trivial⟩)
  have hN17b := AllNone_mono (fun c => c.provides_healing) _ _ hoF17 hnF17 hN17
  obtain ⟨hoF18, hnF18⟩ := loadComp_obs (fun c v2 => { c with suffer_damage := some v2 }) convPure (fun c => c.in_backpack) A (fun _ => True)
    (fun c a => rfl) (convOK_pure A) (fun c a => rfl) (fun m => rfl) data.suffer_damage _ hI (fun p hp => ⟨hA p hp, trivial⟩)
  have hN18b := AllNone_mono (fun c => c.in_backpack) _ _ hoF18 hnF18 hN18
  obtain ⟨hoF19, hnF19⟩ := loadComp_obs (fun c v2 => { c with suffer_damage := some v2 }) convPure (fun c => c.wants_to_pickup) A (fun _ => True)
    (fun c a => rfl) (convOK_pure A) (fun c a => rfl) (fun m => rfl) data.suffer_damage _ hI (fun p hp => ⟨hA p hp, trivial⟩)
  have hN19b := AllNone_mono (fun c => c.wants_to_pickup) _ _ hoF19 hnF19 hN19
  obtain ⟨hoF20, hnF20⟩ := loadComp_obs (fun c v2 => { c with suffer_damage := some v2 }) convPure (fun c => c.wants_to_use) A (fun _ => True)
    (fun c a => rfl) (convOK_pure A) (fun c a => rfl) (fun m => rfl) data.suffer_damage _ hI (fun p hp => ⟨hA p hp, trivial⟩)
  have hN20b := AllNone_mono (fun c => c.wants_to_use) _ _ hoF20 hnF20 hN20
  obtain ⟨hoF21, hnF21⟩ := loadComp_obs (fun c v2 => { c with suffer_damage := some v2 }) convPure (fun c => c.wants_to_drop) A (fun _ => True)
    (fun c a => rfl) (convOK_pure A) (fun c a => rfl) (fun m => rfl) data.suffer_damage _ hI (fun p hp => ⟨hA p hp, trivial⟩)
  have hN21b := AllNone_mono (fun c => c.wants_to_drop) _ _ hoF21 hnF21 hN21
  obtain ⟨hoF22, hnF22⟩ := loadComp_obs (fun c v2 => { c with suffer_damage := some v2 }) convPure (fun c => c.serialization_helper) A (fun _ => True)
    (fun c a => rfl) (convOK_pure A) (fun c a => rfl) (fun m => rfl) data.suffer_damage _ hI (fun p hp => ⟨hA p hp, trivial⟩)
  have hN22b := AllNone_mono (fun c => c.serialization_helper) _ _ hoF22 hnF22 hN22
  obtain ⟨hoF23, hnF23⟩ := loadComp_obs (fun c v2 => { c with suffer_damage := some v2 }) convPure (fun c => c.equippable) A (fun _ => True)
    (fun c a => rfl) (convOK_pure A) (fun c a => rfl) (fun m => rfl) data.suffer_damage _ hI (fun p hp => ⟨hA p hp, trivial⟩)
  have hN23b := AllNone_mono (fun c => c.equippable) _ _ hoF23 hnF23 hN23
  obtain ⟨hoF24, hnF24⟩ := loadComp_obs (fun c v2 => { c with suffer_damage := some v2 }) convPure (fun c => c.equipped) A (fun _ => True)
    (fun c a => rfl) (convOK_pure A) (fun c a => rfl) (fun m => rfl) data.suffer_damage _ hI (fun p hp => ⟨hA p hp, trivial⟩)
  have hN24b := AllNone_mono (fun c => c.equipped) _ _ hoF24 hnF24 hN24
  obtain ⟨hoF25, hnF25⟩ := loadComp_obs (fun c v2 => { c with suffer_damage := some v2 }) convPure (fun c => c.melee_power_bonus) A (fun _ => True)
    (fun c a => rfl) (convOK_pure A) (fun c a => rfl) (fun m => rfl) data.suffer_damage _ hI (fun p hp => ⟨hA p hp, trivial⟩)
  have hN25b := AllNone_mono (fun c => c.melee_power_bonus) _ _ hoF25 hnF25 hN25
  obtain ⟨hoF26, hnF26⟩ := loadComp_obs (fun c v2 => { c with suffer_damage := some v2 }) convPure (fun c => c.defense_bonus) A (fun _ => True)
    (fun c a => rfl) (convOK_pure A) (fun c a => rfl) (fun m => rfl) data.suffer_damage _ hI (fun p hp => ⟨hA p hp, trivial⟩)
  have hN26b := AllNone_mono (fun c => c.defense_bonus) _ _ hoF26 hnF26 hN26
  obtain ⟨hoF27, hnF27⟩ := loadComp_obs (fun c v2 => { c with suffer_damage := some v2 }) convPure (fun c => c.wants_to_remove) A (fun _ => True)
    (fun c a => rfl) (convOK_pure A) (fun c a => rfl) (fun m => rfl) data.suffer_damage _ hI (fun p hp => ⟨hA p hp, trivial⟩)
  have hN27b := AllNone_mono (fun c => c.wants_to_remove) _ _ hoF27 hnF27 hN27
  obtain ⟨hoF28, hnF28⟩ := loadComp_obs (fun c v2 => { c with suffer_damage := some v2 }) convPure (fun c => c.particle_lifetime) A (fun _ => True)
    (fun c a => rfl) (convOK_pure A) (fun c a => rfl) (fun m => rfl) data.suffer_damage _ hI (fun p hp => ⟨hA p hp, trivial⟩)
  have hN28b := AllNone_mono (fun c => c.particle_lifetime) _ _ hoF28 hnF28 hN28
  obtain ⟨hoF29, hnF29⟩ := loadComp_obs (fun c v2 => { c with suffer_damage := some v2 }) convPure (fun c => c.hunger_clock) A (fun _ => True)
    (fun c a => rfl) (convOK_pure A) (fun c a => rfl) (fun m => rfl) data.suffer_damage _ hI (fun p hp => ⟨hA p hp, trivial⟩)
  have hN29b := AllNone_mono (fun c => c.hunger_clock) _ _ hoF29 hnF29 hN29
  obtain ⟨hoF30, hnF30⟩ := loadComp_obs (fun c v2 => { c with suffer_damage := some v2 }) convPure (fun c => c.provides_food) A (fun _ => True)
    (fun c a => rfl) (convOK_pure A) (fun c a => rfl) (fun m => rfl) data.suffer_damage _ hI (fun p hp => ⟨hA p hp, trivial⟩)
  have hN30b := AllNone_mono (fun c => c.provides_food) _ _ hoF30 hnF30 hN30
  have hMb := MarksIn_mono hle2 (fun e he hn => let ⟨m, h1, _, h3⟩ := hfr2 e he hn; ⟨m, h1, h3⟩) hM
  exact ⟨hI2, hMb, hkl1b, hfv1b, hkl2b, hfv2b, hkl3b, hfv3b, hkl4b, hfv4b, hkl5b, hfv5b, hkl6b, hfv6b, hkl7b, hfv7b, hkl8b, hfv8b, hklx, hfvk, hN10b, hN11b, hN12b, hN13b, hN14b, hN15b, hN16b, hN17b, hN18b, hN19b, hN20b, hN21b, hN22b, hN23b, hN24b, hN25b, hN26b, hN27b, hN28b, hN29b, hN30b⟩

set_option maxHeartbeats 800000 in
/-- Deserialization pass 10 (wants_melee): it establishes its own list facts
and preserves those of the earlier passes. -/
lemma loadStage10 (A : Nat → Prop) (data : SaveData) (v : World)
    (hI : LoadInv v)
    (hkeys : ((data.wants_melee).map Prod.fst).Nodup)
    (hA : ∀ p ∈ data.wants_melee, A p.1 ∧ A p.2)
    (hM : MarksIn A v)
    (hkl1 : KeysLive data.positions v)
    (hfv1 : FieldVals (fun c => c.position) (RPure id) data.positions v)
    (hkl2 : KeysLive data.renderables v)
    (hfv2 : FieldVals (fun c => c.renderable) (RPure id) data.renderables v)
    (hkl3 : KeysLive data.players v)
    (hfv3 : FieldVals (fun c => c.player) (RPure id) data.players v)
    (hkl4 : KeysLive data.viewsheds v)
    (hfv4 : FieldVals (fun c => c.viewshed) (RPure id) data.viewsheds v)
    (hkl5 : KeysLive data.monsters v)
    (hfv5 : FieldVals (fun c => c.monster) (RPure id) data.monsters v)
    (hkl6 : KeysLive data.names v)
    (hfv6 : FieldVals (fun c => c.name) (RPure id) data.names v)
    (hkl7 : KeysLive data.blocks_tile v)
    (hfv7 : FieldVals (fun c => c.blocks_tile) (RPure id) data.blocks_tile v)
    (hkl8 : KeysLive data.combat_stats v)
    (hfv8 : FieldVals (fun c => c.combat_stats) (RPure id) data.combat_stats v)
    (hkl9 : KeysLive data.suffer_damage v)
    (hfv9 : FieldVals (fun c => c.suffer_damage) (RPure id) data.suffer_damage v)
    (hN10 : AllNone (fun c => c.wants_melee) v)
    (hN11 : AllNone (fun c => c.item) v)
    (hN12 : AllNone (fun c => c.consumable) v)
    (hN13 : AllNone (fun c => c.ranged) v)
    (hN14 : AllNone (fun c => c.inflicts_damage) v)
    (hN15 : AllNone (fun c => c.area_of_effect) v)
    (hN16 : AllNone (fun c => c.confusion) v)
    (hN17 : AllNone (fun c => c.provides_healing) v)
    (hN18 : AllNone (fun c => c.in_backpack) v)
    (hN19 : AllNone (fun c => c.wants_to_pickup) v)
    (hN20 : AllNone (fun c => c.wants_to_use) v)
    (hN21 : AllNone (fun c => c.wants_to_drop) v)
    (hN22 : AllNone (fun c => c.serialization_helper) v)
    (hN23 : AllNone (fun c => c.equippable) v)
    (hN24 : AllNone (fun c => c.equipped) v)
    (hN25 : AllNone (fun c => c.melee_power_bonus) v)
    (hN26 : AllNone (fun c => c.defense_bonus) v)
    (hN27 : AllNone (fun c => c.wants_to_remove) v)
    (hN28 : AllNone (fun c => c.particle_lifetime) v)
    (hN29 : AllNone (fun c => c.hunger_clock) v)
    (hN30 : AllNone (fun c => c.provides_food) v)
    :
    LoadInv (loadComp (fun c v2 => { c with wants_melee := some v2 }) (convRef WantsToMelee.mk) v data.wants_melee) ∧
    MarksIn A (loadComp (fun c v2 => { c with wants_melee := some v2 }) (convRef WantsToMelee.mk) v data.wants_melee) ∧
    KeysLive data.positions (loadComp (fun c v2 => { c with wants_melee := some v2 }) (convRef WantsToMelee.mk) v data.wants_melee) ∧
    FieldVals (fun c => c.position) (RPure id) data.positions (loadComp (fun c v2 => { c with wants_melee := some v2 }) (convRef WantsToMelee.mk) v data.wants_melee) ∧
    KeysLive data.renderables (loadComp (fun c v2 => { c with wants_melee := some v2 }) (convRef WantsToMelee.mk) v data.wants_melee) ∧
    FieldVals (fun c => c.renderable) (RPure id) data.renderables (loadComp (fun c v2 => { c with wants_melee := some v2 }) (convRef WantsToMelee.mk) v data.wants_melee) ∧
    KeysLive data.players (loadComp (fun c v2 => { c with wants_melee := some v2 }) (convRef WantsToMelee.mk) v data.wants_melee) ∧
    FieldVals (fun c => c.player) (RPure id) data.players (loadComp (fun c v2 => { c with wants_melee := some v2 }) (convRef WantsToMelee.mk) v data.wants_melee) ∧
    KeysLive data.viewsheds (loadComp (fun c v2 => { c with wants_melee := some v2 }) (convRef WantsToMelee.mk) v data.wants_melee) ∧
    FieldVals (fun c => c.viewshed) (RPure id) data.viewsheds (loadComp (fun c v2 => { c with wants_melee := some v2 }) (convRef WantsToMelee.mk) v data.wants_melee) ∧
    KeysLive data.monsters (loadComp (fun c v2 => { c with wants_melee := some v2 }) (convRef WantsToMelee.mk) v data.wants_melee) ∧
    FieldVals (fun c => c.monster) (RPure id) data.monsters (loadComp (fun c v2 => { c with wants_melee := some v2 }) (convRef WantsToMelee.mk) v data.wants_melee) ∧
    KeysLive data.names (loadComp (fun c v2 => { c with wants_melee := some v2 }) (convRef WantsToMelee.mk) v data.wants_melee) ∧
    FieldVals (fun c => c.name) (RPure id) data.names (loadComp (fun c v2 => { c with wants_melee := some v2 }) (convRef WantsToMelee.mk) v data.wants_melee) ∧
    KeysLive data.blocks_tile (loadComp (fun c v2 => { c with wants_melee := some v2 }) (convRef WantsToMelee.mk) v data.wants_melee) ∧
    FieldVals (fun c => c.blocks_tile) (RPure id) data.blocks_tile (loadComp (fun c v2 => { c with wants_melee := some v2 }) (convRef WantsToMelee.mk) v data.wants_melee) ∧
    KeysLive data.combat_stats (loadComp (fun c v2 => { c with wants_melee := some v2 }) (convRef WantsToMelee.mk) v data.wants_melee) ∧
    FieldVals (fun c => c.combat_stats) (RPure id) data.combat_stats (loadComp (fun c v2 => { c with wants_melee := some v2 }) (convRef WantsToMelee.mk) v data.wants_melee) ∧
    KeysLive data.suffer_damage (loadComp (fun c v2 => { c with wants_melee := some v2 }) (convRef WantsToMelee.mk) v data.wants_melee) ∧
    FieldVals (fun c => c.suffer_damage) (RPure id) data.suffer_damage (loadComp (fun c v2 => { c with wants_melee := some v2 }) (convRef WantsToMelee.mk) v data.wants_melee) ∧
    KeysLive data.wants_melee (loadComp (fun c v2 => { c with wants_melee := some v2 }) (convRef WantsToMelee.mk) v data.wants_melee) ∧
    FieldVals (fun c => c.wants_melee) (RRef WantsToMelee.mk) data.wants_melee (loadComp (fun c v2 => { c with wants_melee := some v2 }) (convRef WantsToMelee.mk) v data.wants_melee) ∧
    AllNone (fun c => c.item) (loadComp (fun c v2 => { c with wants_melee := some v2 }) (convRef WantsToMelee.mk) v data.wants_melee) ∧
    AllNone (fun c => c.consumable) (loadComp (fun c v2 => { c with wants_melee := some v2 }) (convRef WantsToMelee.mk) v data.wants_melee) ∧
    AllNone (fun c => c.ranged) (loadComp (fun c v2 => { c with wants_melee := some v2 }) (convRef WantsToMelee.mk) v data.wants_melee) ∧
    AllNone (fun c => c.inflicts_damage) (loadComp (fun c v2 => { c with wants_melee := some v2 }) (convRef WantsToMelee.mk) v data.wants_melee) ∧
    AllNone (fun c => c.area_of_effect) (loadComp (fun c v2 => { c with wants_melee := some v2 }) (convRef WantsToMelee.mk) v data.wants_melee) ∧
    AllNone (fun c => c.confusion) (loadComp (fun c v2 => { c with wants_melee := some v2 }) (convRef WantsToMelee.mk) v data.wants_melee) ∧
    AllNone (fun c => c.provides_healing) (loadComp (fun c v2 => { c with wants_melee := some v2 }) (convRef WantsToMelee.mk) v data.wants_melee) ∧
    AllNone (fun c => c.in_backpack) (loadComp (fun c v2 => { c with wants_melee := some v2 }) (convRef WantsToMelee.mk) v data.wants_melee) ∧
    AllNone (fun c => c.wants_to_pickup) (loadComp (fun c v2 => { c with wants_melee := some v2 }) (convRef WantsToMelee.mk) v data.wants_melee) ∧
    AllNone (fun c => c.wants_to_use) (loadComp (fun c v2 => { c with wants_melee := some v2 }) (convRef WantsToMelee.mk) v data.wants_melee) ∧
    AllNone (fun c => c.wants_to_drop) (loadComp (fun c v2 => { c with wants_melee := some v2 }) (convRef WantsToMelee.mk) v data.wants_melee) ∧
    AllNone (fun c => c.serialization_helper) (loadComp (fun c v2 => { c with wants_melee := some v2 }) (convRef WantsToMelee.mk) v data.wants_melee) ∧
    AllNone (fun c => c.equippable) (loadComp (fun c v2 => { c with wants_melee := some v2 }) (convRef WantsToMelee.mk) v data.wants_melee) ∧
    AllNone (fun c => c.equipped) (loadComp (fun c v2 => { c with wants_melee := some v2 }) (convRef WantsToMelee.mk) v data.wants_melee) ∧
    AllNone (fun c => c.melee_power_bonus) (loadComp (fun c v2 => { c with wants_melee := some v2 }) (convRef WantsToMelee.mk) v data.wants_melee) ∧
    AllNone (fun c => c.defense_bonus) (loadComp (fun c v2 => { c with wants_melee := some v2 }) (convRef WantsToMelee.mk) v data.wants_melee) ∧
    AllNone (fun c => c.wants_to_remove) (loadComp (fun c v2 => { c with wants_melee := some v2 }) (convRef WantsToMelee.mk) v data.wants_melee) ∧
    AllNone (fun c => c.particle_lifetime) (loadComp (fun c v2 => { c with wants_melee := some v2 }) (convRef WantsToMelee.mk) v data.wants_melee) ∧
    AllNone (fun c => c.hunger_clock) (loadComp (fun c v2 => { c with wants_melee := some v2 }) (convRef WantsToMelee.mk) v data.wants_melee) ∧
    AllNone (fun c => c.provides_food) (loadComp (fun c v2 => { c with wants_melee := some v2 }) (convRef WantsToMelee.mk) v data.wants_melee) := by
  obtain ⟨hI2, hle2, hfr2, hklx⟩ := loadComp_struct (fun c v2 => { c with wants_melee := some v2 }) (convRef WantsToMelee.mk) A A
    (fun c a => rfl) (convOK_ref A WantsToMelee.mk) data.wants_melee _ hI hA
  have hfvk := loadComp_est (fun c v2 => { c with wants_melee := some v2 }) (fun c => c.wants_melee) (convRef WantsToMelee.mk) A A
    (RRef WantsToMelee.mk) (convOK_ref A WantsToMelee.mk) (fun v2 b hIv hAb => rval_ref WantsToMelee.mk v2 b hIv)
    (fun va vb a b hle h => RRef_mono WantsToMelee.mk va vb a b hle h) (fun c a => rfl) (fun c a => rfl) (fun m => rfl)
    data.wants_melee _ hI hkeys hA hN10
  obtain ⟨hoF1, hnF1⟩ := loadComp_obs (fun c v2 => { c with wants_melee := some v2 }) (convRef WantsToMelee.mk) (fun c => c.position) A A
    (fun c a => rfl) (convOK_ref A WantsToMelee.mk) (fun c a => rfl) (fun m => rfl) data.wants_melee _ hI hA
  have hfv1b := FieldVals_mono (fun c => c.position) (RPure id) data.positions hle2
    (fun a b h => h)
    (fun e he hn => let ⟨m, h1, h2, _⟩ := hfr2 e he hn; ⟨m, h1, h2⟩)
    hoF1 hnF1 hkl1 hfv1
  have hkl1b := KeysLive_mono hle2 hkl1
  obtain ⟨hoF2, hnF2⟩ := loadComp_obs (fun c v2 => { c with wants_melee := some v2 }) (convRef WantsToMelee.mk) (fun c => c.renderable) A A
    (fun c a => rfl) (convOK_ref A WantsToMelee.mk) (fun c a => rfl) (fun m => rfl) data.wants_melee _ hI hA
  have hfv2b := FieldVals_mono (fun c => c.renderable) (RPure id) data.renderables hle2
    (fun a b h => h)
    (fun e he hn => let ⟨m, h1, h2, _⟩ := hfr2 e he hn; ⟨m, h1, h2⟩)
    hoF2 hnF2 hkl2 hfv2
  have hkl2b := KeysLive_mono hle2 hkl2
  obtain ⟨hoF3, hnF3⟩ := loadComp_obs (fun c v2 => { c with wants_melee := some v2 }) (convRef WantsToMelee.mk) (fun c => c.player) A A
    (fun c a => rfl) (convOK_ref A WantsToMelee.mk) (fun c a => rfl) (fun m => rfl) data.wants_melee _ hI hA
  have hfv3b := FieldVals_mono (fun c => c.player) (RPure id) data.players hle2
    (fun a b h => h)
    (fun e he hn => let ⟨m, h1, h2, _⟩ := hfr2 e he hn; ⟨m, h1, h2⟩)
    hoF3 hnF3 hkl3 hfv3
  have hkl3b := KeysLive_mono hle2 hkl3
  obtain ⟨hoF4, hnF4⟩ := loadComp_obs (fun c v2 => { c with wants_melee := some v2 }) (convRef WantsToMelee.mk) (fun c => c.viewshed) A A
    (fun c a => rfl) (convOK_ref A WantsToMelee.mk) (fun c a => rfl) (fun m => rfl) data.wants_melee _ hI hA
  have hfv4b := FieldVals_mono (fun c => c.viewshed) (RPure id) data.viewsheds hle2
    (fun a b h => h)
    (fun e he hn => let ⟨m, h1, h2, _⟩ := hfr2 e he hn; ⟨m, h1, h2⟩)
    hoF4 hnF4 hkl4 hfv4
  have hkl4b := KeysLive_mono hle2 hkl4
  obtain ⟨hoF5, hnF5⟩ := loadComp_obs (fun c v2 => { c with wants_melee := some v2 }) (convRef WantsToMelee.mk) (fun c => c.monster) A A
    (fun c a => rfl) (convOK_ref A WantsToMelee.mk) (fun c a => rfl) (fun m => rfl) data.wants_melee _ hI hA
  have hfv5b := FieldVals_mono (fun c => c.monster) (RPure id) data.monsters hle2
    (fun a b h => h)
    (fun e he hn => let ⟨m, h1, h2, _⟩ := hfr2 e he hn; ⟨m, h1, h2⟩)
    hoF5 hnF5 hkl5 hfv5
  have hkl5b := KeysLive_mono hle2 hkl5
  obtain ⟨hoF6, hnF6⟩ := loadComp_obs (fun c v2 => { c with wants_melee := some v2 }) (convRef WantsToMelee.mk) (fun c => c.name) A A
    (fun c a => rfl) (convOK_ref A WantsToMelee.mk) (fun c a => rfl) (fun m => rfl) data.wants_melee _ hI hA
  have hfv6b := FieldVals_mono (fun c => c.name) (RPure id) data.names hle2
    (fun a b h => h)
    (fun e he hn => let ⟨m, h1, h2, _⟩ := hfr2 e he hn; ⟨m, h1, h2⟩)
    hoF6 hnF6 hkl6 hfv6
  have hkl6b := KeysLive_mono hle2 hkl6
  obtain ⟨hoF7, hnF7⟩ := loadComp_obs (fun c v2 => { c with wants_melee := some v2 }) (convRef WantsToMelee.mk) (fun c => c.blocks_tile) A A
    (fun c a => rfl) (convOK_ref A WantsToMelee.mk) (fun c a => rfl) (fun m => rfl) data.wants_melee _ hI hA
  have hfv7b := FieldVals_mono (fun c => c.blocks_tile) (RPure id) data.blocks_tile hle2
    (fun a b h => h)
    (fun e he hn => let ⟨m, h1, h2, _⟩ := hfr2 e he hn; ⟨m, h1, h2⟩)
    hoF7 hnF7 hkl7 hfv7
  have hkl7b := KeysLive_mono hle2 hkl7
  obtain ⟨hoF8, hnF8⟩ := loadComp_obs (fun c v2 => { c with wants_melee := some v2 }) (convRef WantsToMelee.mk) (fun c => c.combat_stats) A A
    (fun c a => rfl) (convOK_ref A WantsToMelee.mk) (fun c a => rfl) (fun m => rfl) data.wants_melee _ hI hA
  have hfv8b := FieldVals_mono (fun c => c.combat_stats) (RPure id) data.combat_stats hle2
    (fun a b h => h)
    (fun e he hn => let ⟨m, h1, h2, _⟩ := hfr2 e he hn; ⟨m, h1, h2⟩)
    hoF8 hnF8 hkl8 hfv8
  have hkl8b := KeysLive_mono hle2 hkl8
  obtain ⟨hoF9, hnF9⟩ := loadComp_obs (fun c v2 => { c with wants_melee := some v2 }) (convRef WantsToMelee.mk) (fun c => c.suffer_damage) A A
    (fun c a => rfl) (convOK_ref A WantsToMelee.mk) (fun c a => rfl) (fun m => rfl) data.wants_melee _ hI hA
  have hfv9b := FieldVals_mono (fun c => c.suffer_damage) (RPure id) data.suffer_damage hle2
    (fun a b h => h)
    (fun e he hn => let ⟨m, h1, h2, _⟩ := hfr2 e he hn; ⟨m, h1, h2⟩)
    hoF9 hnF9 hkl9 hfv9
  have hkl9b := KeysLive_mono hle2 hkl9
  obtain ⟨hoF11, hnF11⟩ := loadComp_obs (fun c v2 => { c with wants_melee := some v2 }) (convRef WantsToMelee.mk) (fun c => c.item) A A
    (fun c a => rfl) (convOK_ref A WantsToMelee.mk) (fun c a => rfl) (fun m => rfl) data.wants_melee _ hI hA
  have hN11b := AllNone_mono (fun c => c.item) _ _ hoF11 hnF11 hN11
  obtain ⟨hoF12, hnF12⟩ := loadComp_obs (fun c v2 => { c with wants_melee := some v2 }) (convRef WantsToMelee.mk) (fun c => c.consumable) A A
    (fun c a => rfl) (convOK_ref A WantsToMelee.mk) (fun c a => rfl) (fun m => rfl) data.wants_melee _ hI hA
  have hN12b := AllNone_mono (fun c => c.consumable) _ _ hoF12 hnF12 hN12
  obtain ⟨hoF13, hnF13⟩ := loadComp_obs (fun c v2 => { c with wants_melee := some v2 }) (convRef WantsToMelee.mk) (fun c => c.ranged) A A
    (fun c a => rfl) (convOK_ref A WantsToMelee.mk) (fun c a => rfl) (fun m => rfl) data.wants_melee _ hI hA
  have hN13b := AllNone_mono (fun c => c.ranged) _ _ hoF13 hnF13 hN13
  obtain ⟨hoF14, hnF14⟩ := loadComp_obs (fun c v2 => { c with wants_melee := some v2 }) (convRef WantsToMelee.mk) (fun c => c.inflicts_damage) A A
    (fun c a => rfl) (convOK_ref A WantsToMelee.mk) (fun c a => rfl) (fun m => rfl) data.wants_melee _ hI hA
  have hN14b := AllNone_mono (fun c => c.inflicts_damage) _ _ hoF14 hnF14 hN14
  obtain ⟨hoF15, hnF15⟩ := loadComp_obs (fun c v2 => { c with wants_melee := some v2 }) (convRef WantsToMelee.mk) (fun c => c.area_of_effect) A A
    (fun c a => rfl) (convOK_ref A WantsToMelee.mk) (fun c a => rfl) (fun m => rfl) data.wants_melee _ hI hA
  have hN15b := AllNone_mono (fun c => c.area_of_effect) _ _ hoF15 hnF15 hN15
  obtain ⟨hoF16, hnF16⟩ := loadComp_obs (fun c v2 => { c with wants_melee := some v2 }) (convRef WantsToMelee.mk) (fun c => c.confusion) A A
    (fun c a => rfl) (convOK_ref A WantsToMelee.mk) (fun c a => rfl) (fun m => rfl) data.wants_melee _ hI hA
  have hN16b := AllNone_mono (fun c => c.confusion) _ _ hoF16 hnF16 hN16
  obtain ⟨hoF17, hnF17⟩ := loadComp_obs (fun c v2 => { c with wants_melee := some v2 }) (convRef WantsToMelee.mk) (fun c => c.provides_healing) A A
    (fun c a => rfl) (convOK_ref A WantsToMelee.mk) (fun c a => rfl) (fun m => rfl) data.wants_melee _ hI hA
  have hN17b := AllNone_mono (fun c => c.provides_healing) _ _ hoF17 hnF17 hN17
  obtain ⟨hoF18, hnF18⟩ := loadComp_obs (fun c v2 => { c with wants_melee := some v2 }) (convRef WantsToMelee.mk) (fun c => c.in_backpack) A A
    (fun c a => rfl) (convOK_ref A WantsToMelee.mk) (fun c a => rfl) (fun m => rfl) data.wants_melee _ hI hA
  have hN18b := AllNone_mono (fun c => c.in_backpack) _ _ hoF18 hnF18 hN18
  obtain ⟨hoF19, hnF19⟩ := loadComp_obs (fun c v2 => { c with wants_melee := some v2 }) (convRef WantsToMelee.mk) (fun c => c.wants_to_pickup) A A
    (fun c a => rfl) (convOK_ref A WantsToMelee.mk) (fun c a => rfl) (fun m => rfl) data.wants_melee _ hI hA
  have hN19b := AllNone_mono (fun c => c.wants_to_pickup) _ _ hoF19 hnF19 hN19
  obtain ⟨hoF20, hnF20⟩ := loadComp_obs (fun c v2 => { c with wants_melee := some v2 }) (convRef WantsToMelee.mk) (fun c => c.wants_to_use) A A
    (fun c a => rfl) (convOK_ref A WantsToMelee.mk) (fun c a => rfl) (fun m => rfl) data.wants_melee _ hI hA
  have hN20b := AllNone_mono (fun c => c.wants_to_use) _ _ hoF20 hnF20 hN20
  obtain ⟨hoF21, hnF21⟩ := loadComp_obs (fun c v2 => { c with wants_melee := some v2 }) (convRef WantsToMelee.mk) (fun c => c.wants_to_drop) A A
    (fun c a => rfl) (convOK_ref A WantsToMelee.mk) (fun c a => rfl) (fun m => rfl) data.wants_melee _ hI hA
  have hN21b := AllNone_mono (fun c => c.wants_to_drop) _ _ hoF21 hnF21 hN21
  obtain ⟨hoF22, hnF22⟩ := loadComp_obs (fun c v2 => { c with wants_melee := some v2 }) (convRef WantsToMelee.mk) (fun c => c.serialization_helper) A A
    (fun c a => rfl) (convOK_ref A WantsToMelee.mk) (fun c a => rfl) (fun m => rfl) data.wants_melee _ hI hA
  have hN22b := AllNone_mono (fun c => c.serialization_helper) _ _ hoF22 hnF22 hN22
  obtain ⟨hoF23, hnF23⟩ := loadComp_obs (fun c v2 => { c with wants_melee := some v2 }) (convRef WantsToMelee.mk) (fun c => c.equippable) A A
    (fun c a => rfl) (convOK_ref A WantsToMelee.mk) (fun c a => rfl) (fun m => rfl) data.wants_melee _ hI hA
  have hN23b := AllNone_mono (fun c => c.equippable) _ _ hoF23 hnF23 hN23
  obtain ⟨hoF24, hnF24⟩ := loadComp_obs (fun c v2 => { c with wants_melee := some v2 }) (convRef WantsToMelee.mk) (fun c => c.equipped) A A
    (fun c a => rfl) (convOK_ref A WantsToMelee.mk) (fun c a => rfl) (fun m => rfl) data.wants_melee _ hI hA
  have hN24b := AllNone_mono (fun c => c.equipped) _ _ hoF24 hnF24 hN24
  obtain ⟨hoF25, hnF25⟩ := loadComp_obs (fun c v2 => { c with wants_melee := some v2 }) (convRef WantsToMelee.mk) (fun c => c.melee_power_bonus) A A
    (fun c a => rfl) (convOK_ref A WantsToMelee.mk) (fun c a => rfl) (fun m => rfl) data.wants_melee _ hI hA
  have hN25b := AllNone_mono (fun c => c.melee_power_bonus) _ _ hoF25 hnF25 hN25
  obtain ⟨hoF26, hnF26⟩ := loadComp_obs (fun c v2 => { c with wants_melee := some v2 }) (convRef WantsToMelee.mk) (fun c => c.defense_bonus) A A
    (fun c a => rfl) (convOK_ref A WantsToMelee.mk) (fun c a => rfl) (fun m => rfl) data.wants_melee _ hI hA
  have hN26b := AllNone_mono (fun c => c.defense_bonus) _ _ hoF26 hnF26 hN26
  obtain ⟨hoF27, hnF27⟩ := loadComp_obs (fun c v2 => { c with wants_melee := some v2 }) (convRef WantsToMelee.mk) (fun c => c.wants_to_remove) A A
    (fun c a => rfl) (convOK_ref A WantsToMelee.mk) (fun c a => rfl) (fun m => rfl) data.wants_melee _ hI hA
  have hN27b := AllNone_mono (fun c => c.wants_to_remove) _ _ hoF27 hnF27 hN27
  obtain ⟨hoF28, hnF28⟩ := loadComp_obs (fun c v2 => { c with wants_melee := some v2 }) (convRef WantsToMelee.mk) (fun c => c.particle_lifetime) A A
    (fun c a => rfl) (convOK_ref A WantsToMelee.mk) (fun c a => rfl) (fun m => rfl) data.wants_melee _ hI hA
  have hN28b := AllNone_mono (fun c => c.particle_lifetime) _ _ hoF28 hnF28 hN28
  obtain ⟨hoF29, hnF29⟩ := loadComp_obs (fun c v2 => { c with wants_melee := some v2 }) (convRef WantsToMelee.mk) (fun c => c.hunger_clock) A A
    (fun c a => rfl) (convOK_ref A WantsToMelee.mk) (fun c a => rfl) (fun m => rfl) data.wants_melee _ hI hA
  have hN29b := AllNone_mono (fun c => c.hunger_clock) _ _ hoF29 hnF29 hN29
  obtain ⟨hoF30, hnF30⟩ := loadComp_obs (fun c v2 => { c with wants_melee := some v2 }) (convRef WantsToMelee.mk) (fun c => c.provides_food) A A
    (fun c a => rfl) (convOK_ref A WantsToMelee.mk) (fun c a => rfl) (fun m => rfl) data.wants_melee _ hI hA
  have hN30b := AllNone_mono (fun c => c.provides_food) _ _ hoF30 hnF30 hN30
  have hMb := MarksIn_mono hle2 (fun e he hn => let ⟨m, h1, _, h3⟩ := hfr2 e he hn; ⟨m, h1, h3⟩) hM
  exact ⟨hI2, hMb, hkl1b, hfv1b, hkl2b, hfv2b, hkl3b, hfv3b, hkl4b, hfv4b, hkl5b, hfv5b, hkl6b, hfv6b, hkl7b, hfv7b, hkl8b, hfv8b, hkl9b, hfv9b, hklx, hfvk, hN11b, hN12b, hN13b, hN14b, hN15b, hN16b, hN17b, hN18b, hN19b, hN20b, hN21b, hN22b, hN23b, hN24b, hN25b, hN26b, hN27b, hN28b, hN29b, hN30b⟩

set_option maxHeartbeats 800000 in
/-- Deserialization pass 11 (item): it establishes its own list facts
and preserves those of the earlier passes. -/
lemma loadStage11 (A : Nat → Prop) (data : SaveData) (v : World)
    (hI : LoadInv v)
    (hkeys : ((data.items).map Prod.fst).Nodup)
    (hA : ∀ p ∈ data.items, A p.1)
    (hM : MarksIn A v)
    (hkl1 : KeysLive data.positions v)
    (hfv1 : FieldVals (fun c => c.position) (RPure id) data.positions v)
    (hkl2 : KeysLive data.renderables v)
    (hfv2 : FieldVals (fun c => c.renderable) (RPure id) data.renderables v)
    (hkl3 : KeysLive data.players v)
    (hfv3 : FieldVals (fun c => c.player) (RPure id) data.players v)
    (hkl4 : KeysLive data.viewsheds v)
    (hfv4 : FieldVals (fun c => c.viewshed) (RPure id) data.viewsheds v)
    (hkl5 : KeysLive data.monsters v)
    (hfv5 : FieldVals (fun c => c.monster) (RPure id) data.monsters v)
    (hkl6 : KeysLive data.names v)
    (hfv6 : FieldVals (fun c => c.name) (RPure id) data.names v)
    (hkl7 : KeysLive data.blocks_tile v)
    (hfv7 : FieldVals (fun c => c.blocks_tile) (RPure id) data.blocks_tile v)
    (hkl8 : KeysLive data.combat_stats v)
    (hfv8 : FieldVals (fun c => c.combat_stats) (RPure id) data.combat_stats v)
    (hkl9 : KeysLive data.suffer_damage v)
    (hfv9 : FieldVals (fun c => c.suffer_damage) (RPure id) data.suffer_damage v)
    (hkl10 : KeysLive data.wants_melee v)
    (hfv10 : FieldVals (fun c => c.wants_melee) (RRef WantsToMelee.mk) data.wants_melee v)
    (hN11 : AllNone (fun c => c.item) v)
    (hN12 : AllNone (fun c => c.consumable) v)
    (hN13 : AllNone (fun c => c.ranged) v)
    (hN14 : AllNone (fun c => c.inflicts_damage) v)
    (hN15 : AllNone (fun c => c.area_of_effect) v)
    (hN16 : AllNone (fun c => c.confusion) v)
    (hN17 : AllNone (fun c => c.provides_healing) v)
    (hN18 : AllNone (fun c => c.in_backpack) v)
    (hN19 : AllNone (fun c => c.wants_to_pickup) v)
    (hN20 : AllNone (fun c => c.wants_to_use) v)
    (hN21 : AllNone (fun c => c.wants_to_drop) v)
    (hN22 : AllNone (fun c => c.serialization_helper) v)
    (hN23 : AllNone (fun c => c.equippable) v)
    (hN24 : AllNone (fun c => c.equipped) v)
    (hN25 : AllNone (fun c => c.melee_power_bonus) v)
    (hN26 : AllNone (fun c => c.defense_bonus) v)
    (hN27 : AllNone (fun c => c.wants_to_remove) v)
    (hN28 : AllNone (fun c => c.particle_lifetime) v)
    (hN29 : AllNone (fun c => c.hunger_clock) v)
    (hN30 : AllNone (fun c => c.provides_food) v)
    :
    LoadInv (loadComp (fun c v2 => { c with item := some v2 }) convPure v data.items) ∧
    MarksIn A (loadComp (fun c v2 => { c with item := some v2 }) convPure v data.items) ∧
    KeysLive data.positions (loadComp (fun c v2 => { c with item := some v2 }) convPure v data.items) ∧
    FieldVals (fun c => c.position) (RPure id) data.positions (loadComp (fun c v2 => { c with item := some v2 }) convPure v data.items) ∧
    KeysLive data.renderables (loadComp (fun c v2 => { c with item := some v2 }) convPure v data.items) ∧
    FieldVals (fun c => c.renderable) (RPure id) data.renderables (loadComp (fun c v2 => { c with item := some v2 }) convPure v data.items) ∧
    KeysLive data.players (loadComp (fun c v2 => { c with item := some v2 }) convPure v data.items) ∧
    FieldVals (fun c => c.player) (RPure id) data.players (loadComp (fun c v2 => { c with item := some v2 }) convPure v data.items) ∧
    KeysLive data.viewsheds (loadComp (fun c v2 => { c with item := some v2 }) convPure v data.items) ∧
    FieldVals (fun c => c.viewshed) (RPure id) data.viewsheds (loadComp (fun c v2 => { c with item := some v2 }) convPure v data.items) ∧
    KeysLive data.monsters (loadComp (fun c v2 => { c with item := some v2 }) convPure v data.items) ∧
    FieldVals (fun c => c.monster) (RPure id) data.monsters (loadComp (fun c v2 => { c with item := some v2 }) convPure v data.items) ∧
    KeysLive data.names (loadComp (fun c v2 => { c with item := some v2 }) convPure v data.items) ∧
    FieldVals (fun c => c.name) (RPure id) data.names (loadComp (fun c v2 => { c with item := some v2 }) convPure v data.items) ∧
    KeysLive data.blocks_tile (loadComp (fun c v2 => { c with item := some v2 }) convPure v data.items) ∧
    FieldVals (fun c => c.blocks_tile) (RPure id) data.blocks_tile (loadComp (fun c v2 => { c with item := some v2 }) convPure v data.items) ∧
    KeysLive data.combat_stats (loadComp (fun c v2 => { c with item := some v2 }) convPure v data.items) ∧
    FieldVals (fun c => c.combat_stats) (RPure id) data.combat_stats (loadComp (fun c v2 => { c with item := some v2 }) convPure v data.items) ∧
    KeysLive data.suffer_damage (loadComp (fun c v2 => { c with item := some v2 }) convPure v data.items) ∧
    FieldVals (fun c => c.suffer_damage) (RPure id) data.suffer_damage (loadComp (fun c v2 => { c with item := some v2 }) convPure v data.items) ∧
    KeysLive data.wants_melee (loadComp (fun c v2 => { c with item := some v2 }) convPure v data.items) ∧
    FieldVals (fun c => c.wants_melee) (RRef WantsToMelee.mk) data.wants_melee (loadComp (fun c v2 => { c with item := some v2 }) convPure v data.items) ∧
    KeysLive data.items (loadComp (fun c v2 => { c with item := some v2 }) convPure v data.items) ∧
    FieldVals (fun c => c.item) (RPure id) data.items (loadComp (fun c v2 => { c with item := some v2 }) convPure v data.items) ∧
    AllNone (fun c => c.consumable) (loadComp (fun c v2 => { c with item := some v2 }) convPure v data.items) ∧
    AllNone (fun c => c.ranged) (loadComp (fun c v2 => { c with item := some v2 }) convPure v data.items) ∧
    AllNone (fun c => c.inflicts_damage) (loadComp (fun c v2 => { c with item := some v2 }) convPure v data.items) ∧
    AllNone (fun c => c.area_of_effect) (loadComp (fun c v2 => { c with item := some v2 }) convPure v data.items) ∧
    AllNone (fun c => c.confusion) (loadComp (fun c v2 => { c with item := some v2 }) convPure v data.items) ∧
    AllNone (fun c => c.provides_healing) (loadComp (fun c v2 => { c with item := some v2 }) convPure v data.items) ∧
    AllNone (fun c => c.in_backpack) (loadComp (fun c v2 => { c with item := some v2 }) convPure v data.items) ∧
    AllNone (fun c => c.wants_to_pickup) (loadComp (fun c v2 => { c with item := some v2 }) convPure v data.items) ∧
    AllNone (fun c => c.wants_to_use) (loadComp (fun c v2 => { c with item := some v2 }) convPure v data.items) ∧
    AllNone (fun c => c.wants_to_drop) (loadComp (fun c v2 => { c with item := some v2 }) convPure v data.items) ∧
    AllNone (fun c => c.serialization_helper) (loadComp (fun c v2 => { c with item := some v2 }) convPure v data.items) ∧
    AllNone (fun c => c.equippable) (loadComp (fun c v2 => { c with item := some v2 }) convPure v data.items) ∧
    AllNone (fun c => c.equipped) (loadComp (fun c v2 => { c with item := some v2 }) convPure v data.items) ∧
    AllNone (fun c => c.melee_power_bonus) (loadComp (fun c v2 => { c with item := some v2 }) convPure v data.items) ∧
    AllNone (fun c => c.defense_bonus) (loadComp (fun c v2 => { c with item := some v2 }) convPure v data.items) ∧
    AllNone (fun c => c.wants_to_remove) (loadComp (fun c v2 => { c with item := some v2 }) convPure v data.items) ∧
    AllNone (fun c => c.particle_lifetime) (loadComp (fun c v2 => { c with item := some v2 }) convPure v data.items) ∧
    AllNone (fun c => c.hunger_clock) (loadComp (fun c v2 => { c with item := some v2 }) convPure v data.items) ∧
    AllNone (fun c => c.provides_food) (loadComp (fun c v2 => { c with item := some v2 }) convPure v data.items) := by
  obtain ⟨hI2, hle2, hfr2, hklx⟩ := loadComp_struct (fun c v2 => { c with item := some v2 }) convPure A (fun _ => True)
    (fun c a => rfl) (convOK_pure A) data.items _ hI (fun p hp => ⟨hA p hp, trivial⟩)
  have hfvk := loadComp_est (fun c v2 => { c with item := some v2 }) (fun c => c.item) convPure A (fun _ => True)
    (RPure id) (convOK_pure A) (fun v2 b hIv hAb => rfl)
    (fun va vb a b hle h => h) (fun c a => rfl) (fun c a => rfl) (fun m => rfl)
    data.items _ hI hkeys (fun p hp => ⟨hA p hp, trivial⟩) hN11
  obtain ⟨hoF1, hnF1⟩ := loadComp_obs (fun c v2 => { c with item := some v2 }) convPure (fun c => c.position) A (fun _ => True)
    (fun c a => rfl) (convOK_pure A) (fun c a => rfl) (fun m => rfl) data.items _ hI (fun p hp => ⟨hA p hp, trivial⟩)
  have hfv1b := FieldVals_mono (fun c => c.position) (RPure id) data.positions hle2
    (fun a b h => h)
    (fun e he hn => let ⟨m, h1, h2, _⟩ := hfr2 e he hn; ⟨m, h1, h2⟩)
    hoF1 hnF1 hkl1 hfv1
  have hkl1b := KeysLive_mono hle2 hkl1
  obtain ⟨hoF2, hnF2⟩ := loadComp_obs (fun c v2 => { c with item := some v2 }) convPure (fun c => c.renderable) A (fun _ => True)
    (fun c a => rfl) (convOK_pure A) (fun c a => rfl) (fun m => rfl) data.items _ hI (fun p hp => ⟨hA p hp, trivial⟩)
  have hfv2b := FieldVals_mono (fun c => c.renderable) (RPure id) data.renderables hle2
    (fun a b h => h)
    (fun e he hn => let ⟨m, h1, h2, _⟩ := hfr2 e he hn; ⟨m, h1, h2⟩)
    hoF2 hnF2 hkl2 hfv2
  have hkl2b := KeysLive_mono hle2 hkl2
  obtain ⟨hoF3, hnF3⟩ := loadComp_obs (fun c v2 => { c with item := some v2 }) convPure (fun c => c.player) A (fun _ => True)
    (fun c a => rfl) (convOK_pure A) (fun c a => rfl) (fun m => rfl) data.items _ hI (fun p hp => ⟨hA p hp, trivial⟩)
  have hfv3b := FieldVals_mono (fun c => c.player) (RPure id) data.players hle2
    (fun a b h => h)
    (fun e he hn => let ⟨m, h1, h2, _⟩ := hfr2 e he hn; ⟨m, h1, h2⟩)
    hoF3 hnF3 hkl3 hfv3
  have hkl3b := KeysLive_mono hle2 hkl3
  obtain ⟨hoF4, hnF4⟩ := loadComp_obs (fun c v2 => { c with item := some v2 }) convPure (fun c => c.viewshed) A (fun _ => True)
    (fun c a => rfl) (convOK_pure A) (fun c a => rfl) (fun m => rfl) data.items _ hI (fun p hp => ⟨hA p hp, trivial⟩)
  have hfv4b := FieldVals_mono (fun c => c.viewshed) (RPure id) data.viewsheds hle2
    (fun a b h => h)
    (fun e he hn => let ⟨m, h1, h2, _⟩ := hfr2 e he hn; ⟨m, h1, h2⟩)
    hoF4 hnF4 hkl4 hfv4
  have hkl4b := KeysLive_mono hle2 hkl4
  obtain ⟨hoF5, hnF5⟩ := loadComp_obs (fun c v2 => { c with item := some v2 }) convPure (fun c => c.monster) A (fun _ => True)
    (fun c a => rfl) (convOK_pure A) (fun c a => rfl) (fun m => rfl) data.items _ hI (fun p hp => ⟨hA p hp, trivial⟩)
  have hfv5b := FieldVals_mono (fun c => c.monster) (RPure id) data.monsters hle2
    (fun a b h => h)
    (fun e he hn => let ⟨m, h1, h2, _⟩ := hfr2 e he hn; ⟨m, h1, h2⟩)
    hoF5 hnF5 hkl5 hfv5
  have hkl5b := KeysLive_mono hle2 hkl5
  obtain ⟨hoF6, hnF6⟩ := loadComp_obs (fun c v2 => { c with item := some v2 }) convPure (fun c => c.name) A (fun _ => True)
    (fun c a => rfl) (convOK_pure A) (fun c a => rfl) (fun m => rfl) data.items _ hI (fun p hp => ⟨hA p hp, trivial⟩)
  have hfv6b := FieldVals_mono (fun c => c.name) (RPure id) data.names hle2
    (fun a b h => h)
    (fun e he hn => let ⟨m, h1, h2, _⟩ := hfr2 e he hn; ⟨m, h1, h2⟩)
    hoF6 hnF6 hkl6 hfv6
  have hkl6b := KeysLive_mono hle2 hkl6
  obtain ⟨hoF7, hnF7⟩ := loadComp_obs (fun c v2 => { c with item := some v2 }) convPure (fun c => c.blocks_tile) A (fun _ => True)
    (fun c a => rfl) (convOK_pure A) (fun c a => rfl) (fun m => rfl) data.items _ hI (fun p hp => ⟨hA p hp, trivial⟩)
  have hfv7b := FieldVals_mono (fun c => c.blocks_tile) (RPure id) data.blocks_tile hle2
    (fun a b h => h)
    (fun e he hn => let ⟨m, h1, h2, _⟩ := hfr2 e he hn; ⟨m, h1, h2⟩)
    hoF7 hnF7 hkl7 hfv7
  have hkl7b := KeysLive_mono hle2 hkl7
  obtain ⟨hoF8, hnF8⟩ := loadComp_obs (fun c v2 => { c with item := some v2 }) convPure (fun c => c.combat_stats) A (fun _ => True)
    (fun c a => rfl) (convOK_pure A) (fun c a => rfl) (fun m => rfl) data.items _ hI (fun p hp => ⟨hA p hp, trivial⟩)
  have hfv8b := FieldVals_mono (fun c => c.combat_stats) (RPure id) data.combat_stats hle2
    (fun a b h => h)
    (fun e he hn => let ⟨m, h1, h2, _⟩ := hfr2 e he hn; ⟨m, h1, h2⟩)
    hoF8 hnF8 hkl8 hfv8
  have hkl8b := KeysLive_mono hle2 hkl8
  obtain ⟨hoF9, hnF9⟩ := loadComp_obs (fun c v2 => { c with item := some v2 }) convPure (fun c => c.suffer_damage) A (fun _ => True)
    (fun c a => rfl) (convOK_pure A) (fun c a => rfl) (fun m => rfl) data.items _ hI (fun p hp => ⟨hA p hp, trivial⟩)
  have hfv9b := FieldVals_mono (fun c => c.suffer_damage) (RPure id) data.suffer_damage hle2
    (fun a b h => h)
    (fun e he hn => let ⟨m, h1, h2, _⟩ := hfr2 e he hn; ⟨m, h1, h2⟩)
    hoF9 hnF9 hkl9 hfv9
  have hkl9b := KeysLive_mono hle2 hkl9
  obtain ⟨hoF10, hnF10⟩ := loadComp_obs (fun c v2 => { c with item := some v2 }) convPure (fun c => c.wants_melee) A (fun _ => True)
    (fun c a => rfl) (convOK_pure A) (fun c a => rfl) (fun m => rfl) data.items _ hI (fun p hp => ⟨hA p hp, trivial⟩)
  have hfv10b := FieldVals_mono (fun c => c.wants_melee) (RRef WantsToMelee.mk) data.wants_melee hle2
    (fun a b h => RRef_mono WantsToMelee.mk _ _ a b hle2 h)
    (fun e he hn => let ⟨m, h1, h2, _⟩ := hfr2 e he hn; ⟨m, h1, h2⟩)
    hoF10 hnF10 hkl10 hfv10
  have hkl10b := KeysLive_mono hle2 hkl10
  obtain ⟨hoF12, hnF12⟩ := loadComp_obs (fun c v2 => { c with item := some v2 }) convPure (fun c => c.consumable) A (fun _ => True)
    (fun c a => rfl) (convOK_pure A) (fun c a => rfl) (fun m => rfl) data.items _ hI (fun p hp => ⟨hA p hp, trivial⟩)
  have hN12b := AllNone_mono (fun c => c.consumable) _ _ hoF12 hnF12 hN12
  obtain ⟨hoF13, hnF13⟩ := loadComp_obs (fun c v2 => { c with item := some v2 }) convPure (fun c => c.ranged) A (fun _ => True)
    (fun c a => rfl) (convOK_pure A) (fun c a => rfl) (fun m => rfl) data.items _ hI (fun p hp => ⟨hA p hp, trivial⟩)
  have hN13b := AllNone_mono (fun c => c.ranged) _ _ hoF13 hnF13 hN13
  obtain ⟨hoF14, hnF14⟩ := loadComp_obs (fun c v2 => { c with item := some v2 }) convPure (fun c => c.inflicts_damage) A (fun _ => True)
    (fun c a => rfl) (convOK_pure A) (fun c a => rfl) (fun m => rfl) data.items _ hI (fun p hp => ⟨hA p hp, trivial⟩)
  have hN14b := AllNone_mono (fun c => c.inflicts_damage) _ _ hoF14 hnF14 hN14
  obtain ⟨hoF15, hnF15⟩ := loadComp_obs (fun c v2 => { c with item := some v2 }) convPure (fun c => c.area_of_effect) A (fun _ => True)
    (fun c a => rfl) (convOK_pure A) (fun c a => rfl) (fun m => rfl) data.items _ hI (fun p hp => ⟨hA p hp, trivial⟩)
  have hN15b := AllNone_mono (fun c => c.area_of_effect) _ _ hoF15 hnF15 hN15
  obtain ⟨hoF16, hnF16⟩ := loadComp_obs (fun c v2 => { c with item := some v2 }) convPure (fun c => c.confusion) A (fun _ => True)
    (fun c a => rfl) (convOK_pure A) (fun c a => rfl) (fun m => rfl) data.items _ hI (fun p hp => ⟨hA p hp, trivial⟩)
  have hN16b := AllNone_mono (fun c => c.confusion) _ _ hoF16 hnF16 hN16
  obtain ⟨hoF17, hnF17⟩ := loadComp_obs (fun c v2 => { c with item := some v2 }) convPure (fun c => c.provides_healing) A (fun _ => True)
    (fun c a => rfl) (convOK_pure A) (fun c a => rfl) (fun m => rfl) data.items _ hI (fun p hp => ⟨hA p hp, trivial⟩)
  have hN17b := AllNone_mono (fun c => c.provides_healing) _ _ hoF17 hnF17 hN17
  obtain ⟨hoF18, hnF18⟩ := loadComp_obs (fun c v2 => { c with item := some v2 }) convPure (fun c => c.in_backpack) A (fun _ => True)
    (fun c a => rfl) (convOK_pure A) (fun c a => rfl) (fun m => rfl) data.items _ hI (fun p hp => ⟨hA p hp, trivial⟩)
  have hN18b := AllNone_mono (fun c => c.in_backpack) _ _ hoF18 hnF18 hN18
  obtain ⟨hoF19, hnF19⟩ := loadComp_obs (fun c v2 => { c with item := some v2 }) convPure (fun c => c.wants_to_pickup) A (fun _ => True)
    (fun c a => rfl) (convOK_pure A) (fun c a => rfl) (fun m => rfl) data.items _ hI (fun p hp => ⟨hA p hp, trivial⟩)
  have hN19b := AllNone_mono (fun c => c.wants_to_pickup) _ _ hoF19 hnF19 hN19
  obtain ⟨hoF20, hnF20⟩ := loadComp_obs (fun c v2 => { c with item := some v2 }) convPure (fun c => c.wants_to_use) A (fun _ => True)
    (fun c a => rfl) (convOK_pure A) (fun c a => rfl) (fun m => rfl) data.items _ hI (fun p hp => ⟨hA p hp, trivial⟩)
  have hN20b := AllNone_mono (fun c => c.wants_to_use) _ _ hoF20 hnF20 hN20
  obtain ⟨hoF21, hnF21⟩ := loadComp_obs (fun c v2 => { c with item := some v2 }) convPure (fun c => c.wants_to_drop) A (fun _ => True)
    (fun c a => rfl) (convOK_pure A) (fun c a => rfl) (fun m => rfl) data.items _ hI (fun p hp => ⟨hA p hp, trivial⟩)
  have hN21b := AllNone_mono (fun c => c.wants_to_drop) _ _ hoF21 hnF21 hN21
  obtain ⟨hoF22, hnF22⟩ := loadComp_obs (fun c v2 => { c with item := some v2 }) convPure (fun c => c.serialization_helper) A (fun _ => True)
    (fun c a => rfl) (convOK_pure A) (fun c a => rfl) (fun m => rfl) data.items _ hI (fun p hp => ⟨hA p hp, trivial⟩)
  have hN22b := AllNone_mono (fun c => c.serialization_helper) _ _ hoF22 hnF22 hN22
  obtain ⟨hoF23, hnF23⟩ := loadComp_obs (fun c v2 => { c with item := some v2 }) convPure (fun c => c.equippable) A (fun _ => True)
    (fun c a => rfl) (convOK_pure A) (fun c a => rfl) (fun m => rfl) data.items _ hI (fun p hp => ⟨hA p hp, trivial⟩)
  have hN23b := AllNone_mono (fun c => c.equippable) _ _ hoF23 hnF23 hN23
  obtain ⟨hoF24, hnF24⟩ := loadComp_obs (fun c v2 => { c with item := some v2 }) convPure (fun c => c.equipped) A (fun _ => True)
    (fun c a => rfl) (convOK_pure A) (fun c a => rfl) (fun m => rfl) data.items _ hI (fun p hp => ⟨hA p hp, trivial⟩)
  have hN24b := AllNone_mono (fun c => c.equipped) _ _ hoF24 hnF24 hN24
  obtain ⟨hoF25, hnF25⟩ := loadComp_obs (fun c v2 => { c with item := some v2 }) convPure (fun c => c.melee_power_bonus) A (fun _ => True)
    (fun c a => rfl) (convOK_pure A) (fun c a => rfl) (fun m => rfl) data.items _ hI (fun p hp => ⟨hA p hp, trivial⟩)
  have hN25b := AllNone_mono (fun c => c.melee_power_bonus) _ _ hoF25 hnF25 hN25
  obtain ⟨hoF26, hnF26⟩ := loadComp_obs (fun c v2 => { c with item := some v2 }) convPure (fun c => c.defense_bonus) A (fun _ => True)
    (fun c a => rfl) (convOK_pure A) (fun c a => rfl) (fun m => rfl) data.items _ hI (fun p hp => ⟨hA p hp, trivial⟩)
  have hN26b := AllNone_mono (fun c => c.defense_bonus) _ _ hoF26 hnF26 hN26
  obtain ⟨hoF27, hnF27⟩ := loadComp_obs (fun c v2 => { c with item := some v2 }) convPure (fun c => c.wants_to_remove) A (fun _ => True)
    (fun c a => rfl) (convOK_pure A) (fun c a => rfl) (fun m => rfl) data.items _ hI (fun p hp => ⟨hA p hp, trivial⟩)
  have hN27b := AllNone_mono (fun c => c.wants_to_remove) _ _ hoF27 hnF27 hN27
  obtain ⟨hoF28, hnF28⟩ := loadComp_obs (fun c v2 => { c with item := some v2 }) convPure (fun c => c.particle_lifetime) A (fun _ => True)
    (fun c a => rfl) (convOK_pure A) (fun c a => rfl) (fun m => rfl) data.items _ hI (fun p hp => ⟨hA p hp, trivial⟩)
  have hN28b := AllNone_mono (fun c => c.particle_lifetime) _ _ hoF28 hnF28 hN28
  obtain ⟨hoF29, hnF29⟩ := loadComp_obs (fun c v2 => { c with item := some v2 }) convPure (fun c => c.hunger_clock) A (fun _ => True)
    (fun c a => rfl) (convOK_pure A) (fun c a => rfl) (fun m => rfl) data.items _ hI (fun p hp => ⟨hA p hp, trivial⟩)
  have hN29b := AllNone_mono (fun c => c.hunger_clock) _ _ hoF29 hnF29 hN29
  obtain ⟨hoF30, hnF30⟩ := loadComp_obs (fun c v2 => { c with item := some v2 }) convPure (fun c => c.provides_food) A (fun _ => True)
    (fun c a => rfl) (convOK_pure A) (fun c a => rfl) (fun m => rfl) data.items _ hI (fun p hp => ⟨hA p hp, trivial⟩)
  have hN30b := AllNone_mono (fun c => c.provides_food) _ _ hoF30 hnF30 hN30
  have hMb := MarksIn_mono hle2 (fun e he hn => let ⟨m, h1, _, h3⟩ := hfr2 e he hn; ⟨m, h1, h3⟩) hM
  exact ⟨hI2, hMb, hkl1b, hfv1b, hkl2b, hfv2b, hkl3b, hfv3b, hkl4b, hfv4b, hkl5b, hfv5b, hkl6b, hfv6b, hkl7b, hfv7b, hkl8b, hfv8b, hkl9b, hfv9b, hkl10b, hfv10b, hklx, hfvk, hN12b, hN13b, hN14b, hN15b, hN16b, hN17b, hN18b, hN19b, hN20b, hN21b, hN22b, hN23b, hN24b, hN25b, hN26b, hN27b, hN28b, hN29b, hN30b⟩

set_option maxHeartbeats 800000 in
/-- Deserialization pass 12 (consumable): it establishes its own list facts
and preserves those of the earlier passes. -/
lemma loadStage12 (A : Nat → Prop) (data : SaveData) (v : World)
    (hI : LoadInv v)
    (hkeys : ((data.consumables).map Prod.fst).Nodup)
    (hA : ∀ p ∈ data.consumables, A p.1)
    (hM : MarksIn A v)
    (hkl1 : KeysLive data.positions v)
    (hfv1 : FieldVals (fun c => c.position) (RPure id) data.positions v)
    (hkl2 : KeysLive data.renderables v)
    (hfv2 : FieldVals (fun c => c.renderable) (RPure id) data.renderables v)
    (hkl3 : KeysLive data.players v)
    (hfv3 : FieldVals (fun c => c.player) (RPure id) data.players v)
    (hkl4 : KeysLive data.viewsheds v)
    (hfv4 : FieldVals (fun c => c.viewshed) (RPure id) data.viewsheds v)
    (hkl5 : KeysLive data.monsters v)
    (hfv5 : FieldVals (fun c => c.monster) (RPure id) data.monsters v)
    (hkl6 : KeysLive data.names v)
    (hfv6 : FieldVals (fun c => c.name) (RPure id) data.names v)
    (hkl7 : KeysLive data.blocks_tile v)
    (hfv7 : FieldVals (fun c => c.blocks_tile) (RPure id) data.blocks_tile v)
    (hkl8 : KeysLive data.combat_stats v)
    (hfv8 : FieldVals (fun c => c.combat_stats) (RPure id) data.combat_stats v)
    (hkl9 : KeysLive data.suffer_damage v)
    (hfv9 : FieldVals (fun c => c.suffer_damage) (RPure id) data.suffer_damage v)
    (hkl10 : KeysLive data.wants_melee v)
    (hfv10 : FieldVals (fun c => c.wants_melee) (RRef WantsToMelee.mk) data.wants_melee v)
    (hkl11 : KeysLive data.items v)
    (hfv11 : FieldVals (fun c => c.item) (RPure id) data.items v)
    (hN12 : AllNone (fun c => c.consumable) v)
    (hN13 : AllNone (fun c => c.ranged) v)
    (hN14 : AllNone (fun c => c.inflicts_damage) v)
    (hN15 : AllNone (fun c => c.area_of_effect) v)
    (hN16 : AllNone (fun c => c.confusion) v)
    (hN17 : AllNone (fun c => c.provides_healing) v)
    (hN18 : AllNone (fun c => c.in_backpack) v)
    (hN19 : AllNone (fun c => c.wants_to_pickup) v)
    (hN20 : AllNone (fun c => c.wants_to_use) v)
    (hN21 : AllNone (fun c => c.wants_to_drop) v)
    (hN22 : AllNone (fun c => c.serialization_helper) v)
    (hN23 : AllNone (fun c => c.equippable) v)
    (hN24 : AllNone (fun c => c.equipped) v)
    (hN25 : AllNone (fun c => c.melee_power_bonus) v)
    (hN26 : AllNone (fun c => c.defense_bonus) v)
    (hN27 : AllNone (fun c => c.wants_to_remove) v)
    (hN28 : AllNone (fun c => c.particle_lifetime) v)
    (hN29 : AllNone (fun c => c.hunger_clock) v)
    (hN30 : AllNone (fun c => c.provides_food) v)
    :
    LoadInv (loadComp (fun c v2 => { c with consumable := some v2 }) convPure v data.consumables) ∧
    MarksIn A (loadComp (fun c v2 => { c with consumable := some v2 }) convPure v data.consumables) ∧
    KeysLive data.positions (loadComp (fun c v2 => { c with consumable := some v2 }) convPure v data.consumables) ∧
    FieldVals (fun c => c.position) (RPure id) data.positions (loadComp (fun c v2 => { c with consumable := some v2 }) convPure v data.consumables) ∧
    KeysLive data.renderables (loadComp (fun c v2 => { c with consumable := some v2 }) convPure v data.consumables) ∧
    FieldVals (fun c => c.renderable) (RPure id) data.renderables (loadComp (fun c v2 => { c with consumable := some v2 }) convPure v data.consumables) ∧
    KeysLive data.players (loadComp (fun c v2 => { c with consumable := some v2 }) convPure v data.consumables) ∧
    FieldVals (fun c => c.player) (RPure id) data.players (loadComp (fun c v2 => { c with consumable := some v2 }) convPure v data.consumables) ∧
    KeysLive data.viewsheds (loadComp (fun c v2 => { c with consumable := some v2 }) convPure v data.consumables) ∧
    FieldVals (fun c => c.viewshed) (RPure id) data.viewsheds (loadComp (fun c v2 => { c with consumable := some v2 }) convPure v data.consumables) ∧
    KeysLive data.monsters (loadComp (fun c v2 => { c with consumable := some v2 }) convPure v data.consumables) ∧
    FieldVals (fun c => c.monster) (RPure id) data.monsters (loadComp (fun c v2 => { c with consumable := some v2 }) convPure v data.consumables) ∧
    KeysLive data.names (loadComp (fun c v2 => { c with consumable := some v2 }) convPure v data.consumables) ∧
    FieldVals (fun c => c.name) (RPure id) data.names (loadComp (fun c v2 => { c with consumable := some v2 }) convPure v data.consumables) ∧
    KeysLive data.blocks_tile (loadComp (fun c v2 => { c with consumable := some v2 }) convPure v data.consumables) ∧
    FieldVals (fun c => c.blocks_tile) (RPure id) data.blocks_tile (loadComp (fun c v2 => { c with consumable := some v2 }) convPure v data.consumables) ∧
    KeysLive data.combat_stats (loadComp (fun c v2 => { c with consumable := some v2 }) convPure v data.consumables) ∧
    FieldVals (fun c => c.combat_stats) (RPure id) data.combat_stats (loadComp (fun c v2 => { c with consumable := some v2 }) convPure v data.consumables) ∧
    KeysLive data.suffer_damage (loadComp (fun c v2 => { c with consumable := some v2 }) convPure v data.consumables) ∧
    FieldVals (fun c => c.suffer_damage) (RPure id) data.suffer_damage (loadComp (fun c v2 => { c with consumable := some v2 }) convPure v data.consumables) ∧
    KeysLive data.wants_melee (loadComp (fun c v2 => { c with consumable := some v2 }) convPure v data.consumables) ∧
    FieldVals (fun c => c.wants_melee) (RRef WantsToMelee.mk) data.wants_melee (loadComp (fun c v2 => { c with consumable := some v2 }) convPure v data.consumables) ∧
    KeysLive data.items (loadComp (fun c v2 => { c with consumable := some v2 }) convPure v data.consumables) ∧
    FieldVals (fun c => c.item) (RPure id) data.items (loadComp (fun c v2 => { c with consumable := some v2 }) convPure v data.consumables) ∧
    KeysLive data.consumables (loadComp (fun c v2 => { c with consumable := some v2 }) convPure v data.consumables) ∧
    FieldVals (fun c => c.consumable) (RPure id) data.consumables (loadComp (fun c v2 => { c with consumable := some v2 }) convPure v data.consumables) ∧
    AllNone (fun c => c.ranged) (loadComp (fun c v2 => { c with consumable := some v2 }) convPure v data.consumables) ∧
    AllNone (fun c => c.inflicts_damage) (loadComp (fun c v2 => { c with consumable := some v2 }) convPure v data.consumables) ∧
    AllNone (fun c => c.area_of_effect) (loadComp (fun c v2 => { c with consumable := some v2 }) convPure v data.consumables) ∧
    AllNone (fun c => c.confusion) (loadComp (fun c v2 => { c with consumable := some v2 }) convPure v data.consumables) ∧
    AllNone (fun c => c.provides_healing) (loadComp (fun c v2 => { c with consumable := some v2 }) convPure v data.consumables) ∧
    AllNone (fun c => c.in_backpack) (loadComp (fun c v2 => { c with consumable := some v2 }) convPure v data.consumables) ∧
    AllNone (fun c => c.wants_to_pickup) (loadComp (fun c v2 => { c with consumable := some v2 }) convPure v data.consumables) ∧
    AllNone (fun c => c.wants_to_use) (loadComp (fun c v2 => { c with consumable := some v2 }) convPure v data.consumables) ∧
    AllNone (fun c => c.wants_to_drop) (loadComp (fun c v2 => { c with consumable := some v2 }) convPure v data.consumables) ∧
    AllNone (fun c => c.serialization_helper) (loadComp (fun c v2 => { c with consumable := some v2 }) convPure v data.consumables) ∧
    AllNone (fun c => c.equippable) (loadComp (fun c v2 => { c with consumable := some v2 }) convPure v data.consumables) ∧
    AllNone (fun c => c.equipped) (loadComp (fun c v2 => { c with consumable := some v2 }) convPure v data.consumables) ∧
    AllNone (fun c => c.melee_power_bonus) (loadComp (fun c v2 => { c with consumable := some v2 }) convPure v data.consumables) ∧
    AllNone (fun c => c.defense_bonus) (loadComp (fun c v2 => { c with consumable := some v2 }) convPure v data.consumables) ∧
    AllNone (fun c => c.wants_to_remove) (loadComp (fun c v2 => { c with consumable := some v2 }) convPure v data.consumables) ∧
    AllNone (fun c => c.particle_lifetime) (loadComp (fun c v2 => { c with consumable := some v2 }) convPure v data.consumables) ∧
    AllNone (fun c => c.hunger_clock) (loadComp (fun c v2 => { c with consumable := some v2 }) convPure v data.consumables) ∧
    AllNone (fun c => c.provides_food) (loadComp (fun c v2 => { c with consumable := some v2 }) convPure v data.consumables) := by
  obtain ⟨hI2, hle2, hfr2, hklx⟩ := loadComp_struct (fun c v2 => { c with consumable := some v2 }) convPure A (fun _ => True)
    (fun c a => rfl) (convOK_pure A) data.consumables _ hI (fun p hp => ⟨hA p hp, trivial⟩)
  have hfvk := loadComp_est (fun c v2 => { c with consumable := some v2 }) (fun c => c.consumable) convPure A (fun _ => True)
    (RPure id) (convOK_pure A) (fun v2 b hIv hAb => rfl)
    (fun va vb a b hle h => h) (fun c a => rfl) (fun c a => rfl) (fun m => rfl)
    data.consumables _ hI hkeys (fun p hp => ⟨hA p hp, trivial⟩) hN12
  obtain ⟨hoF1, hnF1⟩ := loadComp_obs (fun c v2 => { c with consumable := some v2 }) convPure (fun c => c.position) A (fun _ => True)
    (fun c a => rfl) (convOK_pure A) (fun c a => rfl) (fun m => rfl) data.consumables _ hI (fun p hp => ⟨hA p hp, trivial⟩)
  have hfv1b := FieldVals_mono (fun c => c.position) (RPure id) data.positions hle2
    (fun a b h => h)
    (fun e he hn => let ⟨m, h1, h2, _⟩ := hfr2 e he hn; ⟨m, h1, h2⟩)
    hoF1 hnF1 hkl1 hfv1
  have hkl1b := KeysLive_mono hle2 hkl1
  obtain ⟨hoF2, hnF2⟩ := loadComp_obs (fun c v2 => { c with consumable := some v2 }) convPure (fun c => c.renderable) A (fun _ => True)
    (fun c a => rfl) (convOK_pure A) (fun c a => rfl) (fun m => rfl) data.consumables _ hI (fun p hp => ⟨hA p hp, trivial⟩)
  have hfv2b := FieldVals_mono (fun c => c.renderable) (RPure id) data.renderables hle2
    (fun a b h => h)
    (fun e he hn => let ⟨m, h1, h2, _⟩ := hfr2 e he hn; ⟨m, h1, h2⟩)
    hoF2 hnF2 hkl2 hfv2
  have hkl2b := KeysLive_mono hle2 hkl2
  obtain ⟨hoF3, hnF3⟩ := loadComp_obs (fun c v2 => { c with consumable := some v2 }) convPure (fun c => c.player) A (fun _ => True)
    (fun c a => rfl) (convOK_pure A) (fun c a => rfl) (fun m => rfl) data.consumables _ hI (fun p hp => ⟨hA p hp, trivial⟩)
  have hfv3b := FieldVals_mono (fun c => c.player) (RPure id) data.players hle2
    (fun a b h => h)
    (fun e he hn => let ⟨m, h1, h2, _⟩ := hfr2 e he hn; ⟨m, h1, h2⟩)
    hoF3 hnF3 hkl3 hfv3
  have hkl3b := KeysLive_mono hle2 hkl3
  obtain ⟨hoF4, hnF4⟩ := loadComp_obs (fun c v2 => { c with consumable := some v2 }) convPure (fun c => c.viewshed) A (fun _ => True)
    (fun c a => rfl) (convOK_pure A) (fun c a => rfl) (fun m => rfl) data.consumables _ hI (fun p hp => ⟨hA p hp, trivial⟩)
  have hfv4b := FieldVals_mono (fun c => c.viewshed) (RPure id) data.viewsheds hle2
    (fun a b h => h)
    (fun e he hn => let ⟨m, h1, h2, _⟩ := hfr2 e he hn; ⟨m, h1, h2⟩)
    hoF4 hnF4 hkl4 hfv4
  have hkl4b := KeysLive_mono hle2 hkl4
  obtain ⟨hoF5, hnF5⟩ := loadComp_obs (fun c v2 => { c with consumable := some v2 }) convPure (fun c => c.monster) A (fun _ => True)
    (fun c a => rfl) (convOK_pure A) (fun c a => rfl) (fun m => rfl) data.consumables _ hI (fun p hp => ⟨hA p hp, trivial⟩)
  have hfv5b := FieldVals_mono (fun c => c.monster) (RPure id) data.monsters hle2
    (fun a b h => h)
    (fun e he hn => let ⟨m, h1, h2, _⟩ := hfr2 e he hn; ⟨m, h1, h2⟩)
    hoF5 hnF5 hkl5 hfv5
  have hkl5b := KeysLive_mono hle2 hkl5
  obtain ⟨hoF6, hnF6⟩ := loadComp_obs (fun c v2 => { c with consumable := some v2 }) convPure (fun c => c.name) A (fun _ => True)
    (fun c a => rfl) (convOK_pure A) (fun c a => rfl) (fun m => rfl) data.consumables _ hI (fun p hp => ⟨hA p hp, trivial⟩)
  have hfv6b := FieldVals_mono (fun c => c.name) (RPure id) data.names hle2
    (fun a b h => h)
    (fun e he hn => let ⟨m, h1, h2, _⟩ := hfr2 e he hn; ⟨m, h1, h2⟩)
    hoF6 hnF6 hkl6 hfv6
  have hkl6b := KeysLive_mono hle2 hkl6
  obtain ⟨hoF7, hnF7⟩ := loadComp_obs (fun c v2 => { c with consumable := some v2 }) convPure (fun c => c.blocks_tile) A (fun _ => True)
    (fun c a => rfl) (convOK_pure A) (fun c a => rfl) (fun m => rfl) data.consumables _ hI (fun p hp => ⟨hA p hp, trivial⟩)
  have hfv7b := FieldVals_mono (fun c => c.blocks_tile) (RPure id) data.blocks_tile hle2
    (fun a b h => h)
    (fun e he hn => let ⟨m, h1, h2, _⟩ := hfr2 e he hn; ⟨m, h1, h2⟩)
    hoF7 hnF7 hkl7 hfv7
  have hkl7b := KeysLive_mono hle2 hkl7
  obtain ⟨hoF8, hnF8⟩ := loadComp_obs (fun c v2 => { c with consumable := some v2 }) convPure (fun c => c.combat_stats) A (fun _ => True)
    (fun c a => rfl) (convOK_pure A) (fun c a => rfl) (fun m => rfl) data.consumables _ hI (fun p hp => ⟨hA p hp, trivial⟩)
  have hfv8b := FieldVals_mono (fun c => c.combat_stats) (RPure id) data.combat_stats hle2
    (fun a b h => h)
    (fun e he hn => let ⟨m, h1, h2, _⟩ := hfr2 e he hn; ⟨m, h1, h2⟩)
    hoF8 hnF8 hkl8 hfv8
  have hkl8b := KeysLive_mono hle2 hkl8
  obtain ⟨hoF9, hnF9⟩ := loadComp_obs (fun c v2 => { c with consumable := some v2 }) convPure (fun c => c.suffer_damage) A (fun _ => True)
    (fun c a => rfl) (convOK_pure A) (fun c a => rfl) (fun m => rfl) data.consumables _ hI (fun p hp => ⟨hA p hp, trivial⟩)
  have hfv9b := FieldVals_mono (fun c => c.suffer_damage) (RPure id) data.suffer_damage hle2
    (fun a b h => h)
    (fun e he hn => let ⟨m, h1, h2, _⟩ := hfr2 e he hn; ⟨m, h1, h2⟩)
    hoF9 hnF9 hkl9 hfv9
  have hkl9b := KeysLive_mono hle2 hkl9
  obtain ⟨hoF10, hnF10⟩ := loadComp_obs (fun c v2 => { c with consumable := some v2 }) convPure (fun c => c.wants_melee) A (fun _ => True)
    (fun c a => rfl) (convOK_pure A) (fun c a => rfl) (fun m => rfl) data.consumables _ hI (fun p hp => ⟨hA p hp, trivial⟩)
  have hfv10b := FieldVals_mono (fun c => c.wants_melee) (RRef WantsToMelee.mk) data.wants_melee hle2
    (fun a b h => RRef_mono WantsToMelee.mk _ _ a b hle2 h)
    (fun e he hn => let ⟨m, h1, h2, _⟩ := hfr2 e he hn; ⟨m, h1, h2⟩)
    hoF10 hnF10 hkl10 hfv10
  have hkl10b := KeysLive_mono hle2 hkl10
  obtain ⟨hoF11, hnF11⟩ := loadComp_obs (fun c v2 => { c with consumable := some v2 }) convPure (fun c => c.item) A (fun _ => True)
    (fun c a => rfl) (convOK_pure A) (fun c a => rfl) (fun m => rfl) data.consumables _ hI (fun p hp => ⟨hA p hp, trivial⟩)
  have hfv11b := FieldVals_mono (fun c => c.item) (RPure id) data.items hle2
    (fun a b h => h)
    (fun e he hn => let ⟨m, h1, h2, _⟩ := hfr2 e he hn; ⟨m, h1, h2⟩)
    hoF11 hnF11 hkl11 hfv11
  have hkl11b := KeysLive_mono hle2 hkl11
  obtain ⟨hoF13, hnF13⟩ := loadComp_obs (fun c v2 => { c with consumable := some v2 }) convPure (fun c => c.ranged) A (fun _ => True)
    (fun c a => rfl) (convOK_pure A) (fun c a => rfl) (fun m => rfl) data.consumables _ hI (fun p hp => ⟨hA p hp, trivial⟩)
  have hN13b := AllNone_mono (fun c => c.ranged) _ _ hoF13 hnF13 hN13
  obtain ⟨hoF14, hnF14⟩ := loadComp_obs (fun c v2 => { c with consumable := some v2 }) convPure (fun c => c.inflicts_damage) A (fun _ => True)
    (fun c a => rfl) (convOK_pure A) (fun c a => rfl) (fun m => rfl) data.consumables _ hI (fun p hp => ⟨hA p hp, trivial⟩)
  have hN14b := AllNone_mono (fun c => c.inflicts_damage) _ _ hoF14 hnF14 hN14
  obtain ⟨hoF15, hnF15⟩ := loadComp_obs (fun c v2 => { c with consumable := some v2 }) convPure (fun c => c.area_of_effect) A (fun _ => True)
    (fun c a => rfl) (convOK_pure A) (fun c a => rfl) (fun m => rfl) data.consumables _ hI (fun p hp => ⟨hA p hp, trivial⟩)
  have hN15b := AllNone_mono (fun c => c.area_of_effect) _ _ hoF15 hnF15 hN15
  obtain ⟨hoF16, hnF16⟩ := loadComp_obs (fun c v2 => { c with consumable := some v2 }) convPure (fun c => c.confusion) A (fun _ => True)
    (fun c a => rfl) (convOK_pure A) (fun c a => rfl) (fun m => rfl) data.consumables _ hI (fun p hp => ⟨hA p hp, trivial⟩)
  have hN16b := AllNone_mono (fun c => c.confusion) _ _ hoF16 hnF16 hN16
  obtain ⟨hoF17, hnF17⟩ := loadComp_obs (fun c v2 => { c with consumable := some v2 }) convPure (fun c => c.provides_healing) A (fun _ => True)
    (fun c a => rfl) (convOK_pure A) (fun c a => rfl) (fun m => rfl) data.consumables _ hI (fun p hp => ⟨hA p hp, trivial⟩)
  have hN17b := AllNone_mono (fun c => c.provides_healing) _ _ hoF17 hnF17 hN17
  obtain ⟨hoF18, hnF18⟩ := loadComp_obs (fun c v2 => { c with consumable := some v2 }) convPure (fun c => c.in_backpack) A (fun _ => True)
    (fun c a => rfl) (convOK_pure A) (fun c a => rfl) (fun m => rfl) data.consumables _ hI (fun p hp => ⟨hA p hp, trivial⟩)
  have hN18b := AllNone_mono (fun c => c.in_backpack) _ _ hoF18 hnF18 hN18
  obtain ⟨hoF19, hnF19⟩ := loadComp_obs (fun c v2 => { c with consumable := some v2 }) convPure (fun c => c.wants_to_pickup) A (fun _ => True)
    (fun c a => rfl) (convOK_pure A) (fun c a => rfl) (fun m => rfl) data.consumables _ hI (fun p hp => ⟨hA p hp, trivial⟩)
  have hN19b := AllNone_mono (fun c => c.wants_to_pickup) _ _ hoF19 hnF19 hN19
  obtain ⟨hoF20, hnF20⟩ := loadComp_obs (fun c v2 => { c with consumable := some v2 }) convPure (fun c => c.wants_to_use) A (fun _ => True)
    (fun c a => rfl) (convOK_pure A) (fun c a => rfl) (fun m => rfl) data.consumables _ hI (fun p hp => ⟨hA p hp, trivial⟩)
  have hN20b := AllNone_mono (fun c => c.wants_to_use) _ _ hoF20 hnF20 hN20
  obtain ⟨hoF21, hnF21⟩ := loadComp_obs (fun c v2 => { c with consumable := some v2 }) convPure (fun c => c.wants_to_drop) A (fun _ => True)
    (fun c a => rfl) (convOK_pure A) (fun c a => rfl) (fun m => rfl) data.consumables _ hI (fun p hp => ⟨hA p hp, trivial⟩)
  have hN21b := AllNone_mono (fun c => c.wants_to_drop) _ _ hoF21 hnF21 hN21
  obtain ⟨hoF22, hnF22⟩ := loadComp_obs (fun c v2 => { c with consumable := some v2 }) convPure (fun c => c.serialization_helper) A (fun _ => True)
    (fun c a => rfl) (convOK_pure A) (fun c a => rfl) (fun m => rfl) data.consumables _ hI (fun p hp => ⟨hA p hp, trivial⟩)
  have hN22b := AllNone_mono (fun c => c.serialization_helper) _ _ hoF22 hnF22 hN22
  obtain ⟨hoF23, hnF23⟩ := loadComp_obs (fun c v2 => { c with consumable := some v2 }) convPure (fun c => c.equippable) A (fun _ => True)
    (fun c a => rfl) (convOK_pure A) (fun c a => rfl) (fun m => rfl) data.consumables _ hI (fun p hp => ⟨hA p hp, trivial⟩)
  have hN23b := AllNone_mono (fun c => c.equippable) _ _ hoF23 hnF23 hN23
  obtain ⟨hoF24, hnF24⟩ := loadComp_obs (fun c v2 => { c with consumable := some v2 }) convPure (fun c => c.equipped) A (fun _ => True)
    (fun c a => rfl) (convOK_pure A) (fun c a => rfl) (fun m => rfl) data.consumables _ hI (fun p hp => ⟨hA p hp, trivial⟩)
  have hN24b := AllNone_mono (fun c => c.equipped) _ _ hoF24 hnF24 hN24
  obtain ⟨hoF25, hnF25⟩ := loadComp_obs (fun c v2 => { c with consumable := some v2 }) convPure (fun c => c.melee_power_bonus) A (fun _ => True)
    (fun c a => rfl) (convOK_pure A) (fun c a => rfl) (fun m => rfl) data.consumables _ hI (fun p hp => ⟨hA p hp, trivial⟩)
  have hN25b := AllNone_mono (fun c => c.melee_power_bonus) _ _ hoF25 hnF25 hN25
  obtain ⟨hoF26, hnF26⟩ := loadComp_obs (fun c v2 => { c with consumable := some v2 }) convPure (fun c => c.defense_bonus) A (fun _ => True)
    (fun c a => rfl) (convOK_pure A) (fun c a => rfl) (fun m => rfl) data.consumables _ hI (fun p hp => ⟨hA p hp, trivial⟩)
  have hN26b := AllNone_mono (fun c => c.defense_bonus) _ _ hoF26 hnF26 hN26
  obtain ⟨hoF27, hnF27⟩ := loadComp_obs (fun c v2 => { c with consumable := some v2 }) convPure (fun c => c.wants_to_remove) A (fun _ => True)
    (fun c a => rfl) (convOK_pure A) (fun c a => rfl) (fun m => rfl) data.consumables _ hI (fun p hp => ⟨hA p hp, trivial⟩)
  have hN27b := AllNone_mono (fun c => c.wants_to_remove) _ _ hoF27 hnF27 hN27
  obtain ⟨hoF28, hnF28⟩ := loadComp_obs (fun c v2 => { c with consumable := some v2 }) convPure (fun c => c.particle_lifetime) A (fun _ => True)
    (fun c a => rfl) (convOK_pure A) (fun c a => rfl) (fun m => rfl) data.consumables _ hI (fun p hp => ⟨hA p hp, trivial⟩)
  have hN28b := AllNone_mono (fun c => c.particle_lifetime) _ _ hoF28 hnF28 hN28
  obtain ⟨hoF29, hnF29⟩ := loadComp_obs (fun c v2 => { c with consumable := some v2 }) convPure (fun c => c.hunger_clock) A (fun _ => True)
    (fun c a => rfl) (convOK_pure A) (fun c a => rfl) (fun m => rfl) data.consumables _ hI (fun p hp => ⟨hA p hp, trivial⟩)
  have hN29b := AllNone_mono (fun c => c.hunger_clock) _ _ hoF29 hnF29 hN29
  obtain ⟨hoF30, hnF30⟩ := loadComp_obs (fun c v2 => { c with consumable := some v2 }) convPure (fun c => c.provides_food) A (fun _ => True)
    (fun c a => rfl) (convOK_pure A) (fun c a => rfl) (fun m => rfl) data.consumables _ hI (fun p hp => ⟨hA p hp, trivial⟩)
  have hN30b := AllNone_mono (fun c => c.provides_food) _ _ hoF30 hnF30 hN30
  have hMb := MarksIn_mono hle2 (fun e he hn => let ⟨m, h1, _, h3⟩ := hfr2 e he hn; ⟨m, h1, h3⟩) hM
  exact ⟨hI2, hMb, hkl1b, hfv1b, hkl2b, hfv2b, hkl3b, hfv3b, hkl4b, hfv4b, hkl5b, hfv5b, hkl6b, hfv6b, hkl7b, hfv7b, hkl8b, hfv8b, hkl9b, hfv9b, hkl10b, hfv10b, hkl11b, hfv11b, hklx, hfvk, hN13b, hN14b, hN15b, hN16b, hN17b, hN18b, hN19b, hN20b, hN21b, hN22b, hN23b, hN24b, hN25b, hN26b, hN27b, hN28b, hN29b, hN30b⟩

set_option maxHeartbeats 800000 in
/-- Deserialization pass 13 (ranged): it establishes its own list facts
and preserves those of the earlier passes. -/
lemma loadStage13 (A : Nat → Prop) (data : SaveData) (v : World)
    (hI : LoadInv v)
    (hkeys : ((data.ranged).map Prod.fst).Nodup)
    (hA : ∀ p ∈ data.ranged, A p.1)
    (hM : MarksIn A v)
    (hkl1 : KeysLive data.positions v)
    (hfv1 : FieldVals (fun c => c.position) (RPure id) data.positions v)
    (hkl2 : KeysLive data.renderables v)
    (hfv2 : FieldVals (fun c => c.renderable) (RPure id) data.renderables v)
    (hkl3 : KeysLive data.players v)
    (hfv3 : FieldVals (fun c => c.player) (RPure id) data.players v)
    (hkl4 : KeysLive data.viewsheds v)
    (hfv4 : FieldVals (fun c => c.viewshed) (RPure id) data.viewsheds v)
    (hkl5 : KeysLive data.monsters v)
    (hfv5 : FieldVals (fun c => c.monster) (RPure id) data.monsters v)
    (hkl6 : KeysLive data.names v)
    (hfv6 : FieldVals (fun c => c.name) (RPure id) data.names v)
    (hkl7 : KeysLive data.blocks_tile v)
    (hfv7 : FieldVals (fun c => c.blocks_tile) (RPure id) data.blocks_tile v)
    (hkl8 : KeysLive data.combat_stats v)
    (hfv8 : FieldVals (fun c => c.combat_stats) (RPure id) data.combat_stats v)
    (hkl9 : KeysLive data.suffer_damage v)
    (hfv9 : FieldVals (fun c => c.suffer_damage) (RPure id) data.suffer_damage v)
    (hkl10 : KeysLive data.wants_melee v)
    (hfv10 : FieldVals (fun c => c.wants_melee) (RRef WantsToMelee.mk) data.wants_melee v)
    (hkl11 : KeysLive data.items v)
    (hfv11 : FieldVals (fun c => c.item) (RPure id) data.items v)
    (hkl12 : KeysLive data.consumables v)
    (hfv12 : FieldVals (fun c => c.consumable) (RPure id) data.consumables v)
    (hN13 : AllNone (fun c => c.ranged) v)
    (hN14 : AllNone (fun c => c.inflicts_damage) v)
    (hN15 : AllNone (fun c => c.area_of_effect) v)
    (hN16 : AllNone (fun c => c.confusion) v)
    (hN17 : AllNone (fun c => c.provides_healing) v)
    (hN18 : AllNone (fun c => c.in_backpack) v)
    (hN19 : AllNone (fun c => c.wants_to_pickup) v)
    (hN20 : AllNone (fun c => c.wants_to_use) v)
    (hN21 : AllNone (fun c => c.wants_to_drop) v)
    (hN22 : AllNone (fun c => c.serialization_helper) v)
    (hN23 : AllNone (fun c => c.equippable) v)
    (hN24 : AllNone (fun c => c.equipped) v)
    (hN25 : AllNone (fun c => c.melee_power_bonus) v)
    (hN26 : AllNone (fun c => c.defense_bonus) v)
    (hN27 : AllNone (fun c => c.wants_to_remove) v)
    (hN28 : AllNone (fun c => c.particle_lifetime) v)
    (hN29 : AllNone (fun c => c.hunger_clock) v)
    (hN30 : AllNone (fun c => c.provides_food) v)
    :
    LoadInv (loadComp (fun c v2 => { c with ranged := some v2 }) convPure v data.ranged) ∧
    MarksIn A (loadComp (fun c v2 => { c with ranged := some v2 }) convPure v data.ranged) ∧
    KeysLive data.positions (loadComp (fun c v2 => { c with ranged := some v2 }) convPure v data.ranged) ∧
    FieldVals (fun c => c.position) (RPure id) data.positions (loadComp (fun c v2 => { c with ranged := some v2 }) convPure v data.ranged) ∧
    KeysLive data.renderables (loadComp (fun c v2 => { c with ranged := some v2 }) convPure v data.ranged) ∧
    FieldVals (fun c => c.renderable) (RPure id) data.renderables (loadComp (fun c v2 => { c with ranged := some v2 }) convPure v data.ranged) ∧
    KeysLive data.players (loadComp (fun c v2 => { c with ranged := some v2 }) convPure v data.ranged) ∧
    FieldVals (fun c => c.player) (RPure id) data.players (loadComp (fun c v2 => { c with ranged := some v2 }) convPure v data.ranged) ∧
    KeysLive data.viewsheds (loadComp (fun c v2 => { c with ranged := some v2 }) convPure v data.ranged) ∧
    FieldVals (fun c => c.viewshed) (RPure id) data.viewsheds (loadComp (fun c v2 => { c with ranged := some v2 }) convPure v data.ranged) ∧
    KeysLive data.monsters (loadComp (fun c v2 => { c with ranged := some v2 }) convPure v data.ranged) ∧
    FieldVals (fun c => c.monster) (RPure id) data.monsters (loadComp (fun c v2 => { c with ranged := some v2 }) convPure v data.ranged) ∧
    KeysLive data.names (loadComp (fun c v2 => { c with ranged := some v2 }) convPure v data.ranged) ∧
    FieldVals (fun c => c.name) (RPure id) data.names (loadComp (fun c v2 => { c with ranged := some v2 }) convPure v data.ranged) ∧
    KeysLive data.blocks_tile (loadComp (fun c v2 => { c with ranged := some v2 }) convPure v data.ranged) ∧
    FieldVals (fun c => c.blocks_tile) (RPure id) data.blocks_tile (loadComp (fun c v2 => { c with ranged := some v2 }) convPure v data.ranged) ∧
    KeysLive data.combat_stats (loadComp (fun c v2 => { c with ranged := some v2 }) convPure v data.ranged) ∧
    FieldVals (fun c => c.combat_stats) (RPure id) data.combat_stats (loadComp (fun c v2 => { c with ranged := some v2 }) convPure v data.ranged) ∧
    KeysLive data.suffer_damage (loadComp (fun c v2 => { c with ranged := some v2 }) convPure v data.ranged) ∧
    FieldVals (fun c => c.suffer_damage) (RPure id) data.suffer_damage (loadComp (fun c v2 => { c with ranged := some v2 }) convPure v data.ranged) ∧
    KeysLive data.wants_melee (loadComp (fun c v2 => { c with ranged := some v2 }) convPure v data.ranged) ∧
    FieldVals (fun c => c.wants_melee) (RRef WantsToMelee.mk) data.wants_melee (loadComp (fun c v2 => { c with ranged := some v2 }) convPure v data.ranged) ∧
    KeysLive data.items (loadComp (fun c v2 => { c with ranged := some v2 }) convPure v data.ranged) ∧
    FieldVals (fun c => c.item) (RPure id) data.items (loadComp (fun c v2 => { c with ranged := some v2 }) convPure v data.ranged) ∧
    KeysLive data.consumables (loadComp (fun c v2 => { c with ranged := some v2 }) convPure v data.ranged) ∧
    FieldVals (fun c => c.consumable) (RPure id) data.consumables (loadComp (fun c v2 => { c with ranged := some v2 }) convPure v data.ranged) ∧
    KeysLive data.ranged (loadComp (fun c v2 => { c with ranged := some v2 }) convPure v data.ranged) ∧
    FieldVals (fun c => c.ranged) (RPure id) data.ranged (loadComp (fun c v2 => { c with ranged := some v2 }) convPure v data.ranged) ∧
    AllNone (fun c => c.inflicts_damage) (loadComp (fun c v2 => { c with ranged := some v2 }) convPure v data.ranged) ∧
    AllNone (fun c => c.area_of_effect) (loadComp (fun c v2 => { c with ranged := some v2 }) convPure v data.ranged) ∧
    AllNone (fun c => c.confusion) (loadComp (fun c v2 => { c with ranged := some v2 }) convPure v data.ranged) ∧
    AllNone (fun c => c.provides_healing) (loadComp (fun c v2 => { c with ranged := some v2 }) convPure v data.ranged) ∧
    AllNone (fun c => c.in_backpack) (loadComp (fun c v2 => { c with ranged := some v2 }) convPure v data.ranged) ∧
    AllNone (fun c => c.wants_to_pickup) (loadComp (fun c v2 => { c with ranged := some v2 }) convPure v data.ranged) ∧
    AllNone (fun c => c.wants_to_use) (loadComp (fun c v2 => { c with ranged := some v2 }) convPure v data.ranged) ∧
    AllNone (fun c => c.wants_to_drop) (loadComp (fun c v2 => { c with ranged := some v2 }) convPure v data.ranged) ∧
    AllNone (fun c => c.serialization_helper) (loadComp (fun c v2 => { c with ranged := some v2 }) convPure v data.ranged) ∧
    AllNone (fun c => c.equippable) (loadComp (fun c v2 => { c with ranged := some v2 }) convPure v data.ranged) ∧
    AllNone (fun c => c.equipped) (loadComp (fun c v2 => { c with ranged := some v2 }) convPure v data.ranged) ∧
    AllNone (fun c => c.melee_power_bonus) (loadComp (fun c v2 => { c with ranged := some v2 }) convPure v data.ranged) ∧
    AllNone (fun c => c.defense_bonus) (loadComp (fun c v2 => { c with ranged := some v2 }) convPure v data.ranged) ∧
    AllNone (fun c => c.wants_to_remove) (loadComp (fun c v2 => { c with ranged := some v2 }) convPure v data.ranged) ∧
    AllNone (fun c => c.particle_lifetime) (loadComp (fun c v2 => { c with ranged := some v2 }) convPure v data.ranged) ∧
    AllNone (fun c => c.hunger_clock) (loadComp (fun c v2 => { c with ranged := some v2 }) convPure v data.ranged) ∧
    AllNone (fun c => c.provides_food) (loadComp (fun c v2 => { c with ranged := some v2 }) convPure v data.ranged) := by
  obtain ⟨hI2, hle2, hfr2, hklx⟩ := loadComp_struct (fun c v2 => { c with ranged := some v2 }) convPure A (fun _ => True)
    (fun c a => rfl) (convOK_pure A) data.ranged _ hI (fun p hp => ⟨hA p hp, trivial⟩)
  have hfvk := loadComp_est (fun c v2 => { c with ranged := some v2 }) (fun c => c.ranged) convPure A (fun _ => True)
    (RPure id) (convOK_pure A) (fun v2 b hIv hAb => rfl)
    (fun va vb a b hle h => h) (fun c a => rfl) (fun c a => rfl) (fun m => rfl)
    data.ranged _ hI hkeys (fun p hp => ⟨hA p hp, trivial⟩) hN13
  obtain ⟨hoF1, hnF1⟩ := loadComp_obs (fun c v2 => { c with ranged := some v2 }) convPure (fun c => c.position) A (fun _ => True)
    (fun c a => rfl) (convOK_pure A) (fun c a => rfl) (fun m => rfl) data.ranged _ hI (fun p hp => ⟨hA p hp, trivial⟩)
  have hfv1b := FieldVals_mono (fun c => c.position) (RPure id) data.positions hle2
    (fun a b h => h)
    (fun e he hn => let ⟨m, h1, h2, _⟩ := hfr2 e he hn; ⟨m, h1, h2⟩)
    hoF1 hnF1 hkl1 hfv1
  have hkl1b := KeysLive_mono hle2 hkl1
  obtain ⟨hoF2, hnF2⟩ := loadComp_obs (fun c v2 => { c with ranged := some v2 }) convPure (fun c => c.renderable) A (fun _ => True)
    (fun c a => rfl) (convOK_pure A) (fun c a => rfl) (fun m => rfl) data.ranged _ hI (fun p hp => ⟨hA p hp, trivial⟩)
  have hfv2b := FieldVals_mono (fun c => c.renderable) (RPure id) data.renderables hle2
    (fun a b h => h)
    (fun e he hn => let ⟨m, h1, h2, _⟩ := hfr2 e he hn; ⟨m, h1, h2⟩)
    hoF2 hnF2 hkl2 hfv2
  have hkl2b := KeysLive_mono hle2 hkl2
  obtain ⟨hoF3, hnF3⟩ := loadComp_obs (fun c v2 => { c with ranged := some v2 }) convPure (fun c => c.player) A (fun _ => True)
    (fun c a => rfl) (convOK_pure A) (fun c a => rfl) (fun m => rfl) data.ranged _ hI (fun p hp => ⟨hA p hp, trivial⟩)
  have hfv3b := FieldVals_mono (fun c => c.player) (RPure id) data.players hle2
    (fun a b h => h)
    (fun e he hn => let ⟨m, h1, h2, _⟩ := hfr2 e he hn; ⟨m, h1, h2⟩)
    hoF3 hnF3 hkl3 hfv3
  have hkl3b := KeysLive_mono hle2 hkl3
  obtain ⟨hoF4, hnF4⟩ := loadComp_obs (fun c v2 => { c with ranged := some v2 }) convPure (fun c => c.viewshed) A (fun _ => True)
    (fun c a => rfl) (convOK_pure A) (fun c a => rfl) (fun m => rfl) data.ranged _ hI (fun p hp => ⟨hA p hp, trivial⟩)
  have hfv4b := FieldVals_mono (fun c => c.viewshed) (RPure id) data.viewsheds hle2
    (fun a b h => h)
    (fun e he hn => let ⟨m, h1, h2, _⟩ := hfr2 e he hn; ⟨m, h1, h2⟩)
    hoF4 hnF4 hkl4 hfv4
  have hkl4b := KeysLive_mono hle2 hkl4
  obtain ⟨hoF5, hnF5⟩ := loadComp_obs (fun c v2 => { c with ranged := some v2 }) convPure (fun c => c.monster) A (fun _ => True)
    (fun c a => rfl) (convOK_pure A) (fun c a => rfl) (fun m => rfl) data.ranged _ hI (fun p hp => ⟨hA p hp, trivial⟩)
  have hfv5b := FieldVals_mono (fun c => c.monster) (RPure id) data.monsters hle2
    (fun a b h => h)
    (fun e he hn => let ⟨m, h1, h2, _⟩ := hfr2 e he hn; ⟨m, h1, h2⟩)
    hoF5 hnF5 hkl5 hfv5
  have hkl5b := KeysLive_mono hle2 hkl5
  obtain ⟨hoF6, hnF6⟩ := loadComp_obs (fun c v2 => { c with ranged := some v2 }) convPure (fun c => c.name) A (fun _ => True)
    (fun c a => rfl) (convOK_pure A) (fun c a => rfl) (fun m => rfl) data.ranged _ hI (fun p hp => ⟨hA p hp, trivial⟩)
  have hfv6b := FieldVals_mono (fun c => c.name) (RPure id) data.names hle2
    (fun a b h => h)
    (fun e he hn => let ⟨m, h1, h2, _⟩ := hfr2 e he hn; ⟨m, h1, h2⟩)
    hoF6 hnF6 hkl6 hfv6
  have hkl6b := KeysLive_mono hle2 hkl6
  obtain ⟨hoF7, hnF7⟩ := loadComp_obs (fun c v2 => { c with ranged := some v2 }) convPure (fun c => c.blocks_tile) A (fun _ => True)
    (fun c a => rfl) (convOK_pure A) (fun c a => rfl) (fun m => rfl) data.ranged _ hI (fun p hp => ⟨hA p hp, trivial⟩)
  have hfv7b := FieldVals_mono (fun c => c.blocks_tile) (RPure id) data.blocks_tile hle2
    (fun a b h => h)
    (fun e he hn => let ⟨m, h1, h2, _⟩ := hfr2 e he hn; ⟨m, h1, h2⟩)
    hoF7 hnF7 hkl7 hfv7
  have hkl7b := KeysLive_mono hle2 hkl7
  obtain ⟨hoF8, hnF8⟩ := loadComp_obs (fun c v2 => { c with ranged := some v2 }) convPure (fun c => c.combat_stats) A (fun _ => True)
    (fun c a => rfl) (convOK_pure A) (fun c a => rfl) (fun m => rfl) data.ranged _ hI (fun p hp => ⟨hA p hp, trivial⟩)
  have hfv8b := FieldVals_mono (fun c => c.combat_stats) (RPure id) data.combat_stats hle2
    (fun a b h => h)
    (fun e he hn => let ⟨m, h1, h2, _⟩ := hfr2 e he hn; ⟨m, h1, h2⟩)
    hoF8 hnF8 hkl8 hfv8
  have hkl8b := KeysLive_mono hle2 hkl8
  obtain ⟨hoF9, hnF9⟩ := loadComp_obs (fun c v2 => { c with ranged := some v2 }) convPure (fun c => c.suffer_damage) A (fun _ => True)
    (fun c a => rfl) (convOK_pure A) (fun c a => rfl) (fun m => rfl) data.ranged _ hI (fun p hp => ⟨hA p hp, trivial⟩)
  have hfv9b := FieldVals_mono (fun c => c.suffer_damage) (RPure id) data.suffer_damage hle2
    (fun a b h => h)
    (fun e he hn => let ⟨m, h1, h2, _⟩ := hfr2 e he hn; ⟨m, h1, h2⟩)
    hoF9 hnF9 hkl9 hfv9
  have hkl9b := KeysLive_mono hle2 hkl9
  obtain ⟨hoF10, hnF10⟩ := loadComp_obs (fun c v2 => { c with ranged := some v2 }) convPure (fun c => c.wants_melee) A (fun _ => True)
    (fun c a => rfl) (convOK_pure A) (fun c a => rfl) (fun m => rfl) data.ranged _ hI (fun p hp => ⟨hA p hp, trivial⟩)
  have hfv10b := FieldVals_mono (fun c => c.wants_melee) (RRef WantsToMelee.mk) data.wants_melee hle2
    (fun a b h => RRef_mono WantsToMelee.mk _ _ a b hle2 h)
    (fun e he hn => let ⟨m, h1, h2, _⟩ := hfr2 e he hn; ⟨m, h1, h2⟩)
    hoF10 hnF10 hkl10 hfv10
  have hkl10b := KeysLive_mono hle2 hkl10
  obtain ⟨hoF11, hnF11⟩ := loadComp_obs (fun c v2 => { c with ranged := some v2 }) convPure (fun c => c.item) A (fun _ => True)
    (fun c a => rfl) (convOK_pure A) (fun c a => rfl) (fun m => rfl) data.ranged _ hI (fun p hp => ⟨hA p hp, trivial⟩)
  have hfv11b := FieldVals_mono (fun c => c.item) (RPure id) data.items hle2
    (fun a b h => h)
    (fun e he hn => let ⟨m, h1, h2, _⟩ := hfr2 e he hn; ⟨m, h1, h2⟩)
    hoF11 hnF11 hkl11 hfv11
  have hkl11b := KeysLive_mono hle2 hkl11
  obtain ⟨hoF12, hnF12⟩ := loadComp_obs (fun c v2 => { c with ranged := some v2 }) convPure (fun c => c.consumable) A (fun _ => True)
    (fun c a => rfl) (convOK_pure A) (fun c a => rfl) (fun m => rfl) data.ranged _ hI (fun p hp => ⟨hA p hp, trivial⟩)
  have hfv12b := FieldVals_mono (fun c => c.consumable) (RPure id) data.consumables hle2
    (fun a b h => h)
    (fun e he hn => let ⟨m, h1, h2, _⟩ := hfr2 e he hn; ⟨m, h1, h2⟩)
    hoF12 hnF12 hkl12 hfv12
  have hkl12b := KeysLive_mono hle2 hkl12
  obtain ⟨hoF14, hnF14⟩ := loadComp_obs (fun c v2 => { c with ranged := some v2 }) convPure (fun c => c.inflicts_damage) A (fun _ => True)
    (fun c a => rfl) (convOK_pure A) (fun c a => rfl) (fun m => rfl) data.ranged _ hI (fun p hp => ⟨hA p hp, trivial⟩)
  have hN14b := AllNone_mono (fun c => c.inflicts_damage) _ _ hoF14 hnF14 hN14
  obtain ⟨hoF15, hnF15⟩ := loadComp_obs (fun c v2 => { c with ranged := some v2 }) convPure (fun c => c.area_of_effect) A (fun _ => True)
    (fun c a => rfl) (convOK_pure A) (fun c a => rfl) (fun m => rfl) data.ranged _ hI (fun p hp => ⟨hA p hp, trivial⟩)
  have hN15b := AllNone_mono (fun c => c.area_of_effect) _ _ hoF15 hnF15 hN15
  obtain ⟨hoF16, hnF16⟩ := loadComp_obs (fun c v2 => { c with ranged := some v2 }) convPure (fun c => c.confusion) A (fun _ => True)
    (fun c a => rfl) (convOK_pure A) (fun c a => rfl) (fun m => rfl) data.ranged _ hI (fun p hp => ⟨hA p hp, trivial⟩)
  have hN16b := AllNone_mono (fun c => c.confusion) _ _ hoF16 hnF16 hN16
  obtain ⟨hoF17, hnF17⟩ := loadComp_obs (fun c v2 => { c with ranged := some v2 }) convPure (fun c => c.provides_healing) A (fun _ => True)
    (fun c a => rfl) (convOK_pure A) (fun c a => rfl) (fun m => rfl) data.ranged _ hI (fun p hp => ⟨hA p hp, trivial⟩)
  have hN17b := AllNone_mono (fun c => c.provides_healing) _ _ hoF17 hnF17 hN17
  obtain ⟨hoF18, hnF18⟩ := loadComp_obs (fun c v2 => { c with ranged := some v2 }) convPure (fun c => c.in_backpack) A (fun _ => True)
    (fun c a => rfl) (convOK_pure A) (fun c a => rfl) (fun m => rfl) data.ranged _ hI (fun p hp => ⟨hA p hp, trivial⟩)
  have hN18b := AllNone_mono (fun c => c.in_backpack) _ _ hoF18 hnF18 hN18
  obtain ⟨hoF19, hnF19⟩ := loadComp_obs (fun c v2 => { c with ranged := some v2 }) convPure (fun c => c.wants_to_pickup) A (fun _ => True)
    (fun c a => rfl) (convOK_pure A) (fun c a => rfl) (fun m => rfl) data.ranged _ hI (fun p hp => ⟨hA p hp, trivial⟩)
  have hN19b := AllNone_mono (fun c => c.wants_to_pickup) _ _ hoF19 hnF19 hN19
  obtain ⟨hoF20, hnF20⟩ := loadComp_obs (fun c v2 => { c with ranged := some v2 }) convPure (fun c => c.wants_to_use) A (fun _ => True)
    (fun c a => rfl) (convOK_pure A) (fun c a => rfl) (fun m => rfl) data.ranged _ hI (fun p hp => ⟨hA p hp, trivial⟩)
  have hN20b := AllNone_mono (fun c => c.wants_to_use) _ _ hoF20 hnF20 hN20
  obtain ⟨hoF21, hnF21⟩ := loadComp_obs (fun c v2 => { c with ranged := some v2 }) convPure (fun c => c.wants_to_drop) A (fun _ => True)
    (fun c a => rfl) (convOK_pure A) (fun c a => rfl) (fun m => rfl) data.ranged _ hI (fun p hp => ⟨hA p hp, trivial⟩)
  have hN21b := AllNone_mono (fun c => c.wants_to_drop) _ _ hoF21 hnF21 hN21
  obtain ⟨hoF22, hnF22⟩ := loadComp_obs (fun c v2 => { c with ranged := some v2 }) convPure (fun c => c.serialization_helper) A (fun _ => True)
    (fun c a => rfl) (convOK_pure A) (fun c a => rfl) (fun m => rfl) data.ranged _ hI (fun p hp => ⟨hA p hp, trivial⟩)
  have hN22b := AllNone_mono (fun c => c.serialization_helper) _ _ hoF22 hnF22 hN22
  obtain ⟨hoF23, hnF23⟩ := loadComp_obs (fun c v2 => { c with ranged := some v2 }) convPure (fun c => c.equippable) A (fun _ => True)
    (fun c a => rfl) (convOK_pure A) (fun c a => rfl) (fun m => rfl) data.ranged _ hI (fun p hp => ⟨hA p hp, trivial⟩)
  have hN23b := AllNone_mono (fun c => c.equippable) _ _ hoF23 hnF23 hN23
  obtain ⟨hoF24, hnF24⟩ := loadComp_obs (fun c v2 => { c with ranged := some v2 }) convPure (fun c => c.equipped) A (fun _ => True)
    (fun c a => rfl) (convOK_pure A) (fun c a => rfl) (fun m => rfl) data.ranged _ hI (fun p hp => ⟨hA p hp, trivial⟩)
  have hN24b := AllNone_mono (fun c => c.equipped) _ _ hoF24 hnF24 hN24
  obtain ⟨hoF25, hnF25⟩ := loadComp_obs (fun c v2 => { c with ranged := some v2 }) convPure (fun c => c.melee_power_bonus) A (fun _ => True)
    (fun c a => rfl) (convOK_pure A) (fun c a => rfl) (fun m => rfl) data.ranged _ hI (fun p hp => ⟨hA p hp, trivial⟩)
  have hN25b := AllNone_mono (fun c => c.melee_power_bonus) _ _ hoF25 hnF25 hN25
  obtain ⟨hoF26, hnF26⟩ := loadComp_obs (fun c v2 => { c with ranged := some v2 }) convPure (fun c => c.defense_bonus) A (fun _ => True)
    (fun c a => rfl) (convOK_pure A) (fun c a => rfl) (fun m => rfl) data.ranged _ hI (fun p hp => ⟨hA p hp, trivial⟩)
  have hN26b := AllNone_mono (fun c => c.defense_bonus) _ _ hoF26 hnF26 hN26
  obtain ⟨hoF27, hnF27⟩ := loadComp_obs (fun c v2 => { c with ranged := some v2 }) convPure (fun c => c.wants_to_remove) A (fun _ => True)
    (fun c a => rfl) (convOK_pure A) (fun c a => rfl) (fun m => rfl) data.ranged _ hI (fun p hp => ⟨hA p hp, trivial⟩)
  have hN27b := AllNone_mono (fun c => c.wants_to_remove) _ _ hoF27 hnF27 hN27
  obtain ⟨hoF28, hnF28⟩ := loadComp_obs (fun c v2 => { c with ranged := some v2 }) convPure (fun c => c.particle_lifetime) A (fun _ => True)
    (fun c a => rfl) (convOK_pure A) (fun c a => rfl) (fun m => rfl) data.ranged _ hI (fun p hp => ⟨hA p hp, trivial⟩)
  have hN28b := AllNone_mono (fun c => c.particle_lifetime) _ _ hoF28 hnF28 hN28
  obtain ⟨hoF29, hnF29⟩ := loadComp_obs (fun c v2 => { c with ranged := some v2 }) convPure (fun c => c.hunger_clock) A (fun _ => True)
    (fun c a => rfl) (convOK_pure A) (fun c a => rfl) (fun m => rfl) data.ranged _ hI (fun p hp => ⟨hA p hp, trivial⟩)
  have hN29b := AllNone_mono (fun c => c.hunger_clock) _ _ hoF29 hnF29 hN29
  obtain ⟨hoF30, hnF30⟩ := loadComp_obs (fun c v2 => { c with ranged := some v2 }) convPure (fun c => c.provides_food) A (fun _ => True)
    (fun c a => rfl) (convOK_pure A) (fun c a => rfl) (fun m => rfl) data.ranged _ hI (fun p hp => ⟨hA p hp, trivial⟩)
  have hN30b := AllNone_mono (fun c => c.provides_food) _ _ hoF30 hnF30 hN30
  have hMb := MarksIn_mono hle2 (fun e he hn => let ⟨m, h1, _, h3⟩ := hfr2 e he hn; ⟨m, h1, h3⟩) hM
  exact ⟨hI2, hMb, hkl1b, hfv1b, hkl2b, hfv2b, hkl3b, hfv3b, hkl4b, hfv4b, hkl5b, hfv5b, hkl6b, hfv6b, hkl7b, hfv7b, hkl8b, hfv8b, hkl9b, hfv9b, hkl10b, hfv10b, hkl11b, hfv11b, hkl12b, hfv12b, hklx, hfvk, hN14b, hN15b, hN16b, hN17b, hN18b, hN19b, hN20b, hN21b, hN22b, hN23b, hN24b, hN25b, hN26b, hN27b, hN28b, hN29b, hN30b⟩

set_option maxHeartbeats 800000 in
/-- Deserialization pass 14 (inflicts_damage): it establishes its own list facts
and preserves those of the earlier passes. -/
lemma loadStage14 (A : Nat → Prop) (data : SaveData) (v : World)
    (hI : LoadInv v)
    (hkeys : ((data.inflicts_damage).map Prod.fst).Nodup)
    (hA : ∀ p ∈ data.inflicts_damage, A p.1)
    (hM : MarksIn A v)
    (hkl1 : KeysLive data.positions v)
    (hfv1 : FieldVals (fun c => c.position) (RPure id) data.positions v)
    (hkl2 : KeysLive data.renderables v)
    (hfv2 : FieldVals (fun c => c.renderable) (RPure id) data.renderables v)
    (hkl3 : KeysLive data.players v)
    (hfv3 : FieldVals (fun c => c.player) (RPure id) data.players v)
    (hkl4 : KeysLive data.viewsheds v)
    (hfv4 : FieldVals (fun c => c.viewshed) (RPure id) data.viewsheds v)
    (hkl5 : KeysLive data.monsters v)
    (hfv5 : FieldVals (fun c => c.monster) (RPure id) data.monsters v)
    (hkl6 : KeysLive data.names v)
    (hfv6 : FieldVals (fun c => c.name) (RPure id) data.names v)
    (hkl7 : KeysLive data.blocks_tile v)
    (hfv7 : FieldVals (fun c => c.blocks_tile) (RPure id) data.blocks_tile v)
    (hkl8 : KeysLive data.combat_stats v)
    (hfv8 : FieldVals (fun c => c.combat_stats) (RPure id) data.combat_stats v)
    (hkl9 : KeysLive data.suffer_damage v)
    (hfv9 : FieldVals (fun c => c.suffer_damage) (RPure id) data.suffer_damage v)
    (hkl10 : KeysLive data.wants_melee v)
    (hfv10 : FieldVals (fun c => c.wants_melee) (RRef WantsToMelee.mk) data.wants_melee v)
    (hkl11 : KeysLive data.items v)
    (hfv11 : FieldVals (fun c => c.item) (RPure id) data.items v)
    (hkl12 : KeysLive data.consumables v)
    (hfv12 : FieldVals (fun c => c.consumable) (RPure id) data.consumables v)
    (hkl13 : KeysLive data.ranged v)
    (hfv13 : FieldVals (fun c => c.ranged) (RPure id) data.ranged v)
    (hN14 : AllNone (fun c => c.inflicts_damage) v)
    (hN15 : AllNone (fun c => c.area_of_effect) v)
    (hN16 : AllNone (fun c => c.confusion) v)
    (hN17 : AllNone (fun c => c.provides_healing) v)
    (hN18 : AllNone (fun c => c.in_backpack) v)
    (hN19 : AllNone (fun c => c.wants_to_pickup) v)
    (hN20 : AllNone (fun c => c.wants_to_use) v)
    (hN21 : AllNone (fun c => c.wants_to_drop) v)
    (hN22 : AllNone (fun c => c.serialization_helper) v)
    (hN23 : AllNone (fun c => c.equippable) v)
    (hN24 : AllNone (fun c => c.equipped) v)
    (hN25 : AllNone (fun c => c.melee_power_bonus) v)
    (hN26 : AllNone (fun c => c.defense_bonus) v)
    (hN27 : AllNone (fun c => c.wants_to_remove) v)
    (hN28 : AllNone (fun c => c.particle_lifetime) v)
    (hN29 : AllNone (fun c => c.hunger_clock) v)
    (hN30 : AllNone (fun c => c.provides_food) v)
    :
    LoadInv (loadComp (fun c v2 => { c with inflicts_damage := some v2 }) convPure v data.inflicts_damage) ∧
    MarksIn A (loadComp (fun c v2 => { c with inflicts_damage := some v2 }) convPure v data.inflicts_damage) ∧
    KeysLive data.positions (loadComp (fun c v2 => { c with inflicts_damage := some v2 }) convPure v data.inflicts_damage) ∧
    FieldVals (fun c => c.position) (RPure id) data.positions (loadComp (fun c v2 => { c with inflicts_damage := some v2 }) convPure v data.inflicts_damage) ∧
    KeysLive data.renderables (loadComp (fun c v2 => { c with inflicts_damage := some v2 }) convPure v data.inflicts_damage) ∧
    FieldVals (fun c => c.renderable) (RPure id) data.renderables (loadComp (fun c v2 => { c with inflicts_damage := some v2 }) convPure v data.inflicts_damage) ∧
    KeysLive data.players (loadComp (fun c v2 => { c with inflicts_damage := some v2 }) convPure v data.inflicts_damage) ∧
    FieldVals (fun c => c.player) (RPure id) data.players (loadComp (fun c v2 => { c with inflicts_damage := some v2 }) convPure v data.inflicts_damage) ∧
    KeysLive data.viewsheds (loadComp (fun c v2 => { c with inflicts_damage := some v2 }) convPure v data.inflicts_damage) ∧
    FieldVals (fun c => c.viewshed) (RPure id) data.viewsheds (loadComp (fun c v2 => { c with inflicts_damage := some v2 }) convPure v data.inflicts_damage) ∧
    KeysLive data.monsters (loadComp (fun c v2 => { c with inflicts_damage := some v2 }) convPure v data.inflicts_damage) ∧
    FieldVals (fun c => c.monster) (RPure id) data.monsters (loadComp (fun c v2 => { c with inflicts_damage := some v2 }) convPure v data.inflicts_damage) ∧
    KeysLive data.names (loadComp (fun c v2 => { c with inflicts_damage := some v2 }) convPure v data.inflicts_damage) ∧
    FieldVals (fun c => c.name) (RPure id) data.names (loadComp (fun c v2 => { c with inflicts_damage := some v2 }) convPure v data.inflicts_damage) ∧
    KeysLive data.blocks_tile (loadComp (fun c v2 => { c with inflicts_damage := some v2 }) convPure v data.inflicts_damage) ∧
    FieldVals (fun c => c.blocks_tile) (RPure id) data.blocks_tile (loadComp (fun c v2 => { c with inflicts_damage := some v2 }) convPure v data.inflicts_damage) ∧
    KeysLive data.combat_stats (loadComp (fun c v2 => { c with inflicts_damage := some v2 }) convPure v data.inflicts_damage) ∧
    FieldVals (fun c => c.combat_stats) (RPure id) data.combat_stats (loadComp (fun c v2 => { c with inflicts_damage := some v2 }) convPure v data.inflicts_damage) ∧
    KeysLive data.suffer_damage (loadComp (fun c v2 => { c with inflicts_damage := some v2 }) convPure v data.inflicts_damage) ∧
    FieldVals (fun c => c.suffer_damage) (RPure id) data.suffer_damage (loadComp (fun c v2 => { c with inflicts_damage := some v2 }) convPure v data.inflicts_damage) ∧
    KeysLive data.wants_melee (loadComp (fun c v2 => { c with inflicts_damage := some v2 }) convPure v data.inflicts_damage) ∧
    FieldVals (fun c => c.wants_melee) (RRef WantsToMelee.mk) data.wants_melee (loadComp (fun c v2 => { c with inflicts_damage := some v2 }) convPure v data.inflicts_damage) ∧
    KeysLive data.items (loadComp (fun c v2 => { c with inflicts_damage := some v2 }) convPure v data.inflicts_damage) ∧
    FieldVals (fun c => c.item) (RPure id) data.items (loadComp (fun c v2 => { c with inflicts_damage := some v2 }) convPure v data.inflicts_damage) ∧
    KeysLive data.consumables (loadComp (fun c v2 => { c with inflicts_damage := some v2 }) convPure v data.inflicts_damage) ∧
    FieldVals (fun c => c.consumable) (RPure id) data.consumables (loadComp (fun c v2 => { c with inflicts_damage := some v2 }) convPure v data.inflicts_damage) ∧
    KeysLive data.ranged (loadComp (fun c v2 => { c with inflicts_damage := some v2 }) convPure v data.inflicts_damage) ∧
    FieldVals (fun c => c.ranged) (RPure id) data.ranged (loadComp (fun c v2 => { c with inflicts_damage := some v2 }) convPure v data.inflicts_damage) ∧
    KeysLive data.inflicts_damage (loadComp (fun c v2 => { c with inflicts_damage := some v2 }) convPure v data.inflicts_damage) ∧
    FieldVals (fun c => c.inflicts_damage) (RPure id) data.inflicts_damage (loadComp (fun c v2 => { c with inflicts_damage := some v2 }) convPure v data.inflicts_damage) ∧
    AllNone (fun c => c.area_of_effect) (loadComp (fun c v2 => { c with inflicts_damage := some v2 }) convPure v data.inflicts_damage) ∧
    AllNone (fun c => c.confusion) (loadComp (fun c v2 => { c with inflicts_damage := some v2 }) convPure v data.inflicts_damage) ∧
    AllNone (fun c => c.provides_healing) (loadComp (fun c v2 => { c with inflicts_damage := some v2 }) convPure v data.inflicts_damage) ∧
    AllNone (fun c => c.in_backpack) (loadComp (fun c v2 => { c with inflicts_damage := some v2 }) convPure v data.inflicts_damage) ∧
    AllNone (fun c => c.wants_to_pickup) (loadComp (fun c v2 => { c with inflicts_damage := some v2 }) convPure v data.inflicts_damage) ∧
    AllNone (fun c => c.wants_to_use) (loadComp (fun c v2 => { c with inflicts_damage := some v2 }) convPure v data.inflicts_damage) ∧
    AllNone (fun c => c.wants_to_drop) (loadComp (fun c v2 => { c with inflicts_damage := some v2 }) convPure v data.inflicts_damage) ∧
    AllNone (fun c => c.serialization_helper) (loadComp (fun c v2 => { c with inflicts_damage := some v2 }) convPure v data.inflicts_damage) ∧
    AllNone (fun c => c.equippable) (loadComp (fun c v2 => { c with inflicts_damage := some v2 }) convPure v data.inflicts_damage) ∧
    AllNone (fun c => c.equipped) (loadComp (fun c v2 => { c with inflicts_damage := some v2 }) convPure v data.inflicts_damage) ∧
    AllNone (fun c => c.melee_power_bonus) (loadComp (fun c v2 => { c with inflicts_damage := some v2 }) convPure v data.inflicts_damage) ∧
    AllNone (fun c => c.defense_bonus) (loadComp (fun c v2 => { c with inflicts_damage := some v2 }) convPure v data.inflicts_damage) ∧
    AllNone (fun c => c.wants_to_remove) (loadComp (fun c v2 => { c with inflicts_damage := some v2 }) convPure v data.inflicts_damage) ∧
    AllNone (fun c => c.particle_lifetime) (loadComp (fun c v2 => { c with inflicts_damage := some v2 }) convPure v data.inflicts_damage) ∧
    AllNone (fun c => c.hunger_clock) (loadComp (fun c v2 => { c with inflicts_damage := some v2 }) convPure v data.inflicts_damage) ∧
    AllNone (fun c => c.provides_food) (loadComp (fun c v2 => { c with inflicts_damage := some v2 }) convPure v data.inflicts_damage) := by
  obtain ⟨hI2, hle2, hfr2, hklx⟩ := loadComp_struct (fun c v2 => { c with inflicts_damage := some v2 }) convPure A (fun _ => True)
    (fun c a => rfl) (convOK_pure A) data.inflicts_damage _ hI (fun p hp => ⟨hA p hp, trivial⟩)
  have hfvk := loadComp_est (fun c v2 => { c with inflicts_damage := some v2 }) (fun c => c.inflicts_damage) convPure A (fun _ => True)
    (RPure id) (convOK_pure A) (fun v2 b hIv hAb => rfl)
    (fun va vb a b hle h => h) (fun c a => rfl) (fun c a => rfl) (fun m => rfl)
    data.inflicts_damage _ hI hkeys (fun p hp => ⟨hA p hp, trivial⟩) hN14
  obtain ⟨hoF1, hnF1⟩ := loadComp_obs (fun c v2 => { c with inflicts_damage := some v2 }) convPure (fun c => c.position) A (fun _ => True)
    (fun c a => rfl) (convOK_pure A) (fun c a => rfl) (fun m => rfl) data.inflicts_damage _ hI (fun p hp => ⟨hA p hp, trivial⟩)
  have hfv1b := FieldVals_mono (fun c => c.position) (RPure id) data.positions hle2
    (fun a b h => h)
    (fun e he hn => let ⟨m, h1, h2, _⟩ := hfr2 e he hn; ⟨m, h1, h2⟩)
    hoF1 hnF1 hkl1 hfv1
  have hkl1b := KeysLive_mono hle2 hkl1
  obtain ⟨hoF2, hnF2⟩ := loadComp_obs (fun c v2 => { c with inflicts_damage := some v2 }) convPure (fun c => c.renderable) A (fun _ => True)
    (fun c a => rfl) (convOK_pure A) (fun c a => rfl) (fun m => rfl) data.inflicts_damage _ hI (fun p hp => ⟨hA p hp, trivial⟩)
  have hfv2b := FieldVals_mono (fun c => c.renderable) (RPure id) data.renderables hle2
    (fun a b h => h)
    (fun e he hn => let ⟨m, h1, h2, _⟩ := hfr2 e he hn; ⟨m, h1, h2⟩)
    hoF2 hnF2 hkl2 hfv2
  have hkl2b := KeysLive_mono hle2 hkl2
  obtain ⟨hoF3, hnF3⟩ := loadComp_obs (fun c v2 => { c with inflicts_damage := some v2 }) convPure (fun c => c.player) A (fun _ => True)
    (fun c a => rfl) (convOK_pure A) (fun c a => rfl) (fun m => rfl) data.inflicts_damage _ hI (fun p hp => ⟨hA p hp, trivial⟩)
  have hfv3b := FieldVals_mono (fun c => c.player) (RPure id) data.players hle2
    (fun a b h => h)
    (fun e he hn => let ⟨m, h1, h2, _⟩ := hfr2 e he hn; ⟨m, h1, h2⟩)
    hoF3 hnF3 hkl3 hfv3
  have hkl3b := KeysLive_mono hle2 hkl3
  obtain ⟨hoF4, hnF4⟩ := loadComp_obs (fun c v2 => { c with inflicts_damage := some v2 }) convPure (fun c => c.viewshed) A (fun _ => True)
    (fun c a => rfl) (convOK_pure A) (fun c a => rfl) (fun m => rfl) data.inflicts_damage _ hI (fun p hp => ⟨hA p hp, trivial⟩)
  have hfv4b := FieldVals_mono (fun c => c.viewshed) (RPure id) data.viewsheds hle2
    (fun a b h => h)
    (fun e he hn => let ⟨m, h1, h2, _⟩ := hfr2 e he hn; ⟨m, h1, h2⟩)
    hoF4 hnF4 hkl4 hfv4
  have hkl4b := KeysLive_mono hle2 hkl4
  obtain ⟨hoF5, hnF5⟩ := loadComp_obs (fun c v2 => { c with inflicts_damage := some v2 }) convPure (fun c => c.monster) A (fun _ => True)
    (fun c a => rfl) (convOK_pure A) (fun c a => rfl) (fun m => rfl) data.inflicts_damage _ hI (fun p hp => ⟨hA p hp, trivial⟩)
  have hfv5b := FieldVals_mono (fun c => c.monster) (RPure id) data.monsters hle2
    (fun a b h => h)
    (fun e he hn => let ⟨m, h1, h2, _⟩ := hfr2 e he hn; ⟨m, h1, h2⟩)
    hoF5 hnF5 hkl5 hfv5
  have hkl5b := KeysLive_mono hle2 hkl5
  obtain ⟨hoF6, hnF6⟩ := loadComp_obs (fun c v2 => { c with inflicts_damage := some v2 }) convPure (fun c => c.name) A (fun _ => True)
    (fun c a => rfl) (convOK_pure A) (fun c a => rfl) (fun m => rfl) data.inflicts_damage _ hI (fun p hp => ⟨hA p hp, trivial⟩)
  have hfv6b := FieldVals_mono (fun c => c.name) (RPure id) data.names hle2
    (fun a b h => h)
    (fun e he hn => let ⟨m, h1, h2, _⟩ := hfr2 e he hn; ⟨m, h1, h2⟩)
    hoF6 hnF6 hkl6 hfv6
  have hkl6b := KeysLive_mono hle2 hkl6
  obtain ⟨hoF7, hnF7⟩ := loadComp_obs (fun c v2 => { c with inflicts_damage := some v2 }) convPure (fun c => c.blocks_tile) A (fun _ => True)
    (fun c a => rfl) (convOK_pure A) (fun c a => rfl) (fun m => rfl) data.inflicts_damage _ hI (fun p hp => ⟨hA p hp, trivial⟩)
  have hfv7b := FieldVals_mono (fun c => c.blocks_tile) (RPure id) data.blocks_tile hle2
    (fun a b h => h)
    (fun e he hn => let ⟨m, h1, h2, _⟩ := hfr2 e he hn; ⟨m, h1, h2⟩)
    hoF7 hnF7 hkl7 hfv7
  have hkl7b := KeysLive_mono hle2 hkl7
  obtain ⟨hoF8, hnF8⟩ := loadComp_obs (fun c v2 => { c with inflicts_damage := some v2 }) convPure (fun c => c.combat_stats) A (fun _ => True)
    (fun c a => rfl) (convOK_pure A) (fun c a => rfl) (fun m => rfl) data.inflicts_damage _ hI (fun p hp => ⟨hA p hp, trivial⟩)
  have hfv8b := FieldVals_mono (fun c => c.combat_stats) (RPure id) data.combat_stats hle2
    (fun a b h => h)
    (fun e he hn => let ⟨m, h1, h2, _⟩ := hfr2 e he hn; ⟨m, h1, h2⟩)
    hoF8 hnF8 hkl8 hfv8
  have hkl8b := KeysLive_mono hle2 hkl8
  obtain ⟨hoF9, hnF9⟩ := loadComp_obs (fun c v2 => { c with inflicts_damage := some v2 }) convPure (fun c => c.suffer_damage) A (fun _ => True)
    (fun c a => rfl) (convOK_pure A) (fun c a => rfl) (fun m => rfl) data.inflicts_damage _ hI (fun p hp => ⟨hA p hp, trivial⟩)
  have hfv9b := FieldVals_mono (fun c => c.suffer_damage) (RPure id) data.suffer_damage hle2
    (fun a b h => h)
    (fun e he hn => let ⟨m, h1, h2, _⟩ := hfr2 e he hn; ⟨m, h1, h2⟩)
    hoF9 hnF9 hkl9 hfv9
  have hkl9b := KeysLive_mono hle2 hkl9
  obtain ⟨hoF10, hnF10⟩ := loadComp_obs (fun c v2 => { c with inflicts_damage := some v2 }) convPure (fun c => c.wants_melee) A (fun _ => True)
    (fun c a => rfl) (convOK_pure A) (fun c a => rfl) (fun m => rfl) data.inflicts_damage _ hI (fun p hp => ⟨hA p hp, trivial⟩)
  have hfv10b := FieldVals_mono (fun c => c.wants_melee) (RRef WantsToMelee.mk) data.wants_melee hle2
    (fun a b h => RRef_mono WantsToMelee.mk _ _ a b hle2 h)
    (fun e he hn => let ⟨m, h1, h2, _⟩ := hfr2 e he hn; ⟨m, h1, h2⟩)
    hoF10 hnF10 hkl10 hfv10
  have hkl10b := KeysLive_mono hle2 hkl10
  obtain ⟨hoF11, hnF11⟩ := loadComp_obs (fun c v2 => { c with inflicts_damage := some v2 }) convPure (fun c => c.item) A (fun _ => True)
    (fun c a => rfl) (convOK_pure A) (fun c a => rfl) (fun m => rfl) data.inflicts_damage _ hI (fun p hp => ⟨hA p hp, trivial⟩)
  have hfv11b := FieldVals_mono (fun c => c.item) (RPure id) data.items hle2
    (fun a b h => h)
    (fun e he hn => let ⟨m, h1, h2, _⟩ := hfr2 e he hn; ⟨m, h1, h2⟩)
    hoF11 hnF11 hkl11 hfv11
  have hkl11b := KeysLive_mono hle2 hkl11
  obtain ⟨hoF12, hnF12⟩ := loadComp_obs (fun c v2 => { c with inflicts_damage := some v2 }) convPure (fun c => c.consumable) A (fun _ => True)
    (fun c a => rfl) (convOK_pure A) (fun c a => rfl) (fun m => rfl) data.inflicts_damage _ hI (fun p hp => ⟨hA p hp, trivial⟩)
  have hfv12b := FieldVals_mono (fun c => c.consumable) (RPure id) data.consumables hle2
    (fun a b h => h)
    (fun e he hn => let ⟨m, h1, h2, _⟩ := hfr2 e he hn; ⟨m, h1, h2⟩)
    hoF12 hnF12 hkl12 hfv12
  have hkl12b := KeysLive_mono hle2 hkl12
  obtain ⟨hoF13, hnF13⟩ := loadComp_obs (fun c v2 => { c with inflicts_damage := some v2 }) convPure (fun c => c.ranged) A (fun _ => True)
    (fun c a => rfl) (convOK_pure A) (fun c a => rfl) (fun m => rfl) data.inflicts_damage _ hI (fun p hp => ⟨hA p hp, trivial⟩)
  have hfv13b := FieldVals_mono (fun c => c.ranged) (RPure id) data.ranged hle2
    (fun a b h => h)
    (fun e he hn => let ⟨m, h1, h2, _⟩ := hfr2 e he hn; ⟨m, h1, h2⟩)
    hoF13 hnF13 hkl13 hfv13
  have hkl13b := KeysLive_mono hle2 hkl13
  obtain ⟨hoF15, hnF15⟩ := loadComp_obs (fun c v2 => { c with inflicts_damage := some v2 }) convPure (fun c => c.area_of_effect) A (fun _ => True)
    (fun c a => rfl) (convOK_pure A) (fun c a => rfl) (fun m => rfl) data.inflicts_damage _ hI (fun p hp => ⟨hA p hp, trivial⟩)
  have hN15b := AllNone_mono (fun c => c.area_of_effect) _ _ hoF15 hnF15 hN15
  obtain ⟨hoF16, hnF16⟩ := loadComp_obs (fun c v2 => { c with inflicts_damage := some v2 }) convPure (fun c => c.confusion) A (fun _ => True)
    (fun c a => rfl) (convOK_pure A) (fun c a => rfl) (fun m => rfl) data.inflicts_damage _ hI (fun p hp => ⟨hA p hp, trivial⟩)
  have hN16b := AllNone_mono (fun c => c.confusion) _ _ hoF16 hnF16 hN16
  obtain ⟨hoF17, hnF17⟩ := loadComp_obs (fun c v2 => { c with inflicts_damage := some v2 }) convPure (fun c => c.provides_healing) A (fun _ => True)
    (fun c a => rfl) (convOK_pure A) (fun c a => rfl) (fun m => rfl) data.inflicts_damage _ hI (fun p hp => ⟨hA p hp, trivial⟩)
  have hN17b := AllNone_mono (fun c => c.provides_healing) _ _ hoF17 hnF17 hN17
  obtain ⟨hoF18, hnF18⟩ := loadComp_obs (fun c v2 => { c with inflicts_damage := some v2 }) convPure (fun c => c.in_backpack) A (fun _ => True)
    (fun c a => rfl) (convOK_pure A) (fun c a => rfl) (fun m => rfl) data.inflicts_damage _ hI (fun p hp => ⟨hA p hp, trivial⟩)
  have hN18b := AllNone_mono (fun c => c.in_backpack) _ _ hoF18 hnF18 hN18
  obtain ⟨hoF19, hnF19⟩ := loadComp_obs (fun c v2 => { c with inflicts_damage := some v2 }) convPure (fun c => c.wants_to_pickup) A (fun _ => True)
    (fun c a => rfl) (convOK_pure A) (fun c a => rfl) (fun m => rfl) data.inflicts_damage _ hI (fun p hp => ⟨hA p hp, trivial⟩)
  have hN19b := AllNone_mono (fun c => c.wants_to_pickup) _ _ hoF19 hnF19 hN19
  obtain ⟨hoF20, hnF20⟩ := loadComp_obs (fun c v2 => { c with inflicts_damage := some v2 }) convPure (fun c => c.wants_to_use) A (fun _ => True)
    (fun c a => rfl) (convOK_pure A) (fun c a => rfl) (fun m => rfl) data.inflicts_damage _ hI (fun p hp => ⟨hA p hp, trivial⟩)
  have hN20b := AllNone_mono (fun c => c.wants_to_use) _ _ hoF20 hnF20 hN20
  obtain ⟨hoF21, hnF21⟩ := loadComp_obs (fun c v2 => { c with inflicts_damage := some v2 }) convPure (fun c => c.wants_to_drop) A (fun _ => True)
    (fun c a => rfl) (convOK_pure A) (fun c a => rfl) (fun m => rfl) data.inflicts_damage _ hI (fun p hp => ⟨hA p hp, trivial⟩)
  have hN21b := AllNone_mono (fun c => c.wants_to_drop) _ _ hoF21 hnF21 hN21
  obtain ⟨hoF22, hnF22⟩ := loadComp_obs (fun c v2 => { c with inflicts_damage := some v2 }) convPure (fun c => c.serialization_helper) A (fun _ => True)
    (fun c a => rfl) (convOK_pure A) (fun c a => rfl) (fun m => rfl) data.inflicts_damage _ hI (fun p hp => ⟨hA p hp, trivial⟩)
  have hN22b := AllNone_mono (fun c => c.serialization_helper) _ _ hoF22 hnF22 hN22
  obtain ⟨hoF23, hnF23⟩ := loadComp_obs (fun c v2 => { c with inflicts_damage := some v2 }) convPure (fun c => c.equippable) A (fun _ => True)
    (fun c a => rfl) (convOK_pure A) (fun c a => rfl) (fun m => rfl) data.inflicts_damage _ hI (fun p hp => ⟨hA p hp, trivial⟩)
  have hN23b := AllNone_mono (fun c => c.equippable) _ _ hoF23 hnF23 hN23
  obtain ⟨hoF24, hnF24⟩ := loadComp_obs (fun c v2 => { c with inflicts_damage := some v2 }) convPure (fun c => c.equipped) A (fun _ => True)
    (fun c a => rfl) (convOK_pure A) (fun c a => rfl) (fun m => rfl) data.inflicts_damage _ hI (fun p hp => ⟨hA p hp, trivial⟩)
  have hN24b := AllNone_mono (fun c => c.equipped) _ _ hoF24 hnF24 hN24
  obtain ⟨hoF25, hnF25⟩ := loadComp_obs (fun c v2 => { c with inflicts_damage := some v2 }) convPure (fun c => c.melee_power_bonus) A (fun _ => True)
    (fun c a => rfl) (convOK_pure A) (fun c a => rfl) (fun m => rfl) data.inflicts_damage _ hI (fun p hp => ⟨hA p hp, trivial⟩)
  have hN25b := AllNone_mono (fun c => c.melee_power_bonus) _ _ hoF25 hnF25 hN25
  obtain ⟨hoF26, hnF26⟩ := loadComp_obs (fun c v2 => { c with inflicts_damage := some v2 }) convPure (fun c => c.defense_bonus) A (fun _ => True)
    (fun c a => rfl) (convOK_pure A) (fun c a => rfl) (fun m => rfl) data.inflicts_damage _ hI (fun p hp => ⟨hA p hp, trivial⟩)
  have hN26b := AllNone_mono (fun c => c.defense_bonus) _ _ hoF26 hnF26 hN26
  obtain ⟨hoF27, hnF27⟩ := loadComp_obs (fun c v2 => { c with inflicts_damage := some v2 }) convPure (fun c => c.wants_to_remove) A (fun _ => True)
    (fun c a => rfl) (convOK_pure A) (fun c a => rfl) (fun m => rfl) data.inflicts_damage _ hI (fun p hp => ⟨hA p hp, trivial⟩)
  have hN27b := AllNone_mono (fun c => c.wants_to_remove) _ _ hoF27 hnF27 hN27
  obtain ⟨hoF28, hnF28⟩ := loadComp_obs (fun c v2 => { c with inflicts_damage := some v2 }) convPure (fun c => c.particle_lifetime) A (fun _ => True)
    (fun c a => rfl) (convOK_pure A) (fun c a => rfl) (fun m => rfl) data.inflicts_damage _ hI (fun p hp => ⟨hA p hp, trivial⟩)
  have hN28b := AllNone_mono (fun c => c.particle_lifetime) _ _ hoF28 hnF28 hN28
  obtain ⟨hoF29, hnF29⟩ := loadComp_obs (fun c v2 => { c with inflicts_damage := some v2 }) convPure (fun c => c.hunger_clock) A (fun _ => True)
    (fun c a => rfl) (convOK_pure A) (fun c a => rfl) (fun m => rfl) data.inflicts_damage _ hI (fun p hp => ⟨hA p hp, trivial⟩)
  have hN29b := AllNone_mono (fun c => c.hunger_clock) _ _ hoF29 hnF29 hN29
  obtain ⟨hoF30, hnF30⟩ := loadComp_obs (fun c v2 => { c with inflicts_damage := some v2 }) convPure (fun c => c.provides_food) A (fun _ => True)
    (fun c a => rfl) (convOK_pure A) (fun c a => rfl) (fun m => rfl) data.inflicts_damage _ hI (fun p hp => ⟨hA p hp, trivial⟩)
  have hN30b := AllNone_mono (fun c => c.provides_food) _ _ hoF30 hnF30 hN30
  have hMb := MarksIn_mono hle2 (fun e he hn => let ⟨m, h1, _, h3⟩ := hfr2 e he hn; ⟨m, h1, h3⟩) hM
  exact ⟨hI2, hMb, hkl1b, hfv1b, hkl2b, hfv2b, hkl3b, hfv3b, hkl4b, hfv4b, hkl5b, hfv5b, hkl6b, hfv6b, hkl7b, hfv7b, hkl8b, hfv8b, hkl9b, hfv9b, hkl10b, hfv10b, hkl11b, hfv11b, hkl12b, hfv12b, hkl13b, hfv13b, hklx, hfvk, hN15b, hN16b, hN17b, hN18b, hN19b, hN20b, hN21b, hN22b, hN23b, hN24b, hN25b, hN26b, hN27b, hN28b, hN29b, hN30b⟩

set_option maxHeartbeats 800000 in
/-- Deserialization pass 15 (area_of_effect): it establishes its own list facts
and preserves those of the earlier passes. -/
lemma loadStage15 (A : Nat → Prop) (data : SaveData) (v : World)
    (hI : LoadInv v)
    (hkeys : ((data.area_of_effect).map Prod.fst).Nodup)
    (hA : ∀ p ∈ data.area_of_effect, A p.1)
    (hM : MarksIn A v)
    (hkl1 : KeysLive data.positions v)
    (hfv1 : FieldVals (fun c => c.position) (RPure id) data.positions v)
    (hkl2 : KeysLive data.renderables v)
    (hfv2 : FieldVals (fun c => c.renderable) (RPure id) data.renderables v)
    (hkl3 : KeysLive data.players v)
    (hfv3 : FieldVals (fun c => c.player) (RPure id) data.players v)
    (hkl4 : KeysLive data.viewsheds v)
    (hfv4 : FieldVals (fun c => c.viewshed) (RPure id) data.viewsheds v)
    (hkl5 : KeysLive data.monsters v)
    (hfv5 : FieldVals (fun c => c.monster) (RPure id) data.monsters v)
    (hkl6 : KeysLive data.names v)
    (hfv6 : FieldVals (fun c => c.name) (RPure id) data.names v)
    (hkl7 : KeysLive data.blocks_tile v)
    (hfv7 : FieldVals (fun c => c.blocks_tile) (RPure id) data.blocks_tile v)
    (hkl8 : KeysLive data.combat_stats v)
    (hfv8 : FieldVals (fun c => c.combat_stats) (RPure id) data.combat_stats v)
    (hkl9 : KeysLive data.suffer_damage v)
    (hfv9 : FieldVals (fun c => c.suffer_damage) (RPure id) data.suffer_damage v)
    (hkl10 : KeysLive data.wants_melee v)
    (hfv10 : FieldVals (fun c => c.wants_melee) (RRef WantsToMelee.mk) data.wants_melee v)
    (hkl11 : KeysLive data.items v)
    (hfv11 : FieldVals (fun c => c.item) (RPure id) data.items v)
    (hkl12 : KeysLive data.consumables v)
    (hfv12 : FieldVals (fun c => c.consumable) (RPure id) data.consumables v)
    (hkl13 : KeysLive data.ranged v)
    (hfv13 : FieldVals (fun c => c.ranged) (RPure id) data.ranged v)
    (hkl14 : KeysLive data.inflicts_damage v)
    (hfv14 : FieldVals (fun c => c.inflicts_damage) (RPure id) data.inflicts_damage v)
    (hN15 : AllNone (fun c => c.area_of_effect) v)
    (hN16 : AllNone (fun c => c.confusion) v)
    (hN17 : AllNone (fun c => c.provides_healing) v)
    (hN18 : AllNone (fun c => c.in_backpack) v)
    (hN19 : AllNone (fun c => c.wants_to_pickup) v)
    (hN20 : AllNone (fun c => c.wants_to_use) v)
    (hN21 : AllNone (fun c => c.wants_to_drop) v)
    (hN22 : AllNone (fun c => c.serialization_helper) v)
    (hN23 : AllNone (fun c => c.equippable) v)
    (hN24 : AllNone (fun c => c.equipped) v)
    (hN25 : AllNone (fun c => c.melee_power_bonus) v)
    (hN26 : AllNone (fun c => c.defense_bonus) v)
    (hN27 : AllNone (fun c => c.wants_to_remove) v)
    (hN28 : AllNone (fun c => c.particle_lifetime) v)
    (hN29 : AllNone (fun c => c.hunger_clock) v)
    (hN30 : AllNone (fun c => c.provides_food) v)
    :
    LoadInv (loadComp (fun c v2 => { c with area_of_effect := some v2 }) convPure v data.area_of_effect) ∧
    MarksIn A (loadComp (fun c v2 => { c with area_of_effect := some v2 }) convPure v data.area_of_effect) ∧
    KeysLive data.positions (loadComp (fun c v2 => { c with area_of_effect := some v2 }) convPure v data.area_of_effect) ∧
    FieldVals (fun c => c.position) (RPure id) data.positions (loadComp (fun c v2 => { c with area_of_effect := some v2 }) convPure v data.area_of_effect) ∧
    KeysLive data.renderables (loadComp (fun c v2 => { c with area_of_effect := some v2 }) convPure v data.area_of_effect) ∧
    FieldVals (fun c => c.renderable) (RPure id) data.renderables (loadComp (fun c v2 => { c with area_of_effect := some v2 }) convPure v data.area_of_effect) ∧
    KeysLive data.players (loadComp (fun c v2 => { c with area_of_effect := some v2 }) convPure v data.area_of_effect) ∧
    FieldVals (fun c => c.player) (RPure id) data.players (loadComp (fun c v2 => { c with area_of_effect := some v2 }) convPure v data.area_of_effect) ∧
    KeysLive data.viewsheds (loadComp (fun c v2 => { c with area_of_effect := some v2 }) convPure v data.area_of_effect) ∧
    FieldVals (fun c => c.viewshed) (RPure id) data.viewsheds (loadComp (fun c v2 => { c with area_of_effect := some v2 }) convPure v data.area_of_effect) ∧
    KeysLive data.monsters (loadComp (fun c v2 => { c with area_of_effect := some v2 }) convPure v data.area_of_effect) ∧
    FieldVals (fun c => c.monster) (RPure id) data.monsters (loadComp (fun c v2 => { c with area_of_effect := some v2 }) convPure v data.area_of_effect) ∧
    KeysLive data.names (loadComp (fun c v2 => { c with area_of_effect := some v2 }) convPure v data.area_of_effect) ∧
    FieldVals (fun c => c.name) (RPure id) data.names (loadComp (fun c v2 => { c with area_of_effect := some v2 }) convPure v data.area_of_effect) ∧
    KeysLive data.blocks_tile (loadComp (fun c v2 => { c with area_of_effect := some v2 }) convPure v data.area_of_effect) ∧
    FieldVals (fun c => c.blocks_tile) (RPure id) data.blocks_tile (loadComp (fun c v2 => { c with area_of_effect := some v2 }) convPure v data.area_of_effect) ∧
    KeysLive data.combat_stats (loadComp (fun c v2 => { c with area_of_effect := some v2 }) convPure v data.area_of_effect) ∧
    FieldVals (fun c => c.combat_stats) (RPure id) data.combat_stats (loadComp (fun c v2 => { c with area_of_effect := some v2 }) convPure v data.area_of_effect) ∧
    KeysLive data.suffer_damage (loadComp (fun c v2 => { c with area_of_effect := some v2 }) convPure v data.area_of_effect) ∧
    FieldVals (fun c => c.suffer_damage) (RPure id) data.suffer_damage (loadComp (fun c v2 => { c with area_of_effect := some v2 }) convPure v data.area_of_effect) ∧
    KeysLive data.wants_melee (loadComp (fun c v2 => { c with area_of_effect := some v2 }) convPure v data.area_of_effect) ∧
    FieldVals (fun c => c.wants_melee) (RRef WantsToMelee.mk) data.wants_melee (loadComp (fun c v2 => { c with area_of_effect := some v2 }) convPure v data.area_of_effect) ∧
    KeysLive data.items (loadComp (fun c v2 => { c with area_of_effect := some v2 }) convPure v data.area_of_effect) ∧
    FieldVals (fun c => c.item) (RPure id) data.items (loadComp (fun c v2 => { c with area_of_effect := some v2 }) convPure v data.area_of_effect) ∧
    KeysLive data.consumables (loadComp (fun c v2 => { c with area_of_effect := some v2 }) convPure v data.area_of_effect) ∧
    FieldVals (fun c => c.consumable) (RPure id) data.consumables (loadComp (fun c v2 => { c with area_of_effect := some v2 }) convPure v data.area_of_effect) ∧
    KeysLive data.ranged (loadComp (fun c v2 => { c with area_of_effect := some v2 }) convPure v data.area_of_effect) ∧
    FieldVals (fun c => c.ranged) (RPure id) data.ranged (loadComp (fun c v2 => { c with area_of_effect := some v2 }) convPure v data.area_of_effect) ∧
    KeysLive data.inflicts_damage (loadComp (fun c v2 => { c with area_of_effect := some v2 }) convPure v data.area_of_effect) ∧
    FieldVals (fun c => c.inflicts_damage) (RPure id) data.inflicts_damage (loadComp (fun c v2 => { c with area_of_effect := some v2 }) convPure v data.area_of_effect) ∧
    KeysLive data.area_of_effect (loadComp (fun c v2 => { c with area_of_effect := some v2 }) convPure v data.area_of_effect) ∧
    FieldVals (fun c => c.area_of_effect) (RPure id) data.area_of_effect (loadComp (fun c v2 => { c with area_of_effect := some v2 }) convPure v data.area_of_effect) ∧
    AllNone (fun c => c.confusion) (loadComp (fun c v2 => { c with area_of_effect := some v2 }) convPure v data.area_of_effect) ∧
    AllNone (fun c => c.provides_healing) (loadComp (fun c v2 => { c with area_of_effect := some v2 }) convPure v data.area_of_effect) ∧
    AllNone (fun c => c.in_backpack) (loadComp (fun c v2 => { c with area_of_effect := some v2 }) convPure v data.area_of_effect) ∧
    AllNone (fun c => c.wants_to_pickup) (loadComp (fun c v2 => { c with area_of_effect := some v2 }) convPure v data.area_of_effect) ∧
    AllNone (fun c => c.wants_to_use) (loadComp (fun c v2 => { c with area_of_effect := some v2 }) convPure v data.area_of_effect) ∧
    AllNone (fun c => c.wants_to_drop) (loadComp (fun c v2 => { c with area_of_effect := some v2 }) convPure v data.area_of_effect) ∧
    AllNone (fun c => c.serialization_helper) (loadComp (fun c v2 => { c with area_of_effect := some v2 }) convPure v data.area_of_effect) ∧
    AllNone (fun c => c.equippable) (loadComp (fun c v2 => { c with area_of_effect := some v2 }) convPure v data.area_of_effect) ∧
    AllNone (fun c => c.equipped) (loadComp (fun c v2 => { c with area_of_effect := some v2 }) convPure v data.area_of_effect) ∧
    AllNone (fun c => c.melee_power_bonus) (loadComp (fun c v2 => { c with area_of_effect := some v2 }) convPure v data.area_of_effect) ∧
    AllNone (fun c => c.defense_bonus) (loadComp (fun c v2 => { c with area_of_effect := some v2 }) convPure v data.area_of_effect) ∧
    AllNone (fun c => c.wants_to_remove) (loadComp (fun c v2 => { c with area_of_effect := some v2 }) convPure v data.area_of_effect) ∧
    AllNone (fun c => c.particle_lifetime) (loadComp (fun c v2 => { c with area_of_effect := some v2 }) convPure v data.area_of_effect) ∧
    AllNone (fun c => c.hunger_clock) (loadComp (fun c v2 => { c with area_of_effect := some v2 }) convPure v data.area_of_effect) ∧
    AllNone (fun c => c.provides_food) (loadComp (fun c v2 => { c with area_of_effect := some v2 }) convPure v data.area_of_effect) := by
  obtain ⟨hI2, hle2, hfr2, hklx⟩ := loadComp_struct (fun c v2 => { c with area_of_effect := some v2 }) convPure A (fun _ => True)
    (fun c a => rfl) (convOK_pure A) data.area_of_effect _ hI (fun p hp => ⟨hA p hp, trivial⟩)
  have hfvk := loadComp_est (fun c v2 => { c with area_of_effect := some v2 }) (fun c => c.area_of_effect) convPure A (fun _ => True)
    (RPure id) (convOK_pure A) (fun v2 b hIv hAb => rfl)
    (fun va vb a b hle h => h) (fun c a => rfl) (fun c a => rfl) (fun m => rfl)
    data.area_of_effect _ hI hkeys (fun p hp => ⟨hA p hp, trivial⟩) hN15
  obtain ⟨hoF1, hnF1⟩ := loadComp_obs (fun c v2 => { c with area_of_effect := some v2 }) convPure (fun c => c.position) A (fun _ => True)
    (fun c a => rfl) (convOK_pure A) (fun c a => rfl) (fun m => rfl) data.area_of_effect _ hI (fun p hp => ⟨hA p hp, trivial⟩)
  have hfv1b := FieldVals_mono (fun c => c.position) (RPure id) data.positions hle2
    (fun a b h => h)
    (fun e he hn => let ⟨m, h1, h2, _⟩ := hfr2 e he hn; ⟨m, h1, h2⟩)
    hoF1 hnF1 hkl1 hfv1
  have hkl1b := KeysLive_mono hle2 hkl1
  obtain ⟨hoF2, hnF2⟩ := loadComp_obs (fun c v2 => { c with area_of_effect := some v2 }) convPure (fun c => c.renderable) A (fun _ => True)
    (fun c a => rfl) (convOK_pure A) (fun c a => rfl) (fun m => rfl) data.area_of_effect _ hI (fun p hp => ⟨hA p hp, trivial⟩)
  have hfv2b := FieldVals_mono (fun c => c.renderable) (RPure id) data.renderables hle2
    (fun a b h => h)
    (fun e he hn => let ⟨m, h1, h2, _⟩ := hfr2 e he hn; ⟨m, h1, h2⟩)
    hoF2 hnF2 hkl2 hfv2
  have hkl2b := KeysLive_mono hle2 hkl2
  obtain ⟨hoF3, hnF3⟩ := loadComp_obs (fun c v2 => { c with area_of_effect := some v2 }) convPure (fun c => c.player) A (fun _ => True)
    (fun c a => rfl) (convOK_pure A) (fun c a => rfl) (fun m => rfl) data.area_of_effect _ hI (fun p hp => ⟨hA p hp, trivial⟩)
  have hfv3b := FieldVals_mono (fun c => c.player) (RPure id) data.players hle2
    (fun a b h => h)
    (fun e he hn => let ⟨m, h1, h2, _⟩ := hfr2 e he hn; ⟨m, h1, h2⟩)
    hoF3 hnF3 hkl3 hfv3
  have hkl3b := KeysLive_mono hle2 hkl3
  obtain ⟨hoF4, hnF4⟩ := loadComp_obs (fun c v2 => { c with area_of_effect := some v2 }) convPure (fun c => c.viewshed) A (fun _ => True)
    (fun c a => rfl) (convOK_pure A) (fun c a => rfl) (fun m => rfl) data.area_of_effect _ hI (fun p hp => ⟨hA p hp, trivial⟩)
  have hfv4b := FieldVals_mono (fun c => c.viewshed) (RPure id) data.viewsheds hle2
    (fun a b h => h)
    (fun e he hn => let ⟨m, h1, h2, _⟩ := hfr2 e he hn; ⟨m, h1, h2⟩)
    hoF4 hnF4 hkl4 hfv4
  have hkl4b := KeysLive_mono hle2 hkl4
  obtain ⟨hoF5, hnF5⟩ := loadComp_obs (fun c v2 => { c with area_of_effect := some v2 }) convPure (fun c => c.monster) A (fun _ => True)
    (fun c a => rfl) (convOK_pure A) (fun c a => rfl) (fun m => rfl) data.area_of_effect _ hI (fun p hp => ⟨hA p hp, trivial⟩)
  have hfv5b := FieldVals_mono (fun c => c.monster) (RPure id) data.monsters hle2
    (fun a b h => h)
    (fun e he hn => let ⟨m, h1, h2, _⟩ := hfr2 e he hn; ⟨m, h1, h2⟩)
    hoF5 hnF5 hkl5 hfv5
  have hkl5b := KeysLive_mono hle2 hkl5
  obtain ⟨hoF6, hnF6⟩ := loadComp_obs (fun c v2 => { c with area_of_effect := some v2 }) convPure (fun c => c.name) A (fun _ => True)
    (fun c a => rfl) (convOK_pure A) (fun c a => rfl) (fun m => rfl) data.area_of_effect _ hI (fun p hp => ⟨hA p hp, trivial⟩)
  have hfv6b := FieldVals_mono (fun c => c.name) (RPure id) data.names hle2
    (fun a b h => h)
    (fun e he hn => let ⟨m, h1, h2, _⟩ := hfr2 e he hn; ⟨m, h1, h2⟩)
    hoF6 hnF6 hkl6 hfv6
  have hkl6b := KeysLive_mono hle2 hkl6
  obtain ⟨hoF7, hnF7⟩ := loadComp_obs (fun c v2 => { c with area_of_effect := some v2 }) convPure (fun c => c.blocks_tile) A (fun _ => True)
    (fun c a => rfl) (convOK_pure A) (fun c a => rfl) (fun m => rfl) data.area_of_effect _ hI (fun p hp => ⟨hA p hp, trivial⟩)
  have hfv7b := FieldVals_mono (fun c => c.blocks_tile) (RPure id) data.blocks_tile hle2
    (fun a b h => h)
    (fun e he hn => let ⟨m, h1, h2, _⟩ := hfr2 e he hn; ⟨m, h1, h2⟩)
    hoF7 hnF7 hkl7 hfv7
  have hkl7b := KeysLive_mono hle2 hkl7
  obtain ⟨hoF8, hnF8⟩ := loadComp_obs (fun c v2 => { c with area_of_effect := some v2 }) convPure (fun c => c.combat_stats) A (fun _ => True)
    (fun c a => rfl) (convOK_pure A) (fun c a => rfl) (fun m => rfl) data.area_of_effect _ hI (fun p hp => ⟨hA p hp, trivial⟩)
  have hfv8b := FieldVals_mono (fun c => c.combat_stats) (RPure id) data.combat_stats hle2
    (fun a b h => h)
    (fun e he hn => let ⟨m, h1, h2, _⟩ := hfr2 e he hn; ⟨m, h1, h2⟩)
    hoF8 hnF8 hkl8 hfv8
  have hkl8b := KeysLive_mono hle2 hkl8
  obtain ⟨hoF9, hnF9⟩ := loadComp_obs (fun c v2 => { c with area_of_effect := some v2 }) convPure (fun c => c.suffer_damage) A (fun _ => True)
    (fun c a => rfl) (convOK_pure A) (fun c a => rfl) (fun m => rfl) data.area_of_effect _ hI (fun p hp => ⟨hA p hp, trivial⟩)
  have hfv9b := FieldVals_mono (fun c => c.suffer_damage) (RPure id) data.suffer_damage hle2
    (fun a b h => h)
    (fun e he hn => let ⟨m, h1, h2, _⟩ := hfr2 e he hn; ⟨m, h1, h2⟩)
    hoF9 hnF9 hkl9 hfv9
  have hkl9b := KeysLive_mono hle2 hkl9
  obtain ⟨hoF10, hnF10⟩ := loadComp_obs (fun c v2 => { c with area_of_effect := some v2 }) convPure (fun c => c.wants_melee) A (fun _ => True)
    (fun c a => rfl) (convOK_pure A) (fun c a => rfl) (fun m => rfl) data.area_of_effect _ hI (fun p hp => ⟨hA p hp, trivial⟩)
  have hfv10b := FieldVals_mono (fun c => c.wants_melee) (RRef WantsToMelee.mk) data.wants_melee hle2
    (fun a b h => RRef_mono WantsToMelee.mk _ _ a b hle2 h)
    (fun e he hn => let ⟨m, h1, h2, _⟩ := hfr2 e he hn; ⟨m, h1, h2⟩)
    hoF10 hnF10 hkl10 hfv10
  have hkl10b := KeysLive_mono hle2 hkl10
  obtain ⟨hoF11, hnF11⟩ := loadComp_obs (fun c v2 => { c with area_of_effect := some v2 }) convPure (fun c => c.item) A (fun _ => True)
    (fun c a => rfl) (convOK_pure A) (fun c a => rfl) (fun m => rfl) data.area_of_effect _ hI (fun p hp => ⟨hA p hp, trivial⟩)
  have hfv11b := FieldVals_mono (fun c => c.item) (RPure id) data.items hle2
    (fun a b h => h)
    (fun e he hn => let ⟨m, h1, h2, _⟩ := hfr2 e he hn; ⟨m, h1, h2⟩)
    hoF11 hnF11 hkl11 hfv11
  have hkl11b := KeysLive_mono hle2 hkl11
  obtain ⟨hoF12, hnF12⟩ := loadComp_obs (fun c v2 => { c with area_of_effect := some v2 }) convPure (fun c => c.consumable) A (fun _ => True)
    (fun c a => rfl) (convOK_pure A) (fun c a => rfl) (fun m => rfl) data.area_of_effect _ hI (fun p hp => ⟨hA p hp, trivial⟩)
  have hfv12b := FieldVals_mono (fun c => c.consumable) (RPure id) data.consumables hle2
    (fun a b h => h)
    (fun e he hn => let ⟨m, h1, h2, _⟩ := hfr2 e he hn; ⟨m, h1, h2⟩)
    hoF12 hnF12 hkl12 hfv12
  have hkl12b := KeysLive_mono hle2 hkl12
  obtain ⟨hoF13, hnF13⟩ := loadComp_obs (fun c v2 => { c with area_of_effect := some v2 }) convPure (fun c => c.ranged) A (fun _ => True)
    (fun c a => rfl) (convOK_pure A) (fun c a => rfl) (fun m => rfl) data.area_of_effect _ hI (fun p hp => ⟨hA p hp, trivial⟩)
  have hfv13b := FieldVals_mono (fun c => c.ranged) (RPure id) data.ranged hle2
    (fun a b h => h)
    (fun e he hn => let ⟨m, h1, h2, _⟩ := hfr2 e he hn; ⟨m, h1, h2⟩)
    hoF13 hnF13 hkl13 hfv13
  have hkl13b := KeysLive_mono hle2 hkl13
  obtain ⟨hoF14, hnF14⟩ := loadComp_obs (fun c v2 => { c with area_of_effect := some v2 }) convPure (fun c => c.inflicts_damage) A (fun _ => True)
    (fun c a => rfl) (convOK_pure A) (fun c a => rfl) (fun m => rfl) data.area_of_effect _ hI (fun p hp => ⟨hA p hp, trivial⟩)
  have hfv14b := FieldVals_mono (fun c => c.inflicts_damage) (RPure id) data.inflicts_damage hle2
    (fun a b h => h)
    (fun e he hn => let ⟨m, h1, h2, _⟩ := hfr2 e he hn; ⟨m, h1, h2⟩)
    hoF14 hnF14 hkl14 hfv14
  have hkl14b := KeysLive_mono hle2 hkl14
  obtain ⟨hoF16, hnF16⟩ := loadComp_obs (fun c v2 => { c with area_of_effect := some v2 }) convPure (fun c => c.confusion) A (fun _ => True)
    (fun c a => rfl) (convOK_pure A) (fun c a => rfl) (fun m => rfl) data.area_of_effect _ hI (fun p hp => ⟨hA p hp, trivial⟩)
  have hN16b := AllNone_mono (fun c => c.confusion) _ _ hoF16 hnF16 hN16
  obtain ⟨hoF17, hnF17⟩ := loadComp_obs (fun c v2 => { c with area_of_effect := some v2 }) convPure (fun c => c.provides_healing) A (fun _ => True)
    (fun c a => rfl) (convOK_pure A) (fun c a => rfl) (fun m => rfl) data.area_of_effect _ hI (fun p hp => ⟨hA p hp, trivial⟩)
  have hN17b := AllNone_mono (fun c => c.provides_healing) _ _ hoF17 hnF17 hN17
  obtain ⟨hoF18, hnF18⟩ := loadComp_obs (fun c v2 => { c with area_of_effect := some v2 }) convPure (fun c => c.in_backpack) A (fun _ => True)
    (fun c a => rfl) (convOK_pure A) (fun c a => rfl) (fun m => rfl) data.area_of_effect _ hI (fun p hp => ⟨hA p hp, trivial⟩)
  have hN18b := AllNone_mono (fun c => c.in_backpack) _ _ hoF18 hnF18 hN18
  obtain ⟨hoF19, hnF19⟩ := loadComp_obs (fun c v2 => { c with area_of_effect := some v2 }) convPure (fun c => c.wants_to_pickup) A (fun _ => True)
    (fun c a => rfl) (convOK_pure A) (fun c a => rfl) (fun m => rfl) data.area_of_effect _ hI (fun p hp => ⟨hA p hp, trivial⟩)
  have hN19b := AllNone_mono (fun c => c.wants_to_pickup) _ _ hoF19 hnF19 hN19
  obtain ⟨hoF20, hnF20⟩ := loadComp_obs (fun c v2 => { c with area_of_effect := some v2 }) convPure (fun c => c.wants_to_use) A (fun _ => True)
    (fun c a => rfl) (convOK_pure A) (fun c a => rfl) (fun m => rfl) data.area_of_effect _ hI (fun p hp => ⟨hA p hp, trivial⟩)
  have hN20b := AllNone_mono (fun c => c.wants_to_use) _ _ hoF20 hnF20 hN20
  obtain ⟨hoF21, hnF21⟩ := loadComp_obs (fun c v2 => { c with area_of_effect := some v2 }) convPure (fun c => c.wants_to_drop) A (fun _ => True)
    (fun c a => rfl) (convOK_pure A) (fun c a => rfl) (fun m => rfl) data.area_of_effect _ hI (fun p hp => ⟨hA p hp, trivial⟩)
  have hN21b := AllNone_mono (fun c => c.wants_to_drop) _ _ hoF21 hnF21 hN21
  obtain ⟨hoF22, hnF22⟩ := loadComp_obs (fun c v2 => { c with area_of_effect := some v2 }) convPure (fun c => c.serialization_helper) A (fun _ => True)
    (fun c a => rfl) (convOK_pure A) (fun c a => rfl) (fun m => rfl) data.area_of_effect _ hI (fun p hp => ⟨hA p hp, trivial⟩)
  have hN22b := AllNone_mono (fun c => c.serialization_helper) _ _ hoF22 hnF22 hN22
  obtain ⟨hoF23, hnF23⟩ := loadComp_obs (fun c v2 => { c with area_of_effect := some v2 }) convPure (fun c => c.equippable) A (fun _ => True)
    (fun c a => rfl) (convOK_pure A) (fun c a => rfl) (fun m => rfl) data.area_of_effect _ hI (fun p hp => ⟨hA p hp, trivial⟩)
  have hN23b := AllNone_mono (fun c => c.equippable) _ _ hoF23 hnF23 hN23
  obtain ⟨hoF24, hnF24⟩ := loadComp_obs (fun c v2 => { c with area_of_effect := some v2 }) convPure (fun c => c.equipped) A (fun _ => True)
    (fun c a => rfl) (convOK_pure A) (fun c a => rfl) (fun m => rfl) data.area_of_effect _ hI (fun p hp => ⟨hA p hp, trivial⟩)
  have hN24b := AllNone_mono (fun c => c.equipped) _ _ hoF24 hnF24 hN24
  obtain ⟨hoF25, hnF25⟩ := loadComp_obs (fun c v2 => { c with area_of_effect := some v2 }) convPure (fun c => c.melee_power_bonus) A (fun _ => True)
    (fun c a => rfl) (convOK_pure A) (fun c a => rfl) (fun m => rfl) data.area_of_effect _ hI (fun p hp => ⟨hA p hp, trivial⟩)
  have hN25b := AllNone_mono (fun c => c.melee_power_bonus) _ _ hoF25 hnF25 hN25
  obtain ⟨hoF26, hnF26⟩ := loadComp_obs (fun c v2 => { c with area_of_effect := some v2 }) convPure (fun c => c.defense_bonus) A (fun _ => True)
    (fun c a => rfl) (convOK_pure A) (fun c a => rfl) (fun m => rfl) data.area_of_effect _ hI (fun p hp => ⟨hA p hp, trivial⟩)
  have hN26b := AllNone_mono (fun c => c.defense_bonus) _ _ hoF26 hnF26 hN26
  obtain ⟨hoF27, hnF27⟩ := loadComp_obs (fun c v2 => { c with area_of_effect := some v2 }) convPure (fun c => c.wants_to_remove) A (fun _ => True)
    (fun c a => rfl) (convOK_pure A) (fun c a => rfl) (fun m => rfl) data.area_of_effect _ hI (fun p hp => ⟨hA p hp, trivial⟩)
  have hN27b := AllNone_mono (fun c => c.wants_to_remove) _ _ hoF27 hnF27 hN27
  obtain ⟨hoF28, hnF28⟩ := loadComp_obs (fun c v2 => { c with area_of_effect := some v2 }) convPure (fun c => c.particle_lifetime) A (fun _ => True)
    (fun c a => rfl) (convOK_pure A) (fun c a => rfl) (fun m => rfl) data.area_of_effect _ hI (fun p hp => ⟨hA p hp, trivial⟩)
  have hN28b := AllNone_mono (fun c => c.particle_lifetime) _ _ hoF28 hnF28 hN28
  obtain ⟨hoF29, hnF29⟩ := loadComp_obs (fun c v2 => { c with area_of_effect := some v2 }) convPure (fun c => c.hunger_clock) A (fun _ => True)
    (fun c a => rfl) (convOK_pure A) (fun c a => rfl) (fun m => rfl) data.area_of_effect _ hI (fun p hp => ⟨hA p hp, trivial⟩)
  have hN29b := AllNone_mono (fun c => c.hunger_clock) _ _ hoF29 hnF29 hN29
  obtain ⟨hoF30, hnF30⟩ := loadComp_obs (fun c v2 => { c with area_of_effect := some v2 }) convPure (fun c => c.provides_food) A (fun _ => True)
    (fun c a => rfl) (convOK_pure A) (fun c a => rfl) (fun m => rfl) data.area_of_effect _ hI (fun p hp => ⟨hA p hp, trivial⟩)
  have hN30b := AllNone_mono (fun c => c.provides_food) _ _ hoF30 hnF30 hN30
  have hMb := MarksIn_mono hle2 (fun e he hn => let ⟨m, h1, _, h3⟩ := hfr2 e he hn; ⟨m, h1, h3⟩) hM
  exact ⟨hI2, hMb, hkl1b, hfv1b, hkl2b, hfv2b, hkl3b, hfv3b, hkl4b, hfv4b, hkl5b, hfv5b, hkl6b, hfv6b, hkl7b, hfv7b, hkl8b, hfv8b, hkl9b, hfv9b, hkl10b, hfv10b, hkl11b, hfv11b, hkl12b, hfv12b, hkl13b, hfv13b, hkl14b, hfv14b, hklx, hfvk, hN16b, hN17b, hN18b, hN19b, hN20b, hN21b, hN22b, hN23b, hN24b, hN25b, hN26b, hN27b, hN28b, hN29b, hN30b⟩

set_option maxHeartbeats 800000 in
/-- Deserialization pass 16 (confusion): it establishes its own list facts
and preserves those of the earlier passes. -/
lemma loadStage16 (A : Nat → Prop) (data : SaveData) (v : World)
    (hI : LoadInv v)
    (hkeys : ((data.confusion).map Prod.fst).Nodup)
    (hA : ∀ p ∈ data.confusion, A p.1)
    (hM : MarksIn A v)
    (hkl1 : KeysLive data.positions v)
    (hfv1 : FieldVals (fun c => c.position) (RPure id) data.positions v)
    (hkl2 : KeysLive data.renderables v)
    (hfv2 : FieldVals (fun c => c.renderable) (RPure id) data.renderables v)
    (hkl3 : KeysLive data.players v)
    (hfv3 : FieldVals (fun c => c.player) (RPure id) data.players v)
    (hkl4 : KeysLive data.viewsheds v)
    (hfv4 : FieldVals (fun c => c.viewshed) (RPure id) data.viewsheds v)
    (hkl5 : KeysLive data.monsters v)
    (hfv5 : FieldVals (fun c => c.monster) (RPure id) data.monsters v)
    (hkl6 : KeysLive data.names v)
    (hfv6 : FieldVals (fun c => c.name) (RPure id) data.names v)
    (hkl7 : KeysLive data.blocks_tile v)
    (hfv7 : FieldVals (fun c => c.blocks_tile) (RPure id) data.blocks_tile v)
    (hkl8 : KeysLive data.combat_stats v)
    (hfv8 : FieldVals (fun c => c.combat_stats) (RPure id) data.combat_stats v)
    (hkl9 : KeysLive data.suffer_damage v)
    (hfv9 : FieldVals (fun c => c.suffer_damage) (RPure id) data.suffer_damage v)
    (hkl10 : KeysLive data.wants_melee v)
    (hfv10 : FieldVals (fun c => c.wants_melee) (RRef WantsToMelee.mk) data.wants_melee v)
    (hkl11 : KeysLive data.items v)
    (hfv11 : FieldVals (fun c => c.item) (RPure id) data.items v)
    (hkl12 : KeysLive data.consumables v)
    (hfv12 : FieldVals (fun c => c.consumable) (RPure id) data.consumables v)
    (hkl13 : KeysLive data.ranged v)
    (hfv13 : FieldVals (fun c => c.ranged) (RPure id) data.ranged v)
    (hkl14 : KeysLive data.inflicts_damage v)
    (hfv14 : FieldVals (fun c => c.inflicts_damage) (RPure id) data.inflicts_damage v)
    (hkl15 : KeysLive data.area_of_effect v)
    (hfv15 : FieldVals (fun c => c.area_of_effect) (RPure id) data.area_of_effect v)
    (hN16 : AllNone (fun c => c.confusion) v)
    (hN17 : AllNone (fun c => c.provides_healing) v)
    (hN18 : AllNone (fun c => c.in_backpack) v)
    (hN19 : AllNone (fun c => c.wants_to_pickup) v)
    (hN20 : AllNone (fun c => c.wants_to_use) v)
    (hN21 : AllNone (fun c => c.wants_to_drop) v)
    (hN22 : AllNone (fun c => c.serialization_helper) v)
    (hN23 : AllNone (fun c => c.equippable) v)
    (hN24 : AllNone (fun c => c.equipped) v)
    (hN25 : AllNone (fun c => c.melee_power_bonus) v)
    (hN26 : AllNone (fun c => c.defense_bonus) v)
    (hN27 : AllNone (fun c => c.wants_to_remove) v)
    (hN28 : AllNone (fun c => c.particle_lifetime) v)
    (hN29 : AllNone (fun c => c.hunger_clock) v)
    (hN30 : AllNone (fun c => c.provides_food) v)
    :
    LoadInv (loadComp (fun c v2 => { c with confusion := some v2 }) convPure v data.confusion) ∧
    MarksIn A (loadComp (fun c v2 => { c with confusion := some v2 }) convPure v data.confusion) ∧
    KeysLive data.positions (loadComp (fun c v2 => { c with confusion := some v2 }) convPure v data.confusion) ∧
    FieldVals (fun c => c.position) (RPure id) data.positions (loadComp (fun c v2 => { c with confusion := some v2 }) convPure v data.confusion) ∧
    KeysLive data.renderables (loadComp (fun c v2 => { c with confusion := some v2 }) convPure v data.confusion) ∧
    FieldVals (fun c => c.renderable) (RPure id) data.renderables (loadComp (fun c v2 => { c with confusion := some v2 }) convPure v data.confusion) ∧
    KeysLive data.players (loadComp (fun c v2 => { c with confusion := some v2 }) convPure v data.confusion) ∧
    FieldVals (fun c => c.player) (RPure id) data.players (loadComp (fun c v2 => { c with confusion := some v2 }) convPure v data.confusion) ∧
    KeysLive data.viewsheds (loadComp (fun c v2 => { c with confusion := some v2 }) convPure v data.confusion) ∧
    FieldVals (fun c => c.viewshed) (RPure id) data.viewsheds (loadComp (fun c v2 => { c with confusion := some v2 }) convPure v data.confusion) ∧
    KeysLive data.monsters (loadComp (fun c v2 => { c with confusion := some v2 }) convPure v data.confusion) ∧
    FieldVals (fun c => c.monster) (RPure id) data.monsters (loadComp (fun c v2 => { c with confusion := some v2 }) convPure v data.confusion) ∧
    KeysLive data.names (loadComp (fun c v2 => { c with confusion := some v2 }) convPure v data.confusion) ∧
    FieldVals (fun c => c.name) (RPure id) data.names (loadComp (fun c v2 => { c with confusion := some v2 }) convPure v data.confusion) ∧
    KeysLive data.blocks_tile (loadComp (fun c v2 => { c with confusion := some v2 }) convPure v data.confusion) ∧
    FieldVals (fun c => c.blocks_tile) (RPure id) data.blocks_tile (loadComp (fun c v2 => { c with confusion := some v2 }) convPure v data.confusion) ∧
    KeysLive data.combat_stats (loadComp (fun c v2 => { c with confusion := some v2 }) convPure v data.confusion) ∧
    FieldVals (fun c => c.combat_stats) (RPure id) data.combat_stats (loadComp (fun c v2 => { c with confusion := some v2 }) convPure v data.confusion) ∧
    KeysLive data.suffer_damage (loadComp (fun c v2 => { c with confusion := some v2 }) convPure v data.confusion) ∧
    FieldVals (fun c => c.suffer_damage) (RPure id) data.suffer_damage (loadComp (fun c v2 => { c with confusion := some v2 }) convPure v data.confusion) ∧
    KeysLive data.wants_melee (loadComp (fun c v2 => { c with confusion := some v2 }) convPure v data.confusion) ∧
    FieldVals (fun c => c.wants_melee) (RRef WantsToMelee.mk) data.wants_melee (loadComp (fun c v2 => { c with confusion := some v2 }) convPure v data.confusion) ∧
    KeysLive data.items (loadComp (fun c v2 => { c with confusion := some v2 }) convPure v data.confusion) ∧
    FieldVals (fun c => c.item) (RPure id) data.items (loadComp (fun c v2 => { c with confusion := some v2 }) convPure v data.confusion) ∧
    KeysLive data.consumables (loadComp (fun c v2 => { c with confusion := some v2 }) convPure v data.confusion) ∧
    FieldVals (fun c => c.consumable) (RPure id) data.consumables (loadComp (fun c v2 => { c with confusion := some v2 }) convPure v data.confusion) ∧
    KeysLive data.ranged (loadComp (fun c v2 => { c with confusion := some v2 }) convPure v data.confusion) ∧
    FieldVals (fun c => c.ranged) (RPure id) data.ranged (loadComp (fun c v2 => { c with confusion := some v2 }) convPure v data.confusion) ∧
    KeysLive data.inflicts_damage (loadComp (fun c v2 => { c with confusion := some v2 }) convPure v data.confusion) ∧
    FieldVals (fun c => c.inflicts_damage) (RPure id) data.inflicts_damage (loadComp (fun c v2 => { c with confusion := some v2 }) convPure v data.confusion) ∧
    KeysLive data.area_of_effect (loadComp (fun c v2 => { c with confusion := some v2 }) convPure v data.confusion) ∧
    FieldVals (fun c => c.area_of_effect) (RPure id) data.area_of_effect (loadComp (fun c v2 => { c with confusion := some v2 }) convPure v data.confusion) ∧
    KeysLive data.confusion (loadComp (fun c v2 => { c with confusion := some v2 }) convPure v data.confusion) ∧
    FieldVals (fun c => c.confusion) (RPure id) data.confusion (loadComp (fun c v2 => { c with confusion := some v2 }) convPure v data.confusion) ∧
    AllNone (fun c => c.provides_healing) (loadComp (fun c v2 => { c with confusion := some v2 }) convPure v data.confusion) ∧
    AllNone (fun c => c.in_backpack) (loadComp (fun c v2 => { c with confusion := some v2 }) convPure v data.confusion) ∧
    AllNone (fun c => c.wants_to_pickup) (loadComp (fun c v2 => { c with confusion := some v2 }) convPure v data.confusion) ∧
    AllNone (fun c => c.wants_to_use) (loadComp (fun c v2 => { c with confusion := some v2 }) convPure v data.confusion) ∧
    AllNone (fun c => c.wants_to_drop) (loadComp (fun c v2 => { c with confusion := some v2 }) convPure v data.confusion) ∧
    AllNone (fun c => c.serialization_helper) (loadComp (fun c v2 => { c with confusion := some v2 }) convPure v data.confusion) ∧
    AllNone (fun c => c.equippable) (loadComp (fun c v2 => { c with confusion := some v2 }) convPure v data.confusion) ∧
    AllNone (fun c => c.equipped) (loadComp (fun c v2 => { c with confusion := some v2 }) convPure v data.confusion) ∧
    AllNone (fun c => c.melee_power_bonus) (loadComp (fun c v2 => { c with confusion := some v2 }) convPure v data.confusion) ∧
    AllNone (fun c => c.defense_bonus) (loadComp (fun c v2 => { c with confusion := some v2 }) convPure v data.confusion) ∧
    AllNone (fun c => c.wants_to_remove) (loadComp (fun c v2 => { c with confusion := some v2 }) convPure v data.confusion) ∧
    AllNone (fun c => c.particle_lifetime) (loadComp (fun c v2 => { c with confusion := some v2 }) convPure v data.confusion) ∧
    AllNone (fun c => c.hunger_clock) (loadComp (fun c v2 => { c with confusion := some v2 }) convPure v data.confusion) ∧
    AllNone (fun c => c.provides_food) (loadComp (fun c v2 => { c with confusion := some v2 }) convPure v data.confusion) := by
  obtain ⟨hI2, hle2, hfr2, hklx⟩ := loadComp_struct (fun c v2 => { c with confusion := some v2 }) convPure A (fun _ => True)
    (fun c a => rfl) (convOK_pure A) data.confusion _ hI (fun p hp => ⟨hA p hp, trivial⟩)
  have hfvk := loadComp_est (fun c v2 => { c with confusion := some v2 }) (fun c => c.confusion) convPure A (fun _ => True)
    (RPure id) (convOK_pure A) (fun v2 b hIv hAb => rfl)
    (fun va vb a b hle h => h) (fun c a => rfl) (fun c a => rfl) (fun m => rfl)
    data.confusion _ hI hkeys (fun p hp => ⟨hA p hp, trivial⟩) hN16
  obtain ⟨hoF1, hnF1⟩ := loadComp_obs (fun c v2 => { c with confusion := some v2 }) convPure (fun c => c.position) A (fun _ => True)
    (fun c a => rfl) (convOK_pure A) (fun c a => rfl) (fun m => rfl) data.confusion _ hI (fun p hp => ⟨hA p hp, trivial⟩)
  have hfv1b := FieldVals_mono (fun c => c.position) (RPure id) data.positions hle2
    (fun a b h => h)
    (fun e he hn => let ⟨m, h1, h2, _⟩ := hfr2 e he hn; ⟨m, h1, h2⟩)
    hoF1 hnF1 hkl1 hfv1
  have hkl1b := KeysLive_mono hle2 hkl1
  obtain ⟨hoF2, hnF2⟩ := loadComp_obs (fun c v2 => { c with confusion := some v2 }) convPure (fun c => c.renderable) A (fun _ => True)
    (fun c a => rfl) (convOK_pure A) (fun c a => rfl) (fun m => rfl) data.confusion _ hI (fun p hp => ⟨hA p hp, trivial⟩)
  have hfv2b := FieldVals_mono (fun c => c.renderable) (RPure id) data.renderables hle2
    (fun a b h => h)
    (fun e he hn => let ⟨m, h1, h2, _⟩ := hfr2 e he hn; ⟨m, h1, h2⟩)
    hoF2 hnF2 hkl2 hfv2
  have hkl2b := KeysLive_mono hle2 hkl2
  obtain ⟨hoF3, hnF3⟩ := loadComp_obs (fun c v2 => { c with confusion := some v2 }) convPure (fun c => c.player) A (fun _ => True)
    (fun c a => rfl) (convOK_pure A) (fun c a => rfl) (fun m => rfl) data.confusion _ hI (fun p hp => ⟨hA p hp, trivial⟩)
  have hfv3b := FieldVals_mono (fun c => c.player) (RPure id) data.players hle2
    (fun a b h => h)
    (fun e he hn => let ⟨m, h1, h2, _⟩ := hfr2 e he hn; ⟨m, h1, h2⟩)
    hoF3 hnF3 hkl3 hfv3
  have hkl3b := KeysLive_mono hle2 hkl3
  obtain ⟨hoF4, hnF4⟩ := loadComp_obs (fun c v2 => { c with confusion := some v2 }) convPure (fun c => c.viewshed) A (fun _ => True)
    (fun c a => rfl) (convOK_pure A) (fun c a => rfl) (fun m => rfl) data.confusion _ hI (fun p hp => ⟨hA p hp, trivial⟩)
  have hfv4b := FieldVals_mono (fun c => c.viewshed) (RPure id) data.viewsheds hle2
    (fun a b h => h)
    (fun e he hn => let ⟨m, h1, h2, _⟩ := hfr2 e he hn; ⟨m, h1, h2⟩)
    hoF4 hnF4 hkl4 hfv4
  have hkl4b := KeysLive_mono hle2 hkl4
  obtain ⟨hoF5, hnF5⟩ := loadComp_obs (fun c v2 => { c with confusion := some v2 }) convPure (fun c => c.monster) A (fun _ => True)
    (fun c a => rfl) (convOK_pure A) (fun c a => rfl) (fun m => rfl) data.confusion _ hI (fun p hp => ⟨hA p hp, trivial⟩)
  have hfv5b := FieldVals_mono (fun c => c.monster) (RPure id) data.monsters hle2
    (fun a b h => h)
    (fun e he hn => let ⟨m, h1, h2, _⟩ := hfr2 e he hn; ⟨m, h1, h2⟩)
    hoF5 hnF5 hkl5 hfv5
  have hkl5b := KeysLive_mono hle2 hkl5
  obtain ⟨hoF6, hnF6⟩ := loadComp_obs (fun c v2 => { c with confusion := some v2 }) convPure (fun c => c.name) A (fun _ => True)
    (fun c a => rfl) (convOK_pure A) (fun c a => rfl) (fun m => rfl) data.confusion _ hI (fun p hp => ⟨hA p hp, trivial⟩)
  have hfv6b := FieldVals_mono (fun c => c.name) (RPure id) data.names hle2
    (fun a b h => h)
    (fun e he hn => let ⟨m, h1, h2, _⟩ := hfr2 e he hn; ⟨m, h1, h2⟩)
    hoF6 hnF6 hkl6 hfv6
  have hkl6b := KeysLive_mono hle2 hkl6
  obtain ⟨hoF7, hnF7⟩ := loadComp_obs (fun c v2 => { c with confusion := some v2 }) convPure (fun c => c.blocks_tile) A (fun _ => True)
    (fun c a => rfl) (convOK_pure A) (fun c a => rfl) (fun m => rfl) data.confusion _ hI (fun p hp => ⟨hA p hp, trivial⟩)
  have hfv7b := FieldVals_mono (fun c => c.blocks_tile) (RPure id) data.blocks_tile hle2
    (fun a b h => h)
    (fun e he hn => let ⟨m, h1, h2, _⟩ := hfr2 e he hn; ⟨m, h1, h2⟩)
    hoF7 hnF7 hkl7 hfv7
  have hkl7b := KeysLive_mono hle2 hkl7
  obtain ⟨hoF8, hnF8⟩ := loadComp_obs (fun c v2 => { c with confusion := some v2 }) convPure (fun c => c.combat_stats) A (fun _ => True)
    (fun c a => rfl) (convOK_pure A) (fun c a => rfl) (fun m => rfl) data.confusion _ hI (fun p hp => ⟨hA p hp, trivial⟩)
  have hfv8b := FieldVals_mono (fun c => c.combat_stats) (RPure id) data.combat_stats hle2
    (fun a b h => h)
    (fun e he hn => let ⟨m, h1, h2, _⟩ := hfr2 e he hn; ⟨m, h1, h2⟩)
    hoF8 hnF8 hkl8 hfv8
  have hkl8b := KeysLive_mono hle2 hkl8
  obtain ⟨hoF9, hnF9⟩ := loadComp_obs (fun c v2 => { c with confusion := some v2 }) convPure (fun c => c.suffer_damage) A (fun _ => True)
    (fun c a => rfl) (convOK_pure A) (fun c a => rfl) (fun m => rfl) data.confusion _ hI (fun p hp => ⟨hA p hp, trivial⟩)
  have hfv9b := FieldVals_mono (fun c => c.suffer_damage) (RPure id) data.suffer_damage hle2
    (fun a b h => h)
    (fun e he hn => let ⟨m, h1, h2, _⟩ := hfr2 e he hn; ⟨m, h1, h2⟩)
    hoF9 hnF9 hkl9 hfv9
  have hkl9b := KeysLive_mono hle2 hkl9
  obtain ⟨hoF10, hnF10⟩ := loadComp_obs (fun c v2 => { c with confusion := some v2 }) convPure (fun c => c.wants_melee) A (fun _ => True)
    (fun c a => rfl) (convOK_pure A) (fun c a => rfl) (fun m => rfl) data.confusion _ hI (fun p hp => ⟨hA p hp, trivial⟩)
  have hfv10b := FieldVals_mono (fun c => c.wants_melee) (RRef WantsToMelee.mk) data.wants_melee hle2
    (fun a b h => RRef_mono WantsToMelee.mk _ _ a b hle2 h)
    (fun e he hn => let ⟨m, h1, h2, _⟩ := hfr2 e he hn; ⟨m, h1, h2⟩)
    hoF10 hnF10 hkl10 hfv10
  have hkl10b := KeysLive_mono hle2 hkl10
  obtain ⟨hoF11, hnF11⟩ := loadComp_obs (fun c v2 => { c with confusion := some v2 }) convPure (fun c => c.item) A (fun _ => True)
    (fun c a => rfl) (convOK_pure A) (fun c a => rfl) (fun m => rfl) data.confusion _ hI (fun p hp => ⟨hA p hp, trivial⟩)
  have hfv11b := FieldVals_mono (fun c => c.item) (RPure id) data.items hle2
    (fun a b h => h)
    (fun e he hn => let ⟨m, h1, h2, _⟩ := hfr2 e he hn; ⟨m, h1, h2⟩)
    hoF11 hnF11 hkl11 hfv11
  have hkl11b := KeysLive_mono hle2 hkl11
  obtain ⟨hoF12, hnF12⟩ := loadComp_obs (fun c v2 => { c with confusion := some v2 }) convPure (fun c => c.consumable) A (fun _ => True)
    (fun c a => rfl) (convOK_pure A) (fun c a => rfl) (fun m => rfl) data.confusion _ hI (fun p hp => ⟨hA p hp, trivial⟩)
  have hfv12b := FieldVals_mono (fun c => c.consumable) (RPure id) data.consumables hle2
    (fun a b h => h)
    (fun e he hn => let ⟨m, h1, h2, _⟩ := hfr2 e he hn; ⟨m, h1, h2⟩)
    hoF12 hnF12 hkl12 hfv12
  have hkl12b := KeysLive_mono hle2 hkl12
  obtain ⟨hoF13, hnF13⟩ := loadComp_obs (fun c v2 => { c with confusion := some v2 }) convPure (fun c => c.ranged) A (fun _ => True)
    (fun c a => rfl) (convOK_pure A) (fun c a => rfl) (fun m => rfl) data.confusion _ hI (fun p hp => ⟨hA p hp, trivial⟩)
  have hfv13b := FieldVals_mono (fun c => c.ranged) (RPure id) data.ranged hle2
    (fun a b h => h)
    (fun e he hn => let ⟨m, h1, h2, _⟩ := hfr2 e he hn; ⟨m, h1, h2⟩)
    hoF13 hnF13 hkl13 hfv13
  have hkl13b := KeysLive_mono hle2 hkl13
  obtain ⟨hoF14, hnF14⟩ := loadComp_obs (fun c v2 => { c with confusion := some v2 }) convPure (fun c => c.inflicts_damage) A (fun _ => True)
    (fun c a => rfl) (convOK_pure A) (fun c a => rfl) (fun m => rfl) data.confusion _ hI (fun p hp => ⟨hA p hp, trivial⟩)
  have hfv14b := FieldVals_mono (fun c => c.inflicts_damage) (RPure id) data.inflicts_damage hle2
    (fun a b h => h)
    (fun e he hn => let ⟨m, h1, h2, _⟩ := hfr2 e he hn; ⟨m, h1, h2⟩)
    hoF14 hnF14 hkl14 hfv14
  have hkl14b := KeysLive_mono hle2 hkl14
  obtain ⟨hoF15, hnF15⟩ := loadComp_obs (fun c v2 => { c with confusion := some v2 }) convPure (fun c => c.area_of_effect) A (fun _ => True)
    (fun c a => rfl) (convOK_pure A) (fun c a => rfl) (fun m => rfl) data.confusion _ hI (fun p hp => ⟨hA p hp, trivial⟩)
  have hfv15b := FieldVals_mono (fun c => c.area_of_effect) (RPure id) data.area_of_effect hle2
    (fun a b h => h)
    (fun e he hn => let ⟨m, h1, h2, _⟩ := hfr2 e he hn; ⟨m, h1, h2⟩)
    hoF15 hnF15 hkl15 hfv15
  have hkl15b := KeysLive_mono hle2 hkl15
  obtain ⟨hoF17, hnF17⟩ := loadComp_obs (fun c v2 => { c with confusion := some v2 }) convPure (fun c => c.provides_healing) A (fun _ => True)
    (fun c a => rfl) (convOK_pure A) (fun c a => rfl) (fun m => rfl) data.confusion _ hI (fun p hp => ⟨hA p hp, trivial⟩)
  have hN17b := AllNone_mono (fun c => c.provides_healing) _ _ hoF17 hnF17 hN17
  obtain ⟨hoF18, hnF18⟩ := loadComp_obs (fun c v2 => { c with confusion := some v2 }) convPure (fun c => c.in_backpack) A (fun _ => True)
    (fun c a => rfl) (convOK_pure A) (fun c a => rfl) (fun m => rfl) data.confusion _ hI (fun p hp => ⟨hA p hp, trivial⟩)
  have hN18b := AllNone_mono (fun c => c.in_backpack) _ _ hoF18 hnF18 hN18
  obtain ⟨hoF19, hnF19⟩ := loadComp_obs (fun c v2 => { c with confusion := some v2 }) convPure (fun c => c.wants_to_pickup) A (fun _ => True)
    (fun c a => rfl) (convOK_pure A) (fun c a => rfl) (fun m => rfl) data.confusion _ hI (fun p hp => ⟨hA p hp, trivial⟩)
  have hN19b := AllNone_mono (fun c => c.wants_to_pickup) _ _ hoF19 hnF19 hN19
  obtain ⟨hoF20, hnF20⟩ := loadComp_obs (fun c v2 => { c with confusion := some v2 }) convPure (fun c => c.wants_to_use) A (fun _ => True)
    (fun c a => rfl) (convOK_pure A) (fun c a => rfl) (fun m => rfl) data.confusion _ hI (fun p hp => ⟨hA p hp, trivial⟩)
  have hN20b := AllNone_mono (fun c => c.wants_to_use) _ _ hoF20 hnF20 hN20
  obtain ⟨hoF21, hnF21⟩ := loadComp_obs (fun c v2 => { c with confusion := some v2 }) convPure (fun c => c.wants_to_drop) A (fun _ => True)
    (fun c a => rfl) (convOK_pure A) (fun c a => rfl) (fun m => rfl) data.confusion _ hI (fun p hp => ⟨hA p hp, trivial⟩)
  have hN21b := AllNone_mono (fun c => c.wants_to_drop) _ _ hoF21 hnF21 hN21
  obtain ⟨hoF22, hnF22⟩ := loadComp_obs (fun c v2 => { c with confusion := some v2 }) convPure (fun c => c.serialization_helper) A (fun _ => True)
    (fun c a => rfl) (convOK_pure A) (fun c a => rfl) (fun m => rfl) data.confusion _ hI (fun p hp => ⟨hA p hp, trivial⟩)
  have hN22b := AllNone_mono (fun c => c.serialization_helper) _ _ hoF22 hnF22 hN22
  obtain ⟨hoF23, hnF23⟩ := loadComp_obs (fun c v2 => { c with confusion := some v2 }) convPure (fun c => c.equippable) A (fun _ => True)
    (fun c a => rfl) (convOK_pure A) (fun c a => rfl) (fun m => rfl) data.confusion _ hI (fun p hp => ⟨hA p hp, trivial⟩)
  have hN23b := AllNone_mono (fun c => c.equippable) _ _ hoF23 hnF23 hN23
  obtain ⟨hoF24, hnF24⟩ := loadComp_obs (fun c v2 => { c with confusion := some v2 }) convPure (fun c => c.equipped) A (fun _ => True)
    (fun c a => rfl) (convOK_pure A) (fun c a => rfl) (fun m => rfl) data.confusion _ hI (fun p hp => ⟨hA p hp, trivial⟩)
  have hN24b := AllNone_mono (fun c => c.equipped) _ _ hoF24 hnF24 hN24
  obtain ⟨hoF25, hnF25⟩ := loadComp_obs (fun c v2 => { c with confusion := some v2 }) convPure (fun c => c.melee_power_bonus) A (fun _ => True)
    (fun c a => rfl) (convOK_pure A) (fun c a => rfl) (fun m => rfl) data.confusion _ hI (fun p hp => ⟨hA p hp, trivial⟩)
  have hN25b := AllNone_mono (fun c => c.melee_power_bonus) _ _ hoF25 hnF25 hN25
  obtain ⟨hoF26, hnF26⟩ := loadComp_obs (fun c v2 => { c with confusion := some v2 }) convPure (fun c => c.defense_bonus) A (fun _ => True)
    (fun c a => rfl) (convOK_pure A) (fun c a => rfl) (fun m => rfl) data.confusion _ hI (fun p hp => ⟨hA p hp, trivial⟩)
  have hN26b := AllNone_mono (fun c => c.defense_bonus) _ _ hoF26 hnF26 hN26
  obtain ⟨hoF27, hnF27⟩ := loadComp_obs (fun c v2 => { c with confusion := some v2 }) convPure (fun c => c.wants_to_remove) A (fun _ => True)
    (fun c a => rfl) (convOK_pure A) (fun c a => rfl) (fun m => rfl) data.confusion _ hI (fun p hp => ⟨hA p hp, trivial⟩)
  have hN27b := AllNone_mono (fun c => c.wants_to_remove) _ _ hoF27 hnF27 hN27
  obtain ⟨hoF28, hnF28⟩ := loadComp_obs (fun c v2 => { c with confusion := some v2 }) convPure (fun c => c.particle_lifetime) A (fun _ => True)
    (fun c a => rfl) (convOK_pure A) (fun c a => rfl) (fun m => rfl) data.confusion _ hI (fun p hp => ⟨hA p hp, trivial⟩)
  have hN28b := AllNone_mono (fun c => c.particle_lifetime) _ _ hoF28 hnF28 hN28
  obtain ⟨hoF29, hnF29⟩ := loadComp_obs (fun c v2 => { c with confusion := some v2 }) convPure (fun c => c.hunger_clock) A (fun _ => True)
    (fun c a => rfl) (convOK_pure A) (fun c a => rfl) (fun m => rfl) data.confusion _ hI (fun p hp => ⟨hA p hp, trivial⟩)
  have hN29b := AllNone_mono (fun c => c.hunger_clock) _ _ hoF29 hnF29 hN29
  obtain ⟨hoF30, hnF30⟩ := loadComp_obs (fun c v2 => { c with confusion := some v2 }) convPure (fun c => c.provides_food) A (fun _ => True)
    (fun c a => rfl) (convOK_pure A) (fun c a => rfl) (fun m => rfl) data.confusion _ hI (fun p hp => ⟨hA p hp, trivial⟩)
  have hN30b := AllNone_mono (fun c => c.provides_food) _ _ hoF30 hnF30 hN30
  have hMb := MarksIn_mono hle2 (fun e he hn => let ⟨m, h1, _, h3⟩ := hfr2 e he hn; ⟨m, h1, h3⟩) hM
  exact ⟨hI2, hMb, hkl1b, hfv1b, hkl2b, hfv2b, hkl3b, hfv3b, hkl4b, hfv4b, hkl5b, hfv5b, hkl6b, hfv6b, hkl7b, hfv7b, hkl8b, hfv8b, hkl9b, hfv9b, hkl10b, hfv10b, hkl11b, hfv11b, hkl12b, hfv12b, hkl13b, hfv13b, hkl14b, hfv14b, hkl15b, hfv15b, hklx, hfvk, hN17b, hN18b, hN19b, hN20b, hN21b, hN22b, hN23b, hN24b, hN25b, hN26b, hN27b, hN28b, hN29b, hN30b⟩

set_option maxHeartbeats 800000 in
/-- Deserialization pass 17 (provides_healing): it establishes its own list facts
and preserves those of the earlier passes. -/
lemma loadStage17 (A : Nat → Prop) (data : SaveData) (v : World)
    (hI : LoadInv v)
    (hkeys : ((data.provides_healing).map Prod.fst).Nodup)
    (hA : ∀ p ∈ data.provides_healing, A p.1)
    (hM : MarksIn A v)
    (hkl1 : KeysLive data.positions v)
    (hfv1 : FieldVals (fun c => c.position) (RPure id) data.positions v)
    (hkl2 : KeysLive data.renderables v)
    (hfv2 : FieldVals (fun c => c.renderable) (RPure id) data.renderables v)
    (hkl3 : KeysLive data.players v)
    (hfv3 : FieldVals (fun c => c.player) (RPure id) data.players v)
    (hkl4 : KeysLive data.viewsheds v)
    (hfv4 : FieldVals (fun c => c.viewshed) (RPure id) data.viewsheds v)
    (hkl5 : KeysLive data.monsters v)
    (hfv5 : FieldVals (fun c => c.monster) (RPure id) data.monsters v)
    (hkl6 : KeysLive data.names v)
    (hfv6 : FieldVals (fun c => c.name) (RPure id) data.names v)
    (hkl7 : KeysLive data.blocks_tile v)
    (hfv7 : FieldVals (fun c => c.blocks_tile) (RPure id) data.blocks_tile v)
    (hkl8 : KeysLive data.combat_stats v)
    (hfv8 : FieldVals (fun c => c.combat_stats) (RPure id) data.combat_stats v)
    (hkl9 : KeysLive data.suffer_damage v)
    (hfv9 : FieldVals (fun c => c.suffer_damage) (RPure id) data.suffer_damage v)
    (hkl10 : KeysLive data.wants_melee v)
    (hfv10 : FieldVals (fun c => c.wants_melee) (RRef WantsToMelee.mk) data.wants_melee v)
    (hkl11 : KeysLive data.items v)
    (hfv11 : FieldVals (fun c => c.item) (RPure id) data.items v)
    (hkl12 : KeysLive data.consumables v)
    (hfv12 : FieldVals (fun c => c.consumable) (RPure id) data.consumables v)
    (hkl13 : KeysLive data.ranged v)
    (hfv13 : FieldVals (fun c => c.ranged) (RPure id) data.ranged v)
    (hkl14 : KeysLive data.inflicts_damage v)
    (hfv14 : FieldVals (fun c => c.inflicts_damage) (RPure id) data.inflicts_damage v)
    (hkl15 : KeysLive data.area_of_effect v)
    (hfv15 : FieldVals (fun c => c.area_of_effect) (RPure id) data.area_of_effect v)
    (hkl16 : KeysLive data.confusion v)
    (hfv16 : FieldVals (fun c => c.confusion) (RPure id) data.confusion v)
    (hN17 : AllNone (fun c => c.provides_healing) v)
    (hN18 : AllNone (fun c => c.in_backpack) v)
    (hN19 : AllNone (fun c => c.wants_to_pickup) v)
    (hN20 : AllNone (fun c => c.wants_to_use) v)
    (hN21 : AllNone (fun c => c.wants_to_drop) v)
    (hN22 : AllNone (fun c => c.serialization_helper) v)
    (hN23 : AllNone (fun c => c.equippable) v)
    (hN24 : AllNone (fun c => c.equipped) v)
    (hN25 : AllNone (fun c => c.melee_power_bonus) v)
    (hN26 : AllNone (fun c => c.defense_bonus) v)
    (hN27 : AllNone (fun c => c.wants_to_remove) v)
    (hN28 : AllNone (fun c => c.particle_lifetime) v)
    (hN29 : AllNone (fun c => c.hunger_clock) v)
    (hN30 : AllNone (fun c => c.provides_food) v)
    :
    LoadInv (loadComp (fun c v2 => { c with provides_healing := some v2 }) convPure v data.provides_healing) ∧
    MarksIn A (loadComp (fun c v2 => { c with provides_healing := some v2 }) convPure v data.provides_healing) ∧
    KeysLive data.positions (loadComp (fun c v2 => { c with provides_healing := some v2 }) convPure v data.provides_healing) ∧
    FieldVals (fun c => c.position) (RPure id) data.positions (loadComp (fun c v2 => { c with provides_healing := some v2 }) convPure v data.provides_healing) ∧
    KeysLive data.renderables (loadComp (fun c v2 => { c with provides_healing := some v2 }) convPure v data.provides_healing) ∧
    FieldVals (fun c => c.renderable) (RPure id) data.renderables (loadComp (fun c v2 => { c with provides_healing := some v2 }) convPure v data.provides_healing) ∧
    KeysLive data.players (loadComp (fun c v2 => { c with provides_healing := some v2 }) convPure v data.provides_healing) ∧
    FieldVals (fun c => c.player) (RPure id) data.players (loadComp (fun c v2 => { c with provides_healing := some v2 }) convPure v data.provides_healing) ∧
    KeysLive data.viewsheds (loadComp (fun c v2 => { c with provides_healing := some v2 }) convPure v data.provides_healing) ∧
    FieldVals (fun c => c.viewshed) (RPure id) data.viewsheds (loadComp (fun c v2 => { c with provides_healing := some v2 }) convPure v data.provides_healing) ∧
    KeysLive data.monsters (loadComp (fun c v2 => { c with provides_healing := some v2 }) convPure v data.provides_healing) ∧
    FieldVals (fun c => c.monster) (RPure id) data.monsters (loadComp (fun c v2 => { c with provides_healing := some v2 }) convPure v data.provides_healing) ∧
    KeysLive data.names (loadComp (fun c v2 => { c with provides_healing := some v2 }) convPure v data.provides_healing) ∧
    FieldVals (fun c => c.name) (RPure id) data.names (loadComp (fun c v2 => { c with provides_healing := some v2 }) convPure v data.provides_healing) ∧
    KeysLive data.blocks_tile (loadComp (fun c v2 => { c with provides_healing := some v2 }) convPure v data.provides_healing) ∧
    FieldVals (fun c => c.blocks_tile) (RPure id) data.blocks_tile (loadComp (fun c v2 => { c with provides_healing := some v2 }) convPure v data.provides_healing) ∧
    KeysLive data.combat_stats (loadComp (fun c v2 => { c with provides_healing := some v2 }) convPure v data.provides_healing) ∧
    FieldVals (fun c => c.combat_stats) (RPure id) data.combat_stats (loadComp (fun c v2 => { c with provides_healing := some v2 }) convPure v data.provides_healing) ∧
    KeysLive data.suffer_damage (loadComp (fun c v2 => { c with provides_healing := some v2 }) convPure v data.provides_healing) ∧
    FieldVals (fun c => c.suffer_damage) (RPure id) data.suffer_damage (loadComp (fun c v2 => { c with provides_healing := some v2 }) convPure v data.provides_healing) ∧
    KeysLive data.wants_melee (loadComp (fun c v2 => { c with provides_healing := some v2 }) convPure v data.provides_healing) ∧
    FieldVals (fun c => c.wants_melee) (RRef WantsToMelee.mk) data.wants_melee (loadComp (fun c v2 => { c with provides_healing := some v2 }) convPure v data.provides_healing) ∧
    KeysLive data.items (loadComp (fun c v2 => { c with provides_healing := some v2 }) convPure v data.provides_healing) ∧
    FieldVals (fun c => c.item) (RPure id) data.items (loadComp (fun c v2 => { c with provides_healing := some v2 }) convPure v data.provides_healing) ∧
    KeysLive data.consumables (loadComp (fun c v2 => { c with provides_healing := some v2 }) convPure v data.provides_healing) ∧
    FieldVals (fun c => c.consumable) (RPure id) data.consumables (loadComp (fun c v2 => { c with provides_healing := some v2 }) convPure v data.provides_healing) ∧
    KeysLive data.ranged (loadComp (fun c v2 => { c with provides_healing := some v2 }) convPure v data.provides_healing) ∧
    FieldVals (fun c => c.ranged) (RPure id) data.ranged (loadComp (fun c v2 => { c with provides_healing := some v2 }) convPure v data.provides_healing) ∧
    KeysLive data.inflicts_damage (loadComp (fun c v2 => { c with provides_healing := some v2 }) convPure v data.provides_healing) ∧
    FieldVals (fun c => c.inflicts_damage) (RPure id) data.inflicts_damage (loadComp (fun c v2 => { c with provides_healing := some v2 }) convPure v data.provides_healing) ∧
    KeysLive data.area_of_effect (loadComp (fun c v2 => { c with provides_healing := some v2 }) convPure v data.provides_healing) ∧
    FieldVals (fun c => c.area_of_effect) (RPure id) data.area_of_effect (loadComp (fun c v2 => { c with provides_healing := some v2 }) convPure v data.provides_healing) ∧
    KeysLive data.confusion (loadComp (fun c v2 => { c with provides_healing := some v2 }) convPure v data.provides_healing) ∧
    FieldVals (fun c => c.confusion) (RPure id) data.confusion (loadComp (fun c v2 => { c with provides_healing := some v2 }) convPure v data.provides_healing) ∧
    KeysLive data.provides_healing (loadComp (fun c v2 => { c with provides_healing := some v2 }) convPure v data.provides_healing) ∧
    FieldVals (fun c => c.provides_healing) (RPure id) data.provides_healing (loadComp (fun c v2 => { c with provides_healing := some v2 }) convPure v data.provides_healing) ∧
    AllNone (fun c => c.in_backpack) (loadComp (fun c v2 => { c with provides_healing := some v2 }) convPure v data.provides_healing) ∧
    AllNone (fun c => c.wants_to_pickup) (loadComp (fun c v2 => { c with provides_healing := some v2 }) convPure v data.provides_healing) ∧
    AllNone (fun c => c.wants_to_use) (loadComp (fun c v2 => { c with provides_healing := some v2 }) convPure v data.provides_healing) ∧
    AllNone (fun c => c.wants_to_drop) (loadComp (fun c v2 => { c with provides_healing := some v2 }) convPure v data.provides_healing) ∧
    AllNone (fun c => c.serialization_helper) (loadComp (fun c v2 => { c with provides_healing := some v2 }) convPure v data.provides_healing) ∧
    AllNone (fun c => c.equippable) (loadComp (fun c v2 => { c with provides_healing := some v2 }) convPure v data.provides_healing) ∧
    AllNone (fun c => c.equipped) (loadComp (fun c v2 => { c with provides_healing := some v2 }) convPure v data.provides_healing) ∧
    AllNone (fun c => c.melee_power_bonus) (loadComp (fun c v2 => { c with provides_healing := some v2 }) convPure v data.provides_healing) ∧
    AllNone (fun c => c.defense_bonus) (loadComp (fun c v2 => { c with provides_healing := some v2 }) convPure v data.provides_healing) ∧
    AllNone (fun c => c.wants_to_remove) (loadComp (fun c v2 => { c with provides_healing := some v2 }) convPure v data.provides_healing) ∧
    AllNone (fun c => c.particle_lifetime) (loadComp (fun c v2 => { c with provides_healing := some v2 }) convPure v data.provides_healing) ∧
    AllNone (fun c => c.hunger_clock) (loadComp (fun c v2 => { c with provides_healing := some v2 }) convPure v data.provides_healing) ∧
    AllNone (fun c => c.provides_food) (loadComp (fun c v2 => { c with provides_healing := some v2 }) convPure v data.provides_healing) := by
  obtain ⟨hI2, hle2, hfr2, hklx⟩ := loadComp_struct (fun c v2 => { c with provides_healing := some v2 }) convPure A (fun _ => True)
    (fun c a => rfl) (convOK_pure A) data.provides_healing _ hI (fun p hp => ⟨hA p hp, trivial⟩)
  have hfvk := loadComp_est (fun c v2 => { c with provides_healing := some v2 }) (fun c => c.provides_healing) convPure A (fun _ => True)
    (RPure id) (convOK_pure A) (fun v2 b hIv hAb => rfl)
    (fun va vb a b hle h => h) (fun c a => rfl) (fun c a => rfl) (fun m => rfl)
    data.provides_healing _ hI hkeys (fun p hp => ⟨hA p hp, trivial⟩) hN17
  obtain ⟨hoF1, hnF1⟩ := loadComp_obs (fun c v2 => { c with provides_healing := some v2 }) convPure (fun c => c.position) A (fun _ => True)
    (fun c a => rfl) (convOK_pure A) (fun c a => rfl) (fun m => rfl) data.provides_healing _ hI (fun p hp => ⟨hA p hp, trivial⟩)
  have hfv1b := FieldVals_mono (fun c => c.position) (RPure id) data.positions hle2
    (fun a b h => h)
    (fun e he hn => let ⟨m, h1, h2, _⟩ := hfr2 e he hn; ⟨m, h1, h2⟩)
    hoF1 hnF1 hkl1 hfv1
  have hkl1b := KeysLive_mono hle2 hkl1
  obtain ⟨hoF2, hnF2⟩ := loadComp_obs (fun c v2 => { c with provides_healing := some v2 }) convPure (fun c => c.renderable) A (fun _ => True)
    (fun c a => rfl) (convOK_pure A) (fun c a => rfl) (fun m => rfl) data.provides_healing _ hI (fun p hp => ⟨hA p hp, trivial⟩)
  have hfv2b := FieldVals_mono (fun c => c.renderable) (RPure id) data.renderables hle2
    (fun a b h => h)
    (fun e he hn => let ⟨m, h1, h2, _⟩ := hfr2 e he hn; ⟨m, h1, h2⟩)
    hoF2 hnF2 hkl2 hfv2
  have hkl2b := KeysLive_mono hle2 hkl2
  obtain ⟨hoF3, hnF3⟩ := loadComp_obs (fun c v2 => { c with provides_healing := some v2 }) convPure (fun c => c.player) A (fun _ => True)
    (fun c a => rfl) (convOK_pure A) (fun c a => rfl) (fun m => rfl) data.provides_healing _ hI (fun p hp => ⟨hA p hp, trivial⟩)
  have hfv3b := FieldVals_mono (fun c => c.player) (RPure id) data.players hle2
    (fun a b h => h)
    (fun e he hn => let ⟨m, h1, h2, _⟩ := hfr2 e he hn; ⟨m, h1, h2⟩)
    hoF3 hnF3 hkl3 hfv3
  have hkl3b := KeysLive_mono hle2 hkl3
  obtain ⟨hoF4, hnF4⟩ := loadComp_obs (fun c v2 => { c with provides_healing := some v2 }) convPure (fun c => c.viewshed) A (fun _ => True)
    (fun c a => rfl) (convOK_pure A) (fun c a => rfl) (fun m => rfl) data.provides_healing _ hI (fun p hp => ⟨hA p hp, trivial⟩)
  have hfv4b := FieldVals_mono (fun c => c.viewshed) (RPure id) data.viewsheds hle2
    (fun a b h => h)
    (fun e he hn => let ⟨m, h1, h2, _⟩ := hfr2 e he hn; ⟨m, h1, h2⟩)
    hoF4 hnF4 hkl4 hfv4
  have hkl4b := KeysLive_mono hle2 hkl4
  obtain ⟨hoF5, hnF5⟩ := loadComp_obs (fun c v2 => { c with provides_healing := some v2 }) convPure (fun c => c.monster) A (fun _ => True)
    (fun c a => rfl) (convOK_pure A) (fun c a => rfl) (fun m => rfl) data.provides_healing _ hI (fun p hp => ⟨hA p hp, trivial⟩)
  have hfv5b := FieldVals_mono (fun c => c.monster) (RPure id) data.monsters hle2
    (fun a b h => h)
    (fun e he hn => let ⟨m, h1, h2, _⟩ := hfr2 e he hn; ⟨m, h1, h2⟩)
    hoF5 hnF5 hkl5 hfv5
  have hkl5b := KeysLive_mono hle2 hkl5
  obtain ⟨hoF6, hnF6⟩ := loadComp_obs (fun c v2 => { c with provides_healing := some v2 }) convPure (fun c => c.name) A (fun _ => True)
    (fun c a => rfl) (convOK_pure A) (fun c a => rfl) (fun m => rfl) data.provides_healing _ hI (fun p hp => ⟨hA p hp, trivial⟩)
  have hfv6b := FieldVals_mono (fun c => c.name) (RPure id) data.names hle2
    (fun a b h => h)
    (fun e he hn => let ⟨m, h1, h2, _⟩ := hfr2 e he hn; ⟨m, h1, h2⟩)
    hoF6 hnF6 hkl6 hfv6
  have hkl6b := KeysLive_mono hle2 hkl6
  obtain ⟨hoF7, hnF7⟩ := loadComp_obs (fun c v2 => { c with provides_healing := some v2 }) convPure (fun c => c.blocks_tile) A (fun _ => True)
    (fun c a => rfl) (convOK_pure A) (fun c a => rfl) (fun m => rfl) data.provides_healing _ hI (fun p hp => ⟨hA p hp, trivial⟩)
  have hfv7b := FieldVals_mono (fun c => c.blocks_tile) (RPure id) data.blocks_tile hle2
    (fun a b h => h)
    (fun e he hn => let ⟨m, h1, h2, _⟩ := hfr2 e he hn; ⟨m, h1, h2⟩)
    hoF7 hnF7 hkl7 hfv7
  have hkl7b := KeysLive_mono hle2 hkl7
  obtain ⟨hoF8, hnF8⟩ := loadComp_obs (fun c v2 => { c with provides_healing := some v2 }) convPure (fun c => c.combat_stats) A (fun _ => True)
    (fun c a => rfl) (convOK_pure A) (fun c a => rfl) (fun m => rfl) data.provides_healing _ hI (fun p hp => ⟨hA p hp, trivial⟩)
  have hfv8b := FieldVals_mono (fun c => c.combat_stats) (RPure id) data.combat_stats hle2
    (fun a b h => h)
    (fun e he hn => let ⟨m, h1, h2, _⟩ := hfr2 e he hn; ⟨m, h1, h2⟩)
    hoF8 hnF8 hkl8 hfv8
  have hkl8b := KeysLive_mono hle2 hkl8
  obtain ⟨hoF9, hnF9⟩ := loadComp_obs (fun c v2 => { c with provides_healing := some v2 }) convPure (fun c => c.suffer_damage) A (fun _ => True)
    (fun c a => rfl) (convOK_pure A) (fun c a => rfl) (fun m => rfl) data.provides_healing _ hI (fun p hp => ⟨hA p hp, trivial⟩)
  have hfv9b := FieldVals_mono (fun c => c.suffer_damage) (RPure id) data.suffer_damage hle2
    (fun a b h => h)
    (fun e he hn => let ⟨m, h1, h2, _⟩ := hfr2 e he hn; ⟨m, h1, h2⟩)
    hoF9 hnF9 hkl9 hfv9
  have hkl9b := KeysLive_mono hle2 hkl9
  obtain ⟨hoF10, hnF10⟩ := loadComp_obs (fun c v2 => { c with provides_healing := some v2 }) convPure (fun c => c.wants_melee) A (fun _ => True)
    (fun c a => rfl) (convOK_pure A) (fun c a => rfl) (fun m => rfl) data.provides_healing _ hI (fun p hp => ⟨hA p hp, trivial⟩)
  have hfv10b := FieldVals_mono (fun c => c.wants_melee) (RRef WantsToMelee.mk) data.wants_melee hle2
    (fun a b h => RRef_mono WantsToMelee.mk _ _ a b hle2 h)
    (fun e he hn => let ⟨m, h1, h2, _⟩ := hfr2 e he hn; ⟨m, h1, h2⟩)
    hoF10 hnF10 hkl10 hfv10
  have hkl10b := KeysLive_mono hle2 hkl10
  obtain ⟨hoF11, hnF11⟩ := loadComp_obs (fun c v2 => { c with provides_healing := some v2 }) convPure (fun c => c.item) A (fun _ => True)
    (fun c a => rfl) (convOK_pure A) (fun c a => rfl) (fun m => rfl) data.provides_healing _ hI (fun p hp => ⟨hA p hp, trivial⟩)
  have hfv11b := FieldVals_mono (fun c => c.item) (RPure id) data.items hle2
    (fun a b h => h)
    (fun e he hn => let ⟨m, h1, h2, _⟩ := hfr2 e he hn; ⟨m, h1, h2⟩)
    hoF11 hnF11 hkl11 hfv11
  have hkl11b := KeysLive_mono hle2 hkl11
  obtain ⟨hoF12, hnF12⟩ := loadComp_obs (fun c v2 => { c with provides_healing := some v2 }) convPure (fun c => c.consumable) A (fun _ => True)
    (fun c a => rfl) (convOK_pure A) (fun c a => rfl) (fun m => rfl) data.provides_healing _ hI (fun p hp => ⟨hA p hp, trivial⟩)
  have hfv12b := FieldVals_mono (fun c => c.consumable) (RPure id) data.consumables hle2
    (fun a b h => h)
    (fun e he hn => let ⟨m, h1, h2, _⟩ := hfr2 e he hn; ⟨m, h1, h2⟩)
    hoF12 hnF12 hkl12 hfv12
  have hkl12b := KeysLive_mono hle2 hkl12
  obtain ⟨hoF13, hnF13⟩ := loadComp_obs (fun c v2 => { c with provides_healing := some v2 }) convPure (fun c => c.ranged) A (fun _ => True)
    (fun c a => rfl) (convOK_pure A) (fun c a => rfl) (fun m => rfl) data.provides_healing _ hI (fun p hp => ⟨hA p hp, trivial⟩)
  have hfv13b := FieldVals_mono (fun c => c.ranged) (RPure id) data.ranged hle2
    (fun a b h => h)
    (fun e he hn => let ⟨m, h1, h2, _⟩ := hfr2 e he hn; ⟨m, h1, h2⟩)
    hoF13 hnF13 hkl13 hfv13
  have hkl13b := KeysLive_mono hle2 hkl13
  obtain ⟨hoF14, hnF14⟩ := loadComp_obs (fun c v2 => { c with provides_healing := some v2 }) convPure (fun c => c.inflicts_damage) A (fun _ => True)
    (fun c a => rfl) (convOK_pure A) (fun c a => rfl) (fun m => rfl) data.provides_healing _ hI (fun p hp => ⟨hA p hp, trivial⟩)
  have hfv14b := FieldVals_mono (fun c => c.inflicts_damage) (RPure id) data.inflicts_damage hle2
    (fun a b h => h)
    (fun e he hn => let ⟨m, h1, h2, _⟩ := hfr2 e he hn; ⟨m, h1, h2⟩)
    hoF14 hnF14 hkl14 hfv14
  have hkl14b := KeysLive_mono hle2 hkl14
  obtain ⟨hoF15, hnF15⟩ := loadComp_obs (fun c v2 => { c with provides_healing := some v2 }) convPure (fun c => c.area_of_effect) A (fun _ => True)
    (fun c a => rfl) (convOK_pure A) (fun c a => rfl) (fun m => rfl) data.provides_healing _ hI (fun p hp => ⟨hA p hp, trivial⟩)
  have hfv15b := FieldVals_mono (fun c => c.area_of_effect) (RPure id) data.area_of_effect hle2
    (fun a b h => h)
    (fun e he hn => let ⟨m, h1, h2, _⟩ := hfr2 e he hn; ⟨m, h1, h2⟩)
    hoF15 hnF15 hkl15 hfv15
  have hkl15b := KeysLive_mono hle2 hkl15
  obtain ⟨hoF16, hnF16⟩ := loadComp_obs (fun c v2 => { c with provides_healing := some v2 }) convPure (fun c => c.confusion) A (fun _ => True)
    (fun c a => rfl) (convOK_pure A) (fun c a => rfl) (fun m => rfl) data.provides_healing _ hI (fun p hp => ⟨hA p hp, trivial⟩)
  have hfv16b := FieldVals_mono (fun c => c.confusion) (RPure id) data.confusion hle2
    (fun a b h => h)
    (fun e he hn => let ⟨m, h1, h2, _⟩ := hfr2 e he hn; ⟨m, h1, h2⟩)
    hoF16 hnF16 hkl16 hfv16
  have hkl16b := KeysLive_mono hle2 hkl16
  obtain ⟨hoF18, hnF18⟩ := loadComp_obs (fun c v2 => { c with provides_healing := some v2 }) convPure (fun c => c.in_backpack) A (fun _ => True)
    (fun c a => rfl) (convOK_pure A) (fun c a => rfl) (fun m => rfl) data.provides_healing _ hI (fun p hp => ⟨hA p hp, trivial⟩)
  have hN18b := AllNone_mono (fun c => c.in_backpack) _ _ hoF18 hnF18 hN18
  obtain ⟨hoF19, hnF19⟩ := loadComp_obs (fun c v2 => { c with provides_healing := some v2 }) convPure (fun c => c.wants_to_pickup) A (fun _ => True)
    (fun c a => rfl) (convOK_pure A) (fun c a => rfl) (fun m => rfl) data.provides_healing _ hI (fun p hp => ⟨hA p hp, trivial⟩)
  have hN19b := AllNone_mono (fun c => c.wants_to_pickup) _ _ hoF19 hnF19 hN19
  obtain ⟨hoF20, hnF20⟩ := loadComp_obs (fun c v2 => { c with provides_healing := some v2 }) convPure (fun c => c.wants_to_use) A (fun _ => True)
    (fun c a => rfl) (convOK_pure A) (fun c a => rfl) (fun m => rfl) data.provides_healing _ hI (fun p hp => ⟨hA p hp, trivial⟩)
  have hN20b := AllNone_mono (fun c => c.wants_to_use) _ _ hoF20 hnF20 hN20
  obtain ⟨hoF21, hnF21⟩ := loadComp_obs (fun c v2 => { c with provides_healing := some v2 }) convPure (fun c => c.wants_to_drop) A (fun _ => True)
    (fun c a => rfl) (convOK_pure A) (fun c a => rfl) (fun m => rfl) data.provides_healing _ hI (fun p hp => ⟨hA p hp, trivial⟩)
  have hN21b := AllNone_mono (fun c => c.wants_to_drop) _ _ hoF21 hnF21 hN21
  obtain ⟨hoF22, hnF22⟩ := loadComp_obs (fun c v2 => { c with provides_healing := some v2 }) convPure (fun c => c.serialization_helper) A (fun _ => True)
    (fun c a => rfl) (convOK_pure A) (fun c a => rfl) (fun m => rfl) data.provides_healing _ hI (fun p hp => ⟨hA p hp, trivial⟩)
  have hN22b := AllNone_mono (fun c => c.serialization_helper) _ _ hoF22 hnF22 hN22
  obtain ⟨hoF23, hnF23⟩ := loadComp_obs (fun c v2 => { c with provides_healing := some v2 }) convPure (fun c => c.equippable) A (fun _ => True)
    (fun c a => rfl) (convOK_pure A) (fun c a => rfl) (fun m => rfl) data.provides_healing _ hI (fun p hp => ⟨hA p hp, trivial⟩)
  have hN23b := AllNone_mono (fun c => c.equippable) _ _ hoF23 hnF23 hN23
  obtain ⟨hoF24, hnF24⟩ := loadComp_obs (fun c v2 => { c with provides_healing := some v2 }) convPure (fun c => c.equipped) A (fun _ => True)
    (fun c a => rfl) (convOK_pure A) (fun c a => rfl) (fun m => rfl) data.provides_healing _ hI (fun p hp => ⟨hA p hp, trivial⟩)
  have hN24b := AllNone_mono (fun c => c.equipped) _ _ hoF24 hnF24 hN24
  obtain ⟨hoF25, hnF25⟩ := loadComp_obs (fun c v2 => { c with provides_healing := some v2 }) convPure (fun c => c.melee_power_bonus) A (fun _ => True)
    (fun c a => rfl) (convOK_pure A) (fun c a => rfl) (fun m => rfl) data.provides_healing _ hI (fun p hp => ⟨hA p hp, trivial⟩)
  have hN25b := AllNone_mono (fun c => c.melee_power_bonus) _ _ hoF25 hnF25 hN25
  obtain ⟨hoF26, hnF26⟩ := loadComp_obs (fun c v2 => { c with provides_healing := some v2 }) convPure (fun c => c.defense_bonus) A (fun _ => True)
    (fun c a => rfl) (convOK_pure A) (fun c a => rfl) (fun m => rfl) data.provides_healing _ hI (fun p hp => ⟨hA p hp, trivial⟩)
  have hN26b := AllNone_mono (fun c => c.defense_bonus) _ _ hoF26 hnF26 hN26
  obtain ⟨hoF27, hnF27⟩ := loadComp_obs (fun c v2 => { c with provides_healing := some v2 }) convPure (fun c => c.wants_to_remove) A (fun _ => True)
    (fun c a => rfl) (convOK_pure A) (fun c a => rfl) (fun m => rfl) data.provides_healing _ hI (fun p hp => ⟨hA p hp, trivial⟩)
  have hN27b := AllNone_mono (fun c => c.wants_to_remove) _ _ hoF27 hnF27 hN27
  obtain ⟨hoF28, hnF28⟩ := loadComp_obs (fun c v2 => { c with provides_healing := some v2 }) convPure (fun c => c.particle_lifetime) A (fun _ => True)
    (fun c a => rfl) (convOK_pure A) (fun c a => rfl) (fun m => rfl) data.provides_healing _ hI (fun p hp => ⟨hA p hp, trivial⟩)
  have hN28b := AllNone_mono (fun c => c.particle_lifetime) _ _ hoF28 hnF28 hN28
  obtain ⟨hoF29, hnF29⟩ := loadComp_obs (fun c v2 => { c with provides_healing := some v2 }) convPure (fun c => c.hunger_clock) A (fun _ => True)
    (fun c a => rfl) (convOK_pure A) (fun c a => rfl) (fun m => rfl) data.provides_healing _ hI (fun p hp => ⟨hA p hp, trivial⟩)
  have hN29b := AllNone_mono (fun c => c.hunger_clock) _ _ hoF29 hnF29 hN29
  obtain ⟨hoF30, hnF30⟩ := loadComp_obs (fun c v2 => { c with provides_healing := some v2 }) convPure (fun c => c.provides_food) A (fun _ => True)
    (fun c a => rfl) (convOK_pure A) (fun c a => rfl) (fun m => rfl) data.provides_healing _ hI (fun p hp => ⟨hA p hp, trivial⟩)
  have hN30b := AllNone_mono (fun c => c.provides_food) _ _ hoF30 hnF30 hN30
  have hMb := MarksIn_mono hle2 (fun e he hn => let ⟨m, h1, _, h3⟩ := hfr2 e he hn; ⟨m, h1, h3⟩) hM
  exact ⟨hI2, hMb, hkl1b, hfv1b, hkl2b, hfv2b, hkl3b, hfv3b, hkl4b, hfv4b, hkl5b, hfv5b, hkl6b, hfv6b, hkl7b, hfv7b, hkl8b, hfv8b, hkl9b, hfv9b, hkl10b, hfv10b, hkl11b, hfv11b, hkl12b, hfv12b, hkl13b, hfv13b, hkl14b, hfv14b, hkl15b, hfv15b, hkl16b, hfv16b, hklx, hfvk, hN18b, hN19b, hN20b, hN21b, hN22b, hN23b, hN24b, hN25b, hN26b, hN27b, hN28b, hN29b, hN30b⟩

set_option maxHeartbeats 800000 in
/-- Deserialization pass 18 (in_backpack): it establishes its own list facts
and preserves those of the earlier passes. -/
lemma loadStage18 (A : Nat → Prop) (data : SaveData) (v : World)
    (hI : LoadInv v)
    (hkeys : ((data.in_backpack).map Prod.fst).Nodup)
    (hA : ∀ p ∈ data.in_backpack, A p.1 ∧ A p.2)
    (hM : MarksIn A v)
    (hkl1 : KeysLive data.positions v)
    (hfv1 : FieldVals (fun c => c.position) (RPure id) data.positions v)
    (hkl2 : KeysLive data.renderables v)
    (hfv2 : FieldVals (fun c => c.renderable) (RPure id) data.renderables v)
    (hkl3 : KeysLive data.players v)
    (hfv3 : FieldVals (fun c => c.player) (RPure id) data.players v)
    (hkl4 : KeysLive data.viewsheds v)
    (hfv4 : FieldVals (fun c => c.viewshed) (RPure id) data.viewsheds v)
    (hkl5 : KeysLive data.monsters v)
    (hfv5 : FieldVals (fun c => c.monster) (RPure id) data.monsters v)
    (hkl6 : KeysLive data.names v)
    (hfv6 : FieldVals (fun c => c.name) (RPure id) data.names v)
    (hkl7 : KeysLive data.blocks_tile v)
    (hfv7 : FieldVals (fun c => c.blocks_tile) (RPure id) data.blocks_tile v)
    (hkl8 : KeysLive data.combat_stats v)
    (hfv8 : FieldVals (fun c => c.combat_stats) (RPure id) data.combat_stats v)
    (hkl9 : KeysLive data.suffer_damage v)
    (hfv9 : FieldVals (fun c => c.suffer_damage) (RPure id) data.suffer_damage v)
    (hkl10 : KeysLive data.wants_melee v)
    (hfv10 : FieldVals (fun c => c.wants_melee) (RRef WantsToMelee.mk) data.wants_melee v)
    (hkl11 : KeysLive data.items v)
    (hfv11 : FieldVals (fun c => c.item) (RPure id) data.items v)
    (hkl12 : KeysLive data.consumables v)
    (hfv12 : FieldVals (fun c => c.consumable) (RPure id) data.consumables v)
    (hkl13 : KeysLive data.ranged v)
    (hfv13 : FieldVals (fun c => c.ranged) (RPure id) data.ranged v)
    (hkl14 : KeysLive data.inflicts_damage v)
    (hfv14 : FieldVals (fun c => c.inflicts_damage) (RPure id) data.inflicts_damage v)
    (hkl15 : KeysLive data.area_of_effect v)
    (hfv15 : FieldVals (fun c => c.area_of_effect) (RPure id) data.area_of_effect v)
    (hkl16 : KeysLive data.confusion v)
    (hfv16 : FieldVals (fun c => c.confusion) (RPure id) data.confusion v)
    (hkl17 : KeysLive data.provides_healing v)
    (hfv17 : FieldVals (fun c => c.provides_healing) (RPure id) data.provides_healing v)
    (hN18 : AllNone (fun c => c.in_backpack) v)
    (hN19 : AllNone (fun c => c.wants_to_pickup) v)
    (hN20 : AllNone (fun c => c.wants_to_use) v)
    (hN21 : AllNone (fun c => c.wants_to_drop) v)
    (hN22 : AllNone (fun c => c.serialization_helper) v)
    (hN23 : AllNone (fun c => c.equippable) v)
    (hN24 : AllNone (fun c => c.equipped) v)
    (hN25 : AllNone (fun c => c.melee_power_bonus) v)
    (hN26 : AllNone (fun c => c.defense_bonus) v)
    (hN27 : AllNone (fun c => c.wants_to_remove) v)
    (hN28 : AllNone (fun c => c.particle_lifetime) v)
    (hN29 : AllNone (fun c => c.hunger_clock) v)
    (hN30 : AllNone (fun c => c.provides_food) v)
    :
    LoadInv (loadComp (fun c v2 => { c with in_backpack := some v2 }) (convRef InBackpack.mk) v data.in_backpack) ∧
    MarksIn A (loadComp (fun c v2 => { c with in_backpack := some v2 }) (convRef InBackpack.mk) v data.in_backpack) ∧
    KeysLive data.positions (loadComp (fun c v2 => { c with in_backpack := some v2 }) (convRef InBackpack.mk) v data.in_backpack) ∧
    FieldVals (fun c => c.position) (RPure id) data.positions (loadComp (fun c v2 => { c with in_backpack := some v2 }) (convRef InBackpack.mk) v data.in_backpack) ∧
    KeysLive data.renderables (loadComp (fun c v2 => { c with in_backpack := some v2 }) (convRef InBackpack.mk) v data.in_backpack) ∧
    FieldVals (fun c => c.renderable) (RPure id) data.renderables (loadComp (fun c v2 => { c with in_backpack := some v2 }) (convRef InBackpack.mk) v data.in_backpack) ∧
    KeysLive data.players (loadComp (fun c v2 => { c with in_backpack := some v2 }) (convRef InBackpack.mk) v data.in_backpack) ∧
    FieldVals (fun c => c.player) (RPure id) data.players (loadComp (fun c v2 => { c with in_backpack := some v2 }) (convRef InBackpack.mk) v data.in_backpack) ∧
    KeysLive data.viewsheds (loadComp (fun c v2 => { c with in_backpack := some v2 }) (convRef InBackpack.mk) v data.in_backpack) ∧
    FieldVals (fun c => c.viewshed) (RPure id) data.viewsheds (loadComp (fun c v2 => { c with in_backpack := some v2 }) (convRef InBackpack.mk) v data.in_backpack) ∧
    KeysLive data.monsters (loadComp (fun c v2 => { c with in_backpack := some v2 }) (convRef InBackpack.mk) v data.in_backpack) ∧
    FieldVals (fun c => c.monster) (RPure id) data.monsters (loadComp (fun c v2 => { c with in_backpack := some v2 }) (convRef InBackpack.mk) v data.in_backpack) ∧
    KeysLive data.names (loadComp (fun c v2 => { c with in_backpack := some v2 }) (convRef InBackpack.mk) v data.in_backpack) ∧
    FieldVals (fun c => c.name) (RPure id) data.names (loadComp (fun c v2 => { c with in_backpack := some v2 }) (convRef InBackpack.mk) v data.in_backpack) ∧
    KeysLive data.blocks_tile (loadComp (fun c v2 => { c with in_backpack := some v2 }) (convRef InBackpack.mk) v data.in_backpack) ∧
    FieldVals (fun c => c.blocks_tile) (RPure id) data.blocks_tile (loadComp (fun c v2 => { c with in_backpack := some v2 }) (convRef InBackpack.mk) v data.in_backpack) ∧
    KeysLive data.combat_stats (loadComp (fun c v2 => { c with in_backpack := some v2 }) (convRef InBackpack.mk) v data.in_backpack) ∧
    FieldVals (fun c => c.combat_stats) (RPure id) data.combat_stats (loadComp (fun c v2 => { c with in_backpack := some v2 }) (convRef InBackpack.mk) v data.in_backpack) ∧
    KeysLive data.suffer_damage (loadComp (fun c v2 => { c with in_backpack := some v2 }) (convRef InBackpack.mk) v data.in_backpack) ∧
    FieldVals (fun c => c.suffer_damage) (RPure id) data.suffer_damage (loadComp (fun c v2 => { c with in_backpack := some v2 }) (convRef InBackpack.mk) v data.in_backpack) ∧
    KeysLive data.wants_melee (loadComp (fun c v2 => { c with in_backpack := some v2 }) (convRef InBackpack.mk) v data.in_backpack) ∧
    FieldVals (fun c => c.wants_melee) (RRef WantsToMelee.mk) data.wants_melee (loadComp (fun c v2 => { c with in_backpack := some v2 }) (convRef InBackpack.mk) v data.in_backpack) ∧
    KeysLive data.items (loadComp (fun c v2 => { c with in_backpack := some v2 }) (convRef InBackpack.mk) v data.in_backpack) ∧
    FieldVals (fun c => c.item) (RPure id) data.items (loadComp (fun c v2 => { c with in_backpack := some v2 }) (convRef InBackpack.mk) v data.in_backpack) ∧
    KeysLive data.consumables (loadComp (fun c v2 => { c with in_backpack := some v2 }) (convRef InBackpack.mk) v data.in_backpack) ∧
    FieldVals (fun c => c.consumable) (RPure id) data.consumables (loadComp (fun c v2 => { c with in_backpack := some v2 }) (convRef InBackpack.mk) v data.in_backpack) ∧
    KeysLive data.ranged (loadComp (fun c v2 => { c with in_backpack := some v2 }) (convRef InBackpack.mk) v data.in_backpack) ∧
    FieldVals (fun c => c.ranged) (RPure id) data.ranged (loadComp (fun c v2 => { c with in_backpack := some v2 }) (convRef InBackpack.mk) v data.in_backpack) ∧
    KeysLive data.inflicts_damage (loadComp (fun c v2 => { c with in_backpack := some v2 }) (convRef InBackpack.mk) v data.in_backpack) ∧
    FieldVals (fun c => c.inflicts_damage) (RPure id) data.inflicts_damage (loadComp (fun c v2 => { c with in_backpack := some v2 }) (convRef InBackpack.mk) v data.in_backpack) ∧
    KeysLive data.area_of_effect (loadComp (fun c v2 => { c with in_backpack := some v2 }) (convRef InBackpack.mk) v data.in_backpack) ∧
    FieldVals (fun c => c.area_of_effect) (RPure id) data.area_of_effect (loadComp (fun c v2 => { c with in_backpack := some v2 }) (convRef InBackpack.mk) v data.in_backpack) ∧
    KeysLive data.confusion (loadComp (fun c v2 => { c with in_backpack := some v2 }) (convRef InBackpack.mk) v data.in_backpack) ∧
    FieldVals (fun c => c.confusion) (RPure id) data.confusion (loadComp (fun c v2 => { c with in_backpack := some v2 }) (convRef InBackpack.mk) v data.in_backpack) ∧
    KeysLive data.provides_healing (loadComp (fun c v2 => { c with in_backpack := some v2 }) (convRef InBackpack.mk) v data.in_backpack) ∧
    FieldVals (fun c => c.provides_healing) (RPure id) data.provides_healing (loadComp (fun c v2 => { c with in_backpack := some v2 }) (convRef InBackpack.mk) v data.in_backpack) ∧
    KeysLive data.in_backpack (loadComp (fun c v2 => { c with in_backpack := some v2 }) (convRef InBackpack.mk) v data.in_backpack) ∧
    FieldVals (fun c => c.in_backpack) (RRef InBackpack.mk) data.in_backpack (loadComp (fun c v2 => { c with in_backpack := some v2 }) (convRef InBackpack.mk) v data.in_backpack) ∧
    AllNone (fun c => c.wants_to_pickup) (loadComp (fun c v2 => { c with in_backpack := some v2 }) (convRef InBackpack.mk) v data.in_backpack) ∧
    AllNone (fun c => c.wants_to_use) (loadComp (fun c v2 => { c with in_backpack := some v2 }) (convRef InBackpack.mk) v data.in_backpack) ∧
    AllNone (fun c => c.wants_to_drop) (loadComp (fun c v2 => { c with in_backpack := some v2 }) (convRef InBackpack.mk) v data.in_backpack) ∧
    AllNone (fun c => c.serialization_helper) (loadComp (fun c v2 => { c with in_backpack := some v2 }) (convRef InBackpack.mk) v data.in_backpack) ∧
    AllNone (fun c => c.equippable) (loadComp (fun c v2 => { c with in_backpack := some v2 }) (convRef InBackpack.mk) v data.in_backpack) ∧
    AllNone (fun c => c.equipped) (loadComp (fun c v2 => { c with in_backpack := some v2 }) (convRef InBackpack.mk) v data.in_backpack) ∧
    AllNone (fun c => c.melee_power_bonus) (loadComp (fun c v2 => { c with in_backpack := some v2 }) (convRef InBackpack.mk) v data.in_backpack) ∧
    AllNone (fun c => c.defense_bonus) (loadComp (fun c v2 => { c with in_backpack := some v2 }) (convRef InBackpack.mk) v data.in_backpack) ∧
    AllNone (fun c => c.wants_to_remove) (loadComp (fun c v2 => { c with in_backpack := some v2 }) (convRef InBackpack.mk) v data.in_backpack) ∧
    AllNone (fun c => c.particle_lifetime) (loadComp (fun c v2 => { c with in_backpack := some v2 }) (convRef InBackpack.mk) v data.in_backpack) ∧
    AllNone (fun c => c.hunger_clock) (loadComp (fun c v2 => { c with in_backpack := some v2 }) (convRef InBackpack.mk) v data.in_backpack) ∧
    AllNone (fun c => c.provides_food) (loadComp (fun c v2 => { c with in_backpack := some v2 }) (convRef InBackpack.mk) v data.in_backpack) := by
  obtain ⟨hI2, hle2, hfr2, hklx⟩ := loadComp_struct (fun c v2 => { c with in_backpack := some v2 }) (convRef InBackpack.mk) A A
    (fun c a => rfl) (convOK_ref A InBackpack.mk) data.in_backpack _ hI hA
  have hfvk := loadComp_est (fun c v2 => { c with in_backpack := some v2 }) (fun c => c.in_backpack) (convRef InBackpack.mk) A A
    (RRef InBackpack.mk) (convOK_ref A InBackpack.mk) (fun v2 b hIv hAb => rval_ref InBackpack.mk v2 b hIv)
    (fun va vb a b hle h => RRef_mono InBackpack.mk va vb a b hle h) (fun c a => rfl) (fun c a => rfl) (fun m => rfl)
    data.in_backpack _ hI hkeys hA hN18
  obtain ⟨hoF1, hnF1⟩ := loadComp_obs (fun c v2 => { c with in_backpack := some v2 }) (convRef InBackpack.mk) (fun c => c.position) A A
    (fun c a => rfl) (convOK_ref A InBackpack.mk) (fun c a => rfl) (fun m => rfl) data.in_backpack _ hI hA
  have hfv1b := FieldVals_mono (fun c => c.position) (RPure id) data.positions hle2
    (fun a b h => h)
    (fun e he hn => let ⟨m, h1, h2, _⟩ := hfr2 e he hn; ⟨m, h1, h2⟩)
    hoF1 hnF1 hkl1 hfv1
  have hkl1b := KeysLive_mono hle2 hkl1
  obtain ⟨hoF2, hnF2⟩ := loadComp_obs (fun c v2 => { c with in_backpack := some v2 }) (convRef InBackpack.mk) (fun c => c.renderable) A A
    (fun c a => rfl) (convOK_ref A InBackpack.mk) (fun c a => rfl) (fun m => rfl) data.in_backpack _ hI hA
  have hfv2b := FieldVals_mono (fun c => c.renderable) (RPure id) data.renderables hle2
    (fun a b h => h)
    (fun e he hn => let ⟨m, h1, h2, _⟩ := hfr2 e he hn; ⟨m, h1, h2⟩)
    hoF2 hnF2 hkl2 hfv2
  have hkl2b := KeysLive_mono hle2 hkl2
  obtain ⟨hoF3, hnF3⟩ := loadComp_obs (fun c v2 => { c with in_backpack := some v2 }) (convRef InBackpack.mk) (fun c => c.player) A A
    (fun c a => rfl) (convOK_ref A InBackpack.mk) (fun c a => rfl) (fun m => rfl) data.in_backpack _ hI hA
  have hfv3b := FieldVals_mono (fun c => c.player) (RPure id) data.players hle2
    (fun a b h => h)
    (fun e he hn => let ⟨m, h1, h2, _⟩ := hfr2 e he hn; ⟨m, h1, h2⟩)
    hoF3 hnF3 hkl3 hfv3
  have hkl3b := KeysLive_mono hle2 hkl3
  obtain ⟨hoF4, hnF4⟩ := loadComp_obs (fun c v2 => { c with in_backpack := some v2 }) (convRef InBackpack.mk) (fun c => c.viewshed) A A
    (fun c a => rfl) (convOK_ref A InBackpack.mk) (fun c a => rfl) (fun m => rfl) data.in_backpack _ hI hA
  have hfv4b := FieldVals_mono (fun c => c.viewshed) (RPure id) data.viewsheds hle2
    (fun a b h => h)
    (fun e he hn => let ⟨m, h1, h2, _⟩ := hfr2 e he hn; ⟨m, h1, h2⟩)
    hoF4 hnF4 hkl4 hfv4
  have hkl4b := KeysLive_mono hle2 hkl4
  obtain ⟨hoF5, hnF5⟩ := loadComp_obs (fun c v2 => { c with in_backpack := some v2 }) (convRef InBackpack.mk) (fun c => c.monster) A A
    (fun c a => rfl) (convOK_ref A InBackpack.mk) (fun c a => rfl) (fun m => rfl) data.in_backpack _ hI hA
  have hfv5b := FieldVals_mono (fun c => c.monster) (RPure id) data.monsters hle2
    (fun a b h => h)
    (fun e he hn => let ⟨m, h1, h2, _⟩ := hfr2 e he hn; ⟨m, h1, h2⟩)
    hoF5 hnF5 hkl5 hfv5
  have hkl5b := KeysLive_mono hle2 hkl5
  obtain ⟨hoF6, hnF6⟩ := loadComp_obs (fun c v2 => { c with in_backpack := some v2 }) (convRef InBackpack.mk) (fun c => c.name) A A
    (fun c a => rfl) (convOK_ref A InBackpack.mk) (fun c a => rfl) (fun m => rfl) data.in_backpack _ hI hA
  have hfv6b := FieldVals_mono (fun c => c.name) (RPure id) data.names hle2
    (fun a b h => h)
    (fun e he hn => let ⟨m, h1, h2, _⟩ := hfr2 e he hn; ⟨m, h1, h2⟩)
    hoF6 hnF6 hkl6 hfv6
  have hkl6b := KeysLive_mono hle2 hkl6
  obtain ⟨hoF7, hnF7⟩ := loadComp_obs (fun c v2 => { c with in_backpack := some v2 }) (convRef InBackpack.mk) (fun c => c.blocks_tile) A A
    (fun c a => rfl) (convOK_ref A InBackpack.mk) (fun c a => rfl) (fun m => rfl) data.in_backpack _ hI hA
  have hfv7b := FieldVals_mono (fun c => c.blocks_tile) (RPure id) data.blocks_tile hle2
    (fun a b h => h)
    (fun e he hn => let ⟨m, h1, h2, _⟩ := hfr2 e he hn; ⟨m, h1, h2⟩)
    hoF7 hnF7 hkl7 hfv7
  have hkl7b := KeysLive_mono hle2 hkl7
  obtain ⟨hoF8, hnF8⟩ := loadComp_obs (fun c v2 => { c with in_backpack := some v2 }) (convRef InBackpack.mk) (fun c => c.combat_stats) A A
    (fun c a => rfl) (convOK_ref A InBackpack.mk) (fun c a => rfl) (fun m => rfl) data.in_backpack _ hI hA
  have hfv8b := FieldVals_mono (fun c => c.combat_stats) (RPure id) data.combat_stats hle2
    (fun a b h => h)
    (fun e he hn => let ⟨m, h1, h2, _⟩ := hfr2 e he hn; ⟨m, h1, h2⟩)
    hoF8 hnF8 hkl8 hfv8
  have hkl8b := KeysLive_mono hle2 hkl8
  obtain ⟨hoF9, hnF9⟩ := loadComp_obs (fun c v2 => { c with in_backpack := some v2 }) (convRef InBackpack.mk) (fun c => c.suffer_damage) A A
    (fun c a => rfl) (convOK_ref A InBackpack.mk) (fun c a => rfl) (fun m => rfl) data.in_backpack _ hI hA
  have hfv9b := FieldVals_mono (fun c => c.suffer_damage) (RPure id) data.suffer_damage hle2
    (fun a b h => h)
    (fun e he hn => let ⟨m, h1, h2, _⟩ := hfr2 e he hn; ⟨m, h1, h2⟩)
    hoF9 hnF9 hkl9 hfv9
  have hkl9b := KeysLive_mono hle2 hkl9
  obtain ⟨hoF10, hnF10⟩ := loadComp_obs (fun c v2 => { c with in_backpack := some v2 }) (convRef InBackpack.mk) (fun c => c.wants_melee) A A
    (fun c a => rfl) (convOK_ref A InBackpack.mk) (fun c a => rfl) (fun m => rfl) data.in_backpack _ hI hA
  have hfv10b := FieldVals_mono (fun c => c.wants_melee) (RRef WantsToMelee.mk) data.wants_melee hle2
    (fun a b h => RRef_mono WantsToMelee.mk _ _ a b hle2 h)
    (fun e he hn => let ⟨m, h1, h2, _⟩ := hfr2 e he hn; ⟨m, h1, h2⟩)
    hoF10 hnF10 hkl10 hfv10
  have hkl10b := KeysLive_mono hle2 hkl10
  obtain ⟨hoF11, hnF11⟩ := loadComp_obs (fun c v2 => { c with in_backpack := some v2 }) (convRef InBackpack.mk) (fun c => c.item) A A
    (fun c a => rfl) (convOK_ref A InBackpack.mk) (fun c a => rfl) (fun m => rfl) data.in_backpack _ hI hA
  have hfv11b := FieldVals_mono (fun c => c.item) (RPure id) data.items hle2
    (fun a b h => h)
    (fun e he hn => let ⟨m, h1, h2, _⟩ := hfr2 e he hn; ⟨m, h1, h2⟩)
    hoF11 hnF11 hkl11 hfv11
  have hkl11b := KeysLive_mono hle2 hkl11
  obtain ⟨hoF12, hnF12⟩ := loadComp_obs (fun c v2 => { c with in_backpack := some v2 }) (convRef InBackpack.mk) (fun c => c.consumable) A A
    (fun c a => rfl) (convOK_ref A InBackpack.mk) (fun c a => rfl) (fun m => rfl) data.in_backpack _ hI hA
  have hfv12b := FieldVals_mono (fun c => c.consumable) (RPure id) data.consumables hle2
    (fun a b h => h)
    (fun e he hn => let ⟨m, h1, h2, _⟩ := hfr2 e he hn; ⟨m, h1, h2⟩)
    hoF12 hnF12 hkl12 hfv12
  have hkl12b := KeysLive_mono hle2 hkl12
  obtain ⟨hoF13, hnF13⟩ := loadComp_obs (fun c v2 => { c with in_backpack := some v2 }) (convRef InBackpack.mk) (fun c => c.ranged) A A
    (fun c a => rfl) (convOK_ref A InBackpack.mk) (fun c a => rfl) (fun m => rfl) data.in_backpack _ hI hA
  have hfv13b := FieldVals_mono (fun c => c.ranged) (RPure id) data.ranged hle2
    (fun a b h => h)
    (fun e he hn => let ⟨m, h1, h2, _⟩ := hfr2 e he hn; ⟨m, h1, h2⟩)
    hoF13 hnF13 hkl13 hfv13
  have hkl13b := KeysLive_mono hle2 hkl13
  obtain ⟨hoF14, hnF14⟩ := loadComp_obs (fun c v2 => { c with in_backpack := some v2 }) (convRef InBackpack.mk) (fun c => c.inflicts_damage) A A
    (fun c a => rfl) (convOK_ref A InBackpack.mk) (fun c a => rfl) (fun m => rfl) data.in_backpack _ hI hA
  have hfv14b := FieldVals_mono (fun c => c.inflicts_damage) (RPure id) data.inflicts_damage hle2
    (fun a b h => h)
    (fun e he hn => let ⟨m, h1, h2, _⟩ := hfr2 e he hn; ⟨m, h1, h2⟩)
    hoF14 hnF14 hkl14 hfv14
  have hkl14b := KeysLive_mono hle2 hkl14
  obtain ⟨hoF15, hnF15⟩ := loadComp_obs (fun c v2 => { c with in_backpack := some v2 }) (convRef InBackpack.mk) (fun c => c.area_of_effect) A A
    (fun c a => rfl) (convOK_ref A InBackpack.mk) (fun c a => rfl) (fun m => rfl) data.in_backpack _ hI hA
  have hfv15b := FieldVals_mono (fun c => c.area_of_effect) (RPure id) data.area_of_effect hle2
    (fun a b h => h)
    (fun e he hn => let ⟨m, h1, h2, _⟩ := hfr2 e he hn; ⟨m, h1, h2⟩)
    hoF15 hnF15 hkl15 hfv15
  have hkl15b := KeysLive_mono hle2 hkl15
  obtain ⟨hoF16, hnF16⟩ := loadComp_obs (fun c v2 => { c with in_backpack := some v2 }) (convRef InBackpack.mk) (fun c => c.confusion) A A
    (fun c a => rfl) (convOK_ref A InBackpack.mk) (fun c a => rfl) (fun m => rfl) data.in_backpack _ hI hA
  have hfv16b := FieldVals_mono (fun c => c.confusion) (RPure id) data.confusion hle2
    (fun a b h => h)
    (fun e he hn => let ⟨m, h1, h2, _⟩ := hfr2 e he hn; ⟨m, h1, h2⟩)
    hoF16 hnF16 hkl16 hfv16
  have hkl16b := KeysLive_mono hle2 hkl16
  obtain ⟨hoF17, hnF17⟩ := loadComp_obs (fun c v2 => { c with in_backpack := some v2 }) (convRef InBackpack.mk) (fun c => c.provides_healing) A A
    (fun c a => rfl) (convOK_ref A InBackpack.mk) (fun c a => rfl) (fun m => rfl) data.in_backpack _ hI hA
  have hfv17b := FieldVals_mono (fun c => c.provides_healing) (RPure id) data.provides_healing hle2
    (fun a b h => h)
    (fun e he hn => let ⟨m, h1, h2, _⟩ := hfr2 e he hn; ⟨m, h1, h2⟩)
    hoF17 hnF17 hkl17 hfv17
  have hkl17b := KeysLive_mono hle2 hkl17
  obtain ⟨hoF19, hnF19⟩ := loadComp_obs (fun c v2 => { c with in_backpack := some v2 }) (convRef InBackpack.mk) (fun c => c.wants_to_pickup) A A
    (fun c a => rfl) (convOK_ref A InBackpack.mk) (fun c a => rfl) (fun m => rfl) data.in_backpack _ hI hA
  have hN19b := AllNone_mono (fun c => c.wants_to_pickup) _ _ hoF19 hnF19 hN19
  obtain ⟨hoF20, hnF20⟩ := loadComp_obs (fun c v2 => { c with in_backpack := some v2 }) (convRef InBackpack.mk) (fun c => c.wants_to_use) A A
    (fun c a => rfl) (convOK_ref A InBackpack.mk) (fun c a => rfl) (fun m => rfl) data.in_backpack _ hI hA
  have hN20b := AllNone_mono (fun c => c.wants_to_use) _ _ hoF20 hnF20 hN20
  obtain ⟨hoF21, hnF21⟩ := loadComp_obs (fun c v2 => { c with in_backpack := some v2 }) (convRef InBackpack.mk) (fun c => c.wants_to_drop) A A
    (fun c a => rfl) (convOK_ref A InBackpack.mk) (fun c a => rfl) (fun m => rfl) data.in_backpack _ hI hA
  have hN21b := AllNone_mono (fun c => c.wants_to_drop) _ _ hoF21 hnF21 hN21
  obtain ⟨hoF22, hnF22⟩ := loadComp_obs (fun c v2 => { c with in_backpack := some v2 }) (convRef InBackpack.mk) (fun c => c.serialization_helper) A A
    (fun c a => rfl) (convOK_ref A InBackpack.mk) (fun c a => rfl) (fun m => rfl) data.in_backpack _ hI hA
  have hN22b := AllNone_mono (fun c => c.serialization_helper) _ _ hoF22 hnF22 hN22
  obtain ⟨hoF23, hnF23⟩ := loadComp_obs (fun c v2 => { c with in_backpack := some v2 }) (convRef InBackpack.mk) (fun c => c.equippable) A A
    (fun c a => rfl) (convOK_ref A InBackpack.mk) (fun c a => rfl) (fun m => rfl) data.in_backpack _ hI hA
  have hN23b := AllNone_mono (fun c => c.equippable) _ _ hoF23 hnF23 hN23
  obtain ⟨hoF24, hnF24⟩ := loadComp_obs (fun c v2 => { c with in_backpack := some v2 }) (convRef InBackpack.mk) (fun c => c.equipped) A A
    (fun c a => rfl) (convOK_ref A InBackpack.mk) (fun c a => rfl) (fun m => rfl) data.in_backpack _ hI hA
  have hN24b := AllNone_mono (fun c => c.equipped) _ _ hoF24 hnF24 hN24
  obtain ⟨hoF25, hnF25⟩ := loadComp_obs (fun c v2 => { c with in_backpack := some v2 }) (convRef InBackpack.mk) (fun c => c.melee_power_bonus) A A
    (fun c a => rfl) (convOK_ref A InBackpack.mk) (fun c a => rfl) (fun m => rfl) data.in_backpack _ hI hA
  have hN25b := AllNone_mono (fun c => c.melee_power_bonus) _ _ hoF25 hnF25 hN25
  obtain ⟨hoF26, hnF26⟩ := loadComp_obs (fun c v2 => { c with in_backpack := some v2 }) (convRef InBackpack.mk) (fun c => c.defense_bonus) A A
    (fun c a => rfl) (convOK_ref A InBackpack.mk) (fun c a => rfl) (fun m => rfl) data.in_backpack _ hI hA
  have hN26b := AllNone_mono (fun c => c.defense_bonus) _ _ hoF26 hnF26 hN26
  obtain ⟨hoF27, hnF27⟩ := loadComp_obs (fun c v2 => { c with in_backpack := some v2 }) (convRef InBackpack.mk) (fun c => c.wants_to_remove) A A
    (fun c a => rfl) (convOK_ref A InBackpack.mk) (fun c a => rfl) (fun m => rfl) data.in_backpack _ hI hA
  have hN27b := AllNone_mono (fun c => c.wants_to_remove) _ _ hoF27 hnF27 hN27
  obtain ⟨hoF28, hnF28⟩ := loadComp_obs (fun c v2 => { c with in_backpack := some v2 }) (convRef InBackpack.mk) (fun c => c.particle_lifetime) A A
    (fun c a => rfl) (convOK_ref A InBackpack.mk) (fun c a => rfl) (fun m => rfl) data.in_backpack _ hI hA
  have hN28b := AllNone_mono (fun c => c.particle_lifetime) _ _ hoF28 hnF28 hN28
  obtain ⟨hoF29, hnF29⟩ := loadComp_obs (fun c v2 => { c with in_backpack := some v2 }) (convRef InBackpack.mk) (fun c => c.hunger_clock) A A
    (fun c a => rfl) (convOK_ref A InBackpack.mk) (fun c a => rfl) (fun m => rfl) data.in_backpack _ hI hA
  have hN29b := AllNone_mono (fun c => c.hunger_clock) _ _ hoF29 hnF29 hN29
  obtain ⟨hoF30, hnF30⟩ := loadComp_obs (fun c v2 => { c with in_backpack := some v2 }) (convRef InBackpack.mk) (fun c => c.provides_food) A A
    (fun c a => rfl) (convOK_ref A InBackpack.mk) (fun c a => rfl) (fun m => rfl) data.in_backpack _ hI hA
  have hN30b := AllNone_mono (fun c => c.provides_food) _ _ hoF30 hnF30 hN30
  have hMb := MarksIn_mono hle2 (fun e he hn => let ⟨m, h1, _, h3⟩ := hfr2 e he hn; ⟨m, h1, h3⟩) hM
  exact ⟨hI2, hMb, hkl1b, hfv1b, hkl2b, hfv2b, hkl3b, hfv3b, hkl4b, hfv4b, hkl5b, hfv5b, hkl6b, hfv6b, hkl7b, hfv7b, hkl8b, hfv8b, hkl9b, hfv9b, hkl10b, hfv10b, hkl11b, hfv11b, hkl12b, hfv12b, hkl13b, hfv13b, hkl14b, hfv14b, hkl15b, hfv15b, hkl16b, hfv16b, hkl17b, hfv17b, hklx, hfvk, hN19b, hN20b, hN21b, hN22b, hN23b, hN24b, hN25b, hN26b, hN27b, hN28b, hN29b, hN30b⟩

set_option maxHeartbeats 800000 in
/-- Deserialization pass 19 (wants_to_pickup): it establishes its own list facts
and preserves those of the earlier passes. -/
lemma loadStage19 (A : Nat → Prop) (data : SaveData) (v : World)
    (hI : LoadInv v)
    (hkeys : ((data.wants_to_pickup).map Prod.fst).Nodup)
    (hA : ∀ p ∈ data.wants_to_pickup, A p.1 ∧ A p.2.1 ∧ A p.2.2)
    (hM : MarksIn A v)
    (hkl1 : KeysLive data.positions v)
    (hfv1 : FieldVals (fun c => c.position) (RPure id) data.positions v)
    (hkl2 : KeysLive data.renderables v)
    (hfv2 : FieldVals (fun c => c.renderable) (RPure id) data.renderables v)
    (hkl3 : KeysLive data.players v)
    (hfv3 : FieldVals (fun c => c.player) (RPure id) data.players v)
    (hkl4 : KeysLive data.viewsheds v)
    (hfv4 : FieldVals (fun c => c.viewshed) (RPure id) data.viewsheds v)
    (hkl5 : KeysLive data.monsters v)
    (hfv5 : FieldVals (fun c => c.monster) (RPure id) data.monsters v)
    (hkl6 : KeysLive data.names v)
    (hfv6 : FieldVals (fun c => c.name) (RPure id) data.names v)
    (hkl7 : KeysLive data.blocks_tile v)
    (hfv7 : FieldVals (fun c => c.blocks_tile) (RPure id) data.blocks_tile v)
    (hkl8 : KeysLive data.combat_stats v)
    (hfv8 : FieldVals (fun c => c.combat_stats) (RPure id) data.combat_stats v)
    (hkl9 : KeysLive data.suffer_damage v)
    (hfv9 : FieldVals (fun c => c.suffer_damage) (RPure id) data.suffer_damage v)
    (hkl10 : KeysLive data.wants_melee v)
    (hfv10 : FieldVals (fun c => c.wants_melee) (RRef WantsToMelee.mk) data.wants_melee v)
    (hkl11 : KeysLive data.items v)
    (hfv11 : FieldVals (fun c => c.item) (RPure id) data.items v)
    (hkl12 : KeysLive data.consumables v)
    (hfv12 : FieldVals (fun c => c.consumable) (RPure id) data.consumables v)
    (hkl13 : KeysLive data.ranged v)
    (hfv13 : FieldVals (fun c => c.ranged) (RPure id) data.ranged v)
    (hkl14 : KeysLive data.inflicts_damage v)
    (hfv14 : FieldVals (fun c => c.inflicts_damage) (RPure id) data.inflicts_damage v)
    (hkl15 : KeysLive data.area_of_effect v)
    (hfv15 : FieldVals (fun c => c.area_of_effect) (RPure id) data.area_of_effect v)
    (hkl16 : KeysLive data.confusion v)
    (hfv16 : FieldVals (fun c => c.confusion) (RPure id) data.confusion v)
    (hkl17 : KeysLive data.provides_healing v)
    (hfv17 : FieldVals (fun c => c.provides_healing) (RPure id) data.provides_healing v)
    (hkl18 : KeysLive data.in_backpack v)
    (hfv18 : FieldVals (fun c => c.in_backpack) (RRef InBackpack.mk) data.in_backpack v)
    (hN19 : AllNone (fun c => c.wants_to_pickup) v)
    (hN20 : AllNone (fun c => c.wants_to_use) v)
    (hN21 : AllNone (fun c => c.wants_to_drop) v)
    (hN22 : AllNone (fun c => c.serialization_helper) v)
    (hN23 : AllNone (fun c => c.equippable) v)
    (hN24 : AllNone (fun c => c.equipped) v)
    (hN25 : AllNone (fun c => c.melee_power_bonus) v)
    (hN26 : AllNone (fun c => c.defense_bonus) v)
    (hN27 : AllNone (fun c => c.wants_to_remove) v)
    (hN28 : AllNone (fun c => c.particle_lifetime) v)
    (hN29 : AllNone (fun c => c.hunger_clock) v)
    (hN30 : AllNone (fun c => c.provides_food) v)
    :
    LoadInv (loadComp (fun c v2 => { c with wants_to_pickup := some v2 }) (convRef2 WantsToPickupItem.mk) v data.wants_to_pickup) ∧
    MarksIn A (loadComp (fun c v2 => { c with wants_to_pickup := some v2 }) (convRef2 WantsToPickupItem.mk) v data.wants_to_pickup) ∧
    KeysLive data.positions (loadComp (fun c v2 => { c with wants_to_pickup := some v2 }) (convRef2 WantsToPickupItem.mk) v data.wants_to_pickup) ∧
    FieldVals (fun c => c.position) (RPure id) data.positions (loadComp (fun c v2 => { c with wants_to_pickup := some v2 }) (convRef2 WantsToPickupItem.mk) v data.wants_to_pickup) ∧
    KeysLive data.renderables (loadComp (fun c v2 => { c with wants_to_pickup := some v2 }) (convRef2 WantsToPickupItem.mk) v data.wants_to_pickup) ∧
    FieldVals (fun c => c.renderable) (RPure id) data.renderables (loadComp (fun c v2 => { c with wants_to_pickup := some v2 }) (convRef2 WantsToPickupItem.mk) v data.wants_to_pickup) ∧
    KeysLive data.players (loadComp (fun c v2 => { c with wants_to_pickup := some v2 }) (convRef2 WantsToPickupItem.mk) v data.wants_to_pickup) ∧
    FieldVals (fun c => c.player) (RPure id) data.players (loadComp (fun c v2 => { c with wants_to_pickup := some v2 }) (convRef2 WantsToPickupItem.mk) v data.wants_to_pickup) ∧
    KeysLive data.viewsheds (loadComp (fun c v2 => { c with wants_to_pickup := some v2 }) (convRef2 WantsToPickupItem.mk) v data.wants_to_pickup) ∧
    FieldVals (fun c => c.viewshed) (RPure id) data.viewsheds (loadComp (fun c v2 => { c with wants_to_pickup := some v2 }) (convRef2 WantsToPickupItem.mk) v data.wants_to_pickup) ∧
    KeysLive data.monsters (loadComp (fun c v2 => { c with wants_to_pickup := some v2 }) (convRef2 WantsToPickupItem.mk) v data.wants_to_pickup) ∧
    FieldVals (fun c => c.monster) (RPure id) data.monsters (loadComp (fun c v2 => { c with wants_to_pickup := some v2 }) (convRef2 WantsToPickupItem.mk) v data.wants_to_pickup) ∧
    KeysLive data.names (loadComp (fun c v2 => { c with wants_to_pickup := some v2 }) (convRef2 WantsToPickupItem.mk) v data.wants_to_pickup) ∧
    FieldVals (fun c => c.name) (RPure id) data.names (loadComp (fun c v2 => { c with wants_to_pickup := some v2 }) (convRef2 WantsToPickupItem.mk) v data.wants_to_pickup) ∧
    KeysLive data.blocks_tile (loadComp (fun c v2 => { c with wants_to_pickup := some v2 }) (convRef2 WantsToPickupItem.mk) v data.wants_to_pickup) ∧
    FieldVals (fun c => c.blocks_tile) (RPure id) data.blocks_tile (loadComp (fun c v2 => { c with wants_to_pickup := some v2 }) (convRef2 WantsToPickupItem.mk) v data.wants_to_pickup) ∧
    KeysLive data.combat_stats (loadComp (fun c v2 => { c with wants_to_pickup := some v2 }) (convRef2 WantsToPickupItem.mk) v data.wants_to_pickup) ∧
    FieldVals (fun c => c.combat_stats) (RPure id) data.combat_stats (loadComp (fun c v2 => { c with wants_to_pickup := some v2 }) (convRef2 WantsToPickupItem.mk) v data.wants_to_pickup) ∧
    KeysLive data.suffer_damage (loadComp (fun c v2 => { c with wants_to_pickup := some v2 }) (convRef2 WantsToPickupItem.mk) v data.wants_to_pickup) ∧
    FieldVals (fun c => c.suffer_damage) (RPure id) data.suffer_damage (loadComp (fun c v2 => { c with wants_to_pickup := some v2 }) (convRef2 WantsToPickupItem.mk) v data.wants_to_pickup) ∧
    KeysLive data.wants_melee (loadComp (fun c v2 => { c with wants_to_pickup := some v2 }) (convRef2 WantsToPickupItem.mk) v data.wants_to_pickup) ∧
    FieldVals (fun c => c.wants_melee) (RRef WantsToMelee.mk) data.wants_melee (loadComp (fun c v2 => { c with wants_to_pickup := some v2 }) (convRef2 WantsToPickupItem.mk) v data.wants_to_pickup) ∧
    KeysLive data.items (loadComp (fun c v2 => { c with wants_to_pickup := some v2 }) (convRef2 WantsToPickupItem.mk) v data.wants_to_pickup) ∧
    FieldVals (fun c => c.item) (RPure id) data.items (loadComp (fun c v2 => { c with wants_to_pickup := some v2 }) (convRef2 WantsToPickupItem.mk) v data.wants_to_pickup) ∧
    KeysLive data.consumables (loadComp (fun c v2 => { c with wants_to_pickup := some v2 }) (convRef2 WantsToPickupItem.mk) v data.wants_to_pickup) ∧
    FieldVals (fun c => c.consumable) (RPure id) data.consumables (loadComp (fun c v2 => { c with wants_to_pickup := some v2 }) (convRef2 WantsToPickupItem.mk) v data.wants_to_pickup) ∧
    KeysLive data.ranged (loadComp (fun c v2 => { c with wants_to_pickup := some v2 }) (convRef2 WantsToPickupItem.mk) v data.wants_to_pickup) ∧
    FieldVals (fun c => c.ranged) (RPure id) data.ranged (loadComp (fun c v2 => { c with wants_to_pickup := some v2 }) (convRef2 WantsToPickupItem.mk) v data.wants_to_pickup) ∧
    KeysLive data.inflicts_damage (loadComp (fun c v2 => { c with wants_to_pickup := some v2 }) (convRef2 WantsToPickupItem.mk) v data.wants_to_pickup) ∧
    FieldVals (fun c => c.inflicts_damage) (RPure id) data.inflicts_damage (loadComp (fun c v2 => { c with wants_to_pickup := some v2 }) (convRef2 WantsToPickupItem.mk) v data.wants_to_pickup) ∧
    KeysLive data.area_of_effect (loadComp (fun c v2 => { c with wants_to_pickup := some v2 }) (convRef2 WantsToPickupItem.mk) v data.wants_to_pickup) ∧
    FieldVals (fun c => c.area_of_effect) (RPure id) data.area_of_effect (loadComp (fun c v2 => { c with wants_to_pickup := some v2 }) (convRef2 WantsToPickupItem.mk) v data.wants_to_pickup) ∧
    KeysLive data.confusion (loadComp (fun c v2 => { c with wants_to_pickup := some v2 }) (convRef2 WantsToPickupItem.mk) v data.wants_to_pickup) ∧
    FieldVals (fun c => c.confusion) (RPure id) data.confusion (loadComp (fun c v2 => { c with wants_to_pickup := some v2 }) (convRef2 WantsToPickupItem.mk) v data.wants_to_pickup) ∧
    KeysLive data.provides_healing (loadComp (fun c v2 => { c with wants_to_pickup := some v2 }) (convRef2 WantsToPickupItem.mk) v data.wants_to_pickup) ∧
    FieldVals (fun c => c.provides_healing) (RPure id) data.provides_healing (loadComp (fun c v2 => { c with wants_to_pickup := some v2 }) (convRef2 WantsToPickupItem.mk) v data.wants_to_pickup) ∧
    KeysLive data.in_backpack (loadComp (fun c v2 => { c with wants_to_pickup := some v2 }) (convRef2 WantsToPickupItem.mk) v data.wants_to_pickup) ∧
    FieldVals (fun c => c.in_backpack) (RRef InBackpack.mk) data.in_backpack (loadComp (fun c v2 => { c with wants_to_pickup := some v2 }) (convRef2 WantsToPickupItem.mk) v data.wants_to_pickup) ∧
    KeysLive data.wants_to_pickup (loadComp (fun c v2 => { c with wants_to_pickup := some v2 }) (convRef2 WantsToPickupItem.mk) v data.wants_to_pickup) ∧
    FieldVals (fun c => c.wants_to_pickup) (RRef2 WantsToPickupItem.mk) data.wants_to_pickup (loadComp (fun c v2 => { c with wants_to_pickup := some v2 }) (convRef2 WantsToPickupItem.mk) v data.wants_to_pickup) ∧
    AllNone (fun c => c.wants_to_use) (loadComp (fun c v2 => { c with wants_to_pickup := some v2 }) (convRef2 WantsToPickupItem.mk) v data.wants_to_pickup) ∧
    AllNone (fun c => c.wants_to_drop) (loadComp (fun c v2 => { c with wants_to_pickup := some v2 }) (convRef2 WantsToPickupItem.mk) v data.wants_to_pickup) ∧
    AllNone (fun c => c.serialization_helper) (loadComp (fun c v2 => { c with wants_to_pickup := some v2 }) (convRef2 WantsToPickupItem.mk) v data.wants_to_pickup) ∧
    AllNone (fun c => c.equippable) (loadComp (fun c v2 => { c with wants_to_pickup := some v2 }) (convRef2 WantsToPickupItem.mk) v data.wants_to_pickup) ∧
    AllNone (fun c => c.equipped) (loadComp (fun c v2 => { c with wants_to_pickup := some v2 }) (convRef2 WantsToPickupItem.mk) v data.wants_to_pickup) ∧
    AllNone (fun c => c.melee_power_bonus) (loadComp (fun c v2 => { c with wants_to_pickup := some v2 }) (convRef2 WantsToPickupItem.mk) v data.wants_to_pickup) ∧
    AllNone (fun c => c.defense_bonus) (loadComp (fun c v2 => { c with wants_to_pickup := some v2 }) (convRef2 WantsToPickupItem.mk) v data.wants_to_pickup) ∧
    AllNone (fun c => c.wants_to_remove) (loadComp (fun c v2 => { c with wants_to_pickup := some v2 }) (convRef2 WantsToPickupItem.mk) v data.wants_to_pickup) ∧
    AllNone (fun c => c.particle_lifetime) (loadComp (fun c v2 => { c with wants_to_pickup := some v2 }) (convRef2 WantsToPickupItem.mk) v data.wants_to_pickup) ∧
    AllNone (fun c => c.hunger_clock) (loadComp (fun c v2 => { c with wants_to_pickup := some v2 }) (convRef2 WantsToPickupItem.mk) v data.wants_to_pickup) ∧
    AllNone (fun c => c.provides_food) (loadComp (fun c v2 => { c with wants_to_pickup := some v2 }) (convRef2 WantsToPickupItem.mk) v data.wants_to_pickup) := by
  obtain ⟨hI2, hle2, hfr2, hklx⟩ := loadComp_struct (fun c v2 => { c with wants_to_pickup := some v2 }) (convRef2 WantsToPickupItem.mk) A (fun p => A p.1 ∧ A p.2)
    (fun c a => rfl) (convOK_ref2 A WantsToPickupItem.mk) data.wants_to_pickup _ hI hA
  have hfvk := loadComp_est (fun c v2 => { c with wants_to_pickup := some v2 }) (fun c => c.wants_to_pickup) (convRef2 WantsToPickupItem.mk) A (fun p => A p.1 ∧ A p.2)
    (RRef2 WantsToPickupItem.mk) (convOK_ref2 A WantsToPickupItem.mk) (fun v2 b hIv hAb => rval_ref2 WantsToPickupItem.mk v2 b hIv)
    (fun va vb a b hle h => RRef2_mono WantsToPickupItem.mk va vb a b hle h) (fun c a => rfl) (fun c a => rfl) (fun m => rfl)
    data.wants_to_pickup _ hI hkeys hA hN19
  obtain ⟨hoF1, hnF1⟩ := loadComp_obs (fun c v2 => { c with wants_to_pickup := some v2 }) (convRef2 WantsToPickupItem.mk) (fun c => c.position) A (fun p => A p.1 ∧ A p.2)
    (fun c a => rfl) (convOK_ref2 A WantsToPickupItem.mk) (fun c a => rfl) (fun m => rfl) data.wants_to_pickup _ hI hA
  have hfv1b := FieldVals_mono (fun c => c.position) (RPure id) data.positions hle2
    (fun a b h => h)
    (fun e he hn => let ⟨m, h1, h2, _⟩ := hfr2 e he hn; ⟨m, h1, h2⟩)
    hoF1 hnF1 hkl1 hfv1
  have hkl1b := KeysLive_mono hle2 hkl1
  obtain ⟨hoF2, hnF2⟩ := loadComp_obs (fun c v2 => { c with wants_to_pickup := some v2 }) (convRef2 WantsToPickupItem.mk) (fun c => c.renderable) A (fun p => A p.1 ∧ A p.2)
    (fun c a => rfl) (convOK_ref2 A WantsToPickupItem.mk) (fun c a => rfl) (fun m => rfl) data.wants_to_pickup _ hI hA
  have hfv2b := FieldVals_mono (fun c => c.renderable) (RPure id) data.renderables hle2
    (fun a b h => h)
    (fun e he hn => let ⟨m, h1, h2, _⟩ := hfr2 e he hn; ⟨m, h1, h2⟩)
    hoF2 hnF2 hkl2 hfv2
  have hkl2b := KeysLive_mono hle2 hkl2
  obtain ⟨hoF3, hnF3⟩ := loadComp_obs (fun c v2 => { c with wants_to_pickup := some v2 }) (convRef2 WantsToPickupItem.mk) (fun c => c.player) A (fun p => A p.1 ∧ A p.2)
    (fun c a => rfl) (convOK_ref2 A WantsToPickupItem.mk) (fun c a => rfl) (fun m => rfl) data.wants_to_pickup _ hI hA
  have hfv3b := FieldVals_mono (fun c => c.player) (RPure id) data.players hle2
    (fun a b h => h)
    (fun e he hn => let ⟨m, h1, h2, _⟩ := hfr2 e he hn; ⟨m, h1, h2⟩)
    hoF3 hnF3 hkl3 hfv3
  have hkl3b := KeysLive_mono hle2 hkl3
  obtain ⟨hoF4, hnF4⟩ := loadComp_obs (fun c v2 => { c with wants_to_pickup := some v2 }) (convRef2 WantsToPickupItem.mk) (fun c => c.viewshed) A (fun p => A p.1 ∧ A p.2)
    (fun c a => rfl) (convOK_ref2 A WantsToPickupItem.mk) (fun c a => rfl) (fun m => rfl) data.wants_to_pickup _ hI hA
  have hfv4b := FieldVals_mono (fun c => c.viewshed) (RPure id) data.viewsheds hle2
    (fun a b h => h)
    (fun e he hn => let ⟨m, h1, h2, _⟩ := hfr2 e he hn; ⟨m, h1, h2⟩)
    hoF4 hnF4 hkl4 hfv4
  have hkl4b := KeysLive_mono hle2 hkl4
  obtain ⟨hoF5, hnF5⟩ := loadComp_obs (fun c v2 => { c with wants_to_pickup := some v2 }) (convRef2 WantsToPickupItem.mk) (fun c => c.monster) A (fun p => A p.1 ∧ A p.2)
    (fun c a => rfl) (convOK_ref2 A WantsToPickupItem.mk) (fun c a => rfl) (fun m => rfl) data.wants_to_pickup _ hI hA
  have hfv5b := FieldVals_mono (fun c => c.monster) (RPure id) data.monsters hle2
    (fun a b h => h)
    (fun e he hn => let ⟨m, h1, h2, _⟩ := hfr2 e he hn; ⟨m, h1, h2⟩)
    hoF5 hnF5 hkl5 hfv5
  have hkl5b := KeysLive_mono hle2 hkl5
  obtain ⟨hoF6, hnF6⟩ := loadComp_obs (fun c v2 => { c with wants_to_pickup := some v2 }) (convRef2 WantsToPickupItem.mk) (fun c => c.name) A (fun p => A p.1 ∧ A p.2)
    (fun c a => rfl) (convOK_ref2 A WantsToPickupItem.mk) (fun c a => rfl) (fun m => rfl) data.wants_to_pickup _ hI hA
  have hfv6b := FieldVals_mono (fun c => c.name) (RPure id) data.names hle2
    (fun a b h => h)
    (fun e he hn => let ⟨m, h1, h2, _⟩ := hfr2 e he hn; ⟨m, h1, h2⟩)
    hoF6 hnF6 hkl6 hfv6
  have hkl6b := KeysLive_mono hle2 hkl6
  obtain ⟨hoF7, hnF7⟩ := loadComp_obs (fun c v2 => { c with wants_to_pickup := some v2 }) (convRef2 WantsToPickupItem.mk) (fun c => c.blocks_tile) A (fun p => A p.1 ∧ A p.2)
    (fun c a => rfl) (convOK_ref2 A WantsToPickupItem.mk) (fun c a => rfl) (fun m => rfl) data.wants_to_pickup _ hI hA
  have hfv7b := FieldVals_mono (fun c => c.blocks_tile) (RPure id) data.blocks_tile hle2
    (fun a b h => h)
    (fun e he hn => let ⟨m, h1, h2, _⟩ := hfr2 e he hn; ⟨m, h1, h2⟩)
    hoF7 hnF7 hkl7 hfv7
  have hkl7b := KeysLive_mono hle2 hkl7
  obtain ⟨hoF8, hnF8⟩ := loadComp_obs (fun c v2 => { c with wants_to_pickup := some v2 }) (convRef2 WantsToPickupItem.mk) (fun c => c.combat_stats) A (fun p => A p.1 ∧ A p.2)
    (fun c a => rfl) (convOK_ref2 A WantsToPickupItem.mk) (fun c a => rfl) (fun m => rfl) data.wants_to_pickup _ hI hA
  have hfv8b := FieldVals_mono (fun c => c.combat_stats) (RPure id) data.combat_stats hle2
    (fun a b h => h)
    (fun e he hn => let ⟨m, h1, h2, _⟩ := hfr2 e he hn; ⟨m, h1, h2⟩)
    hoF8 hnF8 hkl8 hfv8
  have hkl8b := KeysLive_mono hle2 hkl8
  obtain ⟨hoF9, hnF9⟩ := loadComp_obs (fun c v2 => { c with wants_to_pickup := some v2 }) (convRef2 WantsToPickupItem.mk) (fun c => c.suffer_damage) A (fun p => A p.1 ∧ A p.2)
    (fun c a => rfl) (convOK_ref2 A WantsToPickupItem.mk) (fun c a => rfl) (fun m => rfl) data.wants_to_pickup _ hI hA
  have hfv9b := FieldVals_mono (fun c => c.suffer_damage) (RPure id) data.suffer_damage hle2
    (fun a b h => h)
    (fun e he hn => let ⟨m, h1, h2, _⟩ := hfr2 e he hn; ⟨m, h1, h2⟩)
    hoF9 hnF9 hkl9 hfv9
  have hkl9b := KeysLive_mono hle2 hkl9
  obtain ⟨hoF10, hnF10⟩ := loadComp_obs (fun c v2 => { c with wants_to_pickup := some v2 }) (convRef2 WantsToPickupItem.mk) (fun c => c.wants_melee) A (fun p => A p.1 ∧ A p.2)
    (fun c a => rfl) (convOK_ref2 A WantsToPickupItem.mk) (fun c a => rfl) (fun m => rfl) data.wants_to_pickup _ hI hA
  have hfv10b := FieldVals_mono (fun c => c.wants_melee) (RRef WantsToMelee.mk) data.wants_melee hle2
    (fun a b h => RRef_mono WantsToMelee.mk _ _ a b hle2 h)
    (fun e he hn => let ⟨m, h1, h2, _⟩ := hfr2 e he hn; ⟨m, h1, h2⟩)
    hoF10 hnF10 hkl10 hfv10
  have hkl10b := KeysLive_mono hle2 hkl10
  obtain ⟨hoF11, hnF11⟩ := loadComp_obs (fun c v2 => { c with wants_to_pickup := some v2 }) (convRef2 WantsToPickupItem.mk) (fun c => c.item) A (fun p => A p.1 ∧ A p.2)
    (fun c a => rfl) (convOK_ref2 A WantsToPickupItem.mk) (fun c a => rfl) (fun m => rfl) data.wants_to_pickup _ hI hA
  have hfv11b := FieldVals_mono (fun c => c.item) (RPure id) data.items hle2
    (fun a b h => h)
    (fun e he hn => let ⟨m, h1, h2, _⟩ := hfr2 e he hn; ⟨m, h1, h2⟩)
    hoF11 hnF11 hkl11 hfv11
  have hkl11b := KeysLive_mono hle2 hkl11
  obtain ⟨hoF12, hnF12⟩ := loadComp_obs (fun c v2 => { c with wants_to_pickup := some v2 }) (convRef2 WantsToPickupItem.mk) (fun c => c.consumable) A (fun p => A p.1 ∧ A p.2)
    (fun c a => rfl) (convOK_ref2 A WantsToPickupItem.mk) (fun c a => rfl) (fun m => rfl) data.wants_to_pickup _ hI hA
  have hfv12b := FieldVals_mono (fun c => c.consumable) (RPure id) data.consumables hle2
    (fun a b h => h)
    (fun e he hn => let ⟨m, h1, h2, _⟩ := hfr2 e he hn; ⟨m, h1, h2⟩)
    hoF12 hnF12 hkl12 hfv12
  have hkl12b := KeysLive_mono hle2 hkl12
  obtain ⟨hoF13, hnF13⟩ := loadComp_obs (fun c v2 => { c with wants_to_pickup := some v2 }) (convRef2 WantsToPickupItem.mk) (fun c => c.ranged) A (fun p => A p.1 ∧ A p.2)
    (fun c a => rfl) (convOK_ref2 A WantsToPickupItem.mk) (fun c a => rfl) (fun m => rfl) data.wants_to_pickup _ hI hA
  have hfv13b := FieldVals_mono (fun c => c.ranged) (RPure id) data.ranged hle2
    (fun a b h => h)
    (fun e he hn => let ⟨m, h1, h2, _⟩ := hfr2 e he hn; ⟨m, h1, h2⟩)
    hoF13 hnF13 hkl13 hfv13
  have hkl13b := KeysLive_mono hle2 hkl13
  obtain ⟨hoF14, hnF14⟩ := loadComp_obs (fun c v2 => { c with wants_to_pickup := some v2 }) (convRef2 WantsToPickupItem.mk) (fun c => c.inflicts_damage) A (fun p => A p.1 ∧ A p.2)
    (fun c a => rfl) (convOK_ref2 A WantsToPickupItem.mk) (fun c a => rfl) (fun m => rfl) data.wants_to_pickup _ hI hA
  have hfv14b := FieldVals_mono (fun c => c.inflicts_damage) (RPure id) data.inflicts_damage hle2
    (fun a b h => h)
    (fun e he hn => let ⟨m, h1, h2, _⟩ := hfr2 e he hn; ⟨m, h1, h2⟩)
    hoF14 hnF14 hkl14 hfv14
  have hkl14b := KeysLive_mono hle2 hkl14
  obtain ⟨hoF15, hnF15⟩ := loadComp_obs (fun c v2 => { c with wants_to_pickup := some v2 }) (convRef2 WantsToPickupItem.mk) (fun c => c.area_of_effect) A (fun p => A p.1 ∧ A p.2)
    (fun c a => rfl) (convOK_ref2 A WantsToPickupItem.mk) (fun c a => rfl) (fun m => rfl) data.wants_to_pickup _ hI hA
  have hfv15b := FieldVals_mono (fun c => c.area_of_effect) (RPure id) data.area_of_effect hle2
    (fun a b h => h)
    (fun e he hn => let ⟨m, h1, h2, _⟩ := hfr2 e he hn; ⟨m, h1, h2⟩)
    hoF15 hnF15 hkl15 hfv15
  have hkl15b := KeysLive_mono hle2 hkl15
  obtain ⟨hoF16, hnF16⟩ := loadComp_obs (fun c v2 => { c with wants_to_pickup := some v2 }) (convRef2 WantsToPickupItem.mk) (fun c => c.confusion) A (fun p => A p.1 ∧ A p.2)
    (fun c a => rfl) (convOK_ref2 A WantsToPickupItem.mk) (fun c a => rfl) (fun m => rfl) data.wants_to_pickup _ hI hA
  have hfv16b := FieldVals_mono (fun c => c.confusion) (RPure id) data.confusion hle2
    (fun a b h => h)
    (fun e he hn => let ⟨m, h1, h2, _⟩ := hfr2 e he hn; ⟨m, h1, h2⟩)
    hoF16 hnF16 hkl16 hfv16
  have hkl16b := KeysLive_mono hle2 hkl16
  obtain ⟨hoF17, hnF17⟩ := loadComp_obs (fun c v2 => { c with wants_to_pickup := some v2 }) (convRef2 WantsToPickupItem.mk) (fun c => c.provides_healing) A (fun p => A p.1 ∧ A p.2)
    (fun c a => rfl) (convOK_ref2 A WantsToPickupItem.mk) (fun c a => rfl) (fun m => rfl) data.wants_to_pickup _ hI hA
  have hfv17b := FieldVals_mono (fun c => c.provides_healing) (RPure id) data.provides_healing hle2
    (fun a b h => h)
    (fun e he hn => let ⟨m, h1, h2, _⟩ := hfr2 e he hn; ⟨m, h1, h2⟩)
    hoF17 hnF17 hkl17 hfv17
  have hkl17b := KeysLive_mono hle2 hkl17
  obtain ⟨hoF18, hnF18⟩ := loadComp_obs (fun c v2 => { c with wants_to_pickup := some v2 }) (convRef2 WantsToPickupItem.mk) (fun c => c.in_backpack) A (fun p => A p.1 ∧ A p.2)
    (fun c a => rfl) (convOK_ref2 A WantsToPickupItem.mk) (fun c a => rfl) (fun m => rfl) data.wants_to_pickup _ hI hA
  have hfv18b := FieldVals_mono (fun c => c.in_backpack) (RRef InBackpack.mk) data.in_backpack hle2
    (fun a b h => RRef_mono InBackpack.mk _ _ a b hle2 h)
    (fun e he hn => let ⟨m, h1, h2, _⟩ := hfr2 e he hn; ⟨m, h1, h2⟩)
    hoF18 hnF18 hkl18 hfv18
  have hkl18b := KeysLive_mono hle2 hkl18
  obtain ⟨hoF20, hnF20⟩ := loadComp_obs (fun c v2 => { c with wants_to_pickup := some v2 }) (convRef2 WantsToPickupItem.mk) (fun c => c.wants_to_use) A (fun p => A p.1 ∧ A p.2)
    (fun c a => rfl) (convOK_ref2 A WantsToPickupItem.mk) (fun c a => rfl) (fun m => rfl) data.wants_to_pickup _ hI hA
  have hN20b := AllNone_mono (fun c => c.wants_to_use) _ _ hoF20 hnF20 hN20
  obtain ⟨hoF21, hnF21⟩ := loadComp_obs (fun c v2 => { c with wants_to_pickup := some v2 }) (convRef2 WantsToPickupItem.mk) (fun c => c.wants_to_drop) A (fun p => A p.1 ∧ A p.2)
    (fun c a => rfl) (convOK_ref2 A WantsToPickupItem.mk) (fun c a => rfl) (fun m => rfl) data.wants_to_pickup _ hI hA
  have hN21b := AllNone_mono (fun c => c.wants_to_drop) _ _ hoF21 hnF21 hN21
  obtain ⟨hoF22, hnF22⟩ := loadComp_obs (fun c v2 => { c with wants_to_pickup := some v2 }) (convRef2 WantsToPickupItem.mk) (fun c => c.serialization_helper) A (fun p => A p.1 ∧ A p.2)
    (fun c a => rfl) (convOK_ref2 A WantsToPickupItem.mk) (fun c a => rfl) (fun m => rfl) data.wants_to_pickup _ hI hA
  have hN22b := AllNone_mono (fun c => c.serialization_helper) _ _ hoF22 hnF22 hN22
  obtain ⟨hoF23, hnF23⟩ := loadComp_obs (fun c v2 => { c with wants_to_pickup := some v2 }) (convRef2 WantsToPickupItem.mk) (fun c => c.equippable) A (fun p => A p.1 ∧ A p.2)
    (fun c a => rfl) (convOK_ref2 A WantsToPickupItem.mk) (fun c a => rfl) (fun m => rfl) data.wants_to_pickup _ hI hA
  have hN23b := AllNone_mono (fun c => c.equippable) _ _ hoF23 hnF23 hN23
  obtain ⟨hoF24, hnF24⟩ := loadComp_obs (fun c v2 => { c with wants_to_pickup := some v2 }) (convRef2 WantsToPickupItem.mk) (fun c => c.equipped) A (fun p => A p.1 ∧ A p.2)
    (fun c a => rfl) (convOK_ref2 A WantsToPickupItem.mk) (fun c a => rfl) (fun m => rfl) data.wants_to_pickup _ hI hA
  have hN24b := AllNone_mono (fun c => c.equipped) _ _ hoF24 hnF24 hN24
  obtain ⟨hoF25, hnF25⟩ := loadComp_obs (fun c v2 => { c with wants_to_pickup := some v2 }) (convRef2 WantsToPickupItem.mk) (fun c => c.melee_power_bonus) A (fun p => A p.1 ∧ A p.2)
    (fun c a => rfl) (convOK_ref2 A WantsToPickupItem.mk) (fun c a => rfl) (fun m => rfl) data.wants_to_pickup _ hI hA
  have hN25b := AllNone_mono (fun c => c.melee_power_bonus) _ _ hoF25 hnF25 hN25
  obtain ⟨hoF26, hnF26⟩ := loadComp_obs (fun c v2 => { c with wants_to_pickup := some v2 }) (convRef2 WantsToPickupItem.mk) (fun c => c.defense_bonus) A (fun p => A p.1 ∧ A p.2)
    (fun c a => rfl) (convOK_ref2 A WantsToPickupItem.mk) (fun c a => rfl) (fun m => rfl) data.wants_to_pickup _ hI hA
  have hN26b := AllNone_mono (fun c => c.defense_bonus) _ _ hoF26 hnF26 hN26
  obtain ⟨hoF27, hnF27⟩ := loadComp_obs (fun c v2 => { c with wants_to_pickup := some v2 }) (convRef2 WantsToPickupItem.mk) (fun c => c.wants_to_remove) A (fun p => A p.1 ∧ A p.2)
    (fun c a => rfl) (convOK_ref2 A WantsToPickupItem.mk) (fun c a => rfl) (fun m => rfl) data.wants_to_pickup _ hI hA
  have hN27b := AllNone_mono (fun c => c.wants_to_remove) _ _ hoF27 hnF27 hN27
  obtain ⟨hoF28, hnF28⟩ := loadComp_obs (fun c v2 => { c with wants_to_pickup := some v2 }) (convRef2 WantsToPickupItem.mk) (fun c => c.particle_lifetime) A (fun p => A p.1 ∧ A p.2)
    (fun c a => rfl) (convOK_ref2 A WantsToPickupItem.mk) (fun c a => rfl) (fun m => rfl) data.wants_to_pickup _ hI hA
  have hN28b := AllNone_mono (fun c => c.particle_lifetime) _ _ hoF28 hnF28 hN28
  obtain ⟨hoF29, hnF29⟩ := loadComp_obs (fun c v2 => { c with wants_to_pickup := some v2 }) (convRef2 WantsToPickupItem.mk) (fun c => c.hunger_clock) A (fun p => A p.1 ∧ A p.2)
    (fun c a => rfl) (convOK_ref2 A WantsToPickupItem.mk) (fun c a => rfl) (fun m => rfl) data.wants_to_pickup _ hI hA
  have hN29b := AllNone_mono (fun c => c.hunger_clock) _ _ hoF29 hnF29 hN29
  obtain ⟨hoF30, hnF30⟩ := loadComp_obs (fun c v2 => { c with wants_to_pickup := some v2 }) (convRef2 WantsToPickupItem.mk) (fun c => c.provides_food) A (fun p => A p.1 ∧ A p.2)
    (fun c a => rfl) (convOK_ref2 A WantsToPickupItem.mk) (fun c a => rfl) (fun m => rfl) data.wants_to_pickup _ hI hA
  have hN30b := AllNone_mono (fun c => c.provides_food) _ _ hoF30 hnF30 hN30
  have hMb := MarksIn_mono hle2 (fun e he hn => let ⟨m, h1, _, h3⟩ := hfr2 e he hn; ⟨m, h1, h3⟩) hM
  exact ⟨hI2, hMb, hkl1b, hfv1b, hkl2b, hfv2b, hkl3b, hfv3b, hkl4b, hfv4b, hkl5b, hfv5b, hkl6b, hfv6b, hkl7b, hfv7b, hkl8b, hfv8b, hkl9b, hfv9b, hkl10b, hfv10b, hkl11b, hfv11b, hkl12b, hfv12b, hkl13b, hfv13b, hkl14b, hfv14b, hkl15b, hfv15b, hkl16b, hfv16b, hkl17b, hfv17b, hkl18b, hfv18b, hklx, hfvk, hN20b, hN21b, hN22b, hN23b, hN24b, hN25b, hN26b, hN27b, hN28b, hN29b, hN30b⟩

set_option maxHeartbeats 800000 in
/-- Deserialization pass 20 (wants_to_use): it establishes its own list facts
and preserves those of the earlier passes. -/
lemma loadStage20 (A : Nat → Prop) (data : SaveData) (v : World)
    (hI : LoadInv v)
    (hkeys : ((data.wants_to_use).map Prod.fst).Nodup)
    (hA : ∀ p ∈ data.wants_to_use, A p.1 ∧ A p.2.1)
    (hM : MarksIn A v)
    (hkl1 : KeysLive data.positions v)
    (hfv1 : FieldVals (fun c => c.position) (RPure id) data.positions v)
    (hkl2 : KeysLive data.renderables v)
    (hfv2 : FieldVals (fun c => c.renderable) (RPure id) data.renderables v)
    (hkl3 : KeysLive data.players v)
    (hfv3 : FieldVals (fun c => c.player) (RPure id) data.players v)
    (hkl4 : KeysLive data.viewsheds v)
    (hfv4 : FieldVals (fun c => c.viewshed) (RPure id) data.viewsheds v)
    (hkl5 : KeysLive data.monsters v)
    (hfv5 : FieldVals (fun c => c.monster) (RPure id) data.monsters v)
    (hkl6 : KeysLive data.names v)
    (hfv6 : FieldVals (fun c => c.name) (RPure id) data.names v)
    (hkl7 : KeysLive data.blocks_tile v)
    (hfv7 : FieldVals (fun c => c.blocks_tile) (RPure id) data.blocks_tile v)
    (hkl8 : KeysLive data.combat_stats v)
    (hfv8 : FieldVals (fun c => c.combat_stats) (RPure id) data.combat_stats v)
    (hkl9 : KeysLive data.suffer_damage v)
    (hfv9 : FieldVals (fun c => c.suffer_damage) (RPure id) data.suffer_damage v)
    (hkl10 : KeysLive data.wants_melee v)
    (hfv10 : FieldVals (fun c => c.wants_melee) (RRef WantsToMelee.mk) data.wants_melee v)
    (hkl11 : KeysLive data.items v)
    (hfv11 : FieldVals (fun c => c.item) (RPure id) data.items v)
    (hkl12 : KeysLive data.consumables v)
    (hfv12 : FieldVals (fun c => c.consumable) (RPure id) data.consumables v)
    (hkl13 : KeysLive data.ranged v)
    (hfv13 : FieldVals (fun c => c.ranged) (RPure id) data.ranged v)
    (hkl14 : KeysLive data.inflicts_damage v)
    (hfv14 : FieldVals (fun c => c.inflicts_damage) (RPure id) data.inflicts_damage v)
    (hkl15 : KeysLive data.area_of_effect v)
    (hfv15 : FieldVals (fun c => c.area_of_effect) (RPure id) data.area_of_effect v)
    (hkl16 : KeysLive data.confusion v)
    (hfv16 : FieldVals (fun c => c.confusion) (RPure id) data.confusion v)
    (hkl17 : KeysLive data.provides_healing v)
    (hfv17 : FieldVals (fun c => c.provides_healing) (RPure id) data.provides_healing v)
    (hkl18 : KeysLive data.in_backpack v)
    (hfv18 : FieldVals (fun c => c.in_backpack) (RRef InBackpack.mk) data.in_backpack v)
    (hkl19 : KeysLive data.wants_to_pickup v)
    (hfv19 : FieldVals (fun c => c.wants_to_pickup) (RRef2 WantsToPickupItem.mk) data.wants_to_pickup v)
    (hN20 : AllNone (fun c => c.wants_to_use) v)
    (hN21 : AllNone (fun c => c.wants_to_drop) v)
    (hN22 : AllNone (fun c => c.serialization_helper) v)
    (hN23 : AllNone (fun c => c.equippable) v)
    (hN24 : AllNone (fun c => c.equipped) v)
    (hN25 : AllNone (fun c => c.melee_power_bonus) v)
    (hN26 : AllNone (fun c => c.defense_bonus) v)
    (hN27 : AllNone (fun c => c.wants_to_remove) v)
    (hN28 : AllNone (fun c => c.particle_lifetime) v)
    (hN29 : AllNone (fun c => c.hunger_clock) v)
    (hN30 : AllNone (fun c => c.provides_food) v)
    :
    LoadInv (loadComp (fun c v2 => { c with wants_to_use := some v2 }) (convRefPair WantsToUseItem.mk) v data.wants_to_use) ∧
    MarksIn A (loadComp (fun c v2 => { c with wants_to_use := some v2 }) (convRefPair WantsToUseItem.mk) v data.wants_to_use) ∧
    KeysLive data.positions (loadComp (fun c v2 => { c with wants_to_use := some v2 }) (convRefPair WantsToUseItem.mk) v data.wants_to_use) ∧
    FieldVals (fun c => c.position) (RPure id) data.positions (loadComp (fun c v2 => { c with wants_to_use := some v2 }) (convRefPair WantsToUseItem.mk) v data.wants_to_use) ∧
    KeysLive data.renderables (loadComp (fun c v2 => { c with wants_to_use := some v2 }) (convRefPair WantsToUseItem.mk) v data.wants_to_use) ∧
    FieldVals (fun c => c.renderable) (RPure id) data.renderables (loadComp (fun c v2 => { c with wants_to_use := some v2 }) (convRefPair WantsToUseItem.mk) v data.wants_to_use) ∧
    KeysLive data.players (loadComp (fun c v2 => { c with wants_to_use := some v2 }) (convRefPair WantsToUseItem.mk) v data.wants_to_use) ∧
    FieldVals (fun c => c.player) (RPure id) data.players (loadComp (fun c v2 => { c with wants_to_use := some v2 }) (convRefPair WantsToUseItem.mk) v data.wants_to_use) ∧
    KeysLive data.viewsheds (loadComp (fun c v2 => { c with wants_to_use := some v2 }) (convRefPair WantsToUseItem.mk) v data.wants_to_use) ∧
    FieldVals (fun c => c.viewshed) (RPure id) data.viewsheds (loadComp (fun c v2 => { c with wants_to_use := some v2 }) (convRefPair WantsToUseItem.mk) v data.wants_to_use) ∧
    KeysLive data.monsters (loadComp (fun c v2 => { c with wants_to_use := some v2 }) (convRefPair WantsToUseItem.mk) v data.wants_to_use) ∧
    FieldVals (fun c => c.monster) (RPure id) data.monsters (loadComp (fun c v2 => { c with wants_to_use := some v2 }) (convRefPair WantsToUseItem.mk) v data.wants_to_use) ∧
    KeysLive data.names (loadComp (fun c v2 => { c with wants_to_use := some v2 }) (convRefPair WantsToUseItem.mk) v data.wants_to_use) ∧
    FieldVals (fun c => c.name) (RPure id) data.names (loadComp (fun c v2 => { c with wants_to_use := some v2 }) (convRefPair WantsToUseItem.mk) v data.wants_to_use) ∧
    KeysLive data.blocks_tile (loadComp (fun c v2 => { c with wants_to_use := some v2 }) (convRefPair WantsToUseItem.mk) v data.wants_to_use) ∧
    FieldVals (fun c => c.blocks_tile) (RPure id) data.blocks_tile (loadComp (fun c v2 => { c with wants_to_use := some v2 }) (convRefPair WantsToUseItem.mk) v data.wants_to_use) ∧
    KeysLive data.combat_stats (loadComp (fun c v2 => { c with wants_to_use := some v2 }) (convRefPair WantsToUseItem.mk) v data.wants_to_use) ∧
    FieldVals (fun c => c.combat_stats) (RPure id) data.combat_stats (loadComp (fun c v2 => { c with wants_to_use := some v2 }) (convRefPair WantsToUseItem.mk) v data.wants_to_use) ∧
    KeysLive data.suffer_damage (loadComp (fun c v2 => { c with wants_to_use := some v2 }) (convRefPair WantsToUseItem.mk) v data.wants_to_use) ∧
    FieldVals (fun c => c.suffer_damage) (RPure id) data.suffer_damage (loadComp (fun c v2 => { c with wants_to_use := some v2 }) (convRefPair WantsToUseItem.mk) v data.wants_to_use) ∧
    KeysLive data.wants_melee (loadComp (fun c v2 => { c with wants_to_use := some v2 }) (convRefPair WantsToUseItem.mk) v data.wants_to_use) ∧
    FieldVals (fun c => c.wants_melee) (RRef WantsToMelee.mk) data.wants_melee (loadComp (fun c v2 => { c with wants_to_use := some v2 }) (convRefPair WantsToUseItem.mk) v data.wants_to_use) ∧
    KeysLive data.items (loadComp (fun c v2 => { c with wants_to_use := some v2 }) (convRefPair WantsToUseItem.mk) v data.wants_to_use) ∧
    FieldVals (fun c => c.item) (RPure id) data.items (loadComp (fun c v2 => { c with wants_to_use := some v2 }) (convRefPair WantsToUseItem.mk) v data.wants_to_use) ∧
    KeysLive data.consumables (loadComp (fun c v2 => { c with wants_to_use := some v2 }) (convRefPair WantsToUseItem.mk) v data.wants_to_use) ∧
    FieldVals (fun c => c.consumable) (RPure id) data.consumables (loadComp (fun c v2 => { c with wants_to_use := some v2 }) (convRefPair WantsToUseItem.mk) v data.wants_to_use) ∧
    KeysLive data.ranged (loadComp (fun c v2 => { c with wants_to_use := some v2 }) (convRefPair WantsToUseItem.mk) v data.wants_to_use) ∧
    FieldVals (fun c => c.ranged) (RPure id) data.ranged (loadComp (fun c v2 => { c with wants_to_use := some v2 }) (convRefPair WantsToUseItem.mk) v data.wants_to_use) ∧
    KeysLive data.inflicts_damage (loadComp (fun c v2 => { c with wants_to_use := some v2 }) (convRefPair WantsToUseItem.mk) v data.wants_to_use) ∧
    FieldVals (fun c => c.inflicts_damage) (RPure id) data.inflicts_damage (loadComp (fun c v2 => { c with wants_to_use := some v2 }) (convRefPair WantsToUseItem.mk) v data.wants_to_use) ∧
    KeysLive data.area_of_effect (loadComp (fun c v2 => { c with wants_to_use := some v2 }) (convRefPair WantsToUseItem.mk) v data.wants_to_use) ∧
    FieldVals (fun c => c.area_of_effect) (RPure id) data.area_of_effect (loadComp (fun c v2 => { c with wants_to_use := some v2 }) (convRefPair WantsToUseItem.mk) v data.wants_to_use) ∧
    KeysLive data.confusion (loadComp (fun c v2 => { c with wants_to_use := some v2 }) (convRefPair WantsToUseItem.mk) v data.wants_to_use) ∧
    FieldVals (fun c => c.confusion) (RPure id) data.confusion (loadComp (fun c v2 => { c with wants_to_use := some v2 }) (convRefPair WantsToUseItem.mk) v data.wants_to_use) ∧
    KeysLive data.provides_healing (loadComp (fun c v2 => { c with wants_to_use := some v2 }) (convRefPair WantsToUseItem.mk) v data.wants_to_use) ∧
    FieldVals (fun c => c.provides_healing) (RPure id) data.provides_healing (loadComp (fun c v2 => { c with wants_to_use := some v2 }) (convRefPair WantsToUseItem.mk) v data.wants_to_use) ∧
    KeysLive data.in_backpack (loadComp (fun c v2 => { c with wants_to_use := some v2 }) (convRefPair WantsToUseItem.mk) v data.wants_to_use) ∧
    FieldVals (fun c => c.in_backpack) (RRef InBackpack.mk) data.in_backpack (loadComp (fun c v2 => { c with wants_to_use := some v2 }) (convRefPair WantsToUseItem.mk) v data.wants_to_use) ∧
    KeysLive data.wants_to_pickup (loadComp (fun c v2 => { c with wants_to_use := some v2 }) (convRefPair WantsToUseItem.mk) v data.wants_to_use) ∧
    FieldVals (fun c => c.wants_to_pickup) (RRef2 WantsToPickupItem.mk) data.wants_to_pickup (loadComp (fun c v2 => { c with wants_to_use := some v2 }) (convRefPair WantsToUseItem.mk) v data.wants_to_use) ∧
    KeysLive data.wants_to_use (loadComp (fun c v2 => { c with wants_to_use := some v2 }) (convRefPair WantsToUseItem.mk) v data.wants_to_use) ∧
    FieldVals (fun c => c.wants_to_use) (RRefPair WantsToUseItem.mk) data.wants_to_use (loadComp (fun c v2 => { c with wants_to_use := some v2 }) (convRefPair WantsToUseItem.mk) v data.wants_to_use) ∧
    AllNone (fun c => c.wants_to_drop) (loadComp (fun c v2 => { c with wants_to_use := some v2 }) (convRefPair WantsToUseItem.mk) v data.wants_to_use) ∧
    AllNone (fun c => c.serialization_helper) (loadComp (fun c v2 => { c with wants_to_use := some v2 }) (convRefPair WantsToUseItem.mk) v data.wants_to_use) ∧
    AllNone (fun c => c.equippable) (loadComp (fun c v2 => { c with wants_to_use := some v2 }) (convRefPair WantsToUseItem.mk) v data.wants_to_use) ∧
    AllNone (fun c => c.equipped) (loadComp (fun c v2 => { c with wants_to_use := some v2 }) (convRefPair WantsToUseItem.mk) v data.wants_to_use) ∧
    AllNone (fun c => c.melee_power_bonus) (loadComp (fun c v2 => { c with wants_to_use := some v2 }) (convRefPair WantsToUseItem.mk) v data.wants_to_use) ∧
    AllNone (fun c => c.defense_bonus) (loadComp (fun c v2 => { c with wants_to_use := some v2 }) (convRefPair WantsToUseItem.mk) v data.wants_to_use) ∧
    AllNone (fun c => c.wants_to_remove) (loadComp (fun c v2 => { c with wants_to_use := some v2 }) (convRefPair WantsToUseItem.mk) v data.wants_to_use) ∧
    AllNone (fun c => c.particle_lifetime) (loadComp (fun c v2 => { c with wants_to_use := some v2 }) (convRefPair WantsToUseItem.mk) v data.wants_to_use) ∧
    AllNone (fun c => c.hunger_clock) (loadComp (fun c v2 => { c with wants_to_use := some v2 }) (convRefPair WantsToUseItem.mk) v data.wants_to_use) ∧
    AllNone (fun c => c.provides_food) (loadComp (fun c v2 => { c with wants_to_use := some v2 }) (convRefPair WantsToUseItem.mk) v data.wants_to_use) := by
  obtain ⟨hI2, hle2, hfr2, hklx⟩ := loadComp_struct (fun c v2 => { c with wants_to_use := some v2 }) (convRefPair WantsToUseItem.mk) A (fun p => A p.1)
    (fun c a => rfl) (convOK_refPair A WantsToUseItem.mk) data.wants_to_use _ hI hA
  have hfvk := loadComp_est (fun c v2 => { c with wants_to_use := some v2 }) (fun c => c.wants_to_use) (convRefPair WantsToUseItem.mk) A (fun p => A p.1)
    (RRefPair WantsToUseItem.mk) (convOK_refPair A WantsToUseItem.mk) (fun v2 b hIv hAb => rval_refPair WantsToUseItem.mk v2 b hIv)
    (fun va vb a b hle h => RRefPair_mono WantsToUseItem.mk va vb a b hle h) (fun c a => rfl) (fun c a => rfl) (fun m => rfl)
    data.wants_to_use _ hI hkeys hA hN20
  obtain ⟨hoF1, hnF1⟩ := loadComp_obs (fun c v2 => { c with wants_to_use := some v2 }) (convRefPair WantsToUseItem.mk) (fun c => c.position) A (fun p => A p.1)
    (fun c a => rfl) (convOK_refPair A WantsToUseItem.mk) (fun c a => rfl) (fun m => rfl) data.wants_to_use _ hI hA
  have hfv1b := FieldVals_mono (fun c => c.position) (RPure id) data.positions hle2
    (fun a b h => h)
    (fun e he hn => let ⟨m, h1, h2, _⟩ := hfr2 e he hn; ⟨m, h1, h2⟩)
    hoF1 hnF1 hkl1 hfv1
  have hkl1b := KeysLive_mono hle2 hkl1
  obtain ⟨hoF2, hnF2⟩ := loadComp_obs (fun c v2 => { c with wants_to_use := some v2 }) (convRefPair WantsToUseItem.mk) (fun c => c.renderable) A (fun p => A p.1)
    (fun c a => rfl) (convOK_refPair A WantsToUseItem.mk) (fun c a => rfl) (fun m => rfl) data.wants_to_use _ hI hA
  have hfv2b := FieldVals_mono (fun c => c.renderable) (RPure id) data.renderables hle2
    (fun a b h => h)
    (fun e he hn => let ⟨m, h1, h2, _⟩ := hfr2 e he hn; ⟨m, h1, h2⟩)
    hoF2 hnF2 hkl2 hfv2
  have hkl2b := KeysLive_mono hle2 hkl2
  obtain ⟨hoF3, hnF3⟩ := loadComp_obs (fun c v2 => { c with wants_to_use := some v2 }) (convRefPair WantsToUseItem.mk) (fun c => c.player) A (fun p => A p.1)
    (fun c a => rfl) (convOK_refPair A WantsToUseItem.mk) (fun c a => rfl) (fun m => rfl) data.wants_to_use _ hI hA
  have hfv3b := FieldVals_mono (fun c => c.player) (RPure id) data.players hle2
    (fun a b h => h)
    (fun e he hn => let ⟨m, h1, h2, _⟩ := hfr2 e he hn; ⟨m, h1, h2⟩)
    hoF3 hnF3 hkl3 hfv3
  have hkl3b := KeysLive_mono hle2 hkl3
  obtain ⟨hoF4, hnF4⟩ := loadComp_obs (fun c v2 => { c with wants_to_use := some v2 }) (convRefPair WantsToUseItem.mk) (fun c => c.viewshed) A (fun p => A p.1)
    (fun c a => rfl) (convOK_refPair A WantsToUseItem.mk) (fun c a => rfl) (fun m => rfl) data.wants_to_use _ hI hA
  have hfv4b := FieldVals_mono (fun c => c.viewshed) (RPure id) data.viewsheds hle2
    (fun a b h => h)
    (fun e he hn => let ⟨m, h1, h2, _⟩ := hfr2 e he hn; ⟨m, h1, h2⟩)
    hoF4 hnF4 hkl4 hfv4
  have hkl4b := KeysLive_mono hle2 hkl4
  obtain ⟨hoF5, hnF5⟩ := loadComp_obs (fun c v2 => { c with wants_to_use := some v2 }) (convRefPair WantsToUseItem.mk) (fun c => c.monster) A (fun p => A p.1)
    (fun c a => rfl) (convOK_refPair A WantsToUseItem.mk) (fun c a => rfl) (fun m => rfl) data.wants_to_use _ hI hA
  have hfv5b := FieldVals_mono (fun c => c.monster) (RPure id) data.monsters hle2
    (fun a b h => h)
    (fun e he hn => let ⟨m, h1, h2, _⟩ := hfr2 e he hn; ⟨m, h1, h2⟩)
    hoF5 hnF5 hkl5 hfv5
  have hkl5b := KeysLive_mono hle2 hkl5
  obtain ⟨hoF6, hnF6⟩ := loadComp_obs (fun c v2 => { c with wants_to_use := some v2 }) (convRefPair WantsToUseItem.mk) (fun c => c.name) A (fun p => A p.1)
    (fun c a => rfl) (convOK_refPair A WantsToUseItem.mk) (fun c a => rfl) (fun m => rfl) data.wants_to_use _ hI hA
  have hfv6b := FieldVals_mono (fun c => c.name) (RPure id) data.names hle2
    (fun a b h => h)
    (fun e he hn => let ⟨m, h1, h2, _⟩ := hfr2 e he hn; ⟨m, h1, h2⟩)
    hoF6 hnF6 hkl6 hfv6
  have hkl6b := KeysLive_mono hle2 hkl6
  obtain ⟨hoF7, hnF7⟩ := loadComp_obs (fun c v2 => { c with wants_to_use := some v2 }) (convRefPair WantsToUseItem.mk) (fun c => c.blocks_tile) A (fun p => A p.1)
    (fun c a => rfl) (convOK_refPair A WantsToUseItem.mk) (fun c a => rfl) (fun m => rfl) data.wants_to_use _ hI hA
  have hfv7b := FieldVals_mono (fun c => c.blocks_tile) (RPure id) data.blocks_tile hle2
    (fun a b h => h)
    (fun e he hn => let ⟨m, h1, h2, _⟩ := hfr2 e he hn; ⟨m, h1, h2⟩)
    hoF7 hnF7 hkl7 hfv7
  have hkl7b := KeysLive_mono hle2 hkl7
  obtain ⟨hoF8, hnF8⟩ := loadComp_obs (fun c v2 => { c with wants_to_use := some v2 }) (convRefPair WantsToUseItem.mk) (fun c => c.combat_stats) A (fun p => A p.1)
    (fun c a => rfl) (convOK_refPair A WantsToUseItem.mk) (fun c a => rfl) (fun m => rfl) data.wants_to_use _ hI hA
  have hfv8b := FieldVals_mono (fun c => c.combat_stats) (RPure id) data.combat_stats hle2
    (fun a b h => h)
    (fun e he hn => let ⟨m, h1, h2, _⟩ := hfr2 e he hn; ⟨m, h1, h2⟩)
    hoF8 hnF8 hkl8 hfv8
  have hkl8b := KeysLive_mono hle2 hkl8
  obtain ⟨hoF9, hnF9⟩ := loadComp_obs (fun c v2 => { c with wants_to_use := some v2 }) (convRefPair WantsToUseItem.mk) (fun c => c.suffer_damage) A (fun p => A p.1)
    (fun c a => rfl) (convOK_refPair A WantsToUseItem.mk) (fun c a => rfl) (fun m => rfl) data.wants_to_use _ hI hA
  have hfv9b := FieldVals_mono (fun c => c.suffer_damage) (RPure id) data.suffer_damage hle2
    (fun a b h => h)
    (fun e he hn => let ⟨m, h1, h2, _⟩ := hfr2 e he hn; ⟨m, h1, h2⟩)
    hoF9 hnF9 hkl9 hfv9
  have hkl9b := KeysLive_mono hle2 hkl9
  obtain ⟨hoF10, hnF10⟩ := loadComp_obs (fun c v2 => { c with wants_to_use := some v2 }) (convRefPair WantsToUseItem.mk) (fun c => c.wants_melee) A (fun p => A p.1)
    (fun c a => rfl) (convOK_refPair A WantsToUseItem.mk) (fun c a => rfl) (fun m => rfl) data.wants_to_use _ hI hA
  have hfv10b := FieldVals_mono (fun c => c.wants_melee) (RRef WantsToMelee.mk) data.wants_melee hle2
    (fun a b h => RRef_mono WantsToMelee.mk _ _ a b hle2 h)
    (fun e he hn => let ⟨m, h1, h2, _⟩ := hfr2 e he hn; ⟨m, h1, h2⟩)
    hoF10 hnF10 hkl10 hfv10
  have hkl10b := KeysLive_mono hle2 hkl10
  obtain ⟨hoF11, hnF11⟩ := loadComp_obs (fun c v2 => { c with wants_to_use := some v2 }) (convRefPair WantsToUseItem.mk) (fun c => c.item) A (fun p => A p.1)
    (fun c a => rfl) (convOK_refPair A WantsToUseItem.mk) (fun c a => rfl) (fun m => rfl) data.wants_to_use _ hI hA
  have hfv11b := FieldVals_mono (fun c => c.item) (RPure id) data.items hle2
    (fun a b h => h)
    (fun e he hn => let ⟨m, h1, h2, _⟩ := hfr2 e he hn; ⟨m, h1, h2⟩)
    hoF11 hnF11 hkl11 hfv11
  have hkl11b := KeysLive_mono hle2 hkl11
  obtain ⟨hoF12, hnF12⟩ := loadComp_obs (fun c v2 => { c with wants_to_use := some v2 }) (convRefPair WantsToUseItem.mk) (fun c => c.consumable) A (fun p => A p.1)
    (fun c a => rfl) (convOK_refPair A WantsToUseItem.mk) (fun c a => rfl) (fun m => rfl) data.wants_to_use _ hI hA
  have hfv12b := FieldVals_mono (fun c => c.consumable) (RPure id) data.consumables hle2
    (fun a b h => h)
    (fun e he hn => let ⟨m, h1, h2, _⟩ := hfr2 e he hn; ⟨m, h1, h2⟩)
    hoF12 hnF12 hkl12 hfv12
  have hkl12b := KeysLive_mono hle2 hkl12
  obtain ⟨hoF13, hnF13⟩ := loadComp_obs (fun c v2 => { c with wants_to_use := some v2 }) (convRefPair WantsToUseItem.mk) (fun c => c.ranged) A (fun p => A p.1)
    (fun c a => rfl) (convOK_refPair A WantsToUseItem.mk) (fun c a => rfl) (fun m => rfl) data.wants_to_use _ hI hA
  have hfv13b := FieldVals_mono (fun c => c.ranged) (RPure id) data.ranged hle2
    (fun a b h => h)
    (fun e he hn => let ⟨m, h1, h2, _⟩ := hfr2 e he hn; ⟨m, h1, h2⟩)
    hoF13 hnF13 hkl13 hfv13
  have hkl13b := KeysLive_mono hle2 hkl13
  obtain ⟨hoF14, hnF14⟩ := loadComp_obs (fun c v2 => { c with wants_to_use := some v2 }) (convRefPair WantsToUseItem.mk) (fun c => c.inflicts_damage) A (fun p => A p.1)
    (fun c a => rfl) (convOK_refPair A WantsToUseItem.mk) (fun c a => rfl) (fun m => rfl) data.wants_to_use _ hI hA
  have hfv14b := FieldVals_mono (fun c => c.inflicts_damage) (RPure id) data.inflicts_damage hle2
    (fun a b h => h)
    (fun e he hn => let ⟨m, h1, h2, _⟩ := hfr2 e he hn; ⟨m, h1, h2⟩)
    hoF14 hnF14 hkl14 hfv14
  have hkl14b := KeysLive_mono hle2 hkl14
  obtain ⟨hoF15, hnF15⟩ := loadComp_obs (fun c v2 => { c with wants_to_use := some v2 }) (convRefPair WantsToUseItem.mk) (fun c => c.area_of_effect) A (fun p => A p.1)
    (fun c a => rfl) (convOK_refPair A WantsToUseItem.mk) (fun c a => rfl) (fun m => rfl) data.wants_to_use _ hI hA
  have hfv15b := FieldVals_mono (fun c => c.area_of_effect) (RPure id) data.area_of_effect hle2
    (fun a b h => h)
    (fun e he hn => let ⟨m, h1, h2, _⟩ := hfr2 e he hn; ⟨m, h1, h2⟩)
    hoF15 hnF15 hkl15 hfv15
  have hkl15b := KeysLive_mono hle2 hkl15
  obtain ⟨hoF16, hnF16⟩ := loadComp_obs (fun c v2 => { c with wants_to_use := some v2 }) (convRefPair WantsToUseItem.mk) (fun c => c.confusion) A (fun p => A p.1)
    (fun c a => rfl) (convOK_refPair A WantsToUseItem.mk) (fun c a => rfl) (fun m => rfl) data.wants_to_use _ hI hA
  have hfv16b := FieldVals_mono (fun c => c.confusion) (RPure id) data.confusion hle2
    (fun a b h => h)
    (fun e he hn => let ⟨m, h1, h2, _⟩ := hfr2 e he hn; ⟨m, h1, h2⟩)
    hoF16 hnF16 hkl16 hfv16
  have hkl16b := KeysLive_mono hle2 hkl16
  obtain ⟨hoF17, hnF17⟩ := loadComp_obs (fun c v2 => { c with wants_to_use := some v2 }) (convRefPair WantsToUseItem.mk) (fun c => c.provides_healing) A (fun p => A p.1)
    (fun c a => rfl) (convOK_refPair A WantsToUseItem.mk) (fun c a => rfl) (fun m => rfl) data.wants_to_use _ hI hA
  have hfv17b := FieldVals_mono (fun c => c.provides_healing) (RPure id) data.provides_healing hle2
    (fun a b h => h)
    (fun e he hn => let ⟨m, h1, h2, _⟩ := hfr2 e he hn; ⟨m, h1, h2⟩)
    hoF17 hnF17 hkl17 hfv17
  have hkl17b := KeysLive_mono hle2 hkl17
  obtain ⟨hoF18, hnF18⟩ := loadComp_obs (fun c v2 => { c with wants_to_use := some v2 }) (convRefPair WantsToUseItem.mk) (fun c => c.in_backpack) A (fun p => A p.1)
    (fun c a => rfl) (convOK_refPair A WantsToUseItem.mk) (fun c a => rfl) (fun m => rfl) data.wants_to_use _ hI hA
  have hfv18b := FieldVals_mono (fun c => c.in_backpack) (RRef InBackpack.mk) data.in_backpack hle2
    (fun a b h => RRef_mono InBackpack.mk _ _ a b hle2 h)
    (fun e he hn => let ⟨m, h1, h2, _⟩ := hfr2 e he hn; ⟨m, h1, h2⟩)
    hoF18 hnF18 hkl18 hfv18
  have hkl18b := KeysLive_mono hle2 hkl18
  obtain ⟨hoF19, hnF19⟩ := loadComp_obs (fun c v2 => { c with wants_to_use := some v2 }) (convRefPair WantsToUseItem.mk) (fun c => c.wants_to_pickup) A (fun p => A p.1)
    (fun c a => rfl) (convOK_refPair A WantsToUseItem.mk) (fun c a => rfl) (fun m => rfl) data.wants_to_use _ hI hA
  have hfv19b := FieldVals_mono (fun c => c.wants_to_pickup) (RRef2 WantsToPickupItem.mk) data.wants_to_pickup hle2
    (fun a b h => RRef2_mono WantsToPickupItem.mk _ _ a b hle2 h)
    (fun e he hn => let ⟨m, h1, h2, _⟩ := hfr2 e he hn; ⟨m, h1, h2⟩)
    hoF19 hnF19 hkl19 hfv19
  have hkl19b := KeysLive_mono hle2 hkl19
  obtain ⟨hoF21, hnF21⟩ := loadComp_obs (fun c v2 => { c with wants_to_use := some v2 }) (convRefPair WantsToUseItem.mk) (fun c => c.wants_to_drop) A (fun p => A p.1)
    (fun c a => rfl) (convOK_refPair A WantsToUseItem.mk) (fun c a => rfl) (fun m => rfl) data.wants_to_use _ hI hA
  have hN21b := AllNone_mono (fun c => c.wants_to_drop) _ _ hoF21 hnF21 hN21
  obtain ⟨hoF22, hnF22⟩ := loadComp_obs (fun c v2 => { c with wants_to_use := some v2 }) (convRefPair WantsToUseItem.mk) (fun c => c.serialization_helper) A (fun p => A p.1)
    (fun c a => rfl) (convOK_refPair A WantsToUseItem.mk) (fun c a => rfl) (fun m => rfl) data.wants_to_use _ hI hA
  have hN22b := AllNone_mono (fun c => c.serialization_helper) _ _ hoF22 hnF22 hN22
  obtain ⟨hoF23, hnF23⟩ := loadComp_obs (fun c v2 => { c with wants_to_use := some v2 }) (convRefPair WantsToUseItem.mk) (fun c => c.equippable) A (fun p => A p.1)
    (fun c a => rfl) (convOK_refPair A WantsToUseItem.mk) (fun c a => rfl) (fun m => rfl) data.wants_to_use _ hI hA
  have hN23b := AllNone_mono (fun c => c.equippable) _ _ hoF23 hnF23 hN23
  obtain ⟨hoF24, hnF24⟩ := loadComp_obs (fun c v2 => { c with wants_to_use := some v2 }) (convRefPair WantsToUseItem.mk) (fun c => c.equipped) A (fun p => A p.1)
    (fun c a => rfl) (convOK_refPair A WantsToUseItem.mk) (fun c a => rfl) (fun m => rfl) data.wants_to_use _ hI hA
  have hN24b := AllNone_mono (fun c => c.equipped) _ _ hoF24 hnF24 hN24
  obtain ⟨hoF25, hnF25⟩ := loadComp_obs (fun c v2 => { c with wants_to_use := some v2 }) (convRefPair WantsToUseItem.mk) (fun c => c.melee_power_bonus) A (fun p => A p.1)
    (fun c a => rfl) (convOK_refPair A WantsToUseItem.mk) (fun c a => rfl) (fun m => rfl) data.wants_to_use _ hI hA
  have hN25b := AllNone_mono (fun c => c.melee_power_bonus) _ _ hoF25 hnF25 hN25
  obtain ⟨hoF26, hnF26⟩ := loadComp_obs (fun c v2 => { c with wants_to_use := some v2 }) (convRefPair WantsToUseItem.mk) (fun c => c.defense_bonus) A (fun p => A p.1)
    (fun c a => rfl) (convOK_refPair A WantsToUseItem.mk) (fun c a => rfl) (fun m => rfl) data.wants_to_use _ hI hA
  have hN26b := AllNone_mono (fun c => c.defense_bonus) _ _ hoF26 hnF26 hN26
  obtain ⟨hoF27, hnF27⟩ := loadComp_obs (fun c v2 => { c with wants_to_use := some v2 }) (convRefPair WantsToUseItem.mk) (fun c => c.wants_to_remove) A (fun p => A p.1)
    (fun c a => rfl) (convOK_refPair A WantsToUseItem.mk) (fun c a => rfl) (fun m => rfl) data.wants_to_use _ hI hA
  have hN27b := AllNone_mono (fun c => c.wants_to_remove) _ _ hoF27 hnF27 hN27
  obtain ⟨hoF28, hnF28⟩ := loadComp_obs (fun c v2 => { c with wants_to_use := some v2 }) (convRefPair WantsToUseItem.mk) (fun c => c.particle_lifetime) A (fun p => A p.1)
    (fun c a => rfl) (convOK_refPair A WantsToUseItem.mk) (fun c a => rfl) (fun m => rfl) data.wants_to_use _ hI hA
  have hN28b := AllNone_mono (fun c => c.particle_lifetime) _ _ hoF28 hnF28 hN28
  obtain ⟨hoF29, hnF29⟩ := loadComp_obs (fun c v2 => { c with wants_to_use := some v2 }) (convRefPair WantsToUseItem.mk) (fun c => c.hunger_clock) A (fun p => A p.1)
    (fun c a => rfl) (convOK_refPair A WantsToUseItem.mk) (fun c a => rfl) (fun m => rfl) data.wants_to_use _ hI hA
  have hN29b := AllNone_mono (fun c => c.hunger_clock) _ _ hoF29 hnF29 hN29
  obtain ⟨hoF30, hnF30⟩ := loadComp_obs (fun c v2 => { c with wants_to_use := some v2 }) (convRefPair WantsToUseItem.mk) (fun c => c.provides_food) A (fun p => A p.1)
    (fun c a => rfl) (convOK_refPair A WantsToUseItem.mk) (fun c a => rfl) (fun m => rfl) data.wants_to_use _ hI hA
  have hN30b := AllNone_mono (fun c => c.provides_food) _ _ hoF30 hnF30 hN30
  have hMb := MarksIn_mono hle2 (fun e he hn => let ⟨m, h1, _, h3⟩ := hfr2 e he hn; ⟨m, h1, h3⟩) hM
  exact ⟨hI2, hMb, hkl1b, hfv1b, hkl2b, hfv2b, hkl3b, hfv3b, hkl4b, hfv4b, hkl5b, hfv5b, hkl6b, hfv6b, hkl7b, hfv7b, hkl8b, hfv8b, hkl9b, hfv9b, hkl10b, hfv10b, hkl11b, hfv11b, hkl12b, hfv12b, hkl13b, hfv13b, hkl14b, hfv14b, hkl15b, hfv15b, hkl16b, hfv16b, hkl17b, hfv17b, hkl18b, hfv18b, hkl19b, hfv19b, hklx, hfvk, hN21b, hN22b, hN23b, hN24b, hN25b, hN26b, hN27b, hN28b, hN29b, hN30b⟩

set_option maxHeartbeats 800000 in
/-- Deserialization pass 21 (wants_to_drop): it establishes its own list facts
and preserves those of the earlier passes. -/
lemma loadStage21 (A : Nat → Prop) (data : SaveData) (v : World)
    (hI : LoadInv v)
    (hkeys : ((data.wants_to_drop).map Prod.fst).Nodup)
    (hA : ∀ p ∈ data.wants_to_drop, A p.1 ∧ A p.2)
    (hM : MarksIn A v)
    (hkl1 : KeysLive data.positions v)
    (hfv1 : FieldVals (fun c => c.position) (RPure id) data.positions v)
    (hkl2 : KeysLive data.renderables v)
    (hfv2 : FieldVals (fun c => c.renderable) (RPure id) data.renderables v)
    (hkl3 : KeysLive data.players v)
    (hfv3 : FieldVals (fun c => c.player) (RPure id) data.players v)
    (hkl4 : KeysLive data.viewsheds v)
    (hfv4 : FieldVals (fun c => c.viewshed) (RPure id) data.viewsheds v)
    (hkl5 : KeysLive data.monsters v)
    (hfv5 : FieldVals (fun c => c.monster) (RPure id) data.monsters v)
    (hkl6 : KeysLive data.names v)
    (hfv6 : FieldVals (fun c => c.name) (RPure id) data.names v)
    (hkl7 : KeysLive data.blocks_tile v)
    (hfv7 : FieldVals (fun c => c.blocks_tile) (RPure id) data.blocks_tile v)
    (hkl8 : KeysLive data.combat_stats v)
    (hfv8 : FieldVals (fun c => c.combat_stats) (RPure id) data.combat_stats v)
    (hkl9 : KeysLive data.suffer_damage v)
    (hfv9 : FieldVals (fun c => c.suffer_damage) (RPure id) data.suffer_damage v)
    (hkl10 : KeysLive data.wants_melee v)
    (hfv10 : FieldVals (fun c => c.wants_melee) (RRef WantsToMelee.mk) data.wants_melee v)
    (hkl11 : KeysLive data.items v)
    (hfv11 : FieldVals (fun c => c.item) (RPure id) data.items v)
    (hkl12 : KeysLive data.consumables v)
    (hfv12 : FieldVals (fun c => c.consumable) (RPure id) data.consumables v)
    (hkl13 : KeysLive data.ranged v)
    (hfv13 : FieldVals (fun c => c.ranged) (RPure id) data.ranged v)
    (hkl14 : KeysLive data.inflicts_damage v)
    (hfv14 : FieldVals (fun c => c.inflicts_damage) (RPure id) data.inflicts_damage v)
    (hkl15 : KeysLive data.area_of_effect v)
    (hfv15 : FieldVals (fun c => c.area_of_effect) (RPure id) data.area_of_effect v)
    (hkl16 : KeysLive data.confusion v)
    (hfv16 : FieldVals (fun c => c.confusion) (RPure id) data.confusion v)
    (hkl17 : KeysLive data.provides_healing v)
    (hfv17 : FieldVals (fun c => c.provides_healing) (RPure id) data.provides_healing v)
    (hkl18 : KeysLive data.in_backpack v)
    (hfv18 : FieldVals (fun c => c.in_backpack) (RRef InBackpack.mk) data.in_backpack v)
    (hkl19 : KeysLive data.wants_to_pickup v)
    (hfv19 : FieldVals (fun c => c.wants_to_pickup) (RRef2 WantsToPickupItem.mk) data.wants_to_pickup v)
    (hkl20 : KeysLive data.wants_to_use v)
    (hfv20 : FieldVals (fun c => c.wants_to_use) (RRefPair WantsToUseItem.mk) data.wants_to_use v)
    (hN21 : AllNone (fun c => c.wants_to_drop) v)
    (hN22 : AllNone (fun c => c.serialization_helper) v)
    (hN23 : AllNone (fun c => c.equippable) v)
    (hN24 : AllNone (fun c => c.equipped) v)
    (hN25 : AllNone (fun c => c.melee_power_bonus) v)
    (hN26 : AllNone (fun c => c.defense_bonus) v)
    (hN27 : AllNone (fun c => c.wants_to_remove) v)
    (hN28 : AllNone (fun c => c.particle_lifetime) v)
    (hN29 : AllNone (fun c => c.hunger_clock) v)
    (hN30 : AllNone (fun c => c.provides_food) v)
    :
    LoadInv (loadComp (fun c v2 => { c with wants_to_drop := some v2 }) (convRef WantsToDropItem.mk) v data.wants_to_drop) ∧
    MarksIn A (loadComp (fun c v2 => { c with wants_to_drop := some v2 }) (convRef WantsToDropItem.mk) v data.wants_to_drop) ∧
    KeysLive data.positions (loadComp (fun c v2 => { c with wants_to_drop := some v2 }) (convRef WantsToDropItem.mk) v data.wants_to_drop) ∧
    FieldVals (fun c => c.position) (RPure id) data.positions (loadComp (fun c v2 => { c with wants_to_drop := some v2 }) (convRef WantsToDropItem.mk) v data.wants_to_drop) ∧
    KeysLive data.renderables (loadComp (fun c v2 => { c with wants_to_drop := some v2 }) (convRef WantsToDropItem.mk) v data.wants_to_drop) ∧
    FieldVals (fun c => c.renderable) (RPure id) data.renderables (loadComp (fun c v2 => { c with wants_to_drop := some v2 }) (convRef WantsToDropItem.mk) v data.wants_to_drop) ∧
    KeysLive data.players (loadComp (fun c v2 => { c with wants_to_drop := some v2 }) (convRef WantsToDropItem.mk) v data.wants_to_drop) ∧
    FieldVals (fun c => c.player) (RPure id) data.players (loadComp (fun c v2 => { c with wants_to_drop := some v2 }) (convRef WantsToDropItem.mk) v data.wants_to_drop) ∧
    KeysLive data.viewsheds (loadComp (fun c v2 => { c with wants_to_drop := some v2 }) (convRef WantsToDropItem.mk) v data.wants_to_drop) ∧
    FieldVals (fun c => c.viewshed) (RPure id) data.viewsheds (loadComp (fun c v2 => { c with wants_to_drop := some v2 }) (convRef WantsToDropItem.mk) v data.wants_to_drop) ∧
    KeysLive data.monsters (loadComp (fun c v2 => { c with wants_to_drop := some v2 }) (convRef WantsToDropItem.mk) v data.wants_to_drop) ∧
    FieldVals (fun c => c.monster) (RPure id) data.monsters (loadComp (fun c v2 => { c with wants_to_drop := some v2 }) (convRef WantsToDropItem.mk) v data.wants_to_drop) ∧
    KeysLive data.names (loadComp (fun c v2 => { c with wants_to_drop := some v2 }) (convRef WantsToDropItem.mk) v data.wants_to_drop) ∧
    FieldVals (fun c => c.name) (RPure id) data.names (loadComp (fun c v2 => { c with wants_to_drop := some v2 }) (convRef WantsToDropItem.mk) v data.wants_to_drop) ∧
    KeysLive data.blocks_tile (loadComp (fun c v2 => { c with wants_to_drop := some v2 }) (convRef WantsToDropItem.mk) v data.wants_to_drop) ∧
    FieldVals (fun c => c.blocks_tile) (RPure id) data.blocks_tile (loadComp (fun c v2 => { c with wants_to_drop := some v2 }) (convRef WantsToDropItem.mk) v data.wants_to_drop) ∧
    KeysLive data.combat_stats (loadComp (fun c v2 => { c with wants_to_drop := some v2 }) (convRef WantsToDropItem.mk) v data.wants_to_drop) ∧
    FieldVals (fun c => c.combat_stats) (RPure id) data.combat_stats (loadComp (fun c v2 => { c with wants_to_drop := some v2 }) (convRef WantsToDropItem.mk) v data.wants_to_drop) ∧
    KeysLive data.suffer_damage (loadComp (fun c v2 => { c with wants_to_drop := some v2 }) (convRef WantsToDropItem.mk) v data.wants_to_drop) ∧
    FieldVals (fun c => c.suffer_damage) (RPure id) data.suffer_damage (loadComp (fun c v2 => { c with wants_to_drop := some v2 }) (convRef WantsToDropItem.mk) v data.wants_to_drop) ∧
    KeysLive data.wants_melee (loadComp (fun c v2 => { c with wants_to_drop := some v2 }) (convRef WantsToDropItem.mk) v data.wants_to_drop) ∧
    FieldVals (fun c => c.wants_melee) (RRef WantsToMelee.mk) data.wants_melee (loadComp (fun c v2 => { c with wants_to_drop := some v2 }) (convRef WantsToDropItem.mk) v data.wants_to_drop) ∧
    KeysLive data.items (loadComp (fun c v2 => { c with wants_to_drop := some v2 }) (convRef WantsToDropItem.mk) v data.wants_to_drop) ∧
    FieldVals (fun c => c.item) (RPure id) data.items (loadComp (fun c v2 => { c with wants_to_drop := some v2 }) (convRef WantsToDropItem.mk) v data.wants_to_drop) ∧
    KeysLive data.consumables (loadComp (fun c v2 => { c with wants_to_drop := some v2 }) (convRef WantsToDropItem.mk) v data.wants_to_drop) ∧
    FieldVals (fun c => c.consumable) (RPure id) data.consumables (loadComp (fun c v2 => { c with wants_to_drop := some v2 }) (convRef WantsToDropItem.mk) v data.wants_to_drop) ∧
    KeysLive data.ranged (loadComp (fun c v2 => { c with wants_to_drop := some v2 }) (convRef WantsToDropItem.mk) v data.wants_to_drop) ∧
    FieldVals (fun c => c.ranged) (RPure id) data.ranged (loadComp (fun c v2 => { c with wants_to_drop := some v2 }) (convRef WantsToDropItem.mk) v data.wants_to_drop) ∧
    KeysLive data.inflicts_damage (loadComp (fun c v2 => { c with wants_to_drop := some v2 }) (convRef WantsToDropItem.mk) v data.wants_to_drop) ∧
    FieldVals (fun c => c.inflicts_damage) (RPure id) data.inflicts_damage (loadComp (fun c v2 => { c with wants_to_drop := some v2 }) (convRef WantsToDropItem.mk) v data.wants_to_drop) ∧
    KeysLive data.area_of_effect (loadComp (fun c v2 => { c with wants_to_drop := some v2 }) (convRef WantsToDropItem.mk) v data.wants_to_drop) ∧
    FieldVals (fun c => c.area_of_effect) (RPure id) data.area_of_effect (loadComp (fun c v2 => { c with wants_to_drop := some v2 }) (convRef WantsToDropItem.mk) v data.wants_to_drop) ∧
    KeysLive data.confusion (loadComp (fun c v2 => { c with wants_to_drop := some v2 }) (convRef WantsToDropItem.mk) v data.wants_to_drop) ∧
    FieldVals (fun c => c.confusion) (RPure id) data.confusion (loadComp (fun c v2 => { c with wants_to_drop := some v2 }) (convRef WantsToDropItem.mk) v data.wants_to_drop) ∧
    KeysLive data.provides_healing (loadComp (fun c v2 => { c with wants_to_drop := some v2 }) (convRef WantsToDropItem.mk) v data.wants_to_drop) ∧
    FieldVals (fun c => c.provides_healing) (RPure id) data.provides_healing (loadComp (fun c v2 => { c with wants_to_drop := some v2 }) (convRef WantsToDropItem.mk) v data.wants_to_drop) ∧
    KeysLive data.in_backpack (loadComp (fun c v2 => { c with wants_to_drop := some v2 }) (convRef WantsToDropItem.mk) v data.wants_to_drop) ∧
    FieldVals (fun c => c.in_backpack) (RRef InBackpack.mk) data.in_backpack (loadComp (fun c v2 => { c with wants_to_drop := some v2 }) (convRef WantsToDropItem.mk) v data.wants_to_drop) ∧
    KeysLive data.wants_to_pickup (loadComp (fun c v2 => { c with wants_to_drop := some v2 }) (convRef WantsToDropItem.mk) v data.wants_to_drop) ∧
    FieldVals (fun c => c.wants_to_pickup) (RRef2 WantsToPickupItem.mk) data.wants_to_pickup (loadComp (fun c v2 => { c with wants_to_drop := some v2 }) (convRef WantsToDropItem.mk) v data.wants_to_drop) ∧
    KeysLive data.wants_to_use (loadComp (fun c v2 => { c with wants_to_drop := some v2 }) (convRef WantsToDropItem.mk) v data.wants_to_drop) ∧
    FieldVals (fun c => c.wants_to_use) (RRefPair WantsToUseItem.mk) data.wants_to_use (loadComp (fun c v2 => { c with wants_to_drop := some v2 }) (convRef WantsToDropItem.mk) v data.wants_to_drop) ∧
    KeysLive data.wants_to_drop (loadComp (fun c v2 => { c with wants_to_drop := some v2 }) (convRef WantsToDropItem.mk) v data.wants_to_drop) ∧
    FieldVals (fun c => c.wants_to_drop) (RRef WantsToDropItem.mk) data.wants_to_drop (loadComp (fun c v2 => { c with wants_to_drop := some v2 }) (convRef WantsToDropItem.mk) v data.wants_to_drop) ∧
    AllNone (fun c => c.serialization_helper) (loadComp (fun c v2 => { c with wants_to_drop := some v2 }) (convRef WantsToDropItem.mk) v data.wants_to_drop) ∧
    AllNone (fun c => c.equippable) (loadComp (fun c v2 => { c with wants_to_drop := some v2 }) (convRef WantsToDropItem.mk) v data.wants_to_drop) ∧
    AllNone (fun c => c.equipped) (loadComp (fun c v2 => { c with wants_to_drop := some v2 }) (convRef WantsToDropItem.mk) v data.wants_to_drop) ∧
    AllNone (fun c => c.melee_power_bonus) (loadComp (fun c v2 => { c with wants_to_drop := some v2 }) (convRef WantsToDropItem.mk) v data.wants_to_drop) ∧
    AllNone (fun c => c.defense_bonus) (loadComp (fun c v2 => { c with wants_to_drop := some v2 }) (convRef WantsToDropItem.mk) v data.wants_to_drop) ∧
    AllNone (fun c => c.wants_to_remove) (loadComp (fun c v2 => { c with wants_to_drop := some v2 }) (convRef WantsToDropItem.mk) v data.wants_to_drop) ∧
    AllNone (fun c => c.particle_lifetime) (loadComp (fun c v2 => { c with wants_to_drop := some v2 }) (convRef WantsToDropItem.mk) v data.wants_to_drop) ∧
    AllNone (fun c => c.hunger_clock) (loadComp (fun c v2 => { c with wants_to_drop := some v2 }) (convRef WantsToDropItem.mk) v data.wants_to_drop) ∧
    AllNone (fun c => c.provides_food) (loadComp (fun c v2 => { c with wants_to_drop := some v2 }) (convRef WantsToDropItem.mk) v data.wants_to_drop) := by
  obtain ⟨hI2, hle2, hfr2, hklx⟩ := loadComp_struct (fun c v2 => { c with wants_to_drop := some v2 }) (convRef WantsToDropItem.mk) A A
    (fun c a => rfl) (convOK_ref A WantsToDropItem.mk) data.wants_to_drop _ hI hA
  have hfvk := loadComp_est (fun c v2 => { c with wants_to_drop := some v2 }) (fun c => c.wants_to_drop) (convRef WantsToDropItem.mk) A A
    (RRef WantsToDropItem.mk) (convOK_ref A WantsToDropItem.mk) (fun v2 b hIv hAb => rval_ref WantsToDropItem.mk v2 b hIv)
    (fun va vb a b hle h => RRef_mono WantsToDropItem.mk va vb a b hle h) (fun c a => rfl) (fun c a => rfl) (fun m => rfl)
    data.wants_to_drop _ hI hkeys hA hN21
  obtain ⟨hoF1, hnF1⟩ := loadComp_obs (fun c v2 => { c with wants_to_drop := some v2 }) (convRef WantsToDropItem.mk) (fun c => c.position) A A
    (fun c a => rfl) (convOK_ref A WantsToDropItem.mk) (fun c a => rfl) (fun m => rfl) data.wants_to_drop _ hI hA
  have hfv1b := FieldVals_mono (fun c => c.position) (RPure id) data.positions hle2
    (fun a b h => h)
    (fun e he hn => let ⟨m, h1, h2, _⟩ := hfr2 e he hn; ⟨m, h1, h2⟩)
    hoF1 hnF1 hkl1 hfv1
  have hkl1b := KeysLive_mono hle2 hkl1
  obtain ⟨hoF2, hnF2⟩ := loadComp_obs (fun c v2 => { c with wants_to_drop := some v2 }) (convRef WantsToDropItem.mk) (fun c => c.renderable) A A
    (fun c a => rfl) (convOK_ref A WantsToDropItem.mk) (fun c a => rfl) (fun m => rfl) data.wants_to_drop _ hI hA
  have hfv2b := FieldVals_mono (fun c => c.renderable) (RPure id) data.renderables hle2
    (fun a b h => h)
    (fun e he hn => let ⟨m, h1, h2, _⟩ := hfr2 e he hn; ⟨m, h1, h2⟩)
    hoF2 hnF2 hkl2 hfv2
  have hkl2b := KeysLive_mono hle2 hkl2
  obtain ⟨hoF3, hnF3⟩ := loadComp_obs (fun c v2 => { c with wants_to_drop := some v2 }) (convRef WantsToDropItem.mk) (fun c => c.player) A A
    (fun c a => rfl) (convOK_ref A WantsToDropItem.mk) (fun c a => rfl) (fun m => rfl) data.wants_to_drop _ hI hA
  have hfv3b := FieldVals_mono (fun c => c.player) (RPure id) data.players hle2
    (fun a b h => h)
    (fun e he hn => let ⟨m, h1, h2, _⟩ := hfr2 e he hn; ⟨m, h1, h2⟩)
    hoF3 hnF3 hkl3 hfv3
  have hkl3b := KeysLive_mono hle2 hkl3
  obtain ⟨hoF4, hnF4⟩ := loadComp_obs (fun c v2 => { c with wants_to_drop := some v2 }) (convRef WantsToDropItem.mk) (fun c => c.viewshed) A A
    (fun c a => rfl) (convOK_ref A WantsToDropItem.mk) (fun c a => rfl) (fun m => rfl) data.wants_to_drop _ hI hA
  have hfv4b := FieldVals_mono (fun c => c.viewshed) (RPure id) data.viewsheds hle2
    (fun a b h => h)
    (fun e he hn => let ⟨m, h1, h2, _⟩ := hfr2 e he hn; ⟨m, h1, h2⟩)
    hoF4 hnF4 hkl4 hfv4
  have hkl4b := KeysLive_mono hle2 hkl4
  obtain ⟨hoF5, hnF5⟩ := loadComp_obs (fun c v2 => { c with wants_to_drop := some v2 }) (convRef WantsToDropItem.mk) (fun c => c.monster) A A
    (fun c a => rfl) (convOK_ref A WantsToDropItem.mk) (fun c a => rfl) (fun m => rfl) data.wants_to_drop _ hI hA
  have hfv5b := FieldVals_mono (fun c => c.monster) (RPure id) data.monsters hle2
    (fun a b h => h)
    (fun e he hn => let ⟨m, h1, h2, _⟩ := hfr2 e he hn; ⟨m, h1, h2⟩)
    hoF5 hnF5 hkl5 hfv5
  have hkl5b := KeysLive_mono hle2 hkl5
  obtain ⟨hoF6, hnF6⟩ := loadComp_obs (fun c v2 => { c with wants_to_drop := some v2 }) (convRef WantsToDropItem.mk) (fun c => c.name) A A
    (fun c a => rfl) (convOK_ref A WantsToDropItem.mk) (fun c a => rfl) (fun m => rfl) data.wants_to_drop _ hI hA
  have hfv6b := FieldVals_mono (fun c => c.name) (RPure id) data.names hle2
    (fun a b h => h)
    (fun e he hn => let ⟨m, h1, h2, _⟩ := hfr2 e he hn; ⟨m, h1, h2⟩)
    hoF6 hnF6 hkl6 hfv6
  have hkl6b := KeysLive_mono hle2 hkl6
  obtain ⟨hoF7, hnF7⟩ := loadComp_obs (fun c v2 => { c with wants_to_drop := some v2 }) (convRef WantsToDropItem.mk) (fun c => c.blocks_tile) A A
    (fun c a => rfl) (convOK_ref A WantsToDropItem.mk) (fun c a => rfl) (fun m => rfl) data.wants_to_drop _ hI hA
  have hfv7b := FieldVals_mono (fun c => c.blocks_tile) (RPure id) data.blocks_tile hle2
    (fun a b h => h)
    (fun e he hn => let ⟨m, h1, h2, _⟩ := hfr2 e he hn; ⟨m, h1, h2⟩)
    hoF7 hnF7 hkl7 hfv7
  have hkl7b := KeysLive_mono hle2 hkl7
  obtain ⟨hoF8, hnF8⟩ := loadComp_obs (fun c v2 => { c with wants_to_drop := some v2 }) (convRef WantsToDropItem.mk) (fun c => c.combat_stats) A A
    (fun c a => rfl) (convOK_ref A WantsToDropItem.mk) (fun c a => rfl) (fun m => rfl) data.wants_to_drop _ hI hA
  have hfv8b := FieldVals_mono (fun c => c.combat_stats) (RPure id) data.combat_stats hle2
    (fun a b h => h)
    (fun e he hn => let ⟨m, h1, h2, _⟩ := hfr2 e he hn; ⟨m, h1, h2⟩)
    hoF8 hnF8 hkl8 hfv8
  have hkl8b := KeysLive_mono hle2 hkl8
  obtain ⟨hoF9, hnF9⟩ := loadComp_obs (fun c v2 => { c with wants_to_drop := some v2 }) (convRef WantsToDropItem.mk) (fun c => c.suffer_damage) A A
    (fun c a => rfl) (convOK_ref A WantsToDropItem.mk) (fun c a => rfl) (fun m => rfl) data.wants_to_drop _ hI hA
  have hfv9b := FieldVals_mono (fun c => c.suffer_damage) (RPure id) data.suffer_damage hle2
    (fun a b h => h)
    (fun e he hn => let ⟨m, h1, h2, _⟩ := hfr2 e he hn; ⟨m, h1, h2⟩)
    hoF9 hnF9 hkl9 hfv9
  have hkl9b := KeysLive_mono hle2 hkl9
  obtain ⟨hoF10, hnF10⟩ := loadComp_obs (fun c v2 => { c with wants_to_drop := some v2 }) (convRef WantsToDropItem.mk) (fun c => c.wants_melee) A A
    (fun c a => rfl) (convOK_ref A WantsToDropItem.mk) (fun c a => rfl) (fun m => rfl) data.wants_to_drop _ hI hA
  have hfv10b := FieldVals_mono (fun c => c.wants_melee) (RRef WantsToMelee.mk) data.wants_melee hle2
    (fun a b h => RRef_mono WantsToMelee.mk _ _ a b hle2 h)
    (fun e he hn => let ⟨m, h1, h2, _⟩ := hfr2 e he hn; ⟨m, h1, h2⟩)
    hoF10 hnF10 hkl10 hfv10
  have hkl10b := KeysLive_mono hle2 hkl10
  obtain ⟨hoF11, hnF11⟩ := loadComp_obs (fun c v2 => { c with wants_to_drop := some v2 }) (convRef WantsToDropItem.mk) (fun c => c.item) A A
    (fun c a => rfl) (convOK_ref A WantsToDropItem.mk) (fun c a => rfl) (fun m => rfl) data.wants_to_drop _ hI hA
  have hfv11b := FieldVals_mono (fun c => c.item) (RPure id) data.items hle2
    (fun a b h => h)
    (fun e he hn => let ⟨m, h1, h2, _⟩ := hfr2 e he hn; ⟨m, h1, h2⟩)
    hoF11 hnF11 hkl11 hfv11
  have hkl11b := KeysLive_mono hle2 hkl11
  obtain ⟨hoF12, hnF12⟩ := loadComp_obs (fun c v2 => { c with wants_to_drop := some v2 }) (convRef WantsToDropItem.mk) (fun c => c.consumable) A A
    (fun c a => rfl) (convOK_ref A WantsToDropItem.mk) (fun c a => rfl) (fun m => rfl) data.wants_to_drop _ hI hA
  have hfv12b := FieldVals_mono (fun c => c.consumable) (RPure id) data.consumables hle2
    (fun a b h => h)
    (fun e he hn => let ⟨m, h1, h2, _⟩ := hfr2 e he hn; ⟨m, h1, h2⟩)
    hoF12 hnF12 hkl12 hfv12
  have hkl12b := KeysLive_mono hle2 hkl12
  obtain ⟨hoF13, hnF13⟩ := loadComp_obs (fun c v2 => { c with wants_to_drop := some v2 }) (convRef WantsToDropItem.mk) (fun c => c.ranged) A A
    (fun c a => rfl) (convOK_ref A WantsToDropItem.mk) (fun c a => rfl) (fun m => rfl) data.wants_to_drop _ hI hA
  have hfv13b := FieldVals_mono (fun c => c.ranged) (RPure id) data.ranged hle2
    (fun a b h => h)
    (fun e he hn => let ⟨m, h1, h2, _⟩ := hfr2 e he hn; ⟨m, h1, h2⟩)
    hoF13 hnF13 hkl13 hfv13
  have hkl13b := KeysLive_mono hle2 hkl13
  obtain ⟨hoF14, hnF14⟩ := loadComp_obs (fun c v2 => { c with wants_to_drop := some v2 }) (convRef WantsToDropItem.mk) (fun c => c.inflicts_damage) A A
    (fun c a => rfl) (convOK_ref A WantsToDropItem.mk) (fun c a => rfl) (fun m => rfl) data.wants_to_drop _ hI hA
  have hfv14b := FieldVals_mono (fun c => c.inflicts_damage) (RPure id) data.inflicts_damage hle2
    (fun a b h => h)
    (fun e he hn => let ⟨m, h1, h2, _⟩ := hfr2 e he hn; ⟨m, h1, h2⟩)
    hoF14 hnF14 hkl14 hfv14
  have hkl14b := KeysLive_mono hle2 hkl14
  obtain ⟨hoF15, hnF15⟩ := loadComp_obs (fun c v2 => { c with wants_to_drop := some v2 }) (convRef WantsToDropItem.mk) (fun c => c.area_of_effect) A A
    (fun c a => rfl) (convOK_ref A WantsToDropItem.mk) (fun c a => rfl) (fun m => rfl) data.wants_to_drop _ hI hA
  have hfv15b := FieldVals_mono (fun c => c.area_of_effect) (RPure id) data.area_of_effect hle2
    (fun a b h => h)
    (fun e he hn => let ⟨m, h1, h2, _⟩ := hfr2 e he hn; ⟨m, h1, h2⟩)
    hoF15 hnF15 hkl15 hfv15
  have hkl15b := KeysLive_mono hle2 hkl15
  obtain ⟨hoF16, hnF16⟩ := loadComp_obs (fun c v2 => { c with wants_to_drop := some v2 }) (convRef WantsToDropItem.mk) (fun c => c.confusion) A A
    (fun c a => rfl) (convOK_ref A WantsToDropItem.mk) (fun c a => rfl) (fun m => rfl) data.wants_to_drop _ hI hA
  have hfv16b := FieldVals_mono (fun c => c.confusion) (RPure id) data.confusion hle2
    (fun a b h => h)
    (fun e he hn => let ⟨m, h1, h2, _⟩ := hfr2 e he hn; ⟨m, h1, h2⟩)
    hoF16 hnF16 hkl16 hfv16
  have hkl16b := KeysLive_mono hle2 hkl16
  obtain ⟨hoF17, hnF17⟩ := loadComp_obs (fun c v2 => { c with wants_to_drop := some v2 }) (convRef WantsToDropItem.mk) (fun c => c.provides_healing) A A
    (fun c a => rfl) (convOK_ref A WantsToDropItem.mk) (fun c a => rfl) (fun m => rfl) data.wants_to_drop _ hI hA
  have hfv17b := FieldVals_mono (fun c => c.provides_healing) (RPure id) data.provides_healing hle2
    (fun a b h => h)
    (fun e he hn => let ⟨m, h1, h2, _⟩ := hfr2 e he hn; ⟨m, h1, h2⟩)
    hoF17 hnF17 hkl17 hfv17
  have hkl17b := KeysLive_mono hle2 hkl17
  obtain ⟨hoF18, hnF18⟩ := loadComp_obs (fun c v2 => { c with wants_to_drop := some v2 }) (convRef WantsToDropItem.mk) (fun c => c.in_backpack) A A
    (fun c a => rfl) (convOK_ref A WantsToDropItem.mk) (fun c a => rfl) (fun m => rfl) data.wants_to_drop _ hI hA
  have hfv18b := FieldVals_mono (fun c => c.in_backpack) (RRef InBackpack.mk) data.in_backpack hle2
    (fun a b h => RRef_mono InBackpack.mk _ _ a b hle2 h)
    (fun e he hn => let ⟨m, h1, h2, _⟩ := hfr2 e he hn; ⟨m, h1, h2⟩)
    hoF18 hnF18 hkl18 hfv18
  have hkl18b := KeysLive_mono hle2 hkl18
  obtain ⟨hoF19, hnF19⟩ := loadComp_obs (fun c v2 => { c with wants_to_drop := some v2 }) (convRef WantsToDropItem.mk) (fun c => c.wants_to_pickup) A A
    (fun c a => rfl) (convOK_ref A WantsToDropItem.mk) (fun c a => rfl) (fun m => rfl) data.wants_to_drop _ hI hA
  have hfv19b := FieldVals_mono (fun c => c.wants_to_pickup) (RRef2 WantsToPickupItem.mk) data.wants_to_pickup hle2
    (fun a b h => RRef2_mono WantsToPickupItem.mk _ _ a b hle2 h)
    (fun e he hn => let ⟨m, h1, h2, _⟩ := hfr2 e he hn; ⟨m, h1, h2⟩)
    hoF19 hnF19 hkl19 hfv19
  have hkl19b := KeysLive_mono hle2 hkl19
  obtain ⟨hoF20, hnF20⟩ := loadComp_obs (fun c v2 => { c with wants_to_drop := some v2 }) (convRef WantsToDropItem.mk) (fun c => c.wants_to_use) A A
    (fun c a => rfl) (convOK_ref A WantsToDropItem.mk) (fun c a => rfl) (fun m => rfl) data.wants_to_drop _ hI hA
  have hfv20b := FieldVals_mono (fun c => c.wants_to_use) (RRefPair WantsToUseItem.mk) data.wants_to_use hle2
    (fun a b h => RRefPair_mono WantsToUseItem.mk _ _ a b hle2 h)
    (fun e he hn => let ⟨m, h1, h2, _⟩ := hfr2 e he hn; ⟨m, h1, h2⟩)
    hoF20 hnF20 hkl20 hfv20
  have hkl20b := KeysLive_mono hle2 hkl20
  obtain ⟨hoF22, hnF22⟩ := loadComp_obs (fun c v2 => { c with wants_to_drop := some v2 }) (convRef WantsToDropItem.mk) (fun c => c.serialization_helper) A A
    (fun c a => rfl) (convOK_ref A WantsToDropItem.mk) (fun c a => rfl) (fun m => rfl) data.wants_to_drop _ hI hA
  have hN22b := AllNone_mono (fun c => c.serialization_helper) _ _ hoF22 hnF22 hN22
  obtain ⟨hoF23, hnF23⟩ := loadComp_obs (fun c v2 => { c with wants_to_drop := some v2 }) (convRef WantsToDropItem.mk) (fun c => c.equippable) A A
    (fun c a => rfl) (convOK_ref A WantsToDropItem.mk) (fun c a => rfl) (fun m => rfl) data.wants_to_drop _ hI hA
  have hN23b := AllNone_mono (fun c => c.equippable) _ _ hoF23 hnF23 hN23
  obtain ⟨hoF24, hnF24⟩ := loadComp_obs (fun c v2 => { c with wants_to_drop := some v2 }) (convRef WantsToDropItem.mk) (fun c => c.equipped) A A
    (fun c a => rfl) (convOK_ref A WantsToDropItem.mk) (fun c a => rfl) (fun m => rfl) data.wants_to_drop _ hI hA
  have hN24b := AllNone_mono (fun c => c.equipped) _ _ hoF24 hnF24 hN24
  obtain ⟨hoF25, hnF25⟩ := loadComp_obs (fun c v2 => { c with wants_to_drop := some v2 }) (convRef WantsToDropItem.mk) (fun c => c.melee_power_bonus) A A
    (fun c a => rfl) (convOK_ref A WantsToDropItem.mk) (fun c a => rfl) (fun m => rfl) data.wants_to_drop _ hI hA
  have hN25b := AllNone_mono (fun c => c.melee_power_bonus) _ _ hoF25 hnF25 hN25
  obtain ⟨hoF26, hnF26⟩ := loadComp_obs (fun c v2 => { c with wants_to_drop := some v2 }) (convRef WantsToDropItem.mk) (fun c => c.defense_bonus) A A
    (fun c a => rfl) (convOK_ref A WantsToDropItem.mk) (fun c a => rfl) (fun m => rfl) data.wants_to_drop _ hI hA
  have hN26b := AllNone_mono (fun c => c.defense_bonus) _ _ hoF26 hnF26 hN26
  obtain ⟨hoF27, hnF27⟩ := loadComp_obs (fun c v2 => { c with wants_to_drop := some v2 }) (convRef WantsToDropItem.mk) (fun c => c.wants_to_remove) A A
    (fun c a => rfl) (convOK_ref A WantsToDropItem.mk) (fun c a => rfl) (fun m => rfl) data.wants_to_drop _ hI hA
  have hN27b := AllNone_mono (fun c => c.wants_to_remove) _ _ hoF27 hnF27 hN27
  obtain ⟨hoF28, hnF28⟩ := loadComp_obs (fun c v2 => { c with wants_to_drop := some v2 }) (convRef WantsToDropItem.mk) (fun c => c.particle_lifetime) A A
    (fun c a => rfl) (convOK_ref A WantsToDropItem.mk) (fun c a => rfl) (fun m => rfl) data.wants_to_drop _ hI hA
  have hN28b := AllNone_mono (fun c => c.particle_lifetime) _ _ hoF28 hnF28 hN28
  obtain ⟨hoF29, hnF29⟩ := loadComp_obs (fun c v2 => { c with wants_to_drop := some v2 }) (convRef WantsToDropItem.mk) (fun c => c.hunger_clock) A A
    (fun c a => rfl) (convOK_ref A WantsToDropItem.mk) (fun c a => rfl) (fun m => rfl) data.wants_to_drop _ hI hA
  have hN29b := AllNone_mono (fun c => c.hunger_clock) _ _ hoF29 hnF29 hN29
  obtain ⟨hoF30, hnF30⟩ := loadComp_obs (fun c v2 => { c with wants_to_drop := some v2 }) (convRef WantsToDropItem.mk) (fun c => c.provides_food) A A
    (fun c a => rfl) (convOK_ref A WantsToDropItem.mk) (fun c a => rfl) (fun m => rfl) data.wants_to_drop _ hI hA
  have hN30b := AllNone_mono (fun c => c.provides_food) _ _ hoF30 hnF30 hN30
  have hMb := MarksIn_mono hle2 (fun e he hn => let ⟨m, h1, _, h3⟩ := hfr2 e he hn; ⟨m, h1, h3⟩) hM
  exact ⟨hI2, hMb, hkl1b, hfv1b, hkl2b, hfv2b, hkl3b, hfv3b, hkl4b, hfv4b, hkl5b, hfv5b, hkl6b, hfv6b, hkl7b, hfv7b, hkl8b, hfv8b, hkl9b, hfv9b, hkl10b, hfv10b, hkl11b, hfv11b, hkl12b, hfv12b, hkl13b, hfv13b, hkl14b, hfv14b, hkl15b, hfv15b, hkl16b, hfv16b, hkl17b, hfv17b, hkl18b, hfv18b, hkl19b, hfv19b, hkl20b, hfv20b, hklx, hfvk, hN22b, hN23b, hN24b, hN25b, hN26b, hN27b, hN28b, hN29b, hN30b⟩

set_option maxHeartbeats 800000 in
/-- Deserialization pass 22 (serialization_helper): it establishes its own list facts
and preserves those of the earlier passes. -/
lemma loadStage22 (A : Nat → Prop) (data : SaveData) (v : World)
    (hI : LoadInv v)
    (hkeys : ((data.helpers).map Prod.fst).Nodup)
    (hA : ∀ p ∈ data.helpers, A p.1)
    (hM : MarksIn A v)
    (hkl1 : KeysLive data.positions v)
    (hfv1 : FieldVals (fun c => c.position) (RPure id) data.positions v)
    (hkl2 : KeysLive data.renderables v)
    (hfv2 : FieldVals (fun c => c.renderable) (RPure id) data.renderables v)
    (hkl3 : KeysLive data.players v)
    (hfv3 : FieldVals (fun c => c.player) (RPure id) data.players v)
    (hkl4 : KeysLive data.viewsheds v)
    (hfv4 : FieldVals (fun c => c.viewshed) (RPure id) data.viewsheds v)
    (hkl5 : KeysLive data.monsters v)
    (hfv5 : FieldVals (fun c => c.monster) (RPure id) data.monsters v)
    (hkl6 : KeysLive data.names v)
    (hfv6 : FieldVals (fun c => c.name) (RPure id) data.names v)
    (hkl7 : KeysLive data.blocks_tile v)
    (hfv7 : FieldVals (fun c => c.blocks_tile) (RPure id) data.blocks_tile v)
    (hkl8 : KeysLive data.combat_stats v)
    (hfv8 : FieldVals (fun c => c.combat_stats) (RPure id) data.combat_stats v)
    (hkl9 : KeysLive data.suffer_damage v)
    (hfv9 : FieldVals (fun c => c.suffer_damage) (RPure id) data.suffer_damage v)
    (hkl10 : KeysLive data.wants_melee v)
    (hfv10 : FieldVals (fun c => c.wants_melee) (RRef WantsToMelee.mk) data.wants_melee v)
    (hkl11 : KeysLive data.items v)
    (hfv11 : FieldVals (fun c => c.item) (RPure id) data.items v)
    (hkl12 : KeysLive data.consumables v)
    (hfv12 : FieldVals (fun c => c.consumable) (RPure id) data.consumables v)
    (hkl13 : KeysLive data.ranged v)
    (hfv13 : FieldVals (fun c => c.ranged) (RPure id) data.ranged v)
    (hkl14 : KeysLive data.inflicts_damage v)
    (hfv14 : FieldVals (fun c => c.inflicts_damage) (RPure id) data.inflicts_damage v)
    (hkl15 : KeysLive data.area_of_effect v)
    (hfv15 : FieldVals (fun c => c.area_of_effect) (RPure id) data.area_of_effect v)
    (hkl16 : KeysLive data.confusion v)
    (hfv16 : FieldVals (fun c => c.confusion) (RPure id) data.confusion v)
    (hkl17 : KeysLive data.provides_healing v)
    (hfv17 : FieldVals (fun c => c.provides_healing) (RPure id) data.provides_healing v)
    (hkl18 : KeysLive data.in_backpack v)
    (hfv18 : FieldVals (fun c => c.in_backpack) (RRef InBackpack.mk) data.in_backpack v)
    (hkl19 : KeysLive data.wants_to_pickup v)
    (hfv19 : FieldVals (fun c => c.wants_to_pickup) (RRef2 WantsToPickupItem.mk) data.wants_to_pickup v)
    (hkl20 : KeysLive data.wants_to_use v)
    (hfv20 : FieldVals (fun c => c.wants_to_use) (RRefPair WantsToUseItem.mk) data.wants_to_use v)
    (hkl21 : KeysLive data.wants_to_drop v)
    (hfv21 : FieldVals (fun c => c.wants_to_drop) (RRef WantsToDropItem.mk) data.wants_to_drop v)
    (hN22 : AllNone (fun c => c.serialization_helper) v)
    (hN23 : AllNone (fun c => c.equippable) v)
    (hN24 : AllNone (fun c => c.equipped) v)
    (hN25 : AllNone (fun c => c.melee_power_bonus) v)
    (hN26 : AllNone (fun c => c.defense_bonus) v)
    (hN27 : AllNone (fun c => c.wants_to_remove) v)
    (hN28 : AllNone (fun c => c.particle_lifetime) v)
    (hN29 : AllNone (fun c => c.hunger_clock) v)
    (hN30 : AllNone (fun c => c.provides_food) v)
    :
    LoadInv (loadComp (fun c v2 => { c with serialization_helper := some v2 }) (fun wld (h : HelperSave) => (wld, SerializationHelper.mk h.map.toMap h.game_log)) v data.helpers) ∧
    MarksIn A (loadComp (fun c v2 => { c with serialization_helper := some v2 }) (fun wld (h : HelperSave) => (wld, SerializationHelper.mk h.map.toMap h.game_log)) v data.helpers) ∧
    KeysLive data.positions (loadComp (fun c v2 => { c with serialization_helper := some v2 }) (fun wld (h : HelperSave) => (wld, SerializationHelper.mk h.map.toMap h.game_log)) v data.helpers) ∧
    FieldVals (fun c => c.position) (RPure id) data.positions (loadComp (fun c v2 => { c with serialization_helper := some v2 }) (fun wld (h : HelperSave) => (wld, SerializationHelper.mk h.map.toMap h.game_log)) v data.helpers) ∧
    KeysLive data.renderables (loadComp (fun c v2 => { c with serialization_helper := some v2 }) (fun wld (h : HelperSave) => (wld, SerializationHelper.mk h.map.toMap h.game_log)) v data.helpers) ∧
    FieldVals (fun c => c.renderable) (RPure id) data.renderables (loadComp (fun c v2 => { c with serialization_helper := some v2 }) (fun wld (h : HelperSave) => (wld, SerializationHelper.mk h.map.toMap h.game_log)) v data.helpers) ∧
    KeysLive data.players (loadComp (fun c v2 => { c with serialization_helper := some v2 }) (fun wld (h : HelperSave) => (wld, SerializationHelper.mk h.map.toMap h.game_log)) v data.helpers) ∧
    FieldVals (fun c => c.player) (RPure id) data.players (loadComp (fun c v2 => { c with serialization_helper := some v2 }) (fun wld (h : HelperSave) => (wld, SerializationHelper.mk h.map.toMap h.game_log)) v data.helpers) ∧
    KeysLive data.viewsheds (loadComp (fun c v2 => { c with serialization_helper := some v2 }) (fun wld (h : HelperSave) => (wld, SerializationHelper.mk h.map.toMap h.game_log)) v data.helpers) ∧
    FieldVals (fun c => c.viewshed) (RPure id) data.viewsheds (loadComp (fun c v2 => { c with serialization_helper := some v2 }) (fun wld (h : HelperSave) => (wld, SerializationHelper.mk h.map.toMap h.game_log)) v data.helpers) ∧
    KeysLive data.monsters (loadComp (fun c v2 => { c with serialization_helper := some v2 }) (fun wld (h : HelperSave) => (wld, SerializationHelper.mk h.map.toMap h.game_log)) v data.helpers) ∧
    FieldVals (fun c => c.monster) (RPure id) data.monsters (loadComp (fun c v2 => { c with serialization_helper := some v2 }) (fun wld (h : HelperSave) => (wld, SerializationHelper.mk h.map.toMap h.game_log)) v data.helpers) ∧
    KeysLive data.names (loadComp (fun c v2 => { c with serialization_helper := some v2 }) (fun wld (h : HelperSave) => (wld, SerializationHelper.mk h.map.toMap h.game_log)) v data.helpers) ∧
    FieldVals (fun c => c.name) (RPure id) data.names (loadComp (fun c v2 => { c with serialization_helper := some v2 }) (fun wld (h : HelperSave) => (wld, SerializationHelper.mk h.map.toMap h.game_log)) v data.helpers) ∧
    KeysLive data.blocks_tile (loadComp (fun c v2 => { c with serialization_helper := some v2 }) (fun wld (h : HelperSave) => (wld, SerializationHelper.mk h.map.toMap h.game_log)) v data.helpers) ∧
    FieldVals (fun c => c.blocks_tile) (RPure id) data.blocks_tile (loadComp (fun c v2 => { c with serialization_helper := some v2 }) (fun wld (h : HelperSave) => (wld, SerializationHelper.mk h.map.toMap h.game_log)) v data.helpers) ∧
    KeysLive data.combat_stats (loadComp (fun c v2 => { c with serialization_helper := some v2 }) (fun wld (h : HelperSave) => (wld, SerializationHelper.mk h.map.toMap h.game_log)) v data.helpers) ∧
    FieldVals (fun c => c.combat_stats) (RPure id) data.combat_stats (loadComp (fun c v2 => { c with serialization_helper := some v2 }) (fun wld (h : HelperSave) => (wld, SerializationHelper.mk h.map.toMap h.game_log)) v data.helpers) ∧
    KeysLive data.suffer_damage (loadComp (fun c v2 => { c with serialization_helper := some v2 }) (fun wld (h : HelperSave) => (wld, SerializationHelper.mk h.map.toMap h.game_log)) v data.helpers) ∧
    FieldVals (fun c => c.suffer_damage) (RPure id) data.suffer_damage (loadComp (fun c v2 => { c with serialization_helper := some v2 }) (fun wld (h : HelperSave) => (wld, SerializationHelper.mk h.map.toMap h.game_log)) v data.helpers) ∧
    KeysLive data.wants_melee (loadComp (fun c v2 => { c with serialization_helper := some v2 }) (fun wld (h : HelperSave) => (wld, SerializationHelper.mk h.map.toMap h.game_log)) v data.helpers) ∧
    FieldVals (fun c => c.wants_melee) (RRef WantsToMelee.mk) data.wants_melee (loadComp (fun c v2 => { c with serialization_helper := some v2 }) (fun wld (h : HelperSave) => (wld, SerializationHelper.mk h.map.toMap h.game_log)) v data.helpers) ∧
    KeysLive data.items (loadComp (fun c v2 => { c with serialization_helper := some v2 }) (fun wld (h : HelperSave) => (wld, SerializationHelper.mk h.map.toMap h.game_log)) v data.helpers) ∧
    FieldVals (fun c => c.item) (RPure id) data.items (loadComp (fun c v2 => { c with serialization_helper := some v2 }) (fun wld (h : HelperSave) => (wld, SerializationHelper.mk h.map.toMap h.game_log)) v data.helpers) ∧
    KeysLive data.consumables (loadComp (fun c v2 => { c with serialization_helper := some v2 }) (fun wld (h : HelperSave) => (wld, SerializationHelper.mk h.map.toMap h.game_log)) v data.helpers) ∧
    FieldVals (fun c => c.consumable) (RPure id) data.consumables (loadComp (fun c v2 => { c with serialization_helper := some v2 }) (fun wld (h : HelperSave) => (wld, SerializationHelper.mk h.map.toMap h.game_log)) v data.helpers) ∧
    KeysLive data.ranged (loadComp (fun c v2 => { c with serialization_helper := some v2 }) (fun wld (h : HelperSave) => (wld, SerializationHelper.mk h.map.toMap h.game_log)) v data.helpers) ∧
    FieldVals (fun c => c.ranged) (RPure id) data.ranged (loadComp (fun c v2 => { c with serialization_helper := some v2 }) (fun wld (h : HelperSave) => (wld, SerializationHelper.mk h.map.toMap h.game_log)) v data.helpers) ∧
    KeysLive data.inflicts_damage (loadComp (fun c v2 => { c with serialization_helper := some v2 }) (fun wld (h : HelperSave) => (wld, SerializationHelper.mk h.map.toMap h.game_log)) v data.helpers) ∧
    FieldVals (fun c => c.inflicts_damage) (RPure id) data.inflicts_damage (loadComp (fun c v2 => { c with serialization_helper := some v2 }) (fun wld (h : HelperSave) => (wld, SerializationHelper.mk h.map.toMap h.game_log)) v data.helpers) ∧
    KeysLive data.area_of_effect (loadComp (fun c v2 => { c with serialization_helper := some v2 }) (fun wld (h : HelperSave) => (wld, SerializationHelper.mk h.map.toMap h.game_log)) v data.helpers) ∧
    FieldVals (fun c => c.area_of_effect) (RPure id) data.area_of_effect (loadComp (fun c v2 => { c with serialization_helper := some v2 }) (fun wld (h : HelperSave) => (wld, SerializationHelper.mk h.map.toMap h.game_log)) v data.helpers) ∧
    KeysLive data.confusion (loadComp (fun c v2 => { c with serialization_helper := some v2 }) (fun wld (h : HelperSave) => (wld, SerializationHelper.mk h.map.toMap h.game_log)) v data.helpers) ∧
    FieldVals (fun c => c.confusion) (RPure id) data.confusion (loadComp (fun c v2 => { c with serialization_helper := some v2 }) (fun wld (h : HelperSave) => (wld, SerializationHelper.mk h.map.toMap h.game_log)) v data.helpers) ∧
    KeysLive data.provides_healing (loadComp (fun c v2 => { c with serialization_helper := some v2 }) (fun wld (h : HelperSave) => (wld, SerializationHelper.mk h.map.toMap h.game_log)) v data.helpers) ∧
    FieldVals (fun c => c.provides_healing) (RPure id) data.provides_healing (loadComp (fun c v2 => { c with serialization_helper := some v2 }) (fun wld (h : HelperSave) => (wld, SerializationHelper.mk h.map.toMap h.game_log)) v data.helpers) ∧
    KeysLive data.in_backpack (loadComp (fun c v2 => { c with serialization_helper := some v2 }) (fun wld (h : HelperSave) => (wld, SerializationHelper.mk h.map.toMap h.game_log)) v data.helpers) ∧
    FieldVals (fun c => c.in_backpack) (RRef InBackpack.mk) data.in_backpack (loadComp (fun c v2 => { c with serialization_helper := some v2 }) (fun wld (h : HelperSave) => (wld, SerializationHelper.mk h.map.toMap h.game_log)) v data.helpers) ∧
    KeysLive data.wants_to_pickup (loadComp (fun c v2 => { c with serialization_helper := some v2 }) (fun wld (h : HelperSave) => (wld, SerializationHelper.mk h.map.toMap h.game_log)) v data.helpers) ∧
    FieldVals (fun c => c.wants_to_pickup) (RRef2 WantsToPickupItem.mk) data.wants_to_pickup (loadComp (fun c v2 => { c with serialization_helper := some v2 }) (fun wld (h : HelperSave) => (wld, SerializationHelper.mk h.map.toMap h.game_log)) v data.helpers) ∧
    KeysLive data.wants_to_use (loadComp (fun c v2 => { c with serialization_helper := some v2 }) (fun wld (h : HelperSave) => (wld, SerializationHelper.mk h.map.toMap h.game_log)) v data.helpers) ∧
    FieldVals (fun c => c.wants_to_use) (RRefPair WantsToUseItem.mk) data.wants_to_use (loadComp (fun c v2 => { c with serialization_helper := some v2 }) (fun wld (h : HelperSave) => (wld, SerializationHelper.mk h.map.toMap h.game_log)) v data.helpers) ∧
    KeysLive data.wants_to_drop (loadComp (fun c v2 => { c with serialization_helper := some v2 }) (fun wld (h : HelperSave) => (wld, SerializationHelper.mk h.map.toMap h.game_log)) v data.helpers) ∧
    FieldVals (fun c => c.wants_to_drop) (RRef WantsToDropItem.mk) data.wants_to_drop (loadComp (fun c v2 => { c with serialization_helper := some v2 }) (fun wld (h : HelperSave) => (wld, SerializationHelper.mk h.map.toMap h.game_log)) v data.helpers) ∧
    KeysLive data.helpers (loadComp (fun c v2 => { c with serialization_helper := some v2 }) (fun wld (h : HelperSave) => (wld, SerializationHelper.mk h.map.toMap h.game_log)) v data.helpers) ∧
    FieldVals (fun c => c.serialization_helper) (RPure (fun (h : HelperSave) => SerializationHelper.mk h.map.toMap h.game_log)) data.helpers (loadComp (fun c v2 => { c with serialization_helper := some v2 }) (fun wld (h : HelperSave) => (wld, SerializationHelper.mk h.map.toMap h.game_log)) v data.helpers) ∧
    AllNone (fun c => c.equippable) (loadComp (fun c v2 => { c with serialization_helper := some v2 }) (fun wld (h : HelperSave) => (wld, SerializationHelper.mk h.map.toMap h.game_log)) v data.helpers) ∧
    AllNone (fun c => c.equipped) (loadComp (fun c v2 => { c with serialization_helper := some v2 }) (fun wld (h : HelperSave) => (wld, SerializationHelper.mk h.map.toMap h.game_log)) v data.helpers) ∧
    AllNone (fun c => c.melee_power_bonus) (loadComp (fun c v2 => { c with serialization_helper := some v2 }) (fun wld (h : HelperSave) => (wld, SerializationHelper.mk h.map.toMap h.game_log)) v data.helpers) ∧
    AllNone (fun c => c.defense_bonus) (loadComp (fun c v2 => { c with serialization_helper := some v2 }) (fun wld (h : HelperSave) => (wld, SerializationHelper.mk h.map.toMap h.game_log)) v data.helpers) ∧
    AllNone (fun c => c.wants_to_remove) (loadComp (fun c v2 => { c with serialization_helper := some v2 }) (fun wld (h : HelperSave) => (wld, SerializationHelper.mk h.map.toMap h.game_log)) v data.helpers) ∧
    AllNone (fun c => c.particle_lifetime) (loadComp (fun c v2 => { c with serialization_helper := some v2 }) (fun wld (h : HelperSave) => (wld, SerializationHelper.mk h.map.toMap h.game_log)) v data.helpers) ∧
    AllNone (fun c => c.hunger_clock) (loadComp (fun c v2 => { c with serialization_helper := some v2 }) (fun wld (h : HelperSave) => (wld, SerializationHelper.mk h.map.toMap h.game_log)) v data.helpers) ∧
    AllNone (fun c => c.provides_food) (loadComp (fun c v2 => { c with serialization_helper := some v2 }) (fun wld (h : HelperSave) => (wld, SerializationHelper.mk h.map.toMap h.game_log)) v data.helpers) := by
  obtain ⟨hI2, hle2, hfr2, hklx⟩ := loadComp_struct (fun c v2 => { c with serialization_helper := some v2 }) (fun wld (h : HelperSave) => (wld, SerializationHelper.mk h.map.toMap h.game_log)) A (fun _ => True)
    (fun c a => rfl) (convOK_mapF A (fun (h : HelperSave) => SerializationHelper.mk h.map.toMap h.game_log)) data.helpers _ hI (fun p hp => ⟨hA p hp, trivial⟩)
  have hfvk := loadComp_est (fun c v2 => { c with serialization_helper := some v2 }) (fun c => c.serialization_helper) (fun wld (h : HelperSave) => (wld, SerializationHelper.mk h.map.toMap h.game_log)) A (fun _ => True)
    (RPure (fun (h : HelperSave) => SerializationHelper.mk h.map.toMap h.game_log)) (convOK_mapF A (fun (h : HelperSave) => SerializationHelper.mk h.map.toMap h.game_log)) (fun v2 b hIv hAb => rfl)
    (fun va vb a b hle h => h) (fun c a => rfl) (fun c a => rfl) (fun m => rfl)
    data.helpers _ hI hkeys (fun p hp => ⟨hA p hp, trivial⟩) hN22
  obtain ⟨hoF1, hnF1⟩ := loadComp_obs (fun c v2 => { c with serialization_helper := some v2 }) (fun wld (h : HelperSave) => (wld, SerializationHelper.mk h.map.toMap h.game_log)) (fun c => c.position) A (fun _ => True)
    (fun c a => rfl) (convOK_mapF A (fun (h : HelperSave) => SerializationHelper.mk h.map.toMap h.game_log)) (fun c a => rfl) (fun m => rfl) data.helpers _ hI (fun p hp => ⟨hA p hp, trivial⟩)
  have hfv1b := FieldVals_mono (fun c => c.position) (RPure id) data.positions hle2
    (fun a b h => h)
    (fun e he hn => let ⟨m, h1, h2, _⟩ := hfr2 e he hn; ⟨m, h1, h2⟩)
    hoF1 hnF1 hkl1 hfv1
  have hkl1b := KeysLive_mono hle2 hkl1
  obtain ⟨hoF2, hnF2⟩ := loadComp_obs (fun c v2 => { c with serialization_helper := some v2 }) (fun wld (h : HelperSave) => (wld, SerializationHelper.mk h.map.toMap h.game_log)) (fun c => c.renderable) A (fun _ => True)
    (fun c a => rfl) (convOK_mapF A (fun (h : HelperSave) => SerializationHelper.mk h.map.toMap h.game_log)) (fun c a => rfl) (fun m => rfl) data.helpers _ hI (fun p hp => ⟨hA p hp, trivial⟩)
  have hfv2b := FieldVals_mono (fun c => c.renderable) (RPure id) data.renderables hle2
    (fun a b h => h)
    (fun e he hn => let ⟨m, h1, h2, _⟩ := hfr2 e he hn; ⟨m, h1, h2⟩)
    hoF2 hnF2 hkl2 hfv2
  have hkl2b := KeysLive_mono hle2 hkl2
  obtain ⟨hoF3, hnF3⟩ := loadComp_obs (fun c v2 => { c with serialization_helper := some v2 }) (fun wld (h : HelperSave) => (wld, SerializationHelper.mk h.map.toMap h.game_log)) (fun c => c.player) A (fun _ => True)
    (fun c a => rfl) (convOK_mapF A (fun (h : HelperSave) => SerializationHelper.mk h.map.toMap h.game_log)) (fun c a => rfl) (fun m => rfl) data.helpers _ hI (fun p hp => ⟨hA p hp, trivial⟩)
  have hfv3b := FieldVals_mono (fun c => c.player) (RPure id) data.players hle2
    (fun a b h => h)
    (fun e he hn => let ⟨m, h1, h2, _⟩ := hfr2 e he hn; ⟨m, h1, h2⟩)
    hoF3 hnF3 hkl3 hfv3
  have hkl3b := KeysLive_mono hle2 hkl3
  obtain ⟨hoF4, hnF4⟩ := loadComp_obs (fun c v2 => { c with serialization_helper := some v2 }) (fun wld (h : HelperSave) => (wld, SerializationHelper.mk h.map.toMap h.game_log)) (fun c => c.viewshed) A (fun _ => True)
    (fun c a => rfl) (convOK_mapF A (fun (h : HelperSave) => SerializationHelper.mk h.map.toMap h.game_log)) (fun c a => rfl) (fun m => rfl) data.helpers _ hI (fun p hp => ⟨hA p hp, trivial⟩)
  have hfv4b := FieldVals_mono (fun c => c.viewshed) (RPure id) data.viewsheds hle2
    (fun a b h => h)
    (fun e he hn => let ⟨m, h1, h2, _⟩ := hfr2 e he hn; ⟨m, h1, h2⟩)
    hoF4 hnF4 hkl4 hfv4
  have hkl4b := KeysLive_mono hle2 hkl4
  obtain ⟨hoF5, hnF5⟩ := loadComp_obs (fun c v2 => { c with serialization_helper := some v2 }) (fun wld (h : HelperSave) => (wld, SerializationHelper.mk h.map.toMap h.game_log)) (fun c => c.monster) A (fun _ => True)
    (fun c a => rfl) (convOK_mapF A (fun (h : HelperSave) => SerializationHelper.mk h.map.toMap h.game_log)) (fun c a => rfl) (fun m => rfl) data.helpers _ hI (fun p hp => ⟨hA p hp, trivial⟩)
  have hfv5b := FieldVals_mono (fun c => c.monster) (RPure id) data.monsters hle2
    (fun a b h => h)
    (fun e he hn => let ⟨m, h1, h2, _⟩ := hfr2 e he hn; ⟨m, h1, h2⟩)
    hoF5 hnF5 hkl5 hfv5
  have hkl5b := KeysLive_mono hle2 hkl5
  obtain ⟨hoF6, hnF6⟩ := loadComp_obs (fun c v2 => { c with serialization_helper := some v2 }) (fun wld (h : HelperSave) => (wld, SerializationHelper.mk h.map.toMap h.game_log)) (fun c => c.name) A (fun _ => True)
    (fun c a => rfl) (convOK_mapF A (fun (h : HelperSave) => SerializationHelper.mk h.map.toMap h.game_log)) (fun c a => rfl) (fun m => rfl) data.helpers _ hI (fun p hp => ⟨hA p hp, trivial⟩)
  have hfv6b := FieldVals_mono (fun c => c.name) (RPure id) data.names hle2
    (fun a b h => h)
    (fun e he hn => let ⟨m, h1, h2, _⟩ := hfr2 e he hn; ⟨m, h1, h2⟩)
    hoF6 hnF6 hkl6 hfv6
  have hkl6b := KeysLive_mono hle2 hkl6
  obtain ⟨hoF7, hnF7⟩ := loadComp_obs (fun c v2 => { c with serialization_helper := some v2 }) (fun wld (h : HelperSave) => (wld, SerializationHelper.mk h.map.toMap h.game_log)) (fun c => c.blocks_tile) A (fun _ => True)
    (fun c a => rfl) (convOK_mapF A (fun (h : HelperSave) => SerializationHelper.mk h.map.toMap h.game_log)) (fun c a => rfl) (fun m => rfl) data.helpers _ hI (fun p hp => ⟨hA p hp, trivial⟩)
  have hfv7b := FieldVals_mono (fun c => c.blocks_tile) (RPure id) data.blocks_tile hle2
    (fun a b h => h)
    (fun e he hn => let ⟨m, h1, h2, _⟩ := hfr2 e he hn; ⟨m, h1, h2⟩)
    hoF7 hnF7 hkl7 hfv7
  have hkl7b := KeysLive_mono hle2 hkl7
  obtain ⟨hoF8, hnF8⟩ := loadComp_obs (fun c v2 => { c with serialization_helper := some v2 }) (fun wld (h : HelperSave) => (wld, SerializationHelper.mk h.map.toMap h.game_log)) (fun c => c.combat_stats) A (fun _ => True)
    (fun c a => rfl) (convOK_mapF A (fun (h : HelperSave) => SerializationHelper.mk h.map.toMap h.game_log)) (fun c a => rfl) (fun m => rfl) data.helpers _ hI (fun p hp => ⟨hA p hp, trivial⟩)
  have hfv8b := FieldVals_mono (fun c => c.combat_stats) (RPure id) data.combat_stats hle2
    (fun a b h => h)
    (fun e he hn => let ⟨m, h1, h2, _⟩ := hfr2 e he hn; ⟨m, h1, h2⟩)
    hoF8 hnF8 hkl8 hfv8
  have hkl8b := KeysLive_mono hle2 hkl8
  obtain ⟨hoF9, hnF9⟩ := loadComp_obs (fun c v2 => { c with serialization_helper := some v2 }) (fun wld (h : HelperSave) => (wld, SerializationHelper.mk h.map.toMap h.game_log)) (fun c => c.suffer_damage) A (fun _ => True)
    (fun c a => rfl) (convOK_mapF A (fun (h : HelperSave) => SerializationHelper.mk h.map.toMap h.game_log)) (fun c a => rfl) (fun m => rfl) data.helpers _ hI (fun p hp => ⟨hA p hp, trivial⟩)
  have hfv9b := FieldVals_mono (fun c => c.suffer_damage) (RPure id) data.suffer_damage hle2
    (fun a b h => h)
    (fun e he hn => let ⟨m, h1, h2, _⟩ := hfr2 e he hn; ⟨m, h1, h2⟩)
    hoF9 hnF9 hkl9 hfv9
  have hkl9b := KeysLive_mono hle2 hkl9
  obtain ⟨hoF10, hnF10⟩ := loadComp_obs (fun c v2 => { c with serialization_helper := some v2 }) (fun wld (h : HelperSave) => (wld, SerializationHelper.mk h.map.toMap h.game_log)) (fun c => c.wants_melee) A (fun _ => True)
    (fun c a => rfl) (convOK_mapF A (fun (h : HelperSave) => SerializationHelper.mk h.map.toMap h.game_log)) (fun c a => rfl) (fun m => rfl) data.helpers _ hI (fun p hp => ⟨hA p hp, trivial⟩)
  have hfv10b := FieldVals_mono (fun c => c.wants_melee) (RRef WantsToMelee.mk) data.wants_melee hle2
    (fun a b h => RRef_mono WantsToMelee.mk _ _ a b hle2 h)
    (fun e he hn => let ⟨m, h1, h2, _⟩ := hfr2 e he hn; ⟨m, h1, h2⟩)
    hoF10 hnF10 hkl10 hfv10
  have hkl10b := KeysLive_mono hle2 hkl10
  obtain ⟨hoF11, hnF11⟩ := loadComp_obs (fun c v2 => { c with serialization_helper := some v2 }) (fun wld (h : HelperSave) => (wld, SerializationHelper.mk h.map.toMap h.game_log)) (fun c => c.item) A (fun _ => True)
    (fun c a => rfl) (convOK_mapF A (fun (h : HelperSave) => SerializationHelper.mk h.map.toMap h.game_log)) (fun c a => rfl) (fun m => rfl) data.helpers _ hI (fun p hp => ⟨hA p hp, trivial⟩)
  have hfv11b := FieldVals_mono (fun c => c.item) (RPure id) data.items hle2
    (fun a b h => h)
    (fun e he hn => let ⟨m, h1, h2, _⟩ := hfr2 e he hn; ⟨m, h1, h2⟩)
    hoF11 hnF11 hkl11 hfv11
  have hkl11b := KeysLive_mono hle2 hkl11
  obtain ⟨hoF12, hnF12⟩ := loadComp_obs (fun c v2 => { c with serialization_helper := some v2 }) (fun wld (h : HelperSave) => (wld, SerializationHelper.mk h.map.toMap h.game_log)) (fun c => c.consumable) A (fun _ => True)
    (fun c a => rfl) (convOK_mapF A (fun (h : HelperSave) => SerializationHelper.mk h.map.toMap h.game_log)) (fun c a => rfl) (fun m => rfl) data.helpers _ hI (fun p hp => ⟨hA p hp, trivial⟩)
  have hfv12b := FieldVals_mono (fun c => c.consumable) (RPure id) data.consumables hle2
    (fun a b h => h)
    (fun e he hn => let ⟨m, h1, h2, _⟩ := hfr2 e he hn; ⟨m, h1, h2⟩)
    hoF12 hnF12 hkl12 hfv12
  have hkl12b := KeysLive_mono hle2 hkl12
  obtain ⟨hoF13, hnF13⟩ := loadComp_obs (fun c v2 => { c with serialization_helper := some v2 }) (fun wld (h : HelperSave) => (wld, SerializationHelper.mk h.map.toMap h.game_log)) (fun c => c.ranged) A (fun _ => True)
    (fun c a => rfl) (convOK_mapF A (fun (h : HelperSave) => SerializationHelper.mk h.map.toMap h.game_log)) (fun c a => rfl) (fun m => rfl) data.helpers _ hI (fun p hp => ⟨hA p hp, trivial⟩)
  have hfv13b := FieldVals_mono (fun c => c.ranged) (RPure id) data.ranged hle2
    (fun a b h => h)
    (fun e he hn => let ⟨m, h1, h2, _⟩ := hfr2 e he hn; ⟨m, h1, h2⟩)
    hoF13 hnF13 hkl13 hfv13
  have hkl13b := KeysLive_mono hle2 hkl13
  obtain ⟨hoF14, hnF14⟩ := loadComp_obs (fun c v2 => { c with serialization_helper := some v2 }) (fun wld (h : HelperSave) => (wld, SerializationHelper.mk h.map.toMap h.game_log)) (fun c => c.inflicts_damage) A (fun _ => True)
    (fun c a => rfl) (convOK_mapF A (fun (h : HelperSave) => SerializationHelper.mk h.map.toMap h.game_log)) (fun c a => rfl) (fun m => rfl) data.helpers _ hI (fun p hp => ⟨hA p hp, trivial⟩)
  have hfv14b := FieldVals_mono (fun c => c.inflicts_damage) (RPure id) data.inflicts_damage hle2
    (fun a b h => h)
    (fun e he hn => let ⟨m, h1, h2, _⟩ := hfr2 e he hn; ⟨m, h1, h2⟩)
    hoF14 hnF14 hkl14 hfv14
  have hkl14b := KeysLive_mono hle2 hkl14
  obtain ⟨hoF15, hnF15⟩ := loadComp_obs (fun c v2 => { c with serialization_helper := some v2 }) (fun wld (h : HelperSave) => (wld, SerializationHelper.mk h.map.toMap h.game_log)) (fun c => c.area_of_effect) A (fun _ => True)
    (fun c a => rfl) (convOK_mapF A (fun (h : HelperSave) => SerializationHelper.mk h.map.toMap h.game_log)) (fun c a => rfl) (fun m => rfl) data.helpers _ hI (fun p hp => ⟨hA p hp, trivial⟩)
  have hfv15b := FieldVals_mono (fun c => c.area_of_effect) (RPure id) data.area_of_effect hle2
    (fun a b h => h)
    (fun e he hn => let ⟨m, h1, h2, _⟩ := hfr2 e he hn; ⟨m, h1, h2⟩)
    hoF15 hnF15 hkl15 hfv15
  have hkl15b := KeysLive_mono hle2 hkl15
  obtain ⟨hoF16, hnF16⟩ := loadComp_obs (fun c v2 => { c with serialization_helper := some v2 }) (fun wld (h : HelperSave) => (wld, SerializationHelper.mk h.map.toMap h.game_log)) (fun c => c.confusion) A (fun _ => True)
    (fun c a => rfl) (convOK_mapF A (fun (h : HelperSave) => SerializationHelper.mk h.map.toMap h.game_log)) (fun c a => rfl) (fun m => rfl) data.helpers _ hI (fun p hp => ⟨hA p hp, trivial⟩)
  have hfv16b := FieldVals_mono (fun c => c.confusion) (RPure id) data.confusion hle2
    (fun a b h => h)
    (fun e he hn => let ⟨m, h1, h2, _⟩ := hfr2 e he hn; ⟨m, h1, h2⟩)
    hoF16 hnF16 hkl16 hfv16
  have hkl16b := KeysLive_mono hle2 hkl16
  obtain ⟨hoF17, hnF17⟩ := loadComp_obs (fun c v2 => { c with serialization_helper := some v2 }) (fun wld (h : HelperSave) => (wld, SerializationHelper.mk h.map.toMap h.game_log)) (fun c => c.provides_healing) A (fun _ => True)
    (fun c a => rfl) (convOK_mapF A (fun (h : HelperSave) => SerializationHelper.mk h.map.toMap h.game_log)) (fun c a => rfl) (fun m => rfl) data.helpers _ hI (fun p hp => ⟨hA p hp, trivial⟩)
  have hfv17b := FieldVals_mono (fun c => c.provides_healing) (RPure id) data.provides_healing hle2
    (fun a b h => h)
    (fun e he hn => let ⟨m, h1, h2, _⟩ := hfr2 e he hn; ⟨m, h1, h2⟩)
    hoF17 hnF17 hkl17 hfv17
  have hkl17b := KeysLive_mono hle2 hkl17
  obtain ⟨hoF18, hnF18⟩ := loadComp_obs (fun c v2 => { c with serialization_helper := some v2 }) (fun wld (h : HelperSave) => (wld, SerializationHelper.mk h.map.toMap h.game_log)) (fun c => c.in_backpack) A (fun _ => True)
    (fun c a => rfl) (convOK_mapF A (fun (h : HelperSave) => SerializationHelper.mk h.map.toMap h.game_log)) (fun c a => rfl) (fun m => rfl) data.helpers _ hI (fun p hp => ⟨hA p hp, trivial⟩)
  have hfv18b := FieldVals_mono (fun c => c.in_backpack) (RRef InBackpack.mk) data.in_backpack hle2
    (fun a b h => RRef_mono InBackpack.mk _ _ a b hle2 h)
    (fun e he hn => let ⟨m, h1, h2, _⟩ := hfr2 e he hn; ⟨m, h1, h2⟩)
    hoF18 hnF18 hkl18 hfv18
  have hkl18b := KeysLive_mono hle2 hkl18
  obtain ⟨hoF19, hnF19⟩ := loadComp_obs (fun c v2 => { c with serialization_helper := some v2 }) (fun wld (h : HelperSave) => (wld, SerializationHelper.mk h.map.toMap h.game_log)) (fun c => c.wants_to_pickup) A (fun _ => True)
    (fun c a => rfl) (convOK_mapF A (fun (h : HelperSave) => SerializationHelper.mk h.map.toMap h.game_log)) (fun c a => rfl) (fun m => rfl) data.helpers _ hI (fun p hp => ⟨hA p hp, trivial⟩)
  have hfv19b := FieldVals_mono (fun c => c.wants_to_pickup) (RRef2 WantsToPickupItem.mk) data.wants_to_pickup hle2
    (fun a b h => RRef2_mono WantsToPickupItem.mk _ _ a b hle2 h)
    (fun e he hn => let ⟨m, h1, h2, _⟩ := hfr2 e he hn; ⟨m, h1, h2⟩)
    hoF19 hnF19 hkl19 hfv19
  have hkl19b := KeysLive_mono hle2 hkl19
  obtain ⟨hoF20, hnF20⟩ := loadComp_obs (fun c v2 => { c with serialization_helper := some v2 }) (fun wld (h : HelperSave) => (wld, SerializationHelper.mk h.map.toMap h.game_log)) (fun c => c.wants_to_use) A (fun _ => True)
    (fun c a => rfl) (convOK_mapF A (fun (h : HelperSave) => SerializationHelper.mk h.map.toMap h.game_log)) (fun c a => rfl) (fun m => rfl) data.helpers _ hI (fun p hp => ⟨hA p hp, trivial⟩)
  have hfv20b := FieldVals_mono (fun c => c.wants_to_use) (RRefPair WantsToUseItem.mk) data.wants_to_use hle2
    (fun a b h => RRefPair_mono WantsToUseItem.mk _ _ a b hle2 h)
    (fun e he hn => let ⟨m, h1, h2, _⟩ := hfr2 e he hn; ⟨m, h1, h2⟩)
    hoF20 hnF20 hkl20 hfv20
  have hkl20b := KeysLive_mono hle2 hkl20
  obtain ⟨hoF21, hnF21⟩ := loadComp_obs (fun c v2 => { c with serialization_helper := some v2 }) (fun wld (h : HelperSave) => (wld, SerializationHelper.mk h.map.toMap h.game_log)) (fun c => c.wants_to_drop) A (fun _ => True)
    (fun c a => rfl) (convOK_mapF A (fun (h : HelperSave) => SerializationHelper.mk h.map.toMap h.game_log)) (fun c a => rfl) (fun m => rfl) data.helpers _ hI (fun p hp => ⟨hA p hp, trivial⟩)
  have hfv21b := FieldVals_mono (fun c => c.wants_to_drop) (RRef WantsToDropItem.mk) data.wants_to_drop hle2
    (fun a b h => RRef_mono WantsToDropItem.mk _ _ a b hle2 h)
    (fun e he hn => let ⟨m, h1, h2, _⟩ := hfr2 e he hn; ⟨m, h1, h2⟩)
    hoF21 hnF21 hkl21 hfv21
  have hkl21b := KeysLive_mono hle2 hkl21
  obtain ⟨hoF23, hnF23⟩ := loadComp_obs (fun c v2 => { c with serialization_helper := some v2 }) (fun wld (h : HelperSave) => (wld, SerializationHelper.mk h.map.toMap h.game_log)) (fun c => c.equippable) A (fun _ => True)
    (fun c a => rfl) (convOK_mapF A (fun (h : HelperSave) => SerializationHelper.mk h.map.toMap h.game_log)) (fun c a => rfl) (fun m => rfl) data.helpers _ hI (fun p hp => ⟨hA p hp, trivial⟩)
  have hN23b := AllNone_mono (fun c => c.equippable) _ _ hoF23 hnF23 hN23
  obtain ⟨hoF24, hnF24⟩ := loadComp_obs (fun c v2 => { c with serialization_helper := some v2 }) (fun wld (h : HelperSave) => (wld, SerializationHelper.mk h.map.toMap h.game_log)) (fun c => c.equipped) A (fun _ => True)
    (fun c a => rfl) (convOK_mapF A (fun (h : HelperSave) => SerializationHelper.mk h.map.toMap h.game_log)) (fun c a => rfl) (fun m => rfl) data.helpers _ hI (fun p hp => ⟨hA p hp, trivial⟩)
  have hN24b := AllNone_mono (fun c => c.equipped) _ _ hoF24 hnF24 hN24
  obtain ⟨hoF25, hnF25⟩ := loadComp_obs (fun c v2 => { c with serialization_helper := some v2 }) (fun wld (h : HelperSave) => (wld, SerializationHelper.mk h.map.toMap h.game_log)) (fun c => c.melee_power_bonus) A (fun _ => True)
    (fun c a => rfl) (convOK_mapF A (fun (h : HelperSave) => SerializationHelper.mk h.map.toMap h.game_log)) (fun c a => rfl) (fun m => rfl) data.helpers _ hI (fun p hp => ⟨hA p hp, trivial⟩)
  have hN25b := AllNone_mono (fun c => c.melee_power_bonus) _ _ hoF25 hnF25 hN25
  obtain ⟨hoF26, hnF26⟩ := loadComp_obs (fun c v2 => { c with serialization_helper := some v2 }) (fun wld (h : HelperSave) => (wld, SerializationHelper.mk h.map.toMap h.game_log)) (fun c => c.defense_bonus) A (fun _ => True)
    (fun c a => rfl) (convOK_mapF A (fun (h : HelperSave) => SerializationHelper.mk h.map.toMap h.game_log)) (fun c a => rfl) (fun m => rfl) data.helpers _ hI (fun p hp => ⟨hA p hp, trivial⟩)
  have hN26b := AllNone_mono (fun c => c.defense_bonus) _ _ hoF26 hnF26 hN26
  obtain ⟨hoF27, hnF27⟩ := loadComp_obs (fun c v2 => { c with serialization_helper := some v2 }) (fun wld (h : HelperSave) => (wld, SerializationHelper.mk h.map.toMap h.game_log)) (fun c => c.wants_to_remove) A (fun _ => True)
    (fun c a => rfl) (convOK_mapF A (fun (h : HelperSave) => SerializationHelper.mk h.map.toMap h.game_log)) (fun c a => rfl) (fun m => rfl) data.helpers _ hI (fun p hp => ⟨hA p hp, trivial⟩)
  have hN27b := AllNone_mono (fun c => c.wants_to_remove) _ _ hoF27 hnF27 hN27
  obtain ⟨hoF28, hnF28⟩ := loadComp_obs (fun c v2 => { c with serialization_helper := some v2 }) (fun wld (h : HelperSave) => (wld, SerializationHelper.mk h.map.toMap h.game_log)) (fun c => c.particle_lifetime) A (fun _ => True)
    (fun c a => rfl) (convOK_mapF A (fun (h : HelperSave) => SerializationHelper.mk h.map.toMap h.game_log)) (fun c a => rfl) (fun m => rfl) data.helpers _ hI (fun p hp => ⟨hA p hp, trivial⟩)
  have hN28b := AllNone_mono (fun c => c.particle_lifetime) _ _ hoF28 hnF28 hN28
  obtain ⟨hoF29, hnF29⟩ := loadComp_obs (fun c v2 => { c with serialization_helper := some v2 }) (fun wld (h : HelperSave) => (wld, SerializationHelper.mk h.map.toMap h.game_log)) (fun c => c.hunger_clock) A (fun _ => True)
    (fun c a => rfl) (convOK_mapF A (fun (h : HelperSave) => SerializationHelper.mk h.map.toMap h.game_log)) (fun c a => rfl) (fun m => rfl) data.helpers _ hI (fun p hp => ⟨hA p hp, trivial⟩)
  have hN29b := AllNone_mono (fun c => c.hunger_clock) _ _ hoF29 hnF29 hN29
  obtain ⟨hoF30, hnF30⟩ := loadComp_obs (fun c v2 => { c with serialization_helper := some v2 }) (fun wld (h : HelperSave) => (wld, SerializationHelper.mk h.map.toMap h.game_log)) (fun c => c.provides_food) A (fun _ => True)
    (fun c a => rfl) (convOK_mapF A (fun (h : HelperSave) => SerializationHelper.mk h.map.toMap h.game_log)) (fun c a => rfl) (fun m => rfl) data.helpers _ hI (fun p hp => ⟨hA p hp, trivial⟩)
  have hN30b := AllNone_mono (fun c => c.provides_food) _ _ hoF30 hnF30 hN30
  have hMb := MarksIn_mono hle2 (fun e he hn => let ⟨m, h1, _, h3⟩ := hfr2 e he hn; ⟨m, h1, h3⟩) hM
  exact ⟨hI2, hMb, hkl1b, hfv1b, hkl2b, hfv2b, hkl3b, hfv3b, hkl4b, hfv4b, hkl5b, hfv5b, hkl6b, hfv6b, hkl7b, hfv7b, hkl8b, hfv8b, hkl9b, hfv9b, hkl10b, hfv10b, hkl11b, hfv11b, hkl12b, hfv12b, hkl13b, hfv13b, hkl14b, hfv14b, hkl15b, hfv15b, hkl16b, hfv16b, hkl17b, hfv17b, hkl18b, hfv18b, hkl19b, hfv19b, hkl20b, hfv20b, hkl21b, hfv21b, hklx, hfvk, hN23b, hN24b, hN25b, hN26b, hN27b, hN28b, hN29b, hN30b⟩

set_option maxHeartbeats 800000 in
/-- Deserialization pass 23 (equippable): it establishes its own list facts
and preserves those of the earlier passes. -/
lemma loadStage23 (A : Nat → Prop) (data : SaveData) (v : World)
    (hI : LoadInv v)
    (hkeys : ((data.equippables).map Prod.fst).Nodup)
    (hA : ∀ p ∈ data.equippables, A p.1)
    (hM : MarksIn A v)
    (hkl1 : KeysLive data.positions v)
    (hfv1 : FieldVals (fun c => c.position) (RPure id) data.positions v)
    (hkl2 : KeysLive data.renderables v)
    (hfv2 : FieldVals (fun c => c.renderable) (RPure id) data.renderables v)
    (hkl3 : KeysLive data.players v)
    (hfv3 : FieldVals (fun c => c.player) (RPure id) data.players v)
    (hkl4 : KeysLive data.viewsheds v)
    (hfv4 : FieldVals (fun c => c.viewshed) (RPure id) data.viewsheds v)
    (hkl5 : KeysLive data.monsters v)
    (hfv5 : FieldVals (fun c => c.monster) (RPure id) data.monsters v)
    (hkl6 : KeysLive data.names v)
    (hfv6 : FieldVals (fun c => c.name) (RPure id) data.names v)
    (hkl7 : KeysLive data.blocks_tile v)
    (hfv7 : FieldVals (fun c => c.blocks_tile) (RPure id) data.blocks_tile v)
    (hkl8 : KeysLive data.combat_stats v)
    (hfv8 : FieldVals (fun c => c.combat_stats) (RPure id) data.combat_stats v)
    (hkl9 : KeysLive data.suffer_damage v)
    (hfv9 : FieldVals (fun c => c.suffer_damage) (RPure id) data.suffer_damage v)
    (hkl10 : KeysLive data.wants_melee v)
    (hfv10 : FieldVals (fun c => c.wants_melee) (RRef WantsToMelee.mk) data.wants_melee v)
    (hkl11 : KeysLive data.items v)
    (hfv11 : FieldVals (fun c => c.item) (RPure id) data.items v)
    (hkl12 : KeysLive data.consumables v)
    (hfv12 : FieldVals (fun c => c.consumable) (RPure id) data.consumables v)
    (hkl13 : KeysLive data.ranged v)
    (hfv13 : FieldVals (fun c => c.ranged) (RPure id) data.ranged v)
    (hkl14 : KeysLive data.inflicts_damage v)
    (hfv14 : FieldVals (fun c => c.inflicts_damage) (RPure id) data.inflicts_damage v)
    (hkl15 : KeysLive data.area_of_effect v)
    (hfv15 : FieldVals (fun c => c.area_of_effect) (RPure id) data.area_of_effect v)
    (hkl16 : KeysLive data.confusion v)
    (hfv16 : FieldVals (fun c => c.confusion) (RPure id) data.confusion v)
    (hkl17 : KeysLive data.provides_healing v)
    (hfv17 : FieldVals (fun c => c.provides_healing) (RPure id) data.provides_healing v)
    (hkl18 : KeysLive data.in_backpack v)
    (hfv18 : FieldVals (fun c => c.in_backpack) (RRef InBackpack.mk) data.in_backpack v)
    (hkl19 : KeysLive data.wants_to_pickup v)
    (hfv19 : FieldVals (fun c => c.wants_to_pickup) (RRef2 WantsToPickupItem.mk) data.wants_to_pickup v)
    (hkl20 : KeysLive data.wants_to_use v)
    (hfv20 : FieldVals (fun c => c.wants_to_use) (RRefPair WantsToUseItem.mk) data.wants_to_use v)
    (hkl21 : KeysLive data.wants_to_drop v)
    (hfv21 : FieldVals (fun c => c.wants_to_drop) (RRef WantsToDropItem.mk) data.wants_to_drop v)
    (hkl22 : KeysLive data.helpers v)
    (hfv22 : FieldVals (fun c => c.serialization_helper) (RPure (fun (h : HelperSave) => SerializationHelper.mk h.map.toMap h.game_log)) data.helpers v)
    (hN23 : AllNone (fun c => c.equippable) v)
    (hN24 : AllNone (fun c => c.equipped) v)
    (hN25 : AllNone (fun c => c.melee_power_bonus) v)
    (hN26 : AllNone (fun c => c.defense_bonus) v)
    (hN27 : AllNone (fun c => c.wants_to_remove) v)
    (hN28 : AllNone (fun c => c.particle_lifetime) v)
    (hN29 : AllNone (fun c => c.hunger_clock) v)
    (hN30 : AllNone (fun c => c.provides_food) v)
    :
    LoadInv (loadComp (fun c v2 => { c with equippable := some v2 }) convPure v data.equippables) ∧
    MarksIn A (loadComp (fun c v2 => { c with equippable := some v2 }) convPure v data.equippables) ∧
    KeysLive data.positions (loadComp (fun c v2 => { c with equippable := some v2 }) convPure v data.equippables) ∧
    FieldVals (fun c => c.position) (RPure id) data.positions (loadComp (fun c v2 => { c with equippable := some v2 }) convPure v data.equippables) ∧
    KeysLive data.renderables (loadComp (fun c v2 => { c with equippable := some v2 }) convPure v data.equippables) ∧
    FieldVals (fun c => c.renderable) (RPure id) data.renderables (loadComp (fun c v2 => { c with equippable := some v2 }) convPure v data.equippables) ∧
    KeysLive data.players (loadComp (fun c v2 => { c with equippable := some v2 }) convPure v data.equippables) ∧
    FieldVals (fun c => c.player) (RPure id) data.players (loadComp (fun c v2 => { c with equippable := some v2 }) convPure v data.equippables) ∧
    KeysLive data.viewsheds (loadComp (fun c v2 => { c with equippable := some v2 }) convPure v data.equippables) ∧
    FieldVals (fun c => c.viewshed) (RPure id) data.viewsheds (loadComp (fun c v2 => { c with equippable := some v2 }) convPure v data.equippables) ∧
    KeysLive data.monsters (loadComp (fun c v2 => { c with equippable := some v2 }) convPure v data.equippables) ∧
    FieldVals (fun c => c.monster) (RPure id) data.monsters (loadComp (fun c v2 => { c with equippable := some v2 }) convPure v data.equippables) ∧
    KeysLive data.names (loadComp (fun c v2 => { c with equippable := some v2 }) convPure v data.equippables) ∧
    FieldVals (fun c => c.name) (RPure id) data.names (loadComp (fun c v2 => { c with equippable := some v2 }) convPure v data.equippables) ∧
    KeysLive data.blocks_tile (loadComp (fun c v2 => { c with equippable := some v2 }) convPure v data.equippables) ∧
    FieldVals (fun c => c.blocks_tile) (RPure id) data.blocks_tile (loadComp (fun c v2 => { c with equippable := some v2 }) convPure v data.equippables) ∧
    KeysLive data.combat_stats (loadComp (fun c v2 => { c with equippable := some v2 }) convPure v data.equippables) ∧
    FieldVals (fun c => c.combat_stats) (RPure id) data.combat_stats (loadComp (fun c v2 => { c with equippable := some v2 }) convPure v data.equippables) ∧
    KeysLive data.suffer_damage (loadComp (fun c v2 => { c with equippable := some v2 }) convPure v data.equippables) ∧
    FieldVals (fun c => c.suffer_damage) (RPure id) data.suffer_damage (loadComp (fun c v2 => { c with equippable := some v2 }) convPure v data.equippables) ∧
    KeysLive data.wants_melee (loadComp (fun c v2 => { c with equippable := some v2 }) convPure v data.equippables) ∧
    FieldVals (fun c => c.wants_melee) (RRef WantsToMelee.mk) data.wants_melee (loadComp (fun c v2 => { c with equippable := some v2 }) convPure v data.equippables) ∧
    KeysLive data.items (loadComp (fun c v2 => { c with equippable := some v2 }) convPure v data.equippables) ∧
    FieldVals (fun c => c.item) (RPure id) data.items (loadComp (fun c v2 => { c with equippable := some v2 }) convPure v data.equippables) ∧
    KeysLive data.consumables (loadComp (fun c v2 => { c with equippable := some v2 }) convPure v data.equippables) ∧
    FieldVals (fun c => c.consumable) (RPure id) data.consumables (loadComp (fun c v2 => { c with equippable := some v2 }) convPure v data.equippables) ∧
    KeysLive data.ranged (loadComp (fun c v2 => { c with equippable := some v2 }) convPure v data.equippables) ∧
    FieldVals (fun c => c.ranged) (RPure id) data.ranged (loadComp (fun c v2 => { c with equippable := some v2 }) convPure v data.equippables) ∧
    KeysLive data.inflicts_damage (loadComp (fun c v2 => { c with equippable := some v2 }) convPure v data.equippables) ∧
    FieldVals (fun c => c.inflicts_damage) (RPure id) data.inflicts_damage (loadComp (fun c v2 => { c with equippable := some v2 }) convPure v data.equippables) ∧
    KeysLive data.area_of_effect (loadComp (fun c v2 => { c with equippable := some v2 }) convPure v data.equippables) ∧
    FieldVals (fun c => c.area_of_effect) (RPure id) data.area_of_effect (loadComp (fun c v2 => { c with equippable := some v2 }) convPure v data.equippables) ∧
    KeysLive data.confusion (loadComp (fun c v2 => { c with equippable := some v2 }) convPure v data.equippables) ∧
    FieldVals (fun c => c.confusion) (RPure id) data.confusion (loadComp (fun c v2 => { c with equippable := some v2 }) convPure v data.equippables) ∧
    KeysLive data.provides_healing (loadComp (fun c v2 => { c with equippable := some v2 }) convPure v data.equippables) ∧
    FieldVals (fun c => c.provides_healing) (RPure id) data.provides_healing (loadComp (fun c v2 => { c with equippable := some v2 }) convPure v data.equippables) ∧
    KeysLive data.in_backpack (loadComp (fun c v2 => { c with equippable := some v2 }) convPure v data.equippables) ∧
    FieldVals (fun c => c.in_backpack) (RRef InBackpack.mk) data.in_backpack (loadComp (fun c v2 => { c with equippable := some v2 }) convPure v data.equippables) ∧
    KeysLive data.wants_to_pickup (loadComp (fun c v2 => { c with equippable := some v2 }) convPure v data.equippables) ∧
    FieldVals (fun c => c.wants_to_pickup) (RRef2 WantsToPickupItem.mk) data.wants_to_pickup (loadComp (fun c v2 => { c with equippable := some v2 }) convPure v data.equippables) ∧
    KeysLive data.wants_to_use (loadComp (fun c v2 => { c with equippable := some v2 }) convPure v data.equippables) ∧
    FieldVals (fun c => c.wants_to_use) (RRefPair WantsToUseItem.mk) data.wants_to_use (loadComp (fun c v2 => { c with equippable := some v2 }) convPure v data.equippables) ∧
    KeysLive data.wants_to_drop (loadComp (fun c v2 => { c with equippable := some v2 }) convPure v data.equippables) ∧
    FieldVals (fun c => c.wants_to_drop) (RRef WantsToDropItem.mk) data.wants_to_drop (loadComp (fun c v2 => { c with equippable := some v2 }) convPure v data.equippables) ∧
    KeysLive data.helpers (loadComp (fun c v2 => { c with equippable := some v2 }) convPure v data.equippables) ∧
    FieldVals (fun c => c.serialization_helper) (RPure (fun (h : HelperSave) => SerializationHelper.mk h.map.toMap h.game_log)) data.helpers (loadComp (fun c v2 => { c with equippable := some v2 }) convPure v data.equippables) ∧
    KeysLive data.equippables (loadComp (fun c v2 => { c with equippable := some v2 }) convPure v data.equippables) ∧
    FieldVals (fun c => c.equippable) (RPure id) data.equippables (loadComp (fun c v2 => { c with equippable := some v2 }) convPure v data.equippables) ∧
    AllNone (fun c => c.equipped) (loadComp (fun c v2 => { c with equippable := some v2 }) convPure v data.equippables) ∧
    AllNone (fun c => c.melee_power_bonus) (loadComp (fun c v2 => { c with equippable := some v2 }) convPure v data.equippables) ∧
    AllNone (fun c => c.defense_bonus) (loadComp (fun c v2 => { c with equippable := some v2 }) convPure v data.equippables) ∧
    AllNone (fun c => c.wants_to_remove) (loadComp (fun c v2 => { c with equippable := some v2 }) convPure v data.equippables) ∧
    AllNone (fun c => c.particle_lifetime) (loadComp (fun c v2 => { c with equippable := some v2 }) convPure v data.equippables) ∧
    AllNone (fun c => c.hunger_clock) (loadComp (fun c v2 => { c with equippable := some v2 }) convPure v data.equippables) ∧
    AllNone (fun c => c.provides_food) (loadComp (fun c v2 => { c with equippable := some v2 }) convPure v data.equippables) := by
  obtain ⟨hI2, hle2, hfr2, hklx⟩ := loadComp_struct (fun c v2 => { c with equippable := some v2 }) convPure A (fun _ => True)
    (fun c a => rfl) (convOK_pure A) data.equippables _ hI (fun p hp => ⟨hA p hp, trivial⟩)
  have hfvk := loadComp_est (fun c v2 => { c with equippable := some v2 }) (fun c => c.equippable) convPure A (fun _ => True)
    (RPure id) (convOK_pure A) (fun v2 b hIv hAb => rfl)
    (fun va vb a b hle h => h) (fun c a => rfl) (fun c a => rfl) (fun m => rfl)
    data.equippables _ hI hkeys (fun p hp => ⟨hA p hp, trivial⟩) hN23
  obtain ⟨hoF1, hnF1⟩ := loadComp_obs (fun c v2 => { c with equippable := some v2 }) convPure (fun c => c.position) A (fun _ => True)
    (fun c a => rfl) (convOK_pure A) (fun c a => rfl) (fun m => rfl) data.equippables _ hI (fun p hp => ⟨hA p hp, trivial⟩)
  have hfv1b := FieldVals_mono (fun c => c.position) (RPure id) data.positions hle2
    (fun a b h => h)
    (fun e he hn => let ⟨m, h1, h2, _⟩ := hfr2 e he hn; ⟨m, h1, h2⟩)
    hoF1 hnF1 hkl1 hfv1
  have hkl1b := KeysLive_mono hle2 hkl1
  obtain ⟨hoF2, hnF2⟩ := loadComp_obs (fun c v2 => { c with equippable := some v2 }) convPure (fun c => c.renderable) A (fun _ => True)
    (fun c a => rfl) (convOK_pure A) (fun c a => rfl) (fun m => rfl) data.equippables _ hI (fun p hp => ⟨hA p hp, trivial⟩)
  have hfv2b := FieldVals_mono (fun c => c.renderable) (RPure id) data.renderables hle2
    (fun a b h => h)
    (fun e he hn => let ⟨m, h1, h2, _⟩ := hfr2 e he hn; ⟨m, h1, h2⟩)
    hoF2 hnF2 hkl2 hfv2
  have hkl2b := KeysLive_mono hle2 hkl2
  obtain ⟨hoF3, hnF3⟩ := loadComp_obs (fun c v2 => { c with equippable := some v2 }) convPure (fun c => c.player) A (fun _ => True)
    (fun c a => rfl) (convOK_pure A) (fun c a => rfl) (fun m => rfl) data.equippables _ hI (fun p hp => ⟨hA p hp, trivial⟩)
  have hfv3b := FieldVals_mono (fun c => c.player) (RPure id) data.players hle2
    (fun a b h => h)
    (fun e he hn => let ⟨m, h1, h2, _⟩ := hfr2 e he hn; ⟨m, h1, h2⟩)
    hoF3 hnF3 hkl3 hfv3
  have hkl3b := KeysLive_mono hle2 hkl3
  obtain ⟨hoF4, hnF4⟩ := loadComp_obs (fun c v2 => { c with equippable := some v2 }) convPure (fun c => c.viewshed) A (fun _ => True)
    (fun c a => rfl) (convOK_pure A) (fun c a => rfl) (fun m => rfl) data.equippables _ hI (fun p hp => ⟨hA p hp, trivial⟩)
  have hfv4b := FieldVals_mono (fun c => c.viewshed) (RPure id) data.viewsheds hle2
    (fun a b h => h)
    (fun e he hn => let ⟨m, h1, h2, _⟩ := hfr2 e he hn; ⟨m, h1, h2⟩)
    hoF4 hnF4 hkl4 hfv4
  have hkl4b := KeysLive_mono hle2 hkl4
  obtain ⟨hoF5, hnF5⟩ := loadComp_obs (fun c v2 => { c with equippable := some v2 }) convPure (fun c => c.monster) A (fun _ => True)
    (fun c a => rfl) (convOK_pure A) (fun c a => rfl) (fun m => rfl) data.equippables _ hI (fun p hp => ⟨hA p hp, trivial⟩)
  have hfv5b := FieldVals_mono (fun c => c.monster) (RPure id) data.monsters hle2
    (fun a b h => h)
    (fun e he hn => let ⟨m, h1, h2, _⟩ := hfr2 e he hn; ⟨m, h1, h2⟩)
    hoF5 hnF5 hkl5 hfv5
  have hkl5b := KeysLive_mono hle2 hkl5
  obtain ⟨hoF6, hnF6⟩ := loadComp_obs (fun c v2 => { c with equippable := some v2 }) convPure (fun c => c.name) A (fun _ => True)
    (fun c a => rfl) (convOK_pure A) (fun c a => rfl) (fun m => rfl) data.equippables _ hI (fun p hp => ⟨hA p hp, trivial⟩)
  have hfv6b := FieldVals_mono (fun c => c.name) (RPure id) data.names hle2
    (fun a b h => h)
    (fun e he hn => let ⟨m, h1, h2, _⟩ := hfr2 e he hn; ⟨m, h1, h2⟩)
    hoF6 hnF6 hkl6 hfv6
  have hkl6b := KeysLive_mono hle2 hkl6
  obtain ⟨hoF7, hnF7⟩ := loadComp_obs (fun c v2 => { c with equippable := some v2 }) convPure (fun c => c.blocks_tile) A (fun _ => True)
    (fun c a => rfl) (convOK_pure A) (fun c a => rfl) (fun m => rfl) data.equippables _ hI (fun p hp => ⟨hA p hp, trivial⟩)
  have hfv7b := FieldVals_mono (fun c => c.blocks_tile) (RPure id) data.blocks_tile hle2
    (fun a b h => h)
    (fun e he hn => let ⟨m, h1, h2, _⟩ := hfr2 e he hn; ⟨m, h1, h2⟩)
    hoF7 hnF7 hkl7 hfv7
  have hkl7b := KeysLive_mono hle2 hkl7
  obtain ⟨hoF8, hnF8⟩ := loadComp_obs (fun c v2 => { c with equippable := some v2 }) convPure (fun c => c.combat_stats) A (fun _ => True)
    (fun c a => rfl) (convOK_pure A) (fun c a => rfl) (fun m => rfl) data.equippables _ hI (fun p hp => ⟨hA p hp, trivial⟩)
  have hfv8b := FieldVals_mono (fun c => c.combat_stats) (RPure id) data.combat_stats hle2
    (fun a b h => h)
    (fun e he hn => let ⟨m, h1, h2, _⟩ := hfr2 e he hn; ⟨m, h1, h2⟩)
    hoF8 hnF8 hkl8 hfv8
  have hkl8b := KeysLive_mono hle2 hkl8
  obtain ⟨hoF9, hnF9⟩ := loadComp_obs (fun c v2 => { c with equippable := some v2 }) convPure (fun c => c.suffer_damage) A (fun _ => True)
    (fun c a => rfl) (convOK_pure A) (fun c a => rfl) (fun m => rfl) data.equippables _ hI (fun p hp => ⟨hA p hp, trivial⟩)
  have hfv9b := FieldVals_mono (fun c => c.suffer_damage) (RPure id) data.suffer_damage hle2
    (fun a b h => h)
    (fun e he hn => let ⟨m, h1, h2, _⟩ := hfr2 e he hn; ⟨m, h1, h2⟩)
    hoF9 hnF9 hkl9 hfv9
  have hkl9b := KeysLive_mono hle2 hkl9
  obtain ⟨hoF10, hnF10⟩ := loadComp_obs (fun c v2 => { c with equippable := some v2 }) convPure (fun c => c.wants_melee) A (fun _ => True)
    (fun c a => rfl) (convOK_pure A) (fun c a => rfl) (fun m => rfl) data.equippables _ hI (fun p hp => ⟨hA p hp, trivial⟩)
  have hfv10b := FieldVals_mono (fun c => c.wants_melee) (RRef WantsToMelee.mk) data.wants_melee hle2
    (fun a b h => RRef_mono WantsToMelee.mk _ _ a b hle2 h)
    (fun e he hn => let ⟨m, h1, h2, _⟩ := hfr2 e he hn; ⟨m, h1, h2⟩)
    hoF10 hnF10 hkl10 hfv10
  have hkl10b := KeysLive_mono hle2 hkl10
  obtain ⟨hoF11, hnF11⟩ := loadComp_obs (fun c v2 => { c with equippable := some v2 }) convPure (fun c => c.item) A (fun _ => True)
    (fun c a => rfl) (convOK_pure A) (fun c a => rfl) (fun m => rfl) data.equippables _ hI (fun p hp => ⟨hA p hp, trivial⟩)
  have hfv11b := FieldVals_mono (fun c => c.item) (RPure id) data.items hle2
    (fun a b h => h)
    (fun e he hn => let ⟨m, h1, h2, _⟩ := hfr2 e he hn; ⟨m, h1, h2⟩)
    hoF11 hnF11 hkl11 hfv11
  have hkl11b := KeysLive_mono hle2 hkl11
  obtain ⟨hoF12, hnF12⟩ := loadComp_obs (fun c v2 => { c with equippable := some v2 }) convPure (fun c => c.consumable) A (fun _ => True)
    (fun c a => rfl) (convOK_pure A) (fun c a => rfl) (fun m => rfl) data.equippables _ hI (fun p hp => ⟨hA p hp, trivial⟩)
  have hfv12b := FieldVals_mono (fun c => c.consumable) (RPure id) data.consumables hle2
    (fun a b h => h)
    (fun e he hn => let ⟨m, h1, h2, _⟩ := hfr2 e he hn; ⟨m, h1, h2⟩)
    hoF12 hnF12 hkl12 hfv12
  have hkl12b := KeysLive_mono hle2 hkl12
  obtain ⟨hoF13, hnF13⟩ := loadComp_obs (fun c v2 => { c with equippable := some v2 }) convPure (fun c => c.ranged) A (fun _ => True)
    (fun c a => rfl) (convOK_pure A) (fun c a => rfl) (fun m => rfl) data.equippables _ hI (fun p hp => ⟨hA p hp, trivial⟩)
  have hfv13b := FieldVals_mono (fun c => c.ranged) (RPure id) data.ranged hle2
    (fun a b h => h)
    (fun e he hn => let ⟨m, h1, h2, _⟩ := hfr2 e he hn; ⟨m, h1, h2⟩)
    hoF13 hnF13 hkl13 hfv13
  have hkl13b := KeysLive_mono hle2 hkl13
  obtain ⟨hoF14, hnF14⟩ := loadComp_obs (fun c v2 => { c with equippable := some v2 }) convPure (fun c => c.inflicts_damage) A (fun _ => True)
    (fun c a => rfl) (convOK_pure A) (fun c a => rfl) (fun m => rfl) data.equippables _ hI (fun p hp => ⟨hA p hp, trivial⟩)
  have hfv14b := FieldVals_mono (fun c => c.inflicts_damage) (RPure id) data.inflicts_damage hle2
    (fun a b h => h)
    (fun e he hn => let ⟨m, h1, h2, _⟩ := hfr2 e he hn; ⟨m, h1, h2⟩)
    hoF14 hnF14 hkl14 hfv14
  have hkl14b := KeysLive_mono hle2 hkl14
  obtain ⟨hoF15, hnF15⟩ := loadComp_obs (fun c v2 => { c with equippable := some v2 }) convPure (fun c => c.area_of_effect) A (fun _ => True)
    (fun c a => rfl) (convOK_pure A) (fun c a => rfl) (fun m => rfl) data.equippables _ hI (fun p hp => ⟨hA p hp, trivial⟩)
  have hfv15b := FieldVals_mono (fun c => c.area_of_effect) (RPure id) data.area_of_effect hle2
    (fun a b h => h)
    (fun e he hn => let ⟨m, h1, h2, _⟩ := hfr2 e he hn; ⟨m, h1, h2⟩)
    hoF15 hnF15 hkl15 hfv15
  have hkl15b := KeysLive_mono hle2 hkl15
  obtain ⟨hoF16, hnF16⟩ := loadComp_obs (fun c v2 => { c with equippable := some v2 }) convPure (fun c => c.confusion) A (fun _ => True)
    (fun c a => rfl) (convOK_pure A) (fun c a => rfl) (fun m => rfl) data.equippables _ hI (fun p hp => ⟨hA p hp, trivial⟩)
  have hfv16b := FieldVals_mono (fun c => c.confusion) (RPure id) data.confusion hle2
    (fun a b h => h)
    (fun e he hn => let ⟨m, h1, h2, _⟩ := hfr2 e he hn; ⟨m, h1, h2⟩)
    hoF16 hnF16 hkl16 hfv16
  have hkl16b := KeysLive_mono hle2 hkl16
  obtain ⟨hoF17, hnF17⟩ := loadComp_obs (fun c v2 => { c with equippable := some v2 }) convPure (fun c => c.provides_healing) A (fun _ => True)
    (fun c a => rfl) (convOK_pure A) (fun c a => rfl) (fun m => rfl) data.equippables _ hI (fun p hp => ⟨hA p hp, trivial⟩)
  have hfv17b := FieldVals_mono (fun c => c.provides_healing) (RPure id) data.provides_healing hle2
    (fun a b h => h)
    (fun e he hn => let ⟨m, h1, h2, _⟩ := hfr2 e he hn; ⟨m, h1, h2⟩)
    hoF17 hnF17 hkl17 hfv17
  have hkl17b := KeysLive_mono hle2 hkl17
  obtain ⟨hoF18, hnF18⟩ := loadComp_obs (fun c v2 => { c with equippable := some v2 }) convPure (fun c => c.in_backpack) A (fun _ => True)
    (fun c a => rfl) (convOK_pure A) (fun c a => rfl) (fun m => rfl) data.equippables _ hI (fun p hp => ⟨hA p hp, trivial⟩)
  have hfv18b := FieldVals_mono (fun c => c.in_backpack) (RRef InBackpack.mk) data.in_backpack hle2
    (fun a b h => RRef_mono InBackpack.mk _ _ a b hle2 h)
    (fun e he hn => let ⟨m, h1, h2, _⟩ := hfr2 e he hn; ⟨m, h1, h2⟩)
    hoF18 hnF18 hkl18 hfv18
  have hkl18b := KeysLive_mono hle2 hkl18
  obtain ⟨hoF19, hnF19⟩ := loadComp_obs (fun c v2 => { c with equippable := some v2 }) convPure (fun c => c.wants_to_pickup) A (fun _ => True)
    (fun c a => rfl) (convOK_pure A) (fun c a => rfl) (fun m => rfl) data.equippables _ hI (fun p hp => ⟨hA p hp, trivial⟩)
  have hfv19b := FieldVals_mono (fun c => c.wants_to_pickup) (RRef2 WantsToPickupItem.mk) data.wants_to_pickup hle2
    (fun a b h => RRef2_mono WantsToPickupItem.mk _ _ a b hle2 h)
    (fun e he hn => let ⟨m, h1, h2, _⟩ := hfr2 e he hn; ⟨m, h1, h2⟩)
    hoF19 hnF19 hkl19 hfv19
  have hkl19b := KeysLive_mono hle2 hkl19
  obtain ⟨hoF20, hnF20⟩ := loadComp_obs (fun c v2 => { c with equippable := some v2 }) convPure (fun c => c.wants_to_use) A (fun _ => True)
    (fun c a => rfl) (convOK_pure A) (fun c a => rfl) (fun m => rfl) data.equippables _ hI (fun p hp => ⟨hA p hp, trivial⟩)
  have hfv20b := FieldVals_mono (fun c => c.wants_to_use) (RRefPair WantsToUseItem.mk) data.wants_to_use hle2
    (fun a b h => RRefPair_mono WantsToUseItem.mk _ _ a b hle2 h)
    (fun e he hn => let ⟨m, h1, h2, _⟩ := hfr2 e he hn; ⟨m, h1, h2⟩)
    hoF20 hnF20 hkl20 hfv20
  have hkl20b := KeysLive_mono hle2 hkl20
  obtain ⟨hoF21, hnF21⟩ := loadComp_obs (fun c v2 => { c with equippable := some v2 }) convPure (fun c => c.wants_to_drop) A (fun _ => True)
    (fun c a => rfl) (convOK_pure A) (fun c a => rfl) (fun m => rfl) data.equippables _ hI (fun p hp => ⟨hA p hp, trivial⟩)
  have hfv21b := FieldVals_mono (fun c => c.wants_to_drop) (RRef WantsToDropItem.mk) data.wants_to_drop hle2
    (fun a b h => RRef_mono WantsToDropItem.mk _ _ a b hle2 h)
    (fun e he hn => let ⟨m, h1, h2, _⟩ := hfr2 e he hn; ⟨m, h1, h2⟩)
    hoF21 hnF21 hkl21 hfv21
  have hkl21b := KeysLive_mono hle2 hkl21
  obtain ⟨hoF22, hnF22⟩ := loadComp_obs (fun c v2 => { c with equippable := some v2 }) convPure (fun c => c.serialization_helper) A (fun _ => True)
    (fun c a => rfl) (convOK_pure A) (fun c a => rfl) (fun m => rfl) data.equippables _ hI (fun p hp => ⟨hA p hp, trivial⟩)
  have hfv22b := FieldVals_mono (fun c => c.serialization_helper) (RPure (fun (h : HelperSave) => SerializationHelper.mk h.map.toMap h.game_log)) data.helpers hle2
    (fun a b h => h)
    (fun e he hn => let ⟨m, h1, h2, _⟩ := hfr2 e he hn; ⟨m, h1, h2⟩)
    hoF22 hnF22 hkl22 hfv22
  have hkl22b := KeysLive_mono hle2 hkl22
  obtain ⟨hoF24, hnF24⟩ := loadComp_obs (fun c v2 => { c with equippable := some v2 }) convPure (fun c => c.equipped) A (fun _ => True)
    (fun c a => rfl) (convOK_pure A) (fun c a => rfl) (fun m => rfl) data.equippables _ hI (fun p hp => ⟨hA p hp, trivial⟩)
  have hN24b := AllNone_mono (fun c => c.equipped) _ _ hoF24 hnF24 hN24
  obtain ⟨hoF25, hnF25⟩ := loadComp_obs (fun c v2 => { c with equippable := some v2 }) convPure (fun c => c.melee_power_bonus) A (fun _ => True)
    (fun c a => rfl) (convOK_pure A) (fun c a => rfl) (fun m => rfl) data.equippables _ hI (fun p hp => ⟨hA p hp, trivial⟩)
  have hN25b := AllNone_mono (fun c => c.melee_power_bonus) _ _ hoF25 hnF25 hN25
  obtain ⟨hoF26, hnF26⟩ := loadComp_obs (fun c v2 => { c with equippable := some v2 }) convPure (fun c => c.defense_bonus) A (fun _ => True)
    (fun c a => rfl) (convOK_pure A) (fun c a => rfl) (fun m => rfl) data.equippables _ hI (fun p hp => ⟨hA p hp, trivial⟩)
  have hN26b := AllNone_mono (fun c => c.defense_bonus) _ _ hoF26 hnF26 hN26
  obtain ⟨hoF27, hnF27⟩ := loadComp_obs (fun c v2 => { c with equippable := some v2 }) convPure (fun c => c.wants_to_remove) A (fun _ => True)
    (fun c a => rfl) (convOK_pure A) (fun c a => rfl) (fun m => rfl) data.equippables _ hI (fun p hp => ⟨hA p hp, trivial⟩)
  have hN27b := AllNone_mono (fun c => c.wants_to_remove) _ _ hoF27 hnF27 hN27
  obtain ⟨hoF28, hnF28⟩ := loadComp_obs (fun c v2 => { c with equippable := some v2 }) convPure (fun c => c.particle_lifetime) A (fun _ => True)
    (fun c a => rfl) (convOK_pure A) (fun c a => rfl) (fun m => rfl) data.equippables _ hI (fun p hp => ⟨hA p hp, trivial⟩)
  have hN28b := AllNone_mono (fun c => c.particle_lifetime) _ _ hoF28 hnF28 hN28
  obtain ⟨hoF29, hnF29⟩ := loadComp_obs (fun c v2 => { c with equippable := some v2 }) convPure (fun c => c.hunger_clock) A (fun _ => True)
    (fun c a => rfl) (convOK_pure A) (fun c a => rfl) (fun m => rfl) data.equippables _ hI (fun p hp => ⟨hA p hp, trivial⟩)
  have hN29b := AllNone_mono (fun c => c.hunger_clock) _ _ hoF29 hnF29 hN29
  obtain ⟨hoF30, hnF30⟩ := loadComp_obs (fun c v2 => { c with equippable := some v2 }) convPure (fun c => c.provides_food) A (fun _ => True)
    (fun c a => rfl) (convOK_pure A) (fun c a => rfl) (fun m => rfl) data.equippables _ hI (fun p hp => ⟨hA p hp, trivial⟩)
  have hN30b := AllNone_mono (fun c => c.provides_food) _ _ hoF30 hnF30 hN30
  have hMb := MarksIn_mono hle2 (fun e he hn => let ⟨m, h1, _, h3⟩ := hfr2 e he hn; ⟨m, h1, h3⟩) hM
  exact ⟨hI2, hMb, hkl1b, hfv1b, hkl2b, hfv2b, hkl3b, hfv3b, hkl4b, hfv4b, hkl5b, hfv5b, hkl6b, hfv6b, hkl7b, hfv7b, hkl8b, hfv8b, hkl9b, hfv9b, hkl10b, hfv10b, hkl11b, hfv11b, hkl12b, hfv12b, hkl13b, hfv13b, hkl14b, hfv14b, hkl15b, hfv15b, hkl16b, hfv16b, hkl17b, hfv17b, hkl18b, hfv18b, hkl19b, hfv19b, hkl20b, hfv20b, hkl21b, hfv21b, hkl22b, hfv22b, hklx, hfvk, hN24b, hN25b, hN26b, hN27b, hN28b, hN29b, hN30b⟩

set_option maxHeartbeats 800000 in
/-- Deserialization pass 24 (equipped): it establishes its own list facts
and preserves those of the earlier passes. -/
lemma loadStage24 (A : Nat → Prop) (data : SaveData) (v : World)
    (hI : LoadInv v)
    (hkeys : ((data.equipped).map Prod.fst).Nodup)
    (hA : ∀ p ∈ data.equipped, A p.1 ∧ A p.2.1)
    (hM : MarksIn A v)
    (hkl1 : KeysLive data.positions v)
    (hfv1 : FieldVals (fun c => c.position) (RPure id) data.positions v)
    (hkl2 : KeysLive data.renderables v)
    (hfv2 : FieldVals (fun c => c.renderable) (RPure id) data.renderables v)
    (hkl3 : KeysLive data.players v)
    (hfv3 : FieldVals (fun c => c.player) (RPure id) data.players v)
    (hkl4 : KeysLive data.viewsheds v)
    (hfv4 : FieldVals (fun c => c.viewshed) (RPure id) data.viewsheds v)
    (hkl5 : KeysLive data.monsters v)
    (hfv5 : FieldVals (fun c => c.monster) (RPure id) data.monsters v)
    (hkl6 : KeysLive data.names v)
    (hfv6 : FieldVals (fun c => c.name) (RPure id) data.names v)
    (hkl7 : KeysLive data.blocks_tile v)
    (hfv7 : FieldVals (fun c => c.blocks_tile) (RPure id) data.blocks_tile v)
    (hkl8 : KeysLive data.combat_stats v)
    (hfv8 : FieldVals (fun c => c.combat_stats) (RPure id) data.combat_stats v)
    (hkl9 : KeysLive data.suffer_damage v)
    (hfv9 : FieldVals (fun c => c.suffer_damage) (RPure id) data.suffer_damage v)
    (hkl10 : KeysLive data.wants_melee v)
    (hfv10 : FieldVals (fun c => c.wants_melee) (RRef WantsToMelee.mk) data.wants_melee v)
    (hkl11 : KeysLive data.items v)
    (hfv11 : FieldVals (fun c => c.item) (RPure id) data.items v)
    (hkl12 : KeysLive data.consumables v)
    (hfv12 : FieldVals (fun c => c.consumable) (RPure id) data.consumables v)
    (hkl13 : KeysLive data.ranged v)
    (hfv13 : FieldVals (fun c => c.ranged) (RPure id) data.ranged v)
    (hkl14 : KeysLive data.inflicts_damage v)
    (hfv14 : FieldVals (fun c => c.inflicts_damage) (RPure id) data.inflicts_damage v)
    (hkl15 : KeysLive data.area_of_effect v)
    (hfv15 : FieldVals (fun c => c.area_of_effect) (RPure id) data.area_of_effect v)
    (hkl16 : KeysLive data.confusion v)
    (hfv16 : FieldVals (fun c => c.confusion) (RPure id) data.confusion v)
    (hkl17 : KeysLive data.provides_healing v)
    (hfv17 : FieldVals (fun c => c.provides_healing) (RPure id) data.provides_healing v)
    (hkl18 : KeysLive data.in_backpack v)
    (hfv18 : FieldVals (fun c => c.in_backpack) (RRef InBackpack.mk) data.in_backpack v)
    (hkl19 : KeysLive data.wants_to_pickup v)
    (hfv19 : FieldVals (fun c => c.wants_to_pickup) (RRef2 WantsToPickupItem.mk) data.wants_to_pickup v)
    (hkl20 : KeysLive data.wants_to_use v)
    (hfv20 : FieldVals (fun c => c.wants_to_use) (RRefPair WantsToUseItem.mk) data.wants_to_use v)
    (hkl21 : KeysLive data.wants_to_drop v)
    (hfv21 : FieldVals (fun c => c.wants_to_drop) (RRef WantsToDropItem.mk) data.wants_to_drop v)
    (hkl22 : KeysLive data.helpers v)
    (hfv22 : FieldVals (fun c => c.serialization_helper) (RPure (fun (h : HelperSave) => SerializationHelper.mk h.map.toMap h.game_log)) data.helpers v)
    (hkl23 : KeysLive data.equippables v)
    (hfv23 : FieldVals (fun c => c.equippable) (RPure id) data.equippables v)
    (hN24 : AllNone (fun c => c.equipped) v)
    (hN25 : AllNone (fun c => c.melee_power_bonus) v)
    (hN26 : AllNone (fun c => c.defense_bonus) v)
    (hN27 : AllNone (fun c => c.wants_to_remove) v)
    (hN28 : AllNone (fun c => c.particle_lifetime) v)
    (hN29 : AllNone (fun c => c.hunger_clock) v)
    (hN30 : AllNone (fun c => c.provides_food) v)
    :
    LoadInv (loadComp (fun c v2 => { c with equipped := some v2 }) (convRefPair Equipped.mk) v data.equipped) ∧
    MarksIn A (loadComp (fun c v2 => { c with equipped := some v2 }) (convRefPair Equipped.mk) v data.equipped) ∧
    KeysLive data.positions (loadComp (fun c v2 => { c with equipped := some v2 }) (convRefPair Equipped.mk) v data.equipped) ∧
    FieldVals (fun c => c.position) (RPure id) data.positions (loadComp (fun c v2 => { c with equipped := some v2 }) (convRefPair Equipped.mk) v data.equipped) ∧
    KeysLive data.renderables (loadComp (fun c v2 => { c with equipped := some v2 }) (convRefPair Equipped.mk) v data.equipped) ∧
    FieldVals (fun c => c.renderable) (RPure id) data.renderables (loadComp (fun c v2 => { c with equipped := some v2 }) (convRefPair Equipped.mk) v data.equipped) ∧
    KeysLive data.players (loadComp (fun c v2 => { c with equipped := some v2 }) (convRefPair Equipped.mk) v data.equipped) ∧
    FieldVals (fun c => c.player) (RPure id) data.players (loadComp (fun c v2 => { c with equipped := some v2 }) (convRefPair Equipped.mk) v data.equipped) ∧
    KeysLive data.viewsheds (loadComp (fun c v2 => { c with equipped := some v2 }) (convRefPair Equipped.mk) v data.equipped) ∧
    FieldVals (fun c => c.viewshed) (RPure id) data.viewsheds (loadComp (fun c v2 => { c with equipped := some v2 }) (convRefPair Equipped.mk) v data.equipped) ∧
    KeysLive data.monsters (loadComp (fun c v2 => { c with equipped := some v2 }) (convRefPair Equipped.mk) v data.equipped) ∧
    FieldVals (fun c => c.monster) (RPure id) data.monsters (loadComp (fun c v2 => { c with equipped := some v2 }) (convRefPair Equipped.mk) v data.equipped) ∧
    KeysLive data.names (loadComp (fun c v2 => { c with equipped := some v2 }) (convRefPair Equipped.mk) v data.equipped) ∧
    FieldVals (fun c => c.name) (RPure id) data.names (loadComp (fun c v2 => { c with equipped := some v2 }) (convRefPair Equipped.mk) v data.equipped) ∧
    KeysLive data.blocks_tile (loadComp (fun c v2 => { c with equipped := some v2 }) (convRefPair Equipped.mk) v data.equipped) ∧
    FieldVals (fun c => c.blocks_tile) (RPure id) data.blocks_tile (loadComp (fun c v2 => { c with equipped := some v2 }) (convRefPair Equipped.mk) v data.equipped) ∧
    KeysLive data.combat_stats (loadComp (fun c v2 => { c with equipped := some v2 }) (convRefPair Equipped.mk) v data.equipped) ∧
    FieldVals (fun c => c.combat_stats) (RPure id) data.combat_stats (loadComp (fun c v2 => { c with equipped := some v2 }) (convRefPair Equipped.mk) v data.equipped) ∧
    KeysLive data.suffer_damage (loadComp (fun c v2 => { c with equipped := some v2 }) (convRefPair Equipped.mk) v data.equipped) ∧
    FieldVals (fun c => c.suffer_damage) (RPure id) data.suffer_damage (loadComp (fun c v2 => { c with equipped := some v2 }) (convRefPair Equipped.mk) v data.equipped) ∧
    KeysLive data.wants_melee (loadComp (fun c v2 => { c with equipped := some v2 }) (convRefPair Equipped.mk) v data.equipped) ∧
    FieldVals (fun c => c.wants_melee) (RRef WantsToMelee.mk) data.wants_melee (loadComp (fun c v2 => { c with equipped := some v2 }) (convRefPair Equipped.mk) v data.equipped) ∧
    KeysLive data.items (loadComp (fun c v2 => { c with equipped := some v2 }) (convRefPair Equipped.mk) v data.equipped) ∧
    FieldVals (fun c => c.item) (RPure id) data.items (loadComp (fun c v2 => { c with equipped := some v2 }) (convRefPair Equipped.mk) v data.equipped) ∧
    KeysLive data.consumables (loadComp (fun c v2 => { c with equipped := some v2 }) (convRefPair Equipped.mk) v data.equipped) ∧
    FieldVals (fun c => c.consumable) (RPure id) data.consumables (loadComp (fun c v2 => { c with equipped := some v2 }) (convRefPair Equipped.mk) v data.equipped) ∧
    KeysLive data.ranged (loadComp (fun c v2 => { c with equipped := some v2 }) (convRefPair Equipped.mk) v data.equipped) ∧
    FieldVals (fun c => c.ranged) (RPure id) data.ranged (loadComp (fun c v2 => { c with equipped := some v2 }) (convRefPair Equipped.mk) v data.equipped) ∧
    KeysLive data.inflicts_damage (loadComp (fun c v2 => { c with equipped := some v2 }) (convRefPair Equipped.mk) v data.equipped) ∧
    FieldVals (fun c => c.inflicts_damage) (RPure id) data.inflicts_damage (loadComp (fun c v2 => { c with equipped := some v2 }) (convRefPair Equipped.mk) v data.equipped) ∧
    KeysLive data.area_of_effect (loadComp (fun c v2 => { c with equipped := some v2 }) (convRefPair Equipped.mk) v data.equipped) ∧
    FieldVals (fun c => c.area_of_effect) (RPure id) data.area_of_effect (loadComp (fun c v2 => { c with equipped := some v2 }) (convRefPair Equipped.mk) v data.equipped) ∧
    KeysLive data.confusion (loadComp (fun c v2 => { c with equipped := some v2 }) (convRefPair Equipped.mk) v data.equipped) ∧
    FieldVals (fun c => c.confusion) (RPure id) data.confusion (loadComp (fun c v2 => { c with equipped := some v2 }) (convRefPair Equipped.mk) v data.equipped) ∧
    KeysLive data.provides_healing (loadComp (fun c v2 => { c with equipped := some v2 }) (convRefPair Equipped.mk) v data.equipped) ∧
    FieldVals (fun c => c.provides_healing) (RPure id) data.provides_healing (loadComp (fun c v2 => { c with equipped := some v2 }) (convRefPair Equipped.mk) v data.equipped) ∧
    KeysLive data.in_backpack (loadComp (fun c v2 => { c with equipped := some v2 }) (convRefPair Equipped.mk) v data.equipped) ∧
    FieldVals (fun c => c.in_backpack) (RRef InBackpack.mk) data.in_backpack (loadComp (fun c v2 => { c with equipped := some v2 }) (convRefPair Equipped.mk) v data.equipped) ∧
    KeysLive data.wants_to_pickup (loadComp (fun c v2 => { c with equipped := some v2 }) (convRefPair Equipped.mk) v data.equipped) ∧
    FieldVals (fun c => c.wants_to_pickup) (RRef2 WantsToPickupItem.mk) data.wants_to_pickup (loadComp (fun c v2 => { c with equipped := some v2 }) (convRefPair Equipped.mk) v data.equipped) ∧
    KeysLive data.wants_to_use (loadComp (fun c v2 => { c with equipped := some v2 }) (convRefPair Equipped.mk) v data.equipped) ∧
    FieldVals (fun c => c.wants_to_use) (RRefPair WantsToUseItem.mk) data.wants_to_use (loadComp (fun c v2 => { c with equipped := some v2 }) (convRefPair Equipped.mk) v data.equipped) ∧
    KeysLive data.wants_to_drop (loadComp (fun c v2 => { c with equipped := some v2 }) (convRefPair Equipped.mk) v data.equipped) ∧
    FieldVals (fun c => c.wants_to_drop) (RRef WantsToDropItem.mk) data.wants_to_drop (loadComp (fun c v2 => { c with equipped := some v2 }) (convRefPair Equipped.mk) v data.equipped) ∧
    KeysLive data.helpers (loadComp (fun c v2 => { c with equipped := some v2 }) (convRefPair Equipped.mk) v data.equipped) ∧
    FieldVals (fun c => c.serialization_helper) (RPure (fun (h : HelperSave) => SerializationHelper.mk h.map.toMap h.game_log)) data.helpers (loadComp (fun c v2 => { c with equipped := some v2 }) (convRefPair Equipped.mk) v data.equipped) ∧
    KeysLive data.equippables (loadComp (fun c v2 => { c with equipped := some v2 }) (convRefPair Equipped.mk) v data.equipped) ∧
    FieldVals (fun c => c.equippable) (RPure id) data.equippables (loadComp (fun c v2 => { c with equipped := some v2 }) (convRefPair Equipped.mk) v data.equipped) ∧
    KeysLive data.equipped (loadComp (fun c v2 => { c with equipped := some v2 }) (convRefPair Equipped.mk) v data.equipped) ∧
    FieldVals (fun c => c.equipped) (RRefPair Equipped.mk) data.equipped (loadComp (fun c v2 => { c with equipped := some v2 }) (convRefPair Equipped.mk) v data.equipped) ∧
    AllNone (fun c => c.melee_power_bonus) (loadComp (fun c v2 => { c with equipped := some v2 }) (convRefPair Equipped.mk) v data.equipped) ∧
    AllNone (fun c => c.defense_bonus) (loadComp (fun c v2 => { c with equipped := some v2 }) (convRefPair Equipped.mk) v data.equipped) ∧
    AllNone (fun c => c.wants_to_remove) (loadComp (fun c v2 => { c with equipped := some v2 }) (convRefPair Equipped.mk) v data.equipped) ∧
    AllNone (fun c => c.particle_lifetime) (loadComp (fun c v2 => { c with equipped := some v2 }) (convRefPair Equipped.mk) v data.equipped) ∧
    AllNone (fun c => c.hunger_clock) (loadComp (fun c v2 => { c with equipped := some v2 }) (convRefPair Equipped.mk) v data.equipped) ∧
    AllNone (fun c => c.provides_food) (loadComp (fun c v2 => { c with equipped := some v2 }) (convRefPair Equipped.mk) v data.equipped) := by
  obtain ⟨hI2, hle2, hfr2, hklx⟩ := loadComp_struct (fun c v2 => { c with equipped := some v2 }) (convRefPair Equipped.mk) A (fun p => A p.1)
    (fun c a => rfl) (convOK_refPair A Equipped.mk) data.equipped _ hI hA
  have hfvk := loadComp_est (fun c v2 => { c with equipped := some v2 }) (fun c => c.equipped) (convRefPair Equipped.mk) A (fun p => A p.1)
    (RRefPair Equipped.mk) (convOK_refPair A Equipped.mk) (fun v2 b hIv hAb => rval_refPair Equipped.mk v2 b hIv)
    (fun va vb a b hle h => RRefPair_mono Equipped.mk va vb a b hle h) (fun c a => rfl) (fun c a => rfl) (fun m => rfl)
    data.equipped _ hI hkeys hA hN24
  obtain ⟨hoF1, hnF1⟩ := loadComp_obs (fun c v2 => { c with equipped := some v2 }) (convRefPair Equipped.mk) (fun c => c.position) A (fun p => A p.1)
    (fun c a => rfl) (convOK_refPair A Equipped.mk) (fun c a => rfl) (fun m => rfl) data.equipped _ hI hA
  have hfv1b := FieldVals_mono (fun c => c.position) (RPure id) data.positions hle2
    (fun a b h => h)
    (fun e he hn => let ⟨m, h1, h2, _⟩ := hfr2 e he hn; ⟨m, h1, h2⟩)
    hoF1 hnF1 hkl1 hfv1
  have hkl1b := KeysLive_mono hle2 hkl1
  obtain ⟨hoF2, hnF2⟩ := loadComp_obs (fun c v2 => { c with equipped := some v2 }) (convRefPair Equipped.mk) (fun c => c.renderable) A (fun p => A p.1)
    (fun c a => rfl) (convOK_refPair A Equipped.mk) (fun c a => rfl) (fun m => rfl) data.equipped _ hI hA
  have hfv2b := FieldVals_mono (fun c => c.renderable) (RPure id) data.renderables hle2
    (fun a b h => h)
    (fun e he hn => let ⟨m, h1, h2, _⟩ := hfr2 e he hn; ⟨m, h1, h2⟩)
    hoF2 hnF2 hkl2 hfv2
  have hkl2b := KeysLive_mono hle2 hkl2
  obtain ⟨hoF3, hnF3⟩ := loadComp_obs (fun c v2 => { c with equipped := some v2 }) (convRefPair Equipped.mk) (fun c => c.player) A (fun p => A p.1)
    (fun c a => rfl) (convOK_refPair A Equipped.mk) (fun c a => rfl) (fun m => rfl) data.equipped _ hI hA
  have hfv3b := FieldVals_mono (fun c => c.player) (RPure id) data.players hle2
    (fun a b h => h)
    (fun e he hn => let ⟨m, h1, h2, _⟩ := hfr2 e he hn; ⟨m, h1, h2⟩)
    hoF3 hnF3 hkl3 hfv3
  have hkl3b := KeysLive_mono hle2 hkl3
  obtain ⟨hoF4, hnF4⟩ := loadComp_obs (fun c v2 => { c with equipped := some v2 }) (convRefPair Equipped.mk) (fun c => c.viewshed) A (fun p => A p.1)
    (fun c a => rfl) (convOK_refPair A Equipped.mk) (fun c a => rfl) (fun m => rfl) data.equipped _ hI hA
  have hfv4b := FieldVals_mono (fun c => c.viewshed) (RPure id) data.viewsheds hle2
    (fun a b h => h)
    (fun e he hn => let ⟨m, h1, h2, _⟩ := hfr2 e he hn; ⟨m, h1, h2⟩)
    hoF4 hnF4 hkl4 hfv4
  have hkl4b := KeysLive_mono hle2 hkl4
  obtain ⟨hoF5, hnF5⟩ := loadComp_obs (fun c v2 => { c with equipped := some v2 }) (convRefPair Equipped.mk) (fun c => c.monster) A (fun p => A p.1)
    (fun c a => rfl) (convOK_refPair A Equipped.mk) (fun c a => rfl) (fun m => rfl) data.equipped _ hI hA
  have hfv5b := FieldVals_mono (fun c => c.monster) (RPure id) data.monsters hle2
    (fun a b h => h)
    (fun e he hn => let ⟨m, h1, h2, _⟩ := hfr2 e he hn; ⟨m, h1, h2⟩)
    hoF5 hnF5 hkl5 hfv5
  have hkl5b := KeysLive_mono hle2 hkl5
  obtain ⟨hoF6, hnF6⟩ := loadComp_obs (fun c v2 => { c with equipped := some v2 }) (convRefPair Equipped.mk) (fun c => c.name) A (fun p => A p.1)
    (fun c a => rfl) (convOK_refPair A Equipped.mk) (fun c a => rfl) (fun m => rfl) data.equipped _ hI hA
  have hfv6b := FieldVals_mono (fun c => c.name) (RPure id) data.names hle2
    (fun a b h => h)
    (fun e he hn => let ⟨m, h1, h2, _⟩ := hfr2 e he hn; ⟨m, h1, h2⟩)
    hoF6 hnF6 hkl6 hfv6
  have hkl6b := KeysLive_mono hle2 hkl6
  obtain ⟨hoF7, hnF7⟩ := loadComp_obs (fun c v2 => { c with equipped := some v2 }) (convRefPair Equipped.mk) (fun c => c.blocks_tile) A (fun p => A p.1)
    (fun c a => rfl) (convOK_refPair A Equipped.mk) (fun c a => rfl) (fun m => rfl) data.equipped _ hI hA
  have hfv7b := FieldVals_mono (fun c => c.blocks_tile) (RPure id) data.blocks_tile hle2
    (fun a b h => h)
    (fun e he hn => let ⟨m, h1, h2, _⟩ := hfr2 e he hn; ⟨m, h1, h2⟩)
    hoF7 hnF7 hkl7 hfv7
  have hkl7b := KeysLive_mono hle2 hkl7
  obtain ⟨hoF8, hnF8⟩ := loadComp_obs (fun c v2 => { c with equipped := some v2 }) (convRefPair Equipped.mk) (fun c => c.combat_stats) A (fun p => A p.1)
    (fun c a => rfl) (convOK_refPair A Equipped.mk) (fun c a => rfl) (fun m => rfl) data.equipped _ hI hA
  have hfv8b := FieldVals_mono (fun c => c.combat_stats) (RPure id) data.combat_stats hle2
    (fun a b h => h)
    (fun e he hn => let ⟨m, h1, h2, _⟩ := hfr2 e he hn; ⟨m, h1, h2⟩)
    hoF8 hnF8 hkl8 hfv8
  have hkl8b := KeysLive_mono hle2 hkl8
  obtain ⟨hoF9, hnF9⟩ := loadComp_obs (fun c v2 => { c with equipped := some v2 }) (convRefPair Equipped.mk) (fun c => c.suffer_damage) A (fun p => A p.1)
    (fun c a => rfl) (convOK_refPair A Equipped.mk) (fun c a => rfl) (fun m => rfl) data.equipped _ hI hA
  have hfv9b := FieldVals_mono (fun c => c.suffer_damage) (RPure id) data.suffer_damage hle2
    (fun a b h => h)
    (fun e he hn => let ⟨m, h1, h2, _⟩ := hfr2 e he hn; ⟨m, h1, h2⟩)
    hoF9 hnF9 hkl9 hfv9
  have hkl9b := KeysLive_mono hle2 hkl9
  obtain ⟨hoF10, hnF10⟩ := loadComp_obs (fun c v2 => { c with equipped := some v2 }) (convRefPair Equipped.mk) (fun c => c.wants_melee) A (fun p => A p.1)
    (fun c a => rfl) (convOK_refPair A Equipped.mk) (fun c a => rfl) (fun m => rfl) data.equipped _ hI hA
  have hfv10b := FieldVals_mono (fun c => c.wants_melee) (RRef WantsToMelee.mk) data.wants_melee hle2
    (fun a b h => RRef_mono WantsToMelee.mk _ _ a b hle2 h)
    (fun e he hn => let ⟨m, h1, h2, _⟩ := hfr2 e he hn; ⟨m, h1, h2⟩)
    hoF10 hnF10 hkl10 hfv10
  have hkl10b := KeysLive_mono hle2 hkl10
  obtain ⟨hoF11, hnF11⟩ := loadComp_obs (fun c v2 => { c with equipped := some v2 }) (convRefPair Equipped.mk) (fun c => c.item) A (fun p => A p.1)
    (fun c a => rfl) (convOK_refPair A Equipped.mk) (fun c a => rfl) (fun m => rfl) data.equipped _ hI hA
  have hfv11b := FieldVals_mono (fun c => c.item) (RPure id) data.items hle2
    (fun a b h => h)
    (fun e he hn => let ⟨m, h1, h2, _⟩ := hfr2 e he hn; ⟨m, h1, h2⟩)
    hoF11 hnF11 hkl11 hfv11
  have hkl11b := KeysLive_mono hle2 hkl11
  obtain ⟨hoF12, hnF12⟩ := loadComp_obs (fun c v2 => { c with equipped := some v2 }) (convRefPair Equipped.mk) (fun c => c.consumable) A (fun p => A p.1)
    (fun c a => rfl) (convOK_refPair A Equipped.mk) (fun c a => rfl) (fun m => rfl) data.equipped _ hI hA
  have hfv12b := FieldVals_mono (fun c => c.consumable) (RPure id) data.consumables hle2
    (fun a b h => h)
    (fun e he hn => let ⟨m, h1, h2, _⟩ := hfr2 e he hn; ⟨m, h1, h2⟩)
    hoF12 hnF12 hkl12 hfv12
  have hkl12b := KeysLive_mono hle2 hkl12
  obtain ⟨hoF13, hnF13⟩ := loadComp_obs (fun c v2 => { c with equipped := some v2 }) (convRefPair Equipped.mk) (fun c => c.ranged) A (fun p => A p.1)
    (fun c a => rfl) (convOK_refPair A Equipped.mk) (fun c a => rfl) (fun m => rfl) data.equipped _ hI hA
  have hfv13b := FieldVals_mono (fun c => c.ranged) (RPure id) data.ranged hle2
    (fun a b h => h)
    (fun e he hn => let ⟨m, h1, h2, _⟩ := hfr2 e he hn; ⟨m, h1, h2⟩)
    hoF13 hnF13 hkl13 hfv13
  have hkl13b := KeysLive_mono hle2 hkl13
  obtain ⟨hoF14, hnF14⟩ := loadComp_obs (fun c v2 => { c with equipped := some v2 }) (convRefPair Equipped.mk) (fun c => c.inflicts_damage) A (fun p => A p.1)
    (fun c a => rfl) (convOK_refPair A Equipped.mk) (fun c a => rfl) (fun m => rfl) data.equipped _ hI hA
  have hfv14b := FieldVals_mono (fun c => c.inflicts_damage) (RPure id) data.inflicts_damage hle2
    (fun a b h => h)
    (fun e he hn => let ⟨m, h1, h2, _⟩ := hfr2 e he hn; ⟨m, h1, h2⟩)
    hoF14 hnF14 hkl14 hfv14
  have hkl14b := KeysLive_mono hle2 hkl14
  obtain ⟨hoF15, hnF15⟩ := loadComp_obs (fun c v2 => { c with equipped := some v2 }) (convRefPair Equipped.mk) (fun c => c.area_of_effect) A (fun p => A p.1)
    (fun c a => rfl) (convOK_refPair A Equipped.mk) (fun c a => rfl) (fun m => rfl) data.equipped _ hI hA
  have hfv15b := FieldVals_mono (fun c => c.area_of_effect) (RPure id) data.area_of_effect hle2
    (fun a b h => h)
    (fun e he hn => let ⟨m, h1, h2, _⟩ := hfr2 e he hn; ⟨m, h1, h2⟩)
    hoF15 hnF15 hkl15 hfv15
  have hkl15b := KeysLive_mono hle2 hkl15
  obtain ⟨hoF16, hnF16⟩ := loadComp_obs (fun c v2 => { c with equipped := some v2 }) (convRefPair Equipped.mk) (fun c => c.confusion) A (fun p => A p.1)
    (fun c a => rfl) (convOK_refPair A Equipped.mk) (fun c a => rfl) (fun m => rfl) data.equipped _ hI hA
  have hfv16b := FieldVals_mono (fun c => c.confusion) (RPure id) data.confusion hle2
    (fun a b h => h)
    (fun e he hn => let ⟨m, h1, h2, _⟩ := hfr2 e he hn; ⟨m, h1, h2⟩)
    hoF16 hnF16 hkl16 hfv16
  have hkl16b := KeysLive_mono hle2 hkl16
  obtain ⟨hoF17, hnF17⟩ := loadComp_obs (fun c v2 => { c with equipped := some v2 }) (convRefPair Equipped.mk) (fun c => c.provides_healing) A (fun p => A p.1)
    (fun c a => rfl) (convOK_refPair A Equipped.mk) (fun c a => rfl) (fun m => rfl) data.equipped _ hI hA
  have hfv17b := FieldVals_mono (fun c => c.provides_healing) (RPure id) data.provides_healing hle2
    (fun a b h => h)
    (fun e he hn => let ⟨m, h1, h2, _⟩ := hfr2 e he hn; ⟨m, h1, h2⟩)
    hoF17 hnF17 hkl17 hfv17
  have hkl17b := KeysLive_mono hle2 hkl17
  obtain ⟨hoF18, hnF18⟩ := loadComp_obs (fun c v2 => { c with equipped := some v2 }) (convRefPair Equipped.mk) (fun c => c.in_backpack) A (fun p => A p.1)
    (fun c a => rfl) (convOK_refPair A Equipped.mk) (fun c a => rfl) (fun m => rfl) data.equipped _ hI hA
  have hfv18b := FieldVals_mono (fun c => c.in_backpack) (RRef InBackpack.mk) data.in_backpack hle2
    (fun a b h => RRef_mono InBackpack.mk _ _ a b hle2 h)
    (fun e he hn => let ⟨m, h1, h2, _⟩ := hfr2 e he hn; ⟨m, h1, h2⟩)
    hoF18 hnF18 hkl18 hfv18
  have hkl18b := KeysLive_mono hle2 hkl18
  obtain ⟨hoF19, hnF19⟩ := loadComp_obs (fun c v2 => { c with equipped := some v2 }) (convRefPair Equipped.mk) (fun c => c.wants_to_pickup) A (fun p => A p.1)
    (fun c a => rfl) (convOK_refPair A Equipped.mk) (fun c a => rfl) (fun m => rfl) data.equipped _ hI hA
  have hfv19b := FieldVals_mono (fun c => c.wants_to_pickup) (RRef2 WantsToPickupItem.mk) data.wants_to_pickup hle2
    (fun a b h => RRef2_mono WantsToPickupItem.mk _ _ a b hle2 h)
    (fun e he hn => let ⟨m, h1, h2, _⟩ := hfr2 e he hn; ⟨m, h1, h2⟩)
    hoF19 hnF19 hkl19 hfv19
  have hkl19b := KeysLive_mono hle2 hkl19
  obtain ⟨hoF20, hnF20⟩ := loadComp_obs (fun c v2 => { c with equipped := some v2 }) (convRefPair Equipped.mk) (fun c => c.wants_to_use) A (fun p => A p.1)
    (fun c a => rfl) (convOK_refPair A Equipped.mk) (fun c a => rfl) (fun m => rfl) data.equipped _ hI hA
  have hfv20b := FieldVals_mono (fun c => c.wants_to_use) (RRefPair WantsToUseItem.mk) data.wants_to_use hle2
    (fun a b h => RRefPair_mono WantsToUseItem.mk _ _ a b hle2 h)
    (fun e he hn => let ⟨m, h1, h2, _⟩ := hfr2 e he hn; ⟨m, h1, h2⟩)
    hoF20 hnF20 hkl20 hfv20
  have hkl20b := KeysLive_mono hle2 hkl20
  obtain ⟨hoF21, hnF21⟩ := loadComp_obs (fun c v2 => { c with equipped := some v2 }) (convRefPair Equipped.mk) (fun c => c.wants_to_drop) A (fun p => A p.1)
    (fun c a => rfl) (convOK_refPair A Equipped.mk) (fun c a => rfl) (fun m => rfl) data.equipped _ hI hA
  have hfv21b := FieldVals_mono (fun c => c.wants_to_drop) (RRef WantsToDropItem.mk) data.wants_to_drop hle2
    (fun a b h => RRef_mono WantsToDropItem.mk _ _ a b hle2 h)
    (fun e he hn => let ⟨m, h1, h2, _⟩ := hfr2 e he hn; ⟨m, h1, h2⟩)
    hoF21 hnF21 hkl21 hfv21
  have hkl21b := KeysLive_mono hle2 hkl21
  obtain ⟨hoF22, hnF22⟩ := loadComp_obs (fun c v2 => { c with equipped := some v2 }) (convRefPair Equipped.mk) (fun c => c.serialization_helper) A (fun p => A p.1)
    (fun c a => rfl) (convOK_refPair A Equipped.mk) (fun c a => rfl) (fun m => rfl) data.equipped _ hI hA
  have hfv22b := FieldVals_mono (fun c => c.serialization_helper) (RPure (fun (h : HelperSave) => SerializationHelper.mk h.map.toMap h.game_log)) data.helpers hle2
    (fun a b h => h)
    (fun e he hn => let ⟨m, h1, h2, _⟩ := hfr2 e he hn; ⟨m, h1, h2⟩)
    hoF22 hnF22 hkl22 hfv22
  have hkl22b := KeysLive_mono hle2 hkl22
  obtain ⟨hoF23, hnF23⟩ := loadComp_obs (fun c v2 => { c with equipped := some v2 }) (convRefPair Equipped.mk) (fun c => c.equippable) A (fun p => A p.1)
    (fun c a => rfl) (convOK_refPair A Equipped.mk) (fun c a => rfl) (fun m => rfl) data.equipped _ hI hA
  have hfv23b := FieldVals_mono (fun c => c.equippable) (RPure id) data.equippables hle2
    (fun a b h => h)
    (fun e he hn => let ⟨m, h1, h2, _⟩ := hfr2 e he hn; ⟨m, h1, h2⟩)
    hoF23 hnF23 hkl23 hfv23
  have hkl23b := KeysLive_mono hle2 hkl23
  obtain ⟨hoF25, hnF25⟩ := loadComp_obs (fun c v2 => { c with equipped := some v2 }) (convRefPair Equipped.mk) (fun c => c.melee_power_bonus) A (fun p => A p.1)
    (fun c a => rfl) (convOK_refPair A Equipped.mk) (fun c a => rfl) (fun m => rfl) data.equipped _ hI hA
  have hN25b := AllNone_mono (fun c => c.melee_power_bonus) _ _ hoF25 hnF25 hN25
  obtain ⟨hoF26, hnF26⟩ := loadComp_obs (fun c v2 => { c with equipped := some v2 }) (convRefPair Equipped.mk) (fun c => c.defense_bonus) A (fun p => A p.1)
    (fun c a => rfl) (convOK_refPair A Equipped.mk) (fun c a => rfl) (fun m => rfl) data.equipped _ hI hA
  have hN26b := AllNone_mono (fun c => c.defense_bonus) _ _ hoF26 hnF26 hN26
  obtain ⟨hoF27, hnF27⟩ := loadComp_obs (fun c v2 => { c with equipped := some v2 }) (convRefPair Equipped.mk) (fun c => c.wants_to_remove) A (fun p => A p.1)
    (fun c a => rfl) (convOK_refPair A Equipped.mk) (fun c a => rfl) (fun m => rfl) data.equipped _ hI hA
  have hN27b := AllNone_mono (fun c => c.wants_to_remove) _ _ hoF27 hnF27 hN27
  obtain ⟨hoF28, hnF28⟩ := loadComp_obs (fun c v2 => { c with equipped := some v2 }) (convRefPair Equipped.mk) (fun c => c.particle_lifetime) A (fun p => A p.1)
    (fun c a => rfl) (convOK_refPair A Equipped.mk) (fun c a => rfl) (fun m => rfl) data.equipped _ hI hA
  have hN28b := AllNone_mono (fun c => c.particle_lifetime) _ _ hoF28 hnF28 hN28
  obtain ⟨hoF29, hnF29⟩ := loadComp_obs (fun c v2 => { c with equipped := some v2 }) (convRefPair Equipped.mk) (fun c => c.hunger_clock) A (fun p => A p.1)
    (fun c a => rfl) (convOK_refPair A Equipped.mk) (fun c a => rfl) (fun m => rfl) data.equipped _ hI hA
  have hN29b := AllNone_mono (fun c => c.hunger_clock) _ _ hoF29 hnF29 hN29
  obtain ⟨hoF30, hnF30⟩ := loadComp_obs (fun c v2 => { c with equipped := some v2 }) (convRefPair Equipped.mk) (fun c => c.provides_food) A (fun p => A p.1)
    (fun c a => rfl) (convOK_refPair A Equipped.mk) (fun c a => rfl) (fun m => rfl) data.equipped _ hI hA
  have hN30b := AllNone_mono (fun c => c.provides_food) _ _ hoF30 hnF30 hN30
  have hMb := MarksIn_mono hle2 (fun e he hn => let ⟨m, h1, _, h3⟩ := hfr2 e he hn; ⟨m, h1, h3⟩) hM
  exact ⟨hI2, hMb, hkl1b, hfv1b, hkl2b, hfv2b, hkl3b, hfv3b, hkl4b, hfv4b, hkl5b, hfv5b, hkl6b, hfv6b, hkl7b, hfv7b, hkl8b, hfv8b, hkl9b, hfv9b, hkl10b, hfv10b, hkl11b, hfv11b, hkl12b, hfv12b, hkl13b, hfv13b, hkl14b, hfv14b, hkl15b, hfv15b, hkl16b, hfv16b, hkl17b, hfv17b, hkl18b, hfv18b, hkl19b, hfv19b, hkl20b, hfv20b, hkl21b, hfv21b, hkl22b, hfv22b, hkl23b, hfv23b, hklx, hfvk, hN25b, hN26b, hN27b, hN28b, hN29b, hN30b⟩

set_option maxHeartbeats 800000 in
/-- Deserialization pass 25 (melee_power_bonus): it establishes its own list facts
and preserves those of the earlier passes. -/
lemma loadStage25 (A : Nat → Prop) (data : SaveData) (v : World)
    (hI : LoadInv v)
    (hkeys : ((data.melee_power_bonuses).map Prod.fst).Nodup)
    (hA : ∀ p ∈ data.melee_power_bonuses, A p.1)
    (hM : MarksIn A v)
    (hkl1 : KeysLive data.positions v)
    (hfv1 : FieldVals (fun c => c.position) (RPure id) data.positions v)
    (hkl2 : KeysLive data.renderables v)
    (hfv2 : FieldVals (fun c => c.renderable) (RPure id) data.renderables v)
    (hkl3 : KeysLive data.players v)
    (hfv3 : FieldVals (fun c => c.player) (RPure id) data.players v)
    (hkl4 : KeysLive data.viewsheds v)
    (hfv4 : FieldVals (fun c => c.viewshed) (RPure id) data.viewsheds v)
    (hkl5 : KeysLive data.monsters v)
    (hfv5 : FieldVals (fun c => c.monster) (RPure id) data.monsters v)
    (hkl6 : KeysLive data.names v)
    (hfv6 : FieldVals (fun c => c.name) (RPure id) data.names v)
    (hkl7 : KeysLive data.blocks_tile v)
    (hfv7 : FieldVals (fun c => c.blocks_tile) (RPure id) data.blocks_tile v)
    (hkl8 : KeysLive data.combat_stats v)
    (hfv8 : FieldVals (fun c => c.combat_stats) (RPure id) data.combat_stats v)
    (hkl9 : KeysLive data.suffer_damage v)
    (hfv9 : FieldVals (fun c => c.suffer_damage) (RPure id) data.suffer_damage v)
    (hkl10 : KeysLive data.wants_melee v)
    (hfv10 : FieldVals (fun c => c.wants_melee) (RRef WantsToMelee.mk) data.wants_melee v)
    (hkl11 : KeysLive data.items v)
    (hfv11 : FieldVals (fun c => c.item) (RPure id) data.items v)
    (hkl12 : KeysLive data.consumables v)
    (hfv12 : FieldVals (fun c => c.consumable) (RPure id) data.consumables v)
    (hkl13 : KeysLive data.ranged v)
    (hfv13 : FieldVals (fun c => c.ranged) (RPure id) data.ranged v)
    (hkl14 : KeysLive data.inflicts_damage v)
    (hfv14 : FieldVals (fun c => c.inflicts_damage) (RPure id) data.inflicts_damage v)
    (hkl15 : KeysLive data.area_of_effect v)
    (hfv15 : FieldVals (fun c => c.area_of_effect) (RPure id) data.area_of_effect v)
    (hkl16 : KeysLive data.confusion v)
    (hfv16 : FieldVals (fun c => c.confusion) (RPure id) data.confusion v)
    (hkl17 : KeysLive data.provides_healing v)
    (hfv17 : FieldVals (fun c => c.provides_healing) (RPure id) data.provides_healing v)
    (hkl18 : KeysLive data.in_backpack v)
    (hfv18 : FieldVals (fun c => c.in_backpack) (RRef InBackpack.mk) data.in_backpack v)
    (hkl19 : KeysLive data.wants_to_pickup v)
    (hfv19 : FieldVals (fun c => c.wants_to_pickup) (RRef2 WantsToPickupItem.mk) data.wants_to_pickup v)
    (hkl20 : KeysLive data.wants_to_use v)
    (hfv20 : FieldVals (fun c => c.wants_to_use) (RRefPair WantsToUseItem.mk) data.wants_to_use v)
    (hkl21 : KeysLive data.wants_to_drop v)
    (hfv21 : FieldVals (fun c => c.wants_to_drop) (RRef WantsToDropItem.mk) data.wants_to_drop v)
    (hkl22 : KeysLive data.helpers v)
    (hfv22 : FieldVals (fun c => c.serialization_helper) (RPure (fun (h : HelperSave) => SerializationHelper.mk h.map.toMap h.game_log)) data.helpers v)
    (hkl23 : KeysLive data.equippables v)
    (hfv23 : FieldVals (fun c => c.equippable) (RPure id) data.equippables v)
    (hkl24 : KeysLive data.equipped v)
    (hfv24 : FieldVals (fun c => c.equipped) (RRefPair Equipped.mk) data.equipped v)
    (hN25 : AllNone (fun c => c.melee_power_bonus) v)
    (hN26 : AllNone (fun c => c.defense_bonus) v)
    (hN27 : AllNone (fun c => c.wants_to_remove) v)
    (hN28 : AllNone (fun c => c.particle_lifetime) v)
    (hN29 : AllNone (fun c => c.hunger_clock) v)
    (hN30 : AllNone (fun c => c.provides_food) v)
    :
    LoadInv (loadComp (fun c v2 => { c with melee_power_bonus := some v2 }) convPure v data.melee_power_bonuses) ∧
    MarksIn A (loadComp (fun c v2 => { c with melee_power_bonus := some v2 }) convPure v data.melee_power_bonuses) ∧
    KeysLive data.positions (loadComp (fun c v2 => { c with melee_power_bonus := some v2 }) convPure v data.melee_power_bonuses) ∧
    FieldVals (fun c => c.position) (RPure id) data.positions (loadComp (fun c v2 => { c with melee_power_bonus := some v2 }) convPure v data.melee_power_bonuses) ∧
    KeysLive data.renderables (loadComp (fun c v2 => { c with melee_power_bonus := some v2 }) convPure v data.melee_power_bonuses) ∧
    FieldVals (fun c => c.renderable) (RPure id) data.renderables (loadComp (fun c v2 => { c with melee_power_bonus := some v2 }) convPure v data.melee_power_bonuses) ∧
    KeysLive data.players (loadComp (fun c v2 => { c with melee_power_bonus := some v2 }) convPure v data.melee_power_bonuses) ∧
    FieldVals (fun c => c.player) (RPure id) data.players (loadComp (fun c v2 => { c with melee_power_bonus := some v2 }) convPure v data.melee_power_bonuses) ∧
    KeysLive data.viewsheds (loadComp (fun c v2 => { c with melee_power_bonus := some v2 }) convPure v data.melee_power_bonuses) ∧
    FieldVals (fun c => c.viewshed) (RPure id) data.viewsheds (loadComp (fun c v2 => { c with melee_power_bonus := some v2 }) convPure v data.melee_power_bonuses) ∧
    KeysLive data.monsters (loadComp (fun c v2 => { c with melee_power_bonus := some v2 }) convPure v data.melee_power_bonuses) ∧
    FieldVals (fun c => c.monster) (RPure id) data.monsters (loadComp (fun c v2 => { c with melee_power_bonus := some v2 }) convPure v data.melee_power_bonuses) ∧
    KeysLive data.names (loadComp (fun c v2 => { c with melee_power_bonus := some v2 }) convPure v data.melee_power_bonuses) ∧
    FieldVals (fun c => c.name) (RPure id) data.names (loadComp (fun c v2 => { c with melee_power_bonus := some v2 }) convPure v data.melee_power_bonuses) ∧
    KeysLive data.blocks_tile (loadComp (fun c v2 => { c with melee_power_bonus := some v2 }) convPure v data.melee_power_bonuses) ∧
    FieldVals (fun c => c.blocks_tile) (RPure id) data.blocks_tile (loadComp (fun c v2 => { c with melee_power_bonus := some v2 }) convPure v data.melee_power_bonuses) ∧
    KeysLive data.combat_stats (loadComp (fun c v2 => { c with melee_power_bonus := some v2 }) convPure v data.melee_power_bonuses) ∧
    FieldVals (fun c => c.combat_stats) (RPure id) data.combat_stats (loadComp (fun c v2 => { c with melee_power_bonus := some v2 }) convPure v data.melee_power_bonuses) ∧
    KeysLive data.suffer_damage (loadComp (fun c v2 => { c with melee_power_bonus := some v2 }) convPure v data.melee_power_bonuses) ∧
    FieldVals (fun c => c.suffer_damage) (RPure id) data.suffer_damage (loadComp (fun c v2 => { c with melee_power_bonus := some v2 }) convPure v data.melee_power_bonuses) ∧
    KeysLive data.wants_melee (loadComp (fun c v2 => { c with melee_power_bonus := some v2 }) convPure v data.melee_power_bonuses) ∧
    FieldVals (fun c => c.wants_melee) (RRef WantsToMelee.mk) data.wants_melee (loadComp (fun c v2 => { c with melee_power_bonus := some v2 }) convPure v data.melee_power_bonuses) ∧
    KeysLive data.items (loadComp (fun c v2 => { c with melee_power_bonus := some v2 }) convPure v data.melee_power_bonuses) ∧
    FieldVals (fun c => c.item) (RPure id) data.items (loadComp (fun c v2 => { c with melee_power_bonus := some v2 }) convPure v data.melee_power_bonuses) ∧
    KeysLive data.consumables (loadComp (fun c v2 => { c with melee_power_bonus := some v2 }) convPure v data.melee_power_bonuses) ∧
    FieldVals (fun c => c.consumable) (RPure id) data.consumables (loadComp (fun c v2 => { c with melee_power_bonus := some v2 }) convPure v data.melee_power_bonuses) ∧
    KeysLive data.ranged (loadComp (fun c v2 => { c with melee_power_bonus := some v2 }) convPure v data.melee_power_bonuses) ∧
    FieldVals (fun c => c.ranged) (RPure id) data.ranged (loadComp (fun c v2 => { c with melee_power_bonus := some v2 }) convPure v data.melee_power_bonuses) ∧
    KeysLive data.inflicts_damage (loadComp (fun c v2 => { c with melee_power_bonus := some v2 }) convPure v data.melee_power_bonuses) ∧
    FieldVals (fun c => c.inflicts_damage) (RPure id) data.inflicts_damage (loadComp (fun c v2 => { c with melee_power_bonus := some v2 }) convPure v data.melee_power_bonuses) ∧
    KeysLive data.area_of_effect (loadComp (fun c v2 => { c with melee_power_bonus := some v2 }) convPure v data.melee_power_bonuses) ∧
    FieldVals (fun c => c.area_of_effect) (RPure id) data.area_of_effect (loadComp (fun c v2 => { c with melee_power_bonus := some v2 }) convPure v data.melee_power_bonuses) ∧
    KeysLive data.confusion (loadComp (fun c v2 => { c with melee_power_bonus := some v2 }) convPure v data.melee_power_bonuses) ∧
    FieldVals (fun c => c.confusion) (RPure id) data.confusion (loadComp (fun c v2 => { c with melee_power_bonus := some v2 }) convPure v data.melee_power_bonuses) ∧
    KeysLive data.provides_healing (loadComp (fun c v2 => { c with melee_power_bonus := some v2 }) convPure v data.melee_power_bonuses) ∧
    FieldVals (fun c => c.provides_healing) (RPure id) data.provides_healing (loadComp (fun c v2 => { c with melee_power_bonus := some v2 }) convPure v data.melee_power_bonuses) ∧
    KeysLive data.in_backpack (loadComp (fun c v2 => { c with melee_power_bonus := some v2 }) convPure v data.melee_power_bonuses) ∧
    FieldVals (fun c => c.in_backpack) (RRef InBackpack.mk) data.in_backpack (loadComp (fun c v2 => { c with melee_power_bonus := some v2 }) convPure v data.melee_power_bonuses) ∧
    KeysLive data.wants_to_pickup (loadComp (fun c v2 => { c with melee_power_bonus := some v2 }) convPure v data.melee_power_bonuses) ∧
    FieldVals (fun c => c.wants_to_pickup) (RRef2 WantsToPickupItem.mk) data.wants_to_pickup (loadComp (fun c v2 => { c with melee_power_bonus := some v2 }) convPure v data.melee_power_bonuses) ∧
    KeysLive data.wants_to_use (loadComp (fun c v2 => { c with melee_power_bonus := some v2 }) convPure v data.melee_power_bonuses) ∧
    FieldVals (fun c => c.wants_to_use) (RRefPair WantsToUseItem.mk) data.wants_to_use (loadComp (fun c v2 => { c with melee_power_bonus := some v2 }) convPure v data.melee_power_bonuses) ∧
    KeysLive data.wants_to_drop (loadComp (fun c v2 => { c with melee_power_bonus := some v2 }) convPure v data.melee_power_bonuses) ∧
    FieldVals (fun c => c.wants_to_drop) (RRef WantsToDropItem.mk) data.wants_to_drop (loadComp (fun c v2 => { c with melee_power_bonus := some v2 }) convPure v data.melee_power_bonuses) ∧
    KeysLive data.helpers (loadComp (fun c v2 => { c with melee_power_bonus := some v2 }) convPure v data.melee_power_bonuses) ∧
    FieldVals (fun c => c.serialization_helper) (RPure (fun (h : HelperSave) => SerializationHelper.mk h.map.toMap h.game_log)) data.helpers (loadComp (fun c v2 => { c with melee_power_bonus := some v2 }) convPure v data.melee_power_bonuses) ∧
    KeysLive data.equippables (loadComp (fun c v2 => { c with melee_power_bonus := some v2 }) convPure v data.melee_power_bonuses) ∧
    FieldVals (fun c => c.equippable) (RPure id) data.equippables (loadComp (fun c v2 => { c with melee_power_bonus := some v2 }) convPure v data.melee_power_bonuses) ∧
    KeysLive data.equipped (loadComp (fun c v2 => { c with melee_power_bonus := some v2 }) convPure v data.melee_power_bonuses) ∧
    FieldVals (fun c => c.equipped) (RRefPair Equipped.mk) data.equipped (loadComp (fun c v2 => { c with melee_power_bonus := some v2 }) convPure v data.melee_power_bonuses) ∧
    KeysLive data.melee_power_bonuses (loadComp (fun c v2 => { c with melee_power_bonus := some v2 }) convPure v data.melee_power_bonuses) ∧
    FieldVals (fun c => c.melee_power_bonus) (RPure id) data.melee_power_bonuses (loadComp (fun c v2 => { c with melee_power_bonus := some v2 }) convPure v data.melee_power_bonuses) ∧
    AllNone (fun c => c.defense_bonus) (loadComp (fun c v2 => { c with melee_power_bonus := some v2 }) convPure v data.melee_power_bonuses) ∧
    AllNone (fun c => c.wants_to_remove) (loadComp (fun c v2 => { c with melee_power_bonus := some v2 }) convPure v data.melee_power_bonuses) ∧
    AllNone (fun c => c.particle_lifetime) (loadComp (fun c v2 => { c with melee_power_bonus := some v2 }) convPure v data.melee_power_bonuses) ∧
    AllNone (fun c => c.hunger_clock) (loadComp (fun c v2 => { c with melee_power_bonus := some v2 }) convPure v data.melee_power_bonuses) ∧
    AllNone (fun c => c.provides_food) (loadComp (fun c v2 => { c with melee_power_bonus := some v2 }) convPure v data.melee_power_bonuses) := by
  obtain ⟨hI2, hle2, hfr2, hklx⟩ := loadComp_struct (fun c v2 => { c with melee_power_bonus := some v2 }) convPure A (fun _ => True)
    (fun c a => rfl) (convOK_pure A) data.melee_power_bonuses _ hI (fun p hp => ⟨hA p hp, trivial⟩)
  have hfvk := loadComp_est (fun c v2 => { c with melee_power_bonus := some v2 }) (fun c => c.melee_power_bonus) convPure A (fun _ => True)
    (RPure id) (convOK_pure A) (fun v2 b hIv hAb => rfl)
    (fun va vb a b hle h => h) (fun c a => rfl) (fun c a => rfl) (fun m => rfl)
    data.melee_power_bonuses _ hI hkeys (fun p hp => ⟨hA p hp, trivial⟩) hN25
  obtain ⟨hoF1, hnF1⟩ := loadComp_obs (fun c v2 => { c with melee_power_bonus := some v2 }) convPure (fun c => c.position) A (fun _ => True)
    (fun c a => rfl) (convOK_pure A) (fun c a => rfl) (fun m => rfl) data.melee_power_bonuses _ hI (fun p hp => ⟨hA p hp, trivial⟩)
  have hfv1b := FieldVals_mono (fun c => c.position) (RPure id) data.positions hle2
    (fun a b h => h)
    (fun e he hn => let ⟨m, h1, h2, _⟩ := hfr2 e he hn; ⟨m, h1, h2⟩)
    hoF1 hnF1 hkl1 hfv1
  have hkl1b := KeysLive_mono hle2 hkl1
  obtain ⟨hoF2, hnF2⟩ := loadComp_obs (fun c v2 => { c with melee_power_bonus := some v2 }) convPure (fun c => c.renderable) A (fun _ => True)
    (fun c a => rfl) (convOK_pure A) (fun c a => rfl) (fun m => rfl) data.melee_power_bonuses _ hI (fun p hp => ⟨hA p hp, trivial⟩)
  have hfv2b := FieldVals_mono (fun c => c.renderable) (RPure id) data.renderables hle2
    (fun a b h => h)
    (fun e he hn => let ⟨m, h1, h2, _⟩ := hfr2 e he hn; ⟨m, h1, h2⟩)
    hoF2 hnF2 hkl2 hfv2
  have hkl2b := KeysLive_mono hle2 hkl2
  obtain ⟨hoF3, hnF3⟩ := loadComp_obs (fun c v2 => { c with melee_power_bonus := some v2 }) convPure (fun c => c.player) A (fun _ => True)
    (fun c a => rfl) (convOK_pure A) (fun c a => rfl) (fun m => rfl) data.melee_power_bonuses _ hI (fun p hp => ⟨hA p hp, trivial⟩)
  have hfv3b := FieldVals_mono (fun c => c.player) (RPure id) data.players hle2
    (fun a b h => h)
    (fun e he hn => let ⟨m, h1, h2, _⟩ := hfr2 e he hn; ⟨m, h1, h2⟩)
    hoF3 hnF3 hkl3 hfv3
  have hkl3b := KeysLive_mono hle2 hkl3
  obtain ⟨hoF4, hnF4⟩ := loadComp_obs (fun c v2 => { c with melee_power_bonus := some v2 }) convPure (fun c => c.viewshed) A (fun _ => True)
    (fun c a => rfl) (convOK_pure A) (fun c a => rfl) (fun m => rfl) data.melee_power_bonuses _ hI (fun p hp => ⟨hA p hp, trivial⟩)
  have hfv4b := FieldVals_mono (fun c => c.viewshed) (RPure id) data.viewsheds hle2
    (fun a b h => h)
    (fun e he hn => let ⟨m, h1, h2, _⟩ := hfr2 e he hn; ⟨m, h1, h2⟩)
    hoF4 hnF4 hkl4 hfv4
  have hkl4b := KeysLive_mono hle2 hkl4
  obtain ⟨hoF5, hnF5⟩ := loadComp_obs (fun c v2 => { c with melee_power_bonus := some v2 }) convPure (fun c => c.monster) A (fun _ => True)
    (fun c a => rfl) (convOK_pure A) (fun c a => rfl) (fun m => rfl) data.melee_power_bonuses _ hI (fun p hp => ⟨hA p hp, trivial⟩)
  have hfv5b := FieldVals_mono (fun c => c.monster) (RPure id) data.monsters hle2
    (fun a b h => h)
    (fun e he hn => let ⟨m, h1, h2, _⟩ := hfr2 e he hn; ⟨m, h1, h2⟩)
    hoF5 hnF5 hkl5 hfv5
  have hkl5b := KeysLive_mono hle2 hkl5
  obtain ⟨hoF6, hnF6⟩ := loadComp_obs (fun c v2 => { c with melee_power_bonus := some v2 }) convPure (fun c => c.name) A (fun _ => True)
    (fun c a => rfl) (convOK_pure A) (fun c a => rfl) (fun m => rfl) data.melee_power_bonuses _ hI (fun p hp => ⟨hA p hp, trivial⟩)
  have hfv6b := FieldVals_mono (fun c => c.name) (RPure id) data.names hle2
    (fun a b h => h)
    (fun e he hn => let ⟨m, h1, h2, _⟩ := hfr2 e he hn; ⟨m, h1, h2⟩)
    hoF6 hnF6 hkl6 hfv6
  have hkl6b := KeysLive_mono hle2 hkl6
  obtain ⟨hoF7, hnF7⟩ := loadComp_obs (fun c v2 => { c with melee_power_bonus := some v2 }) convPure (fun c => c.blocks_tile) A (fun _ => True)
    (fun c a => rfl) (convOK_pure A) (fun c a => rfl) (fun m => rfl) data.melee_power_bonuses _ hI (fun p hp => ⟨hA p hp, trivial⟩)
  have hfv7b := FieldVals_mono (fun c => c.blocks_tile) (RPure id) data.blocks_tile hle2
    (fun a b h => h)
    (fun e he hn => let ⟨m, h1, h2, _⟩ := hfr2 e he hn; ⟨m, h1, h2⟩)
    hoF7 hnF7 hkl7 hfv7
  have hkl7b := KeysLive_mono hle2 hkl7
  obtain ⟨hoF8, hnF8⟩ := loadComp_obs (fun c v2 => { c with melee_power_bonus := some v2 }) convPure (fun c => c.combat_stats) A (fun _ => True)
    (fun c a => rfl) (convOK_pure A) (fun c a => rfl) (fun m => rfl) data.melee_power_bonuses _ hI (fun p hp => ⟨hA p hp, trivial⟩)
  have hfv8b := FieldVals_mono (fun c => c.combat_stats) (RPure id) data.combat_stats hle2
    (fun a b h => h)
    (fun e he hn => let ⟨m, h1, h2, _⟩ := hfr2 e he hn; ⟨m, h1, h2⟩)
    hoF8 hnF8 hkl8 hfv8
  have hkl8b := KeysLive_mono hle2 hkl8
  obtain ⟨hoF9, hnF9⟩ := loadComp_obs (fun c v2 => { c with melee_power_bonus := some v2 }) convPure (fun c => c.suffer_damage) A (fun _ => True)
    (fun c a => rfl) (convOK_pure A) (fun c a => rfl) (fun m => rfl) data.melee_power_bonuses _ hI (fun p hp => ⟨hA p hp, trivial⟩)
  have hfv9b := FieldVals_mono (fun c => c.suffer_damage) (RPure id) data.suffer_damage hle2
    (fun a b h => h)
    (fun e he hn => let ⟨m, h1, h2, _⟩ := hfr2 e he hn; ⟨m, h1, h2⟩)
    hoF9 hnF9 hkl9 hfv9
  have hkl9b := KeysLive_mono hle2 hkl9
  obtain ⟨hoF10, hnF10⟩ := loadComp_obs (fun c v2 => { c with melee_power_bonus := some v2 }) convPure (fun c => c.wants_melee) A (fun _ => True)
    (fun c a => rfl) (convOK_pure A) (fun c a => rfl) (fun m => rfl) data.melee_power_bonuses _ hI (fun p hp => ⟨hA p hp, trivial⟩)
  have hfv10b := FieldVals_mono (fun c => c.wants_melee) (RRef WantsToMelee.mk) data.wants_melee hle2
    (fun a b h => RRef_mono WantsToMelee.mk _ _ a b hle2 h)
    (fun e he hn => let ⟨m, h1, h2, _⟩ := hfr2 e he hn; ⟨m, h1, h2⟩)
    hoF10 hnF10 hkl10 hfv10
  have hkl10b := KeysLive_mono hle2 hkl10
  obtain ⟨hoF11, hnF11⟩ := loadComp_obs (fun c v2 => { c with melee_power_bonus := some v2 }) convPure (fun c => c.item) A (fun _ => True)
    (fun c a => rfl) (convOK_pure A) (fun c a => rfl) (fun m => rfl) data.melee_power_bonuses _ hI (fun p hp => ⟨hA p hp, trivial⟩)
  have hfv11b := FieldVals_mono (fun c => c.item) (RPure id) data.items hle2
    (fun a b h => h)
    (fun e he hn => let ⟨m, h1, h2, _⟩ := hfr2 e he hn; ⟨m, h1, h2⟩)
    hoF11 hnF11 hkl11 hfv11
  have hkl11b := KeysLive_mono hle2 hkl11
  obtain ⟨hoF12, hnF12⟩ := loadComp_obs (fun c v2 => { c with melee_power_bonus := some v2 }) convPure (fun c => c.consumable) A (fun _ => True)
    (fun c a => rfl) (convOK_pure A) (fun c a => rfl) (fun m => rfl) data.melee_power_bonuses _ hI (fun p hp => ⟨hA p hp, trivial⟩)
  have hfv12b := FieldVals_mono (fun c => c.consumable) (RPure id) data.consumables hle2
    (fun a b h => h)
    (fun e he hn => let ⟨m, h1, h2, _⟩ := hfr2 e he hn; ⟨m, h1, h2⟩)
    hoF12 hnF12 hkl12 hfv12
  have hkl12b := KeysLive_mono hle2 hkl12
  obtain ⟨hoF13, hnF13⟩ := loadComp_obs (fun c v2 => { c with melee_power_bonus := some v2 }) convPure (fun c => c.ranged) A (fun _ => True)
    (fun c a => rfl) (convOK_pure A) (fun c a => rfl) (fun m => rfl) data.melee_power_bonuses _ hI (fun p hp => ⟨hA p hp, trivial⟩)
  have hfv13b := FieldVals_mono (fun c => c.ranged) (RPure id) data.ranged hle2
    (fun a b h => h)
    (fun e he hn => let ⟨m, h1, h2, _⟩ := hfr2 e he hn; ⟨m, h1, h2⟩)
    hoF13 hnF13 hkl13 hfv13
  have hkl13b := KeysLive_mono hle2 hkl13
  obtain ⟨hoF14, hnF14⟩ := loadComp_obs (fun c v2 => { c with melee_power_bonus := some v2 }) convPure (fun c => c.inflicts_damage) A (fun _ => True)
    (fun c a => rfl) (convOK_pure A) (fun c a => rfl) (fun m => rfl) data.melee_power_bonuses _ hI (fun p hp => ⟨hA p hp, trivial⟩)
  have hfv14b := FieldVals_mono (fun c => c.inflicts_damage) (RPure id) data.inflicts_damage hle2
    (fun a b h => h)
    (fun e he hn => let ⟨m, h1, h2, _⟩ := hfr2 e he hn; ⟨m, h1, h2⟩)
    hoF14 hnF14 hkl14 hfv14
  have hkl14b := KeysLive_mono hle2 hkl14
  obtain ⟨hoF15, hnF15⟩ := loadComp_obs (fun c v2 => { c with melee_power_bonus := some v2 }) convPure (fun c => c.area_of_effect) A (fun _ => True)
    (fun c a => rfl) (convOK_pure A) (fun c a => rfl) (fun m => rfl) data.melee_power_bonuses _ hI (fun p hp => ⟨hA p hp, trivial⟩)
  have hfv15b := FieldVals_mono (fun c => c.area_of_effect) (RPure id) data.area_of_effect hle2
    (fun a b h => h)
    (fun e he hn => let ⟨m, h1, h2, _⟩ := hfr2 e he hn; ⟨m, h1, h2⟩)
    hoF15 hnF15 hkl15 hfv15
  have hkl15b := KeysLive_mono hle2 hkl15
  obtain ⟨hoF16, hnF16⟩ := loadComp_obs (fun c v2 => { c with melee_power_bonus := some v2 }) convPure (fun c => c.confusion) A (fun _ => True)
    (fun c a => rfl) (convOK_pure A) (fun c a => rfl) (fun m => rfl) data.melee_power_bonuses _ hI (fun p hp => ⟨hA p hp, trivial⟩)
  have hfv16b := FieldVals_mono (fun c => c.confusion) (RPure id) data.confusion hle2
    (fun a b h => h)
    (fun e he hn => let ⟨m, h1, h2, _⟩ := hfr2 e he hn; ⟨m, h1, h2⟩)
    hoF16 hnF16 hkl16 hfv16
  have hkl16b := KeysLive_mono hle2 hkl16
  obtain ⟨hoF17, hnF17⟩ := loadComp_obs (fun c v2 => { c with melee_power_bonus := some v2 }) convPure (fun c => c.provides_healing) A (fun _ => True)
    (fun c a => rfl) (convOK_pure A) (fun c a => rfl) (fun m => rfl) data.melee_power_bonuses _ hI (fun p hp => ⟨hA p hp, trivial⟩)
  have hfv17b := FieldVals_mono (fun c => c.provides_healing) (RPure id) data.provides_healing hle2
    (fun a b h => h)
    (fun e he hn => let ⟨m, h1, h2, _⟩ := hfr2 e he hn; ⟨m, h1, h2⟩)
    hoF17 hnF17 hkl17 hfv17
  have hkl17b := KeysLive_mono hle2 hkl17
  obtain ⟨hoF18, hnF18⟩ := loadComp_obs (fun c v2 => { c with melee_power_bonus := some v2 }) convPure (fun c => c.in_backpack) A (fun _ => True)
    (fun c a => rfl) (convOK_pure A) (fun c a => rfl) (fun m => rfl) data.melee_power_bonuses _ hI (fun p hp => ⟨hA p hp, trivial⟩)
  have hfv18b := FieldVals_mono (fun c => c.in_backpack) (RRef InBackpack.mk) data.in_backpack hle2
    (fun a b h => RRef_mono InBackpack.mk _ _ a b hle2 h)
    (fun e he hn => let ⟨m, h1, h2, _⟩ := hfr2 e he hn; ⟨m, h1, h2⟩)
    hoF18 hnF18 hkl18 hfv18
  have hkl18b := KeysLive_mono hle2 hkl18
  obtain ⟨hoF19, hnF19⟩ := loadComp_obs (fun c v2 => { c with melee_power_bonus := some v2 }) convPure (fun c => c.wants_to_pickup) A (fun _ => True)
    (fun c a => rfl) (convOK_pure A) (fun c a => rfl) (fun m => rfl) data.melee_power_bonuses _ hI (fun p hp => ⟨hA p hp, trivial⟩)
  have hfv19b := FieldVals_mono (fun c => c.wants_to_pickup) (RRef2 WantsToPickupItem.mk) data.wants_to_pickup hle2
    (fun a b h => RRef2_mono WantsToPickupItem.mk _ _ a b hle2 h)
    (fun e he hn => let ⟨m, h1, h2, _⟩ := hfr2 e he hn; ⟨m, h1, h2⟩)
    hoF19 hnF19 hkl19 hfv19
  have hkl19b := KeysLive_mono hle2 hkl19
  obtain ⟨hoF20, hnF20⟩ := loadComp_obs (fun c v2 => { c with melee_power_bonus := some v2 }) convPure (fun c => c.wants_to_use) A (fun _ => True)
    (fun c a => rfl) (convOK_pure A) (fun c a => rfl) (fun m => rfl) data.melee_power_bonuses _ hI (fun p hp => ⟨hA p hp, trivial⟩)
  have hfv20b := FieldVals_mono (fun c => c.wants_to_use) (RRefPair WantsToUseItem.mk) data.wants_to_use hle2
    (fun a b h => RRefPair_mono WantsToUseItem.mk _ _ a b hle2 h)
    (fun e he hn => let ⟨m, h1, h2, _⟩ := hfr2 e he hn; ⟨m, h1, h2⟩)
    hoF20 hnF20 hkl20 hfv20
  have hkl20b := KeysLive_mono hle2 hkl20
  obtain ⟨hoF21, hnF21⟩ := loadComp_obs (fun c v2 => { c with melee_power_bonus := some v2 }) convPure (fun c => c.wants_to_drop) A (fun _ => True)
    (fun c a => rfl) (convOK_pure A) (fun c a => rfl) (fun m => rfl) data.melee_power_bonuses _ hI (fun p hp => ⟨hA p hp, trivial⟩)
  have hfv21b := FieldVals_mono (fun c => c.wants_to_drop) (RRef WantsToDropItem.mk) data.wants_to_drop hle2
    (fun a b h => RRef_mono WantsToDropItem.mk _ _ a b hle2 h)
    (fun e he hn => let ⟨m, h1, h2, _⟩ := hfr2 e he hn; ⟨m, h1, h2⟩)
    hoF21 hnF21 hkl21 hfv21
  have hkl21b := KeysLive_mono hle2 hkl21
  obtain ⟨hoF22, hnF22⟩ := loadComp_obs (fun c v2 => { c with melee_power_bonus := some v2 }) convPure (fun c => c.serialization_helper) A (fun _ => True)
    (fun c a => rfl) (convOK_pure A) (fun c a => rfl) (fun m => rfl) data.melee_power_bonuses _ hI (fun p hp => ⟨hA p hp, trivial⟩)
  have hfv22b := FieldVals_mono (fun c => c.serialization_helper) (RPure (fun (h : HelperSave) => SerializationHelper.mk h.map.toMap h.game_log)) data.helpers hle2
    (fun a b h => h)
    (fun e he hn => let ⟨m, h1, h2, _⟩ := hfr2 e he hn; ⟨m, h1, h2⟩)
    hoF22 hnF22 hkl22 hfv22
  have hkl22b := KeysLive_mono hle2 hkl22
  obtain ⟨hoF23, hnF23⟩ := loadComp_obs (fun c v2 => { c with melee_power_bonus := some v2 }) convPure (fun c => c.equippable) A (fun _ => True)
    (fun c a => rfl) (convOK_pure A) (fun c a => rfl) (fun m => rfl) data.melee_power_bonuses _ hI (fun p hp => ⟨hA p hp, trivial⟩)
  have hfv23b := FieldVals_mono (fun c => c.equippable) (RPure id) data.equippables hle2
    (fun a b h => h)
    (fun e he hn => let ⟨m, h1, h2, _⟩ := hfr2 e he hn; ⟨m, h1, h2⟩)
    hoF23 hnF23 hkl23 hfv23
  have hkl23b := KeysLive_mono hle2 hkl23
  obtain ⟨hoF24, hnF24⟩ := loadComp_obs (fun c v2 => { c with melee_power_bonus := some v2 }) convPure (fun c => c.equipped) A (fun _ => True)
    (fun c a => rfl) (convOK_pure A) (fun c a => rfl) (fun m => rfl) data.melee_power_bonuses _ hI (fun p hp => ⟨hA p hp, trivial⟩)
  have hfv24b := FieldVals_mono (fun c => c.equipped) (RRefPair Equipped.mk) data.equipped hle2
    (fun a b h => RRefPair_mono Equipped.mk _ _ a b hle2 h)
    (fun e he hn => let ⟨m, h1, h2, _⟩ := hfr2 e he hn; ⟨m, h1, h2⟩)
    hoF24 hnF24 hkl24 hfv24
  have hkl24b := KeysLive_mono hle2 hkl24
  obtain ⟨hoF26, hnF26⟩ := loadComp_obs (fun c v2 => { c with melee_power_bonus := some v2 }) convPure (fun c => c.defense_bonus) A (fun _ => True)
    (fun c a => rfl) (convOK_pure A) (fun c a => rfl) (fun m => rfl) data.melee_power_bonuses _ hI (fun p hp => ⟨hA p hp, trivial⟩)
  have hN26b := AllNone_mono (fun c => c.defense_bonus) _ _ hoF26 hnF26 hN26
  obtain ⟨hoF27, hnF27⟩ := loadComp_obs (fun c v2 => { c with melee_power_bonus := some v2 }) convPure (fun c => c.wants_to_remove) A (fun _ => True)
    (fun c a => rfl) (convOK_pure A) (fun c a => rfl) (fun m => rfl) data.melee_power_bonuses _ hI (fun p hp => ⟨hA p hp, trivial⟩)
  have hN27b := AllNone_mono (fun c => c.wants_to_remove) _ _ hoF27 hnF27 hN27
  obtain ⟨hoF28, hnF28⟩ := loadComp_obs (fun c v2 => { c with melee_power_bonus := some v2 }) convPure (fun c => c.particle_lifetime) A (fun _ => True)
    (fun c a => rfl) (convOK_pure A) (fun c a => rfl) (fun m => rfl) data.melee_power_bonuses _ hI (fun p hp => ⟨hA p hp, trivial⟩)
  have hN28b := AllNone_mono (fun c => c.particle_lifetime) _ _ hoF28 hnF28 hN28
  obtain ⟨hoF29, hnF29⟩ := loadComp_obs (fun c v2 => { c with melee_power_bonus := some v2 }) convPure (fun c => c.hunger_clock) A (fun _ => True)
    (fun c a => rfl) (convOK_pure A) (fun c a => rfl) (fun m => rfl) data.melee_power_bonuses _ hI (fun p hp => ⟨hA p hp, trivial⟩)
  have hN29b := AllNone_mono (fun c => c.hunger_clock) _ _ hoF29 hnF29 hN29
  obtain ⟨hoF30, hnF30⟩ := loadComp_obs (fun c v2 => { c with melee_power_bonus := some v2 }) convPure (fun c => c.provides_food) A (fun _ => True)
    (fun c a => rfl) (convOK_pure A) (fun c a => rfl) (fun m => rfl) data.melee_power_bonuses _ hI (fun p hp => ⟨hA p hp, trivial⟩)
  have hN30b := AllNone_mono (fun c => c.provides_food) _ _ hoF30 hnF30 hN30
  have hMb := MarksIn_mono hle2 (fun e he hn => let ⟨m, h1, _, h3⟩ := hfr2 e he hn; ⟨m, h1, h3⟩) hM
  exact ⟨hI2, hMb, hkl1b, hfv1b, hkl2b, hfv2b, hkl3b, hfv3b, hkl4b, hfv4b, hkl5b, hfv5b, hkl6b, hfv6b, hkl7b, hfv7b, hkl8b, hfv8b, hkl9b, hfv9b, hkl10b, hfv10b, hkl11b, hfv11b, hkl12b, hfv12b, hkl13b, hfv13b, hkl14b, hfv14b, hkl15b, hfv15b, hkl16b, hfv16b, hkl17b, hfv17b, hkl18b, hfv18b, hkl19b, hfv19b, hkl20b, hfv20b, hkl21b, hfv21b, hkl22b, hfv22b, hkl23b, hfv23b, hkl24b, hfv24b, hklx, hfvk, hN26b, hN27b, hN28b, hN29b, hN30b⟩

set_option maxHeartbeats 800000 in
/-- Deserialization pass 26 (defense_bonus): it establishes its own list facts
and preserves those of the earlier passes. -/
lemma loadStage26 (A : Nat → Prop) (data : SaveData) (v : World)
    (hI : LoadInv v)
    (hkeys : ((data.defense_bonuses).map Prod.fst).Nodup)
    (hA : ∀ p ∈ data.defense_bonuses, A p.1)
    (hM : MarksIn A v)
    (hkl1 : KeysLive data.positions v)
    (hfv1 : FieldVals (fun c => c.position) (RPure id) data.positions v)
    (hkl2 : KeysLive data.renderables v)
    (hfv2 : FieldVals (fun c => c.renderable) (RPure id) data.renderables v)
    (hkl3 : KeysLive data.players v)
    (hfv3 : FieldVals (fun c => c.player) (RPure id) data.players v)
    (hkl4 : KeysLive data.viewsheds v)
    (hfv4 : FieldVals (fun c => c.viewshed) (RPure id) data.viewsheds v)
    (hkl5 : KeysLive data.monsters v)
    (hfv5 : FieldVals (fun c => c.monster) (RPure id) data.monsters v)
    (hkl6 : KeysLive data.names v)
    (hfv6 : FieldVals (fun c => c.name) (RPure id) data.names v)
    (hkl7 : KeysLive data.blocks_tile v)
    (hfv7 : FieldVals (fun c => c.blocks_tile) (RPure id) data.blocks_tile v)
    (hkl8 : KeysLive data.combat_stats v)
    (hfv8 : FieldVals (fun c => c.combat_stats) (RPure id) data.combat_stats v)
    (hkl9 : KeysLive data.suffer_damage v)
    (hfv9 : FieldVals (fun c => c.suffer_damage) (RPure id) data.suffer_damage v)
    (hkl10 : KeysLive data.wants_melee v)
    (hfv10 : FieldVals (fun c => c.wants_melee) (RRef WantsToMelee.mk) data.wants_melee v)
    (hkl11 : KeysLive data.items v)
    (hfv11 : FieldVals (fun c => c.item) (RPure id) data.items v)
    (hkl12 : KeysLive data.consumables v)
    (hfv12 : FieldVals (fun c => c.consumable) (RPure id) data.consumables v)
    (hkl13 : KeysLive data.ranged v)
    (hfv13 : FieldVals (fun c => c.ranged) (RPure id) data.ranged v)
    (hkl14 : KeysLive data.inflicts_damage v)
    (hfv14 : FieldVals (fun c => c.inflicts_damage) (RPure id) data.inflicts_damage v)
    (hkl15 : KeysLive data.area_of_effect v)
    (hfv15 : FieldVals (fun c => c.area_of_effect) (RPure id) data.area_of_effect v)
    (hkl16 : KeysLive data.confusion v)
    (hfv16 : FieldVals (fun c => c.confusion) (RPure id) data.confusion v)
    (hkl17 : KeysLive data.provides_healing v)
    (hfv17 : FieldVals (fun c => c.provides_healing) (RPure id) data.provides_healing v)
    (hkl18 : KeysLive data.in_backpack v)
    (hfv18 : FieldVals (fun c => c.in_backpack) (RRef InBackpack.mk) data.in_backpack v)
    (hkl19 : KeysLive data.wants_to_pickup v)
    (hfv19 : FieldVals (fun c => c.wants_to_pickup) (RRef2 WantsToPickupItem.mk) data.wants_to_pickup v)
    (hkl20 : KeysLive data.wants_to_use v)
    (hfv20 : FieldVals (fun c => c.wants_to_use) (RRefPair WantsToUseItem.mk) data.wants_to_use v)
    (hkl21 : KeysLive data.wants_to_drop v)
    (hfv21 : FieldVals (fun c => c.wants_to_drop) (RRef WantsToDropItem.mk) data.wants_to_drop v)
    (hkl22 : KeysLive data.helpers v)
    (hfv22 : FieldVals (fun c => c.serialization_helper) (RPure (fun (h : HelperSave) => SerializationHelper.mk h.map.toMap h.game_log)) data.helpers v)
    (hkl23 : KeysLive data.equippables v)
    (hfv23 : FieldVals (fun c => c.equippable) (RPure id) data.equippables v)
    (hkl24 : KeysLive data.equipped v)
    (hfv24 : FieldVals (fun c => c.equipped) (RRefPair Equipped.mk) data.equipped v)
    (hkl25 : KeysLive data.melee_power_bonuses v)
    (hfv25 : FieldVals (fun c => c.melee_power_bonus) (RPure id) data.melee_power_bonuses v)
    (hN26 : AllNone (fun c => c.defense_bonus) v)
    (hN27 : AllNone (fun c => c.wants_to_remove) v)
    (hN28 : AllNone (fun c => c.particle_lifetime) v)
    (hN29 : AllNone (fun c => c.hunger_clock) v)
    (hN30 : AllNone (fun c => c.provides_food) v)
    :
    LoadInv (loadComp (fun c v2 => { c with defense_bonus := some v2 }) convPure v data.defense_bonuses) ∧
    MarksIn A (loadComp (fun c v2 => { c with defense_bonus := some v2 }) convPure v data.defense_bonuses) ∧
    KeysLive data.positions (loadComp (fun c v2 => { c with defense_bonus := some v2 }) convPure v data.defense_bonuses) ∧
    FieldVals (fun c => c.position) (RPure id) data.positions (loadComp (fun c v2 => { c with defense_bonus := some v2 }) convPure v data.defense_bonuses) ∧
    KeysLive data.renderables (loadComp (fun c v2 => { c with defense_bonus := some v2 }) convPure v data.defense_bonuses) ∧
    FieldVals (fun c => c.renderable) (RPure id) data.renderables (loadComp (fun c v2 => { c with defense_bonus := some v2 }) convPure v data.defense_bonuses) ∧
    KeysLive data.players (loadComp (fun c v2 => { c with defense_bonus := some v2 }) convPure v data.defense_bonuses) ∧
    FieldVals (fun c => c.player) (RPure id) data.players (loadComp (fun c v2 => { c with defense_bonus := some v2 }) convPure v data.defense_bonuses) ∧
    KeysLive data.viewsheds (loadComp (fun c v2 => { c with defense_bonus := some v2 }) convPure v data.defense_bonuses) ∧
    FieldVals (fun c => c.viewshed) (RPure id) data.viewsheds (loadComp (fun c v2 => { c with defense_bonus := some v2 }) convPure v data.defense_bonuses) ∧
    KeysLive data.monsters (loadComp (fun c v2 => { c with defense_bonus := some v2 }) convPure v data.defense_bonuses) ∧
    FieldVals (fun c => c.monster) (RPure id) data.monsters (loadComp (fun c v2 => { c with defense_bonus := some v2 }) convPure v data.defense_bonuses) ∧
    KeysLive data.names (loadComp (fun c v2 => { c with defense_bonus := some v2 }) convPure v data.defense_bonuses) ∧
    FieldVals (fun c => c.name) (RPure id) data.names (loadComp (fun c v2 => { c with defense_bonus := some v2 }) convPure v data.defense_bonuses) ∧
    KeysLive data.blocks_tile (loadComp (fun c v2 => { c with defense_bonus := some v2 }) convPure v data.defense_bonuses) ∧
    FieldVals (fun c => c.blocks_tile) (RPure id) data.blocks_tile (loadComp (fun c v2 => { c with defense_bonus := some v2 }) convPure v data.defense_bonuses) ∧
    KeysLive data.combat_stats (loadComp (fun c v2 => { c with defense_bonus := some v2 }) convPure v data.defense_bonuses) ∧
    FieldVals (fun c => c.combat_stats) (RPure id) data.combat_stats (loadComp (fun c v2 => { c with defense_bonus := some v2 }) convPure v data.defense_bonuses) ∧
    KeysLive data.suffer_damage (loadComp (fun c v2 => { c with defense_bonus := some v2 }) convPure v data.defense_bonuses) ∧
    FieldVals (fun c => c.suffer_damage) (RPure id) data.suffer_damage (loadComp (fun c v2 => { c with defense_bonus := some v2 }) convPure v data.defense_bonuses) ∧
    KeysLive data.wants_melee (loadComp (fun c v2 => { c with defense_bonus := some v2 }) convPure v data.defense_bonuses) ∧
    FieldVals (fun c => c.wants_melee) (RRef WantsToMelee.mk) data.wants_melee (loadComp (fun c v2 => { c with defense_bonus := some v2 }) convPure v data.defense_bonuses) ∧
    KeysLive data.items (loadComp (fun c v2 => { c with defense_bonus := some v2 }) convPure v data.defense_bonuses) ∧
    FieldVals (fun c => c.item) (RPure id) data.items (loadComp (fun c v2 => { c with defense_bonus := some v2 }) convPure v data.defense_bonuses) ∧
    KeysLive data.consumables (loadComp (fun c v2 => { c with defense_bonus := some v2 }) convPure v data.defense_bonuses) ∧
    FieldVals (fun c => c.consumable) (RPure id) data.consumables (loadComp (fun c v2 => { c with defense_bonus := some v2 }) convPure v data.defense_bonuses) ∧
    KeysLive data.ranged (loadComp (fun c v2 => { c with defense_bonus := some v2 }) convPure v data.defense_bonuses) ∧
    FieldVals (fun c => c.ranged) (RPure id) data.ranged (loadComp (fun c v2 => { c with defense_bonus := some v2 }) convPure v data.defense_bonuses) ∧
    KeysLive data.inflicts_damage (loadComp (fun c v2 => { c with defense_bonus := some v2 }) convPure v data.defense_bonuses) ∧
    FieldVals (fun c => c.inflicts_damage) (RPure id) data.inflicts_damage (loadComp (fun c v2 => { c with defense_bonus := some v2 }) convPure v data.defense_bonuses) ∧
    KeysLive data.area_of_effect (loadComp (fun c v2 => { c with defense_bonus := some v2 }) convPure v data.defense_bonuses) ∧
    FieldVals (fun c => c.area_of_effect) (RPure id) data.area_of_effect (loadComp (fun c v2 => { c with defense_bonus := some v2 }) convPure v data.defense_bonuses) ∧
    KeysLive data.confusion (loadComp (fun c v2 => { c with defense_bonus := some v2 }) convPure v data.defense_bonuses) ∧
    FieldVals (fun c => c.confusion) (RPure id) data.confusion (loadComp (fun c v2 => { c with defense_bonus := some v2 }) convPure v data.defense_bonuses) ∧
    KeysLive data.provides_healing (loadComp (fun c v2 => { c with defense_bonus := some v2 }) convPure v data.defense_bonuses) ∧
    FieldVals (fun c => c.provides_healing) (RPure id) data.provides_healing (loadComp (fun c v2 => { c with defense_bonus := some v2 }) convPure v data.defense_bonuses) ∧
    KeysLive data.in_backpack (loadComp (fun c v2 => { c with defense_bonus := some v2 }) convPure v data.defense_bonuses) ∧
    FieldVals (fun c => c.in_backpack) (RRef InBackpack.mk) data.in_backpack (loadComp (fun c v2 => { c with defense_bonus := some v2 }) convPure v data.defense_bonuses) ∧
    KeysLive data.wants_to_pickup (loadComp (fun c v2 => { c with defense_bonus := some v2 }) convPure v data.defense_bonuses) ∧
    FieldVals (fun c => c.wants_to_pickup) (RRef2 WantsToPickupItem.mk) data.wants_to_pickup (loadComp (fun c v2 => { c with defense_bonus := some v2 }) convPure v data.defense_bonuses) ∧
    KeysLive data.wants_to_use (loadComp (fun c v2 => { c with defense_bonus := some v2 }) convPure v data.defense_bonuses) ∧
    FieldVals (fun c => c.wants_to_use) (RRefPair WantsToUseItem.mk) data.wants_to_use (loadComp (fun c v2 => { c with defense_bonus := some v2 }) convPure v data.defense_bonuses) ∧
    KeysLive data.wants_to_drop (loadComp (fun c v2 => { c with defense_bonus := some v2 }) convPure v data.defense_bonuses) ∧
    FieldVals (fun c => c.wants_to_drop) (RRef WantsToDropItem.mk) data.wants_to_drop (loadComp (fun c v2 => { c with defense_bonus := some v2 }) convPure v data.defense_bonuses) ∧
    KeysLive data.helpers (loadComp (fun c v2 => { c with defense_bonus := some v2 }) convPure v data.defense_bonuses) ∧
    FieldVals (fun c => c.serialization_helper) (RPure (fun (h : HelperSave) => SerializationHelper.mk h.map.toMap h.game_log)) data.helpers (loadComp (fun c v2 => { c with defense_bonus := some v2 }) convPure v data.defense_bonuses) ∧
    KeysLive data.equippables (loadComp (fun c v2 => { c with defense_bonus := some v2 }) convPure v data.defense_bonuses) ∧
    FieldVals (fun c => c.equippable) (RPure id) data.equippables (loadComp (fun c v2 => { c with defense_bonus := some v2 }) convPure v data.defense_bonuses) ∧
    KeysLive data.equipped (loadComp (fun c v2 => { c with defense_bonus := some v2 }) convPure v data.defense_bonuses) ∧
    FieldVals (fun c => c.equipped) (RRefPair Equipped.mk) data.equipped (loadComp (fun c v2 => { c with defense_bonus := some v2 }) convPure v data.defense_bonuses) ∧
    KeysLive data.melee_power_bonuses (loadComp (fun c v2 => { c with defense_bonus := some v2 }) convPure v data.defense_bonuses) ∧
    FieldVals (fun c => c.melee_power_bonus) (RPure id) data.melee_power_bonuses (loadComp (fun c v2 => { c with defense_bonus := some v2 }) convPure v data.defense_bonuses) ∧
    KeysLive data.defense_bonuses (loadComp (fun c v2 => { c with defense_bonus := some v2 }) convPure v data.defense_bonuses) ∧
    FieldVals (fun c => c.defense_bonus) (RPure id) data.defense_bonuses (loadComp (fun c v2 => { c with defense_bonus := some v2 }) convPure v data.defense_bonuses) ∧
    AllNone (fun c => c.wants_to_remove) (loadComp (fun c v2 => { c with defense_bonus := some v2 }) convPure v data.defense_bonuses) ∧
    AllNone (fun c => c.particle_lifetime) (loadComp (fun c v2 => { c with defense_bonus := some v2 }) convPure v data.defense_bonuses) ∧
    AllNone (fun c => c.hunger_clock) (loadComp (fun c v2 => { c with defense_bonus := some v2 }) convPure v data.defense_bonuses) ∧
    AllNone (fun c => c.provides_food) (loadComp (fun c v2 => { c with defense_bonus := some v2 }) convPure v data.defense_bonuses) := by
  obtain ⟨hI2, hle2, hfr2, hklx⟩ := loadComp_struct (fun c v2 => { c with defense_bonus := some v2 }) convPure A (fun _ => True)
    (fun c a => rfl) (convOK_pure A) data.defense_bonuses _ hI (fun p hp => ⟨hA p hp, trivial⟩)
  have hfvk := loadComp_est (fun c v2 => { c with defense_bonus := some v2 }) (fun c => c.defense_bonus) convPure A (fun _ => True)
    (RPure id) (convOK_pure A) (fun v2 b hIv hAb => rfl)
    (fun va vb a b hle h => h) (fun c a => rfl) (fun c a => rfl) (fun m => rfl)
    data.defense_bonuses _ hI hkeys (fun p hp => ⟨hA p hp, trivial⟩) hN26
  obtain ⟨hoF1, hnF1⟩ := loadComp_obs (fun c v2 => { c with defense_bonus := some v2 }) convPure (fun c => c.position) A (fun _ => True)
    (fun c a => rfl) (convOK_pure A) (fun c a => rfl) (fun m => rfl) data.defense_bonuses _ hI (fun p hp => ⟨hA p hp, trivial⟩)
  have hfv1b := FieldVals_mono (fun c => c.position) (RPure id) data.positions hle2
    (fun a b h => h)
    (fun e he hn => let ⟨m, h1, h2, _⟩ := hfr2 e he hn; ⟨m, h1, h2⟩)
    hoF1 hnF1 hkl1 hfv1
  have hkl1b := KeysLive_mono hle2 hkl1
  obtain ⟨hoF2, hnF2⟩ := loadComp_obs (fun c v2 => { c with defense_bonus := some v2 }) convPure (fun c => c.renderable) A (fun _ => True)
    (fun c a => rfl) (convOK_pure A) (fun c a => rfl) (fun m => rfl) data.defense_bonuses _ hI (fun p hp => ⟨hA p hp, trivial⟩)
  have hfv2b := FieldVals_mono (fun c => c.renderable) (RPure id) data.renderables hle2
    (fun a b h => h)
    (fun e he hn => let ⟨m, h1, h2, _⟩ := hfr2 e he hn; ⟨m, h1, h2⟩)
    hoF2 hnF2 hkl2 hfv2
  have hkl2b := KeysLive_mono hle2 hkl2
  obtain ⟨hoF3, hnF3⟩ := loadComp_obs (fun c v2 => { c with defense_bonus := some v2 }) convPure (fun c => c.player) A (fun _ => True)
    (fun c a => rfl) (convOK_pure A) (fun c a => rfl) (fun m => rfl) data.defense_bonuses _ hI (fun p hp => ⟨hA p hp, trivial⟩)
  have hfv3b := FieldVals_mono (fun c => c.player) (RPure id) data.players hle2
    (fun a b h => h)
    (fun e he hn => let ⟨m, h1, h2, _⟩ := hfr2 e he hn; ⟨m, h1, h2⟩)
    hoF3 hnF3 hkl3 hfv3
  have hkl3b := KeysLive_mono hle2 hkl3
  obtain ⟨hoF4, hnF4⟩ := loadComp_obs (fun c v2 => { c with defense_bonus := some v2 }) convPure (fun c => c.viewshed) A (fun _ => True)
    (fun c a => rfl) (convOK_pure A) (fun c a => rfl) (fun m => rfl) data.defense_bonuses _ hI (fun p hp => ⟨hA p hp, trivial⟩)
  have hfv4b := FieldVals_mono (fun c => c.viewshed) (RPure id) data.viewsheds hle2
    (fun a b h => h)
    (fun e he hn => let ⟨m, h1, h2, _⟩ := hfr2 e he hn; ⟨m, h1, h2⟩)
    hoF4 hnF4 hkl4 hfv4
  have hkl4b := KeysLive_mono hle2 hkl4
  obtain ⟨hoF5, hnF5⟩ := loadComp_obs (fun c v2 => { c with defense_bonus := some v2 }) convPure (fun c => c.monster) A (fun _ => True)
    (fun c a => rfl) (convOK_pure A) (fun c a => rfl) (fun m => rfl) data.defense_bonuses _ hI (fun p hp => ⟨hA p hp, trivial⟩)
  have hfv5b := FieldVals_mono (fun c => c.monster) (RPure id) data.monsters hle2
    (fun a b h => h)
    (fun e he hn => let ⟨m, h1, h2, _⟩ := hfr2 e he hn; ⟨m, h1, h2⟩)
    hoF5 hnF5 hkl5 hfv5
  have hkl5b := KeysLive_mono hle2 hkl5
  obtain ⟨hoF6, hnF6⟩ := loadComp_obs (fun c v2 => { c with defense_bonus := some v2 }) convPure (fun c => c.name) A (fun _ => True)
    (fun c a => rfl) (convOK_pure A) (fun c a => rfl) (fun m => rfl) data.defense_bonuses _ hI (fun p hp => ⟨hA p hp, trivial⟩)
  have hfv6b := FieldVals_mono (fun c => c.name) (RPure id) data.names hle2
    (fun a b h => h)
    (fun e he hn => let ⟨m, h1, h2, _⟩ := hfr2 e he hn; ⟨m, h1, h2⟩)
    hoF6 hnF6 hkl6 hfv6
  have hkl6b := KeysLive_mono hle2 hkl6
  obtain ⟨hoF7, hnF7⟩ := loadComp_obs (fun c v2 => { c with defense_bonus := some v2 }) convPure (fun c => c.blocks_tile) A (fun _ => True)
    (fun c a => rfl) (convOK_pure A) (fun c a => rfl) (fun m => rfl) data.defense_bonuses _ hI (fun p hp => ⟨hA p hp, trivial⟩)
  have hfv7b := FieldVals_mono (fun c => c.blocks_tile) (RPure id) data.blocks_tile hle2
    (fun a b h => h)
    (fun e he hn => let ⟨m, h1, h2, _⟩ := hfr2 e he hn; ⟨m, h1, h2⟩)
    hoF7 hnF7 hkl7 hfv7
  have hkl7b := KeysLive_mono hle2 hkl7
  obtain ⟨hoF8, hnF8⟩ := loadComp_obs (fun c v2 => { c with defense_bonus := some v2 }) convPure (fun c => c.combat_stats) A (fun _ => True)
    (fun c a => rfl) (convOK_pure A) (fun c a => rfl) (fun m => rfl) data.defense_bonuses _ hI (fun p hp => ⟨hA p hp, trivial⟩)
  have hfv8b := FieldVals_mono (fun c => c.combat_stats) (RPure id) data.combat_stats hle2
    (fun a b h => h)
    (fun e he hn => let ⟨m, h1, h2, _⟩ := hfr2 e he hn; ⟨m, h1, h2⟩)
    hoF8 hnF8 hkl8 hfv8
  have hkl8b := KeysLive_mono hle2 hkl8
  obtain ⟨hoF9, hnF9⟩ := loadComp_obs (fun c v2 => { c with defense_bonus := some v2 }) convPure (fun c => c.suffer_damage) A (fun _ => True)
    (fun c a => rfl) (convOK_pure A) (fun c a => rfl) (fun m => rfl) data.defense_bonuses _ hI (fun p hp => ⟨hA p hp, trivial⟩)
  have hfv9b := FieldVals_mono (fun c => c.suffer_damage) (RPure id) data.suffer_damage hle2
    (fun a b h => h)
    (fun e he hn => let ⟨m, h1, h2, _⟩ := hfr2 e he hn; ⟨m, h1, h2⟩)
    hoF9 hnF9 hkl9 hfv9
  have hkl9b := KeysLive_mono hle2 hkl9
  obtain ⟨hoF10, hnF10⟩ := loadComp_obs (fun c v2 => { c with defense_bonus := some v2 }) convPure (fun c => c.wants_melee) A (fun _ => True)
    (fun c a => rfl) (convOK_pure A) (fun c a => rfl) (fun m => rfl) data.defense_bonuses _ hI (fun p hp => ⟨hA p hp, trivial⟩)
  have hfv10b := FieldVals_mono (fun c => c.wants_melee) (RRef WantsToMelee.mk) data.wants_melee hle2
    (fun a b h => RRef_mono WantsToMelee.mk _ _ a b hle2 h)
    (fun e he hn => let ⟨m, h1, h2, _⟩ := hfr2 e he hn; ⟨m, h1, h2⟩)
    hoF10 hnF10 hkl10 hfv10
  have hkl10b := KeysLive_mono hle2 hkl10
  obtain ⟨hoF11, hnF11⟩ := loadComp_obs (fun c v2 => { c with defense_bonus := some v2 }) convPure (fun c => c.item) A (fun _ => True)
    (fun c a => rfl) (convOK_pure A) (fun c a => rfl) (fun m => rfl) data.defense_bonuses _ hI (fun p hp => ⟨hA p hp, trivial⟩)
  have hfv11b := FieldVals_mono (fun c => c.item) (RPure id) data.items hle2
    (fun a b h => h)
    (fun e he hn => let ⟨m, h1, h2, _⟩ := hfr2 e he hn; ⟨m, h1, h2⟩)
    hoF11 hnF11 hkl11 hfv11
  have hkl11b := KeysLive_mono hle2 hkl11
  obtain ⟨hoF12, hnF12⟩ := loadComp_obs (fun c v2 => { c with defense_bonus := some v2 }) convPure (fun c => c.consumable) A (fun _ => True)
    (fun c a => rfl) (convOK_pure A) (fun c a => rfl) (fun m => rfl) data.defense_bonuses _ hI (fun p hp => ⟨hA p hp, trivial⟩)
  have hfv12b := FieldVals_mono (fun c => c.consumable) (RPure id) data.consumables hle2
    (fun a b h => h)
    (fun e he hn => let ⟨m, h1, h2, _⟩ := hfr2 e he hn; ⟨m, h1, h2⟩)
    hoF12 hnF12 hkl12 hfv12
  have hkl12b := KeysLive_mono hle2 hkl12
  obtain ⟨hoF13, hnF13⟩ := loadComp_obs (fun c v2 => { c with defense_bonus := some v2 }) convPure (fun c => c.ranged) A (fun _ => True)
    (fun c a => rfl) (convOK_pure A) (fun c a => rfl) (fun m => rfl) data.defense_bonuses _ hI (fun p hp => ⟨hA p hp, trivial⟩)
  have hfv13b := FieldVals_mono (fun c => c.ranged) (RPure id) data.ranged hle2
    (fun a b h => h)
    (fun e he hn => let ⟨m, h1, h2, _⟩ := hfr2 e he hn; ⟨m, h1, h2⟩)
    hoF13 hnF13 hkl13 hfv13
  have hkl13b := KeysLive_mono hle2 hkl13
  obtain ⟨hoF14, hnF14⟩ := loadComp_obs (fun c v2 => { c with defense_bonus := some v2 }) convPure (fun c => c.inflicts_damage) A (fun _ => True)
    (fun c a => rfl) (convOK_pure A) (fun c a => rfl) (fun m => rfl) data.defense_bonuses _ hI (fun p hp => ⟨hA p hp, trivial⟩)
  have hfv14b := FieldVals_mono (fun c => c.inflicts_damage) (RPure id) data.inflicts_damage hle2
    (fun a b h => h)
    (fun e he hn => let ⟨m, h1, h2, _⟩ := hfr2 e he hn; ⟨m, h1, h2⟩)
    hoF14 hnF14 hkl14 hfv14
  have hkl14b := KeysLive_mono hle2 hkl14
  obtain ⟨hoF15, hnF15⟩ := loadComp_obs (fun c v2 => { c with defense_bonus := some v2 }) convPure (fun c => c.area_of_effect) A (fun _ => True)
    (fun c a => rfl) (convOK_pure A) (fun c a => rfl) (fun m => rfl) data.defense_bonuses _ hI (fun p hp => ⟨hA p hp, trivial⟩)
  have hfv15b := FieldVals_mono (fun c => c.area_of_effect) (RPure id) data.area_of_effect hle2
    (fun a b h => h)
    (fun e he hn => let ⟨m, h1, h2, _⟩ := hfr2 e he hn; ⟨m, h1, h2⟩)
    hoF15 hnF15 hkl15 hfv15
  have hkl15b := KeysLive_mono hle2 hkl15
  obtain ⟨hoF16, hnF16⟩ := loadComp_obs (fun c v2 => { c with defense_bonus := some v2 }) convPure (fun c => c.confusion) A (fun _ => True)
    (fun c a => rfl) (convOK_pure A) (fun c a => rfl) (fun m => rfl) data.defense_bonuses _ hI (fun p hp => ⟨hA p hp, trivial⟩)
  have hfv16b := FieldVals_mono (fun c => c.confusion) (RPure id) data.confusion hle2
    (fun a b h => h)
    (fun e he hn => let ⟨m, h1, h2, _⟩ := hfr2 e he hn; ⟨m, h1, h2⟩)
    hoF16 hnF16 hkl16 hfv16
  have hkl16b := KeysLive_mono hle2 hkl16
  obtain ⟨hoF17, hnF17⟩ := loadComp_obs (fun c v2 => { c with defense_bonus := some v2 }) convPure (fun c => c.provides_healing) A (fun _ => True)
    (fun c a => rfl) (convOK_pure A) (fun c a => rfl) (fun m => rfl) data.defense_bonuses _ hI (fun p hp => ⟨hA p hp, trivial⟩)
  have hfv17b := FieldVals_mono (fun c => c.provides_healing) (RPure id) data.provides_healing hle2
    (fun a b h => h)
    (fun e he hn => let ⟨m, h1, h2, _⟩ := hfr2 e he hn; ⟨m, h1, h2⟩)
    hoF17 hnF17 hkl17 hfv17
  have hkl17b := KeysLive_mono hle2 hkl17
  obtain ⟨hoF18, hnF18⟩ := loadComp_obs (fun c v2 => { c with defense_bonus := some v2 }) convPure (fun c => c.in_backpack) A (fun _ => True)
    (fun c a => rfl) (convOK_pure A) (fun c a => rfl) (fun m => rfl) data.defense_bonuses _ hI (fun p hp => ⟨hA p hp, trivial⟩)
  have hfv18b := FieldVals_mono (fun c => c.in_backpack) (RRef InBackpack.mk) data.in_backpack hle2
    (fun a b h => RRef_mono InBackpack.mk _ _ a b hle2 h)
    (fun e he hn => let ⟨m, h1, h2, _⟩ := hfr2 e he hn; ⟨m, h1, h2⟩)
    hoF18 hnF18 hkl18 hfv18
  have hkl18b := KeysLive_mono hle2 hkl18
  obtain ⟨hoF19, hnF19⟩ := loadComp_obs (fun c v2 => { c with defense_bonus := some v2 }) convPure (fun c => c.wants_to_pickup) A (fun _ => True)
    (fun c a => rfl) (convOK_pure A) (fun c a => rfl) (fun m => rfl) data.defense_bonuses _ hI (fun p hp => ⟨hA p hp, trivial⟩)
  have hfv19b := FieldVals_mono (fun c => c.wants_to_pickup) (RRef2 WantsToPickupItem.mk) data.wants_to_pickup hle2
    (fun a b h => RRef2_mono WantsToPickupItem.mk _ _ a b hle2 h)
    (fun e he hn => let ⟨m, h1, h2, _⟩ := hfr2 e he hn; ⟨m, h1, h2⟩)
    hoF19 hnF19 hkl19 hfv19
  have hkl19b := KeysLive_mono hle2 hkl19
  obtain ⟨hoF20, hnF20⟩ := loadComp_obs (fun c v2 => { c with defense_bonus := some v2 }) convPure (fun c => c.wants_to_use) A (fun _ => True)
    (fun c a => rfl) (convOK_pure A) (fun c a => rfl) (fun m => rfl) data.defense_bonuses _ hI (fun p hp => ⟨hA p hp, trivial⟩)
  have hfv20b := FieldVals_mono (fun c => c.wants_to_use) (RRefPair WantsToUseItem.mk) data.wants_to_use hle2
    (fun a b h => RRefPair_mono WantsToUseItem.mk _ _ a b hle2 h)
    (fun e he hn => let ⟨m, h1, h2, _⟩ := hfr2 e he hn; ⟨m, h1, h2⟩)
    hoF20 hnF20 hkl20 hfv20
  have hkl20b := KeysLive_mono hle2 hkl20
  obtain ⟨hoF21, hnF21⟩ := loadComp_obs (fun c v2 => { c with defense_bonus := some v2 }) convPure (fun c => c.wants_to_drop) A (fun _ => True)
    (fun c a => rfl) (convOK_pure A) (fun c a => rfl) (fun m => rfl) data.defense_bonuses _ hI (fun p hp => ⟨hA p hp, trivial⟩)
  have hfv21b := FieldVals_mono (fun c => c.wants_to_drop) (RRef WantsToDropItem.mk) data.wants_to_drop hle2
    (fun a b h => RRef_mono WantsToDropItem.mk _ _ a b hle2 h)
    (fun e he hn => let ⟨m, h1, h2, _⟩ := hfr2 e he hn; ⟨m, h1, h2⟩)
    hoF21 hnF21 hkl21 hfv21
  have hkl21b := KeysLive_mono hle2 hkl21
  obtain ⟨hoF22, hnF22⟩ := loadComp_obs (fun c v2 => { c with defense_bonus := some v2 }) convPure (fun c => c.serialization_helper) A (fun _ => True)
    (fun c a => rfl) (convOK_pure A) (fun c a => rfl) (fun m => rfl) data.defense_bonuses _ hI (fun p hp => ⟨hA p hp, trivial⟩)
  have hfv22b := FieldVals_mono (fun c => c.serialization_helper) (RPure (fun (h : HelperSave) => SerializationHelper.mk h.map.toMap h.game_log)) data.helpers hle2
    (fun a b h => h)
    (fun e he hn => let ⟨m, h1, h2, _⟩ := hfr2 e he hn; ⟨m, h1, h2⟩)
    hoF22 hnF22 hkl22 hfv22
  have hkl22b := KeysLive_mono hle2 hkl22
  obtain ⟨hoF23, hnF23⟩ := loadComp_obs (fun c v2 => { c with defense_bonus := some v2 }) convPure (fun c => c.equippable) A (fun _ => True)
    (fun c a => rfl) (convOK_pure A) (fun c a => rfl) (fun m => rfl) data.defense_bonuses _ hI (fun p hp => ⟨hA p hp, trivial⟩)
  have hfv23b := FieldVals_mono (fun c => c.equippable) (RPure id) data.equippables hle2
    (fun a b h => h)
    (fun e he hn => let ⟨m, h1, h2, _⟩ := hfr2 e he hn; ⟨m, h1, h2⟩)
    hoF23 hnF23 hkl23 hfv23
  have hkl23b := KeysLive_mono hle2 hkl23
  obtain ⟨hoF24, hnF24⟩ := loadComp_obs (fun c v2 => { c with defense_bonus := some v2 }) convPure (fun c => c.equipped) A (fun _ => True)
    (fun c a => rfl) (convOK_pure A) (fun c a => rfl) (fun m => rfl) data.defense_bonuses _ hI (fun p hp => ⟨hA p hp, trivial⟩)
  have hfv24b := FieldVals_mono (fun c => c.equipped) (RRefPair Equipped.mk) data.equipped hle2
    (fun a b h => RRefPair_mono Equipped.mk _ _ a b hle2 h)
    (fun e he hn => let ⟨m, h1, h2, _⟩ := hfr2 e he hn; ⟨m, h1, h2⟩)
    hoF24 hnF24 hkl24 hfv24
  have hkl24b := KeysLive_mono hle2 hkl24
  obtain ⟨hoF25, hnF25⟩ := loadComp_obs (fun c v2 => { c with defense_bonus := some v2 }) convPure (fun c => c.melee_power_bonus) A (fun _ => True)
    (fun c a => rfl) (convOK_pure A) (fun c a => rfl) (fun m => rfl) data.defense_bonuses _ hI (fun p hp => ⟨hA p hp, trivial⟩)
  have hfv25b := FieldVals_mono (fun c => c.melee_power_bonus) (RPure id) data.melee_power_bonuses hle2
    (fun a b h => h)
    (fun e he hn => let ⟨m, h1, h2, _⟩ := hfr2 e he hn; ⟨m, h1, h2⟩)
    hoF25 hnF25 hkl25 hfv25
  have hkl25b := KeysLive_mono hle2 hkl25
  obtain ⟨hoF27, hnF27⟩ := loadComp_obs (fun c v2 => { c with defense_bonus := some v2 }) convPure (fun c => c.wants_to_remove) A (fun _ => True)
    (fun c a => rfl) (convOK_pure A) (fun c a => rfl) (fun m => rfl) data.defense_bonuses _ hI (fun p hp => ⟨hA p hp, trivial⟩)
  have hN27b := AllNone_mono (fun c => c.wants_to_remove) _ _ hoF27 hnF27 hN27
  obtain ⟨hoF28, hnF28⟩ := loadComp_obs (fun c v2 => { c with defense_bonus := some v2 }) convPure (fun c => c.particle_lifetime) A (fun _ => True)
    (fun c a => rfl) (convOK_pure A) (fun c a => rfl) (fun m => rfl) data.defense_bonuses _ hI (fun p hp => ⟨hA p hp, trivial⟩)
  have hN28b := AllNone_mono (fun c => c.particle_lifetime) _ _ hoF28 hnF28 hN28
  obtain ⟨hoF29, hnF29⟩ := loadComp_obs (fun c v2 => { c with defense_bonus := some v2 }) convPure (fun c => c.hunger_clock) A (fun _ => True)
    (fun c a => rfl) (convOK_pure A) (fun c a => rfl) (fun m => rfl) data.defense_bonuses _ hI (fun p hp => ⟨hA p hp, trivial⟩)
  have hN29b := AllNone_mono (fun c => c.hunger_clock) _ _ hoF29 hnF29 hN29
  obtain ⟨hoF30, hnF30⟩ := loadComp_obs (fun c v2 => { c with defense_bonus := some v2 }) convPure (fun c => c.provides_food) A (fun _ => True)
    (fun c a => rfl) (convOK_pure A) (fun c a => rfl) (fun m => rfl) data.defense_bonuses _ hI (fun p hp => ⟨hA p hp, trivial⟩)
  have hN30b := AllNone_mono (fun c => c.provides_food) _ _ hoF30 hnF30 hN30
  have hMb := MarksIn_mono hle2 (fun e he hn => let ⟨m, h1, _, h3⟩ := hfr2 e he hn; ⟨m, h1, h3⟩) hM
  exact ⟨hI2, hMb, hkl1b, hfv1b, hkl2b, hfv2b, hkl3b, hfv3b, hkl4b, hfv4b, hkl5b, hfv5b, hkl6b, hfv6b, hkl7b, hfv7b, hkl8b, hfv8b, hkl9b, hfv9b, hkl10b, hfv10b, hkl11b, hfv11b, hkl12b, hfv12b, hkl13b, hfv13b, hkl14b, hfv14b, hkl15b, hfv15b, hkl16b, hfv16b, hkl17b, hfv17b, hkl18b, hfv18b, hkl19b, hfv19b, hkl20b, hfv20b, hkl21b, hfv21b, hkl22b, hfv22b, hkl23b, hfv23b, hkl24b, hfv24b, hkl25b, hfv25b, hklx, hfvk, hN27b, hN28b, hN29b, hN30b⟩

set_option maxHeartbeats 800000 in
/-- Deserialization pass 27 (wants_to_remove): it establishes its own list facts
and preserves those of the earlier passes. -/
lemma loadStage27 (A : Nat → Prop) (data : SaveData) (v : World)
    (hI : LoadInv v)
    (hkeys : ((data.wants_to_remove).map Prod.fst).Nodup)
    (hA : ∀ p ∈ data.wants_to_remove, A p.1 ∧ A p.2)
    (hM : MarksIn A v)
    (hkl1 : KeysLive data.positions v)
    (hfv1 : FieldVals (fun c => c.position) (RPure id) data.positions v)
    (hkl2 : KeysLive data.renderables v)
    (hfv2 : FieldVals (fun c => c.renderable) (RPure id) data.renderables v)
    (hkl3 : KeysLive data.players v)
    (hfv3 : FieldVals (fun c => c.player) (RPure id) data.players v)
    (hkl4 : KeysLive data.viewsheds v)
    (hfv4 : FieldVals (fun c => c.viewshed) (RPure id) data.viewsheds v)
    (hkl5 : KeysLive data.monsters v)
    (hfv5 : FieldVals (fun c => c.monster) (RPure id) data.monsters v)
    (hkl6 : KeysLive data.names v)
    (hfv6 : FieldVals (fun c => c.name) (RPure id) data.names v)
    (hkl7 : KeysLive data.blocks_tile v)
    (hfv7 : FieldVals (fun c => c.blocks_tile) (RPure id) data.blocks_tile v)
    (hkl8 : KeysLive data.combat_stats v)
    (hfv8 : FieldVals (fun c => c.combat_stats) (RPure id) data.combat_stats v)
    (hkl9 : KeysLive data.suffer_damage v)
    (hfv9 : FieldVals (fun c => c.suffer_damage) (RPure id) data.suffer_damage v)
    (hkl10 : KeysLive data.wants_melee v)
    (hfv10 : FieldVals (fun c => c.wants_melee) (RRef WantsToMelee.mk) data.wants_melee v)
    (hkl11 : KeysLive data.items v)
    (hfv11 : FieldVals (fun c => c.item) (RPure id) data.items v)
    (hkl12 : KeysLive data.consumables v)
    (hfv12 : FieldVals (fun c => c.consumable) (RPure id) data.consumables v)
    (hkl13 : KeysLive data.ranged v)
    (hfv13 : FieldVals (fun c => c.ranged) (RPure id) data.ranged v)
    (hkl14 : KeysLive data.inflicts_damage v)
    (hfv14 : FieldVals (fun c => c.inflicts_damage) (RPure id) data.inflicts_damage v)
    (hkl15 : KeysLive data.area_of_effect v)
    (hfv15 : FieldVals (fun c => c.area_of_effect) (RPure id) data.area_of_effect v)
    (hkl16 : KeysLive data.confusion v)
    (hfv16 : FieldVals (fun c => c.confusion) (RPure id) data.confusion v)
    (hkl17 : KeysLive data.provides_healing v)
    (hfv17 : FieldVals (fun c => c.provides_healing) (RPure id) data.provides_healing v)
    (hkl18 : KeysLive data.in_backpack v)
    (hfv18 : FieldVals (fun c => c.in_backpack) (RRef InBackpack.mk) data.in_backpack v)
    (hkl19 : KeysLive data.wants_to_pickup v)
    (hfv19 : FieldVals (fun c => c.wants_to_pickup) (RRef2 WantsToPickupItem.mk) data.wants_to_pickup v)
    (hkl20 : KeysLive data.wants_to_use v)
    (hfv20 : FieldVals (fun c => c.wants_to_use) (RRefPair WantsToUseItem.mk) data.wants_to_use v)
    (hkl21 : KeysLive data.wants_to_drop v)
    (hfv21 : FieldVals (fun c => c.wants_to_drop) (RRef WantsToDropItem.mk) data.wants_to_drop v)
    (hkl22 : KeysLive data.helpers v)
    (hfv22 : FieldVals (fun c => c.serialization_helper) (RPure (fun (h : HelperSave) => SerializationHelper.mk h.map.toMap h.game_log)) data.helpers v)
    (hkl23 : KeysLive data.equippables v)
    (hfv23 : FieldVals (fun c => c.equippable) (RPure id) data.equippables v)
    (hkl24 : KeysLive data.equipped v)
    (hfv24 : FieldVals (fun c => c.equipped) (RRefPair Equipped.mk) data.equipped v)
    (hkl25 : KeysLive data.melee_power_bonuses v)
    (hfv25 : FieldVals (fun c => c.melee_power_bonus) (RPure id) data.melee_power_bonuses v)
    (hkl26 : KeysLive data.defense_bonuses v)
    (hfv26 : FieldVals (fun c => c.defense_bonus) (RPure id) data.defense_bonuses v)
    (hN27 : AllNone (fun c => c.wants_to_remove) v)
    (hN28 : AllNone (fun c => c.particle_lifetime) v)
    (hN29 : AllNone (fun c => c.hunger_clock) v)
    (hN30 : AllNone (fun c => c.provides_food) v)
    :
    LoadInv (loadComp (fun c v2 => { c with wants_to_remove := some v2 }) (convRef WantsToRemoveItem.mk) v data.wants_to_remove) ∧
    MarksIn A (loadComp (fun c v2 => { c with wants_to_remove := some v2 }) (convRef WantsToRemoveItem.mk) v data.wants_to_remove) ∧
    KeysLive data.positions (loadComp (fun c v2 => { c with wants_to_remove := some v2 }) (convRef WantsToRemoveItem.mk) v data.wants_to_remove) ∧
    FieldVals (fun c => c.position) (RPure id) data.positions (loadComp (fun c v2 => { c with wants_to_remove := some v2 }) (convRef WantsToRemoveItem.mk) v data.wants_to_remove) ∧
    KeysLive data.renderables (loadComp (fun c v2 => { c with wants_to_remove := some v2 }) (convRef WantsToRemoveItem.mk) v data.wants_to_remove) ∧
    FieldVals (fun c => c.renderable) (RPure id) data.renderables (loadComp (fun c v2 => { c with wants_to_remove := some v2 }) (convRef WantsToRemoveItem.mk) v data.wants_to_remove) ∧
    KeysLive data.players (loadComp (fun c v2 => { c with wants_to_remove := some v2 }) (convRef WantsToRemoveItem.mk) v data.wants_to_remove) ∧
    FieldVals (fun c => c.player) (RPure id) data.players (loadComp (fun c v2 => { c with wants_to_remove := some v2 }) (convRef WantsToRemoveItem.mk) v data.wants_to_remove) ∧
    KeysLive data.viewsheds (loadComp (fun c v2 => { c with wants_to_remove := some v2 }) (convRef WantsToRemoveItem.mk) v data.wants_to_remove) ∧
    FieldVals (fun c => c.viewshed) (RPure id) data.viewsheds (loadComp (fun c v2 => { c with wants_to_remove := some v2 }) (convRef WantsToRemoveItem.mk) v data.wants_to_remove) ∧
    KeysLive data.monsters (loadComp (fun c v2 => { c with wants_to_remove := some v2 }) (convRef WantsToRemoveItem.mk) v data.wants_to_remove) ∧
    FieldVals (fun c => c.monster) (RPure id) data.monsters (loadComp (fun c v2 => { c with wants_to_remove := some v2 }) (convRef WantsToRemoveItem.mk) v data.wants_to_remove) ∧
    KeysLive data.names (loadComp (fun c v2 => { c with wants_to_remove := some v2 }) (convRef WantsToRemoveItem.mk) v data.wants_to_remove) ∧
    FieldVals (fun c => c.name) (RPure id) data.names (loadComp (fun c v2 => { c with wants_to_remove := some v2 }) (convRef WantsToRemoveItem.mk) v data.wants_to_remove) ∧
    KeysLive data.blocks_tile (loadComp (fun c v2 => { c with wants_to_remove := some v2 }) (convRef WantsToRemoveItem.mk) v data.wants_to_remove) ∧
    FieldVals (fun c => c.blocks_tile) (RPure id) data.blocks_tile (loadComp (fun c v2 => { c with wants_to_remove := some v2 }) (convRef WantsToRemoveItem.mk) v data.wants_to_remove) ∧
    KeysLive data.combat_stats (loadComp (fun c v2 => { c with wants_to_remove := some v2 }) (convRef WantsToRemoveItem.mk) v data.wants_to_remove) ∧
    FieldVals (fun c => c.combat_stats) (RPure id) data.combat_stats (loadComp (fun c v2 => { c with wants_to_remove := some v2 }) (convRef WantsToRemoveItem.mk) v data.wants_to_remove) ∧
    KeysLive data.suffer_damage (loadComp (fun c v2 => { c with wants_to_remove := some v2 }) (convRef WantsToRemoveItem.mk) v data.wants_to_remove) ∧
    FieldVals (fun c => c.suffer_damage) (RPure id) data.suffer_damage (loadComp (fun c v2 => { c with wants_to_remove := some v2 }) (convRef WantsToRemoveItem.mk) v data.wants_to_remove) ∧
    KeysLive data.wants_melee (loadComp (fun c v2 => { c with wants_to_remove := some v2 }) (convRef WantsToRemoveItem.mk) v data.wants_to_remove) ∧
    FieldVals (fun c => c.wants_melee) (RRef WantsToMelee.mk) data.wants_melee (loadComp (fun c v2 => { c with wants_to_remove := some v2 }) (convRef WantsToRemoveItem.mk) v data.wants_to_remove) ∧
    KeysLive data.items (loadComp (fun c v2 => { c with wants_to_remove := some v2 }) (convRef WantsToRemoveItem.mk) v data.wants_to_remove) ∧
    FieldVals (fun c => c.item) (RPure id) data.items (loadComp (fun c v2 => { c with wants_to_remove := some v2 }) (convRef WantsToRemoveItem.mk) v data.wants_to_remove) ∧
    KeysLive data.consumables (loadComp (fun c v2 => { c with wants_to_remove := some v2 }) (convRef WantsToRemoveItem.mk) v data.wants_to_remove) ∧
    FieldVals (fun c => c.consumable) (RPure id) data.consumables (loadComp (fun c v2 => { c with wants_to_remove := some v2 }) (convRef WantsToRemoveItem.mk) v data.wants_to_remove) ∧
    KeysLive data.ranged (loadComp (fun c v2 => { c with wants_to_remove := some v2 }) (convRef WantsToRemoveItem.mk) v data.wants_to_remove) ∧
    FieldVals (fun c => c.ranged) (RPure id) data.ranged (loadComp (fun c v2 => { c with wants_to_remove := some v2 }) (convRef WantsToRemoveItem.mk) v data.wants_to_remove) ∧
    KeysLive data.inflicts_damage (loadComp (fun c v2 => { c with wants_to_remove := some v2 }) (convRef WantsToRemoveItem.mk) v data.wants_to_remove) ∧
    FieldVals (fun c => c.inflicts_damage) (RPure id) data.inflicts_damage (loadComp (fun c v2 => { c with wants_to_remove := some v2 }) (convRef WantsToRemoveItem.mk) v data.wants_to_remove) ∧
    KeysLive data.area_of_effect (loadComp (fun c v2 => { c with wants_to_remove := some v2 }) (convRef WantsToRemoveItem.mk) v data.wants_to_remove) ∧
    FieldVals (fun c => c.area_of_effect) (RPure id) data.area_of_effect (loadComp (fun c v2 => { c with wants_to_remove := some v2 }) (convRef WantsToRemoveItem.mk) v data.wants_to_remove) ∧
    KeysLive data.confusion (loadComp (fun c v2 => { c with wants_to_remove := some v2 }) (convRef WantsToRemoveItem.mk) v data.wants_to_remove) ∧
    FieldVals (fun c => c.confusion) (RPure id) data.confusion (loadComp (fun c v2 => { c with wants_to_remove := some v2 }) (convRef WantsToRemoveItem.mk) v data.wants_to_remove) ∧
    KeysLive data.provides_healing (loadComp (fun c v2 => { c with wants_to_remove := some v2 }) (convRef WantsToRemoveItem.mk) v data.wants_to_remove) ∧
    FieldVals (fun c => c.provides_healing) (RPure id) data.provides_healing (loadComp (fun c v2 => { c with wants_to_remove := some v2 }) (convRef WantsToRemoveItem.mk) v data.wants_to_remove) ∧
    KeysLive data.in_backpack (loadComp (fun c v2 => { c with wants_to_remove := some v2 }) (convRef WantsToRemoveItem.mk) v data.wants_to_remove) ∧
    FieldVals (fun c => c.in_backpack) (RRef InBackpack.mk) data.in_backpack (loadComp (fun c v2 => { c with wants_to_remove := some v2 }) (convRef WantsToRemoveItem.mk) v data.wants_to_remove) ∧
    KeysLive data.wants_to_pickup (loadComp (fun c v2 => { c with wants_to_remove := some v2 }) (convRef WantsToRemoveItem.mk) v data.wants_to_remove) ∧
    FieldVals (fun c => c.wants_to_pickup) (RRef2 WantsToPickupItem.mk) data.wants_to_pickup (loadComp (fun c v2 => { c with wants_to_remove := some v2 }) (convRef WantsToRemoveItem.mk) v data.wants_to_remove) ∧
    KeysLive data.wants_to_use (loadComp (fun c v2 => { c with wants_to_remove := some v2 }) (convRef WantsToRemoveItem.mk) v data.wants_to_remove) ∧
    FieldVals (fun c => c.wants_to_use) (RRefPair WantsToUseItem.mk) data.wants_to_use (loadComp (fun c v2 => { c with wants_to_remove := some v2 }) (convRef WantsToRemoveItem.mk) v data.wants_to_remove) ∧
    KeysLive data.wants_to_drop (loadComp (fun c v2 => { c with wants_to_remove := some v2 }) (convRef WantsToRemoveItem.mk) v data.wants_to_remove) ∧
    FieldVals (fun c => c.wants_to_drop) (RRef WantsToDropItem.mk) data.wants_to_drop (loadComp (fun c v2 => { c with wants_to_remove := some v2 }) (convRef WantsToRemoveItem.mk) v data.wants_to_remove) ∧
    KeysLive data.helpers (loadComp (fun c v2 => { c with wants_to_remove := some v2 }) (convRef WantsToRemoveItem.mk) v data.wants_to_remove) ∧
    FieldVals (fun c => c.serialization_helper) (RPure (fun (h : HelperSave) => SerializationHelper.mk h.map.toMap h.game_log)) data.helpers (loadComp (fun c v2 => { c with wants_to_remove := some v2 }) (convRef WantsToRemoveItem.mk) v data.wants_to_remove) ∧
    KeysLive data.equippables (loadComp (fun c v2 => { c with wants_to_remove := some v2 }) (convRef WantsToRemoveItem.mk) v data.wants_to_remove) ∧
    FieldVals (fun c => c.equippable) (RPure id) data.equippables (loadComp (fun c v2 => { c with wants_to_remove := some v2 }) (convRef WantsToRemoveItem.mk) v data.wants_to_remove) ∧
    KeysLive data.equipped (loadComp (fun c v2 => { c with wants_to_remove := some v2 }) (convRef WantsToRemoveItem.mk) v data.wants_to_remove) ∧
    FieldVals (fun c => c.equipped) (RRefPair Equipped.mk) data.equipped (loadComp (fun c v2 => { c with wants_to_remove := some v2 }) (convRef WantsToRemoveItem.mk) v data.wants_to_remove) ∧
    KeysLive data.melee_power_bonuses (loadComp (fun c v2 => { c with wants_to_remove := some v2 }) (convRef WantsToRemoveItem.mk) v data.wants_to_remove) ∧
    FieldVals (fun c => c.melee_power_bonus) (RPure id) data.melee_power_bonuses (loadComp (fun c v2 => { c with wants_to_remove := some v2 }) (convRef WantsToRemoveItem.mk) v data.wants_to_remove) ∧
    KeysLive data.defense_bonuses (loadComp (fun c v2 => { c with wants_to_remove := some v2 }) (convRef WantsToRemoveItem.mk) v data.wants_to_remove) ∧
    FieldVals (fun c => c.defense_bonus) (RPure id) data.defense_bonuses (loadComp (fun c v2 => { c with wants_to_remove := some v2 }) (convRef WantsToRemoveItem.mk) v data.wants_to_remove) ∧
    KeysLive data.wants_to_remove (loadComp (fun c v2 => { c with wants_to_remove := some v2 }) (convRef WantsToRemoveItem.mk) v data.wants_to_remove) ∧
    FieldVals (fun c => c.wants_to_remove) (RRef WantsToRemoveItem.mk) data.wants_to_remove (loadComp (fun c v2 => { c with wants_to_remove := some v2 }) (convRef WantsToRemoveItem.mk) v data.wants_to_remove) ∧
    AllNone (fun c => c.particle_lifetime) (loadComp (fun c v2 => { c with wants_to_remove := some v2 }) (convRef WantsToRemoveItem.mk) v data.wants_to_remove) ∧
    AllNone (fun c => c.hunger_clock) (loadComp (fun c v2 => { c with wants_to_remove := some v2 }) (convRef WantsToRemoveItem.mk) v data.wants_to_remove) ∧
    AllNone (fun c => c.provides_food) (loadComp (fun c v2 => { c with wants_to_remove := some v2 }) (convRef WantsToRemoveItem.mk) v data.wants_to_remove) := by
  obtain ⟨hI2, hle2, hfr2, hklx⟩ := loadComp_struct (fun c v2 => { c with wants_to_remove := some v2 }) (convRef WantsToRemoveItem.mk) A A
    (fun c a => rfl) (convOK_ref A WantsToRemoveItem.mk) data.wants_to_remove _ hI hA
  have hfvk := loadComp_est (fun c v2 => { c with wants_to_remove := some v2 }) (fun c => c.wants_to_remove) (convRef WantsToRemoveItem.mk) A A
    (RRef WantsToRemoveItem.mk) (convOK_ref A WantsToRemoveItem.mk) (fun v2 b hIv hAb => rval_ref WantsToRemoveItem.mk v2 b hIv)
    (fun va vb a b hle h => RRef_mono WantsToRemoveItem.mk va vb a b hle h) (fun c a => rfl) (fun c a => rfl) (fun m => rfl)
    data.wants_to_remove _ hI hkeys hA hN27
  obtain ⟨hoF1, hnF1⟩ := loadComp_obs (fun c v2 => { c with wants_to_remove := some v2 }) (convRef WantsToRemoveItem.mk) (fun c => c.position) A A
    (fun c a => rfl) (convOK_ref A WantsToRemoveItem.mk) (fun c a => rfl) (fun m => rfl) data.wants_to_remove _ hI hA
  have hfv1b := FieldVals_mono (fun c => c.position) (RPure id) data.positions hle2
    (fun a b h => h)
    (fun e he hn => let ⟨m, h1, h2, _⟩ := hfr2 e he hn; ⟨m, h1, h2⟩)
    hoF1 hnF1 hkl1 hfv1
  have hkl1b := KeysLive_mono hle2 hkl1
  obtain ⟨hoF2, hnF2⟩ := loadComp_obs (fun c v2 => { c with wants_to_remove := some v2 }) (convRef WantsToRemoveItem.mk) (fun c => c.renderable) A A
    (fun c a => rfl) (convOK_ref A WantsToRemoveItem.mk) (fun c a => rfl) (fun m => rfl) data.wants_to_remove _ hI hA
  have hfv2b := FieldVals_mono (fun c => c.renderable) (RPure id) data.renderables hle2
    (fun a b h => h)
    (fun e he hn => let ⟨m, h1, h2, _⟩ := hfr2 e he hn; ⟨m, h1, h2⟩)
    hoF2 hnF2 hkl2 hfv2
  have hkl2b := KeysLive_mono hle2 hkl2
  obtain ⟨hoF3, hnF3⟩ := loadComp_obs (fun c v2 => { c with wants_to_remove := some v2 }) (convRef WantsToRemoveItem.mk) (fun c => c.player) A A
    (fun c a => rfl) (convOK_ref A WantsToRemoveItem.mk) (fun c a => rfl) (fun m => rfl) data.wants_to_remove _ hI hA
  have hfv3b := FieldVals_mono (fun c => c.player) (RPure id) data.players hle2
    (fun a b h => h)
    (fun e he hn => let ⟨m, h1, h2, _⟩ := hfr2 e he hn; ⟨m, h1, h2⟩)
    hoF3 hnF3 hkl3 hfv3
  have hkl3b := KeysLive_mono hle2 hkl3
  obtain ⟨hoF4, hnF4⟩ := loadComp_obs (fun c v2 => { c with wants_to_remove := some v2 }) (convRef WantsToRemoveItem.mk) (fun c => c.viewshed) A A
    (fun c a => rfl) (convOK_ref A WantsToRemoveItem.mk) (fun c a => rfl) (fun m => rfl) data.wants_to_remove _ hI hA
  have hfv4b := FieldVals_mono (fun c => c.viewshed) (RPure id) data.viewsheds hle2
    (fun a b h => h)
    (fun e he hn => let ⟨m, h1, h2, _⟩ := hfr2 e he hn; ⟨m, h1, h2⟩)
    hoF4 hnF4 hkl4 hfv4
  have hkl4b := KeysLive_mono hle2 hkl4
  obtain ⟨hoF5, hnF5⟩ := loadComp_obs (fun c v2 => { c with wants_to_remove := some v2 }) (convRef WantsToRemoveItem.mk) (fun c => c.monster) A A
    (fun c a => rfl) (convOK_ref A WantsToRemoveItem.mk) (fun c a => rfl) (fun m => rfl) data.wants_to_remove _ hI hA
  have hfv5b := FieldVals_mono (fun c => c.monster) (RPure id) data.monsters hle2
    (fun a b h => h)
    (fun e he hn => let ⟨m, h1, h2, _⟩ := hfr2 e he hn; ⟨m, h1, h2⟩)
    hoF5 hnF5 hkl5 hfv5
  have hkl5b := KeysLive_mono hle2 hkl5
  obtain ⟨hoF6, hnF6⟩ := loadComp_obs (fun c v2 => { c with wants_to_remove := some v2 }) (convRef WantsToRemoveItem.mk) (fun c => c.name) A A
    (fun c a => rfl) (convOK_ref A WantsToRemoveItem.mk) (fun c a => rfl) (fun m => rfl) data.wants_to_remove _ hI hA
  have hfv6b := FieldVals_mono (fun c => c.name) (RPure id) data.names hle2
    (fun a b h => h)
    (fun e he hn => let ⟨m, h1, h2, _⟩ := hfr2 e he hn; ⟨m, h1, h2⟩)
    hoF6 hnF6 hkl6 hfv6
  have hkl6b := KeysLive_mono hle2 hkl6
  obtain ⟨hoF7, hnF7⟩ := loadComp_obs (fun c v2 => { c with wants_to_remove := some v2 }) (convRef WantsToRemoveItem.mk) (fun c => c.blocks_tile) A A
    (fun c a => rfl) (convOK_ref A WantsToRemoveItem.mk) (fun c a => rfl) (fun m => rfl) data.wants_to_remove _ hI hA
  have hfv7b := FieldVals_mono (fun c => c.blocks_tile) (RPure id) data.blocks_tile hle2
    (fun a b h => h)
    (fun e he hn => let ⟨m, h1, h2, _⟩ := hfr2 e he hn; ⟨m, h1, h2⟩)
    hoF7 hnF7 hkl7 hfv7
  have hkl7b := KeysLive_mono hle2 hkl7
  obtain ⟨hoF8, hnF8⟩ := loadComp_obs (fun c v2 => { c with wants_to_remove := some v2 }) (convRef WantsToRemoveItem.mk) (fun c => c.combat_stats) A A
    (fun c a => rfl) (convOK_ref A WantsToRemoveItem.mk) (fun c a => rfl) (fun m => rfl) data.wants_to_remove _ hI hA
  have hfv8b := FieldVals_mono (fun c => c.combat_stats) (RPure id) data.combat_stats hle2
    (fun a b h => h)
    (fun e he hn => let ⟨m, h1, h2, _⟩ := hfr2 e he hn; ⟨m, h1, h2⟩)
    hoF8 hnF8 hkl8 hfv8
  have hkl8b := KeysLive_mono hle2 hkl8
  obtain ⟨hoF9, hnF9⟩ := loadComp_obs (fun c v2 => { c with wants_to_remove := some v2 }) (convRef WantsToRemoveItem.mk) (fun c => c.suffer_damage) A A
    (fun c a => rfl) (convOK_ref A WantsToRemoveItem.mk) (fun c a => rfl) (fun m => rfl) data.wants_to_remove _ hI hA
  have hfv9b := FieldVals_mono (fun c => c.suffer_damage) (RPure id) data.suffer_damage hle2
    (fun a b h => h)
    (fun e he hn => let ⟨m, h1, h2, _⟩ := hfr2 e he hn; ⟨m, h1, h2⟩)
    hoF9 hnF9 hkl9 hfv9
  have hkl9b := KeysLive_mono hle2 hkl9
  obtain ⟨hoF10, hnF10⟩ := loadComp_obs (fun c v2 => { c with wants_to_remove := some v2 }) (convRef WantsToRemoveItem.mk) (fun c => c.wants_melee) A A
    (fun c a => rfl) (convOK_ref A WantsToRemoveItem.mk) (fun c a => rfl) (fun m => rfl) data.wants_to_remove _ hI hA
  have hfv10b := FieldVals_mono (fun c => c.wants_melee) (RRef WantsToMelee.mk) data.wants_melee hle2
    (fun a b h => RRef_mono WantsToMelee.mk _ _ a b hle2 h)
    (fun e he hn => let ⟨m, h1, h2, _⟩ := hfr2 e he hn; ⟨m, h1, h2⟩)
    hoF10 hnF10 hkl10 hfv10
  have hkl10b := KeysLive_mono hle2 hkl10
  obtain ⟨hoF11, hnF11⟩ := loadComp_obs (fun c v2 => { c with wants_to_remove := some v2 }) (convRef WantsToRemoveItem.mk) (fun c => c.item) A A
    (fun c a => rfl) (convOK_ref A WantsToRemoveItem.mk) (fun c a => rfl) (fun m => rfl) data.wants_to_remove _ hI hA
  have hfv11b := FieldVals_mono (fun c => c.item) (RPure id) data.items hle2
    (fun a b h => h)
    (fun e he hn => let ⟨m, h1, h2, _⟩ := hfr2 e he hn; ⟨m, h1, h2⟩)
    hoF11 hnF11 hkl11 hfv11
  have hkl11b := KeysLive_mono hle2 hkl11
  obtain ⟨hoF12, hnF12⟩ := loadComp_obs (fun c v2 => { c with wants_to_remove := some v2 }) (convRef WantsToRemoveItem.mk) (fun c => c.consumable) A A
    (fun c a => rfl) (convOK_ref A WantsToRemoveItem.mk) (fun c a => rfl) (fun m => rfl) data.wants_to_remove _ hI hA
  have hfv12b := FieldVals_mono (fun c => c.consumable) (RPure id) data.consumables hle2
    (fun a b h => h)
    (fun e he hn => let ⟨m, h1, h2, _⟩ := hfr2 e he hn; ⟨m, h1, h2⟩)
    hoF12 hnF12 hkl12 hfv12
  have hkl12b := KeysLive_mono hle2 hkl12
  obtain ⟨hoF13, hnF13⟩ := loadComp_obs (fun c v2 => { c with wants_to_remove := some v2 }) (convRef WantsToRemoveItem.mk) (fun c => c.ranged) A A
    (fun c a => rfl) (convOK_ref A WantsToRemoveItem.mk) (fun c a => rfl) (fun m => rfl) data.wants_to_remove _ hI hA
  have hfv13b := FieldVals_mono (fun c => c.ranged) (RPure id) data.ranged hle2
    (fun a b h => h)
    (fun e he hn => let ⟨m, h1, h2, _⟩ := hfr2 e he hn; ⟨m, h1, h2⟩)
    hoF13 hnF13 hkl13 hfv13
  have hkl13b := KeysLive_mono hle2 hkl13
  obtain ⟨hoF14, hnF14⟩ := loadComp_obs (fun c v2 => { c with wants_to_remove := some v2 }) (convRef WantsToRemoveItem.mk) (fun c => c.inflicts_damage) A A
    (fun c a => rfl) (convOK_ref A WantsToRemoveItem.mk) (fun c a => rfl) (fun m => rfl) data.wants_to_remove _ hI hA
  have hfv14b := FieldVals_mono (fun c => c.inflicts_damage) (RPure id) data.inflicts_damage hle2
    (fun a b h => h)
    (fun e he hn => let ⟨m, h1, h2, _⟩ := hfr2 e he hn; ⟨m, h1, h2⟩)
    hoF14 hnF14 hkl14 hfv14
  have hkl14b := KeysLive_mono hle2 hkl14
  obtain ⟨hoF15, hnF15⟩ := loadComp_obs (fun c v2 => { c with wants_to_remove := some v2 }) (convRef WantsToRemoveItem.mk) (fun c => c.area_of_effect) A A
    (fun c a => rfl) (convOK_ref A WantsToRemoveItem.mk) (fun c a => rfl) (fun m => rfl) data.wants_to_remove _ hI hA
  have hfv15b := FieldVals_mono (fun c => c.area_of_effect) (RPure id) data.area_of_effect hle2
    (fun a b h => h)
    (fun e he hn => let ⟨m, h1, h2, _⟩ := hfr2 e he hn; ⟨m, h1, h2⟩)
    hoF15 hnF15 hkl15 hfv15
  have hkl15b := KeysLive_mono hle2 hkl15
  obtain ⟨hoF16, hnF16⟩ := loadComp_obs (fun c v2 => { c with wants_to_remove := some v2 }) (convRef WantsToRemoveItem.mk) (fun c => c.confusion) A A
    (fun c a => rfl) (convOK_ref A WantsToRemoveItem.mk) (fun c a => rfl) (fun m => rfl) data.wants_to_remove _ hI hA
  have hfv16b := FieldVals_mono (fun c => c.confusion) (RPure id) data.confusion hle2
    (fun a b h => h)
    (fun e he hn => let ⟨m, h1, h2, _⟩ := hfr2 e he hn; ⟨m, h1, h2⟩)
    hoF16 hnF16 hkl16 hfv16
  have hkl16b := KeysLive_mono hle2 hkl16
  obtain ⟨hoF17, hnF17⟩ := loadComp_obs (fun c v2 => { c with wants_to_remove := some v2 }) (convRef WantsToRemoveItem.mk) (fun c => c.provides_healing) A A
    (fun c a => rfl) (convOK_ref A WantsToRemoveItem.mk) (fun c a => rfl) (fun m => rfl) data.wants_to_remove _ hI hA
  have hfv17b := FieldVals_mono (fun c => c.provides_healing) (RPure id) data.provides_healing hle2
    (fun a b h => h)
    (fun e he hn => let ⟨m, h1, h2, _⟩ := hfr2 e he hn; ⟨m, h1, h2⟩)
    hoF17 hnF17 hkl17 hfv17
  have hkl17b := KeysLive_mono hle2 hkl17
  obtain ⟨hoF18, hnF18⟩ := loadComp_obs (fun c v2 => { c with wants_to_remove := some v2 }) (convRef WantsToRemoveItem.mk) (fun c => c.in_backpack) A A
    (fun c a => rfl) (convOK_ref A WantsToRemoveItem.mk) (fun c a => rfl) (fun m => rfl) data.wants_to_remove _ hI hA
  have hfv18b := FieldVals_mono (fun c => c.in_backpack) (RRef InBackpack.mk) data.in_backpack hle2
    (fun a b h => RRef_mono InBackpack.mk _ _ a b hle2 h)
    (fun e he hn => let ⟨m, h1, h2, _⟩ := hfr2 e he hn; ⟨m, h1, h2⟩)
    hoF18 hnF18 hkl18 hfv18
  have hkl18b := KeysLive_mono hle2 hkl18
  obtain ⟨hoF19, hnF19⟩ := loadComp_obs (fun c v2 => { c with wants_to_remove := some v2 }) (convRef WantsToRemoveItem.mk) (fun c => c.wants_to_pickup) A A
    (fun c a => rfl) (convOK_ref A WantsToRemoveItem.mk) (fun c a => rfl) (fun m => rfl) data.wants_to_remove _ hI hA
  have hfv19b := FieldVals_mono (fun c => c.wants_to_pickup) (RRef2 WantsToPickupItem.mk) data.wants_to_pickup hle2
    (fun a b h => RRef2_mono WantsToPickupItem.mk _ _ a b hle2 h)
    (fun e he hn => let ⟨m, h1, h2, _⟩ := hfr2 e he hn; ⟨m, h1, h2⟩)
    hoF19 hnF19 hkl19 hfv19
  have hkl19b := KeysLive_mono hle2 hkl19
  obtain ⟨hoF20, hnF20⟩ := loadComp_obs (fun c v2 => { c with wants_to_remove := some v2 }) (convRef WantsToRemoveItem.mk) (fun c => c.wants_to_use) A A
    (fun c a => rfl) (convOK_ref A WantsToRemoveItem.mk) (fun c a => rfl) (fun m => rfl) data.wants_to_remove _ hI hA
  have hfv20b := FieldVals_mono (fun c => c.wants_to_use) (RRefPair WantsToUseItem.mk) data.wants_to_use hle2
    (fun a b h => RRefPair_mono WantsToUseItem.mk _ _ a b hle2 h)
    (fun e he hn => let ⟨m, h1, h2, _⟩ := hfr2 e he hn; ⟨m, h1, h2⟩)
    hoF20 hnF20 hkl20 hfv20
  have hkl20b := KeysLive_mono hle2 hkl20
  obtain ⟨hoF21, hnF21⟩ := loadComp_obs (fun c v2 => { c with wants_to_remove := some v2 }) (convRef WantsToRemoveItem.mk) (fun c => c.wants_to_drop) A A
    (fun c a => rfl) (convOK_ref A WantsToRemoveItem.mk) (fun c a => rfl) (fun m => rfl) data.wants_to_remove _ hI hA
  have hfv21b := FieldVals_mono (fun c => c.wants_to_drop) (RRef WantsToDropItem.mk) data.wants_to_drop hle2
    (fun a b h => RRef_mono WantsToDropItem.mk _ _ a b hle2 h)
    (fun e he hn => let ⟨m, h1, h2, _⟩ := hfr2 e he hn; ⟨m, h1, h2⟩)
    hoF21 hnF21 hkl21 hfv21
  have hkl21b := KeysLive_mono hle2 hkl21
  obtain ⟨hoF22, hnF22⟩ := loadComp_obs (fun c v2 => { c with wants_to_remove := some v2 }) (convRef WantsToRemoveItem.mk) (fun c => c.serialization_helper) A A
    (fun c a => rfl) (convOK_ref A WantsToRemoveItem.mk) (fun c a => rfl) (fun m => rfl) data.wants_to_remove _ hI hA
  have hfv22b := FieldVals_mono (fun c => c.serialization_helper) (RPure (fun (h : HelperSave) => SerializationHelper.mk h.map.toMap h.game_log)) data.helpers hle2
    (fun a b h => h)
    (fun e he hn => let ⟨m, h1, h2, _⟩ := hfr2 e he hn; ⟨m, h1, h2⟩)
    hoF22 hnF22 hkl22 hfv22
  have hkl22b := KeysLive_mono hle2 hkl22
  obtain ⟨hoF23, hnF23⟩ := loadComp_obs (fun c v2 => { c with wants_to_remove := some v2 }) (convRef WantsToRemoveItem.mk) (fun c => c.equippable) A A
    (fun c a => rfl) (convOK_ref A WantsToRemoveItem.mk) (fun c a => rfl) (fun m => rfl) data.wants_to_remove _ hI hA
  have hfv23b := FieldVals_mono (fun c => c.equippable) (RPure id) data.equippables hle2
    (fun a b h => h)
    (fun e he hn => let ⟨m, h1, h2, _⟩ := hfr2 e he hn; ⟨m, h1, h2⟩)
    hoF23 hnF23 hkl23 hfv23
  have hkl23b := KeysLive_mono hle2 hkl23
  obtain ⟨hoF24, hnF24⟩ := loadComp_obs (fun c v2 => { c with wants_to_remove := some v2 }) (convRef WantsToRemoveItem.mk) (fun c => c.equipped) A A
    (fun c a => rfl) (convOK_ref A WantsToRemoveItem.mk) (fun c a => rfl) (fun m => rfl) data.wants_to_remove _ hI hA
  have hfv24b := FieldVals_mono (fun c => c.equipped) (RRefPair Equipped.mk) data.equipped hle2
    (fun a b h => RRefPair_mono Equipped.mk _ _ a b hle2 h)
    (fun e he hn => let ⟨m, h1, h2, _⟩ := hfr2 e he hn; ⟨m, h1, h2⟩)
    hoF24 hnF24 hkl24 hfv24
  have hkl24b := KeysLive_mono hle2 hkl24
  obtain ⟨hoF25, hnF25⟩ := loadComp_obs (fun c v2 => { c with wants_to_remove := some v2 }) (convRef WantsToRemoveItem.mk) (fun c => c.melee_power_bonus) A A
    (fun c a => rfl) (convOK_ref A WantsToRemoveItem.mk) (fun c a => rfl) (fun m => rfl) data.wants_to_remove _ hI hA
  have hfv25b := FieldVals_mono (fun c => c.melee_power_bonus) (RPure id) data.melee_power_bonuses hle2
    (fun a b h => h)
    (fun e he hn => let ⟨m, h1, h2, _⟩ := hfr2 e he hn; ⟨m, h1, h2⟩)
    hoF25 hnF25 hkl25 hfv25
  have hkl25b := KeysLive_mono hle2 hkl25
  obtain ⟨hoF26, hnF26⟩ := loadComp_obs (fun c v2 => { c with wants_to_remove := some v2 }) (convRef WantsToRemoveItem.mk) (fun c => c.defense_bonus) A A
    (fun c a => rfl) (convOK_ref A WantsToRemoveItem.mk) (fun c a => rfl) (fun m => rfl) data.wants_to_remove _ hI hA
  have hfv26b := FieldVals_mono (fun c => c.defense_bonus) (RPure id) data.defense_bonuses hle2
    (fun a b h => h)
    (fun e he hn => let ⟨m, h1, h2, _⟩ := hfr2 e he hn; ⟨m, h1, h2⟩)
    hoF26 hnF26 hkl26 hfv26
  have hkl26b := KeysLive_mono hle2 hkl26
  obtain ⟨hoF28, hnF28⟩ := loadComp_obs (fun c v2 => { c with wants_to_remove := some v2 }) (convRef WantsToRemoveItem.mk) (fun c => c.particle_lifetime) A A
    (fun c a => rfl) (convOK_ref A WantsToRemoveItem.mk) (fun c a => rfl) (fun m => rfl) data.wants_to_remove _ hI hA
  have hN28b := AllNone_mono (fun c => c.particle_lifetime) _ _ hoF28 hnF28 hN28
  obtain ⟨hoF29, hnF29⟩ := loadComp_obs (fun c v2 => { c with wants_to_remove := some v2 }) (convRef WantsToRemoveItem.mk) (fun c => c.hunger_clock) A A
    (fun c a => rfl) (convOK_ref A WantsToRemoveItem.mk) (fun c a => rfl) (fun m => rfl) data.wants_to_remove _ hI hA
  have hN29b := AllNone_mono (fun c => c.hunger_clock) _ _ hoF29 hnF29 hN29
  obtain ⟨hoF30, hnF30⟩ := loadComp_obs (fun c v2 => { c with wants_to_remove := some v2 }) (convRef WantsToRemoveItem.mk) (fun c => c.provides_food) A A
    (fun c a => rfl) (convOK_ref A WantsToRemoveItem.mk) (fun c a => rfl) (fun m => rfl) data.wants_to_remove _ hI hA
  have hN30b := AllNone_mono (fun c => c.provides_food) _ _ hoF30 hnF30 hN30
  have hMb := MarksIn_mono hle2 (fun e he hn => let ⟨m, h1, _, h3⟩ := hfr2 e he hn; ⟨m, h1, h3⟩) hM
  exact ⟨hI2, hMb, hkl1b, hfv1b, hkl2b, hfv2b, hkl3b, hfv3b, hkl4b, hfv4b, hkl5b, hfv5b, hkl6b, hfv6b, hkl7b, hfv7b, hkl8b, hfv8b, hkl9b, hfv9b, hkl10b, hfv10b, hkl11b, hfv11b, hkl12b, hfv12b, hkl13b, hfv13b, hkl14b, hfv14b, hkl15b, hfv15b, hkl16b, hfv16b, hkl17b, hfv17b, hkl18b, hfv18b, hkl19b, hfv19b, hkl20b, hfv20b, hkl21b, hfv21b, hkl22b, hfv22b, hkl23b, hfv23b, hkl24b, hfv24b, hkl25b, hfv25b, hkl26b, hfv26b, hklx, hfvk, hN28b, hN29b, hN30b⟩

set_option maxHeartbeats 800000 in
/-- Deserialization pass 28 (particle_lifetime): it establishes its own list facts
and preserves those of the earlier passes. -/
lemma loadStage28 (A : Nat → Prop) (data : SaveData) (v : World)
    (hI : LoadInv v)
    (hkeys : ((data.particle_lifetimes).map Prod.fst).Nodup)
    (hA : ∀ p ∈ data.particle_lifetimes, A p.1)
    (hM : MarksIn A v)
    (hkl1 : KeysLive data.positions v)
    (hfv1 : FieldVals (fun c => c.position) (RPure id) data.positions v)
    (hkl2 : KeysLive data.renderables v)
    (hfv2 : FieldVals (fun c => c.renderable) (RPure id) data.renderables v)
    (hkl3 : KeysLive data.players v)
    (hfv3 : FieldVals (fun c => c.player) (RPure id) data.players v)
    (hkl4 : KeysLive data.viewsheds v)
    (hfv4 : FieldVals (fun c => c.viewshed) (RPure id) data.viewsheds v)
    (hkl5 : KeysLive data.monsters v)
    (hfv5 : FieldVals (fun c => c.monster) (RPure id) data.monsters v)
    (hkl6 : KeysLive data.names v)
    (hfv6 : FieldVals (fun c => c.name) (RPure id) data.names v)
    (hkl7 : KeysLive data.blocks_tile v)
    (hfv7 : FieldVals (fun c => c.blocks_tile) (RPure id) data.blocks_tile v)
    (hkl8 : KeysLive data.combat_stats v)
    (hfv8 : FieldVals (fun c => c.combat_stats) (RPure id) data.combat_stats v)
    (hkl9 : KeysLive data.suffer_damage v)
    (hfv9 : FieldVals (fun c => c.suffer_damage) (RPure id) data.suffer_damage v)
    (hkl10 : KeysLive data.wants_melee v)
    (hfv10 : FieldVals (fun c => c.wants_melee) (RRef WantsToMelee.mk) data.wants_melee v)
    (hkl11 : KeysLive data.items v)
    (hfv11 : FieldVals (fun c => c.item) (RPure id) data.items v)
    (hkl12 : KeysLive data.consumables v)
    (hfv12 : FieldVals (fun c => c.consumable) (RPure id) data.consumables v)
    (hkl13 : KeysLive data.ranged v)
    (hfv13 : FieldVals (fun c => c.ranged) (RPure id) data.ranged v)
    (hkl14 : KeysLive data.inflicts_damage v)
    (hfv14 : FieldVals (fun c => c.inflicts_damage) (RPure id) data.inflicts_damage v)
    (hkl15 : KeysLive data.area_of_effect v)
    (hfv15 : FieldVals (fun c => c.area_of_effect) (RPure id) data.area_of_effect v)
    (hkl16 : KeysLive data.confusion v)
    (hfv16 : FieldVals (fun c => c.confusion) (RPure id) data.confusion v)
    (hkl17 : KeysLive data.provides_healing v)
    (hfv17 : FieldVals (fun c => c.provides_healing) (RPure id) data.provides_healing v)
    (hkl18 : KeysLive data.in_backpack v)
    (hfv18 : FieldVals (fun c => c.in_backpack) (RRef InBackpack.mk) data.in_backpack v)
    (hkl19 : KeysLive data.wants_to_pickup v)
    (hfv19 : FieldVals (fun c => c.wants_to_pickup) (RRef2 WantsToPickupItem.mk) data.wants_to_pickup v)
    (hkl20 : KeysLive data.wants_to_use v)
    (hfv20 : FieldVals (fun c => c.wants_to_use) (RRefPair WantsToUseItem.mk) data.wants_to_use v)
    (hkl21 : KeysLive data.wants_to_drop v)
    (hfv21 : FieldVals (fun c => c.wants_to_drop) (RRef WantsToDropItem.mk) data.wants_to_drop v)
    (hkl22 : KeysLive data.helpers v)
    (hfv22 : FieldVals (fun c => c.serialization_helper) (RPure (fun (h : HelperSave) => SerializationHelper.mk h.map.toMap h.game_log)) data.helpers v)
    (hkl23 : KeysLive data.equippables v)
    (hfv23 : FieldVals (fun c => c.equippable) (RPure id) data.equippables v)
    (hkl24 : KeysLive data.equipped v)
    (hfv24 : FieldVals (fun c => c.equipped) (RRefPair Equipped.mk) data.equipped v)
    (hkl25 : KeysLive data.melee_power_bonuses v)
    (hfv25 : FieldVals (fun c => c.melee_power_bonus) (RPure id) data.melee_power_bonuses v)
    (hkl26 : KeysLive data.defense_bonuses v)
    (hfv26 : FieldVals (fun c => c.defense_bonus) (RPure id) data.defense_bonuses v)
    (hkl27 : KeysLive data.wants_to_remove v)
    (hfv27 : FieldVals (fun c => c.wants_to_remove) (RRef WantsToRemoveItem.mk) data.wants_to_remove v)
    (hN28 : AllNone (fun c => c.particle_lifetime) v)
    (hN29 : AllNone (fun c => c.hunger_clock) v)
    (hN30 : AllNone (fun c => c.provides_food) v)
    :
    LoadInv (loadComp (fun c v2 => { c with particle_lifetime := some v2 }) convPure v data.particle_lifetimes) ∧
    MarksIn A (loadComp (fun c v2 => { c with particle_lifetime := some v2 }) convPure v data.particle_lifetimes) ∧
    KeysLive data.positions (loadComp (fun c v2 => { c with particle_lifetime := some v2 }) convPure v data.particle_lifetimes) ∧
    FieldVals (fun c => c.position) (RPure id) data.positions (loadComp (fun c v2 => { c with particle_lifetime := some v2 }) convPure v data.particle_lifetimes) ∧
    KeysLive data.renderables (loadComp (fun c v2 => { c with particle_lifetime := some v2 }) convPure v data.particle_lifetimes) ∧
    FieldVals (fun c => c.renderable) (RPure id) data.renderables (loadComp (fun c v2 => { c with particle_lifetime := some v2 }) convPure v data.particle_lifetimes) ∧
    KeysLive data.players (loadComp (fun c v2 => { c with particle_lifetime := some v2 }) convPure v data.particle_lifetimes) ∧
    FieldVals (fun c => c.player) (RPure id) data.players (loadComp (fun c v2 => { c with particle_lifetime := some v2 }) convPure v data.particle_lifetimes) ∧
    KeysLive data.viewsheds (loadComp (fun c v2 => { c with particle_lifetime := some v2 }) convPure v data.particle_lifetimes) ∧
    FieldVals (fun c => c.viewshed) (RPure id) data.viewsheds (loadComp (fun c v2 => { c with particle_lifetime := some v2 }) convPure v data.particle_lifetimes) ∧
    KeysLive data.monsters (loadComp (fun c v2 => { c with particle_lifetime := some v2 }) convPure v data.particle_lifetimes) ∧
    FieldVals (fun c => c.monster) (RPure id) data.monsters (loadComp (fun c v2 => { c with particle_lifetime := some v2 }) convPure v data.particle_lifetimes) ∧
    KeysLive data.names (loadComp (fun c v2 => { c with particle_lifetime := some v2 }) convPure v data.particle_lifetimes) ∧
    FieldVals (fun c => c.name) (RPure id) data.names (loadComp (fun c v2 => { c with particle_lifetime := some v2 }) convPure v data.particle_lifetimes) ∧
    KeysLive data.blocks_tile (loadComp (fun c v2 => { c with particle_lifetime := some v2 }) convPure v data.particle_lifetimes) ∧
    FieldVals (fun c => c.blocks_tile) (RPure id) data.blocks_tile (loadComp (fun c v2 => { c with particle_lifetime := some v2 }) convPure v data.particle_lifetimes) ∧
    KeysLive data.combat_stats (loadComp (fun c v2 => { c with particle_lifetime := some v2 }) convPure v data.particle_lifetimes) ∧
    FieldVals (fun c => c.combat_stats) (RPure id) data.combat_stats (loadComp (fun c v2 => { c with particle_lifetime := some v2 }) convPure v data.particle_lifetimes) ∧
    KeysLive data.suffer_damage (loadComp (fun c v2 => { c with particle_lifetime := some v2 }) convPure v data.particle_lifetimes) ∧
    FieldVals (fun c => c.suffer_damage) (RPure id) data.suffer_damage (loadComp (fun c v2 => { c with particle_lifetime := some v2 }) convPure v data.particle_lifetimes) ∧
    KeysLive data.wants_melee (loadComp (fun c v2 => { c with particle_lifetime := some v2 }) convPure v data.particle_lifetimes) ∧
    FieldVals (fun c => c.wants_melee) (RRef WantsToMelee.mk) data.wants_melee (loadComp (fun c v2 => { c with particle_lifetime := some v2 }) convPure v data.particle_lifetimes) ∧
    KeysLive data.items (loadComp (fun c v2 => { c with particle_lifetime := some v2 }) convPure v data.particle_lifetimes) ∧
    FieldVals (fun c => c.item) (RPure id) data.items (loadComp (fun c v2 => { c with particle_lifetime := some v2 }) convPure v data.particle_lifetimes) ∧
    KeysLive data.consumables (loadComp (fun c v2 => { c with particle_lifetime := some v2 }) convPure v data.particle_lifetimes) ∧
    FieldVals (fun c => c.consumable) (RPure id) data.consumables (loadComp (fun c v2 => { c with particle_lifetime := some v2 }) convPure v data.particle_lifetimes) ∧
    KeysLive data.ranged (loadComp (fun c v2 => { c with particle_lifetime := some v2 }) convPure v data.particle_lifetimes) ∧
    FieldVals (fun c => c.ranged) (RPure id) data.ranged (loadComp (fun c v2 => { c with particle_lifetime := some v2 }) convPure v data.particle_lifetimes) ∧
    KeysLive data.inflicts_damage (loadComp (fun c v2 => { c with particle_lifetime := some v2 }) convPure v data.particle_lifetimes) ∧
    FieldVals (fun c => c.inflicts_damage) (RPure id) data.inflicts_damage (loadComp (fun c v2 => { c with particle_lifetime := some v2 }) convPure v data.particle_lifetimes) ∧
    KeysLive data.area_of_effect (loadComp (fun c v2 => { c with particle_lifetime := some v2 }) convPure v data.particle_lifetimes) ∧
    FieldVals (fun c => c.area_of_effect) (RPure id) data.area_of_effect (loadComp (fun c v2 => { c with particle_lifetime := some v2 }) convPure v data.particle_lifetimes) ∧
    KeysLive data.confusion (loadComp (fun c v2 => { c with particle_lifetime := some v2 }) convPure v data.particle_lifetimes) ∧
    FieldVals (fun c => c.confusion) (RPure id) data.confusion (loadComp (fun c v2 => { c with particle_lifetime := some v2 }) convPure v data.particle_lifetimes) ∧
    KeysLive data.provides_healing (loadComp (fun c v2 => { c with particle_lifetime := some v2 }) convPure v data.particle_lifetimes) ∧
    FieldVals (fun c => c.provides_healing) (RPure id) data.provides_healing (loadComp (fun c v2 => { c with particle_lifetime := some v2 }) convPure v data.particle_lifetimes) ∧
    KeysLive data.in_backpack (loadComp (fun c v2 => { c with particle_lifetime := some v2 }) convPure v data.particle_lifetimes) ∧
    FieldVals (fun c => c.in_backpack) (RRef InBackpack.mk) data.in_backpack (loadComp (fun c v2 => { c with particle_lifetime := some v2 }) convPure v data.particle_lifetimes) ∧
    KeysLive data.wants_to_pickup (loadComp (fun c v2 => { c with particle_lifetime := some v2 }) convPure v data.particle_lifetimes) ∧
    FieldVals (fun c => c.wants_to_pickup) (RRef2 WantsToPickupItem.mk) data.wants_to_pickup (loadComp (fun c v2 => { c with particle_lifetime := some v2 }) convPure v data.particle_lifetimes) ∧
    KeysLive data.wants_to_use (loadComp (fun c v2 => { c with particle_lifetime := some v2 }) convPure v data.particle_lifetimes) ∧
    FieldVals (fun c => c.wants_to_use) (RRefPair WantsToUseItem.mk) data.wants_to_use (loadComp (fun c v2 => { c with particle_lifetime := some v2 }) convPure v data.particle_lifetimes) ∧
    KeysLive data.wants_to_drop (loadComp (fun c v2 => { c with particle_lifetime := some v2 }) convPure v data.particle_lifetimes) ∧
    FieldVals (fun c => c.wants_to_drop) (RRef WantsToDropItem.mk) data.wants_to_drop (loadComp (fun c v2 => { c with particle_lifetime := some v2 }) convPure v data.particle_lifetimes) ∧
    KeysLive data.helpers (loadComp (fun c v2 => { c with particle_lifetime := some v2 }) convPure v data.particle_lifetimes) ∧
    FieldVals (fun c => c.serialization_helper) (RPure (fun (h : HelperSave) => SerializationHelper.mk h.map.toMap h.game_log)) data.helpers (loadComp (fun c v2 => { c with particle_lifetime := some v2 }) convPure v data.particle_lifetimes) ∧
    KeysLive data.equippables (loadComp (fun c v2 => { c with particle_lifetime := some v2 }) convPure v data.particle_lifetimes) ∧
    FieldVals (fun c => c.equippable) (RPure id) data.equippables (loadComp (fun c v2 => { c with particle_lifetime := some v2 }) convPure v data.particle_lifetimes) ∧
    KeysLive data.equipped (loadComp (fun c v2 => { c with particle_lifetime := some v2 }) convPure v data.particle_lifetimes) ∧
    FieldVals (fun c => c.equipped) (RRefPair Equipped.mk) data.equipped (loadComp (fun c v2 => { c with particle_lifetime := some v2 }) convPure v data.particle_lifetimes) ∧
    KeysLive data.melee_power_bonuses (loadComp (fun c v2 => { c with particle_lifetime := some v2 }) convPure v data.particle_lifetimes) ∧
    FieldVals (fun c => c.melee_power_bonus) (RPure id) data.melee_power_bonuses (loadComp (fun c v2 => { c with particle_lifetime := some v2 }) convPure v data.particle_lifetimes) ∧
    KeysLive data.defense_bonuses (loadComp (fun c v2 => { c with particle_lifetime := some v2 }) convPure v data.particle_lifetimes) ∧
    FieldVals (fun c => c.defense_bonus) (RPure id) data.defense_bonuses (loadComp (fun c v2 => { c with particle_lifetime := some v2 }) convPure v data.particle_lifetimes) ∧
    KeysLive data.wants_to_remove (loadComp (fun c v2 => { c with particle_lifetime := some v2 }) convPure v data.particle_lifetimes) ∧
    FieldVals (fun c => c.wants_to_remove) (RRef WantsToRemoveItem.mk) data.wants_to_remove (loadComp (fun c v2 => { c with particle_lifetime := some v2 }) convPure v data.particle_lifetimes) ∧
    KeysLive data.particle_lifetimes (loadComp (fun c v2 => { c with particle_lifetime := some v2 }) convPure v data.particle_lifetimes) ∧
    FieldVals (fun c => c.particle_lifetime) (RPure id) data.particle_lifetimes (loadComp (fun c v2 => { c with particle_lifetime := some v2 }) convPure v data.particle_lifetimes) ∧
    AllNone (fun c => c.hunger_clock) (loadComp (fun c v2 => { c with particle_lifetime := some v2 }) convPure v data.particle_lifetimes) ∧
    AllNone (fun c => c.provides_food) (loadComp (fun c v2 => { c with particle_lifetime := some v2 }) convPure v data.particle_lifetimes) := by
  obtain ⟨hI2, hle2, hfr2, hklx⟩ := loadComp_struct (fun c v2 => { c with particle_lifetime := some v2 }) convPure A (fun _ => True)
    (fun c a => rfl) (convOK_pure A) data.particle_lifetimes _ hI (fun p hp => ⟨hA p hp, trivial⟩)
  have hfvk := loadComp_est (fun c v2 => { c with particle_lifetime := some v2 }) (fun c => c.particle_lifetime) convPure A (fun _ => True)
    (RPure id) (convOK_pure A) (fun v2 b hIv hAb => rfl)
    (fun va vb a b hle h => h) (fun c a => rfl) (fun c a => rfl) (fun m => rfl)
    data.particle_lifetimes _ hI hkeys (fun p hp => ⟨hA p hp, trivial⟩) hN28
  obtain ⟨hoF1, hnF1⟩ := loadComp_obs (fun c v2 => { c with particle_lifetime := some v2 }) convPure (fun c => c.position) A (fun _ => True)
    (fun c a => rfl) (convOK_pure A) (fun c a => rfl) (fun m => rfl) data.particle_lifetimes _ hI (fun p hp => ⟨hA p hp, trivial⟩)
  have hfv1b := FieldVals_mono (fun c => c.position) (RPure id) data.positions hle2
    (fun a b h => h)
    (fun e he hn => let ⟨m, h1, h2, _⟩ := hfr2 e he hn; ⟨m, h1, h2⟩)
    hoF1 hnF1 hkl1 hfv1
  have hkl1b := KeysLive_mono hle2 hkl1
  obtain ⟨hoF2, hnF2⟩ := loadComp_obs (fun c v2 => { c with particle_lifetime := some v2 }) convPure (fun c => c.renderable) A (fun _ => True)
    (fun c a => rfl) (convOK_pure A) (fun c a => rfl) (fun m => rfl) data.particle_lifetimes _ hI (fun p hp => ⟨hA p hp, trivial⟩)
  have hfv2b := FieldVals_mono (fun c => c.renderable) (RPure id) data.renderables hle2
    (fun a b h => h)
    (fun e he hn => let ⟨m, h1, h2, _⟩ := hfr2 e he hn; ⟨m, h1, h2⟩)
    hoF2 hnF2 hkl2 hfv2
  have hkl2b := KeysLive_mono hle2 hkl2
  obtain ⟨hoF3, hnF3⟩ := loadComp_obs (fun c v2 => { c with particle_lifetime := some v2 }) convPure (fun c => c.player) A (fun _ => True)
    (fun c a => rfl) (convOK_pure A) (fun c a => rfl) (fun m => rfl) data.particle_lifetimes _ hI (fun p hp => ⟨hA p hp, trivial⟩)
  have hfv3b := FieldVals_mono (fun c => c.player) (RPure id) data.players hle2
    (fun a b h => h)
    (fun e he hn => let ⟨m, h1, h2, _⟩ := hfr2 e he hn; ⟨m, h1, h2⟩)
    hoF3 hnF3 hkl3 hfv3
  have hkl3b := KeysLive_mono hle2 hkl3
  obtain ⟨hoF4, hnF4⟩ := loadComp_obs (fun c v2 => { c with particle_lifetime := some v2 }) convPure (fun c => c.viewshed) A (fun _ => True)
    (fun c a => rfl) (convOK_pure A) (fun c a => rfl) (fun m => rfl) data.particle_lifetimes _ hI (fun p hp => ⟨hA p hp, trivial⟩)
  have hfv4b := FieldVals_mono (fun c => c.viewshed) (RPure id) data.viewsheds hle2
    (fun a b h => h)
    (fun e he hn => let ⟨m, h1, h2, _⟩ := hfr2 e he hn; ⟨m, h1, h2⟩)
    hoF4 hnF4 hkl4 hfv4
  have hkl4b := KeysLive_mono hle2 hkl4
  obtain ⟨hoF5, hnF5⟩ := loadComp_obs (fun c v2 => { c with particle_lifetime := some v2 }) convPure (fun c => c.monster) A (fun _ => True)
    (fun c a => rfl) (convOK_pure A) (fun c a => rfl) (fun m => rfl) data.particle_lifetimes _ hI (fun p hp => ⟨hA p hp, trivial⟩)
  have hfv5b := FieldVals_mono (fun c => c.monster) (RPure id) data.monsters hle2
    (fun a b h => h)
    (fun e he hn => let ⟨m, h1, h2, _⟩ := hfr2 e he hn; ⟨m, h1, h2⟩)
    hoF5 hnF5 hkl5 hfv5
  have hkl5b := KeysLive_mono hle2 hkl5
  obtain ⟨hoF6, hnF6⟩ := loadComp_obs (fun c v2 => { c with particle_lifetime := some v2 }) convPure (fun c => c.name) A (fun _ => True)
    (fun c a => rfl) (convOK_pure A) (fun c a => rfl) (fun m => rfl) data.particle_lifetimes _ hI (fun p hp => ⟨hA p hp, trivial⟩)
  have hfv6b := FieldVals_mono (fun c => c.name) (RPure id) data.names hle2
    (fun a b h => h)
    (fun e he hn => let ⟨m, h1, h2, _⟩ := hfr2 e he hn; ⟨m, h1, h2⟩)
    hoF6 hnF6 hkl6 hfv6
  have hkl6b := KeysLive_mono hle2 hkl6
  obtain ⟨hoF7, hnF7⟩ := loadComp_obs (fun c v2 => { c with particle_lifetime := some v2 }) convPure (fun c => c.blocks_tile) A (fun _ => True)
    (fun c a => rfl) (convOK_pure A) (fun c a => rfl) (fun m => rfl) data.particle_lifetimes _ hI (fun p hp => ⟨hA p hp, trivial⟩)
  have hfv7b := FieldVals_mono (fun c => c.blocks_tile) (RPure id) data.blocks_tile hle2
    (fun a b h => h)
    (fun e he hn => let ⟨m, h1, h2, _⟩ := hfr2 e he hn; ⟨m, h1, h2⟩)
    hoF7 hnF7 hkl7 hfv7
  have hkl7b := KeysLive_mono hle2 hkl7
  obtain ⟨hoF8, hnF8⟩ := loadComp_obs (fun c v2 => { c with particle_lifetime := some v2 }) convPure (fun c => c.combat_stats) A (fun _ => True)
    (fun c a => rfl) (convOK_pure A) (fun c a => rfl) (fun m => rfl) data.particle_lifetimes _ hI (fun p hp => ⟨hA p hp, trivial⟩)
  have hfv8b := FieldVals_mono (fun c => c.combat_stats) (RPure id) data.combat_stats hle2
    (fun a b h => h)
    (fun e he hn => let ⟨m, h1, h2, _⟩ := hfr2 e he hn; ⟨m, h1, h2⟩)
    hoF8 hnF8 hkl8 hfv8
  have hkl8b := KeysLive_mono hle2 hkl8
  obtain ⟨hoF9, hnF9⟩ := loadComp_obs (fun c v2 => { c with particle_lifetime := some v2 }) convPure (fun c => c.suffer_damage) A (fun _ => True)
    (fun c a => rfl) (convOK_pure A) (fun c a => rfl) (fun m => rfl) data.particle_lifetimes _ hI (fun p hp => ⟨hA p hp, trivial⟩)
  have hfv9b := FieldVals_mono (fun c => c.suffer_damage) (RPure id) data.suffer_damage hle2
    (fun a b h => h)
    (fun e he hn => let ⟨m, h1, h2, _⟩ := hfr2 e he hn; ⟨m, h1, h2⟩)
    hoF9 hnF9 hkl9 hfv9
  have hkl9b := KeysLive_mono hle2 hkl9
  obtain ⟨hoF10, hnF10⟩ := loadComp_obs (fun c v2 => { c with particle_lifetime := some v2 }) convPure (fun c => c.wants_melee) A (fun _ => True)
    (fun c a => rfl) (convOK_pure A) (fun c a => rfl) (fun m => rfl) data.particle_lifetimes _ hI (fun p hp => ⟨hA p hp, trivial⟩)
  have hfv10b := FieldVals_mono (fun c => c.wants_melee) (RRef WantsToMelee.mk) data.wants_melee hle2
    (fun a b h => RRef_mono WantsToMelee.mk _ _ a b hle2 h)
    (fun e he hn => let ⟨m, h1, h2, _⟩ := hfr2 e he hn; ⟨m, h1, h2⟩)
    hoF10 hnF10 hkl10 hfv10
  have hkl10b := KeysLive_mono hle2 hkl10
  obtain ⟨hoF11, hnF11⟩ := loadComp_obs (fun c v2 => { c with particle_lifetime := some v2 }) convPure (fun c => c.item) A (fun _ => True)
    (fun c a => rfl) (convOK_pure A) (fun c a => rfl) (fun m => rfl) data.particle_lifetimes _ hI (fun p hp => ⟨hA p hp, trivial⟩)
  have hfv11b := FieldVals_mono (fun c => c.item) (RPure id) data.items hle2
    (fun a b h => h)
    (fun e he hn => let ⟨m, h1, h2, _⟩ := hfr2 e he hn; ⟨m, h1, h2⟩)
    hoF11 hnF11 hkl11 hfv11
  have hkl11b := KeysLive_mono hle2 hkl11
  obtain ⟨hoF12, hnF12⟩ := loadComp_obs (fun c v2 => { c with particle_lifetime := some v2 }) convPure (fun c => c.consumable) A (fun _ => True)
    (fun c a => rfl) (convOK_pure A) (fun c a => rfl) (fun m => rfl) data.particle_lifetimes _ hI (fun p hp => ⟨hA p hp, trivial⟩)
  have hfv12b := FieldVals_mono (fun c => c.consumable) (RPure id) data.consumables hle2
    (fun a b h => h)
    (fun e he hn => let ⟨m, h1, h2, _⟩ := hfr2 e he hn; ⟨m, h1, h2⟩)
    hoF12 hnF12 hkl12 hfv12
  have hkl12b := KeysLive_mono hle2 hkl12
  obtain ⟨hoF13, hnF13⟩ := loadComp_obs (fun c v2 => { c with particle_lifetime := some v2 }) convPure (fun c => c.ranged) A (fun _ => True)
    (fun c a => rfl) (convOK_pure A) (fun c a => rfl) (fun m => rfl) data.particle_lifetimes _ hI (fun p hp => ⟨hA p hp, trivial⟩)
  have hfv13b := FieldVals_mono (fun c => c.ranged) (RPure id) data.ranged hle2
    (fun a b h => h)
    (fun e he hn => let ⟨m, h1, h2, _⟩ := hfr2 e he hn; ⟨m, h1, h2⟩)
    hoF13 hnF13 hkl13 hfv13
  have hkl13b := KeysLive_mono hle2 hkl13
  obtain ⟨hoF14, hnF14⟩ := loadComp_obs (fun c v2 => { c with particle_lifetime := some v2 }) convPure (fun c => c.inflicts_damage) A (fun _ => True)
    (fun c a => rfl) (convOK_pure A) (fun c a => rfl) (fun m => rfl) data.particle_lifetimes _ hI (fun p hp => ⟨hA p hp, trivial⟩)
  have hfv14b := FieldVals_mono (fun c => c.inflicts_damage) (RPure id) data.inflicts_damage hle2
    (fun a b h => h)
    (fun e he hn => let ⟨m, h1, h2, _⟩ := hfr2 e he hn; ⟨m, h1, h2⟩)
    hoF14 hnF14 hkl14 hfv14
  have hkl14b := KeysLive_mono hle2 hkl14
  obtain ⟨hoF15, hnF15⟩ := loadComp_obs (fun c v2 => { c with particle_lifetime := some v2 }) convPure (fun c => c.area_of_effect) A (fun _ => True)
    (fun c a => rfl) (convOK_pure A) (fun c a => rfl) (fun m => rfl) data.particle_lifetimes _ hI (fun p hp => ⟨hA p hp, trivial⟩)
  have hfv15b := FieldVals_mono (fun c => c.area_of_effect) (RPure id) data.area_of_effect hle2
    (fun a b h => h)
    (fun e he hn => let ⟨m, h1, h2, _⟩ := hfr2 e he hn; ⟨m, h1, h2⟩)
    hoF15 hnF15 hkl15 hfv15
  have hkl15b := KeysLive_mono hle2 hkl15
  obtain ⟨hoF16, hnF16⟩ := loadComp_obs (fun c v2 => { c with particle_lifetime := some v2 }) convPure (fun c => c.confusion) A (fun _ => True)
    (fun c a => rfl) (convOK_pure A) (fun c a => rfl) (fun m => rfl) data.particle_lifetimes _ hI (fun p hp => ⟨hA p hp, trivial⟩)
  have hfv16b := FieldVals_mono (fun c => c.confusion) (RPure id) data.confusion hle2
    (fun a b h => h)
    (fun e he hn => let ⟨m, h1, h2, _⟩ := hfr2 e he hn; ⟨m, h1, h2⟩)
    hoF16 hnF16 hkl16 hfv16
  have hkl16b := KeysLive_mono hle2 hkl16
  obtain ⟨hoF17, hnF17⟩ := loadComp_obs (fun c v2 => { c with particle_lifetime := some v2 }) convPure (fun c => c.provides_healing) A (fun _ => True)
    (fun c a => rfl) (convOK_pure A) (fun c a => rfl) (fun m => rfl) data.particle_lifetimes _ hI (fun p hp => ⟨hA p hp, trivial⟩)
  have hfv17b := FieldVals_mono (fun c => c.provides_healing) (RPure id) data.provides_healing hle2
    (fun a b h => h)
    (fun e he hn => let ⟨m, h1, h2, _⟩ := hfr2 e he hn; ⟨m, h1, h2⟩)
    hoF17 hnF17 hkl17 hfv17
  have hkl17b := KeysLive_mono hle2 hkl17
  obtain ⟨hoF18, hnF18⟩ := loadComp_obs (fun c v2 => { c with particle_lifetime := some v2 }) convPure (fun c => c.in_backpack) A (fun _ => True)
    (fun c a => rfl) (convOK_pure A) (fun c a => rfl) (fun m => rfl) data.particle_lifetimes _ hI (fun p hp => ⟨hA p hp, trivial⟩)
  have hfv18b := FieldVals_mono (fun c => c.in_backpack) (RRef InBackpack.mk) data.in_backpack hle2
    (fun a b h => RRef_mono InBackpack.mk _ _ a b hle2 h)
    (fun e he hn => let ⟨m, h1, h2, _⟩ := hfr2 e he hn; ⟨m, h1, h2⟩)
    hoF18 hnF18 hkl18 hfv18
  have hkl18b := KeysLive_mono hle2 hkl18
  obtain ⟨hoF19, hnF19⟩ := loadComp_obs (fun c v2 => { c with particle_lifetime := some v2 }) convPure (fun c => c.wants_to_pickup) A (fun _ => True)
    (fun c a => rfl) (convOK_pure A) (fun c a => rfl) (fun m => rfl) data.particle_lifetimes _ hI (fun p hp => ⟨hA p hp, trivial⟩)
  have hfv19b := FieldVals_mono (fun c => c.wants_to_pickup) (RRef2 WantsToPickupItem.mk) data.wants_to_pickup hle2
    (fun a b h => RRef2_mono WantsToPickupItem.mk _ _ a b hle2 h)
    (fun e he hn => let ⟨m, h1, h2, _⟩ := hfr2 e he hn; ⟨m, h1, h2⟩)
    hoF19 hnF19 hkl19 hfv19
  have hkl19b := KeysLive_mono hle2 hkl19
  obtain ⟨hoF20, hnF20⟩ := loadComp_obs (fun c v2 => { c with particle_lifetime := some v2 }) convPure (fun c => c.wants_to_use) A (fun _ => True)
    (fun c a => rfl) (convOK_pure A) (fun c a => rfl) (fun m => rfl) data.particle_lifetimes _ hI (fun p hp => ⟨hA p hp, trivial⟩)
  have hfv20b := FieldVals_mono (fun c => c.wants_to_use) (RRefPair WantsToUseItem.mk) data.wants_to_use hle2
    (fun a b h => RRefPair_mono WantsToUseItem.mk _ _ a b hle2 h)
    (fun e he hn => let ⟨m, h1, h2, _⟩ := hfr2 e he hn; ⟨m, h1, h2⟩)
    hoF20 hnF20 hkl20 hfv20
  have hkl20b := KeysLive_mono hle2 hkl20
  obtain ⟨hoF21, hnF21⟩ := loadComp_obs (fun c v2 => { c with particle_lifetime := some v2 }) convPure (fun c => c.wants_to_drop) A (fun _ => True)
    (fun c a => rfl) (convOK_pure A) (fun c a => rfl) (fun m => rfl) data.particle_lifetimes _ hI (fun p hp => ⟨hA p hp, trivial⟩)
  have hfv21b := FieldVals_mono (fun c => c.wants_to_drop) (RRef WantsToDropItem.mk) data.wants_to_drop hle2
    (fun a b h => RRef_mono WantsToDropItem.mk _ _ a b hle2 h)
    (fun e he hn => let ⟨m, h1, h2, _⟩ := hfr2 e he hn; ⟨m, h1, h2⟩)
    hoF21 hnF21 hkl21 hfv21
  have hkl21b := KeysLive_mono hle2 hkl21
  obtain ⟨hoF22, hnF22⟩ := loadComp_obs (fun c v2 => { c with particle_lifetime := some v2 }) convPure (fun c => c.serialization_helper) A (fun _ => True)
    (fun c a => rfl) (convOK_pure A) (fun c a => rfl) (fun m => rfl) data.particle_lifetimes _ hI (fun p hp => ⟨hA p hp, trivial⟩)
  have hfv22b := FieldVals_mono (fun c => c.serialization_helper) (RPure (fun (h : HelperSave) => SerializationHelper.mk h.map.toMap h.game_log)) data.helpers hle2
    (fun a b h => h)
    (fun e he hn => let ⟨m, h1, h2, _⟩ := hfr2 e he hn; ⟨m, h1, h2⟩)
    hoF22 hnF22 hkl22 hfv22
  have hkl22b := KeysLive_mono hle2 hkl22
  obtain ⟨hoF23, hnF23⟩ := loadComp_obs (fun c v2 => { c with particle_lifetime := some v2 }) convPure (fun c => c.equippable) A (fun _ => True)
    (fun c a => rfl) (convOK_pure A) (fun c a => rfl) (fun m => rfl) data.particle_lifetimes _ hI (fun p hp => ⟨hA p hp, trivial⟩)
  have hfv23b := FieldVals_mono (fun c => c.equippable) (RPure id) data.equippables hle2
    (fun a b h => h)
    (fun e he hn => let ⟨m, h1, h2, _⟩ := hfr2 e he hn; ⟨m, h1, h2⟩)
    hoF23 hnF23 hkl23 hfv23
  have hkl23b := KeysLive_mono hle2 hkl23
  obtain ⟨hoF24, hnF24⟩ := loadComp_obs (fun c v2 => { c with particle_lifetime := some v2 }) convPure (fun c => c.equipped) A (fun _ => True)
    (fun c a => rfl) (convOK_pure A) (fun c a => rfl) (fun m => rfl) data.particle_lifetimes _ hI (fun p hp => ⟨hA p hp, trivial⟩)
  have hfv24b := FieldVals_mono (fun c => c.equipped) (RRefPair Equipped.mk) data.equipped hle2
    (fun a b h => RRefPair_mono Equipped.mk _ _ a b hle2 h)
    (fun e he hn => let ⟨m, h1, h2, _⟩ := hfr2 e he hn; ⟨m, h1, h2⟩)
    hoF24 hnF24 hkl24 hfv24
  have hkl24b := KeysLive_mono hle2 hkl24
  obtain ⟨hoF25, hnF25⟩ := loadComp_obs (fun c v2 => { c with particle_lifetime := some v2 }) convPure (fun c => c.melee_power_bonus) A (fun _ => True)
    (fun c a => rfl) (convOK_pure A) (fun c a => rfl) (fun m => rfl) data.particle_lifetimes _ hI (fun p hp => ⟨hA p hp, trivial⟩)
  have hfv25b := FieldVals_mono (fun c => c.melee_power_bonus) (RPure id) data.melee_power_bonuses hle2
    (fun a b h => h)
    (fun e he hn => let ⟨m, h1, h2, _⟩ := hfr2 e he hn; ⟨m, h1, h2⟩)
    hoF25 hnF25 hkl25 hfv25
  have hkl25b := KeysLive_mono hle2 hkl25
  obtain ⟨hoF26, hnF26⟩ := loadComp_obs (fun c v2 => { c with particle_lifetime := some v2 }) convPure (fun c => c.defense_bonus) A (fun _ => True)
    (fun c a => rfl) (convOK_pure A) (fun c a => rfl) (fun m => rfl) data.particle_lifetimes _ hI (fun p hp => ⟨hA p hp, trivial⟩)
  have hfv26b := FieldVals_mono (fun c => c.defense_bonus) (RPure id) data.defense_bonuses hle2
    (fun a b h => h)
    (fun e he hn => let ⟨m, h1, h2, _⟩ := hfr2 e he hn; ⟨m, h1, h2⟩)
    hoF26 hnF26 hkl26 hfv26
  have hkl26b := KeysLive_mono hle2 hkl26
  obtain ⟨hoF27, hnF27⟩ := loadComp_obs (fun c v2 => { c with particle_lifetime := some v2 }) convPure (fun c => c.wants_to_remove) A (fun _ => True)
    (fun c a => rfl) (convOK_pure A) (fun c a => rfl) (fun m => rfl) data.particle_lifetimes _ hI (fun p hp => ⟨hA p hp, trivial⟩)
  have hfv27b := FieldVals_mono (fun c => c.wants_to_remove) (RRef WantsToRemoveItem.mk) data.wants_to_remove hle2
    (fun a b h => RRef_mono WantsToRemoveItem.mk _ _ a b hle2 h)
    (fun e he hn => let ⟨m, h1, h2, _⟩ := hfr2 e he hn; ⟨m, h1, h2⟩)
    hoF27 hnF27 hkl27 hfv27
  have hkl27b := KeysLive_mono hle2 hkl27
  obtain ⟨hoF29, hnF29⟩ := loadComp_obs (fun c v2 => { c with particle_lifetime := some v2 }) convPure (fun c => c.hunger_clock) A (fun _ => True)
    (fun c a => rfl) (convOK_pure A) (fun c a => rfl) (fun m => rfl) data.particle_lifetimes _ hI (fun p hp => ⟨hA p hp, trivial⟩)
  have hN29b := AllNone_mono (fun c => c.hunger_clock) _ _ hoF29 hnF29 hN29
  obtain ⟨hoF30, hnF30⟩ := loadComp_obs (fun c v2 => { c with particle_lifetime := some v2 }) convPure (fun c => c.provides_food) A (fun _ => True)
    (fun c a => rfl) (convOK_pure A) (fun c a => rfl) (fun m => rfl) data.particle_lifetimes _ hI (fun p hp => ⟨hA p hp, trivial⟩)
  have hN30b := AllNone_mono (fun c => c.provides_food) _ _ hoF30 hnF30 hN30
  have hMb := MarksIn_mono hle2 (fun e he hn => let ⟨m, h1, _, h3⟩ := hfr2 e he hn; ⟨m, h1, h3⟩) hM
  exact ⟨hI2, hMb, hkl1b, hfv1b, hkl2b, hfv2b, hkl3b, hfv3b, hkl4b, hfv4b, hkl5b, hfv5b, hkl6b, hfv6b, hkl7b, hfv7b, hkl8b, hfv8b, hkl9b, hfv9b, hkl10b, hfv10b, hkl11b, hfv11b, hkl12b, hfv12b, hkl13b, hfv13b, hkl14b, hfv14b, hkl15b, hfv15b, hkl16b, hfv16b, hkl17b, hfv17b, hkl18b, hfv18b, hkl19b, hfv19b, hkl20b, hfv20b, hkl21b, hfv21b, hkl22b, hfv22b, hkl23b, hfv23b, hkl24b, hfv24b, hkl25b, hfv25b, hkl26b, hfv26b, hkl27b, hfv27b, hklx, hfvk, hN29b, hN30b⟩

set_option maxHeartbeats 800000 in
/-- Deserialization pass 29 (hunger_clock): it establishes its own list facts
and preserves those of the earlier passes. -/
lemma loadStage29 (A : Nat → Prop) (data : SaveData) (v : World)
    (hI : LoadInv v)
    (hkeys : ((data.hunger_clocks).map Prod.fst).Nodup)
    (hA : ∀ p ∈ data.hunger_clocks, A p.1)
    (hM : MarksIn A v)
    (hkl1 : KeysLive data.positions v)
    (hfv1 : FieldVals (fun c => c.position) (RPure id) data.positions v)
    (hkl2 : KeysLive data.renderables v)
    (hfv2 : FieldVals (fun c => c.renderable) (RPure id) data.renderables v)
    (hkl3 : KeysLive data.players v)
    (hfv3 : FieldVals (fun c => c.player) (RPure id) data.players v)
    (hkl4 : KeysLive data.viewsheds v)
    (hfv4 : FieldVals (fun c => c.viewshed) (RPure id) data.viewsheds v)
    (hkl5 : KeysLive data.monsters v)
    (hfv5 : FieldVals (fun c => c.monster) (RPure id) data.monsters v)
    (hkl6 : KeysLive data.names v)
    (hfv6 : FieldVals (fun c => c.name) (RPure id) data.names v)
    (hkl7 : KeysLive data.blocks_tile v)
    (hfv7 : FieldVals (fun c => c.blocks_tile) (RPure id) data.blocks_tile v)
    (hkl8 : KeysLive data.combat_stats v)
    (hfv8 : FieldVals (fun c => c.combat_stats) (RPure id) data.combat_stats v)
    (hkl9 : KeysLive data.suffer_damage v)
    (hfv9 : FieldVals (fun c => c.suffer_damage) (RPure id) data.suffer_damage v)
    (hkl10 : KeysLive data.wants_melee v)
    (hfv10 : FieldVals (fun c => c.wants_melee) (RRef WantsToMelee.mk) data.wants_melee v)
    (hkl11 : KeysLive data.items v)
    (hfv11 : FieldVals (fun c => c.item) (RPure id) data.items v)
    (hkl12 : KeysLive data.consumables v)
    (hfv12 : FieldVals (fun c => c.consumable) (RPure id) data.consumables v)
    (hkl13 : KeysLive data.ranged v)
    (hfv13 : FieldVals (fun c => c.ranged) (RPure id) data.ranged v)
    (hkl14 : KeysLive data.inflicts_damage v)
    (hfv14 : FieldVals (fun c => c.inflicts_damage) (RPure id) data.inflicts_damage v)
    (hkl15 : KeysLive data.area_of_effect v)
    (hfv15 : FieldVals (fun c => c.area_of_effect) (RPure id) data.area_of_effect v)
    (hkl16 : KeysLive data.confusion v)
    (hfv16 : FieldVals (fun c => c.confusion) (RPure id) data.confusion v)
    (hkl17 : KeysLive data.provides_healing v)
    (hfv17 : FieldVals (fun c => c.provides_healing) (RPure id) data.provides_healing v)
    (hkl18 : KeysLive data.in_backpack v)
    (hfv18 : FieldVals (fun c => c.in_backpack) (RRef InBackpack.mk) data.in_backpack v)
    (hkl19 : KeysLive data.wants_to_pickup v)
    (hfv19 : FieldVals (fun c => c.wants_to_pickup) (RRef2 WantsToPickupItem.mk) data.wants_to_pickup v)
    (hkl20 : KeysLive data.wants_to_use v)
    (hfv20 : FieldVals (fun c => c.wants_to_use) (RRefPair WantsToUseItem.mk) data.wants_to_use v)
    (hkl21 : KeysLive data.wants_to_drop v)
    (hfv21 : FieldVals (fun c => c.wants_to_drop) (RRef WantsToDropItem.mk) data.wants_to_drop v)
    (hkl22 : KeysLive data.helpers v)
    (hfv22 : FieldVals (fun c => c.serialization_helper) (RPure (fun (h : HelperSave) => SerializationHelper.mk h.map.toMap h.game_log)) data.helpers v)
    (hkl23 : KeysLive data.equippables v)
    (hfv23 : FieldVals (fun c => c.equippable) (RPure id) data.equippables v)
    (hkl24 : KeysLive data.equipped v)
    (hfv24 : FieldVals (fun c => c.equipped) (RRefPair Equipped.mk) data.equipped v)
    (hkl25 : KeysLive data.melee_power_bonuses v)
    (hfv25 : FieldVals (fun c => c.melee_power_bonus) (RPure id) data.melee_power_bonuses v)
    (hkl26 : KeysLive data.defense_bonuses v)
    (hfv26 : FieldVals (fun c => c.defense_bonus) (RPure id) data.defense_bonuses v)
    (hkl27 : KeysLive data.wants_to_remove v)
    (hfv27 : FieldVals (fun c => c.wants_to_remove) (RRef WantsToRemoveItem.mk) data.wants_to_remove v)
    (hkl28 : KeysLive data.particle_lifetimes v)
    (hfv28 : FieldVals (fun c => c.particle_lifetime) (RPure id) data.particle_lifetimes v)
    (hN29 : AllNone (fun c => c.hunger_clock) v)
    (hN30 : AllNone (fun c => c.provides_food) v)
    :
    LoadInv (loadComp (fun c v2 => { c with hunger_clock := some v2 }) convPure v data.hunger_clocks) ∧
    MarksIn A (loadComp (fun c v2 => { c with hunger_clock := some v2 }) convPure v data.hunger_clocks) ∧
    KeysLive data.positions (loadComp (fun c v2 => { c with hunger_clock := some v2 }) convPure v data.hunger_clocks) ∧
    FieldVals (fun c => c.position) (RPure id) data.positions (loadComp (fun c v2 => { c with hunger_clock := some v2 }) convPure v data.hunger_clocks) ∧
    KeysLive data.renderables (loadComp (fun c v2 => { c with hunger_clock := some v2 }) convPure v data.hunger_clocks) ∧
    FieldVals (fun c => c.renderable) (RPure id) data.renderables (loadComp (fun c v2 => { c with hunger_clock := some v2 }) convPure v data.hunger_clocks) ∧
    KeysLive data.players (loadComp (fun c v2 => { c with hunger_clock := some v2 }) convPure v data.hunger_clocks) ∧
    FieldVals (fun c => c.player) (RPure id) data.players (loadComp (fun c v2 => { c with hunger_clock := some v2 }) convPure v data.hunger_clocks) ∧
    KeysLive data.viewsheds (loadComp (fun c v2 => { c with hunger_clock := some v2 }) convPure v data.hunger_clocks) ∧
    FieldVals (fun c => c.viewshed) (RPure id) data.viewsheds (loadComp (fun c v2 => { c with hunger_clock := some v2 }) convPure v data.hunger_clocks) ∧
    KeysLive data.monsters (loadComp (fun c v2 => { c with hunger_clock := some v2 }) convPure v data.hunger_clocks) ∧
    FieldVals (fun c => c.monster) (RPure id) data.monsters (loadComp (fun c v2 => { c with hunger_clock := some v2 }) convPure v data.hunger_clocks) ∧
    KeysLive data.names (loadComp (fun c v2 => { c with hunger_clock := some v2 }) convPure v data.hunger_clocks) ∧
    FieldVals (fun c => c.name) (RPure id) data.names (loadComp (fun c v2 => { c with hunger_clock := some v2 }) convPure v data.hunger_clocks) ∧
    KeysLive data.blocks_tile (loadComp (fun c v2 => { c with hunger_clock := some v2 }) convPure v data.hunger_clocks) ∧
    FieldVals (fun c => c.blocks_tile) (RPure id) data.blocks_tile (loadComp (fun c v2 => { c with hunger_clock := some v2 }) convPure v data.hunger_clocks) ∧
    KeysLive data.combat_stats (loadComp (fun c v2 => { c with hunger_clock := some v2 }) convPure v data.hunger_clocks) ∧
    FieldVals (fun c => c.combat_stats) (RPure id) data.combat_stats (loadComp (fun c v2 => { c with hunger_clock := some v2 }) convPure v data.hunger_clocks) ∧
    KeysLive data.suffer_damage (loadComp (fun c v2 => { c with hunger_clock := some v2 }) convPure v data.hunger_clocks) ∧
    FieldVals (fun c => c.suffer_damage) (RPure id) data.suffer_damage (loadComp (fun c v2 => { c with hunger_clock := some v2 }) convPure v data.hunger_clocks) ∧
    KeysLive data.wants_melee (loadComp (fun c v2 => { c with hunger_clock := some v2 }) convPure v data.hunger_clocks) ∧
    FieldVals (fun c => c.wants_melee) (RRef WantsToMelee.mk) data.wants_melee (loadComp (fun c v2 => { c with hunger_clock := some v2 }) convPure v data.hunger_clocks) ∧
    KeysLive data.items (loadComp (fun c v2 => { c with hunger_clock := some v2 }) convPure v data.hunger_clocks) ∧
    FieldVals (fun c => c.item) (RPure id) data.items (loadComp (fun c v2 => { c with hunger_clock := some v2 }) convPure v data.hunger_clocks) ∧
    KeysLive data.consumables (loadComp (fun c v2 => { c with hunger_clock := some v2 }) convPure v data.hunger_clocks) ∧
    FieldVals (fun c => c.consumable) (RPure id) data.consumables (loadComp (fun c v2 => { c with hunger_clock := some v2 }) convPure v data.hunger_clocks) ∧
    KeysLive data.ranged (loadComp (fun c v2 => { c with hunger_clock := some v2 }) convPure v data.hunger_clocks) ∧
    FieldVals (fun c => c.ranged) (RPure id) data.ranged (loadComp (fun c v2 => { c with hunger_clock := some v2 }) convPure v data.hunger_clocks) ∧
    KeysLive data.inflicts_damage (loadComp (fun c v2 => { c with hunger_clock := some v2 }) convPure v data.hunger_clocks) ∧
    FieldVals (fun c => c.inflicts_damage) (RPure id) data.inflicts_damage (loadComp (fun c v2 => { c with hunger_clock := some v2 }) convPure v data.hunger_clocks) ∧
    KeysLive data.area_of_effect (loadComp (fun c v2 => { c with hunger_clock := some v2 }) convPure v data.hunger_clocks) ∧
    FieldVals (fun c => c.area_of_effect) (RPure id) data.area_of_effect (loadComp (fun c v2 => { c with hunger_clock := some v2 }) convPure v data.hunger_clocks) ∧
    KeysLive data.confusion (loadComp (fun c v2 => { c with hunger_clock := some v2 }) convPure v data.hunger_clocks) ∧
    FieldVals (fun c => c.confusion) (RPure id) data.confusion (loadComp (fun c v2 => { c with hunger_clock := some v2 }) convPure v data.hunger_clocks) ∧
    KeysLive data.provides_healing (loadComp (fun c v2 => { c with hunger_clock := some v2 }) convPure v data.hunger_clocks) ∧
    FieldVals (fun c => c.provides_healing) (RPure id) data.provides_healing (loadComp (fun c v2 => { c with hunger_clock := some v2 }) convPure v data.hunger_clocks) ∧
    KeysLive data.in_backpack (loadComp (fun c v2 => { c with hunger_clock := some v2 }) convPure v data.hunger_clocks) ∧
    FieldVals (fun c => c.in_backpack) (RRef InBackpack.mk) data.in_backpack (loadComp (fun c v2 => { c with hunger_clock := some v2 }) convPure v data.hunger_clocks) ∧
    KeysLive data.wants_to_pickup (loadComp (fun c v2 => { c with hunger_clock := some v2 }) convPure v data.hunger_clocks) ∧
    FieldVals (fun c => c.wants_to_pickup) (RRef2 WantsToPickupItem.mk) data.wants_to_pickup (loadComp (fun c v2 => { c with hunger_clock := some v2 }) convPure v data.hunger_clocks) ∧
    KeysLive data.wants_to_use (loadComp (fun c v2 => { c with hunger_clock := some v2 }) convPure v data.hunger_clocks) ∧
    FieldVals (fun c => c.wants_to_use) (RRefPair WantsToUseItem.mk) data.wants_to_use (loadComp (fun c v2 => { c with hunger_clock := some v2 }) convPure v data.hunger_clocks) ∧
    KeysLive data.wants_to_drop (loadComp (fun c v2 => { c with hunger_clock := some v2 }) convPure v data.hunger_clocks) ∧
    FieldVals (fun c => c.wants_to_drop) (RRef WantsToDropItem.mk) data.wants_to_drop (loadComp (fun c v2 => { c with hunger_clock := some v2 }) convPure v data.hunger_clocks) ∧
    KeysLive data.helpers (loadComp (fun c v2 => { c with hunger_clock := some v2 }) convPure v data.hunger_clocks) ∧
    FieldVals (fun c => c.serialization_helper) (RPure (fun (h : HelperSave) => SerializationHelper.mk h.map.toMap h.game_log)) data.helpers (loadComp (fun c v2 => { c with hunger_clock := some v2 }) convPure v data.hunger_clocks) ∧
    KeysLive data.equippables (loadComp (fun c v2 => { c with hunger_clock := some v2 }) convPure v data.hunger_clocks) ∧
    FieldVals (fun c => c.equippable) (RPure id) data.equippables (loadComp (fun c v2 => { c with hunger_clock := some v2 }) convPure v data.hunger_clocks) ∧
    KeysLive data.equipped (loadComp (fun c v2 => { c with hunger_clock := some v2 }) convPure v data.hunger_clocks) ∧
    FieldVals (fun c => c.equipped) (RRefPair Equipped.mk) data.equipped (loadComp (fun c v2 => { c with hunger_clock := some v2 }) convPure v data.hunger_clocks) ∧
    KeysLive data.melee_power_bonuses (loadComp (fun c v2 => { c with hunger_clock := some v2 }) convPure v data.hunger_clocks) ∧
    FieldVals (fun c => c.melee_power_bonus) (RPure id) data.melee_power_bonuses (loadComp (fun c v2 => { c with hunger_clock := some v2 }) convPure v data.hunger_clocks) ∧
    KeysLive data.defense_bonuses (loadComp (fun c v2 => { c with hunger_clock := some v2 }) convPure v data.hunger_clocks) ∧
    FieldVals (fun c => c.defense_bonus) (RPure id) data.defense_bonuses (loadComp (fun c v2 => { c with hunger_clock := some v2 }) convPure v data.hunger_clocks) ∧
    KeysLive data.wants_to_remove (loadComp (fun c v2 => { c with hunger_clock := some v2 }) convPure v data.hunger_clocks) ∧
    FieldVals (fun c => c.wants_to_remove) (RRef WantsToRemoveItem.mk) data.wants_to_remove (loadComp (fun c v2 => { c with hunger_clock := some v2 }) convPure v data.hunger_clocks) ∧
    KeysLive data.particle_lifetimes (loadComp (fun c v2 => { c with hunger_clock := some v2 }) convPure v data.hunger_clocks) ∧
    FieldVals (fun c => c.particle_lifetime) (RPure id) data.particle_lifetimes (loadComp (fun c v2 => { c with hunger_clock := some v2 }) convPure v data.hunger_clocks) ∧
    KeysLive data.hunger_clocks (loadComp (fun c v2 => { c with hunger_clock := some v2 }) convPure v data.hunger_clocks) ∧
    FieldVals (fun c => c.hunger_clock) (RPure id) data.hunger_clocks (loadComp (fun c v2 => { c with hunger_clock := some v2 }) convPure v data.hunger_clocks) ∧
    AllNone (fun c => c.provides_food) (loadComp (fun c v2 => { c with hunger_clock := some v2 }) convPure v data.hunger_clocks) := by
  obtain ⟨hI2, hle2, hfr2, hklx⟩ := loadComp_struct (fun c v2 => { c with hunger_clock := some v2 }) convPure A (fun _ => True)
    (fun c a => rfl) (convOK_pure A) data.hunger_clocks _ hI (fun p hp => ⟨hA p hp, trivial⟩)
  have hfvk := loadComp_est (fun c v2 => { c with hunger_clock := some v2 }) (fun c => c.hunger_clock) convPure A (fun _ => True)
    (RPure id) (convOK_pure A) (fun v2 b hIv hAb => rfl)
    (fun va vb a b hle h => h) (fun c a => rfl) (fun c a => rfl) (fun m => rfl)
    data.hunger_clocks _ hI hkeys (fun p hp => ⟨hA p hp, trivial⟩) hN29
  obtain ⟨hoF1, hnF1⟩ := loadComp_obs (fun c v2 => { c with hunger_clock := some v2 }) convPure (fun c => c.position) A (fun _ => True)
    (fun c a => rfl) (convOK_pure A) (fun c a => rfl) (fun m => rfl) data.hunger_clocks _ hI (fun p hp => ⟨hA p hp, trivial⟩)
  have hfv1b := FieldVals_mono (fun c => c.position) (RPure id) data.positions hle2
    (fun a b h => h)
    (fun e he hn => let ⟨m, h1, h2, _⟩ := hfr2 e he hn; ⟨m, h1, h2⟩)
    hoF1 hnF1 hkl1 hfv1
  have hkl1b := KeysLive_mono hle2 hkl1
  obtain ⟨hoF2, hnF2⟩ := loadComp_obs (fun c v2 => { c with hunger_clock := some v2 }) convPure (fun c => c.renderable) A (fun _ => True)
    (fun c a => rfl) (convOK_pure A) (fun c a => rfl) (fun m => rfl) data.hunger_clocks _ hI (fun p hp => ⟨hA p hp, trivial⟩)
  have hfv2b := FieldVals_mono (fun c => c.renderable) (RPure id) data.renderables hle2
    (fun a b h => h)
    (fun e he hn => let ⟨m, h1, h2, _⟩ := hfr2 e he hn; ⟨m, h1, h2⟩)
    hoF2 hnF2 hkl2 hfv2
  have hkl2b := KeysLive_mono hle2 hkl2
  obtain ⟨hoF3, hnF3⟩ := loadComp_obs (fun c v2 => { c with hunger_clock := some v2 }) convPure (fun c => c.player) A (fun _ => True)
    (fun c a => rfl) (convOK_pure A) (fun c a => rfl) (fun m => rfl) data.hunger_clocks _ hI (fun p hp => ⟨hA p hp, trivial⟩)
  have hfv3b := FieldVals_mono (fun c => c.player) (RPure id) data.players hle2
    (fun a b h => h)
    (fun e he hn => let ⟨m, h1, h2, _⟩ := hfr2 e he hn; ⟨m, h1, h2⟩)
    hoF3 hnF3 hkl3 hfv3
  have hkl3b := KeysLive_mono hle2 hkl3
  obtain ⟨hoF4, hnF4⟩ := loadComp_obs (fun c v2 => { c with hunger_clock := some v2 }) convPure (fun c => c.viewshed) A (fun _ => True)
    (fun c a => rfl) (convOK_pure A) (fun c a => rfl) (fun m => rfl) data.hunger_clocks _ hI (fun p hp => ⟨hA p hp, trivial⟩)
  have hfv4b := FieldVals_mono (fun c => c.viewshed) (RPure id) data.viewsheds hle2
    (fun a b h => h)
    (fun e he hn => let ⟨m, h1, h2, _⟩ := hfr2 e he hn; ⟨m, h1, h2⟩)
    hoF4 hnF4 hkl4 hfv4
  have hkl4b := KeysLive_mono hle2 hkl4
  obtain ⟨hoF5, hnF5⟩ := loadComp_obs (fun c v2 => { c with hunger_clock := some v2 }) convPure (fun c => c.monster) A (fun _ => True)
    (fun c a => rfl) (convOK_pure A) (fun c a => rfl) (fun m => rfl) data.hunger_clocks _ hI (fun p hp => ⟨hA p hp, trivial⟩)
  have hfv5b := FieldVals_mono (fun c => c.monster) (RPure id) data.monsters hle2
    (fun a b h => h)
    (fun e he hn => let ⟨m, h1, h2, _⟩ := hfr2 e he hn; ⟨m, h1, h2⟩)
    hoF5 hnF5 hkl5 hfv5
  have hkl5b := KeysLive_mono hle2 hkl5
  obtain ⟨hoF6, hnF6⟩ := loadComp_obs (fun c v2 => { c with hunger_clock := some v2 }) convPure (fun c => c.name) A (fun _ => True)
    (fun c a => rfl) (convOK_pure A) (fun c a => rfl) (fun m => rfl) data.hunger_clocks _ hI (fun p hp => ⟨hA p hp, trivial⟩)
  have hfv6b := FieldVals_mono (fun c => c.name) (RPure id) data.names hle2
    (fun a b h => h)
    (fun e he hn => let ⟨m, h1, h2, _⟩ := hfr2 e he hn; ⟨m, h1, h2⟩)
    hoF6 hnF6 hkl6 hfv6
  have hkl6b := KeysLive_mono hle2 hkl6
  obtain ⟨hoF7, hnF7⟩ := loadComp_obs (fun c v2 => { c with hunger_clock := some v2 }) convPure (fun c => c.blocks_tile) A (fun _ => True)
    (fun c a => rfl) (convOK_pure A) (fun c a => rfl) (fun m => rfl) data.hunger_clocks _ hI (fun p hp => ⟨hA p hp, trivial⟩)
  have hfv7b := FieldVals_mono (fun c => c.blocks_tile) (RPure id) data.blocks_tile hle2
    (fun a b h => h)
    (fun e he hn => let ⟨m, h1, h2, _⟩ := hfr2 e he hn; ⟨m, h1, h2⟩)
    hoF7 hnF7 hkl7 hfv7
  have hkl7b := KeysLive_mono hle2 hkl7
  obtain ⟨hoF8, hnF8⟩ := loadComp_obs (fun c v2 => { c with hunger_clock := some v2 }) convPure (fun c => c.combat_stats) A (fun _ => True)
    (fun c a => rfl) (convOK_pure A) (fun c a => rfl) (fun m => rfl) data.hunger_clocks _ hI (fun p hp => ⟨hA p hp, trivial⟩)
  have hfv8b := FieldVals_mono (fun c => c.combat_stats) (RPure id) data.combat_stats hle2
    (fun a b h => h)
    (fun e he hn => let ⟨m, h1, h2, _⟩ := hfr2 e he hn; ⟨m, h1, h2⟩)
    hoF8 hnF8 hkl8 hfv8
  have hkl8b := KeysLive_mono hle2 hkl8
  obtain ⟨hoF9, hnF9⟩ := loadComp_obs (fun c v2 => { c with hunger_clock := some v2 }) convPure (fun c => c.suffer_damage) A (fun _ => True)
    (fun c a => rfl) (convOK_pure A) (fun c a => rfl) (fun m => rfl) data.hunger_clocks _ hI (fun p hp => ⟨hA p hp, trivial⟩)
  have hfv9b := FieldVals_mono (fun c => c.suffer_damage) (RPure id) data.suffer_damage hle2
    (fun a b h => h)
    (fun e he hn => let ⟨m, h1, h2, _⟩ := hfr2 e he hn; ⟨m, h1, h2⟩)
    hoF9 hnF9 hkl9 hfv9
  have hkl9b := KeysLive_mono hle2 hkl9
  obtain ⟨hoF10, hnF10⟩ := loadComp_obs (fun c v2 => { c with hunger_clock := some v2 }) convPure (fun c => c.wants_melee) A (fun _ => True)
    (fun c a => rfl) (convOK_pure A) (fun c a => rfl) (fun m => rfl) data.hunger_clocks _ hI (fun p hp => ⟨hA p hp, trivial⟩)
  have hfv10b := FieldVals_mono (fun c => c.wants_melee) (RRef WantsToMelee.mk) data.wants_melee hle2
    (fun a b h => RRef_mono WantsToMelee.mk _ _ a b hle2 h)
    (fun e he hn => let ⟨m, h1, h2, _⟩ := hfr2 e he hn; ⟨m, h1, h2⟩)
    hoF10 hnF10 hkl10 hfv10
  have hkl10b := KeysLive_mono hle2 hkl10
  obtain ⟨hoF11, hnF11⟩ := loadComp_obs (fun c v2 => { c with hunger_clock := some v2 }) convPure (fun c => c.item) A (fun _ => True)
    (fun c a => rfl) (convOK_pure A) (fun c a => rfl) (fun m => rfl) data.hunger_clocks _ hI (fun p hp => ⟨hA p hp, trivial⟩)
  have hfv11b := FieldVals_mono (fun c => c.item) (RPure id) data.items hle2
    (fun a b h => h)
    (fun e he hn => let ⟨m, h1, h2, _⟩ := hfr2 e he hn; ⟨m, h1, h2⟩)
    hoF11 hnF11 hkl11 hfv11
  have hkl11b := KeysLive_mono hle2 hkl11
  obtain ⟨hoF12, hnF12⟩ := loadComp_obs (fun c v2 => { c with hunger_clock := some v2 }) convPure (fun c => c.consumable) A (fun _ => True)
    (fun c a => rfl) (convOK_pure A) (fun c a => rfl) (fun m => rfl) data.hunger_clocks _ hI (fun p hp => ⟨hA p hp, trivial⟩)
  have hfv12b := FieldVals_mono (fun c => c.consumable) (RPure id) data.consumables hle2
    (fun a b h => h)
    (fun e he hn => let ⟨m, h1, h2, _⟩ := hfr2 e he hn; ⟨m, h1, h2⟩)
    hoF12 hnF12 hkl12 hfv12
  have hkl12b := KeysLive_mono hle2 hkl12
  obtain ⟨hoF13, hnF13⟩ := loadComp_obs (fun c v2 => { c with hunger_clock := some v2 }) convPure (fun c => c.ranged) A (fun _ => True)
    (fun c a => rfl) (convOK_pure A) (fun c a => rfl) (fun m => rfl) data.hunger_clocks _ hI (fun p hp => ⟨hA p hp, trivial⟩)
  have hfv13b := FieldVals_mono (fun c => c.ranged) (RPure id) data.ranged hle2
    (fun a b h => h)
    (fun e he hn => let ⟨m, h1, h2, _⟩ := hfr2 e he hn; ⟨m, h1, h2⟩)
    hoF13 hnF13 hkl13 hfv13
  have hkl13b := KeysLive_mono hle2 hkl13
  obtain ⟨hoF14, hnF14⟩ := loadComp_obs (fun c v2 => { c with hunger_clock := some v2 }) convPure (fun c => c.inflicts_damage) A (fun _ => True)
    (fun c a => rfl) (convOK_pure A) (fun c a => rfl) (fun m => rfl) data.hunger_clocks _ hI (fun p hp => ⟨hA p hp, trivial⟩)
  have hfv14b := FieldVals_mono (fun c => c.inflicts_damage) (RPure id) data.inflicts_damage hle2
    (fun a b h => h)
    (fun e he hn => let ⟨m, h1, h2, _⟩ := hfr2 e he hn; ⟨m, h1, h2⟩)
    hoF14 hnF14 hkl14 hfv14
  have hkl14b := KeysLive_mono hle2 hkl14
  obtain ⟨hoF15, hnF15⟩ := loadComp_obs (fun c v2 => { c with hunger_clock := some v2 }) convPure (fun c => c.area_of_effect) A (fun _ => True)
    (fun c a => rfl) (convOK_pure A) (fun c a => rfl) (fun m => rfl) data.hunger_clocks _ hI (fun p hp => ⟨hA p hp, trivial⟩)
  have hfv15b := FieldVals_mono (fun c => c.area_of_effect) (RPure id) data.area_of_effect hle2
    (fun a b h => h)
    (fun e he hn => let ⟨m, h1, h2, _⟩ := hfr2 e he hn; ⟨m, h1, h2⟩)
    hoF15 hnF15 hkl15 hfv15
  have hkl15b := KeysLive_mono hle2 hkl15
  obtain ⟨hoF16, hnF16⟩ := loadComp_obs (fun c v2 => { c with hunger_clock := some v2 }) convPure (fun c => c.confusion) A (fun _ => True)
    (fun c a => rfl) (convOK_pure A) (fun c a => rfl) (fun m => rfl) data.hunger_clocks _ hI (fun p hp => ⟨hA p hp, trivial⟩)
  have hfv16b := FieldVals_mono (fun c => c.confusion) (RPure id) data.confusion hle2
    (fun a b h => h)
    (fun e he hn => let ⟨m, h1, h2, _⟩ := hfr2 e he hn; ⟨m, h1, h2⟩)
    hoF16 hnF16 hkl16 hfv16
  have hkl16b := KeysLive_mono hle2 hkl16
  obtain ⟨hoF17, hnF17⟩ := loadComp_obs (fun c v2 => { c with hunger_clock := some v2 }) convPure (fun c => c.provides_healing) A (fun _ => True)
    (fun c a => rfl) (convOK_pure A) (fun c a => rfl) (fun m => rfl) data.hunger_clocks _ hI (fun p hp => ⟨hA p hp, trivial⟩)
  have hfv17b := FieldVals_mono (fun c => c.provides_healing) (RPure id) data.provides_healing hle2
    (fun a b h => h)
    (fun e he hn => let ⟨m, h1, h2, _⟩ := hfr2 e he hn; ⟨m, h1, h2⟩)
    hoF17 hnF17 hkl17 hfv17
  have hkl17b := KeysLive_mono hle2 hkl17
  obtain ⟨hoF18, hnF18⟩ := loadComp_obs (fun c v2 => { c with hunger_clock := some v2 }) convPure (fun c => c.in_backpack) A (fun _ => True)
    (fun c a => rfl) (convOK_pure A) (fun c a => rfl) (fun m => rfl) data.hunger_clocks _ hI (fun p hp => ⟨hA p hp, trivial⟩)
  have hfv18b := FieldVals_mono (fun c => c.in_backpack) (RRef InBackpack.mk) data.in_backpack hle2
    (fun a b h => RRef_mono InBackpack.mk _ _ a b hle2 h)
    (fun e he hn => let ⟨m, h1, h2, _⟩ := hfr2 e he hn; ⟨m, h1, h2⟩)
    hoF18 hnF18 hkl18 hfv18
  have hkl18b := KeysLive_mono hle2 hkl18
  obtain ⟨hoF19, hnF19⟩ := loadComp_obs (fun c v2 => { c with hunger_clock := some v2 }) convPure (fun c => c.wants_to_pickup) A (fun _ => True)
    (fun c a => rfl) (convOK_pure A) (fun c a => rfl) (fun m => rfl) data.hunger_clocks _ hI (fun p hp => ⟨hA p hp, trivial⟩)
  have hfv19b := FieldVals_mono (fun c => c.wants_to_pickup) (RRef2 WantsToPickupItem.mk) data.wants_to_pickup hle2
    (fun a b h => RRef2_mono WantsToPickupItem.mk _ _ a b hle2 h)
    (fun e he hn => let ⟨m, h1, h2, _⟩ := hfr2 e he hn; ⟨m, h1, h2⟩)
    hoF19 hnF19 hkl19 hfv19
  have hkl19b := KeysLive_mono hle2 hkl19
  obtain ⟨hoF20, hnF20⟩ := loadComp_obs (fun c v2 => { c with hunger_clock := some v2 }) convPure (fun c => c.wants_to_use) A (fun _ => True)
    (fun c a => rfl) (convOK_pure A) (fun c a => rfl) (fun m => rfl) data.hunger_clocks _ hI (fun p hp => ⟨hA p hp, trivial⟩)
  have hfv20b := FieldVals_mono (fun c => c.wants_to_use) (RRefPair WantsToUseItem.mk) data.wants_to_use hle2
    (fun a b h => RRefPair_mono WantsToUseItem.mk _ _ a b hle2 h)
    (fun e he hn => let ⟨m, h1, h2, _⟩ := hfr2 e he hn; ⟨m, h1, h2⟩)
    hoF20 hnF20 hkl20 hfv20
  have hkl20b := KeysLive_mono hle2 hkl20
  obtain ⟨hoF21, hnF21⟩ := loadComp_obs (fun c v2 => { c with hunger_clock := some v2 }) convPure (fun c => c.wants_to_drop) A (fun _ => True)
    (fun c a => rfl) (convOK_pure A) (fun c a => rfl) (fun m => rfl) data.hunger_clocks _ hI (fun p hp => ⟨hA p hp, trivial⟩)
  have hfv21b := FieldVals_mono (fun c => c.wants_to_drop) (RRef WantsToDropItem.mk) data.wants_to_drop hle2
    (fun a b h => RRef_mono WantsToDropItem.mk _ _ a b hle2 h)
    (fun e he hn => let ⟨m, h1, h2, _⟩ := hfr2 e he hn; ⟨m, h1, h2⟩)
    hoF21 hnF21 hkl21 hfv21
  have hkl21b := KeysLive_mono hle2 hkl21
  obtain ⟨hoF22, hnF22⟩ := loadComp_obs (fun c v2 => { c with hunger_clock := some v2 }) convPure (fun c => c.serialization_helper) A (fun _ => True)
    (fun c a => rfl) (convOK_pure A) (fun c a => rfl) (fun m => rfl) data.hunger_clocks _ hI (fun p hp => ⟨hA p hp, trivial⟩)
  have hfv22b := FieldVals_mono (fun c => c.serialization_helper) (RPure (fun (h : HelperSave) => SerializationHelper.mk h.map.toMap h.game_log)) data.helpers hle2
    (fun a b h => h)
    (fun e he hn => let ⟨m, h1, h2, _⟩ := hfr2 e he hn; ⟨m, h1, h2⟩)
    hoF22 hnF22 hkl22 hfv22
  have hkl22b := KeysLive_mono hle2 hkl22
  obtain ⟨hoF23, hnF23⟩ := loadComp_obs (fun c v2 => { c with hunger_clock := some v2 }) convPure (fun c => c.equippable) A (fun _ => True)
    (fun c a => rfl) (convOK_pure A) (fun c a => rfl) (fun m => rfl) data.hunger_clocks _ hI (fun p hp => ⟨hA p hp, trivial⟩)
  have hfv23b := FieldVals_mono (fun c => c.equippable) (RPure id) data.equippables hle2
    (fun a b h => h)
    (fun e he hn => let ⟨m, h1, h2, _⟩ := hfr2 e he hn; ⟨m, h1, h2⟩)
    hoF23 hnF23 hkl23 hfv23
  have hkl23b := KeysLive_mono hle2 hkl23
  obtain ⟨hoF24, hnF24⟩ := loadComp_obs (fun c v2 => { c with hunger_clock := some v2 }) convPure (fun c => c.equipped) A (fun _ => True)
    (fun c a => rfl) (convOK_pure A) (fun c a => rfl) (fun m => rfl) data.hunger_clocks _ hI (fun p hp => ⟨hA p hp, trivial⟩)
  have hfv24b := FieldVals_mono (fun c => c.equipped) (RRefPair Equipped.mk) data.equipped hle2
    (fun a b h => RRefPair_mono Equipped.mk _ _ a b hle2 h)
    (fun e he hn => let ⟨m, h1, h2, _⟩ := hfr2 e he hn; ⟨m, h1, h2⟩)
    hoF24 hnF24 hkl24 hfv24
  have hkl24b := KeysLive_mono hle2 hkl24
  obtain ⟨hoF25, hnF25⟩ := loadComp_obs (fun c v2 => { c with hunger_clock := some v2 }) convPure (fun c => c.melee_power_bonus) A (fun _ => True)
    (fun c a => rfl) (convOK_pure A) (fun c a => rfl) (fun m => rfl) data.hunger_clocks _ hI (fun p hp => ⟨hA p hp, trivial⟩)
  have hfv25b := FieldVals_mono (fun c => c.melee_power_bonus) (RPure id) data.melee_power_bonuses hle2
    (fun a b h => h)
    (fun e he hn => let ⟨m, h1, h2, _⟩ := hfr2 e he hn; ⟨m, h1, h2⟩)
    hoF25 hnF25 hkl25 hfv25
  have hkl25b := KeysLive_mono hle2 hkl25
  obtain ⟨hoF26, hnF26⟩ := loadComp_obs (fun c v2 => { c with hunger_clock := some v2 }) convPure (fun c => c.defense_bonus) A (fun _ => True)
    (fun c a => rfl) (convOK_pure A) (fun c a => rfl) (fun m => rfl) data.hunger_clocks _ hI (fun p hp => ⟨hA p hp, trivial⟩)
  have hfv26b := FieldVals_mono (fun c => c.defense_bonus) (RPure id) data.defense_bonuses hle2
    (fun a b h => h)
    (fun e he hn => let ⟨m, h1, h2, _⟩ := hfr2 e he hn; ⟨m, h1, h2⟩)
    hoF26 hnF26 hkl26 hfv26
  have hkl26b := KeysLive_mono hle2 hkl26
  obtain ⟨hoF27, hnF27⟩ := loadComp_obs (fun c v2 => { c with hunger_clock := some v2 }) convPure (fun c => c.wants_to_remove) A (fun _ => True)
    (fun c a => rfl) (convOK_pure A) (fun c a => rfl) (fun m => rfl) data.hunger_clocks _ hI (fun p hp => ⟨hA p hp, trivial⟩)
  have hfv27b := FieldVals_mono (fun c => c.wants_to_remove) (RRef WantsToRemoveItem.mk) data.wants_to_remove hle2
    (fun a b h => RRef_mono WantsToRemoveItem.mk _ _ a b hle2 h)
    (fun e he hn => let ⟨m, h1, h2, _⟩ := hfr2 e he hn; ⟨m, h1, h2⟩)
    hoF27 hnF27 hkl27 hfv27
  have hkl27b := KeysLive_mono hle2 hkl27
  obtain ⟨hoF28, hnF28⟩ := loadComp_obs (fun c v2 => { c with hunger_clock := some v2 }) convPure (fun c => c.particle_lifetime) A (fun _ => True)
    (fun c a => rfl) (convOK_pure A) (fun c a => rfl) (fun m => rfl) data.hunger_clocks _ hI (fun p hp => ⟨hA p hp, trivial⟩)
  have hfv28b := FieldVals_mono (fun c => c.particle_lifetime) (RPure id) data.particle_lifetimes hle2
    (fun a b h => h)
    (fun e he hn => let ⟨m, h1, h2, _⟩ := hfr2 e he hn; ⟨m, h1, h2⟩)
    hoF28 hnF28 hkl28 hfv28
  have hkl28b := KeysLive_mono hle2 hkl28
  obtain ⟨hoF30, hnF30⟩ := loadComp_obs (fun c v2 => { c with hunger_clock := some v2 }) convPure (fun c => c.provides_food) A (fun _ => True)
    (fun c a => rfl) (convOK_pure A) (fun c a => rfl) (fun m => rfl) data.hunger_clocks _ hI (fun p hp => ⟨hA p hp, trivial⟩)
  have hN30b := AllNone_mono (fun c => c.provides_food) _ _ hoF30 hnF30 hN30
  have hMb := MarksIn_mono hle2 (fun e he hn => let ⟨m, h1, _, h3⟩ := hfr2 e he hn; ⟨m, h1, h3⟩) hM
  exact ⟨hI2, hMb, hkl1b, hfv1b, hkl2b, hfv2b, hkl3b, hfv3b, hkl4b, hfv4b, hkl5b, hfv5b, hkl6b, hfv6b, hkl7b, hfv7b, hkl8b, hfv8b, hkl9b, hfv9b, hkl10b, hfv10b, hkl11b, hfv11b, hkl12b, hfv12b, hkl13b, hfv13b, hkl14b, hfv14b, hkl15b, hfv15b, hkl16b, hfv16b, hkl17b, hfv17b, hkl18b, hfv18b, hkl19b, hfv19b, hkl20b, hfv20b, hkl21b, hfv21b, hkl22b, hfv22b, hkl23b, hfv23b, hkl24b, hfv24b, hkl25b, hfv25b, hkl26b, hfv26b, hkl27b, hfv27b, hkl28b, hfv28b, hklx, hfvk, hN30b⟩

set_option maxHeartbeats 800000 in
/-- Deserialization pass 30 (provides_food): it establishes its own list facts
and preserves those of the earlier passes. -/
lemma loadStage30 (A : Nat → Prop) (data : SaveData) (v : World)
    (hI : LoadInv v)
    (hkeys : ((data.provides_food).map Prod.fst).Nodup)
    (hA : ∀ p ∈ data.provides_food, A p.1)
    (hM : MarksIn A v)
    (hkl1 : KeysLive data.positions v)
    (hfv1 : FieldVals (fun c => c.position) (RPure id) data.positions v)
    (hkl2 : KeysLive data.renderables v)
    (hfv2 : FieldVals (fun c => c.renderable) (RPure id) data.renderables v)
    (hkl3 : KeysLive data.players v)
    (hfv3 : FieldVals (fun c => c.player) (RPure id) data.players v)
    (hkl4 : KeysLive data.viewsheds v)
    (hfv4 : FieldVals (fun c => c.viewshed) (RPure id) data.viewsheds v)
    (hkl5 : KeysLive data.monsters v)
    (hfv5 : FieldVals (fun c => c.monster) (RPure id) data.monsters v)
    (hkl6 : KeysLive data.names v)
    (hfv6 : FieldVals (fun c => c.name) (RPure id) data.names v)
    (hkl7 : KeysLive data.blocks_tile v)
    (hfv7 : FieldVals (fun c => c.blocks_tile) (RPure id) data.blocks_tile v)
    (hkl8 : KeysLive data.combat_stats v)
    (hfv8 : FieldVals (fun c => c.combat_stats) (RPure id) data.combat_stats v)
    (hkl9 : KeysLive data.suffer_damage v)
    (hfv9 : FieldVals (fun c => c.suffer_damage) (RPure id) data.suffer_damage v)
    (hkl10 : KeysLive data.wants_melee v)
    (hfv10 : FieldVals (fun c => c.wants_melee) (RRef WantsToMelee.mk) data.wants_melee v)
    (hkl11 : KeysLive data.items v)
    (hfv11 : FieldVals (fun c => c.item) (RPure id) data.items v)
    (hkl12 : KeysLive data.consumables v)
    (hfv12 : FieldVals (fun c => c.consumable) (RPure id) data.consumables v)
    (hkl13 : KeysLive data.ranged v)
    (hfv13 : FieldVals (fun c => c.ranged) (RPure id) data.ranged v)
    (hkl14 : KeysLive data.inflicts_damage v)
    (hfv14 : FieldVals (fun c => c.inflicts_damage) (RPure id) data.inflicts_damage v)
    (hkl15 : KeysLive data.area_of_effect v)
    (hfv15 : FieldVals (fun c => c.area_of_effect) (RPure id) data.area_of_effect v)
    (hkl16 : KeysLive data.confusion v)
    (hfv16 : FieldVals (fun c => c.confusion) (RPure id) data.confusion v)
    (hkl17 : KeysLive data.provides_healing v)
    (hfv17 : FieldVals (fun c => c.provides_healing) (RPure id) data.provides_healing v)
    (hkl18 : KeysLive data.in_backpack v)
    (hfv18 : FieldVals (fun c => c.in_backpack) (RRef InBackpack.mk) data.in_backpack v)
    (hkl19 : KeysLive data.wants_to_pickup v)
    (hfv19 : FieldVals (fun c => c.wants_to_pickup) (RRef2 WantsToPickupItem.mk) data.wants_to_pickup v)
    (hkl20 : KeysLive data.wants_to_use v)
    (hfv20 : FieldVals (fun c => c.wants_to_use) (RRefPair WantsToUseItem.mk) data.wants_to_use v)
    (hkl21 : KeysLive data.wants_to_drop v)
    (hfv21 : FieldVals (fun c => c.wants_to_drop) (RRef WantsToDropItem.mk) data.wants_to_drop v)
    (hkl22 : KeysLive data.helpers v)
    (hfv22 : FieldVals (fun c => c.serialization_helper) (RPure (fun (h : HelperSave) => SerializationHelper.mk h.map.toMap h.game_log)) data.helpers v)
    (hkl23 : KeysLive data.equippables v)
    (hfv23 : FieldVals (fun c => c.equippable) (RPure id) data.equippables v)
    (hkl24 : KeysLive data.equipped v)
    (hfv24 : FieldVals (fun c => c.equipped) (RRefPair Equipped.mk) data.equipped v)
    (hkl25 : KeysLive data.melee_power_bonuses v)
    (hfv25 : FieldVals (fun c => c.melee_power_bonus) (RPure id) data.melee_power_bonuses v)
    (hkl26 : KeysLive data.defense_bonuses v)
    (hfv26 : FieldVals (fun c => c.defense_bonus) (RPure id) data.defense_bonuses v)
    (hkl27 : KeysLive data.wants_to_remove v)
    (hfv27 : FieldVals (fun c => c.wants_to_remove) (RRef WantsToRemoveItem.mk) data.wants_to_remove v)
    (hkl28 : KeysLive data.particle_lifetimes v)
    (hfv28 : FieldVals (fun c => c.particle_lifetime) (RPure id) data.particle_lifetimes v)
    (hkl29 : KeysLive data.hunger_clocks v)
    (hfv29 : FieldVals (fun c => c.hunger_clock) (RPure id) data.hunger_clocks v)
    (hN30 : AllNone (fun c => c.provides_food) v)
    :
    LoadInv (loadComp (fun c v2 => { c with provides_food := some v2 }) convPure v data.provides_food) ∧
    MarksIn A (loadComp (fun c v2 => { c with provides_food := some v2 }) convPure v data.provides_food) ∧
    KeysLive data.positions (loadComp (fun c v2 => { c with provides_food := some v2 }) convPure v data.provides_food) ∧
    FieldVals (fun c => c.position) (RPure id) data.positions (loadComp (fun c v2 => { c with provides_food := some v2 }) convPure v data.provides_food) ∧
    KeysLive data.renderables (loadComp (fun c v2 => { c with provides_food := some v2 }) convPure v data.provides_food) ∧
    FieldVals (fun c => c.renderable) (RPure id) data.renderables (loadComp (fun c v2 => { c with provides_food := some v2 }) convPure v data.provides_food) ∧
    KeysLive data.players (loadComp (fun c v2 => { c with provides_food := some v2 }) convPure v data.provides_food) ∧
    FieldVals (fun c => c.player) (RPure id) data.players (loadComp (fun c v2 => { c with provides_food := some v2 }) convPure v data.provides_food) ∧
    KeysLive data.viewsheds (loadComp (fun c v2 => { c with provides_food := some v2 }) convPure v data.provides_food) ∧
    FieldVals (fun c => c.viewshed) (RPure id) data.viewsheds (loadComp (fun c v2 => { c with provides_food := some v2 }) convPure v data.provides_food) ∧
    KeysLive data.monsters (loadComp (fun c v2 => { c with provides_food := some v2 }) convPure v data.provides_food) ∧
    FieldVals (fun c => c.monster) (RPure id) data.monsters (loadComp (fun c v2 => { c with provides_food := some v2 }) convPure v data.provides_food) ∧
    KeysLive data.names (loadComp (fun c v2 => { c with provides_food := some v2 }) convPure v data.provides_food) ∧
    FieldVals (fun c => c.name) (RPure id) data.names (loadComp (fun c v2 => { c with provides_food := some v2 }) convPure v data.provides_food) ∧
    KeysLive data.blocks_tile (loadComp (fun c v2 => { c with provides_food := some v2 }) convPure v data.provides_food) ∧
    FieldVals (fun c => c.blocks_tile) (RPure id) data.blocks_tile (loadComp (fun c v2 => { c with provides_food := some v2 }) convPure v data.provides_food) ∧
    KeysLive data.combat_stats (loadComp (fun c v2 => { c with provides_food := some v2 }) convPure v data.provides_food) ∧
    FieldVals (fun c => c.combat_stats) (RPure id) data.combat_stats (loadComp (fun c v2 => { c with provides_food := some v2 }) convPure v data.provides_food) ∧
    KeysLive data.suffer_damage (loadComp (fun c v2 => { c with provides_food := some v2 }) convPure v data.provides_food) ∧
    FieldVals (fun c => c.suffer_damage) (RPure id) data.suffer_damage (loadComp (fun c v2 => { c with provides_food := some v2 }) convPure v data.provides_food) ∧
    KeysLive data.wants_melee (loadComp (fun c v2 => { c with provides_food := some v2 }) convPure v data.provides_food) ∧
    FieldVals (fun c => c.wants_melee) (RRef WantsToMelee.mk) data.wants_melee (loadComp (fun c v2 => { c with provides_food := some v2 }) convPure v data.provides_food) ∧
    KeysLive data.items (loadComp (fun c v2 => { c with provides_food := some v2 }) convPure v data.provides_food) ∧
    FieldVals (fun c => c.item) (RPure id) data.items (loadComp (fun c v2 => { c with provides_food := some v2 }) convPure v data.provides_food) ∧
    KeysLive data.consumables (loadComp (fun c v2 => { c with provides_food := some v2 }) convPure v data.provides_food) ∧
    FieldVals (fun c => c.consumable) (RPure id) data.consumables (loadComp (fun c v2 => { c with provides_food := some v2 }) convPure v data.provides_food) ∧
    KeysLive data.ranged (loadComp (fun c v2 => { c with provides_food := some v2 }) convPure v data.provides_food) ∧
    FieldVals (fun c => c.ranged) (RPure id) data.ranged (loadComp (fun c v2 => { c with provides_food := some v2 }) convPure v data.provides_food) ∧
    KeysLive data.inflicts_damage (loadComp (fun c v2 => { c with provides_food := some v2 }) convPure v data.provides_food) ∧
    FieldVals (fun c => c.inflicts_damage) (RPure id) data.inflicts_damage (loadComp (fun c v2 => { c with provides_food := some v2 }) convPure v data.provides_food) ∧
    KeysLive data.area_of_effect (loadComp (fun c v2 => { c with provides_food := some v2 }) convPure v data.provides_food) ∧
    FieldVals (fun c => c.area_of_effect) (RPure id) data.area_of_effect (loadComp (fun c v2 => { c with provides_food := some v2 }) convPure v data.provides_food) ∧
    KeysLive data.confusion (loadComp (fun c v2 => { c with provides_food := some v2 }) convPure v data.provides_food) ∧
    FieldVals (fun c => c.confusion) (RPure id) data.confusion (loadComp (fun c v2 => { c with provides_food := some v2 }) convPure v data.provides_food) ∧
    KeysLive data.provides_healing (loadComp (fun c v2 => { c with provides_food := some v2 }) convPure v data.provides_food) ∧
    FieldVals (fun c => c.provides_healing) (RPure id) data.provides_healing (loadComp (fun c v2 => { c with provides_food := some v2 }) convPure v data.provides_food) ∧
    KeysLive data.in_backpack (loadComp (fun c v2 => { c with provides_food := some v2 }) convPure v data.provides_food) ∧
    FieldVals (fun c => c.in_backpack) (RRef InBackpack.mk) data.in_backpack (loadComp (fun c v2 => { c with provides_food := some v2 }) convPure v data.provides_food) ∧
    KeysLive data.wants_to_pickup (loadComp (fun c v2 => { c with provides_food := some v2 }) convPure v data.provides_food) ∧
    FieldVals (fun c => c.wants_to_pickup) (RRef2 WantsToPickupItem.mk) data.wants_to_pickup (loadComp (fun c v2 => { c with provides_food := some v2 }) convPure v data.provides_food) ∧
    KeysLive data.wants_to_use (loadComp (fun c v2 => { c with provides_food := some v2 }) convPure v data.provides_food) ∧
    FieldVals (fun c => c.wants_to_use) (RRefPair WantsToUseItem.mk) data.wants_to_use (loadComp (fun c v2 => { c with provides_food := some v2 }) convPure v data.provides_food) ∧
    KeysLive data.wants_to_drop (loadComp (fun c v2 => { c with provides_food := some v2 }) convPure v data.provides_food) ∧
    FieldVals (fun c => c.wants_to_drop) (RRef WantsToDropItem.mk) data.wants_to_drop (loadComp (fun c v2 => { c with provides_food := some v2 }) convPure v data.provides_food) ∧
    KeysLive data.helpers (loadComp (fun c v2 => { c with provides_food := some v2 }) convPure v data.provides_food) ∧
    FieldVals (fun c => c.serialization_helper) (RPure (fun (h : HelperSave) => SerializationHelper.mk h.map.toMap h.game_log)) data.helpers (loadComp (fun c v2 => { c with provides_food := some v2 }) convPure v data.provides_food) ∧
    KeysLive data.equippables (loadComp (fun c v2 => { c with provides_food := some v2 }) convPure v data.provides_food) ∧
    FieldVals (fun c => c.equippable) (RPure id) data.equippables (loadComp (fun c v2 => { c with provides_food := some v2 }) convPure v data.provides_food) ∧
    KeysLive data.equipped (loadComp (fun c v2 => { c with provides_food := some v2 }) convPure v data.provides_food) ∧
    FieldVals (fun c => c.equipped) (RRefPair Equipped.mk) data.equipped (loadComp (fun c v2 => { c with provides_food := some v2 }) convPure v data.provides_food) ∧
    KeysLive data.melee_power_bonuses (loadComp (fun c v2 => { c with provides_food := some v2 }) convPure v data.provides_food) ∧
    FieldVals (fun c => c.melee_power_bonus) (RPure id) data.melee_power_bonuses (loadComp (fun c v2 => { c with provides_food := some v2 }) convPure v data.provides_food) ∧
    KeysLive data.defense_bonuses (loadComp (fun c v2 => { c with provides_food := some v2 }) convPure v data.provides_food) ∧
    FieldVals (fun c => c.defense_bonus) (RPure id) data.defense_bonuses (loadComp (fun c v2 => { c with provides_food := some v2 }) convPure v data.provides_food) ∧
    KeysLive data.wants_to_remove (loadComp (fun c v2 => { c with provides_food := some v2 }) convPure v data.provides_food) ∧
    FieldVals (fun c => c.wants_to_remove) (RRef WantsToRemoveItem.mk) data.wants_to_remove (loadComp (fun c v2 => { c with provides_food := some v2 }) convPure v data.provides_food) ∧
    KeysLive data.particle_lifetimes (loadComp (fun c v2 => { c with provides_food := some v2 }) convPure v data.provides_food) ∧
    FieldVals (fun c => c.particle_lifetime) (RPure id) data.particle_lifetimes (loadComp (fun c v2 => { c with provides_food := some v2 }) convPure v data.provides_food) ∧
    KeysLive data.hunger_clocks (loadComp (fun c v2 => { c with provides_food := some v2 }) convPure v data.provides_food) ∧
    FieldVals (fun c => c.hunger_clock) (RPure id) data.hunger_clocks (loadComp (fun c v2 => { c with provides_food := some v2 }) convPure v data.provides_food) ∧
    KeysLive data.provides_food (loadComp (fun c v2 => { c with provides_food := some v2 }) convPure v data.provides_food) ∧
    FieldVals (fun c => c.provides_food) (RPure id) data.provides_food (loadComp (fun c v2 => { c with provides_food := some v2 }) convPure v data.provides_food) := by
  obtain ⟨hI2, hle2, hfr2, hklx⟩ := loadComp_struct (fun c v2 => { c with provides_food := some v2 }) convPure A (fun _ => True)
    (fun c a => rfl) (convOK_pure A) data.provides_food _ hI (fun p hp => ⟨hA p hp, trivial⟩)
  have hfvk := loadComp_est (fun c v2 => { c with provides_food := some v2 }) (fun c => c.provides_food) convPure A (fun _ => True)
    (RPure id) (convOK_pure A) (fun v2 b hIv hAb => rfl)
    (fun va vb a b hle h => h) (fun c a => rfl) (fun c a => rfl) (fun m => rfl)
    data.provides_food _ hI hkeys (fun p hp => ⟨hA p hp, trivial⟩) hN30
  obtain ⟨hoF1, hnF1⟩ := loadComp_obs (fun c v2 => { c with provides_food := some v2 }) convPure (fun c => c.position) A (fun _ => True)
    (fun c a => rfl) (convOK_pure A) (fun c a => rfl) (fun m => rfl) data.provides_food _ hI (fun p hp => ⟨hA p hp, trivial⟩)
  have hfv1b := FieldVals_mono (fun c => c.position) (RPure id) data.positions hle2
    (fun a b h => h)
    (fun e he hn => let ⟨m, h1, h2, _⟩ := hfr2 e he hn; ⟨m, h1, h2⟩)
    hoF1 hnF1 hkl1 hfv1
  have hkl1b := KeysLive_mono hle2 hkl1
  obtain ⟨hoF2, hnF2⟩ := loadComp_obs (fun c v2 => { c with provides_food := some v2 }) convPure (fun c => c.renderable) A (fun _ => True)
    (fun c a => rfl) (convOK_pure A) (fun c a => rfl) (fun m => rfl) data.provides_food _ hI (fun p hp => ⟨hA p hp, trivial⟩)
  have hfv2b := FieldVals_mono (fun c => c.renderable) (RPure id) data.renderables hle2
    (fun a b h => h)
    (fun e he hn => let ⟨m, h1, h2, _⟩ := hfr2 e he hn; ⟨m, h1, h2⟩)
    hoF2 hnF2 hkl2 hfv2
  have hkl2b := KeysLive_mono hle2 hkl2
  obtain ⟨hoF3, hnF3⟩ := loadComp_obs (fun c v2 => { c with provides_food := some v2 }) convPure (fun c => c.player) A (fun _ => True)
    (fun c a => rfl) (convOK_pure A) (fun c a => rfl) (fun m => rfl) data.provides_food _ hI (fun p hp => ⟨hA p hp, trivial⟩)
  have hfv3b := FieldVals_mono (fun c => c.player) (RPure id) data.players hle2
    (fun a b h => h)
    (fun e he hn => let ⟨m, h1, h2, _⟩ := hfr2 e he hn; ⟨m, h1, h2⟩)
    hoF3 hnF3 hkl3 hfv3
  have hkl3b := KeysLive_mono hle2 hkl3
  obtain ⟨hoF4, hnF4⟩ := loadComp_obs (fun c v2 => { c with provides_food := some v2 }) convPure (fun c => c.viewshed) A (fun _ => True)
    (fun c a => rfl) (convOK_pure A) (fun c a => rfl) (fun m => rfl) data.provides_food _ hI (fun p hp => ⟨hA p hp, trivial⟩)
  have hfv4b := FieldVals_mono (fun c => c.viewshed) (RPure id) data.viewsheds hle2
    (fun a b h => h)
    (fun e he hn => let ⟨m, h1, h2, _⟩ := hfr2 e he hn; ⟨m, h1, h2⟩)
    hoF4 hnF4 hkl4 hfv4
  have hkl4b := KeysLive_mono hle2 hkl4
  obtain ⟨hoF5, hnF5⟩ := loadComp_obs (fun c v2 => { c with provides_food := some v2 }) convPure (fun c => c.monster) A (fun _ => True)
    (fun c a => rfl) (convOK_pure A) (fun c a => rfl) (fun m => rfl) data.provides_food _ hI (fun p hp => ⟨hA p hp, trivial⟩)
  have hfv5b := FieldVals_mono (fun c => c.monster) (RPure id) data.monsters hle2
    (fun a b h => h)
    (fun e he hn => let ⟨m, h1, h2, _⟩ := hfr2 e he hn; ⟨m, h1, h2⟩)
    hoF5 hnF5 hkl5 hfv5
  have hkl5b := KeysLive_mono hle2 hkl5
  obtain ⟨hoF6, hnF6⟩ := loadComp_obs (fun c v2 => { c with provides_food := some v2 }) convPure (fun c => c.name) A (fun _ => True)
    (fun c a => rfl) (convOK_pure A) (fun c a => rfl) (fun m => rfl) data.provides_food _ hI (fun p hp => ⟨hA p hp, trivial⟩)
  have hfv6b := FieldVals_mono (fun c => c.name) (RPure id) data.names hle2
    (fun a b h => h)
    (fun e he hn => let ⟨m, h1, h2, _⟩ := hfr2 e he hn; ⟨m, h1, h2⟩)
    hoF6 hnF6 hkl6 hfv6
  have hkl6b := KeysLive_mono hle2 hkl6
  obtain ⟨hoF7, hnF7⟩ := loadComp_obs (fun c v2 => { c with provides_food := some v2 }) convPure (fun c => c.blocks_tile) A (fun _ => True)
    (fun c a => rfl) (convOK_pure A) (fun c a => rfl) (fun m => rfl) data.provides_food _ hI (fun p hp => ⟨hA p hp, trivial⟩)
  have hfv7b := FieldVals_mono (fun c => c.blocks_tile) (RPure id) data.blocks_tile hle2
    (fun a b h => h)
    (fun e he hn => let ⟨m, h1, h2, _⟩ := hfr2 e he hn; ⟨m, h1, h2⟩)
    hoF7 hnF7 hkl7 hfv7
  have hkl7b := KeysLive_mono hle2 hkl7
  obtain ⟨hoF8, hnF8⟩ := loadComp_obs (fun c v2 => { c with provides_food := some v2 }) convPure (fun c => c.combat_stats) A (fun _ => True)
    (fun c a => rfl) (convOK_pure A) (fun c a => rfl) (fun m => rfl) data.provides_food _ hI (fun p hp => ⟨hA p hp, trivial⟩)
  have hfv8b := FieldVals_mono (fun c => c.combat_stats) (RPure id) data.combat_stats hle2
    (fun a b h => h)
    (fun e he hn => let ⟨m, h1, h2, _⟩ := hfr2 e he hn; ⟨m, h1, h2⟩)
    hoF8 hnF8 hkl8 hfv8
  have hkl8b := KeysLive_mono hle2 hkl8
  obtain ⟨hoF9, hnF9⟩ := loadComp_obs (fun c v2 => { c with provides_food := some v2 }) convPure (fun c => c.suffer_damage) A (fun _ => True)
    (fun c a => rfl) (convOK_pure A) (fun c a => rfl) (fun m => rfl) data.provides_food _ hI (fun p hp => ⟨hA p hp, trivial⟩)
  have hfv9b := FieldVals_mono (fun c => c.suffer_damage) (RPure id) data.suffer_damage hle2
    (fun a b h => h)
    (fun e he hn => let ⟨m, h1, h2, _⟩ := hfr2 e he hn; ⟨m, h1, h2⟩)
    hoF9 hnF9 hkl9 hfv9
  have hkl9b := KeysLive_mono hle2 hkl9
  obtain ⟨hoF10, hnF10⟩ := loadComp_obs (fun c v2 => { c with provides_food := some v2 }) convPure (fun c => c.wants_melee) A (fun _ => True)
    (fun c a => rfl) (convOK_pure A) (fun c a => rfl) (fun m => rfl) data.provides_food _ hI (fun p hp => ⟨hA p hp, trivial⟩)
  have hfv10b := FieldVals_mono (fun c => c.wants_melee) (RRef WantsToMelee.mk) data.wants_melee hle2
    (fun a b h => RRef_mono WantsToMelee.mk _ _ a b hle2 h)
    (fun e he hn => let ⟨m, h1, h2, _⟩ := hfr2 e he hn; ⟨m, h1, h2⟩)
    hoF10 hnF10 hkl10 hfv10
  have hkl10b := KeysLive_mono hle2 hkl10
  obtain ⟨hoF11, hnF11⟩ := loadComp_obs (fun c v2 => { c with provides_food := some v2 }) convPure (fun c => c.item) A (fun _ => True)
    (fun c a => rfl) (convOK_pure A) (fun c a => rfl) (fun m => rfl) data.provides_food _ hI (fun p hp => ⟨hA p hp, trivial⟩)
  have hfv11b := FieldVals_mono (fun c => c.item) (RPure id) data.items hle2
    (fun a b h => h)
    (fun e he hn => let ⟨m, h1, h2, _⟩ := hfr2 e he hn; ⟨m, h1, h2⟩)
    hoF11 hnF11 hkl11 hfv11
  have hkl11b := KeysLive_mono hle2 hkl11
  obtain ⟨hoF12, hnF12⟩ := loadComp_obs (fun c v2 => { c with provides_food := some v2 }) convPure (fun c => c.consumable) A (fun _ => True)
    (fun c a => rfl) (convOK_pure A) (fun c a => rfl) (fun m => rfl) data.provides_food _ hI (fun p hp => ⟨hA p hp, trivial⟩)
  have hfv12b := FieldVals_mono (fun c => c.consumable) (RPure id) data.consumables hle2
    (fun a b h => h)
    (fun e he hn => let ⟨m, h1, h2, _⟩ := hfr2 e he hn; ⟨m, h1, h2⟩)
    hoF12 hnF12 hkl12 hfv12
  have hkl12b := KeysLive_mono hle2 hkl12
  obtain ⟨hoF13, hnF13⟩ := loadComp_obs (fun c v2 => { c with provides_food := some v2 }) convPure (fun c => c.ranged) A (fun _ => True)
    (fun c a => rfl) (convOK_pure A) (fun c a => rfl) (fun m => rfl) data.provides_food _ hI (fun p hp => ⟨hA p hp, trivial⟩)
  have hfv13b := FieldVals_mono (fun c => c.ranged) (RPure id) data.ranged hle2
    (fun a b h => h)
    (fun e he hn => let ⟨m, h1, h2, _⟩ := hfr2 e he hn; ⟨m, h1, h2⟩)
    hoF13 hnF13 hkl13 hfv13
  have hkl13b := KeysLive_mono hle2 hkl13
  obtain ⟨hoF14, hnF14⟩ := loadComp_obs (fun c v2 => { c with provides_food := some v2 }) convPure (fun c => c.inflicts_damage) A (fun _ => True)
    (fun c a => rfl) (convOK_pure A) (fun c a => rfl) (fun m => rfl) data.provides_food _ hI (fun p hp => ⟨hA p hp, trivial⟩)
  have hfv14b := FieldVals_mono (fun c => c.inflicts_damage) (RPure id) data.inflicts_damage hle2
    (fun a b h => h)
    (fun e he hn => let ⟨m, h1, h2, _⟩ := hfr2 e he hn; ⟨m, h1, h2⟩)
    hoF14 hnF14 hkl14 hfv14
  have hkl14b := KeysLive_mono hle2 hkl14
  obtain ⟨hoF15, hnF15⟩ := loadComp_obs (fun c v2 => { c with provides_food := some v2 }) convPure (fun c => c.area_of_effect) A (fun _ => True)
    (fun c a => rfl) (convOK_pure A) (fun c a => rfl) (fun m => rfl) data.provides_food _ hI (fun p hp => ⟨hA p hp, trivial⟩)
  have hfv15b := FieldVals_mono (fun c => c.area_of_effect) (RPure id) data.area_of_effect hle2
    (fun a b h => h)
    (fun e he hn => let ⟨m, h1, h2, _⟩ := hfr2 e he hn; ⟨m, h1, h2⟩)
    hoF15 hnF15 hkl15 hfv15
  have hkl15b := KeysLive_mono hle2 hkl15
  obtain ⟨hoF16, hnF16⟩ := loadComp_obs (fun c v2 => { c with provides_food := some v2 }) convPure (fun c => c.confusion) A (fun _ => True)
    (fun c a => rfl) (convOK_pure A) (fun c a => rfl) (fun m => rfl) data.provides_food _ hI (fun p hp => ⟨hA p hp, trivial⟩)
  have hfv16b := FieldVals_mono (fun c => c.confusion) (RPure id) data.confusion hle2
    (fun a b h => h)
    (fun e he hn => let ⟨m, h1, h2, _⟩ := hfr2 e he hn; ⟨m, h1, h2⟩)
    hoF16 hnF16 hkl16 hfv16
  have hkl16b := KeysLive_mono hle2 hkl16
  obtain ⟨hoF17, hnF17⟩ := loadComp_obs (fun c v2 => { c with provides_food := some v2 }) convPure (fun c => c.provides_healing) A (fun _ => True)
    (fun c a => rfl) (convOK_pure A) (fun c a => rfl) (fun m => rfl) data.provides_food _ hI (fun p hp => ⟨hA p hp, trivial⟩)
  have hfv17b := FieldVals_mono (fun c => c.provides_healing) (RPure id) data.provides_healing hle2
    (fun a b h => h)
    (fun e he hn => let ⟨m, h1, h2, _⟩ := hfr2 e he hn; ⟨m, h1, h2⟩)
    hoF17 hnF17 hkl17 hfv17
  have hkl17b := KeysLive_mono hle2 hkl17
  obtain ⟨hoF18, hnF18⟩ := loadComp_obs (fun c v2 => { c with provides_food := some v2 }) convPure (fun c => c.in_backpack) A (fun _ => True)
    (fun c a => rfl) (convOK_pure A) (fun c a => rfl) (fun m => rfl) data.provides_food _ hI (fun p hp => ⟨hA p hp, trivial⟩)
  have hfv18b := FieldVals_mono (fun c => c.in_backpack) (RRef InBackpack.mk) data.in_backpack hle2
    (fun a b h => RRef_mono InBackpack.mk _ _ a b hle2 h)
    (fun e he hn => let ⟨m, h1, h2, _⟩ := hfr2 e he hn; ⟨m, h1, h2⟩)
    hoF18 hnF18 hkl18 hfv18
  have hkl18b := KeysLive_mono hle2 hkl18
  obtain ⟨hoF19, hnF19⟩ := loadComp_obs (fun c v2 => { c with provides_food := some v2 }) convPure (fun c => c.wants_to_pickup) A (fun _ => True)
    (fun c a => rfl) (convOK_pure A) (fun c a => rfl) (fun m => rfl) data.provides_food _ hI (fun p hp => ⟨hA p hp, trivial⟩)
  have hfv19b := FieldVals_mono (fun c => c.wants_to_pickup) (RRef2 WantsToPickupItem.mk) data.wants_to_pickup hle2
    (fun a b h => RRef2_mono WantsToPickupItem.mk _ _ a b hle2 h)
    (fun e he hn => let ⟨m, h1, h2, _⟩ := hfr2 e he hn; ⟨m, h1, h2⟩)
    hoF19 hnF19 hkl19 hfv19
  have hkl19b := KeysLive_mono hle2 hkl19
  obtain ⟨hoF20, hnF20⟩ := loadComp_obs (fun c v2 => { c with provides_food := some v2 }) convPure (fun c => c.wants_to_use) A (fun _ => True)
    (fun c a => rfl) (convOK_pure A) (fun c a => rfl) (fun m => rfl) data.provides_food _ hI (fun p hp => ⟨hA p hp, trivial⟩)
  have hfv20b := FieldVals_mono (fun c => c.wants_to_use) (RRefPair WantsToUseItem.mk) data.wants_to_use hle2
    (fun a b h => RRefPair_mono WantsToUseItem.mk _ _ a b hle2 h)
    (fun e he hn => let ⟨m, h1, h2, _⟩ := hfr2 e he hn; ⟨m, h1, h2⟩)
    hoF20 hnF20 hkl20 hfv20
  have hkl20b := KeysLive_mono hle2 hkl20
  obtain ⟨hoF21, hnF21⟩ := loadComp_obs (fun c v2 => { c with provides_food := some v2 }) convPure (fun c => c.wants_to_drop) A (fun _ => True)
    (fun c a => rfl) (convOK_pure A) (fun c a => rfl) (fun m => rfl) data.provides_food _ hI (fun p hp => ⟨hA p hp, trivial⟩)
  have hfv21b := FieldVals_mono (fun c => c.wants_to_drop) (RRef WantsToDropItem.mk) data.wants_to_drop hle2
    (fun a b h => RRef_mono WantsToDropItem.mk _ _ a b hle2 h)
    (fun e he hn => let ⟨m, h1, h2, _⟩ := hfr2 e he hn; ⟨m, h1, h2⟩)
    hoF21 hnF21 hkl21 hfv21
  have hkl21b := KeysLive_mono hle2 hkl21
  obtain ⟨hoF22, hnF22⟩ := loadComp_obs (fun c v2 => { c with provides_food := some v2 }) convPure (fun c => c.serialization_helper) A (fun _ => True)
    (fun c a => rfl) (convOK_pure A) (fun c a => rfl) (fun m => rfl) data.provides_food _ hI (fun p hp => ⟨hA p hp, trivial⟩)
  have hfv22b := FieldVals_mono (fun c => c.serialization_helper) (RPure (fun (h : HelperSave) => SerializationHelper.mk h.map.toMap h.game_log)) data.helpers hle2
    (fun a b h => h)
    (fun e he hn => let ⟨m, h1, h2, _⟩ := hfr2 e he hn; ⟨m, h1, h2⟩)
    hoF22 hnF22 hkl22 hfv22
  have hkl22b := KeysLive_mono hle2 hkl22
  obtain ⟨hoF23, hnF23⟩ := loadComp_obs (fun c v2 => { c with provides_food := some v2 }) convPure (fun c => c.equippable) A (fun _ => True)
    (fun c a => rfl) (convOK_pure A) (fun c a => rfl) (fun m => rfl) data.provides_food _ hI (fun p hp => ⟨hA p hp, trivial⟩)
  have hfv23b := FieldVals_mono (fun c => c.equippable) (RPure id) data.equippables hle2
    (fun a b h => h)
    (fun e he hn => let ⟨m, h1, h2, _⟩ := hfr2 e he hn; ⟨m, h1, h2⟩)
    hoF23 hnF23 hkl23 hfv23
  have hkl23b := KeysLive_mono hle2 hkl23
  obtain ⟨hoF24, hnF24⟩ := loadComp_obs (fun c v2 => { c with provides_food := some v2 }) convPure (fun c => c.equipped) A (fun _ => True)
    (fun c a => rfl) (convOK_pure A) (fun c a => rfl) (fun m => rfl) data.provides_food _ hI (fun p hp => ⟨hA p hp, trivial⟩)
  have hfv24b := FieldVals_mono (fun c => c.equipped) (RRefPair Equipped.mk) data.equipped hle2
    (fun a b h => RRefPair_mono Equipped.mk _ _ a b hle2 h)
    (fun e he hn => let ⟨m, h1, h2, _⟩ := hfr2 e he hn; ⟨m, h1, h2⟩)
    hoF24 hnF24 hkl24 hfv24
  have hkl24b := KeysLive_mono hle2 hkl24
  obtain ⟨hoF25, hnF25⟩ := loadComp_obs (fun c v2 => { c with provides_food := some v2 }) convPure (fun c => c.melee_power_bonus) A (fun _ => True)
    (fun c a => rfl) (convOK_pure A) (fun c a => rfl) (fun m => rfl) data.provides_food _ hI (fun p hp => ⟨hA p hp, trivial⟩)
  have hfv25b := FieldVals_mono (fun c => c.melee_power_bonus) (RPure id) data.melee_power_bonuses hle2
    (fun a b h => h)
    (fun e he hn => let ⟨m, h1, h2, _⟩ := hfr2 e he hn; ⟨m, h1, h2⟩)
    hoF25 hnF25 hkl25 hfv25
  have hkl25b := KeysLive_mono hle2 hkl25
  obtain ⟨hoF26, hnF26⟩ := loadComp_obs (fun c v2 => { c with provides_food := some v2 }) convPure (fun c => c.defense_bonus) A (fun _ => True)
    (fun c a => rfl) (convOK_pure A) (fun c a => rfl) (fun m => rfl) data.provides_food _ hI (fun p hp => ⟨hA p hp, trivial⟩)
  have hfv26b := FieldVals_mono (fun c => c.defense_bonus) (RPure id) data.defense_bonuses hle2
    (fun a b h => h)
    (fun e he hn => let ⟨m, h1, h2, _⟩ := hfr2 e he hn; ⟨m, h1, h2⟩)
    hoF26 hnF26 hkl26 hfv26
  have hkl26b := KeysLive_mono hle2 hkl26
  obtain ⟨hoF27, hnF27⟩ := loadComp_obs (fun c v2 => { c with provides_food := some v2 }) convPure (fun c => c.wants_to_remove) A (fun _ => True)
    (fun c a => rfl) (convOK_pure A) (fun c a => rfl) (fun m => rfl) data.provides_food _ hI (fun p hp => ⟨hA p hp, trivial⟩)
  have hfv27b := FieldVals_mono (fun c => c.wants_to_remove) (RRef WantsToRemoveItem.mk) data.wants_to_remove hle2
    (fun a b h => RRef_mono WantsToRemoveItem.mk _ _ a b hle2 h)
    (fun e he hn => let ⟨m, h1, h2, _⟩ := hfr2 e he hn; ⟨m, h1, h2⟩)
    hoF27 hnF27 hkl27 hfv27
  have hkl27b := KeysLive_mono hle2 hkl27
  obtain ⟨hoF28, hnF28⟩ := loadComp_obs (fun c v2 => { c with provides_food := some v2 }) convPure (fun c => c.particle_lifetime) A (fun _ => True)
    (fun c a => rfl) (convOK_pure A) (fun c a => rfl) (fun m => rfl) data.provides_food _ hI (fun p hp => ⟨hA p hp, trivial⟩)
  have hfv28b := FieldVals_mono (fun c => c.particle_lifetime) (RPure id) data.particle_lifetimes hle2
    (fun a b h => h)
    (fun e he hn => let ⟨m, h1, h2, _⟩ := hfr2 e he hn; ⟨m, h1, h2⟩)
    hoF28 hnF28 hkl28 hfv28
  have hkl28b := KeysLive_mono hle2 hkl28
  obtain ⟨hoF29, hnF29⟩ := loadComp_obs (fun c v2 => { c with provides_food := some v2 }) convPure (fun c => c.hunger_clock) A (fun _ => True)
    (fun c a => rfl) (convOK_pure A) (fun c a => rfl) (fun m => rfl) data.provides_food _ hI (fun p hp => ⟨hA p hp, trivial⟩)
  have hfv29b := FieldVals_mono (fun c => c.hunger_clock) (RPure id) data.hunger_clocks hle2
    (fun a b h => h)
    (fun e he hn => let ⟨m, h1, h2, _⟩ := hfr2 e he hn; ⟨m, h1, h2⟩)
    hoF29 hnF29 hkl29 hfv29
  have hkl29b := KeysLive_mono hle2 hkl29
  have hMb := MarksIn_mono hle2 (fun e he hn => let ⟨m, h1, _, h3⟩ := hfr2 e he hn; ⟨m, h1, h3⟩) hM
  exact ⟨hI2, hMb, hkl1b, hfv1b, hkl2b, hfv2b, hkl3b, hfv3b, hkl4b, hfv4b, hkl5b, hfv5b, hkl6b, hfv6b, hkl7b, hfv7b, hkl8b, hfv8b, hkl9b, hfv9b, hkl10b, hfv10b, hkl11b, hfv11b, hkl12b, hfv12b, hkl13b, hfv13b, hkl14b, hfv14b, hkl15b, hfv15b, hkl16b, hfv16b, hkl17b, hfv17b, hkl18b, hfv18b, hkl19b, hfv19b, hkl20b, hfv20b, hkl21b, hfv21b, hkl22b, hfv22b, hkl23b, hfv23b, hkl24b, hfv24b, hkl25b, hfv25b, hkl26b, hfv26b, hkl27b, hfv27b, hkl28b, hfv28b, hkl29b, hfv29b, hklx, hfvk⟩

set_option maxHeartbeats 1600000 in
/-- Running the thirty deserialization passes on the emptied world
establishes all the per-list facts. -/
lemma loadPasses_facts (A : Nat → Prop) (v : World) (data : SaveData)
    (hI0 : LoadInv v) (hemp : v.entities = [])
    (hkeys1 : ((data.positions).map Prod.fst).Nodup)
    (hkeys2 : ((data.renderables).map Prod.fst).Nodup)
    (hkeys3 : ((data.players).map Prod.fst).Nodup)
    (hkeys4 : ((data.viewsheds).map Prod.fst).Nodup)
    (hkeys5 : ((data.monsters).map Prod.fst).Nodup)
    (hkeys6 : ((data.names).map Prod.fst).Nodup)
    (hkeys7 : ((data.blocks_tile).map Prod.fst).Nodup)
    (hkeys8 : ((data.combat_stats).map Prod.fst).Nodup)
    (hkeys9 : ((data.suffer_damage).map Prod.fst).Nodup)
    (hkeys10 : ((data.wants_melee).map Prod.fst).Nodup)
    (hkeys11 : ((data.items).map Prod.fst).Nodup)
    (hkeys12 : ((data.consumables).map Prod.fst).Nodup)
    (hkeys13 : ((data.ranged).map Prod.fst).Nodup)
    (hkeys14 : ((data.inflicts_damage).map Prod.fst).Nodup)
    (hkeys15 : ((data.area_of_effect).map Prod.fst).Nodup)
    (hkeys16 : ((data.confusion).map Prod.fst).Nodup)
    (hkeys17 : ((data.provides_healing).map Prod.fst).Nodup)
    (hkeys18 : ((data.in_backpack).map Prod.fst).Nodup)
    (hkeys19 : ((data.wants_to_pickup).map Prod.fst).Nodup)
    (hkeys20 : ((data.wants_to_use).map Prod.fst).Nodup)
    (hkeys21 : ((data.wants_to_drop).map Prod.fst).Nodup)
    (hkeys22 : ((data.helpers).map Prod.fst).Nodup)
    (hkeys23 : ((data.equippables).map Prod.fst).Nodup)
    (hkeys24 : ((data.equipped).map Prod.fst).Nodup)
    (hkeys25 : ((data.melee_power_bonuses).map Prod.fst).Nodup)
    (hkeys26 : ((data.defense_bonuses).map Prod.fst).Nodup)
    (hkeys27 : ((data.wants_to_remove).map Prod.fst).Nodup)
    (hkeys28 : ((data.particle_lifetimes).map Prod.fst).Nodup)
    (hkeys29 : ((data.hunger_clocks).map Prod.fst).Nodup)
    (hkeys30 : ((data.provides_food).map Prod.fst).Nodup)
    (hA1 : ∀ p ∈ data.positions, A p.1)
    (hA2 : ∀ p ∈ data.renderables, A p.1)
    (hA3 : ∀ p ∈ data.players, A p.1)
    (hA4 : ∀ p ∈ data.viewsheds, A p.1)
    (hA5 : ∀ p ∈ data.monsters, A p.1)
    (hA6 : ∀ p ∈ data.names, A p.1)
    (hA7 : ∀ p ∈ data.blocks_tile, A p.1)
    (hA8 : ∀ p ∈ data.combat_stats, A p.1)
    (hA9 : ∀ p ∈ data.suffer_damage, A p.1)
    (hA10 : ∀ p ∈ data.wants_melee, A p.1 ∧ A p.2)
    (hA11 : ∀ p ∈ data.items, A p.1)
    (hA12 : ∀ p ∈ data.consumables, A p.1)
    (hA13 : ∀ p ∈ data.ranged, A p.1)
    (hA14 : ∀ p ∈ data.inflicts_damage, A p.1)
    (hA15 : ∀ p ∈ data.area_of_effect, A p.1)
    (hA16 : ∀ p ∈ data.confusion, A p.1)
    (hA17 : ∀ p ∈ data.provides_healing, A p.1)
    (hA18 : ∀ p ∈ data.in_backpack, A p.1 ∧ A p.2)
    (hA19 : ∀ p ∈ data.wants_to_pickup, A p.1 ∧ A p.2.1 ∧ A p.2.2)
    (hA20 : ∀ p ∈ data.wants_to_use, A p.1 ∧ A p.2.1)
    (hA21 : ∀ p ∈ data.wants_to_drop, A p.1 ∧ A p.2)
    (hA22 : ∀ p ∈ data.helpers, A p.1)
    (hA23 : ∀ p ∈ data.equippables, A p.1)
    (hA24 : ∀ p ∈ data.equipped, A p.1 ∧ A p.2.1)
    (hA25 : ∀ p ∈ data.melee_power_bonuses, A p.1)
    (hA26 : ∀ p ∈ data.defense_bonuses, A p.1)
    (hA27 : ∀ p ∈ data.wants_to_remove, A p.1 ∧ A p.2)
    (hA28 : ∀ p ∈ data.particle_lifetimes, A p.1)
    (hA29 : ∀ p ∈ data.hunger_clocks, A p.1)
    (hA30 : ∀ p ∈ data.provides_food, A p.1)
    : LoadedFacts A data (loadPasses v data) := by
  have hM0 : MarksIn A v := fun e he => absurd (hemp ▸ he) (List.not_mem_nil e)
  have hN1x0 : AllNone (fun c => c.position) v := fun e he => absurd (hemp ▸ he) (List.not_mem_nil e)
  have hN2x0 : AllNone (fun c => c.renderable) v := fun e he => absurd (hemp ▸ he) (List.not_mem_nil e)
  have hN3x0 : AllNone (fun c => c.player) v := fun e he => absurd (hemp ▸ he) (List.not_mem_nil e)
  have hN4x0 : AllNone (fun c => c.viewshed) v := fun e he => absurd (hemp ▸ he) (List.not_mem_nil e)
  have hN5x0 : AllNone (fun c => c.monster) v := fun e he => absurd (hemp ▸ he) (List.not_mem_nil e)
  have hN6x0 : AllNone (fun c => c.name) v := fun e he => absurd (hemp ▸ he) (List.not_mem_nil e)
  have hN7x0 : AllNone (fun c => c.blocks_tile) v := fun e he => absurd (hemp ▸ he) (List.not_mem_nil e)
  have hN8x0 : AllNone (fun c => c.combat_stats) v := fun e he => absurd (hemp ▸ he) (List.not_mem_nil e)
  have hN9x0 : AllNone (fun c => c.suffer_damage) v := fun e he => absurd (hemp ▸ he) (List.not_mem_nil e)
  have hN10x0 : AllNone (fun c => c.wants_melee) v := fun e he => absurd (hemp ▸ he) (List.not_mem_nil e)
  have hN11x0 : AllNone (fun c => c.item) v := fun e he => absurd (hemp ▸ he) (List.not_mem_nil e)
  have hN12x0 : AllNone (fun c => c.consumable) v := fun e he => absurd (hemp ▸ he) (List.not_mem_nil e)
  have hN13x0 : AllNone (fun c => c.ranged) v := fun e he => absurd (hemp ▸ he) (List.not_mem_nil e)
  have hN14x0 : AllNone (fun c => c.inflicts_damage) v := fun e he => absurd (hemp ▸ he) (List.not_mem_nil e)
  have hN15x0 : AllNone (fun c => c.area_of_effect) v := fun e he => absurd (hemp ▸ he) (List.not_mem_nil e)
  have hN16x0 : AllNone (fun c => c.confusion) v := fun e he => absurd (hemp ▸ he) (List.not_mem_nil e)
  have hN17x0 : AllNone (fun c => c.provides_healing) v := fun e he => absurd (hemp ▸ he) (List.not_mem_nil e)
  have hN18x0 : AllNone (fun c => c.in_backpack) v := fun e he => absurd (hemp ▸ he) (List.not_mem_nil e)
  have hN19x0 : AllNone (fun c => c.wants_to_pickup) v := fun e he => absurd (hemp ▸ he) (List.not_mem_nil e)
  have hN20x0 : AllNone (fun c => c.wants_to_use) v := fun e he => absurd (hemp ▸ he) (List.not_mem_nil e)
  have hN21x0 : AllNone (fun c => c.wants_to_drop) v := fun e he => absurd (hemp ▸ he) (List.not_mem_nil e)
  have hN22x0 : AllNone (fun c => c.serialization_helper) v := fun e he => absurd (hemp ▸ he) (List.not_mem_nil e)
  have hN23x0 : AllNone (fun c => c.equippable) v := fun e he => absurd (hemp ▸ he) (List.not_mem_nil e)
  have hN24x0 : AllNone (fun c => c.equipped) v := fun e he => absurd (hemp ▸ he) (List.not_mem_nil e)
  have hN25x0 : AllNone (fun c => c.melee_power_bonus) v := fun e he => absurd (hemp ▸ he) (List.not_mem_nil e)
  have hN26x0 : AllNone (fun c => c.defense_bonus) v := fun e he => absurd (hemp ▸ he) (List.not_mem_nil e)
  have hN27x0 : AllNone (fun c => c.wants_to_remove) v := fun e he => absurd (hemp ▸ he) (List.not_mem_nil e)
  have hN28x0 : AllNone (fun c => c.particle_lifetime) v := fun e he => absurd (hemp ▸ he) (List.not_mem_nil e)
  have hN29x0 : AllNone (fun c => c.hunger_clock) v := fun e he => absurd (hemp ▸ he) (List.not_mem_nil e)
  have hN30x0 : AllNone (fun c => c.provides_food) v := fun e he => absurd (hemp ▸ he) (List.not_mem_nil e)
  have hS1 := loadStage1 A data v hI0 hkeys1 hA1 hM0 hN1x0 hN2x0 hN3x0 hN4x0 hN5x0 hN6x0 hN7x0
    hN8x0 hN9x0 hN10x0 hN11x0 hN12x0 hN13x0 hN14x0 hN15x0 hN16x0 hN17x0 hN18x0 hN19x0 hN20x0
    hN21x0 hN22x0 hN23x0 hN24x0 hN25x0 hN26x0 hN27x0 hN28x0 hN29x0 hN30x0
  have hS2 := loadStage2 A data _ hS1.1 hkeys2 hA2 hS1.2.1 hS1.2.2.1 hS1.2.2.2.1 hS1.2.2.2.2.1
    hS1.2.2.2.2.2.1 hS1.2.2.2.2.2.2.1 hS1.2.2.2.2.2.2.2.1 hS1.2.2.2.2.2.2.2.2.1
    hS1.2.2.2.2.2.2.2.2.2.1 hS1.2.2.2.2.2.2.2.2.2.2.1 hS1.2.2.2.2.2.2.2.2.2.2.2.1
    hS1.2.2.2.2.2.2.2.2.2.2.2.2.1 hS1.2.2.2.2.2.2.2.2.2.2.2.2.2.1
    hS1.2.2.2.2.2.2.2.2.2.2.2.2.2.2.1 hS1.2.2.2.2.2.2.2.2.2.2.2.2.2.2.2.1
    hS1.2.2.2.2.2.2.2.2.2.2.2.2.2.2.2.2.1 hS1.2.2.2.2.2.2.2.2.2.2.2.2.2.2.2.2.2.1
    hS1.2.2.2.2.2.2.2.2.2.2.2.2.2.2.2.2.2.2.1 hS1.2.2.2.2.2.2.2.2.2.2.2.2.2.2.2.2.2.2.2.1
    hS1.2.2.2.2.2.2.2.2.2.2.2.2.2.2.2.2.2.2.2.2.1
    hS1.2.2.2.2.2.2.2.2.2.2.2.2.2.2.2.2.2.2.2.2.2.1
    hS1.2.2.2.2.2.2.2.2.2.2.2.2.2.2.2.2.2.2.2.2.2.2.1
    hS1.2.2.2.2.2.2.2.2.2.2.2.2.2.2.2.2.2.2.2.2.2.2.2.1
    hS1.2.2.2.2.2.2.2.2.2.2.2.2.2.2.2.2.2.2.2.2.2.2.2.2.1
    hS1.2.2.2.2.2.2.2.2.2.2.2.2.2.2.2.2.2.2.2.2.2.2.2.2.2.1
    hS1.2.2.2.2.2.2.2.2.2.2.2.2.2.2.2.2.2.2.2.2.2.2.2.2.2.2.1
    hS1.2.2.2.2.2.2.2.2.2.2.2.2.2.2.2.2.2.2.2.2.2.2.2.2.2.2.2.1
    hS1.2.2.2.2.2.2.2.2.2.2.2.2.2.2.2.2.2.2.2.2.2.2.2.2.2.2.2.2.1
    hS1.2.2.2.2.2.2.2.2.2.2.2.2.2.2.2.2.2.2.2.2.2.2.2.2.2.2.2.2.2.1
    hS1.2.2.2.2.2.2.2.2.2.2.2.2.2.2.2.2.2.2.2.2.2.2.2.2.2.2.2.2.2.2.1
    hS1.2.2.2.2.2.2.2.2.2.2.2.2.2.2.2.2.2.2.2.2.2.2.2.2.2.2.2.2.2.2.2.1
    hS1.2.2.2.2.2.2.2.2.2.2.2.2.2.2.2.2.2.2.2.2.2.2.2.2.2.2.2.2.2.2.2.2
  have hS3 := loadStage3 A data _ hS2.1 hkeys3 hA3 hS2.2.1 hS2.2.2.1 hS2.2.2.2.1 hS2.2.2.2.2.1
    hS2.2.2.2.2.2.1 hS2.2.2.2.2.2.2.1 hS2.2.2.2.2.2.2.2.1 hS2.2.2.2.2.2.2.2.2.1
    hS2.2.2.2.2.2.2.2.2.2.1 hS2.2.2.2.2.2.2.2.2.2.2.1 hS2.2.2.2.2.2.2.2.2.2.2.2.1
    hS2.2.2.2.2.2.2.2.2.2.2.2.2.1 hS2.2.2.2.2.2.2.2.2.2.2.2.2.2.1
    hS2.2.2.2.2.2.2.2.2.2.2.2.2.2.2.1 hS2.2.2.2.2.2.2.2.2.2.2.2.2.2.2.2.1
    hS2.2.2.2.2.2.2.2.2.2.2.2.2.2.2.2.2.1 hS2.2.2.2.2.2.2.2.2.2.2.2.2.2.2.2.2.2.1
    hS2.2.2.2.2.2.2.2.2.2.2.2.2.2.2.2.2.2.2.1 hS2.2.2.2.2.2.2.2.2.2.2.2.2.2.2.2.2.2.2.2.1
    hS2.2.2.2.2.2.2.2.2.2.2.2.2.2.2.2.2.2.2.2.2.1
    hS2.2.2.2.2.2.2.2.2.2.2.2.2.2.2.2.2.2.2.2.2.2.1
    hS2.2.2.2.2.2.2.2.2.2.2.2.2.2.2.2.2.2.2.2.2.2.2.1
    hS2.2.2.2.2.2.2.2.2.2.2.2.2.2.2.2.2.2.2.2.2.2.2.2.1
    hS2.2.2.2.2.2.2.2.2.2.2.2.2.2.2.2.2.2.2.2.2.2.2.2.2.1
    hS2.2.2.2.2.2.2.2.2.2.2.2.2.2.2.2.2.2.2.2.2.2.2.2.2.2.1
    hS2.2.2.2.2.2.2.2.2.2.2.2.2.2.2.2.2.2.2.2.2.2.2.2.2.2.2.1
    hS2.2.2.2.2.2.2.2.2.2.2.2.2.2.2.2.2.2.2.2.2.2.2.2.2.2.2.2.1
    hS2.2.2.2.2.2.2.2.2.2.2.2.2.2.2.2.2.2.2.2.2.2.2.2.2.2.2.2.2.1
    hS2.2.2.2.2.2.2.2.2.2.2.2.2.2.2.2.2.2.2.2.2.2.2.2.2.2.2.2.2.2.1
    hS2.2.2.2.2.2.2.2.2.2.2.2.2.2.2.2.2.2.2.2.2.2.2.2.2.2.2.2.2.2.2.1
    hS2.2.2.2.2.2.2.2.2.2.2.2.2.2.2.2.2.2.2.2.2.2.2.2.2.2.2.2.2.2.2.2.1
    hS2.2.2.2.2.2.2.2.2.2.2.2.2.2.2.2.2.2.2.2.2.2.2.2.2.2.2.2.2.2.2.2.2.1
    hS2.2.2.2.2.2.2.2.2.2.2.2.2.2.2.2.2.2.2.2.2.2.2.2.2.2.2.2.2.2.2.2.2.2
  have hS4 := loadStage4 A data _ hS3.1 hkeys4 hA4 hS3.2.1 hS3.2.2.1 hS3.2.2.2.1 hS3.2.2.2.2.1
    hS3.2.2.2.2.2.1 hS3.2.2.2.2.2.2.1 hS3.2.2.2.2.2.2.2.1 hS3.2.2.2.2.2.2.2.2.1
    hS3.2.2.2.2.2.2.2.2.2.1 hS3.2.2.2.2.2.2.2.2.2.2.1 hS3.2.2.2.2.2.2.2.2.2.2.2.1
    hS3.2.2.2.2.2.2.2.2.2.2.2.2.1 hS3.2.2.2.2.2.2.2.2.2.2.2.2.2.1
    hS3.2.2.2.2.2.2.2.2.2.2.2.2.2.2.1 hS3.2.2.2.2.2.2.2.2.2.2.2.2.2.2.2.1
    hS3.2.2.2.2.2.2.2.2.2.2.2.2.2.2.2.2.1 hS3.2.2.2.2.2.2.2.2.2.2.2.2.2.2.2.2.2.1
    hS3.2.2.2.2.2.2.2.2.2.2.2.2.2.2.2.2.2.2.1 hS3.2.2.2.2.2.2.2.2.2.2.2.2.2.2.2.2.2.2.2.1
    hS3.2.2.2.2.2.2.2.2.2.2.2.2.2.2.2.2.2.2.2.2.1
    hS3.2.2.2.2.2.2.2.2.2.2.2.2.2.2.2.2.2.2.2.2.2.1
    hS3.2.2.2.2.2.2.2.2.2.2.2.2.2.2.2.2.2.2.2.2.2.2.1
    hS3.2.2.2.2.2.2.2.2.2.2.2.2.2.2.2.2.2.2.2.2.2.2.2.1
    hS3.2.2.2.2.2.2.2.2.2.2.2.2.2.2.2.2.2.2.2.2.2.2.2.2.1
    hS3.2.2.2.2.2.2.2.2.2.2.2.2.2.2.2.2.2.2.2.2.2.2.2.2.2.1
    hS3.2.2.2.2.2.2.2.2.2.2.2.2.2.2.2.2.2.2.2.2.2.2.2.2.2.2.1
    hS3.2.2.2.2.2.2.2.2.2.2.2.2.2.2.2.2.2.2.2.2.2.2.2.2.2.2.2.1
    hS3.2.2.2.2.2.2.2.2.2.2.2.2.2.2.2.2.2.2.2.2.2.2.2.2.2.2.2.2.1
    hS3.2.2.2.2.2.2.2.2.2.2.2.2.2.2.2.2.2.2.2.2.2.2.2.2.2.2.2.2.2.1
    hS3.2.2.2.2.2.2.2.2.2.2.2.2.2.2.2.2.2.2.2.2.2.2.2.2.2.2.2.2.2.2.1
    hS3.2.2.2.2.2.2.2.2.2.2.2.2.2.2.2.2.2.2.2.2.2.2.2.2.2.2.2.2.2.2.2.1
    hS3.2.2.2.2.2.2.2.2.2.2.2.2.2.2.2.2.2.2.2.2.2.2.2.2.2.2.2.2.2.2.2.2.1
    hS3.2.2.2.2.2.2.2.2.2.2.2.2.2.2.2.2.2.2.2.2.2.2.2.2.2.2.2.2.2.2.2.2.2.1
    hS3.2.2.2.2.2.2.2.2.2.2.2.2.2.2.2.2.2.2.2.2.2.2.2.2.2.2.2.2.2.2.2.2.2.2
  have hS5 := loadStage5 A data _ hS4.1 hkeys5 hA5 hS4.2.1 hS4.2.2.1 hS4.2.2.2.1 hS4.2.2.2.2.1
    hS4.2.2.2.2.2.1 hS4.2.2.2.2.2.2.1 hS4.2.2.2.2.2.2.2.1 hS4.2.2.2.2.2.2.2.2.1
    hS4.2.2.2.2.2.2.2.2.2.1 hS4.2.2.2.2.2.2.2.2.2.2.1 hS4.2.2.2.2.2.2.2.2.2.2.2.1
    hS4.2.2.2.2.2.2.2.2.2.2.2.2.1 hS4.2.2.2.2.2.2.2.2.2.2.2.2.2.1
    hS4.2.2.2.2.2.2.2.2.2.2.2.2.2.2.1 hS4.2.2.2.2.2.2.2.2.2.2.2.2.2.2.2.1
    hS4.2.2.2.2.2.2.2.2.2.2.2.2.2.2.2.2.1 hS4.2.2.2.2.2.2.2.2.2.2.2.2.2.2.2.2.2.1
    hS4.2.2.2.2.2.2.2.2.2.2.2.2.2.2.2.2.2.2.1 hS4.2.2.2.2.2.2.2.2.2.2.2.2.2.2.2.2.2.2.2.1
    hS4.2.2.2.2.2.2.2.2.2.2.2.2.2.2.2.2.2.2.2.2.1
    hS4.2.2.2.2.2.2.2.2.2.2.2.2.2.2.2.2.2.2.2.2.2.1
    hS4.2.2.2.2.2.2.2.2.2.2.2.2.2.2.2.2.2.2.2.2.2.2.1
    hS4.2.2.2.2.2.2.2.2.2.2.2.2.2.2.2.2.2.2.2.2.2.2.2.1
    hS4.2.2.2.2.2.2.2.2.2.2.2.2.2.2.2.2.2.2.2.2.2.2.2.2.1
    hS4.2.2.2.2.2.2.2.2.2.2.2.2.2.2.2.2.2.2.2.2.2.2.2.2.2.1
    hS4.2.2.2.2.2.2.2.2.2.2.2.2.2.2.2.2.2.2.2.2.2.2.2.2.2.2.1
    hS4.2.2.2.2.2.2.2.2.2.2.2.2.2.2.2.2.2.2.2.2.2.2.2.2.2.2.2.1
    hS4.2.2.2.2.2.2.2.2.2.2.2.2.2.2.2.2.2.2.2.2.2.2.2.2.2.2.2.2.1
    hS4.2.2.2.2.2.2.2.2.2.2.2.2.2.2.2.2.2.2.2.2.2.2.2.2.2.2.2.2.2.1
    hS4.2.2.2.2.2.2.2.2.2.2.2.2.2.2.2.2.2.2.2.2.2.2.2.2.2.2.2.2.2.2.1
    hS4.2.2.2.2.2.2.2.2.2.2.2.2.2.2.2.2.2.2.2.2.2.2.2.2.2.2.2.2.2.2.2.1
    hS4.2.2.2.2.2.2.2.2.2.2.2.2.2.2.2.2.2.2.2.2.2.2.2.2.2.2.2.2.2.2.2.2.1
    hS4.2.2.2.2.2.2.2.2.2.2.2.2.2.2.2.2.2.2.2.2.2.2.2.2.2.2.2.2.2.2.2.2.2.1
    hS4.2.2.2.2.2.2.2.2.2.2.2.2.2.2.2.2.2.2.2.2.2.2.2.2.2.2.2.2.2.2.2.2.2.2.1
    hS4.2.2.2.2.2.2.2.2.2.2.2.2.2.2.2.2.2.2.2.2.2.2.2.2.2.2.2.2.2.2.2.2.2.2.2
  have hS6 := loadStage6 A data _ hS5.1 hkeys6 hA6 hS5.2.1 hS5.2.2.1 hS5.2.2.2.1 hS5.2.2.2.2.1
    hS5.2.2.2.2.2.1 hS5.2.2.2.2.2.2.1 hS5.2.2.2.2.2.2.2.1 hS5.2.2.2.2.2.2.2.2.1
    hS5.2.2.2.2.2.2.2.2.2.1 hS5.2.2.2.2.2.2.2.2.2.2.1 hS5.2.2.2.2.2.2.2.2.2.2.2.1
    hS5.2.2.2.2.2.2.2.2.2.2.2.2.1 hS5.2.2.2.2.2.2.2.2.2.2.2.2.2.1
    hS5.2.2.2.2.2.2.2.2.2.2.2.2.2.2.1 hS5.2.2.2.2.2.2.2.2.2.2.2.2.2.2.2.1
    hS5.2.2.2.2.2.2.2.2.2.2.2.2.2.2.2.2.1 hS5.2.2.2.2.2.2.2.2.2.2.2.2.2.2.2.2.2.1
    hS5.2.2.2.2.2.2.2.2.2.2.2.2.2.2.2.2.2.2.1 hS5.2.2.2.2.2.2.2.2.2.2.2.2.2.2.2.2.2.2.2.1
    hS5.2.2.2.2.2.2.2.2.2.2.2.2.2.2.2.2.2.2.2.2.1
    hS5.2.2.2.2.2.2.2.2.2.2.2.2.2.2.2.2.2.2.2.2.2.1
    hS5.2.2.2.2.2.2.2.2.2.2.2.2.2.2.2.2.2.2.2.2.2.2.1
    hS5.2.2.2.2.2.2.2.2.2.2.2.2.2.2.2.2.2.2.2.2.2.2.2.1
    hS5.2.2.2.2.2.2.2.2.2.2.2.2.2.2.2.2.2.2.2.2.2.2.2.2.1
    hS5.2.2.2.2.2.2.2.2.2.2.2.2.2.2.2.2.2.2.2.2.2.2.2.2.2.1
    hS5.2.2.2.2.2.2.2.2.2.2.2.2.2.2.2.2.2.2.2.2.2.2.2.2.2.2.1
    hS5.2.2.2.2.2.2.2.2.2.2.2.2.2.2.2.2.2.2.2.2.2.2.2.2.2.2.2.1
    hS5.2.2.2.2.2.2.2.2.2.2.2.2.2.2.2.2.2.2.2.2.2.2.2.2.2.2.2.2.1
    hS5.2.2.2.2.2.2.2.2.2.2.2.2.2.2.2.2.2.2.2.2.2.2.2.2.2.2.2.2.2.1
    hS5.2.2.2.2.2.2.2.2.2.2.2.2.2.2.2.2.2.2.2.2.2.2.2.2.2.2.2.2.2.2.1
    hS5.2.2.2.2.2.2.2.2.2.2.2.2.2.2.2.2.2.2.2.2.2.2.2.2.2.2.2.2.2.2.2.1
    hS5.2.2.2.2.2.2.2.2.2.2.2.2.2.2.2.2.2.2.2.2.2.2.2.2.2.2.2.2.2.2.2.2.1
    hS5.2.2.2.2.2.2.2.2.2.2.2.2.2.2.2.2.2.2.2.2.2.2.2.2.2.2.2.2.2.2.2.2.2.1
    hS5.2.2.2.2.2.2.2.2.2.2.2.2.2.2.2.2.2.2.2.2.2.2.2.2.2.2.2.2.2.2.2.2.2.2.1
    hS5.2.2.2.2.2.2.2.2.2.2.2.2.2.2.2.2.2.2.2.2.2.2.2.2.2.2.2.2.2.2.2.2.2.2.2.1
    hS5.2.2.2.2.2.2.2.2.2.2.2.2.2.2.2.2.2.2.2.2.2.2.2.2.2.2.2.2.2.2.2.2.2.2.2.2
  have hS7 := loadStage7 A data _ hS6.1 hkeys7 hA7 hS6.2.1 hS6.2.2.1 hS6.2.2.2.1 hS6.2.2.2.2.1
    hS6.2.2.2.2.2.1 hS6.2.2.2.2.2.2.1 hS6.2.2.2.2.2.2.2.1 hS6.2.2.2.2.2.2.2.2.1
    hS6.2.2.2.2.2.2.2.2.2.1 hS6.2.2.2.2.2.2.2.2.2.2.1 hS6.2.2.2.2.2.2.2.2.2.2.2.1
    hS6.2.2.2.2.2.2.2.2.2.2.2.2.1 hS6.2.2.2.2.2.2.2.2.2.2.2.2.2.1
    hS6.2.2.2.2.2.2.2.2.2.2.2.2.2.2.1 hS6.2.2.2.2.2.2.2.2.2.2.2.2.2.2.2.1
    hS6.2.2.2.2.2.2.2.2.2.2.2.2.2.2.2.2.1 hS6.2.2.2.2.2.2.2.2.2.2.2.2.2.2.2.2.2.1
    hS6.2.2.2.2.2.2.2.2.2.2.2.2.2.2.2.2.2.2.1 hS6.2.2.2.2.2.2.2.2.2.2.2.2.2.2.2.2.2.2.2.1
    hS6.2.2.2.2.2.2.2.2.2.2.2.2.2.2.2.2.2.2.2.2.1
    hS6.2.2.2.2.2.2.2.2.2.2.2.2.2.2.2.2.2.2.2.2.2.1
    hS6.2.2.2.2.2.2.2.2.2.2.2.2.2.2.2.2.2.2.2.2.2.2.1
    hS6.2.2.2.2.2.2.2.2.2.2.2.2.2.2.2.2.2.2.2.2.2.2.2.1
    hS6.2.2.2.2.2.2.2.2.2.2.2.2.2.2.2.2.2.2.2.2.2.2.2.2.1
    hS6.2.2.2.2.2.2.2.2.2.2.2.2.2.2.2.2.2.2.2.2.2.2.2.2.2.1
    hS6.2.2.2.2.2.2.2.2.2.2.2.2.2.2.2.2.2.2.2.2.2.2.2.2.2.2.1
    hS6.2.2.2.2.2.2.2.2.2.2.2.2.2.2.2.2.2.2.2.2.2.2.2.2.2.2.2.1
    hS6.2.2.2.2.2.2.2.2.2.2.2.2.2.2.2.2.2.2.2.2.2.2.2.2.2.2.2.2.1
    hS6.2.2.2.2.2.2.2.2.2.2.2.2.2.2.2.2.2.2.2.2.2.2.2.2.2.2.2.2.2.1
    hS6.2.2.2.2.2.2.2.2.2.2.2.2.2.2.2.2.2.2.2.2.2.2.2.2.2.2.2.2.2.2.1
    hS6.2.2.2.2.2.2.2.2.2.2.2.2.2.2.2.2.2.2.2.2.2.2.2.2.2.2.2.2.2.2.2.1
    hS6.2.2.2.2.2.2.2.2.2.2.2.2.2.2.2.2.2.2.2.2.2.2.2.2.2.2.2.2.2.2.2.2.1
    hS6.2.2.2.2.2.2.2.2.2.2.2.2.2.2.2.2.2.2.2.2.2.2.2.2.2.2.2.2.2.2.2.2.2.1
    hS6.2.2.2.2.2.2.2.2.2.2.2.2.2.2.2.2.2.2.2.2.2.2.2.2.2.2.2.2.2.2.2.2.2.2.1
    hS6.2.2.2.2.2.2.2.2.2.2.2.2.2.2.2.2.2.2.2.2.2.2.2.2.2.2.2.2.2.2.2.2.2.2.2.1
    hS6.2.2.2.2.2.2.2.2.2.2.2.2.2.2.2.2.2.2.2.2.2.2.2.2.2.2.2.2.2.2.2.2.2.2.2.2.1
    hS6.2.2.2.2.2.2.2.2.2.2.2.2.2.2.2.2.2.2.2.2.2.2.2.2.2.2.2.2.2.2.2.2.2.2.2.2.2
  have hS8 := loadStage8 A data _ hS7.1 hkeys8 hA8 hS7.2.1 hS7.2.2.1 hS7.2.2.2.1 hS7.2.2.2.2.1
    hS7.2.2.2.2.2.1 hS7.2.2.2.2.2.2.1 hS7.2.2.2.2.2.2.2.1 hS7.2.2.2.2.2.2.2.2.1
    hS7.2.2.2.2.2.2.2.2.2.1 hS7.2.2.2.2.2.2.2.2.2.2.1 hS7.2.2.2.2.2.2.2.2.2.2.2.1
    hS7.2.2.2.2.2.2.2.2.2.2.2.2.1 hS7.2.2.2.2.2.2.2.2.2.2.2.2.2.1
    hS7.2.2.2.2.2.2.2.2.2.2.2.2.2.2.1 hS7.2.2.2.2.2.2.2.2.2.2.2.2.2.2.2.1
    hS7.2.2.2.2.2.2.2.2.2.2.2.2.2.2.2.2.1 hS7.2.2.2.2.2.2.2.2.2.2.2.2.2.2.2.2.2.1
    hS7.2.2.2.2.2.2.2.2.2.2.2.2.2.2.2.2.2.2.1 hS7.2.2.2.2.2.2.2.2.2.2.2.2.2.2.2.2.2.2.2.1
    hS7.2.2.2.2.2.2.2.2.2.2.2.2.2.2.2.2.2.2.2.2.1
    hS7.2.2.2.2.2.2.2.2.2.2.2.2.2.2.2.2.2.2.2.2.2.1
    hS7.2.2.2.2.2.2.2.2.2.2.2.2.2.2.2.2.2.2.2.2.2.2.1
    hS7.2.2.2.2.2.2.2.2.2.2.2.2.2.2.2.2.2.2.2.2.2.2.2.1
    hS7.2.2.2.2.2.2.2.2.2.2.2.2.2.2.2.2.2.2.2.2.2.2.2.2.1
    hS7.2.2.2.2.2.2.2.2.2.2.2.2.2.2.2.2.2.2.2.2.2.2.2.2.2.1
    hS7.2.2.2.2.2.2.2.2.2.2.2.2.2.2.2.2.2.2.2.2.2.2.2.2.2.2.1
    hS7.2.2.2.2.2.2.2.2.2.2.2.2.2.2.2.2.2.2.2.2.2.2.2.2.2.2.2.1
    hS7.2.2.2.2.2.2.2.2.2.2.2.2.2.2.2.2.2.2.2.2.2.2.2.2.2.2.2.2.1
    hS7.2.2.2.2.2.2.2.2.2.2.2.2.2.2.2.2.2.2.2.2.2.2.2.2.2.2.2.2.2.1
    hS7.2.2.2.2.2.2.2.2.2.2.2.2.2.2.2.2.2.2.2.2.2.2.2.2.2.2.2.2.2.2.1
    hS7.2.2.2.2.2.2.2.2.2.2.2.2.2.2.2.2.2.2.2.2.2.2.2.2.2.2.2.2.2.2.2.1
    hS7.2.2.2.2.2.2.2.2.2.2.2.2.2.2.2.2.2.2.2.2.2.2.2.2.2.2.2.2.2.2.2.2.1
    hS7.2.2.2.2.2.2.2.2.2.2.2.2.2.2.2.2.2.2.2.2.2.2.2.2.2.2.2.2.2.2.2.2.2.1
    hS7.2.2.2.2.2.2.2.2.2.2.2.2.2.2.2.2.2.2.2.2.2.2.2.2.2.2.2.2.2.2.2.2.2.2.1
    hS7.2.2.2.2.2.2.2.2.2.2.2.2.2.2.2.2.2.2.2.2.2.2.2.2.2.2.2.2.2.2.2.2.2.2.2.1
    hS7.2.2.2.2.2.2.2.2.2.2.2.2.2.2.2.2.2.2.2.2.2.2.2.2.2.2.2.2.2.2.2.2.2.2.2.2.1
    hS7.2.2.2.2.2.2.2.2.2.2.2.2.2.2.2.2.2.2.2.2.2.2.2.2.2.2.2.2.2.2.2.2.2.2.2.2.2.1
    hS7.2.2.2.2.2.2.2.2.2.2.2.2.2.2.2.2.2.2.2.2.2.2.2.2.2.2.2.2.2.2.2.2.2.2.2.2.2.2
  have hS9 := loadStage9 A data _ hS8.1 hkeys9 hA9 hS8.2.1 hS8.2.2.1 hS8.2.2.2.1 hS8.2.2.2.2.1
    hS8.2.2.2.2.2.1 hS8.2.2.2.2.2.2.1 hS8.2.2.2.2.2.2.2.1 hS8.2.2.2.2.2.2.2.2.1
    hS8.2.2.2.2.2.2.2.2.2.1 hS8.2.2.2.2.2.2.2.2.2.2.1 hS8.2.2.2.2.2.2.2.2.2.2.2.1
    hS8.2.2.2.2.2.2.2.2.2.2.2.2.1 hS8.2.2.2.2.2.2.2.2.2.2.2.2.2.1
    hS8.2.2.2.2.2.2.2.2.2.2.2.2.2.2.1 hS8.2.2.2.2.2.2.2.2.2.2.2.2.2.2.2.1
    hS8.2.2.2.2.2.2.2.2.2.2.2.2.2.2.2.2.1 hS8.2.2.2.2.2.2.2.2.2.2.2.2.2.2.2.2.2.1
    hS8.2.2.2.2.2.2.2.2.2.2.2.2.2.2.2.2.2.2.1 hS8.2.2.2.2.2.2.2.2.2.2.2.2.2.2.2.2.2.2.2.1
    hS8.2.2.2.2.2.2.2.2.2.2.2.2.2.2.2.2.2.2.2.2.1
    hS8.2.2.2.2.2.2.2.2.2.2.2.2.2.2.2.2.2.2.2.2.2.1
    hS8.2.2.2.2.2.2.2.2.2.2.2.2.2.2.2.2.2.2.2.2.2.2.1
    hS8.2.2.2.2.2.2.2.2.2.2.2.2.2.2.2.2.2.2.2.2.2.2.2.1
    hS8.2.2.2.2.2.2.2.2.2.2.2.2.2.2.2.2.2.2.2.2.2.2.2.2.1
    hS8.2.2.2.2.2.2.2.2.2.2.2.2.2.2.2.2.2.2.2.2.2.2.2.2.2.1
    hS8.2.2.2.2.2.2.2.2.2.2.2.2.2.2.2.2.2.2.2.2.2.2.2.2.2.2.1
    hS8.2.2.2.2.2.2.2.2.2.2.2.2.2.2.2.2.2.2.2.2.2.2.2.2.2.2.2.1
    hS8.2.2.2.2.2.2.2.2.2.2.2.2.2.2.2.2.2.2.2.2.2.2.2.2.2.2.2.2.1
    hS8.2.2.2.2.2.2.2.2.2.2.2.2.2.2.2.2.2.2.2.2.2.2.2.2.2.2.2.2.2.1
    hS8.2.2.2.2.2.2.2.2.2.2.2.2.2.2.2.2.2.2.2.2.2.2.2.2.2.2.2.2.2.2.1
    hS8.2.2.2.2.2.2.2.2.2.2.2.2.2.2.2.2.2.2.2.2.2.2.2.2.2.2.2.2.2.2.2.1
    hS8.2.2.2.2.2.2.2.2.2.2.2.2.2.2.2.2.2.2.2.2.2.2.2.2.2.2.2.2.2.2.2.2.1
    hS8.2.2.2.2.2.2.2.2.2.2.2.2.2.2.2.2.2.2.2.2.2.2.2.2.2.2.2.2.2.2.2.2.2.1
    hS8.2.2.2.2.2.2.2.2.2.2.2.2.2.2.2.2.2.2.2.2.2.2.2.2.2.2.2.2.2.2.2.2.2.2.1
    hS8.2.2.2.2.2.2.2.2.2.2.2.2.2.2.2.2.2.2.2.2.2.2.2.2.2.2.2.2.2.2.2.2.2.2.2.1
    hS8.2.2.2.2.2.2.2.2.2.2.2.2.2.2.2.2.2.2.2.2.2.2.2.2.2.2.2.2.2.2.2.2.2.2.2.2.1
    hS8.2.2.2.2.2.2.2.2.2.2.2.2.2.2.2.2.2.2.2.2.2.2.2.2.2.2.2.2.2.2.2.2.2.2.2.2.2.1
    hS8.2.2.2.2.2.2.2.2.2.2.2.2.2.2.2.2.2.2.2.2.2.2.2.2.2.2.2.2.2.2.2.2.2.2.2.2.2.2.1
    hS8.2.2.2.2.2.2.2.2.2.2.2.2.2.2.2.2.2.2.2.2.2.2.2.2.2.2.2.2.2.2.2.2.2.2.2.2.2.2.2
  have hS10 := loadStage10 A data _ hS9.1 hkeys10 hA10 hS9.2.1 hS9.2.2.1 hS9.2.2.2.1
    hS9.2.2.2.2.1 hS9.2.2.2.2.2.1 hS9.2.2.2.2.2.2.1 hS9.2.2.2.2.2.2.2.1 hS9.2.2.2.2.2.2.2.2.1
    hS9.2.2.2.2.2.2.2.2.2.1 hS9.2.2.2.2.2.2.2.2.2.2.1 hS9.2.2.2.2.2.2.2.2.2.2.2.1
    hS9.2.2.2.2.2.2.2.2.2.2.2.2.1 hS9.2.2.2.2.2.2.2.2.2.2.2.2.2.1
    hS9.2.2.2.2.2.2.2.2.2.2.2.2.2.2.1 hS9.2.2.2.2.2.2.2.2.2.2.2.2.2.2.2.1
    hS9.2.2.2.2.2.2.2.2.2.2.2.2.2.2.2.2.1 hS9.2.2.2.2.2.2.2.2.2.2.2.2.2.2.2.2.2.1
    hS9.2.2.2.2.2.2.2.2.2.2.2.2.2.2.2.2.2.2.1 hS9.2.2.2.2.2.2.2.2.2.2.2.2.2.2.2.2.2.2.2.1
    hS9.2.2.2.2.2.2.2.2.2.2.2.2.2.2.2.2.2.2.2.2.1
    hS9.2.2.2.2.2.2.2.2.2.2.2.2.2.2.2.2.2.2.2.2.2.1
    hS9.2.2.2.2.2.2.2.2.2.2.2.2.2.2.2.2.2.2.2.2.2.2.1
    hS9.2.2.2.2.2.2.2.2.2.2.2.2.2.2.2.2.2.2.2.2.2.2.2.1
    hS9.2.2.2.2.2.2.2.2.2.2.2.2.2.2.2.2.2.2.2.2.2.2.2.2.1
    hS9.2.2.2.2.2.2.2.2.2.2.2.2.2.2.2.2.2.2.2.2.2.2.2.2.2.1
    hS9.2.2.2.2.2.2.2.2.2.2.2.2.2.2.2.2.2.2.2.2.2.2.2.2.2.2.1
    hS9.2.2.2.2.2.2.2.2.2.2.2.2.2.2.2.2.2.2.2.2.2.2.2.2.2.2.2.1
    hS9.2.2.2.2.2.2.2.2.2.2.2.2.2.2.2.2.2.2.2.2.2.2.2.2.2.2.2.2.1
    hS9.2.2.2.2.2.2.2.2.2.2.2.2.2.2.2.2.2.2.2.2.2.2.2.2.2.2.2.2.2.1
    hS9.2.2.2.2.2.2.2.2.2.2.2.2.2.2.2.2.2.2.2.2.2.2.2.2.2.2.2.2.2.2.1
    hS9.2.2.2.2.2.2.2.2.2.2.2.2.2.2.2.2.2.2.2.2.2.2.2.2.2.2.2.2.2.2.2.1
    hS9.2.2.2.2.2.2.2.2.2.2.2.2.2.2.2.2.2.2.2.2.2.2.2.2.2.2.2.2.2.2.2.2.1
    hS9.2.2.2.2.2.2.2.2.2.2.2.2.2.2.2.2.2.2.2.2.2.2.2.2.2.2.2.2.2.2.2.2.2.1
    hS9.2.2.2.2.2.2.2.2.2.2.2.2.2.2.2.2.2.2.2.2.2.2.2.2.2.2.2.2.2.2.2.2.2.2.1
    hS9.2.2.2.2.2.2.2.2.2.2.2.2.2.2.2.2.2.2.2.2.2.2.2.2.2.2.2.2.2.2.2.2.2.2.2.1
    hS9.2.2.2.2.2.2.2.2.2.2.2.2.2.2.2.2.2.2.2.2.2.2.2.2.2.2.2.2.2.2.2.2.2.2.2.2.1
    hS9.2.2.2.2.2.2.2.2.2.2.2.2.2.2.2.2.2.2.2.2.2.2.2.2.2.2.2.2.2.2.2.2.2.2.2.2.2.1
    hS9.2.2.2.2.2.2.2.2.2.2.2.2.2.2.2.2.2.2.2.2.2.2.2.2.2.2.2.2.2.2.2.2.2.2.2.2.2.2.1
    hS9.2.2.2.2.2.2.2.2.2.2.2.2.2.2.2.2.2.2.2.2.2.2.2.2.2.2.2.2.2.2.2.2.2.2.2.2.2.2.2.1
    hS9.2.2.2.2.2.2.2.2.2.2.2.2.2.2.2.2.2.2.2.2.2.2.2.2.2.2.2.2.2.2.2.2.2.2.2.2.2.2.2.2
  have hS11 := loadStage11 A data _ hS10.1 hkeys11 hA11 hS10.2.1 hS10.2.2.1 hS10.2.2.2.1
    hS10.2.2.2.2.1 hS10.2.2.2.2.2.1 hS10.2.2.2.2.2.2.1 hS10.2.2.2.2.2.2.2.1
    hS10.2.2.2.2.2.2.2.2.1 hS10.2.2.2.2.2.2.2.2.2.1 hS10.2.2.2.2.2.2.2.2.2.2.1
    hS10.2.2.2.2.2.2.2.2.2.2.2.1 hS10.2.2.2.2.2.2.2.2.2.2.2.2.1 hS10.2.2.2.2.2.2.2.2.2.2.2.2.2.1
    hS10.2.2.2.2.2.2.2.2.2.2.2.2.2.2.1 hS10.2.2.2.2.2.2.2.2.2.2.2.2.2.2.2.1
    hS10.2.2.2.2.2.2.2.2.2.2.2.2.2.2.2.2.1 hS10.2.2.2.2.2.2.2.2.2.2.2.2.2.2.2.2.2.1
    hS10.2.2.2.2.2.2.2.2.2.2.2.2.2.2.2.2.2.2.1 hS10.2.2.2.2.2.2.2.2.2.2.2.2.2.2.2.2.2.2.2.1
    hS10.2.2.2.2.2.2.2.2.2.2.2.2.2.2.2.2.2.2.2.2.1
    hS10.2.2.2.2.2.2.2.2.2.2.2.2.2.2.2.2.2.2.2.2.2.1
    hS10.2.2.2.2.2.2.2.2.2.2.2.2.2.2.2.2.2.2.2.2.2.2.1
    hS10.2.2.2.2.2.2.2.2.2.2.2.2.2.2.2.2.2.2.2.2.2.2.2.1
    hS10.2.2.2.2.2.2.2.2.2.2.2.2.2.2.2.2.2.2.2.2.2.2.2.2.1
    hS10.2.2.2.2.2.2.2.2.2.2.2.2.2.2.2.2.2.2.2.2.2.2.2.2.2.1
    hS10.2.2.2.2.2.2.2.2.2.2.2.2.2.2.2.2.2.2.2.2.2.2.2.2.2.2.1
    hS10.2.2.2.2.2.2.2.2.2.2.2.2.2.2.2.2.2.2.2.2.2.2.2.2.2.2.2.1
    hS10.2.2.2.2.2.2.2.2.2.2.2.2.2.2.2.2.2.2.2.2.2.2.2.2.2.2.2.2.1
    hS10.2.2.2.2.2.2.2.2.2.2.2.2.2.2.2.2.2.2.2.2.2.2.2.2.2.2.2.2.2.1
    hS10.2.2.2.2.2.2.2.2.2.2.2.2.2.2.2.2.2.2.2.2.2.2.2.2.2.2.2.2.2.2.1
    hS10.2.2.2.2.2.2.2.2.2.2.2.2.2.2.2.2.2.2.2.2.2.2.2.2.2.2.2.2.2.2.2.1
    hS10.2.2.2.2.2.2.2.2.2.2.2.2.2.2.2.2.2.2.2.2.2.2.2.2.2.2.2.2.2.2.2.2.1
    hS10.2.2.2.2.2.2.2.2.2.2.2.2.2.2.2.2.2.2.2.2.2.2.2.2.2.2.2.2.2.2.2.2.2.1
    hS10.2.2.2.2.2.2.2.2.2.2.2.2.2.2.2.2.2.2.2.2.2.2.2.2.2.2.2.2.2.2.2.2.2.2.1
    hS10.2.2.2.2.2.2.2.2.2.2.2.2.2.2.2.2.2.2.2.2.2.2.2.2.2.2.2.2.2.2.2.2.2.2.2.1
    hS10.2.2.2.2.2.2.2.2.2.2.2.2.2.2.2.2.2.2.2.2.2.2.2.2.2.2.2.2.2.2.2.2.2.2.2.2.1
    hS10.2.2.2.2.2.2.2.2.2.2.2.2.2.2.2.2.2.2.2.2.2.2.2.2.2.2.2.2.2.2.2.2.2.2.2.2.2.1
    hS10.2.2.2.2.2.2.2.2.2.2.2.2.2.2.2.2.2.2.2.2.2.2.2.2.2.2.2.2.2.2.2.2.2.2.2.2.2.2.1
    hS10.2.2.2.2.2.2.2.2.2.2.2.2.2.2.2.2.2.2.2.2.2.2.2.2.2.2.2.2.2.2.2.2.2.2.2.2.2.2.2.1
    hS10.2.2.2.2.2.2.2.2.2.2.2.2.2.2.2.2.2.2.2.2.2.2.2.2.2.2.2.2.2.2.2.2.2.2.2.2.2.2.2.2.1
    hS10.2.2.2.2.2.2.2.2.2.2.2.2.2.2.2.2.2.2.2.2.2.2.2.2.2.2.2.2.2.2.2.2.2.2.2.2.2.2.2.2.2
  have hS12 := loadStage12 A data _ hS11.1 hkeys12 hA12 hS11.2.1 hS11.2.2.1 hS11.2.2.2.1
    hS11.2.2.2.2.1 hS11.2.2.2.2.2.1 hS11.2.2.2.2.2.2.1 hS11.2.2.2.2.2.2.2.1
    hS11.2.2.2.2.2.2.2.2.1 hS11.2.2.2.2.2.2.2.2.2.1 hS11.2.2.2.2.2.2.2.2.2.2.1
    hS11.2.2.2.2.2.2.2.2.2.2.2.1 hS11.2.2.2.2.2.2.2.2.2.2.2.2.1 hS11.2.2.2.2.2.2.2.2.2.2.2.2.2.1
    hS11.2.2.2.2.2.2.2.2.2.2.2.2.2.2.1 hS11.2.2.2.2.2.2.2.2.2.2.2.2.2.2.2.1
    hS11.2.2.2.2.2.2.2.2.2.2.2.2.2.2.2.2.1 hS11.2.2.2.2.2.2.2.2.2.2.2.2.2.2.2.2.2.1
    hS11.2.2.2.2.2.2.2.2.2.2.2.2.2.2.2.2.2.2.1 hS11.2.2.2.2.2.2.2.2.2.2.2.2.2.2.2.2.2.2.2.1
    hS11.2.2.2.2.2.2.2.2.2.2.2.2.2.2.2.2.2.2.2.2.1
    hS11.2.2.2.2.2.2.2.2.2.2.2.2.2.2.2.2.2.2.2.2.2.1
    hS11.2.2.2.2.2.2.2.2.2.2.2.2.2.2.2.2.2.2.2.2.2.2.1
    hS11.2.2.2.2.2.2.2.2.2.2.2.2.2.2.2.2.2.2.2.2.2.2.2.1
    hS11.2.2.2.2.2.2.2.2.2.2.2.2.2.2.2.2.2.2.2.2.2.2.2.2.1
    hS11.2.2.2.2.2.2.2.2.2.2.2.2.2.2.2.2.2.2.2.2.2.2.2.2.2.1
    hS11.2.2.2.2.2.2.2.2.2.2.2.2.2.2.2.2.2.2.2.2.2.2.2.2.2.2.1
    hS11.2.2.2.2.2.2.2.2.2.2.2.2.2.2.2.2.2.2.2.2.2.2.2.2.2.2.2.1
    hS11.2.2.2.2.2.2.2.2.2.2.2.2.2.2.2.2.2.2.2.2.2.2.2.2.2.2.2.2.1
    hS11.2.2.2.2.2.2.2.2.2.2.2.2.2.2.2.2.2.2.2.2.2.2.2.2.2.2.2.2.2.1
    hS11.2.2.2.2.2.2.2.2.2.2.2.2.2.2.2.2.2.2.2.2.2.2.2.2.2.2.2.2.2.2.1
    hS11.2.2.2.2.2.2.2.2.2.2.2.2.2.2.2.2.2.2.2.2.2.2.2.2.2.2.2.2.2.2.2.1
    hS11.2.2.2.2.2.2.2.2.2.2.2.2.2.2.2.2.2.2.2.2.2.2.2.2.2.2.2.2.2.2.2.2.1
    hS11.2.2.2.2.2.2.2.2.2.2.2.2.2.2.2.2.2.2.2.2.2.2.2.2.2.2.2.2.2.2.2.2.2.1
    hS11.2.2.2.2.2.2.2.2.2.2.2.2.2.2.2.2.2.2.2.2.2.2.2.2.2.2.2.2.2.2.2.2.2.2.1
    hS11.2.2.2.2.2.2.2.2.2.2.2.2.2.2.2.2.2.2.2.2.2.2.2.2.2.2.2.2.2.2.2.2.2.2.2.1
    hS11.2.2.2.2.2.2.2.2.2.2.2.2.2.2.2.2.2.2.2.2.2.2.2.2.2.2.2.2.2.2.2.2.2.2.2.2.1
    hS11.2.2.2.2.2.2.2.2.2.2.2.2.2.2.2.2.2.2.2.2.2.2.2.2.2.2.2.2.2.2.2.2.2.2.2.2.2.1
    hS11.2.2.2.2.2.2.2.2.2.2.2.2.2.2.2.2.2.2.2.2.2.2.2.2.2.2.2.2.2.2.2.2.2.2.2.2.2.2.1
    hS11.2.2.2.2.2.2.2.2.2.2.2.2.2.2.2.2.2.2.2.2.2.2.2.2.2.2.2.2.2.2.2.2.2.2.2.2.2.2.2.1
    hS11.2.2.2.2.2.2.2.2.2.2.2.2.2.2.2.2.2.2.2.2.2.2.2.2.2.2.2.2.2.2.2.2.2.2.2.2.2.2.2.2.1
    hS11.2.2.2.2.2.2.2.2.2.2.2.2.2.2.2.2.2.2.2.2.2.2.2.2.2.2.2.2.2.2.2.2.2.2.2.2.2.2.2.2.2.1
    hS11.2.2.2.2.2.2.2.2.2.2.2.2.2.2.2.2.2.2.2.2.2.2.2.2.2.2.2.2.2.2.2.2.2.2.2.2.2.2.2.2.2.2
  have hS13 := loadStage13 A data _ hS12.1 hkeys13 hA13 hS12.2.1 hS12.2.2.1 hS12.2.2.2.1
    hS12.2.2.2.2.1 hS12.2.2.2.2.2.1 hS12.2.2.2.2.2.2.1 hS12.2.2.2.2.2.2.2.1
    hS12.2.2.2.2.2.2.2.2.1 hS12.2.2.2.2.2.2.2.2.2.1 hS12.2.2.2.2.2.2.2.2.2.2.1
    hS12.2.2.2.2.2.2.2.2.2.2.2.1 hS12.2.2.2.2.2.2.2.2.2.2.2.2.1 hS12.2.2.2.2.2.2.2.2.2.2.2.2.2.1
    hS12.2.2.2.2.2.2.2.2.2.2.2.2.2.2.1 hS12.2.2.2.2.2.2.2.2.2.2.2.2.2.2.2.1
    hS12.2.2.2.2.2.2.2.2.2.2.2.2.2.2.2.2.1 hS12.2.2.2.2.2.2.2.2.2.2.2.2.2.2.2.2.2.1
    hS12.2.2.2.2.2.2.2.2.2.2.2.2.2.2.2.2.2.2.1 hS12.2.2.2.2.2.2.2.2.2.2.2.2.2.2.2.2.2.2.2.1
    hS12.2.2.2.2.2.2.2.2.2.2.2.2.2.2.2.2.2.2.2.2.1
    hS12.2.2.2.2.2.2.2.2.2.2.2.2.2.2.2.2.2.2.2.2.2.1
    hS12.2.2.2.2.2.2.2.2.2.2.2.2.2.2.2.2.2.2.2.2.2.2.1
    hS12.2.2.2.2.2.2.2.2.2.2.2.2.2.2.2.2.2.2.2.2.2.2.2.1
    hS12.2.2.2.2.2.2.2.2.2.2.2.2.2.2.2.2.2.2.2.2.2.2.2.2.1
    hS12.2.2.2.2.2.2.2.2.2.2.2.2.2.2.2.2.2.2.2.2.2.2.2.2.2.1
    hS12.2.2.2.2.2.2.2.2.2.2.2.2.2.2.2.2.2.2.2.2.2.2.2.2.2.2.1
    hS12.2.2.2.2.2.2.2.2.2.2.2.2.2.2.2.2.2.2.2.2.2.2.2.2.2.2.2.1
    hS12.2.2.2.2.2.2.2.2.2.2.2.2.2.2.2.2.2.2.2.2.2.2.2.2.2.2.2.2.1
    hS12.2.2.2.2.2.2.2.2.2.2.2.2.2.2.2.2.2.2.2.2.2.2.2.2.2.2.2.2.2.1
    hS12.2.2.2.2.2.2.2.2.2.2.2.2.2.2.2.2.2.2.2.2.2.2.2.2.2.2.2.2.2.2.1
    hS12.2.2.2.2.2.2.2.2.2.2.2.2.2.2.2.2.2.2.2.2.2.2.2.2.2.2.2.2.2.2.2.1
    hS12.2.2.2.2.2.2.2.2.2.2.2.2.2.2.2.2.2.2.2.2.2.2.2.2.2.2.2.2.2.2.2.2.1
    hS12.2.2.2.2.2.2.2.2.2.2.2.2.2.2.2.2.2.2.2.2.2.2.2.2.2.2.2.2.2.2.2.2.2.1
    hS12.2.2.2.2.2.2.2.2.2.2.2.2.2.2.2.2.2.2.2.2.2.2.2.2.2.2.2.2.2.2.2.2.2.2.1
    hS12.2.2.2.2.2.2.2.2.2.2.2.2.2.2.2.2.2.2.2.2.2.2.2.2.2.2.2.2.2.2.2.2.2.2.2.1
    hS12.2.2.2.2.2.2.2.2.2.2.2.2.2.2.2.2.2.2.2.2.2.2.2.2.2.2.2.2.2.2.2.2.2.2.2.2.1
    hS12.2.2.2.2.2.2.2.2.2.2.2.2.2.2.2.2.2.2.2.2.2.2.2.2.2.2.2.2.2.2.2.2.2.2.2.2.2.1
    hS12.2.2.2.2.2.2.2.2.2.2.2.2.2.2.2.2.2.2.2.2.2.2.2.2.2.2.2.2.2.2.2.2.2.2.2.2.2.2.1
    hS12.2.2.2.2.2.2.2.2.2.2.2.2.2.2.2.2.2.2.2.2.2.2.2.2.2.2.2.2.2.2.2.2.2.2.2.2.2.2.2.1
    hS12.2.2.2.2.2.2.2.2.2.2.2.2.2.2.2.2.2.2.2.2.2.2.2.2.2.2.2.2.2.2.2.2.2.2.2.2.2.2.2.2.1
    hS12.2.2.2.2.2.2.2.2.2.2.2.2.2.2.2.2.2.2.2.2.2.2.2.2.2.2.2.2.2.2.2.2.2.2.2.2.2.2.2.2.2.1
    hS12.2.2.2.2.2.2.2.2.2.2.2.2.2.2.2.2.2.2.2.2.2.2.2.2.2.2.2.2.2.2.2.2.2.2.2.2.2.2.2.2.2.2.1
    hS12.2.2.2.2.2.2.2.2.2.2.2.2.2.2.2.2.2.2.2.2.2.2.2.2.2.2.2.2.2.2.2.2.2.2.2.2.2.2.2.2.2.2.2
  have hS14 := loadStage14 A data _ hS13.1 hkeys14 hA14 hS13.2.1 hS13.2.2.1 hS13.2.2.2.1
    hS13.2.2.2.2.1 hS13.2.2.2.2.2.1 hS13.2.2.2.2.2.2.1 hS13.2.2.2.2.2.2.2.1
    hS13.2.2.2.2.2.2.2.2.1 hS13.2.2.2.2.2.2.2.2.2.1 hS13.2.2.2.2.2.2.2.2.2.2.1
    hS13.2.2.2.2.2.2.2.2.2.2.2.1 hS13.2.2.2.2.2.2.2.2.2.2.2.2.1 hS13.2.2.2.2.2.2.2.2.2.2.2.2.2.1
    hS13.2.2.2.2.2.2.2.2.2.2.2.2.2.2.1 hS13.2.2.2.2.2.2.2.2.2.2.2.2.2.2.2.1
    hS13.2.2.2.2.2.2.2.2.2.2.2.2.2.2.2.2.1 hS13.2.2.2.2.2.2.2.2.2.2.2.2.2.2.2.2.2.1
    hS13.2.2.2.2.2.2.2.2.2.2.2.2.2.2.2.2.2.2.1 hS13.2.2.2.2.2.2.2.2.2.2.2.2.2.2.2.2.2.2.2.1
    hS13.2.2.2.2.2.2.2.2.2.2.2.2.2.2.2.2.2.2.2.2.1
    hS13.2.2.2.2.2.2.2.2.2.2.2.2.2.2.2.2.2.2.2.2.2.1
    hS13.2.2.2.2.2.2.2.2.2.2.2.2.2.2.2.2.2.2.2.2.2.2.1
    hS13.2.2.2.2.2.2.2.2.2.2.2.2.2.2.2.2.2.2.2.2.2.2.2.1
    hS13.2.2.2.2.2.2.2.2.2.2.2.2.2.2.2.2.2.2.2.2.2.2.2.2.1
    hS13.2.2.2.2.2.2.2.2.2.2.2.2.2.2.2.2.2.2.2.2.2.2.2.2.2.1
    hS13.2.2.2.2.2.2.2.2.2.2.2.2.2.2.2.2.2.2.2.2.2.2.2.2.2.2.1
    hS13.2.2.2.2.2.2.2.2.2.2.2.2.2.2.2.2.2.2.2.2.2.2.2.2.2.2.2.1
    hS13.2.2.2.2.2.2.2.2.2.2.2.2.2.2.2.2.2.2.2.2.2.2.2.2.2.2.2.2.1
    hS13.2.2.2.2.2.2.2.2.2.2.2.2.2.2.2.2.2.2.2.2.2.2.2.2.2.2.2.2.2.1
    hS13.2.2.2.2.2.2.2.2.2.2.2.2.2.2.2.2.2.2.2.2.2.2.2.2.2.2.2.2.2.2.1
    hS13.2.2.2.2.2.2.2.2.2.2.2.2.2.2.2.2.2.2.2.2.2.2.2.2.2.2.2.2.2.2.2.1
    hS13.2.2.2.2.2.2.2.2.2.2.2.2.2.2.2.2.2.2.2.2.2.2.2.2.2.2.2.2.2.2.2.2.1
    hS13.2.2.2.2.2.2.2.2.2.2.2.2.2.2.2.2.2.2.2.2.2.2.2.2.2.2.2.2.2.2.2.2.2.1
    hS13.2.2.2.2.2.2.2.2.2.2.2.2.2.2.2.2.2.2.2.2.2.2.2.2.2.2.2.2.2.2.2.2.2.2.1
    hS13.2.2.2.2.2.2.2.2.2.2.2.2.2.2.2.2.2.2.2.2.2.2.2.2.2.2.2.2.2.2.2.2.2.2.2.1
    hS13.2.2.2.2.2.2.2.2.2.2.2.2.2.2.2.2.2.2.2.2.2.2.2.2.2.2.2.2.2.2.2.2.2.2.2.2.1
    hS13.2.2.2.2.2.2.2.2.2.2.2.2.2.2.2.2.2.2.2.2.2.2.2.2.2.2.2.2.2.2.2.2.2.2.2.2.2.1
    hS13.2.2.2.2.2.2.2.2.2.2.2.2.2.2.2.2.2.2.2.2.2.2.2.2.2.2.2.2.2.2.2.2.2.2.2.2.2.2.1
    hS13.2.2.2.2.2.2.2.2.2.2.2.2.2.2.2.2.2.2.2.2.2.2.2.2.2.2.2.2.2.2.2.2.2.2.2.2.2.2.2.1
    hS13.2.2.2.2.2.2.2.2.2.2.2.2.2.2.2.2.2.2.2.2.2.2.2.2.2.2.2.2.2.2.2.2.2.2.2.2.2.2.2.2.1
    hS13.2.2.2.2.2.2.2.2.2.2.2.2.2.2.2.2.2.2.2.2.2.2.2.2.2.2.2.2.2.2.2.2.2.2.2.2.2.2.2.2.2.1
    hS13.2.2.2.2.2.2.2.2.2.2.2.2.2.2.2.2.2.2.2.2.2.2.2.2.2.2.2.2.2.2.2.2.2.2.2.2.2.2.2.2.2.2.1
    hS13.2.2.2.2.2.2.2.2.2.2.2.2.2.2.2.2.2.2.2.2.2.2.2.2.2.2.2.2.2.2.2.2.2.2.2.2.2.2.2.2.2.2.2.1
    hS13.2.2.2.2.2.2.2.2.2.2.2.2.2.2.2.2.2.2.2.2.2.2.2.2.2.2.2.2.2.2.2.2.2.2.2.2.2.2.2.2.2.2.2.2
  have hS15 := loadStage15 A data _ hS14.1 hkeys15 hA15 hS14.2.1 hS14.2.2.1 hS14.2.2.2.1
    hS14.2.2.2.2.1 hS14.2.2.2.2.2.1 hS14.2.2.2.2.2.2.1 hS14.2.2.2.2.2.2.2.1
    hS14.2.2.2.2.2.2.2.2.1 hS14.2.2.2.2.2.2.2.2.2.1 hS14.2.2.2.2.2.2.2.2.2.2.1
    hS14.2.2.2.2.2.2.2.2.2.2.2.1 hS14.2.2.2.2.2.2.2.2.2.2.2.2.1 hS14.2.2.2.2.2.2.2.2.2.2.2.2.2.1
    hS14.2.2.2.2.2.2.2.2.2.2.2.2.2.2.1 hS14.2.2.2.2.2.2.2.2.2.2.2.2.2.2.2.1
    hS14.2.2.2.2.2.2.2.2.2.2.2.2.2.2.2.2.1 hS14.2.2.2.2.2.2.2.2.2.2.2.2.2.2.2.2.2.1
    hS14.2.2.2.2.2.2.2.2.2.2.2.2.2.2.2.2.2.2.1 hS14.2.2.2.2.2.2.2.2.2.2.2.2.2.2.2.2.2.2.2.1
    hS14.2.2.2.2.2.2.2.2.2.2.2.2.2.2.2.2.2.2.2.2.1
    hS14.2.2.2.2.2.2.2.2.2.2.2.2.2.2.2.2.2.2.2.2.2.1
    hS14.2.2.2.2.2.2.2.2.2.2.2.2.2.2.2.2.2.2.2.2.2.2.1
    hS14.2.2.2.2.2.2.2.2.2.2.2.2.2.2.2.2.2.2.2.2.2.2.2.1
    hS14.2.2.2.2.2.2.2.2.2.2.2.2.2.2.2.2.2.2.2.2.2.2.2.2.1
    hS14.2.2.2.2.2.2.2.2.2.2.2.2.2.2.2.2.2.2.2.2.2.2.2.2.2.1
    hS14.2.2.2.2.2.2.2.2.2.2.2.2.2.2.2.2.2.2.2.2.2.2.2.2.2.2.1
    hS14.2.2.2.2.2.2.2.2.2.2.2.2.2.2.2.2.2.2.2.2.2.2.2.2.2.2.2.1
    hS14.2.2.2.2.2.2.2.2.2.2.2.2.2.2.2.2.2.2.2.2.2.2.2.2.2.2.2.2.1
    hS14.2.2.2.2.2.2.2.2.2.2.2.2.2.2.2.2.2.2.2.2.2.2.2.2.2.2.2.2.2.1
    hS14.2.2.2.2.2.2.2.2.2.2.2.2.2.2.2.2.2.2.2.2.2.2.2.2.2.2.2.2.2.2.1
    hS14.2.2.2.2.2.2.2.2.2.2.2.2.2.2.2.2.2.2.2.2.2.2.2.2.2.2.2.2.2.2.2.1
    hS14.2.2.2.2.2.2.2.2.2.2.2.2.2.2.2.2.2.2.2.2.2.2.2.2.2.2.2.2.2.2.2.2.1
    hS14.2.2.2.2.2.2.2.2.2.2.2.2.2.2.2.2.2.2.2.2.2.2.2.2.2.2.2.2.2.2.2.2.2.1
    hS14.2.2.2.2.2.2.2.2.2.2.2.2.2.2.2.2.2.2.2.2.2.2.2.2.2.2.2.2.2.2.2.2.2.2.1
    hS14.2.2.2.2.2.2.2.2.2.2.2.2.2.2.2.2.2.2.2.2.2.2.2.2.2.2.2.2.2.2.2.2.2.2.2.1
    hS14.2.2.2.2.2.2.2.2.2.2.2.2.2.2.2.2.2.2.2.2.2.2.2.2.2.2.2.2.2.2.2.2.2.2.2.2.1
    hS14.2.2.2.2.2.2.2.2.2.2.2.2.2.2.2.2.2.2.2.2.2.2.2.2.2.2.2.2.2.2.2.2.2.2.2.2.2.1
    hS14.2.2.2.2.2.2.2.2.2.2.2.2.2.2.2.2.2.2.2.2.2.2.2.2.2.2.2.2.2.2.2.2.2.2.2.2.2.2.1
    hS14.2.2.2.2.2.2.2.2.2.2.2.2.2.2.2.2.2.2.2.2.2.2.2.2.2.2.2.2.2.2.2.2.2.2.2.2.2.2.2.1
    hS14.2.2.2.2.2.2.2.2.2.2.2.2.2.2.2.2.2.2.2.2.2.2.2.2.2.2.2.2.2.2.2.2.2.2.2.2.2.2.2.2.1
    hS14.2.2.2.2.2.2.2.2.2.2.2.2.2.2.2.2.2.2.2.2.2.2.2.2.2.2.2.2.2.2.2.2.2.2.2.2.2.2.2.2.2.1
    hS14.2.2.2.2.2.2.2.2.2.2.2.2.2.2.2.2.2.2.2.2.2.2.2.2.2.2.2.2.2.2.2.2.2.2.2.2.2.2.2.2.2.2.1
    hS14.2.2.2.2.2.2.2.2.2.2.2.2.2.2.2.2.2.2.2.2.2.2.2.2.2.2.2.2.2.2.2.2.2.2.2.2.2.2.2.2.2.2.2.1
    hS14.2.2.2.2.2.2.2.2.2.2.2.2.2.2.2.2.2.2.2.2.2.2.2.2.2.2.2.2.2.2.2.2.2.2.2.2.2.2.2.2.2.2.2.2.1
    hS14.2.2.2.2.2.2.2.2.2.2.2.2.2.2.2.2.2.2.2.2.2.2.2.2.2.2.2.2.2.2.2.2.2.2.2.2.2.2.2.2.2.2.2.2.2
  have hS16 := loadStage16 A data _ hS15.1 hkeys16 hA16 hS15.2.1 hS15.2.2.1 hS15.2.2.2.1
    hS15.2.2.2.2.1 hS15.2.2.2.2.2.1 hS15.2.2.2.2.2.2.1 hS15.2.2.2.2.2.2.2.1
    hS15.2.2.2.2.2.2.2.2.1 hS15.2.2.2.2.2.2.2.2.2.1 hS15.2.2.2.2.2.2.2.2.2.2.1
    hS15.2.2.2.2.2.2.2.2.2.2.2.1 hS15.2.2.2.2.2.2.2.2.2.2.2.2.1 hS15.2.2.2.2.2.2.2.2.2.2.2.2.2.1
    hS15.2.2.2.2.2.2.2.2.2.2.2.2.2.2.1 hS15.2.2.2.2.2.2.2.2.2.2.2.2.2.2.2.1
    hS15.2.2.2.2.2.2.2.2.2.2.2.2.2.2.2.2.1 hS15.2.2.2.2.2.2.2.2.2.2.2.2.2.2.2.2.2.1
    hS15.2.2.2.2.2.2.2.2.2.2.2.2.2.2.2.2.2.2.1 hS15.2.2.2.2.2.2.2.2.2.2.2.2.2.2.2.2.2.2.2.1
    hS15.2.2.2.2.2.2.2.2.2.2.2.2.2.2.2.2.2.2.2.2.1
    hS15.2.2.2.2.2.2.2.2.2.2.2.2.2.2.2.2.2.2.2.2.2.1
    hS15.2.2.2.2.2.2.2.2.2.2.2.2.2.2.2.2.2.2.2.2.2.2.1
    hS15.2.2.2.2.2.2.2.2.2.2.2.2.2.2.2.2.2.2.2.2.2.2.2.1
    hS15.2.2.2.2.2.2.2.2.2.2.2.2.2.2.2.2.2.2.2.2.2.2.2.2.1
    hS15.2.2.2.2.2.2.2.2.2.2.2.2.2.2.2.2.2.2.2.2.2.2.2.2.2.1
    hS15.2.2.2.2.2.2.2.2.2.2.2.2.2.2.2.2.2.2.2.2.2.2.2.2.2.2.1
    hS15.2.2.2.2.2.2.2.2.2.2.2.2.2.2.2.2.2.2.2.2.2.2.2.2.2.2.2.1
    hS15.2.2.2.2.2.2.2.2.2.2.2.2.2.2.2.2.2.2.2.2.2.2.2.2.2.2.2.2.1
    hS15.2.2.2.2.2.2.2.2.2.2.2.2.2.2.2.2.2.2.2.2.2.2.2.2.2.2.2.2.2.1
    hS15.2.2.2.2.2.2.2.2.2.2.2.2.2.2.2.2.2.2.2.2.2.2.2.2.2.2.2.2.2.2.1
    hS15.2.2.2.2.2.2.2.2.2.2.2.2.2.2.2.2.2.2.2.2.2.2.2.2.2.2.2.2.2.2.2.1
    hS15.2.2.2.2.2.2.2.2.2.2.2.2.2.2.2.2.2.2.2.2.2.2.2.2.2.2.2.2.2.2.2.2.1
    hS15.2.2.2.2.2.2.2.2.2.2.2.2.2.2.2.2.2.2.2.2.2.2.2.2.2.2.2.2.2.2.2.2.2.1
    hS15.2.2.2.2.2.2.2.2.2.2.2.2.2.2.2.2.2.2.2.2.2.2.2.2.2.2.2.2.2.2.2.2.2.2.1
    hS15.2.2.2.2.2.2.2.2.2.2.2.2.2.2.2.2.2.2.2.2.2.2.2.2.2.2.2.2.2.2.2.2.2.2.2.1
    hS15.2.2.2.2.2.2.2.2.2.2.2.2.2.2.2.2.2.2.2.2.2.2.2.2.2.2.2.2.2.2.2.2.2.2.2.2.1
    hS15.2.2.2.2.2.2.2.2.2.2.2.2.2.2.2.2.2.2.2.2.2.2.2.2.2.2.2.2.2.2.2.2.2.2.2.2.2.1
    hS15.2.2.2.2.2.2.2.2.2.2.2.2.2.2.2.2.2.2.2.2.2.2.2.2.2.2.2.2.2.2.2.2.2.2.2.2.2.2.1
    hS15.2.2.2.2.2.2.2.2.2.2.2.2.2.2.2.2.2.2.2.2.2.2.2.2.2.2.2.2.2.2.2.2.2.2.2.2.2.2.2.1
    hS15.2.2.2.2.2.2.2.2.2.2.2.2.2.2.2.2.2.2.2.2.2.2.2.2.2.2.2.2.2.2.2.2.2.2.2.2.2.2.2.2.1
    hS15.2.2.2.2.2.2.2.2.2.2.2.2.2.2.2.2.2.2.2.2.2.2.2.2.2.2.2.2.2.2.2.2.2.2.2.2.2.2.2.2.2.1
    hS15.2.2.2.2.2.2.2.2.2.2.2.2.2.2.2.2.2.2.2.2.2.2.2.2.2.2.2.2.2.2.2.2.2.2.2.2.2.2.2.2.2.2.1
    hS15.2.2.2.2.2.2.2.2.2.2.2.2.2.2.2.2.2.2.2.2.2.2.2.2.2.2.2.2.2.2.2.2.2.2.2.2.2.2.2.2.2.2.2.1
    hS15.2.2.2.2.2.2.2.2.2.2.2.2.2.2.2.2.2.2.2.2.2.2.2.2.2.2.2.2.2.2.2.2.2.2.2.2.2.2.2.2.2.2.2.2.1
    hS15.2.2.2.2.2.2.2.2.2.2.2.2.2.2.2.2.2.2.2.2.2.2.2.2.2.2.2.2.2.2.2.2.2.2.2.2.2.2.2.2.2.2.2.2.2.1
    hS15.2.2.2.2.2.2.2.2.2.2.2.2.2.2.2.2.2.2.2.2.2.2.2.2.2.2.2.2.2.2.2.2.2.2.2.2.2.2.2.2.2.2.2.2.2.2
  have hS17 := loadStage17 A data _ hS16.1 hkeys17 hA17 hS16.2.1 hS16.2.2.1 hS16.2.2.2.1
    hS16.2.2.2.2.1 hS16.2.2.2.2.2.1 hS16.2.2.2.2.2.2.1 hS16.2.2.2.2.2.2.2.1
    hS16.2.2.2.2.2.2.2.2.1 hS16.2.2.2.2.2.2.2.2.2.1 hS16.2.2.2.2.2.2.2.2.2.2.1
    hS16.2.2.2.2.2.2.2.2.2.2.2.1 hS16.2.2.2.2.2.2.2.2.2.2.2.2.1 hS16.2.2.2.2.2.2.2.2.2.2.2.2.2.1
    hS16.2.2.2.2.2.2.2.2.2.2.2.2.2.2.1 hS16.2.2.2.2.2.2.2.2.2.2.2.2.2.2.2.1
    hS16.2.2.2.2.2.2.2.2.2.2.2.2.2.2.2.2.1 hS16.2.2.2.2.2.2.2.2.2.2.2.2.2.2.2.2.2.1
    hS16.2.2.2.2.2.2.2.2.2.2.2.2.2.2.2.2.2.2.1 hS16.2.2.2.2.2.2.2.2.2.2.2.2.2.2.2.2.2.2.2.1
    hS16.2.2.2.2.2.2.2.2.2.2.2.2.2.2.2.2.2.2.2.2.1
    hS16.2.2.2.2.2.2.2.2.2.2.2.2.2.2.2.2.2.2.2.2.2.1
    hS16.2.2.2.2.2.2.2.2.2.2.2.2.2.2.2.2.2.2.2.2.2.2.1
    hS16.2.2.2.2.2.2.2.2.2.2.2.2.2.2.2.2.2.2.2.2.2.2.2.1
    hS16.2.2.2.2.2.2.2.2.2.2.2.2.2.2.2.2.2.2.2.2.2.2.2.2.1
    hS16.2.2.2.2.2.2.2.2.2.2.2.2.2.2.2.2.2.2.2.2.2.2.2.2.2.1
    hS16.2.2.2.2.2.2.2.2.2.2.2.2.2.2.2.2.2.2.2.2.2.2.2.2.2.2.1
    hS16.2.2.2.2.2.2.2.2.2.2.2.2.2.2.2.2.2.2.2.2.2.2.2.2.2.2.2.1
    hS16.2.2.2.2.2.2.2.2.2.2.2.2.2.2.2.2.2.2.2.2.2.2.2.2.2.2.2.2.1
    hS16.2.2.2.2.2.2.2.2.2.2.2.2.2.2.2.2.2.2.2.2.2.2.2.2.2.2.2.2.2.1
    hS16.2.2.2.2.2.2.2.2.2.2.2.2.2.2.2.2.2.2.2.2.2.2.2.2.2.2.2.2.2.2.1
    hS16.2.2.2.2.2.2.2.2.2.2.2.2.2.2.2.2.2.2.2.2.2.2.2.2.2.2.2.2.2.2.2.1
    hS16.2.2.2.2.2.2.2.2.2.2.2.2.2.2.2.2.2.2.2.2.2.2.2.2.2.2.2.2.2.2.2.2.1
    hS16.2.2.2.2.2.2.2.2.2.2.2.2.2.2.2.2.2.2.2.2.2.2.2.2.2.2.2.2.2.2.2.2.2.1
    hS16.2.2.2.2.2.2.2.2.2.2.2.2.2.2.2.2.2.2.2.2.2.2.2.2.2.2.2.2.2.2.2.2.2.2.1
    hS16.2.2.2.2.2.2.2.2.2.2.2.2.2.2.2.2.2.2.2.2.2.2.2.2.2.2.2.2.2.2.2.2.2.2.2.1
    hS16.2.2.2.2.2.2.2.2.2.2.2.2.2.2.2.2.2.2.2.2.2.2.2.2.2.2.2.2.2.2.2.2.2.2.2.2.1
    hS16.2.2.2.2.2.2.2.2.2.2.2.2.2.2.2.2.2.2.2.2.2.2.2.2.2.2.2.2.2.2.2.2.2.2.2.2.2.1
    hS16.2.2.2.2.2.2.2.2.2.2.2.2.2.2.2.2.2.2.2.2.2.2.2.2.2.2.2.2.2.2.2.2.2.2.2.2.2.2.1
    hS16.2.2.2.2.2.2.2.2.2.2.2.2.2.2.2.2.2.2.2.2.2.2.2.2.2.2.2.2.2.2.2.2.2.2.2.2.2.2.2.1
    hS16.2.2.2.2.2.2.2.2.2.2.2.2.2.2.2.2.2.2.2.2.2.2.2.2.2.2.2.2.2.2.2.2.2.2.2.2.2.2.2.2.1
    hS16.2.2.2.2.2.2.2.2.2.2.2.2.2.2.2.2.2.2.2.2.2.2.2.2.2.2.2.2.2.2.2.2.2.2.2.2.2.2.2.2.2.1
    hS16.2.2.2.2.2.2.2.2.2.2.2.2.2.2.2.2.2.2.2.2.2.2.2.2.2.2.2.2.2.2.2.2.2.2.2.2.2.2.2.2.2.2.1
    hS16.2.2.2.2.2.2.2.2.2.2.2.2.2.2.2.2.2.2.2.2.2.2.2.2.2.2.2.2.2.2.2.2.2.2.2.2.2.2.2.2.2.2.2.1
    hS16.2.2.2.2.2.2.2.2.2.2.2.2.2.2.2.2.2.2.2.2.2.2.2.2.2.2.2.2.2.2.2.2.2.2.2.2.2.2.2.2.2.2.2.2.1
    hS16.2.2.2.2.2.2.2.2.2.2.2.2.2.2.2.2.2.2.2.2.2.2.2.2.2.2.2.2.2.2.2.2.2.2.2.2.2.2.2.2.2.2.2.2.2.1
    hS16.2.2.2.2.2.2.2.2.2.2.2.2.2.2.2.2.2.2.2.2.2.2.2.2.2.2.2.2.2.2.2.2.2.2.2.2.2.2.2.2.2.2.2.2.2.2.1
    hS16.2.2.2.2.2.2.2.2.2.2.2.2.2.2.2.2.2.2.2.2.2.2.2.2.2.2.2.2.2.2.2.2.2.2.2.2.2.2.2.2.2.2.2.2.2.2.2
  have hS18 := loadStage18 A data _ hS17.1 hkeys18 hA18 hS17.2.1 hS17.2.2.1 hS17.2.2.2.1
    hS17.2.2.2.2.1 hS17.2.2.2.2.2.1 hS17.2.2.2.2.2.2.1 hS17.2.2.2.2.2.2.2.1
    hS17.2.2.2.2.2.2.2.2.1 hS17.2.2.2.2.2.2.2.2.2.1 hS17.2.2.2.2.2.2.2.2.2.2.1
    hS17.2.2.2.2.2.2.2.2.2.2.2.1 hS17.2.2.2.2.2.2.2.2.2.2.2.2.1 hS17.2.2.2.2.2.2.2.2.2.2.2.2.2.1
    hS17.2.2.2.2.2.2.2.2.2.2.2.2.2.2.1 hS17.2.2.2.2.2.2.2.2.2.2.2.2.2.2.2.1
    hS17.2.2.2.2.2.2.2.2.2.2.2.2.2.2.2.2.1 hS17.2.2.2.2.2.2.2.2.2.2.2.2.2.2.2.2.2.1
    hS17.2.2.2.2.2.2.2.2.2.2.2.2.2.2.2.2.2.2.1 hS17.2.2.2.2.2.2.2.2.2.2.2.2.2.2.2.2.2.2.2.1
    hS17.2.2.2.2.2.2.2.2.2.2.2.2.2.2.2.2.2.2.2.2.1
    hS17.2.2.2.2.2.2.2.2.2.2.2.2.2.2.2.2.2.2.2.2.2.1
    hS17.2.2.2.2.2.2.2.2.2.2.2.2.2.2.2.2.2.2.2.2.2.2.1
    hS17.2.2.2.2.2.2.2.2.2.2.2.2.2.2.2.2.2.2.2.2.2.2.2.1
    hS17.2.2.2.2.2.2.2.2.2.2.2.2.2.2.2.2.2.2.2.2.2.2.2.2.1
    hS17.2.2.2.2.2.2.2.2.2.2.2.2.2.2.2.2.2.2.2.2.2.2.2.2.2.1
    hS17.2.2.2.2.2.2.2.2.2.2.2.2.2.2.2.2.2.2.2.2.2.2.2.2.2.2.1
    hS17.2.2.2.2.2.2.2.2.2.2.2.2.2.2.2.2.2.2.2.2.2.2.2.2.2.2.2.1
    hS17.2.2.2.2.2.2.2.2.2.2.2.2.2.2.2.2.2.2.2.2.2.2.2.2.2.2.2.2.1
    hS17.2.2.2.2.2.2.2.2.2.2.2.2.2.2.2.2.2.2.2.2.2.2.2.2.2.2.2.2.2.1
    hS17.2.2.2.2.2.2.2.2.2.2.2.2.2.2.2.2.2.2.2.2.2.2.2.2.2.2.2.2.2.2.1
    hS17.2.2.2.2.2.2.2.2.2.2.2.2.2.2.2.2.2.2.2.2.2.2.2.2.2.2.2.2.2.2.2.1
    hS17.2.2.2.2.2.2.2.2.2.2.2.2.2.2.2.2.2.2.2.2.2.2.2.2.2.2.2.2.2.2.2.2.1
    hS17.2.2.2.2.2.2.2.2.2.2.2.2.2.2.2.2.2.2.2.2.2.2.2.2.2.2.2.2.2.2.2.2.2.1
    hS17.2.2.2.2.2.2.2.2.2.2.2.2.2.2.2.2.2.2.2.2.2.2.2.2.2.2.2.2.2.2.2.2.2.2.1
    hS17.2.2.2.2.2.2.2.2.2.2.2.2.2.2.2.2.2.2.2.2.2.2.2.2.2.2.2.2.2.2.2.2.2.2.2.1
    hS17.2.2.2.2.2.2.2.2.2.2.2.2.2.2.2.2.2.2.2.2.2.2.2.2.2.2.2.2.2.2.2.2.2.2.2.2.1
    hS17.2.2.2.2.2.2.2.2.2.2.2.2.2.2.2.2.2.2.2.2.2.2.2.2.2.2.2.2.2.2.2.2.2.2.2.2.2.1
    hS17.2.2.2.2.2.2.2.2.2.2.2.2.2.2.2.2.2.2.2.2.2.2.2.2.2.2.2.2.2.2.2.2.2.2.2.2.2.2.1
    hS17.2.2.2.2.2.2.2.2.2.2.2.2.2.2.2.2.2.2.2.2.2.2.2.2.2.2.2.2.2.2.2.2.2.2.2.2.2.2.2.1
    hS17.2.2.2.2.2.2.2.2.2.2.2.2.2.2.2.2.2.2.2.2.2.2.2.2.2.2.2.2.2.2.2.2.2.2.2.2.2.2.2.2.1
    hS17.2.2.2.2.2.2.2.2.2.2.2.2.2.2.2.2.2.2.2.2.2.2.2.2.2.2.2.2.2.2.2.2.2.2.2.2.2.2.2.2.2.1
    hS17.2.2.2.2.2.2.2.2.2.2.2.2.2.2.2.2.2.2.2.2.2.2.2.2.2.2.2.2.2.2.2.2.2.2.2.2.2.2.2.2.2.2.1
    hS17.2.2.2.2.2.2.2.2.2.2.2.2.2.2.2.2.2.2.2.2.2.2.2.2.2.2.2.2.2.2.2.2.2.2.2.2.2.2.2.2.2.2.2.1
    hS17.2.2.2.2.2.2.2.2.2.2.2.2.2.2.2.2.2.2.2.2.2.2.2.2.2.2.2.2.2.2.2.2.2.2.2.2.2.2.2.2.2.2.2.2.1
    hS17.2.2.2.2.2.2.2.2.2.2.2.2.2.2.2.2.2.2.2.2.2.2.2.2.2.2.2.2.2.2.2.2.2.2.2.2.2.2.2.2.2.2.2.2.2.1
    hS17.2.2.2.2.2.2.2.2.2.2.2.2.2.2.2.2.2.2.2.2.2.2.2.2.2.2.2.2.2.2.2.2.2.2.2.2.2.2.2.2.2.2.2.2.2.2.1
    hS17.2.2.2.2.2.2.2.2.2.2.2.2.2.2.2.2.2.2.2.2.2.2.2.2.2.2.2.2.2.2.2.2.2.2.2.2.2.2.2.2.2.2.2.2.2.2.2.1
    hS17.2.2.2.2.2.2.2.2.2.2.2.2.2.2.2.2.2.2.2.2.2.2.2.2.2.2.2.2.2.2.2.2.2.2.2.2.2.2.2.2.2.2.2.2.2.2.2.2
  have hS19 := loadStage19 A data _ hS18.1 hkeys19 hA19 hS18.2.1 hS18.2.2.1 hS18.2.2.2.1
    hS18.2.2.2.2.1 hS18.2.2.2.2.2.1 hS18.2.2.2.2.2.2.1 hS18.2.2.2.2.2.2.2.1
    hS18.2.2.2.2.2.2.2.2.1 hS18.2.2.2.2.2.2.2.2.2.1 hS18.2.2.2.2.2.2.2.2.2.2.1
    hS18.2.2.2.2.2.2.2.2.2.2.2.1 hS18.2.2.2.2.2.2.2.2.2.2.2.2.1 hS18.2.2.2.2.2.2.2.2.2.2.2.2.2.1
    hS18.2.2.2.2.2.2.2.2.2.2.2.2.2.2.1 hS18.2.2.2.2.2.2.2.2.2.2.2.2.2.2.2.1
    hS18.2.2.2.2.2.2.2.2.2.2.2.2.2.2.2.2.1 hS18.2.2.2.2.2.2.2.2.2.2.2.2.2.2.2.2.2.1
    hS18.2.2.2.2.2.2.2.2.2.2.2.2.2.2.2.2.2.2.1 hS18.2.2.2.2.2.2.2.2.2.2.2.2.2.2.2.2.2.2.2.1
    hS18.2.2.2.2.2.2.2.2.2.2.2.2.2.2.2.2.2.2.2.2.1
    hS18.2.2.2.2.2.2.2.2.2.2.2.2.2.2.2.2.2.2.2.2.2.1
    hS18.2.2.2.2.2.2.2.2.2.2.2.2.2.2.2.2.2.2.2.2.2.2.1
    hS18.2.2.2.2.2.2.2.2.2.2.2.2.2.2.2.2.2.2.2.2.2.2.2.1
    hS18.2.2.2.2.2.2.2.2.2.2.2.2.2.2.2.2.2.2.2.2.2.2.2.2.1
    hS18.2.2.2.2.2.2.2.2.2.2.2.2.2.2.2.2.2.2.2.2.2.2.2.2.2.1
    hS18.2.2.2.2.2.2.2.2.2.2.2.2.2.2.2.2.2.2.2.2.2.2.2.2.2.2.1
    hS18.2.2.2.2.2.2.2.2.2.2.2.2.2.2.2.2.2.2.2.2.2.2.2.2.2.2.2.1
    hS18.2.2.2.2.2.2.2.2.2.2.2.2.2.2.2.2.2.2.2.2.2.2.2.2.2.2.2.2.1
    hS18.2.2.2.2.2.2.2.2.2.2.2.2.2.2.2.2.2.2.2.2.2.2.2.2.2.2.2.2.2.1
    hS18.2.2.2.2.2.2.2.2.2.2.2.2.2.2.2.2.2.2.2.2.2.2.2.2.2.2.2.2.2.2.1
    hS18.2.2.2.2.2.2.2.2.2.2.2.2.2.2.2.2.2.2.2.2.2.2.2.2.2.2.2.2.2.2.2.1
    hS18.2.2.2.2.2.2.2.2.2.2.2.2.2.2.2.2.2.2.2.2.2.2.2.2.2.2.2.2.2.2.2.2.1
    hS18.2.2.2.2.2.2.2.2.2.2.2.2.2.2.2.2.2.2.2.2.2.2.2.2.2.2.2.2.2.2.2.2.2.1
    hS18.2.2.2.2.2.2.2.2.2.2.2.2.2.2.2.2.2.2.2.2.2.2.2.2.2.2.2.2.2.2.2.2.2.2.1
    hS18.2.2.2.2.2.2.2.2.2.2.2.2.2.2.2.2.2.2.2.2.2.2.2.2.2.2.2.2.2.2.2.2.2.2.2.1
    hS18.2.2.2.2.2.2.2.2.2.2.2.2.2.2.2.2.2.2.2.2.2.2.2.2.2.2.2.2.2.2.2.2.2.2.2.2.1
    hS18.2.2.2.2.2.2.2.2.2.2.2.2.2.2.2.2.2.2.2.2.2.2.2.2.2.2.2.2.2.2.2.2.2.2.2.2.2.1
    hS18.2.2.2.2.2.2.2.2.2.2.2.2.2.2.2.2.2.2.2.2.2.2.2.2.2.2.2.2.2.2.2.2.2.2.2.2.2.2.1
    hS18.2.2.2.2.2.2.2.2.2.2.2.2.2.2.2.2.2.2.2.2.2.2.2.2.2.2.2.2.2.2.2.2.2.2.2.2.2.2.2.1
    hS18.2.2.2.2.2.2.2.2.2.2.2.2.2.2.2.2.2.2.2.2.2.2.2.2.2.2.2.2.2.2.2.2.2.2.2.2.2.2.2.2.1
    hS18.2.2.2.2.2.2.2.2.2.2.2.2.2.2.2.2.2.2.2.2.2.2.2.2.2.2.2.2.2.2.2.2.2.2.2.2.2.2.2.2.2.1
    hS18.2.2.2.2.2.2.2.2.2.2.2.2.2.2.2.2.2.2.2.2.2.2.2.2.2.2.2.2.2.2.2.2.2.2.2.2.2.2.2.2.2.2.1
    hS18.2.2.2.2.2.2.2.2.2.2.2.2.2.2.2.2.2.2.2.2.2.2.2.2.2.2.2.2.2.2.2.2.2.2.2.2.2.2.2.2.2.2.2.1
    hS18.2.2.2.2.2.2.2.2.2.2.2.2.2.2.2.2.2.2.2.2.2.2.2.2.2.2.2.2.2.2.2.2.2.2.2.2.2.2.2.2.2.2.2.2.1
    hS18.2.2.2.2.2.2.2.2.2.2.2.2.2.2.2.2.2.2.2.2.2.2.2.2.2.2.2.2.2.2.2.2.2.2.2.2.2.2.2.2.2.2.2.2.2.1
    hS18.2.2.2.2.2.2.2.2.2.2.2.2.2.2.2.2.2.2.2.2.2.2.2.2.2.2.2.2.2.2.2.2.2.2.2.2.2.2.2.2.2.2.2.2.2.2.1
    hS18.2.2.2.2.2.2.2.2.2.2.2.2.2.2.2.2.2.2.2.2.2.2.2.2.2.2.2.2.2.2.2.2.2.2.2.2.2.2.2.2.2.2.2.2.2.2.2.1
    hS18.2.2.2.2.2.2.2.2.2.2.2.2.2.2.2.2.2.2.2.2.2.2.2.2.2.2.2.2.2.2.2.2.2.2.2.2.2.2.2.2.2.2.2.2.2.2.2.2.1
    hS18.2.2.2.2.2.2.2.2.2.2.2.2.2.2.2.2.2.2.2.2.2.2.2.2.2.2.2.2.2.2.2.2.2.2.2.2.2.2.2.2.2.2.2.2.2.2.2.2.2
  have hS20 := loadStage20 A data _ hS19.1 hkeys20 hA20 hS19.2.1 hS19.2.2.1 hS19.2.2.2.1
    hS19.2.2.2.2.1 hS19.2.2.2.2.2.1 hS19.2.2.2.2.2.2.1 hS19.2.2.2.2.2.2.2.1
    hS19.2.2.2.2.2.2.2.2.1 hS19.2.2.2.2.2.2.2.2.2.1 hS19.2.2.2.2.2.2.2.2.2.2.1
    hS19.2.2.2.2.2.2.2.2.2.2.2.1 hS19.2.2.2.2.2.2.2.2.2.2.2.2.1 hS19.2.2.2.2.2.2.2.2.2.2.2.2.2.1
    hS19.2.2.2.2.2.2.2.2.2.2.2.2.2.2.1 hS19.2.2.2.2.2.2.2.2.2.2.2.2.2.2.2.1
    hS19.2.2.2.2.2.2.2.2.2.2.2.2.2.2.2.2.1 hS19.2.2.2.2.2.2.2.2.2.2.2.2.2.2.2.2.2.1
    hS19.2.2.2.2.2.2.2.2.2.2.2.2.2.2.2.2.2.2.1 hS19.2.2.2.2.2.2.2.2.2.2.2.2.2.2.2.2.2.2.2.1
    hS19.2.2.2.2.2.2.2.2.2.2.2.2.2.2.2.2.2.2.2.2.1
    hS19.2.2.2.2.2.2.2.2.2.2.2.2.2.2.2.2.2.2.2.2.2.1
    hS19.2.2.2.2.2.2.2.2.2.2.2.2.2.2.2.2.2.2.2.2.2.2.1
    hS19.2.2.2.2.2.2.2.2.2.2.2.2.2.2.2.2.2.2.2.2.2.2.2.1
    hS19.2.2.2.2.2.2.2.2.2.2.2.2.2.2.2.2.2.2.2.2.2.2.2.2.1
    hS19.2.2.2.2.2.2.2.2.2.2.2.2.2.2.2.2.2.2.2.2.2.2.2.2.2.1
    hS19.2.2.2.2.2.2.2.2.2.2.2.2.2.2.2.2.2.2.2.2.2.2.2.2.2.2.1
    hS19.2.2.2.2.2.2.2.2.2.2.2.2.2.2.2.2.2.2.2.2.2.2.2.2.2.2.2.1
    hS19.2.2.2.2.2.2.2.2.2.2.2.2.2.2.2.2.2.2.2.2.2.2.2.2.2.2.2.2.1
    hS19.2.2.2.2.2.2.2.2.2.2.2.2.2.2.2.2.2.2.2.2.2.2.2.2.2.2.2.2.2.1
    hS19.2.2.2.2.2.2.2.2.2.2.2.2.2.2.2.2.2.2.2.2.2.2.2.2.2.2.2.2.2.2.1
    hS19.2.2.2.2.2.2.2.2.2.2.2.2.2.2.2.2.2.2.2.2.2.2.2.2.2.2.2.2.2.2.2.1
    hS19.2.2.2.2.2.2.2.2.2.2.2.2.2.2.2.2.2.2.2.2.2.2.2.2.2.2.2.2.2.2.2.2.1
    hS19.2.2.2.2.2.2.2.2.2.2.2.2.2.2.2.2.2.2.2.2.2.2.2.2.2.2.2.2.2.2.2.2.2.1
    hS19.2.2.2.2.2.2.2.2.2.2.2.2.2.2.2.2.2.2.2.2.2.2.2.2.2.2.2.2.2.2.2.2.2.2.1
    hS19.2.2.2.2.2.2.2.2.2.2.2.2.2.2.2.2.2.2.2.2.2.2.2.2.2.2.2.2.2.2.2.2.2.2.2.1
    hS19.2.2.2.2.2.2.2.2.2.2.2.2.2.2.2.2.2.2.2.2.2.2.2.2.2.2.2.2.2.2.2.2.2.2.2.2.1
    hS19.2.2.2.2.2.2.2.2.2.2.2.2.2.2.2.2.2.2.2.2.2.2.2.2.2.2.2.2.2.2.2.2.2.2.2.2.2.1
    hS19.2.2.2.2.2.2.2.2.2.2.2.2.2.2.2.2.2.2.2.2.2.2.2.2.2.2.2.2.2.2.2.2.2.2.2.2.2.2.1
    hS19.2.2.2.2.2.2.2.2.2.2.2.2.2.2.2.2.2.2.2.2.2.2.2.2.2.2.2.2.2.2.2.2.2.2.2.2.2.2.2.1
    hS19.2.2.2.2.2.2.2.2.2.2.2.2.2.2.2.2.2.2.2.2.2.2.2.2.2.2.2.2.2.2.2.2.2.2.2.2.2.2.2.2.1
    hS19.2.2.2.2.2.2.2.2.2.2.2.2.2.2.2.2.2.2.2.2.2.2.2.2.2.2.2.2.2.2.2.2.2.2.2.2.2.2.2.2.2.1
    hS19.2.2.2.2.2.2.2.2.2.2.2.2.2.2.2.2.2.2.2.2.2.2.2.2.2.2.2.2.2.2.2.2.2.2.2.2.2.2.2.2.2.2.1
    hS19.2.2.2.2.2.2.2.2.2.2.2.2.2.2.2.2.2.2.2.2.2.2.2.2.2.2.2.2.2.2.2.2.2.2.2.2.2.2.2.2.2.2.2.1
    hS19.2.2.2.2.2.2.2.2.2.2.2.2.2.2.2.2.2.2.2.2.2.2.2.2.2.2.2.2.2.2.2.2.2.2.2.2.2.2.2.2.2.2.2.2.1
    hS19.2.2.2.2.2.2.2.2.2.2.2.2.2.2.2.2.2.2.2.2.2.2.2.2.2.2.2.2.2.2.2.2.2.2.2.2.2.2.2.2.2.2.2.2.2.1
    hS19.2.2.2.2.2.2.2.2.2.2.2.2.2.2.2.2.2.2.2.2.2.2.2.2.2.2.2.2.2.2.2.2.2.2.2.2.2.2.2.2.2.2.2.2.2.2.1
    hS19.2.2.2.2.2.2.2.2.2.2.2.2.2.2.2.2.2.2.2.2.2.2.2.2.2.2.2.2.2.2.2.2.2.2.2.2.2.2.2.2.2.2.2.2.2.2.2.1
    hS19.2.2.2.2.2.2.2.2.2.2.2.2.2.2.2.2.2.2.2.2.2.2.2.2.2.2.2.2.2.2.2.2.2.2.2.2.2.2.2.2.2.2.2.2.2.2.2.2.1
    hS19.2.2.2.2.2.2.2.2.2.2.2.2.2.2.2.2.2.2.2.2.2.2.2.2.2.2.2.2.2.2.2.2.2.2.2.2.2.2.2.2.2.2.2.2.2.2.2.2.2.1
    hS19.2.2.2.2.2.2.2.2.2.2.2.2.2.2.2.2.2.2.2.2.2.2.2.2.2.2.2.2.2.2.2.2.2.2.2.2.2.2.2.2.2.2.2.2.2.2.2.2.2.2
  have hS21 := loadStage21 A data _ hS20.1 hkeys21 hA21 hS20.2.1 hS20.2.2.1 hS20.2.2.2.1
    hS20.2.2.2.2.1 hS20.2.2.2.2.2.1 hS20.2.2.2.2.2.2.1 hS20.2.2.2.2.2.2.2.1
    hS20.2.2.2.2.2.2.2.2.1 hS20.2.2.2.2.2.2.2.2.2.1 hS20.2.2.2.2.2.2.2.2.2.2.1
    hS20.2.2.2.2.2.2.2.2.2.2.2.1 hS20.2.2.2.2.2.2.2.2.2.2.2.2.1 hS20.2.2.2.2.2.2.2.2.2.2.2.2.2.1
    hS20.2.2.2.2.2.2.2.2.2.2.2.2.2.2.1 hS20.2.2.2.2.2.2.2.2.2.2.2.2.2.2.2.1
    hS20.2.2.2.2.2.2.2.2.2.2.2.2.2.2.2.2.1 hS20.2.2.2.2.2.2.2.2.2.2.2.2.2.2.2.2.2.1
    hS20.2.2.2.2.2.2.2.2.2.2.2.2.2.2.2.2.2.2.1 hS20.2.2.2.2.2.2.2.2.2.2.2.2.2.2.2.2.2.2.2.1
    hS20.2.2.2.2.2.2.2.2.2.2.2.2.2.2.2.2.2.2.2.2.1
    hS20.2.2.2.2.2.2.2.2.2.2.2.2.2.2.2.2.2.2.2.2.2.1
    hS20.2.2.2.2.2.2.2.2.2.2.2.2.2.2.2.2.2.2.2.2.2.2.1
    hS20.2.2.2.2.2.2.2.2.2.2.2.2.2.2.2.2.2.2.2.2.2.2.2.1
    hS20.2.2.2.2.2.2.2.2.2.2.2.2.2.2.2.2.2.2.2.2.2.2.2.2.1
    hS20.2.2.2.2.2.2.2.2.2.2.2.2.2.2.2.2.2.2.2.2.2.2.2.2.2.1
    hS20.2.2.2.2.2.2.2.2.2.2.2.2.2.2.2.2.2.2.2.2.2.2.2.2.2.2.1
    hS20.2.2.2.2.2.2.2.2.2.2.2.2.2.2.2.2.2.2.2.2.2.2.2.2.2.2.2.1
    hS20.2.2.2.2.2.2.2.2.2.2.2.2.2.2.2.2.2.2.2.2.2.2.2.2.2.2.2.2.1
    hS20.2.2.2.2.2.2.2.2.2.2.2.2.2.2.2.2.2.2.2.2.2.2.2.2.2.2.2.2.2.1
    hS20.2.2.2.2.2.2.2.2.2.2.2.2.2.2.2.2.2.2.2.2.2.2.2.2.2.2.2.2.2.2.1
    hS20.2.2.2.2.2.2.2.2.2.2.2.2.2.2.2.2.2.2.2.2.2.2.2.2.2.2.2.2.2.2.2.1
    hS20.2.2.2.2.2.2.2.2.2.2.2.2.2.2.2.2.2.2.2.2.2.2.2.2.2.2.2.2.2.2.2.2.1
    hS20.2.2.2.2.2.2.2.2.2.2.2.2.2.2.2.2.2.2.2.2.2.2.2.2.2.2.2.2.2.2.2.2.2.1
    hS20.2.2.2.2.2.2.2.2.2.2.2.2.2.2.2.2.2.2.2.2.2.2.2.2.2.2.2.2.2.2.2.2.2.2.1
    hS20.2.2.2.2.2.2.2.2.2.2.2.2.2.2.2.2.2.2.2.2.2.2.2.2.2.2.2.2.2.2.2.2.2.2.2.1
    hS20.2.2.2.2.2.2.2.2.2.2.2.2.2.2.2.2.2.2.2.2.2.2.2.2.2.2.2.2.2.2.2.2.2.2.2.2.1
    hS20.2.2.2.2.2.2.2.2.2.2.2.2.2.2.2.2.2.2.2.2.2.2.2.2.2.2.2.2.2.2.2.2.2.2.2.2.2.1
    hS20.2.2.2.2.2.2.2.2.2.2.2.2.2.2.2.2.2.2.2.2.2.2.2.2.2.2.2.2.2.2.2.2.2.2.2.2.2.2.1
    hS20.2.2.2.2.2.2.2.2.2.2.2.2.2.2.2.2.2.2.2.2.2.2.2.2.2.2.2.2.2.2.2.2.2.2.2.2.2.2.2.1
    hS20.2.2.2.2.2.2.2.2.2.2.2.2.2.2.2.2.2.2.2.2.2.2.2.2.2.2.2.2.2.2.2.2.2.2.2.2.2.2.2.2.1
    hS20.2.2.2.2.2.2.2.2.2.2.2.2.2.2.2.2.2.2.2.2.2.2.2.2.2.2.2.2.2.2.2.2.2.2.2.2.2.2.2.2.2.1
    hS20.2.2.2.2.2.2.2.2.2.2.2.2.2.2.2.2.2.2.2.2.2.2.2.2.2.2.2.2.2.2.2.2.2.2.2.2.2.2.2.2.2.2.1
    hS20.2.2.2.2.2.2.2.2.2.2.2.2.2.2.2.2.2.2.2.2.2.2.2.2.2.2.2.2.2.2.2.2.2.2.2.2.2.2.2.2.2.2.2.1
    hS20.2.2.2.2.2.2.2.2.2.2.2.2.2.2.2.2.2.2.2.2.2.2.2.2.2.2.2.2.2.2.2.2.2.2.2.2.2.2.2.2.2.2.2.2.1
    hS20.2.2.2.2.2.2.2.2.2.2.2.2.2.2.2.2.2.2.2.2.2.2.2.2.2.2.2.2.2.2.2.2.2.2.2.2.2.2.2.2.2.2.2.2.2.1
    hS20.2.2.2.2.2.2.2.2.2.2.2.2.2.2.2.2.2.2.2.2.2.2.2.2.2.2.2.2.2.2.2.2.2.2.2.2.2.2.2.2.2.2.2.2.2.2.1
    hS20.2.2.2.2.2.2.2.2.2.2.2.2.2.2.2.2.2.2.2.2.2.2.2.2.2.2.2.2.2.2.2.2.2.2.2.2.2.2.2.2.2.2.2.2.2.2.2.1
    hS20.2.2.2.2.2.2.2.2.2.2.2.2.2.2.2.2.2.2.2.2.2.2.2.2.2.2.2.2.2.2.2.2.2.2.2.2.2.2.2.2.2.2.2.2.2.2.2.2.1
    hS20.2.2.2.2.2.2.2.2.2.2.2.2.2.2.2.2.2.2.2.2.2.2.2.2.2.2.2.2.2.2.2.2.2.2.2.2.2.2.2.2.2.2.2.2.2.2.2.2.2.1
    hS20.2.2.2.2.2.2.2.2.2.2.2.2.2.2.2.2.2.2.2.2.2.2.2.2.2.2.2.2.2.2.2.2.2.2.2.2.2.2.2.2.2.2.2.2.2.2.2.2.2.2.1
    hS20.2.2.2.2.2.2.2.2.2.2.2.2.2.2.2.2.2.2.2.2.2.2.2.2.2.2.2.2.2.2.2.2.2.2.2.2.2.2.2.2.2.2.2.2.2.2.2.2.2.2.2
  have hS22 := loadStage22 A data _ hS21.1 hkeys22 hA22 hS21.2.1 hS21.2.2.1 hS21.2.2.2.1
    hS21.2.2.2.2.1 hS21.2.2.2.2.2.1 hS21.2.2.2.2.2.2.1 hS21.2.2.2.2.2.2.2.1
    hS21.2.2.2.2.2.2.2.2.1 hS21.2.2.2.2.2.2.2.2.2.1 hS21.2.2.2.2.2.2.2.2.2.2.1
    hS21.2.2.2.2.2.2.2.2.2.2.2.1 hS21.2.2.2.2.2.2.2.2.2.2.2.2.1 hS21.2.2.2.2.2.2.2.2.2.2.2.2.2.1
    hS21.2.2.2.2.2.2.2.2.2.2.2.2.2.2.1 hS21.2.2.2.2.2.2.2.2.2.2.2.2.2.2.2.1
    hS21.2.2.2.2.2.2.2.2.2.2.2.2.2.2.2.2.1 hS21.2.2.2.2.2.2.2.2.2.2.2.2.2.2.2.2.2.1
    hS21.2.2.2.2.2.2.2.2.2.2.2.2.2.2.2.2.2.2.1 hS21.2.2.2.2.2.2.2.2.2.2.2.2.2.2.2.2.2.2.2.1
    hS21.2.2.2.2.2.2.2.2.2.2.2.2.2.2.2.2.2.2.2.2.1
    hS21.2.2.2.2.2.2.2.2.2.2.2.2.2.2.2.2.2.2.2.2.2.1
    hS21.2.2.2.2.2.2.2.2.2.2.2.2.2.2.2.2.2.2.2.2.2.2.1
    hS21.2.2.2.2.2.2.2.2.2.2.2.2.2.2.2.2.2.2.2.2.2.2.2.1
    hS21.2.2.2.2.2.2.2.2.2.2.2.2.2.2.2.2.2.2.2.2.2.2.2.2.1
    hS21.2.2.2.2.2.2.2.2.2.2.2.2.2.2.2.2.2.2.2.2.2.2.2.2.2.1
    hS21.2.2.2.2.2.2.2.2.2.2.2.2.2.2.2.2.2.2.2.2.2.2.2.2.2.2.1
    hS21.2.2.2.2.2.2.2.2.2.2.2.2.2.2.2.2.2.2.2.2.2.2.2.2.2.2.2.1
    hS21.2.2.2.2.2.2.2.2.2.2.2.2.2.2.2.2.2.2.2.2.2.2.2.2.2.2.2.2.1
    hS21.2.2.2.2.2.2.2.2.2.2.2.2.2.2.2.2.2.2.2.2.2.2.2.2.2.2.2.2.2.1
    hS21.2.2.2.2.2.2.2.2.2.2.2.2.2.2.2.2.2.2.2.2.2.2.2.2.2.2.2.2.2.2.1
    hS21.2.2.2.2.2.2.2.2.2.2.2.2.2.2.2.2.2.2.2.2.2.2.2.2.2.2.2.2.2.2.2.1
    hS21.2.2.2.2.2.2.2.2.2.2.2.2.2.2.2.2.2.2.2.2.2.2.2.2.2.2.2.2.2.2.2.2.1
    hS21.2.2.2.2.2.2.2.2.2.2.2.2.2.2.2.2.2.2.2.2.2.2.2.2.2.2.2.2.2.2.2.2.2.1
    hS21.2.2.2.2.2.2.2.2.2.2.2.2.2.2.2.2.2.2.2.2.2.2.2.2.2.2.2.2.2.2.2.2.2.2.1
    hS21.2.2.2.2.2.2.2.2.2.2.2.2.2.2.2.2.2.2.2.2.2.2.2.2.2.2.2.2.2.2.2.2.2.2.2.1
    hS21.2.2.2.2.2.2.2.2.2.2.2.2.2.2.2.2.2.2.2.2.2.2.2.2.2.2.2.2.2.2.2.2.2.2.2.2.1
    hS21.2.2.2.2.2.2.2.2.2.2.2.2.2.2.2.2.2.2.2.2.2.2.2.2.2.2.2.2.2.2.2.2.2.2.2.2.2.1
    hS21.2.2.2.2.2.2.2.2.2.2.2.2.2.2.2.2.2.2.2.2.2.2.2.2.2.2.2.2.2.2.2.2.2.2.2.2.2.2.1
    hS21.2.2.2.2.2.2.2.2.2.2.2.2.2.2.2.2.2.2.2.2.2.2.2.2.2.2.2.2.2.2.2.2.2.2.2.2.2.2.2.1
    hS21.2.2.2.2.2.2.2.2.2.2.2.2.2.2.2.2.2.2.2.2.2.2.2.2.2.2.2.2.2.2.2.2.2.2.2.2.2.2.2.2.1
    hS21.2.2.2.2.2.2.2.2.2.2.2.2.2.2.2.2.2.2.2.2.2.2.2.2.2.2.2.2.2.2.2.2.2.2.2.2.2.2.2.2.2.1
    hS21.2.2.2.2.2.2.2.2.2.2.2.2.2.2.2.2.2.2.2.2.2.2.2.2.2.2.2.2.2.2.2.2.2.2.2.2.2.2.2.2.2.2.1
    hS21.2.2.2.2.2.2.2.2.2.2.2.2.2.2.2.2.2.2.2.2.2.2.2.2.2.2.2.2.2.2.2.2.2.2.2.2.2.2.2.2.2.2.2.1
    hS21.2.2.2.2.2.2.2.2.2.2.2.2.2.2.2.2.2.2.2.2.2.2.2.2.2.2.2.2.2.2.2.2.2.2.2.2.2.2.2.2.2.2.2.2.1
    hS21.2.2.2.2.2.2.2.2.2.2.2.2.2.2.2.2.2.2.2.2.2.2.2.2.2.2.2.2.2.2.2.2.2.2.2.2.2.2.2.2.2.2.2.2.2.1
    hS21.2.2.2.2.2.2.2.2.2.2.2.2.2.2.2.2.2.2.2.2.2.2.2.2.2.2.2.2.2.2.2.2.2.2.2.2.2.2.2.2.2.2.2.2.2.2.1
    hS21.2.2.2.2.2.2.2.2.2.2.2.2.2.2.2.2.2.2.2.2.2.2.2.2.2.2.2.2.2.2.2.2.2.2.2.2.2.2.2.2.2.2.2.2.2.2.2.1
    hS21.2.2.2.2.2.2.2.2.2.2.2.2.2.2.2.2.2.2.2.2.2.2.2.2.2.2.2.2.2.2.2.2.2.2.2.2.2.2.2.2.2.2.2.2.2.2.2.2.1
    hS21.2.2.2.2.2.2.2.2.2.2.2.2.2.2.2.2.2.2.2.2.2.2.2.2.2.2.2.2.2.2.2.2.2.2.2.2.2.2.2.2.2.2.2.2.2.2.2.2.2.1
    hS21.2.2.2.2.2.2.2.2.2.2.2.2.2.2.2.2.2.2.2.2.2.2.2.2.2.2.2.2.2.2.2.2.2.2.2.2.2.2.2.2.2.2.2.2.2.2.2.2.2.2.1
    hS21.2.2.2.2.2.2.2.2.2.2.2.2.2.2.2.2.2.2.2.2.2.2.2.2.2.2.2.2.2.2.2.2.2.2.2.2.2.2.2.2.2.2.2.2.2.2.2.2.2.2.2.1
    hS21.2.2.2.2.2.2.2.2.2.2.2.2.2.2.2.2.2.2.2.2.2.2.2.2.2.2.2.2.2.2.2.2.2.2.2.2.2.2.2.2.2.2.2.2.2.2.2.2.2.2.2.2
  have hS23 := loadStage23 A data _ hS22.1 hkeys23 hA23 hS22.2.1 hS22.2.2.1 hS22.2.2.2.1
    hS22.2.2.2.2.1 hS22.2.2.2.2.2.1 hS22.2.2.2.2.2.2.1 hS22.2.2.2.2.2.2.2.1
    hS22.2.2.2.2.2.2.2.2.1 hS22.2.2.2.2.2.2.2.2.2.1 hS22.2.2.2.2.2.2.2.2.2.2.1
    hS22.2.2.2.2.2.2.2.2.2.2.2.1 hS22.2.2.2.2.2.2.2.2.2.2.2.2.1 hS22.2.2.2.2.2.2.2.2.2.2.2.2.2.1
    hS22.2.2.2.2.2.2.2.2.2.2.2.2.2.2.1 hS22.2.2.2.2.2.2.2.2.2.2.2.2.2.2.2.1
    hS22.2.2.2.2.2.2.2.2.2.2.2.2.2.2.2.2.1 hS22.2.2.2.2.2.2.2.2.2.2.2.2.2.2.2.2.2.1
    hS22.2.2.2.2.2.2.2.2.2.2.2.2.2.2.2.2.2.2.1 hS22.2.2.2.2.2.2.2.2.2.2.2.2.2.2.2.2.2.2.2.1
    hS22.2.2.2.2.2.2.2.2.2.2.2.2.2.2.2.2.2.2.2.2.1
    hS22.2.2.2.2.2.2.2.2.2.2.2.2.2.2.2.2.2.2.2.2.2.1
    hS22.2.2.2.2.2.2.2.2.2.2.2.2.2.2.2.2.2.2.2.2.2.2.1
    hS22.2.2.2.2.2.2.2.2.2.2.2.2.2.2.2.2.2.2.2.2.2.2.2.1
    hS22.2.2.2.2.2.2.2.2.2.2.2.2.2.2.2.2.2.2.2.2.2.2.2.2.1
    hS22.2.2.2.2.2.2.2.2.2.2.2.2.2.2.2.2.2.2.2.2.2.2.2.2.2.1
    hS22.2.2.2.2.2.2.2.2.2.2.2.2.2.2.2.2.2.2.2.2.2.2.2.2.2.2.1
    hS22.2.2.2.2.2.2.2.2.2.2.2.2.2.2.2.2.2.2.2.2.2.2.2.2.2.2.2.1
    hS22.2.2.2.2.2.2.2.2.2.2.2.2.2.2.2.2.2.2.2.2.2.2.2.2.2.2.2.2.1
    hS22.2.2.2.2.2.2.2.2.2.2.2.2.2.2.2.2.2.2.2.2.2.2.2.2.2.2.2.2.2.1
    hS22.2.2.2.2.2.2.2.2.2.2.2.2.2.2.2.2.2.2.2.2.2.2.2.2.2.2.2.2.2.2.1
    hS22.2.2.2.2.2.2.2.2.2.2.2.2.2.2.2.2.2.2.2.2.2.2.2.2.2.2.2.2.2.2.2.1
    hS22.2.2.2.2.2.2.2.2.2.2.2.2.2.2.2.2.2.2.2.2.2.2.2.2.2.2.2.2.2.2.2.2.1
    hS22.2.2.2.2.2.2.2.2.2.2.2.2.2.2.2.2.2.2.2.2.2.2.2.2.2.2.2.2.2.2.2.2.2.1
    hS22.2.2.2.2.2.2.2.2.2.2.2.2.2.2.2.2.2.2.2.2.2.2.2.2.2.2.2.2.2.2.2.2.2.2.1
    hS22.2.2.2.2.2.2.2.2.2.2.2.2.2.2.2.2.2.2.2.2.2.2.2.2.2.2.2.2.2.2.2.2.2.2.2.1
    hS22.2.2.2.2.2.2.2.2.2.2.2.2.2.2.2.2.2.2.2.2.2.2.2.2.2.2.2.2.2.2.2.2.2.2.2.2.1
    hS22.2.2.2.2.2.2.2.2.2.2.2.2.2.2.2.2.2.2.2.2.2.2.2.2.2.2.2.2.2.2.2.2.2.2.2.2.2.1
    hS22.2.2.2.2.2.2.2.2.2.2.2.2.2.2.2.2.2.2.2.2.2.2.2.2.2.2.2.2.2.2.2.2.2.2.2.2.2.2.1
    hS22.2.2.2.2.2.2.2.2.2.2.2.2.2.2.2.2.2.2.2.2.2.2.2.2.2.2.2.2.2.2.2.2.2.2.2.2.2.2.2.1
    hS22.2.2.2.2.2.2.2.2.2.2.2.2.2.2.2.2.2.2.2.2.2.2.2.2.2.2.2.2.2.2.2.2.2.2.2.2.2.2.2.2.1
    hS22.2.2.2.2.2.2.2.2.2.2.2.2.2.2.2.2.2.2.2.2.2.2.2.2.2.2.2.2.2.2.2.2.2.2.2.2.2.2.2.2.2.1
    hS22.2.2.2.2.2.2.2.2.2.2.2.2.2.2.2.2.2.2.2.2.2.2.2.2.2.2.2.2.2.2.2.2.2.2.2.2.2.2.2.2.2.2.1
    hS22.2.2.2.2.2.2.2.2.2.2.2.2.2.2.2.2.2.2.2.2.2.2.2.2.2.2.2.2.2.2.2.2.2.2.2.2.2.2.2.2.2.2.2.1
    hS22.2.2.2.2.2.2.2.2.2.2.2.2.2.2.2.2.2.2.2.2.2.2.2.2.2.2.2.2.2.2.2.2.2.2.2.2.2.2.2.2.2.2.2.2.1
    hS22.2.2.2.2.2.2.2.2.2.2.2.2.2.2.2.2.2.2.2.2.2.2.2.2.2.2.2.2.2.2.2.2.2.2.2.2.2.2.2.2.2.2.2.2.2.1
    hS22.2.2.2.2.2.2.2.2.2.2.2.2.2.2.2.2.2.2.2.2.2.2.2.2.2.2.2.2.2.2.2.2.2.2.2.2.2.2.2.2.2.2.2.2.2.2.1
    hS22.2.2.2.2.2.2.2.2.2.2.2.2.2.2.2.2.2.2.2.2.2.2.2.2.2.2.2.2.2.2.2.2.2.2.2.2.2.2.2.2.2.2.2.2.2.2.2.1
    hS22.2.2.2.2.2.2.2.2.2.2.2.2.2.2.2.2.2.2.2.2.2.2.2.2.2.2.2.2.2.2.2.2.2.2.2.2.2.2.2.2.2.2.2.2.2.2.2.2.1
    hS22.2.2.2.2.2.2.2.2.2.2.2.2.2.2.2.2.2.2.2.2.2.2.2.2.2.2.2.2.2.2.2.2.2.2.2.2.2.2.2.2.2.2.2.2.2.2.2.2.2.1
    hS22.2.2.2.2.2.2.2.2.2.2.2.2.2.2.2.2.2.2.2.2.2.2.2.2.2.2.2.2.2.2.2.2.2.2.2.2.2.2.2.2.2.2.2.2.2.2.2.2.2.2.1
    hS22.2.2.2.2.2.2.2.2.2.2.2.2.2.2.2.2.2.2.2.2.2.2.2.2.2.2.2.2.2.2.2.2.2.2.2.2.2.2.2.2.2.2.2.2.2.2.2.2.2.2.2.1
    hS22.2.2.2.2.2.2.2.2.2.2.2.2.2.2.2.2.2.2.2.2.2.2.2.2.2.2.2.2.2.2.2.2.2.2.2.2.2.2.2.2.2.2.2.2.2.2.2.2.2.2.2.2.1
    hS22.2.2.2.2.2.2.2.2.2.2.2.2.2.2.2.2.2.2.2.2.2.2.2.2.2.2.2.2.2.2.2.2.2.2.2.2.2.2.2.2.2.2.2.2.2.2.2.2.2.2.2.2.2
  have hS24 := loadStage24 A data _ hS23.1 hkeys24 hA24 hS23.2.1 hS23.2.2.1 hS23.2.2.2.1
    hS23.2.2.2.2.1 hS23.2.2.2.2.2.1 hS23.2.2.2.2.2.2.1 hS23.2.2.2.2.2.2.2.1
    hS23.2.2.2.2.2.2.2.2.1 hS23.2.2.2.2.2.2.2.2.2.1 hS23.2.2.2.2.2.2.2.2.2.2.1
    hS23.2.2.2.2.2.2.2.2.2.2.2.1 hS23.2.2.2.2.2.2.2.2.2.2.2.2.1 hS23.2.2.2.2.2.2.2.2.2.2.2.2.2.1
    hS23.2.2.2.2.2.2.2.2.2.2.2.2.2.2.1 hS23.2.2.2.2.2.2.2.2.2.2.2.2.2.2.2.1
    hS23.2.2.2.2.2.2.2.2.2.2.2.2.2.2.2.2.1 hS23.2.2.2.2.2.2.2.2.2.2.2.2.2.2.2.2.2.1
    hS23.2.2.2.2.2.2.2.2.2.2.2.2.2.2.2.2.2.2.1 hS23.2.2.2.2.2.2.2.2.2.2.2.2.2.2.2.2.2.2.2.1
    hS23.2.2.2.2.2.2.2.2.2.2.2.2.2.2.2.2.2.2.2.2.1
    hS23.2.2.2.2.2.2.2.2.2.2.2.2.2.2.2.2.2.2.2.2.2.1
    hS23.2.2.2.2.2.2.2.2.2.2.2.2.2.2.2.2.2.2.2.2.2.2.1
    hS23.2.2.2.2.2.2.2.2.2.2.2.2.2.2.2.2.2.2.2.2.2.2.2.1
    hS23.2.2.2.2.2.2.2.2.2.2.2.2.2.2.2.2.2.2.2.2.2.2.2.2.1
    hS23.2.2.2.2.2.2.2.2.2.2.2.2.2.2.2.2.2.2.2.2.2.2.2.2.2.1
    hS23.2.2.2.2.2.2.2.2.2.2.2.2.2.2.2.2.2.2.2.2.2.2.2.2.2.2.1
    hS23.2.2.2.2.2.2.2.2.2.2.2.2.2.2.2.2.2.2.2.2.2.2.2.2.2.2.2.1
    hS23.2.2.2.2.2.2.2.2.2.2.2.2.2.2.2.2.2.2.2.2.2.2.2.2.2.2.2.2.1
    hS23.2.2.2.2.2.2.2.2.2.2.2.2.2.2.2.2.2.2.2.2.2.2.2.2.2.2.2.2.2.1
    hS23.2.2.2.2.2.2.2.2.2.2.2.2.2.2.2.2.2.2.2.2.2.2.2.2.2.2.2.2.2.2.1
    hS23.2.2.2.2.2.2.2.2.2.2.2.2.2.2.2.2.2.2.2.2.2.2.2.2.2.2.2.2.2.2.2.1
    hS23.2.2.2.2.2.2.2.2.2.2.2.2.2.2.2.2.2.2.2.2.2.2.2.2.2.2.2.2.2.2.2.2.1
    hS23.2.2.2.2.2.2.2.2.2.2.2.2.2.2.2.2.2.2.2.2.2.2.2.2.2.2.2.2.2.2.2.2.2.1
    hS23.2.2.2.2.2.2.2.2.2.2.2.2.2.2.2.2.2.2.2.2.2.2.2.2.2.2.2.2.2.2.2.2.2.2.1
    hS23.2.2.2.2.2.2.2.2.2.2.2.2.2.2.2.2.2.2.2.2.2.2.2.2.2.2.2.2.2.2.2.2.2.2.2.1
    hS23.2.2.2.2.2.2.2.2.2.2.2.2.2.2.2.2.2.2.2.2.2.2.2.2.2.2.2.2.2.2.2.2.2.2.2.2.1
    hS23.2.2.2.2.2.2.2.2.2.2.2.2.2.2.2.2.2.2.2.2.2.2.2.2.2.2.2.2.2.2.2.2.2.2.2.2.2.1
    hS23.2.2.2.2.2.2.2.2.2.2.2.2.2.2.2.2.2.2.2.2.2.2.2.2.2.2.2.2.2.2.2.2.2.2.2.2.2.2.1
    hS23.2.2.2.2.2.2.2.2.2.2.2.2.2.2.2.2.2.2.2.2.2.2.2.2.2.2.2.2.2.2.2.2.2.2.2.2.2.2.2.1
    hS23.2.2.2.2.2.2.2.2.2.2.2.2.2.2.2.2.2.2.2.2.2.2.2.2.2.2.2.2.2.2.2.2.2.2.2.2.2.2.2.2.1
    hS23.2.2.2.2.2.2.2.2.2.2.2.2.2.2.2.2.2.2.2.2.2.2.2.2.2.2.2.2.2.2.2.2.2.2.2.2.2.2.2.2.2.1
    hS23.2.2.2.2.2.2.2.2.2.2.2.2.2.2.2.2.2.2.2.2.2.2.2.2.2.2.2.2.2.2.2.2.2.2.2.2.2.2.2.2.2.2.1
    hS23.2.2.2.2.2.2.2.2.2.2.2.2.2.2.2.2.2.2.2.2.2.2.2.2.2.2.2.2.2.2.2.2.2.2.2.2.2.2.2.2.2.2.2.1
    hS23.2.2.2.2.2.2.2.2.2.2.2.2.2.2.2.2.2.2.2.2.2.2.2.2.2.2.2.2.2.2.2.2.2.2.2.2.2.2.2.2.2.2.2.2.1
    hS23.2.2.2.2.2.2.2.2.2.2.2.2.2.2.2.2.2.2.2.2.2.2.2.2.2.2.2.2.2.2.2.2.2.2.2.2.2.2.2.2.2.2.2.2.2.1
    hS23.2.2.2.2.2.2.2.2.2.2.2.2.2.2.2.2.2.2.2.2.2.2.2.2.2.2.2.2.2.2.2.2.2.2.2.2.2.2.2.2.2.2.2.2.2.2.1
    hS23.2.2.2.2.2.2.2.2.2.2.2.2.2.2.2.2.2.2.2.2.2.2.2.2.2.2.2.2.2.2.2.2.2.2.2.2.2.2.2.2.2.2.2.2.2.2.2.1
    hS23.2.2.2.2.2.2.2.2.2.2.2.2.2.2.2.2.2.2.2.2.2.2.2.2.2.2.2.2.2.2.2.2.2.2.2.2.2.2.2.2.2.2.2.2.2.2.2.2.1
    hS23.2.2.2.2.2.2.2.2.2.2.2.2.2.2.2.2.2.2.2.2.2.2.2.2.2.2.2.2.2.2.2.2.2.2.2.2.2.2.2.2.2.2.2.2.2.2.2.2.2.1
    hS23.2.2.2.2.2.2.2.2.2.2.2.2.2.2.2.2.2.2.2.2.2.2.2.2.2.2.2.2.2.2.2.2.2.2.2.2.2.2.2.2.2.2.2.2.2.2.2.2.2.2.1
    hS23.2.2.2.2.2.2.2.2.2.2.2.2.2.2.2.2.2.2.2.2.2.2.2.2.2.2.2.2.2.2.2.2.2.2.2.2.2.2.2.2.2.2.2.2.2.2.2.2.2.2.2.1
    hS23.2.2.2.2.2.2.2.2.2.2.2.2.2.2.2.2.2.2.2.2.2.2.2.2.2.2.2.2.2.2.2.2.2.2.2.2.2.2.2.2.2.2.2.2.2.2.2.2.2.2.2.2.1
    hS23.2.2.2.2.2.2.2.2.2.2.2.2.2.2.2.2.2.2.2.2.2.2.2.2.2.2.2.2.2.2.2.2.2.2.2.2.2.2.2.2.2.2.2.2.2.2.2.2.2.2.2.2.2.1
    hS23.2.2.2.2.2.2.2.2.2.2.2.2.2.2.2.2.2.2.2.2.2.2.2.2.2.2.2.2.2.2.2.2.2.2.2.2.2.2.2.2.2.2.2.2.2.2.2.2.2.2.2.2.2.2
  have hS25 := loadStage25 A data _ hS24.1 hkeys25 hA25 hS24.2.1 hS24.2.2.1 hS24.2.2.2.1
    hS24.2.2.2.2.1 hS24.2.2.2.2.2.1 hS24.2.2.2.2.2.2.1 hS24.2.2.2.2.2.2.2.1
    hS24.2.2.2.2.2.2.2.2.1 hS24.2.2.2.2.2.2.2.2.2.1 hS24.2.2.2.2.2.2.2.2.2.2.1
    hS24.2.2.2.2.2.2.2.2.2.2.2.1 hS24.2.2.2.2.2.2.2.2.2.2.2.2.1 hS24.2.2.2.2.2.2.2.2.2.2.2.2.2.1
    hS24.2.2.2.2.2.2.2.2.2.2.2.2.2.2.1 hS24.2.2.2.2.2.2.2.2.2.2.2.2.2.2.2.1
    hS24.2.2.2.2.2.2.2.2.2.2.2.2.2.2.2.2.1 hS24.2.2.2.2.2.2.2.2.2.2.2.2.2.2.2.2.2.1
    hS24.2.2.2.2.2.2.2.2.2.2.2.2.2.2.2.2.2.2.1 hS24.2.2.2.2.2.2.2.2.2.2.2.2.2.2.2.2.2.2.2.1
    hS24.2.2.2.2.2.2.2.2.2.2.2.2.2.2.2.2.2.2.2.2.1
    hS24.2.2.2.2.2.2.2.2.2.2.2.2.2.2.2.2.2.2.2.2.2.1
    hS24.2.2.2.2.2.2.2.2.2.2.2.2.2.2.2.2.2.2.2.2.2.2.1
    hS24.2.2.2.2.2.2.2.2.2.2.2.2.2.2.2.2.2.2.2.2.2.2.2.1
    hS24.2.2.2.2.2.2.2.2.2.2.2.2.2.2.2.2.2.2.2.2.2.2.2.2.1
    hS24.2.2.2.2.2.2.2.2.2.2.2.2.2.2.2.2.2.2.2.2.2.2.2.2.2.1
    hS24.2.2.2.2.2.2.2.2.2.2.2.2.2.2.2.2.2.2.2.2.2.2.2.2.2.2.1
    hS24.2.2.2.2.2.2.2.2.2.2.2.2.2.2.2.2.2.2.2.2.2.2.2.2.2.2.2.1
    hS24.2.2.2.2.2.2.2.2.2.2.2.2.2.2.2.2.2.2.2.2.2.2.2.2.2.2.2.2.1
    hS24.2.2.2.2.2.2.2.2.2.2.2.2.2.2.2.2.2.2.2.2.2.2.2.2.2.2.2.2.2.1
    hS24.2.2.2.2.2.2.2.2.2.2.2.2.2.2.2.2.2.2.2.2.2.2.2.2.2.2.2.2.2.2.1
    hS24.2.2.2.2.2.2.2.2.2.2.2.2.2.2.2.2.2.2.2.2.2.2.2.2.2.2.2.2.2.2.2.1
    hS24.2.2.2.2.2.2.2.2.2.2.2.2.2.2.2.2.2.2.2.2.2.2.2.2.2.2.2.2.2.2.2.2.1
    hS24.2.2.2.2.2.2.2.2.2.2.2.2.2.2.2.2.2.2.2.2.2.2.2.2.2.2.2.2.2.2.2.2.2.1
    hS24.2.2.2.2.2.2.2.2.2.2.2.2.2.2.2.2.2.2.2.2.2.2.2.2.2.2.2.2.2.2.2.2.2.2.1
    hS24.2.2.2.2.2.2.2.2.2.2.2.2.2.2.2.2.2.2.2.2.2.2.2.2.2.2.2.2.2.2.2.2.2.2.2.1
    hS24.2.2.2.2.2.2.2.2.2.2.2.2.2.2.2.2.2.2.2.2.2.2.2.2.2.2.2.2.2.2.2.2.2.2.2.2.1
    hS24.2.2.2.2.2.2.2.2.2.2.2.2.2.2.2.2.2.2.2.2.2.2.2.2.2.2.2.2.2.2.2.2.2.2.2.2.2.1
    hS24.2.2.2.2.2.2.2.2.2.2.2.2.2.2.2.2.2.2.2.2.2.2.2.2.2.2.2.2.2.2.2.2.2.2.2.2.2.2.1
    hS24.2.2.2.2.2.2.2.2.2.2.2.2.2.2.2.2.2.2.2.2.2.2.2.2.2.2.2.2.2.2.2.2.2.2.2.2.2.2.2.1
    hS24.2.2.2.2.2.2.2.2.2.2.2.2.2.2.2.2.2.2.2.2.2.2.2.2.2.2.2.2.2.2.2.2.2.2.2.2.2.2.2.2.1
    hS24.2.2.2.2.2.2.2.2.2.2.2.2.2.2.2.2.2.2.2.2.2.2.2.2.2.2.2.2.2.2.2.2.2.2.2.2.2.2.2.2.2.1
    hS24.2.2.2.2.2.2.2.2.2.2.2.2.2.2.2.2.2.2.2.2.2.2.2.2.2.2.2.2.2.2.2.2.2.2.2.2.2.2.2.2.2.2.1
    hS24.2.2.2.2.2.2.2.2.2.2.2.2.2.2.2.2.2.2.2.2.2.2.2.2.2.2.2.2.2.2.2.2.2.2.2.2.2.2.2.2.2.2.2.1
    hS24.2.2.2.2.2.2.2.2.2.2.2.2.2.2.2.2.2.2.2.2.2.2.2.2.2.2.2.2.2.2.2.2.2.2.2.2.2.2.2.2.2.2.2.2.1
    hS24.2.2.2.2.2.2.2.2.2.2.2.2.2.2.2.2.2.2.2.2.2.2.2.2.2.2.2.2.2.2.2.2.2.2.2.2.2.2.2.2.2.2.2.2.2.1
    hS24.2.2.2.2.2.2.2.2.2.2.2.2.2.2.2.2.2.2.2.2.2.2.2.2.2.2.2.2.2.2.2.2.2.2.2.2.2.2.2.2.2.2.2.2.2.2.1
    hS24.2.2.2.2.2.2.2.2.2.2.2.2.2.2.2.2.2.2.2.2.2.2.2.2.2.2.2.2.2.2.2.2.2.2.2.2.2.2.2.2.2.2.2.2.2.2.2.1
    hS24.2.2.2.2.2.2.2.2.2.2.2.2.2.2.2.2.2.2.2.2.2.2.2.2.2.2.2.2.2.2.2.2.2.2.2.2.2.2.2.2.2.2.2.2.2.2.2.2.1
    hS24.2.2.2.2.2.2.2.2.2.2.2.2.2.2.2.2.2.2.2.2.2.2.2.2.2.2.2.2.2.2.2.2.2.2.2.2.2.2.2.2.2.2.2.2.2.2.2.2.2.1
    hS24.2.2.2.2.2.2.2.2.2.2.2.2.2.2.2.2.2.2.2.2.2.2.2.2.2.2.2.2.2.2.2.2.2.2.2.2.2.2.2.2.2.2.2.2.2.2.2.2.2.2.1
    hS24.2.2.2.2.2.2.2.2.2.2.2.2.2.2.2.2.2.2.2.2.2.2.2.2.2.2.2.2.2.2.2.2.2.2.2.2.2.2.2.2.2.2.2.2.2.2.2.2.2.2.2.1
    hS24.2.2.2.2.2.2.2.2.2.2.2.2.2.2.2.2.2.2.2.2.2.2.2.2.2.2.2.2.2.2.2.2.2.2.2.2.2.2.2.2.2.2.2.2.2.2.2.2.2.2.2.2.1
    hS24.2.2.2.2.2.2.2.2.2.2.2.2.2.2.2.2.2.2.2.2.2.2.2.2.2.2.2.2.2.2.2.2.2.2.2.2.2.2.2.2.2.2.2.2.2.2.2.2.2.2.2.2.2.1
    hS24.2.2.2.2.2.2.2.2.2.2.2.2.2.2.2.2.2.2.2.2.2.2.2.2.2.2.2.2.2.2.2.2.2.2.2.2.2.2.2.2.2.2.2.2.2.2.2.2.2.2.2.2.2.2.1
    hS24.2.2.2.2.2.2.2.2.2.2.2.2.2.2.2.2.2.2.2.2.2.2.2.2.2.2.2.2.2.2.2.2.2.2.2.2.2.2.2.2.2.2.2.2.2.2.2.2.2.2.2.2.2.2.2
  have hS26 := loadStage26 A data _ hS25.1 hkeys26 hA26 hS25.2.1 hS25.2.2.1 hS25.2.2.2.1
    hS25.2.2.2.2.1 hS25.2.2.2.2.2.1 hS25.2.2.2.2.2.2.1 hS25.2.2.2.2.2.2.2.1
    hS25.2.2.2.2.2.2.2.2.1 hS25.2.2.2.2.2.2.2.2.2.1 hS25.2.2.2.2.2.2.2.2.2.2.1
    hS25.2.2.2.2.2.2.2.2.2.2.2.1 hS25.2.2.2.2.2.2.2.2.2.2.2.2.1 hS25.2.2.2.2.2.2.2.2.2.2.2.2.2.1
    hS25.2.2.2.2.2.2.2.2.2.2.2.2.2.2.1 hS25.2.2.2.2.2.2.2.2.2.2.2.2.2.2.2.1
    hS25.2.2.2.2.2.2.2.2.2.2.2.2.2.2.2.2.1 hS25.2.2.2.2.2.2.2.2.2.2.2.2.2.2.2.2.2.1
    hS25.2.2.2.2.2.2.2.2.2.2.2.2.2.2.2.2.2.2.1 hS25.2.2.2.2.2.2.2.2.2.2.2.2.2.2.2.2.2.2.2.1
    hS25.2.2.2.2.2.2.2.2.2.2.2.2.2.2.2.2.2.2.2.2.1
    hS25.2.2.2.2.2.2.2.2.2.2.2.2.2.2.2.2.2.2.2.2.2.1
    hS25.2.2.2.2.2.2.2.2.2.2.2.2.2.2.2.2.2.2.2.2.2.2.1
    hS25.2.2.2.2.2.2.2.2.2.2.2.2.2.2.2.2.2.2.2.2.2.2.2.1
    hS25.2.2.2.2.2.2.2.2.2.2.2.2.2.2.2.2.2.2.2.2.2.2.2.2.1
    hS25.2.2.2.2.2.2.2.2.2.2.2.2.2.2.2.2.2.2.2.2.2.2.2.2.2.1
    hS25.2.2.2.2.2.2.2.2.2.2.2.2.2.2.2.2.2.2.2.2.2.2.2.2.2.2.1
    hS25.2.2.2.2.2.2.2.2.2.2.2.2.2.2.2.2.2.2.2.2.2.2.2.2.2.2.2.1
    hS25.2.2.2.2.2.2.2.2.2.2.2.2.2.2.2.2.2.2.2.2.2.2.2.2.2.2.2.2.1
    hS25.2.2.2.2.2.2.2.2.2.2.2.2.2.2.2.2.2.2.2.2.2.2.2.2.2.2.2.2.2.1
    hS25.2.2.2.2.2.2.2.2.2.2.2.2.2.2.2.2.2.2.2.2.2.2.2.2.2.2.2.2.2.2.1
    hS25.2.2.2.2.2.2.2.2.2.2.2.2.2.2.2.2.2.2.2.2.2.2.2.2.2.2.2.2.2.2.2.1
    hS25.2.2.2.2.2.2.2.2.2.2.2.2.2.2.2.2.2.2.2.2.2.2.2.2.2.2.2.2.2.2.2.2.1
    hS25.2.2.2.2.2.2.2.2.2.2.2.2.2.2.2.2.2.2.2.2.2.2.2.2.2.2.2.2.2.2.2.2.2.1
    hS25.2.2.2.2.2.2.2.2.2.2.2.2.2.2.2.2.2.2.2.2.2.2.2.2.2.2.2.2.2.2.2.2.2.2.1
    hS25.2.2.2.2.2.2.2.2.2.2.2.2.2.2.2.2.2.2.2.2.2.2.2.2.2.2.2.2.2.2.2.2.2.2.2.1
    hS25.2.2.2.2.2.2.2.2.2.2.2.2.2.2.2.2.2.2.2.2.2.2.2.2.2.2.2.2.2.2.2.2.2.2.2.2.1
    hS25.2.2.2.2.2.2.2.2.2.2.2.2.2.2.2.2.2.2.2.2.2.2.2.2.2.2.2.2.2.2.2.2.2.2.2.2.2.1
    hS25.2.2.2.2.2.2.2.2.2.2.2.2.2.2.2.2.2.2.2.2.2.2.2.2.2.2.2.2.2.2.2.2.2.2.2.2.2.2.1
    hS25.2.2.2.2.2.2.2.2.2.2.2.2.2.2.2.2.2.2.2.2.2.2.2.2.2.2.2.2.2.2.2.2.2.2.2.2.2.2.2.1
    hS25.2.2.2.2.2.2.2.2.2.2.2.2.2.2.2.2.2.2.2.2.2.2.2.2.2.2.2.2.2.2.2.2.2.2.2.2.2.2.2.2.1
    hS25.2.2.2.2.2.2.2.2.2.2.2.2.2.2.2.2.2.2.2.2.2.2.2.2.2.2.2.2.2.2.2.2.2.2.2.2.2.2.2.2.2.1
    hS25.2.2.2.2.2.2.2.2.2.2.2.2.2.2.2.2.2.2.2.2.2.2.2.2.2.2.2.2.2.2.2.2.2.2.2.2.2.2.2.2.2.2.1
    hS25.2.2.2.2.2.2.2.2.2.2.2.2.2.2.2.2.2.2.2.2.2.2.2.2.2.2.2.2.2.2.2.2.2.2.2.2.2.2.2.2.2.2.2.1
    hS25.2.2.2.2.2.2.2.2.2.2.2.2.2.2.2.2.2.2.2.2.2.2.2.2.2.2.2.2.2.2.2.2.2.2.2.2.2.2.2.2.2.2.2.2.1
    hS25.2.2.2.2.2.2.2.2.2.2.2.2.2.2.2.2.2.2.2.2.2.2.2.2.2.2.2.2.2.2.2.2.2.2.2.2.2.2.2.2.2.2.2.2.2.1
    hS25.2.2.2.2.2.2.2.2.2.2.2.2.2.2.2.2.2.2.2.2.2.2.2.2.2.2.2.2.2.2.2.2.2.2.2.2.2.2.2.2.2.2.2.2.2.2.1
    hS25.2.2.2.2.2.2.2.2.2.2.2.2.2.2.2.2.2.2.2.2.2.2.2.2.2.2.2.2.2.2.2.2.2.2.2.2.2.2.2.2.2.2.2.2.2.2.2.1
    hS25.2.2.2.2.2.2.2.2.2.2.2.2.2.2.2.2.2.2.2.2.2.2.2.2.2.2.2.2.2.2.2.2.2.2.2.2.2.2.2.2.2.2.2.2.2.2.2.2.1
    hS25.2.2.2.2.2.2.2.2.2.2.2.2.2.2.2.2.2.2.2.2.2.2.2.2.2.2.2.2.2.2.2.2.2.2.2.2.2.2.2.2.2.2.2.2.2.2.2.2.2.1
    hS25.2.2.2.2.2.2.2.2.2.2.2.2.2.2.2.2.2.2.2.2.2.2.2.2.2.2.2.2.2.2.2.2.2.2.2.2.2.2.2.2.2.2.2.2.2.2.2.2.2.2.1
    hS25.2.2.2.2.2.2.2.2.2.2.2.2.2.2.2.2.2.2.2.2.2.2.2.2.2.2.2.2.2.2.2.2.2.2.2.2.2.2.2.2.2.2.2.2.2.2.2.2.2.2.2.1
    hS25.2.2.2.2.2.2.2.2.2.2.2.2.2.2.2.2.2.2.2.2.2.2.2.2.2.2.2.2.2.2.2.2.2.2.2.2.2.2.2.2.2.2.2.2.2.2.2.2.2.2.2.2.1
    hS25.2.2.2.2.2.2.2.2.2.2.2.2.2.2.2.2.2.2.2.2.2.2.2.2.2.2.2.2.2.2.2.2.2.2.2.2.2.2.2.2.2.2.2.2.2.2.2.2.2.2.2.2.2.1
    hS25.2.2.2.2.2.2.2.2.2.2.2.2.2.2.2.2.2.2.2.2.2.2.2.2.2.2.2.2.2.2.2.2.2.2.2.2.2.2.2.2.2.2.2.2.2.2.2.2.2.2.2.2.2.2.1
    hS25.2.2.2.2.2.2.2.2.2.2.2.2.2.2.2.2.2.2.2.2.2.2.2.2.2.2.2.2.2.2.2.2.2.2.2.2.2.2.2.2.2.2.2.2.2.2.2.2.2.2.2.2.2.2.2.1
    hS25.2.2.2.2.2.2.2.2.2.2.2.2.2.2.2.2.2.2.2.2.2.2.2.2.2.2.2.2.2.2.2.2.2.2.2.2.2.2.2.2.2.2.2.2.2.2.2.2.2.2.2.2.2.2.2.2
  have hS27 := loadStage27 A data _ hS26.1 hkeys27 hA27 hS26.2.1 hS26.2.2.1 hS26.2.2.2.1
    hS26.2.2.2.2.1 hS26.2.2.2.2.2.1 hS26.2.2.2.2.2.2.1 hS26.2.2.2.2.2.2.2.1
    hS26.2.2.2.2.2.2.2.2.1 hS26.2.2.2.2.2.2.2.2.2.1 hS26.2.2.2.2.2.2.2.2.2.2.1
    hS26.2.2.2.2.2.2.2.2.2.2.2.1 hS26.2.2.2.2.2.2.2.2.2.2.2.2.1 hS26.2.2.2.2.2.2.2.2.2.2.2.2.2.1
    hS26.2.2.2.2.2.2.2.2.2.2.2.2.2.2.1 hS26.2.2.2.2.2.2.2.2.2.2.2.2.2.2.2.1
    hS26.2.2.2.2.2.2.2.2.2.2.2.2.2.2.2.2.1 hS26.2.2.2.2.2.2.2.2.2.2.2.2.2.2.2.2.2.1
    hS26.2.2.2.2.2.2.2.2.2.2.2.2.2.2.2.2.2.2.1 hS26.2.2.2.2.2.2.2.2.2.2.2.2.2.2.2.2.2.2.2.1
    hS26.2.2.2.2.2.2.2.2.2.2.2.2.2.2.2.2.2.2.2.2.1
    hS26.2.2.2.2.2.2.2.2.2.2.2.2.2.2.2.2.2.2.2.2.2.1
    hS26.2.2.2.2.2.2.2.2.2.2.2.2.2.2.2.2.2.2.2.2.2.2.1
    hS26.2.2.2.2.2.2.2.2.2.2.2.2.2.2.2.2.2.2.2.2.2.2.2.1
    hS26.2.2.2.2.2.2.2.2.2.2.2.2.2.2.2.2.2.2.2.2.2.2.2.2.1
    hS26.2.2.2.2.2.2.2.2.2.2.2.2.2.2.2.2.2.2.2.2.2.2.2.2.2.1
    hS26.2.2.2.2.2.2.2.2.2.2.2.2.2.2.2.2.2.2.2.2.2.2.2.2.2.2.1
    hS26.2.2.2.2.2.2.2.2.2.2.2.2.2.2.2.2.2.2.2.2.2.2.2.2.2.2.2.1
    hS26.2.2.2.2.2.2.2.2.2.2.2.2.2.2.2.2.2.2.2.2.2.2.2.2.2.2.2.2.1
    hS26.2.2.2.2.2.2.2.2.2.2.2.2.2.2.2.2.2.2.2.2.2.2.2.2.2.2.2.2.2.1
    hS26.2.2.2.2.2.2.2.2.2.2.2.2.2.2.2.2.2.2.2.2.2.2.2.2.2.2.2.2.2.2.1
    hS26.2.2.2.2.2.2.2.2.2.2.2.2.2.2.2.2.2.2.2.2.2.2.2.2.2.2.2.2.2.2.2.1
    hS26.2.2.2.2.2.2.2.2.2.2.2.2.2.2.2.2.2.2.2.2.2.2.2.2.2.2.2.2.2.2.2.2.1
    hS26.2.2.2.2.2.2.2.2.2.2.2.2.2.2.2.2.2.2.2.2.2.2.2.2.2.2.2.2.2.2.2.2.2.1
    hS26.2.2.2.2.2.2.2.2.2.2.2.2.2.2.2.2.2.2.2.2.2.2.2.2.2.2.2.2.2.2.2.2.2.2.1
    hS26.2.2.2.2.2.2.2.2.2.2.2.2.2.2.2.2.2.2.2.2.2.2.2.2.2.2.2.2.2.2.2.2.2.2.2.1
    hS26.2.2.2.2.2.2.2.2.2.2.2.2.2.2.2.2.2.2.2.2.2.2.2.2.2.2.2.2.2.2.2.2.2.2.2.2.1
    hS26.2.2.2.2.2.2.2.2.2.2.2.2.2.2.2.2.2.2.2.2.2.2.2.2.2.2.2.2.2.2.2.2.2.2.2.2.2.1
    hS26.2.2.2.2.2.2.2.2.2.2.2.2.2.2.2.2.2.2.2.2.2.2.2.2.2.2.2.2.2.2.2.2.2.2.2.2.2.2.1
    hS26.2.2.2.2.2.2.2.2.2.2.2.2.2.2.2.2.2.2.2.2.2.2.2.2.2.2.2.2.2.2.2.2.2.2.2.2.2.2.2.1
    hS26.2.2.2.2.2.2.2.2.2.2.2.2.2.2.2.2.2.2.2.2.2.2.2.2.2.2.2.2.2.2.2.2.2.2.2.2.2.2.2.2.1
    hS26.2.2.2.2.2.2.2.2.2.2.2.2.2.2.2.2.2.2.2.2.2.2.2.2.2.2.2.2.2.2.2.2.2.2.2.2.2.2.2.2.2.1
    hS26.2.2.2.2.2.2.2.2.2.2.2.2.2.2.2.2.2.2.2.2.2.2.2.2.2.2.2.2.2.2.2.2.2.2.2.2.2.2.2.2.2.2.1
    hS26.2.2.2.2.2.2.2.2.2.2.2.2.2.2.2.2.2.2.2.2.2.2.2.2.2.2.2.2.2.2.2.2.2.2.2.2.2.2.2.2.2.2.2.1
    hS26.2.2.2.2.2.2.2.2.2.2.2.2.2.2.2.2.2.2.2.2.2.2.2.2.2.2.2.2.2.2.2.2.2.2.2.2.2.2.2.2.2.2.2.2.1
    hS26.2.2.2.2.2.2.2.2.2.2.2.2.2.2.2.2.2.2.2.2.2.2.2.2.2.2.2.2.2.2.2.2.2.2.2.2.2.2.2.2.2.2.2.2.2.1
    hS26.2.2.2.2.2.2.2.2.2.2.2.2.2.2.2.2.2.2.2.2.2.2.2.2.2.2.2.2.2.2.2.2.2.2.2.2.2.2.2.2.2.2.2.2.2.2.1
    hS26.2.2.2.2.2.2.2.2.2.2.2.2.2.2.2.2.2.2.2.2.2.2.2.2.2.2.2.2.2.2.2.2.2.2.2.2.2.2.2.2.2.2.2.2.2.2.2.1
    hS26.2.2.2.2.2.2.2.2.2.2.2.2.2.2.2.2.2.2.2.2.2.2.2.2.2.2.2.2.2.2.2.2.2.2.2.2.2.2.2.2.2.2.2.2.2.2.2.2.1
    hS26.2.2.2.2.2.2.2.2.2.2.2.2.2.2.2.2.2.2.2.2.2.2.2.2.2.2.2.2.2.2.2.2.2.2.2.2.2.2.2.2.2.2.2.2.2.2.2.2.2.1
    hS26.2.2.2.2.2.2.2.2.2.2.2.2.2.2.2.2.2.2.2.2.2.2.2.2.2.2.2.2.2.2.2.2.2.2.2.2.2.2.2.2.2.2.2.2.2.2.2.2.2.2.1
    hS26.2.2.2.2.2.2.2.2.2.2.2.2.2.2.2.2.2.2.2.2.2.2.2.2.2.2.2.2.2.2.2.2.2.2.2.2.2.2.2.2.2.2.2.2.2.2.2.2.2.2.2.1
    hS26.2.2.2.2.2.2.2.2.2.2.2.2.2.2.2.2.2.2.2.2.2.2.2.2.2.2.2.2.2.2.2.2.2.2.2.2.2.2.2.2.2.2.2.2.2.2.2.2.2.2.2.2.1
    hS26.2.2.2.2.2.2.2.2.2.2.2.2.2.2.2.2.2.2.2.2.2.2.2.2.2.2.2.2.2.2.2.2.2.2.2.2.2.2.2.2.2.2.2.2.2.2.2.2.2.2.2.2.2.1
    hS26.2.2.2.2.2.2.2.2.2.2.2.2.2.2.2.2.2.2.2.2.2.2.2.2.2.2.2.2.2.2.2.2.2.2.2.2.2.2.2.2.2.2.2.2.2.2.2.2.2.2.2.2.2.2.1
    hS26.2.2.2.2.2.2.2.2.2.2.2.2.2.2.2.2.2.2.2.2.2.2.2.2.2.2.2.2.2.2.2.2.2.2.2.2.2.2.2.2.2.2.2.2.2.2.2.2.2.2.2.2.2.2.2.1
    hS26.2.2.2.2.2.2.2.2.2.2.2.2.2.2.2.2.2.2.2.2.2.2.2.2.2.2.2.2.2.2.2.2.2.2.2.2.2.2.2.2.2.2.2.2.2.2.2.2.2.2.2.2.2.2.2.2.1
    hS26.2.2.2.2.2.2.2.2.2.2.2.2.2.2.2.2.2.2.2.2.2.2.2.2.2.2.2.2.2.2.2.2.2.2.2.2.2.2.2.2.2.2.2.2.2.2.2.2.2.2.2.2.2.2.2.2.2
  have hS28 := loadStage28 A data _ hS27.1 hkeys28 hA28 hS27.2.1 hS27.2.2.1 hS27.2.2.2.1
    hS27.2.2.2.2.1 hS27.2.2.2.2.2.1 hS27.2.2.2.2.2.2.1 hS27.2.2.2.2.2.2.2.1
    hS27.2.2.2.2.2.2.2.2.1 hS27.2.2.2.2.2.2.2.2.2.1 hS27.2.2.2.2.2.2.2.2.2.2.1
    hS27.2.2.2.2.2.2.2.2.2.2.2.1 hS27.2.2.2.2.2.2.2.2.2.2.2.2.1 hS27.2.2.2.2.2.2.2.2.2.2.2.2.2.1
    hS27.2.2.2.2.2.2.2.2.2.2.2.2.2.2.1 hS27.2.2.2.2.2.2.2.2.2.2.2.2.2.2.2.1
    hS27.2.2.2.2.2.2.2.2.2.2.2.2.2.2.2.2.1 hS27.2.2.2.2.2.2.2.2.2.2.2.2.2.2.2.2.2.1
    hS27.2.2.2.2.2.2.2.2.2.2.2.2.2.2.2.2.2.2.1 hS27.2.2.2.2.2.2.2.2.2.2.2.2.2.2.2.2.2.2.2.1
    hS27.2.2.2.2.2.2.2.2.2.2.2.2.2.2.2.2.2.2.2.2.1
    hS27.2.2.2.2.2.2.2.2.2.2.2.2.2.2.2.2.2.2.2.2.2.1
    hS27.2.2.2.2.2.2.2.2.2.2.2.2.2.2.2.2.2.2.2.2.2.2.1
    hS27.2.2.2.2.2.2.2.2.2.2.2.2.2.2.2.2.2.2.2.2.2.2.2.1
    hS27.2.2.2.2.2.2.2.2.2.2.2.2.2.2.2.2.2.2.2.2.2.2.2.2.1
    hS27.2.2.2.2.2.2.2.2.2.2.2.2.2.2.2.2.2.2.2.2.2.2.2.2.2.1
    hS27.2.2.2.2.2.2.2.2.2.2.2.2.2.2.2.2.2.2.2.2.2.2.2.2.2.2.1
    hS27.2.2.2.2.2.2.2.2.2.2.2.2.2.2.2.2.2.2.2.2.2.2.2.2.2.2.2.1
    hS27.2.2.2.2.2.2.2.2.2.2.2.2.2.2.2.2.2.2.2.2.2.2.2.2.2.2.2.2.1
    hS27.2.2.2.2.2.2.2.2.2.2.2.2.2.2.2.2.2.2.2.2.2.2.2.2.2.2.2.2.2.1
    hS27.2.2.2.2.2.2.2.2.2.2.2.2.2.2.2.2.2.2.2.2.2.2.2.2.2.2.2.2.2.2.1
    hS27.2.2.2.2.2.2.2.2.2.2.2.2.2.2.2.2.2.2.2.2.2.2.2.2.2.2.2.2.2.2.2.1
    hS27.2.2.2.2.2.2.2.2.2.2.2.2.2.2.2.2.2.2.2.2.2.2.2.2.2.2.2.2.2.2.2.2.1
    hS27.2.2.2.2.2.2.2.2.2.2.2.2.2.2.2.2.2.2.2.2.2.2.2.2.2.2.2.2.2.2.2.2.2.1
    hS27.2.2.2.2.2.2.2.2.2.2.2.2.2.2.2.2.2.2.2.2.2.2.2.2.2.2.2.2.2.2.2.2.2.2.1
    hS27.2.2.2.2.2.2.2.2.2.2.2.2.2.2.2.2.2.2.2.2.2.2.2.2.2.2.2.2.2.2.2.2.2.2.2.1
    hS27.2.2.2.2.2.2.2.2.2.2.2.2.2.2.2.2.2.2.2.2.2.2.2.2.2.2.2.2.2.2.2.2.2.2.2.2.1
    hS27.2.2.2.2.2.2.2.2.2.2.2.2.2.2.2.2.2.2.2.2.2.2.2.2.2.2.2.2.2.2.2.2.2.2.2.2.2.1
    hS27.2.2.2.2.2.2.2.2.2.2.2.2.2.2.2.2.2.2.2.2.2.2.2.2.2.2.2.2.2.2.2.2.2.2.2.2.2.2.1
    hS27.2.2.2.2.2.2.2.2.2.2.2.2.2.2.2.2.2.2.2.2.2.2.2.2.2.2.2.2.2.2.2.2.2.2.2.2.2.2.2.1
    hS27.2.2.2.2.2.2.2.2.2.2.2.2.2.2.2.2.2.2.2.2.2.2.2.2.2.2.2.2.2.2.2.2.2.2.2.2.2.2.2.2.1
    hS27.2.2.2.2.2.2.2.2.2.2.2.2.2.2.2.2.2.2.2.2.2.2.2.2.2.2.2.2.2.2.2.2.2.2.2.2.2.2.2.2.2.1
    hS27.2.2.2.2.2.2.2.2.2.2.2.2.2.2.2.2.2.2.2.2.2.2.2.2.2.2.2.2.2.2.2.2.2.2.2.2.2.2.2.2.2.2.1
    hS27.2.2.2.2.2.2.2.2.2.2.2.2.2.2.2.2.2.2.2.2.2.2.2.2.2.2.2.2.2.2.2.2.2.2.2.2.2.2.2.2.2.2.2.1
    hS27.2.2.2.2.2.2.2.2.2.2.2.2.2.2.2.2.2.2.2.2.2.2.2.2.2.2.2.2.2.2.2.2.2.2.2.2.2.2.2.2.2.2.2.2.1
    hS27.2.2.2.2.2.2.2.2.2.2.2.2.2.2.2.2.2.2.2.2.2.2.2.2.2.2.2.2.2.2.2.2.2.2.2.2.2.2.2.2.2.2.2.2.2.1
    hS27.2.2.2.2.2.2.2.2.2.2.2.2.2.2.2.2.2.2.2.2.2.2.2.2.2.2.2.2.2.2.2.2.2.2.2.2.2.2.2.2.2.2.2.2.2.2.1
    hS27.2.2.2.2.2.2.2.2.2.2.2.2.2.2.2.2.2.2.2.2.2.2.2.2.2.2.2.2.2.2.2.2.2.2.2.2.2.2.2.2.2.2.2.2.2.2.2.1
    hS27.2.2.2.2.2.2.2.2.2.2.2.2.2.2.2.2.2.2.2.2.2.2.2.2.2.2.2.2.2.2.2.2.2.2.2.2.2.2.2.2.2.2.2.2.2.2.2.2.1
    hS27.2.2.2.2.2.2.2.2.2.2.2.2.2.2.2.2.2.2.2.2.2.2.2.2.2.2.2.2.2.2.2.2.2.2.2.2.2.2.2.2.2.2.2.2.2.2.2.2.2.1
    hS27.2.2.2.2.2.2.2.2.2.2.2.2.2.2.2.2.2.2.2.2.2.2.2.2.2.2.2.2.2.2.2.2.2.2.2.2.2.2.2.2.2.2.2.2.2.2.2.2.2.2.1
    hS27.2.2.2.2.2.2.2.2.2.2.2.2.2.2.2.2.2.2.2.2.2.2.2.2.2.2.2.2.2.2.2.2.2.2.2.2.2.2.2.2.2.2.2.2.2.2.2.2.2.2.2.1
    hS27.2.2.2.2.2.2.2.2.2.2.2.2.2.2.2.2.2.2.2.2.2.2.2.2.2.2.2.2.2.2.2.2.2.2.2.2.2.2.2.2.2.2.2.2.2.2.2.2.2.2.2.2.1
    hS27.2.2.2.2.2.2.2.2.2.2.2.2.2.2.2.2.2.2.2.2.2.2.2.2.2.2.2.2.2.2.2.2.2.2.2.2.2.2.2.2.2.2.2.2.2.2.2.2.2.2.2.2.2.1
    hS27.2.2.2.2.2.2.2.2.2.2.2.2.2.2.2.2.2.2.2.2.2.2.2.2.2.2.2.2.2.2.2.2.2.2.2.2.2.2.2.2.2.2.2.2.2.2.2.2.2.2.2.2.2.2.1
    hS27.2.2.2.2.2.2.2.2.2.2.2.2.2.2.2.2.2.2.2.2.2.2.2.2.2.2.2.2.2.2.2.2.2.2.2.2.2.2.2.2.2.2.2.2.2.2.2.2.2.2.2.2.2.2.2.1
    hS27.2.2.2.2.2.2.2.2.2.2.2.2.2.2.2.2.2.2.2.2.2.2.2.2.2.2.2.2.2.2.2.2.2.2.2.2.2.2.2.2.2.2.2.2.2.2.2.2.2.2.2.2.2.2.2.2.1
    hS27.2.2.2.2.2.2.2.2.2.2.2.2.2.2.2.2.2.2.2.2.2.2.2.2.2.2.2.2.2.2.2.2.2.2.2.2.2.2.2.2.2.2.2.2.2.2.2.2.2.2.2.2.2.2.2.2.2.1
    hS27.2.2.2.2.2.2.2.2.2.2.2.2.2.2.2.2.2.2.2.2.2.2.2.2.2.2.2.2.2.2.2.2.2.2.2.2.2.2.2.2.2.2.2.2.2.2.2.2.2.2.2.2.2.2.2.2.2.2
  have hS29 := loadStage29 A data _ hS28.1 hkeys29 hA29 hS28.2.1 hS28.2.2.1 hS28.2.2.2.1
    hS28.2.2.2.2.1 hS28.2.2.2.2.2.1 hS28.2.2.2.2.2.2.1 hS28.2.2.2.2.2.2.2.1
    hS28.2.2.2.2.2.2.2.2.1 hS28.2.2.2.2.2.2.2.2.2.1 hS28.2.2.2.2.2.2.2.2.2.2.1
    hS28.2.2.2.2.2.2.2.2.2.2.2.1 hS28.2.2.2.2.2.2.2.2.2.2.2.2.1 hS28.2.2.2.2.2.2.2.2.2.2.2.2.2.1
    hS28.2.2.2.2.2.2.2.2.2.2.2.2.2.2.1 hS28.2.2.2.2.2.2.2.2.2.2.2.2.2.2.2.1
    hS28.2.2.2.2.2.2.2.2.2.2.2.2.2.2.2.2.1 hS28.2.2.2.2.2.2.2.2.2.2.2.2.2.2.2.2.2.1
    hS28.2.2.2.2.2.2.2.2.2.2.2.2.2.2.2.2.2.2.1 hS28.2.2.2.2.2.2.2.2.2.2.2.2.2.2.2.2.2.2.2.1
    hS28.2.2.2.2.2.2.2.2.2.2.2.2.2.2.2.2.2.2.2.2.1
    hS28.2.2.2.2.2.2.2.2.2.2.2.2.2.2.2.2.2.2.2.2.2.1
    hS28.2.2.2.2.2.2.2.2.2.2.2.2.2.2.2.2.2.2.2.2.2.2.1
    hS28.2.2.2.2.2.2.2.2.2.2.2.2.2.2.2.2.2.2.2.2.2.2.2.1
    hS28.2.2.2.2.2.2.2.2.2.2.2.2.2.2.2.2.2.2.2.2.2.2.2.2.1
    hS28.2.2.2.2.2.2.2.2.2.2.2.2.2.2.2.2.2.2.2.2.2.2.2.2.2.1
    hS28.2.2.2.2.2.2.2.2.2.2.2.2.2.2.2.2.2.2.2.2.2.2.2.2.2.2.1
    hS28.2.2.2.2.2.2.2.2.2.2.2.2.2.2.2.2.2.2.2.2.2.2.2.2.2.2.2.1
    hS28.2.2.2.2.2.2.2.2.2.2.2.2.2.2.2.2.2.2.2.2.2.2.2.2.2.2.2.2.1
    hS28.2.2.2.2.2.2.2.2.2.2.2.2.2.2.2.2.2.2.2.2.2.2.2.2.2.2.2.2.2.1
    hS28.2.2.2.2.2.2.2.2.2.2.2.2.2.2.2.2.2.2.2.2.2.2.2.2.2.2.2.2.2.2.1
    hS28.2.2.2.2.2.2.2.2.2.2.2.2.2.2.2.2.2.2.2.2.2.2.2.2.2.2.2.2.2.2.2.1
    hS28.2.2.2.2.2.2.2.2.2.2.2.2.2.2.2.2.2.2.2.2.2.2.2.2.2.2.2.2.2.2.2.2.1
    hS28.2.2.2.2.2.2.2.2.2.2.2.2.2.2.2.2.2.2.2.2.2.2.2.2.2.2.2.2.2.2.2.2.2.1
    hS28.2.2.2.2.2.2.2.2.2.2.2.2.2.2.2.2.2.2.2.2.2.2.2.2.2.2.2.2.2.2.2.2.2.2.1
    hS28.2.2.2.2.2.2.2.2.2.2.2.2.2.2.2.2.2.2.2.2.2.2.2.2.2.2.2.2.2.2.2.2.2.2.2.1
    hS28.2.2.2.2.2.2.2.2.2.2.2.2.2.2.2.2.2.2.2.2.2.2.2.2.2.2.2.2.2.2.2.2.2.2.2.2.1
    hS28.2.2.2.2.2.2.2.2.2.2.2.2.2.2.2.2.2.2.2.2.2.2.2.2.2.2.2.2.2.2.2.2.2.2.2.2.2.1
    hS28.2.2.2.2.2.2.2.2.2.2.2.2.2.2.2.2.2.2.2.2.2.2.2.2.2.2.2.2.2.2.2.2.2.2.2.2.2.2.1
    hS28.2.2.2.2.2.2.2.2.2.2.2.2.2.2.2.2.2.2.2.2.2.2.2.2.2.2.2.2.2.2.2.2.2.2.2.2.2.2.2.1
    hS28.2.2.2.2.2.2.2.2.2.2.2.2.2.2.2.2.2.2.2.2.2.2.2.2.2.2.2.2.2.2.2.2.2.2.2.2.2.2.2.2.1
    hS28.2.2.2.2.2.2.2.2.2.2.2.2.2.2.2.2.2.2.2.2.2.2.2.2.2.2.2.2.2.2.2.2.2.2.2.2.2.2.2.2.2.1
    hS28.2.2.2.2.2.2.2.2.2.2.2.2.2.2.2.2.2.2.2.2.2.2.2.2.2.2.2.2.2.2.2.2.2.2.2.2.2.2.2.2.2.2.1
    hS28.2.2.2.2.2.2.2.2.2.2.2.2.2.2.2.2.2.2.2.2.2.2.2.2.2.2.2.2.2.2.2.2.2.2.2.2.2.2.2.2.2.2.2.1
    hS28.2.2.2.2.2.2.2.2.2.2.2.2.2.2.2.2.2.2.2.2.2.2.2.2.2.2.2.2.2.2.2.2.2.2.2.2.2.2.2.2.2.2.2.2.1
    hS28.2.2.2.2.2.2.2.2.2.2.2.2.2.2.2.2.2.2.2.2.2.2.2.2.2.2.2.2.2.2.2.2.2.2.2.2.2.2.2.2.2.2.2.2.2.1
    hS28.2.2.2.2.2.2.2.2.2.2.2.2.2.2.2.2.2.2.2.2.2.2.2.2.2.2.2.2.2.2.2.2.2.2.2.2.2.2.2.2.2.2.2.2.2.2.1
    hS28.2.2.2.2.2.2.2.2.2.2.2.2.2.2.2.2.2.2.2.2.2.2.2.2.2.2.2.2.2.2.2.2.2.2.2.2.2.2.2.2.2.2.2.2.2.2.2.1
    hS28.2.2.2.2.2.2.2.2.2.2.2.2.2.2.2.2.2.2.2.2.2.2.2.2.2.2.2.2.2.2.2.2.2.2.2.2.2.2.2.2.2.2.2.2.2.2.2.2.1
    hS28.2.2.2.2.2.2.2.2.2.2.2.2.2.2.2.2.2.2.2.2.2.2.2.2.2.2.2.2.2.2.2.2.2.2.2.2.2.2.2.2.2.2.2.2.2.2.2.2.2.1
    hS28.2.2.2.2.2.2.2.2.2.2.2.2.2.2.2.2.2.2.2.2.2.2.2.2.2.2.2.2.2.2.2.2.2.2.2.2.2.2.2.2.2.2.2.2.2.2.2.2.2.2.1
    hS28.2.2.2.2.2.2.2.2.2.2.2.2.2.2.2.2.2.2.2.2.2.2.2.2.2.2.2.2.2.2.2.2.2.2.2.2.2.2.2.2.2.2.2.2.2.2.2.2.2.2.2.1
    hS28.2.2.2.2.2.2.2.2.2.2.2.2.2.2.2.2.2.2.2.2.2.2.2.2.2.2.2.2.2.2.2.2.2.2.2.2.2.2.2.2.2.2.2.2.2.2.2.2.2.2.2.2.1
    hS28.2.2.2.2.2.2.2.2.2.2.2.2.2.2.2.2.2.2.2.2.2.2.2.2.2.2.2.2.2.2.2.2.2.2.2.2.2.2.2.2.2.2.2.2.2.2.2.2.2.2.2.2.2.1
    hS28.2.2.2.2.2.2.2.2.2.2.2.2.2.2.2.2.2.2.2.2.2.2.2.2.2.2.2.2.2.2.2.2.2.2.2.2.2.2.2.2.2.2.2.2.2.2.2.2.2.2.2.2.2.2.1
    hS28.2.2.2.2.2.2.2.2.2.2.2.2.2.2.2.2.2.2.2.2.2.2.2.2.2.2.2.2.2.2.2.2.2.2.2.2.2.2.2.2.2.2.2.2.2.2.2.2.2.2.2.2.2.2.2.1
    hS28.2.2.2.2.2.2.2.2.2.2.2.2.2.2.2.2.2.2.2.2.2.2.2.2.2.2.2.2.2.2.2.2.2.2.2.2.2.2.2.2.2.2.2.2.2.2.2.2.2.2.2.2.2.2.2.2.1
    hS28.2.2.2.2.2.2.2.2.2.2.2.2.2.2.2.2.2.2.2.2.2.2.2.2.2.2.2.2.2.2.2.2.2.2.2.2.2.2.2.2.2.2.2.2.2.2.2.2.2.2.2.2.2.2.2.2.2.1
    hS28.2.2.2.2.2.2.2.2.2.2.2.2.2.2.2.2.2.2.2.2.2.2.2.2.2.2.2.2.2.2.2.2.2.2.2.2.2.2.2.2.2.2.2.2.2.2.2.2.2.2.2.2.2.2.2.2.2.2.1
    hS28.2.2.2.2.2.2.2.2.2.2.2.2.2.2.2.2.2.2.2.2.2.2.2.2.2.2.2.2.2.2.2.2.2.2.2.2.2.2.2.2.2.2.2.2.2.2.2.2.2.2.2.2.2.2.2.2.2.2.2
  have hS30 := loadStage30 A data _ hS29.1 hkeys30 hA30 hS29.2.1 hS29.2.2.1 hS29.2.2.2.1
    hS29.2.2.2.2.1 hS29.2.2.2.2.2.1 hS29.2.2.2.2.2.2.1 hS29.2.2.2.2.2.2.2.1
    hS29.2.2.2.2.2.2.2.2.1 hS29.2.2.2.2.2.2.2.2.2.1 hS29.2.2.2.2.2.2.2.2.2.2.1
    hS29.2.2.2.2.2.2.2.2.2.2.2.1 hS29.2.2.2.2.2.2.2.2.2.2.2.2.1 hS29.2.2.2.2.2.2.2.2.2.2.2.2.2.1
    hS29.2.2.2.2.2.2.2.2.2.2.2.2.2.2.1 hS29.2.2.2.2.2.2.2.2.2.2.2.2.2.2.2.1
    hS29.2.2.2.2.2.2.2.2.2.2.2.2.2.2.2.2.1 hS29.2.2.2.2.2.2.2.2.2.2.2.2.2.2.2.2.2.1
    hS29.2.2.2.2.2.2.2.2.2.2.2.2.2.2.2.2.2.2.1 hS29.2.2.2.2.2.2.2.2.2.2.2.2.2.2.2.2.2.2.2.1
    hS29.2.2.2.2.2.2.2.2.2.2.2.2.2.2.2.2.2.2.2.2.1
    hS29.2.2.2.2.2.2.2.2.2.2.2.2.2.2.2.2.2.2.2.2.2.1
    hS29.2.2.2.2.2.2.2.2.2.2.2.2.2.2.2.2.2.2.2.2.2.2.1
    hS29.2.2.2.2.2.2.2.2.2.2.2.2.2.2.2.2.2.2.2.2.2.2.2.1
    hS29.2.2.2.2.2.2.2.2.2.2.2.2.2.2.2.2.2.2.2.2.2.2.2.2.1
    hS29.2.2.2.2.2.2.2.2.2.2.2.2.2.2.2.2.2.2.2.2.2.2.2.2.2.1
    hS29.2.2.2.2.2.2.2.2.2.2.2.2.2.2.2.2.2.2.2.2.2.2.2.2.2.2.1
    hS29.2.2.2.2.2.2.2.2.2.2.2.2.2.2.2.2.2.2.2.2.2.2.2.2.2.2.2.1
    hS29.2.2.2.2.2.2.2.2.2.2.2.2.2.2.2.2.2.2.2.2.2.2.2.2.2.2.2.2.1
    hS29.2.2.2.2.2.2.2.2.2.2.2.2.2.2.2.2.2.2.2.2.2.2.2.2.2.2.2.2.2.1
    hS29.2.2.2.2.2.2.2.2.2.2.2.2.2.2.2.2.2.2.2.2.2.2.2.2.2.2.2.2.2.2.1
    hS29.2.2.2.2.2.2.2.2.2.2.2.2.2.2.2.2.2.2.2.2.2.2.2.2.2.2.2.2.2.2.2.1
    hS29.2.2.2.2.2.2.2.2.2.2.2.2.2.2.2.2.2.2.2.2.2.2.2.2.2.2.2.2.2.2.2.2.1
    hS29.2.2.2.2.2.2.2.2.2.2.2.2.2.2.2.2.2.2.2.2.2.2.2.2.2.2.2.2.2.2.2.2.2.1
    hS29.2.2.2.2.2.2.2.2.2.2.2.2.2.2.2.2.2.2.2.2.2.2.2.2.2.2.2.2.2.2.2.2.2.2.1
    hS29.2.2.2.2.2.2.2.2.2.2.2.2.2.2.2.2.2.2.2.2.2.2.2.2.2.2.2.2.2.2.2.2.2.2.2.1
    hS29.2.2.2.2.2.2.2.2.2.2.2.2.2.2.2.2.2.2.2.2.2.2.2.2.2.2.2.2.2.2.2.2.2.2.2.2.1
    hS29.2.2.2.2.2.2.2.2.2.2.2.2.2.2.2.2.2.2.2.2.2.2.2.2.2.2.2.2.2.2.2.2.2.2.2.2.2.1
    hS29.2.2.2.2.2.2.2.2.2.2.2.2.2.2.2.2.2.2.2.2.2.2.2.2.2.2.2.2.2.2.2.2.2.2.2.2.2.2.1
    hS29.2.2.2.2.2.2.2.2.2.2.2.2.2.2.2.2.2.2.2.2.2.2.2.2.2.2.2.2.2.2.2.2.2.2.2.2.2.2.2.1
    hS29.2.2.2.2.2.2.2.2.2.2.2.2.2.2.2.2.2.2.2.2.2.2.2.2.2.2.2.2.2.2.2.2.2.2.2.2.2.2.2.2.1
    hS29.2.2.2.2.2.2.2.2.2.2.2.2.2.2.2.2.2.2.2.2.2.2.2.2.2.2.2.2.2.2.2.2.2.2.2.2.2.2.2.2.2.1
    hS29.2.2.2.2.2.2.2.2.2.2.2.2.2.2.2.2.2.2.2.2.2.2.2.2.2.2.2.2.2.2.2.2.2.2.2.2.2.2.2.2.2.2.1
    hS29.2.2.2.2.2.2.2.2.2.2.2.2.2.2.2.2.2.2.2.2.2.2.2.2.2.2.2.2.2.2.2.2.2.2.2.2.2.2.2.2.2.2.2.1
    hS29.2.2.2.2.2.2.2.2.2.2.2.2.2.2.2.2.2.2.2.2.2.2.2.2.2.2.2.2.2.2.2.2.2.2.2.2.2.2.2.2.2.2.2.2.1
    hS29.2.2.2.2.2.2.2.2.2.2.2.2.2.2.2.2.2.2.2.2.2.2.2.2.2.2.2.2.2.2.2.2.2.2.2.2.2.2.2.2.2.2.2.2.2.1
    hS29.2.2.2.2.2.2.2.2.2.2.2.2.2.2.2.2.2.2.2.2.2.2.2.2.2.2.2.2.2.2.2.2.2.2.2.2.2.2.2.2.2.2.2.2.2.2.1
    hS29.2.2.2.2.2.2.2.2.2.2.2.2.2.2.2.2.2.2.2.2.2.2.2.2.2.2.2.2.2.2.2.2.2.2.2.2.2.2.2.2.2.2.2.2.2.2.2.1
    hS29.2.2.2.2.2.2.2.2.2.2.2.2.2.2.2.2.2.2.2.2.2.2.2.2.2.2.2.2.2.2.2.2.2.2.2.2.2.2.2.2.2.2.2.2.2.2.2.2.1
    hS29.2.2.2.2.2.2.2.2.2.2.2.2.2.2.2.2.2.2.2.2.2.2.2.2.2.2.2.2.2.2.2.2.2.2.2.2.2.2.2.2.2.2.2.2.2.2.2.2.2.1
    hS29.2.2.2.2.2.2.2.2.2.2.2.2.2.2.2.2.2.2.2.2.2.2.2.2.2.2.2.2.2.2.2.2.2.2.2.2.2.2.2.2.2.2.2.2.2.2.2.2.2.2.1
    hS29.2.2.2.2.2.2.2.2.2.2.2.2.2.2.2.2.2.2.2.2.2.2.2.2.2.2.2.2.2.2.2.2.2.2.2.2.2.2.2.2.2.2.2.2.2.2.2.2.2.2.2.1
    hS29.2.2.2.2.2.2.2.2.2.2.2.2.2.2.2.2.2.2.2.2.2.2.2.2.2.2.2.2.2.2.2.2.2.2.2.2.2.2.2.2.2.2.2.2.2.2.2.2.2.2.2.2.1
    hS29.2.2.2.2.2.2.2.2.2.2.2.2.2.2.2.2.2.2.2.2.2.2.2.2.2.2.2.2.2.2.2.2.2.2.2.2.2.2.2.2.2.2.2.2.2.2.2.2.2.2.2.2.2.1
    hS29.2.2.2.2.2.2.2.2.2.2.2.2.2.2.2.2.2.2.2.2.2.2.2.2.2.2.2.2.2.2.2.2.2.2.2.2.2.2.2.2.2.2.2.2.2.2.2.2.2.2.2.2.2.2.1
    hS29.2.2.2.2.2.2.2.2.2.2.2.2.2.2.2.2.2.2.2.2.2.2.2.2.2.2.2.2.2.2.2.2.2.2.2.2.2.2.2.2.2.2.2.2.2.2.2.2.2.2.2.2.2.2.2.1
    hS29.2.2.2.2.2.2.2.2.2.2.2.2.2.2.2.2.2.2.2.2.2.2.2.2.2.2.2.2.2.2.2.2.2.2.2.2.2.2.2.2.2.2.2.2.2.2.2.2.2.2.2.2.2.2.2.2.1
    hS29.2.2.2.2.2.2.2.2.2.2.2.2.2.2.2.2.2.2.2.2.2.2.2.2.2.2.2.2.2.2.2.2.2.2.2.2.2.2.2.2.2.2.2.2.2.2.2.2.2.2.2.2.2.2.2.2.2.1
    hS29.2.2.2.2.2.2.2.2.2.2.2.2.2.2.2.2.2.2.2.2.2.2.2.2.2.2.2.2.2.2.2.2.2.2.2.2.2.2.2.2.2.2.2.2.2.2.2.2.2.2.2.2.2.2.2.2.2.2.1
    hS29.2.2.2.2.2.2.2.2.2.2.2.2.2.2.2.2.2.2.2.2.2.2.2.2.2.2.2.2.2.2.2.2.2.2.2.2.2.2.2.2.2.2.2.2.2.2.2.2.2.2.2.2.2.2.2.2.2.2.2.1
    hS29.2.2.2.2.2.2.2.2.2.2.2.2.2.2.2.2.2.2.2.2.2.2.2.2.2.2.2.2.2.2.2.2.2.2.2.2.2.2.2.2.2.2.2.2.2.2.2.2.2.2.2.2.2.2.2.2.2.2.2.2
  exact ⟨hS30.1, hS30.2.1, hS30.2.2.1, hS30.2.2.2.1, hS30.2.2.2.2.1, hS30.2.2.2.2.2.1,
    hS30.2.2.2.2.2.2.1, hS30.2.2.2.2.2.2.2.1, hS30.2.2.2.2.2.2.2.2.1, hS30.2.2.2.2.2.2.2.2.2.1,
    hS30.2.2.2.2.2.2.2.2.2.2.1, hS30.2.2.2.2.2.2.2.2.2.2.2.1, hS30.2.2.2.2.2.2.2.2.2.2.2.2.1,
    hS30.2.2.2.2.2.2.2.2.2.2.2.2.2.1, hS30.2.2.2.2.2.2.2.2.2.2.2.2.2.2.1,
    hS30.2.2.2.2.2.2.2.2.2.2.2.2.2.2.2.1, hS30.2.2.2.2.2.2.2.2.2.2.2.2.2.2.2.2.1,
    hS30.2.2.2.2.2.2.2.2.2.2.2.2.2.2.2.2.2.1, hS30.2.2.2.2.2.2.2.2.2.2.2.2.2.2.2.2.2.2.1,
    hS30.2.2.2.2.2.2.2.2.2.2.2.2.2.2.2.2.2.2.2.1,
    hS30.2.2.2.2.2.2.2.2.2.2.2.2.2.2.2.2.2.2.2.2.1,
    hS30.2.2.2.2.2.2.2.2.2.2.2.2.2.2.2.2.2.2.2.2.2.1,
    hS30.2.2.2.2.2.2.2.2.2.2.2.2.2.2.2.2.2.2.2.2.2.2.1,
    hS30.2.2.2.2.2.2.2.2.2.2.2.2.2.2.2.2.2.2.2.2.2.2.2.1,
    hS30.2.2.2.2.2.2.2.2.2.2.2.2.2.2.2.2.2.2.2.2.2.2.2.2.1,
    hS30.2.2.2.2.2.2.2.2.2.2.2.2.2.2.2.2.2.2.2.2.2.2.2.2.2.1,
    hS30.2.2.2.2.2.2.2.2.2.2.2.2.2.2.2.2.2.2.2.2.2.2.2.2.2.2.1,
    hS30.2.2.2.2.2.2.2.2.2.2.2.2.2.2.2.2.2.2.2.2.2.2.2.2.2.2.2.1,
    hS30.2.2.2.2.2.2.2.2.2.2.2.2.2.2.2.2.2.2.2.2.2.2.2.2.2.2.2.2.1,
    hS30.2.2.2.2.2.2.2.2.2.2.2.2.2.2.2.2.2.2.2.2.2.2.2.2.2.2.2.2.2.1,
    hS30.2.2.2.2.2.2.2.2.2.2.2.2.2.2.2.2.2.2.2.2.2.2.2.2.2.2.2.2.2.2.1,
    hS30.2.2.2.2.2.2.2.2.2.2.2.2.2.2.2.2.2.2.2.2.2.2.2.2.2.2.2.2.2.2.2.1,
    hS30.2.2.2.2.2.2.2.2.2.2.2.2.2.2.2.2.2.2.2.2.2.2.2.2.2.2.2.2.2.2.2.2.1,
    hS30.2.2.2.2.2.2.2.2.2.2.2.2.2.2.2.2.2.2.2.2.2.2.2.2.2.2.2.2.2.2.2.2.2.1,
    hS30.2.2.2.2.2.2.2.2.2.2.2.2.2.2.2.2.2.2.2.2.2.2.2.2.2.2.2.2.2.2.2.2.2.2.1,
    hS30.2.2.2.2.2.2.2.2.2.2.2.2.2.2.2.2.2.2.2.2.2.2.2.2.2.2.2.2.2.2.2.2.2.2.2.1,
    hS30.2.2.2.2.2.2.2.2.2.2.2.2.2.2.2.2.2.2.2.2.2.2.2.2.2.2.2.2.2.2.2.2.2.2.2.2.1,
    hS30.2.2.2.2.2.2.2.2.2.2.2.2.2.2.2.2.2.2.2.2.2.2.2.2.2.2.2.2.2.2.2.2.2.2.2.2.2.1,
    hS30.2.2.2.2.2.2.2.2.2.2.2.2.2.2.2.2.2.2.2.2.2.2.2.2.2.2.2.2.2.2.2.2.2.2.2.2.2.2.1,
    hS30.2.2.2.2.2.2.2.2.2.2.2.2.2.2.2.2.2.2.2.2.2.2.2.2.2.2.2.2.2.2.2.2.2.2.2.2.2.2.2.1,
    hS30.2.2.2.2.2.2.2.2.2.2.2.2.2.2.2.2.2.2.2.2.2.2.2.2.2.2.2.2.2.2.2.2.2.2.2.2.2.2.2.2.1,
    hS30.2.2.2.2.2.2.2.2.2.2.2.2.2.2.2.2.2.2.2.2.2.2.2.2.2.2.2.2.2.2.2.2.2.2.2.2.2.2.2.2.2.1,
    hS30.2.2.2.2.2.2.2.2.2.2.2.2.2.2.2.2.2.2.2.2.2.2.2.2.2.2.2.2.2.2.2.2.2.2.2.2.2.2.2.2.2.2.1,
    hS30.2.2.2.2.2.2.2.2.2.2.2.2.2.2.2.2.2.2.2.2.2.2.2.2.2.2.2.2.2.2.2.2.2.2.2.2.2.2.2.2.2.2.2.1,
    hS30.2.2.2.2.2.2.2.2.2.2.2.2.2.2.2.2.2.2.2.2.2.2.2.2.2.2.2.2.2.2.2.2.2.2.2.2.2.2.2.2.2.2.2.2.1,
    hS30.2.2.2.2.2.2.2.2.2.2.2.2.2.2.2.2.2.2.2.2.2.2.2.2.2.2.2.2.2.2.2.2.2.2.2.2.2.2.2.2.2.2.2.2.2.1,
    hS30.2.2.2.2.2.2.2.2.2.2.2.2.2.2.2.2.2.2.2.2.2.2.2.2.2.2.2.2.2.2.2.2.2.2.2.2.2.2.2.2.2.2.2.2.2.2.1,
    hS30.2.2.2.2.2.2.2.2.2.2.2.2.2.2.2.2.2.2.2.2.2.2.2.2.2.2.2.2.2.2.2.2.2.2.2.2.2.2.2.2.2.2.2.2.2.2.2.1,
    hS30.2.2.2.2.2.2.2.2.2.2.2.2.2.2.2.2.2.2.2.2.2.2.2.2.2.2.2.2.2.2.2.2.2.2.2.2.2.2.2.2.2.2.2.2.2.2.2.2.1,
    hS30.2.2.2.2.2.2.2.2.2.2.2.2.2.2.2.2.2.2.2.2.2.2.2.2.2.2.2.2.2.2.2.2.2.2.2.2.2.2.2.2.2.2.2.2.2.2.2.2.2.1,
    hS30.2.2.2.2.2.2.2.2.2.2.2.2.2.2.2.2.2.2.2.2.2.2.2.2.2.2.2.2.2.2.2.2.2.2.2.2.2.2.2.2.2.2.2.2.2.2.2.2.2.2.1,
    hS30.2.2.2.2.2.2.2.2.2.2.2.2.2.2.2.2.2.2.2.2.2.2.2.2.2.2.2.2.2.2.2.2.2.2.2.2.2.2.2.2.2.2.2.2.2.2.2.2.2.2.2.1,
    hS30.2.2.2.2.2.2.2.2.2.2.2.2.2.2.2.2.2.2.2.2.2.2.2.2.2.2.2.2.2.2.2.2.2.2.2.2.2.2.2.2.2.2.2.2.2.2.2.2.2.2.2.2.1,
    hS30.2.2.2.2.2.2.2.2.2.2.2.2.2.2.2.2.2.2.2.2.2.2.2.2.2.2.2.2.2.2.2.2.2.2.2.2.2.2.2.2.2.2.2.2.2.2.2.2.2.2.2.2.2.1,
    hS30.2.2.2.2.2.2.2.2.2.2.2.2.2.2.2.2.2.2.2.2.2.2.2.2.2.2.2.2.2.2.2.2.2.2.2.2.2.2.2.2.2.2.2.2.2.2.2.2.2.2.2.2.2.2.1,
    hS30.2.2.2.2.2.2.2.2.2.2.2.2.2.2.2.2.2.2.2.2.2.2.2.2.2.2.2.2.2.2.2.2.2.2.2.2.2.2.2.2.2.2.2.2.2.2.2.2.2.2.2.2.2.2.2.1,
    hS30.2.2.2.2.2.2.2.2.2.2.2.2.2.2.2.2.2.2.2.2.2.2.2.2.2.2.2.2.2.2.2.2.2.2.2.2.2.2.2.2.2.2.2.2.2.2.2.2.2.2.2.2.2.2.2.2.1,
    hS30.2.2.2.2.2.2.2.2.2.2.2.2.2.2.2.2.2.2.2.2.2.2.2.2.2.2.2.2.2.2.2.2.2.2.2.2.2.2.2.2.2.2.2.2.2.2.2.2.2.2.2.2.2.2.2.2.2.1,
    hS30.2.2.2.2.2.2.2.2.2.2.2.2.2.2.2.2.2.2.2.2.2.2.2.2.2.2.2.2.2.2.2.2.2.2.2.2.2.2.2.2.2.2.2.2.2.2.2.2.2.2.2.2.2.2.2.2.2.2.1,
    hS30.2.2.2.2.2.2.2.2.2.2.2.2.2.2.2.2.2.2.2.2.2.2.2.2.2.2.2.2.2.2.2.2.2.2.2.2.2.2.2.2.2.2.2.2.2.2.2.2.2.2.2.2.2.2.2.2.2.2.2.1,
    hS30.2.2.2.2.2.2.2.2.2.2.2.2.2.2.2.2.2.2.2.2.2.2.2.2.2.2.2.2.2.2.2.2.2.2.2.2.2.2.2.2.2.2.2.2.2.2.2.2.2.2.2.2.2.2.2.2.2.2.2.2.1,
    hS30.2.2.2.2.2.2.2.2.2.2.2.2.2.2.2.2.2.2.2.2.2.2.2.2.2.2.2.2.2.2.2.2.2.2.2.2.2.2.2.2.2.2.2.2.2.2.2.2.2.2.2.2.2.2.2.2.2.2.2.2.2⟩

/-- The player-resource join fold touches only the player resources. -/
lemma foldl_playerset (l : List (Entity × Position)) :
    ∀ acc : World,
      ((l.foldl (fun acc p =>
        { acc with player_point := (p.2.x, p.2.y), player_entity := p.1 }) acc).entities =
        acc.entities) ∧
      ((l.foldl (fun acc p =>
        { acc with player_point := (p.2.x, p.2.y), player_entity := p.1 }) acc).comps =
        acc.comps) ∧
      ((l.foldl (fun acc p =>
        { acc with player_point := (p.2.x, p.2.y), player_entity := p.1 }) acc).map =
        acc.map) ∧
      ((l.foldl (fun acc p =>
        { acc with player_point := (p.2.x, p.2.y), player_entity := p.1 }) acc).log =
        acc.log) := by
  induction l with
  | nil =>
    intro acc
    exact ⟨rfl, rfl, rfl, rfl⟩
  | cons p l2 ih =>
    intro acc
    rw [List.foldl_cons]
    exact ih _

/-- What the resource-restoring tail of load_game does when the helper
row list is a singleton: the unique helper carrier is deleted, every
other entity is untouched, and the Map and GameLog resources are
rebuilt from the stored copies. -/
lemma loadFinish_facts (A : Nat → Prop) (data : SaveData) (v17 : World)
    (hF : LoadedFacts A data v17) (hm : Nat) (hv : HelperSave)
    (heq : data.helpers = [(hm, hv)]) :
    ∃ eh ∈ v17.entities, (v17.comps eh).marker = some hm ∧
      (∀ e, e ∈ (loadFinish v17).entities ↔ (e ∈ v17.entities ∧ e ≠ eh)) ∧
      (∀ e ∈ (loadFinish v17).entities, (loadFinish v17).comps e = v17.comps e) ∧
      (loadFinish v17).map =
        { hv.map.toMap with tile_content := List.replicate MAP_COUNT [] } ∧
      (loadFinish v17).log = ⟨"Loaded game from save" :: hv.game_log.entries⟩ := by
  have hmk : hm ∈ data.helpers.map Prod.fst := by
    rw [heq]
    simp
  obtain ⟨eh, hehmem, hehmk⟩ := hF.kl_sh hm hmk
  have hlk : lookupKey data.helpers hm = some hv := by
    rw [heq]
    unfold lookupKey
    rw [List.find?_cons]
    have hb : (((hm, hv)).1 == hm) = true := by simp
    rw [hb]
    rfl
  have hsh : (v17.comps eh).serialization_helper =
      some (SerializationHelper.mk hv.map.toMap hv.game_log) := by
    have h2 := hF.fv_sh eh hehmem hm hehmk
    simp only [hlk] at h2
    obtain ⟨a, ha1, ha2⟩ := h2
    rw [ha1, ha2]
  have hothers : ∀ x ∈ v17.entities, x ≠ eh →
      (v17.comps x).serialization_helper = none := by
    intro x hx hne
    have hms := hF.inv.marked x hx
    rcases hmx : (v17.comps x).marker with _ | mx
    · rw [hmx] at hms
      exact absurd hms (by simp)
    · have hmxne : mx ≠ hm := by
        intro hh
        exact hne (hF.inv.inj x hx eh hehmem (by rw [hmx, hehmk, hh]))
      have hnk : mx ∉ data.helpers.map Prod.fst := by
        rw [heq]
        simp only [List.map_cons, List.map_nil, List.mem_singleton]
        exact hmxne
      have h2 := hF.fv_sh x hx mx hmx
      simp only [lookupKey_eq_none data.helpers mx hnk] at h2
      exact h2
  have hjoin : v17.entities.filterMap (fun e =>
      ((v17.comps e).serialization_helper).map (fun h => (e, h))) =
      [(eh, SerializationHelper.mk hv.map.toMap hv.game_log)] := by
    apply filterMap_eq_singleton v17.entities _ eh _ hF.inv.nodup hehmem
    · rw [hsh]
      rfl
    · intro x hx hne
      rw [hothers x hx hne]
      rfl
  have hfin : loadFinish v17 = deleteEntity
      ((v17.entities.filterMap (fun e =>
        match (v17.comps e).player, (v17.comps e).position with
        | some _, some pos => some (e, pos)
        | _, _ => none)).foldl (fun acc p =>
          { acc with player_point := (p.2.x, p.2.y), player_entity := p.1 })
        { v17 with
          map := { hv.map.toMap with tile_content := List.replicate MAP_COUNT [] }
          log := ⟨"Loaded game from save" :: hv.game_log.entries⟩ }) eh := by
    simp only [loadFinish]
    rw [hjoin]
    rfl
  obtain ⟨hpe, hpc, hpm, hpl⟩ := foldl_playerset _
    ({ v17 with
      map := { hv.map.toMap with tile_content := List.replicate MAP_COUNT [] }
      log := ⟨"Loaded game from save" :: hv.game_log.entries⟩ } : World)
  refine ⟨eh, hehmem, hehmk, ?_, ?_, ?_, ?_⟩
  · intro e
    rw [hfin, entities_deleteEntity, hpe]
    show e ∈ List.filter (fun x => x ≠ eh) v17.entities ↔ _
    rw [List.mem_filter]
    simp
  · intro e he
    rw [hfin] at he ⊢
    rw [entities_deleteEntity, hpe] at he
    have hne : e ≠ eh := by
      rw [List.mem_filter] at he
      simpa using he.2
    rw [comps_deleteEntity, if_neg hne, hpc]
  · rw [hfin]
    have hdm : ∀ (w : World) (e2 : Entity), (deleteEntity w e2).map = w.map :=
      fun _ _ => rfl
    rw [hdm, hpm]
  · rw [hfin]
    have hdl : ∀ (w : World) (e2 : Entity), (deleteEntity w e2).log = w.log :=
      fun _ _ => rfl
    rw [hdl, hpl]

/-- Normal form of one serialized component list: the (marker, value)
rows of the live entities, the stored value converted by g. -/
def rowsOf {α β : Type} (v : World) (get : Comps → Option α) (g : α → Option β) :
    List (Nat × β) :=
  v.entities.filterMap (fun e =>
    match (v.comps e).marker, get (v.comps e) with
    | some m, some c => (g c).map (fun b => (m, b))
    | _, _ => none)

/-- filterMap only depends on the function's values on the list. -/
lemma filterMap_congr_own {α β : Type} :
    ∀ (l : List α) (f g : α → Option β), (∀ a ∈ l, f a = g a) →
      l.filterMap f = l.filterMap g := by
  intro l
  induction l with
  | nil =>
    intro f g _
    rfl
  | cons a l2 ih =>
    intro f g h
    rw [List.filterMap_cons, List.filterMap_cons, h a (List.mem_cons_self _ _),
      ih f g (fun x hx => h x (List.mem_cons_of_mem _ hx))]

/-- Membership in a serialized row list. -/
lemma rowsOf_mem {α β : Type} (v : World) (get : Comps → Option α)
    (g : α → Option β) (m : Nat) (b : β) :
    (m, b) ∈ rowsOf v get g ↔
      ∃ e ∈ v.entities, (v.comps e).marker = some m ∧
        ∃ c, get (v.comps e) = some c ∧ g c = some b := by
  unfold rowsOf
  rw [List.mem_filterMap]
  constructor
  · rintro ⟨e, he, hfe⟩
    rcases h1 : (v.comps e).marker with _ | mm <;>
      rcases h2 : get (v.comps e) with _ | c <;>
      rw [h1, h2] at hfe <;> simp at hfe
    rcases h3 : g c with _ | gb <;> rw [h3] at hfe <;> simp at hfe
    obtain ⟨hx, hy⟩ := hfe
    subst hx
    subst hy
    exact ⟨e, he, h1, c, h2, h3⟩
  · rintro ⟨e, he, hm, c, hc, hb⟩
    refine ⟨e, he, ?_⟩
    simp only [hm, hc, hb, Option.map_some]
    rfl

/-- The keys of a serialized row list are distinct. -/
lemma rowsOf_keys_nodup {α β : Type} (v : World) (get : Comps → Option α)
    (g : α → Option β) (hn : v.entities.Nodup)
    (hinj : ∀ e ∈ v.entities, ∀ x ∈ v.entities,
      (v.comps e).marker = (v.comps x).marker → e = x) :
    ((rowsOf v get g).map Prod.fst).Nodup := by
  apply filterMap_keys_nodup (fun e => (v.comps e).marker) _ _ v.entities hn hinj
  intro e m b hF
  rcases h1 : (v.comps e).marker with _ | mm <;>
    rcases h2 : get (v.comps e) with _ | c <;>
    rw [h1, h2] at hF <;> simp at hF
  rcases h3 : g c with _ | gb <;> rw [h3] at hF <;> simp at hF
  obtain ⟨hx, hy⟩ := hF
  subst hx
  subst hy
  exact h1

/-- Serialized rows of a world made of the old entities plus one helper
row that stores nothing for this component. -/
lemma rowsOf_append {α β : Type} (w WS : World) (H : Entity)
    (get : Comps → Option α) (g gw : α → Option β)
    (hent : WS.entities = w.entities ++ [H])
    (hc : ∀ e ∈ w.entities,
      (match (WS.comps e).marker, get (WS.comps e) with
       | some m, some c => (g c).map (fun b => (m, b))
       | _, _ => none) =
      (match (w.comps e).marker, get (w.comps e) with
       | some m, some c => (gw c).map (fun b => (m, b))
       | _, _ => none))
    (hH : (match (WS.comps H).marker, get (WS.comps H) with
       | some m, some c => (g c).map (fun b => (m, b))
       | _, _ => none) = (none : Option (Nat × β))) :
    rowsOf WS get g = rowsOf w get gw := by
  unfold rowsOf
  rw [hent, List.filterMap_append, filterMap_congr_own w.entities _ _ hc]
  have h2 : List.filterMap (fun e =>
      match (WS.comps e).marker, get (WS.comps e) with
      | some m, some c => (g c).map (fun b => (m, b))
      | _, _ => none) [H] = [] := by
    rw [List.filterMap_cons, hH]
    rfl
  rw [h2, List.append_nil]

/-- serializeComp is the rows with the pure conversion. -/
lemma serializeComp_eq_rowsOf {α : Type} (v : World) (get : Comps → Option α) :
    serializeComp v get id = rowsOf v get (fun c => some c) := by
  unfold serializeComp rowsOf
  apply filterMap_congr_own
  intro e _
  rcases h1 : (v.comps e).marker with _ | mm <;>
    rcases h2 : get (v.comps e) with _ | c <;> simp

/-- Unpacking the Boolean reference-liveness check. -/
lemma refTargetsLive_spec (w : World) (e : Entity) (h : refTargetsLive w e = true) :
    (∀ c, (w.comps e).wants_melee = some c → c.target ∈ w.entities) ∧
    (∀ c, (w.comps e).in_backpack = some c → c.owner ∈ w.entities) ∧
    (∀ c, (w.comps e).wants_to_pickup = some c →
      c.collected_by ∈ w.entities ∧ c.item ∈ w.entities) ∧
    (∀ c, (w.comps e).wants_to_use = some c → c.item ∈ w.entities) ∧
    (∀ c, (w.comps e).wants_to_drop = some c → c.item ∈ w.entities) ∧
    (∀ c, (w.comps e).equipped = some c → c.owner ∈ w.entities) ∧
    (∀ c, (w.comps e).wants_to_remove = some c → c.item ∈ w.entities) := by
  unfold refTargetsLive at h
  simp only [Bool.and_eq_true] at h
  obtain ⟨⟨⟨⟨⟨⟨h1, h2⟩, h3⟩, h4⟩, h5⟩, h6⟩, h7⟩ := h
  refine ⟨?_, ?_, ?_, ?_, ?_, ?_, ?_⟩
  · intro c hc
    rw [hc] at h1
    simp only [Option.all_some] at h1
    exact List.elem_iff.mp h1
  · intro c hc
    rw [hc] at h2
    simp only [Option.all_some] at h2
    exact List.elem_iff.mp h2
  · intro c hc
    rw [hc] at h3
    simp only [Option.all_some, Bool.and_eq_true] at h3
    exact ⟨List.elem_iff.mp h3.1, List.elem_iff.mp h3.2⟩
  · intro c hc
    rw [hc] at h4
    simp only [Option.all_some] at h4
    exact List.elem_iff.mp h4
  · intro c hc
    rw [hc] at h5
    simp only [Option.all_some] at h5
    exact List.elem_iff.mp h5
  · intro c hc
    rw [hc] at h6
    simp only [Option.all_some] at h6
    exact List.elem_iff.mp h6
  · intro c hc
    rw [hc] at h7
    simp only [Option.all_some] at h7
    exact List.elem_iff.mp h7


/-- The components of the transient save helper entity. -/
def saveHelperComps (w : World) : Comps :=
  { serialization_helper := some ⟨w.map, w.log⟩, marker := some w.next_marker }

/-- The world as seen by the serializer: the old world (with the marker
allocator bumped) plus the freshly created marked helper entity. -/
def saveWorld (w : World) : World :=
  (createEntity { w with next_marker := w.next_marker + 1 } (saveHelperComps w)).1

set_option maxHeartbeats 800000 in
/-- save_game evaluated under the soundness hypotheses: serialization
succeeds and returns exactly the marker-keyed rows of the live world,
with entity references replaced by the target markers, plus the single
helper row carrying the map and the log. -/
lemma save_game_facts (w : World)
    (hnodup : w.entities.Nodup)
    (helt : ∀ e ∈ w.entities, e < w.next_entity)
    (hmark : ∀ e ∈ w.entities, ((w.comps e).marker).isSome = true)
    (hnohelp : ∀ e ∈ w.entities, (w.comps e).serialization_helper = none)
    (hrefs : ∀ e ∈ w.entities, refTargetsLive w e = true) :
    save_game w = some (deleteEntity (saveWorld w) w.next_entity,
      { positions := rowsOf w (fun c => c.position) (fun c => some c)
        renderables := rowsOf w (fun c => c.renderable) (fun c => some c)
        players := rowsOf w (fun c => c.player) (fun c => some c)
        viewsheds := rowsOf w (fun c => c.viewshed) (fun c => some c)
        monsters := rowsOf w (fun c => c.monster) (fun c => some c)
        names := rowsOf w (fun c => c.name) (fun c => some c)
        blocks_tile := rowsOf w (fun c => c.blocks_tile) (fun c => some c)
        combat_stats := rowsOf w (fun c => c.combat_stats) (fun c => some c)
        suffer_damage := rowsOf w (fun c => c.suffer_damage) (fun c => some c)
        wants_melee := rowsOf w (fun c => c.wants_melee)
          (fun wm => ((w.comps wm.target)).marker)
        items := rowsOf w (fun c => c.item) (fun c => some c)
        consumables := rowsOf w (fun c => c.consumable) (fun c => some c)
        ranged := rowsOf w (fun c => c.ranged) (fun c => some c)
        inflicts_damage := rowsOf w (fun c => c.inflicts_damage) (fun c => some c)
        area_of_effect := rowsOf w (fun c => c.area_of_effect) (fun c => some c)
        confusion := rowsOf w (fun c => c.confusion) (fun c => some c)
        provides_healing := rowsOf w (fun c => c.provides_healing) (fun c => some c)
        in_backpack := rowsOf w (fun c => c.in_backpack)
          (fun bp => ((w.comps bp.owner)).marker)
        wants_to_pickup := rowsOf w (fun c => c.wants_to_pickup)
          (fun wp => (((w.comps wp.collected_by)).marker).bind (fun a => (((w.comps wp.item)).marker).map (fun b => (a, b))))
        wants_to_use := rowsOf w (fun c => c.wants_to_use)
          (fun wu => (((w.comps wu.item)).marker).map (fun m => (m, wu.target)))
        wants_to_drop := rowsOf w (fun c => c.wants_to_drop)
          (fun wd => ((w.comps wd.item)).marker)
        helpers := [(w.next_marker, HelperSave.mk w.map.toSave w.log)]
        equippables := rowsOf w (fun c => c.equippable) (fun c => some c)
        equipped := rowsOf w (fun c => c.equipped)
          (fun eq2 => (((w.comps eq2.owner)).marker).map (fun m => (m, eq2.slot)))
        melee_power_bonuses := rowsOf w (fun c => c.melee_power_bonus) (fun c => some c)
        defense_bonuses := rowsOf w (fun c => c.defense_bonus) (fun c => some c)
        wants_to_remove := rowsOf w (fun c => c.wants_to_remove)
          (fun wr => ((w.comps wr.item)).marker)
        particle_lifetimes := rowsOf w (fun c => c.particle_lifetime) (fun c => some c)
        hunger_clocks := rowsOf w (fun c => c.hunger_clock) (fun c => some c)
        provides_food := rowsOf w (fun c => c.provides_food) (fun c => some c) }) := by
  have hHnm : w.next_entity ∉ w.entities := fun h =>
    absurd (helt _ h) (Nat.lt_irrefl _)
  have hWSent : (saveWorld w).entities = w.entities ++ [w.next_entity] := rfl
  have hWScomps : ∀ x, (saveWorld w).comps x =
      if x = w.next_entity then saveHelperComps w else w.comps x := fun x => rfl
  have hWSH : (saveWorld w).comps w.next_entity = saveHelperComps w := by
    rw [hWScomps]
    exact if_pos rfl
  have hWSold : ∀ e ∈ w.entities, (saveWorld w).comps e = w.comps e := by
    intro e he
    rw [hWScomps]
    by_cases hc : e = w.next_entity
    · exfalso
      rw [hc] at he
      exact hHnm he
    · exact if_neg hc
  have hWSnodup : (saveWorld w).entities.Nodup := by
    rw [hWSent, List.nodup_append]
    exact ⟨hnodup, List.nodup_singleton _,
      fun x hx hx2 => hHnm ((List.mem_singleton.mp hx2) ▸ hx)⟩
  have htot_wants_melee : serializeCompM (saveWorld w) (fun c => c.wants_melee) (fun wm => (((saveWorld w).comps wm.target)).marker) =
      some (rowsOf (saveWorld w) (fun c => c.wants_melee) (fun wm => (((saveWorld w).comps wm.target)).marker)) := by
    apply serializeCompM_eq
    intro e he m c hm hc
    rw [hWSent] at he
    rcases List.mem_append.mp he with hmem | hmem
    · rw [hWSold e hmem] at hc
      have ht : c.target ∈ w.entities :=
        ((refTargetsLive_spec w e (hrefs e hmem)).1) c hc
      have hms := hmark c.target ht
      rcases hk : ((w.comps c.target)).marker with _ | k
      · rw [hk] at hms
        exact absurd hms (by simp)
      · rw [hWSold c.target ht, hk]
        rfl
    · have heH : e = w.next_entity := List.mem_singleton.mp hmem
      rw [heH, hWSH] at hc
      exact absurd hc (by simp [saveHelperComps])
  have htot_in_backpack : serializeCompM (saveWorld w) (fun c => c.in_backpack) (fun bp => (((saveWorld w).comps bp.owner)).marker) =
      some (rowsOf (saveWorld w) (fun c => c.in_backpack) (fun bp => (((saveWorld w).comps bp.owner)).marker)) := by
    apply serializeCompM_eq
    intro e he m c hm hc
    rw [hWSent] at he
    rcases List.mem_append.mp he with hmem | hmem
    · rw [hWSold e hmem] at hc
      have ht : c.owner ∈ w.entities :=
        ((refTargetsLive_spec w e (hrefs e hmem)).2.1) c hc
      have hms := hmark c.owner ht
      rcases hk : ((w.comps c.owner)).marker with _ | k
      · rw [hk] at hms
        exact absurd hms (by simp)
      · rw [hWSold c.owner ht, hk]
        rfl
    · have heH : e = w.next_entity := List.mem_singleton.mp hmem
      rw [heH, hWSH] at hc
      exact absurd hc (by simp [saveHelperComps])
  have htot_wants_to_pickup : serializeCompM (saveWorld w) (fun c => c.wants_to_pickup) (fun wp => ((((saveWorld w).comps wp.collected_by)).marker).bind (fun a => ((((saveWorld w).comps wp.item)).marker).map (fun b => (a, b)))) =
      some (rowsOf (saveWorld w) (fun c => c.wants_to_pickup) (fun wp => ((((saveWorld w).comps wp.collected_by)).marker).bind (fun a => ((((saveWorld w).comps wp.item)).marker).map (fun b => (a, b))))) := by
    apply serializeCompM_eq
    intro e he m c hm hc
    rw [hWSent] at he
    rcases List.mem_append.mp he with hmem | hmem
    · rw [hWSold e hmem] at hc
      have ht := ((refTargetsLive_spec w e (hrefs e hmem)).2.2.1) c hc
      have hms1 := hmark c.collected_by ht.1
      have hms2 := hmark c.item ht.2
      rcases hk1 : ((w.comps c.collected_by)).marker with _ | k1
      · rw [hk1] at hms1
        exact absurd hms1 (by simp)
      · rcases hk2 : ((w.comps c.item)).marker with _ | k2
        · rw [hk2] at hms2
          exact absurd hms2 (by simp)
        · rw [hWSold c.collected_by ht.1, hWSold c.item ht.2, hk1, hk2]
          rfl
    · have heH : e = w.next_entity := List.mem_singleton.mp hmem
      rw [heH, hWSH] at hc
      exact absurd hc (by simp [saveHelperComps])
  have htot_wants_to_use : serializeCompM (saveWorld w) (fun c => c.wants_to_use) (fun wu => ((((saveWorld w).comps wu.item)).marker).map (fun m => (m, wu.target))) =
      some (rowsOf (saveWorld w) (fun c => c.wants_to_use) (fun wu => ((((saveWorld w).comps wu.item)).marker).map (fun m => (m, wu.target)))) := by
    apply serializeCompM_eq
    intro e he m c hm hc
    rw [hWSent] at he
    rcases List.mem_append.mp he with hmem | hmem
    · rw [hWSold e hmem] at hc
      have ht : c.item ∈ w.entities :=
        ((refTargetsLive_spec w e (hrefs e hmem)).2.2.2.1) c hc
      have hms := hmark c.item ht
      rcases hk : ((w.comps c.item)).marker with _ | k
      · rw [hk] at hms
        exact absurd hms (by simp)
      · rw [hWSold c.item ht, hk]
        rfl
    · have heH : e = w.next_entity := List.mem_singleton.mp hmem
      rw [heH, hWSH] at hc
      exact absurd hc (by simp [saveHelperComps])
  have htot_wants_to_drop : serializeCompM (saveWorld w) (fun c => c.wants_to_drop) (fun wd => (((saveWorld w).comps wd.item)).marker) =
      some (rowsOf (saveWorld w) (fun c => c.wants_to_drop) (fun wd => (((saveWorld w).comps wd.item)).marker)) := by
    apply serializeCompM_eq
    intro e he m c hm hc
    rw [hWSent] at he
    rcases List.mem_append.mp he with hmem | hmem
    · rw [hWSold e hmem] at hc
      have ht : c.item ∈ w.entities :=
        ((refTargetsLive_spec w e (hrefs e hmem)).2.2.2.2.1) c hc
      have hms := hmark c.item ht
      rcases hk : ((w.comps c.item)).marker with _ | k
      · rw [hk] at hms
        exact absurd hms (by simp)
      · rw [hWSold c.item ht, hk]
        rfl
    · have heH : e = w.next_entity := List.mem_singleton.mp hmem
      rw [heH, hWSH] at hc
      exact absurd hc (by simp [saveHelperComps])
  have htot_equipped : serializeCompM (saveWorld w) (fun c => c.equipped) (fun eq2 => ((((saveWorld w).comps eq2.owner)).marker).map (fun m => (m, eq2.slot))) =
      some (rowsOf (saveWorld w) (fun c => c.equipped) (fun eq2 => ((((saveWorld w).comps eq2.owner)).marker).map (fun m => (m, eq2.slot)))) := by
    apply serializeCompM_eq
    intro e he m c hm hc
    rw [hWSent] at he
    rcases List.mem_append.mp he with hmem | hmem
    · rw [hWSold e hmem] at hc
      have ht : c.owner ∈ w.entities :=
        ((refTargetsLive_spec w e (hrefs e hmem)).2.2.2.2.2.1) c hc
      have hms := hmark c.owner ht
      rcases hk : ((w.comps c.owner)).marker with _ | k
      · rw [hk] at hms
        exact absurd hms (by simp)
      · rw [hWSold c.owner ht, hk]
        rfl
    · have heH : e = w.next_entity := List.mem_singleton.mp hmem
      rw [heH, hWSH] at hc
      exact absurd hc (by simp [saveHelperComps])
  have htot_wants_to_remove : serializeCompM (saveWorld w) (fun c => c.wants_to_remove) (fun wr => (((saveWorld w).comps wr.item)).marker) =
      some (rowsOf (saveWorld w) (fun c => c.wants_to_remove) (fun wr => (((saveWorld w).comps wr.item)).marker)) := by
    apply serializeCompM_eq
    intro e he m c hm hc
    rw [hWSent] at he
    rcases List.mem_append.mp he with hmem | hmem
    · rw [hWSold e hmem] at hc
      have ht : c.item ∈ w.entities :=
        ((refTargetsLive_spec w e (hrefs e hmem)).2.2.2.2.2.2) c hc
      have hms := hmark c.item ht
      rcases hk : ((w.comps c.item)).marker with _ | k
      · rw [hk] at hms
        exact absurd hms (by simp)
      · rw [hWSold c.item ht, hk]
        rfl
    · have heH : e = w.next_entity := List.mem_singleton.mp hmem
      rw [heH, hWSH] at hc
      exact absurd hc (by simp [saveHelperComps])
  have hser : serializeWorld (saveWorld w) = some
      { positions := serializeComp (saveWorld w) (fun c => c.position) id
        renderables := serializeComp (saveWorld w) (fun c => c.renderable) id
        players := serializeComp (saveWorld w) (fun c => c.player) id
        viewsheds := serializeComp (saveWorld w) (fun c => c.viewshed) id
        monsters := serializeComp (saveWorld w) (fun c => c.monster) id
        names := serializeComp (saveWorld w) (fun c => c.name) id
        blocks_tile := serializeComp (saveWorld w) (fun c => c.blocks_tile) id
        combat_stats := serializeComp (saveWorld w) (fun c => c.combat_stats) id
        suffer_damage := serializeComp (saveWorld w) (fun c => c.suffer_damage) id
        wants_melee := rowsOf (saveWorld w) (fun c => c.wants_melee) (fun wm => (((saveWorld w).comps wm.target)).marker)
        items := serializeComp (saveWorld w) (fun c => c.item) id
        consumables := serializeComp (saveWorld w) (fun c => c.consumable) id
        ranged := serializeComp (saveWorld w) (fun c => c.ranged) id
        inflicts_damage := serializeComp (saveWorld w) (fun c => c.inflicts_damage) id
        area_of_effect := serializeComp (saveWorld w) (fun c => c.area_of_effect) id
        confusion := serializeComp (saveWorld w) (fun c => c.confusion) id
        provides_healing := serializeComp (saveWorld w) (fun c => c.provides_healing) id
        in_backpack := rowsOf (saveWorld w) (fun c => c.in_backpack) (fun bp => (((saveWorld w).comps bp.owner)).marker)
        wants_to_pickup := rowsOf (saveWorld w) (fun c => c.wants_to_pickup) (fun wp => ((((saveWorld w).comps wp.collected_by)).marker).bind (fun a => ((((saveWorld w).comps wp.item)).marker).map (fun b => (a, b))))
        wants_to_use := rowsOf (saveWorld w) (fun c => c.wants_to_use) (fun wu => ((((saveWorld w).comps wu.item)).marker).map (fun m => (m, wu.target)))
        wants_to_drop := rowsOf (saveWorld w) (fun c => c.wants_to_drop) (fun wd => (((saveWorld w).comps wd.item)).marker)
        helpers := serializeComp (saveWorld w) (fun c => c.serialization_helper)
          (fun h => HelperSave.mk h.map.toSave h.game_log)
        equippables := serializeComp (saveWorld w) (fun c => c.equippable) id
        equipped := rowsOf (saveWorld w) (fun c => c.equipped) (fun eq2 => ((((saveWorld w).comps eq2.owner)).marker).map (fun m => (m, eq2.slot)))
        melee_power_bonuses := serializeComp (saveWorld w) (fun c => c.melee_power_bonus) id
        defense_bonuses := serializeComp (saveWorld w) (fun c => c.defense_bonus) id
        wants_to_remove := rowsOf (saveWorld w) (fun c => c.wants_to_remove) (fun wr => (((saveWorld w).comps wr.item)).marker)
        particle_lifetimes := serializeComp (saveWorld w) (fun c => c.particle_lifetime) id
        hunger_clocks := serializeComp (saveWorld w) (fun c => c.hunger_clock) id
        provides_food := serializeComp (saveWorld w) (fun c => c.provides_food) id } := by
    unfold serializeWorld
    rw [htot_wants_melee, htot_in_backpack, htot_wants_to_pickup, htot_wants_to_use,
      htot_wants_to_drop, htot_equipped, htot_wants_to_remove]
    rfl
  have hT_positions : serializeComp (saveWorld w) (fun c => c.position) id =
      rowsOf w (fun c => c.position) (fun c => some c) := by
    rw [serializeComp_eq_rowsOf]
    apply rowsOf_append w (saveWorld w) w.next_entity _ _ _ hWSent
    · intro e he
      rw [hWSold e he]
    · rw [hWSH]
      rfl
  have hT_renderables : serializeComp (saveWorld w) (fun c => c.renderable) id =
      rowsOf w (fun c => c.renderable) (fun c => some c) := by
    rw [serializeComp_eq_rowsOf]
    apply rowsOf_append w (saveWorld w) w.next_entity _ _ _ hWSent
    · intro e he
      rw [hWSold e he]
    · rw [hWSH]
      rfl
  have hT_players : serializeComp (saveWorld w) (fun c => c.player) id =
      rowsOf w (fun c => c.player) (fun c => some c) := by
    rw [serializeComp_eq_rowsOf]
    apply rowsOf_append w (saveWorld w) w.next_entity _ _ _ hWSent
    · intro e he
      rw [hWSold e he]
    · rw [hWSH]
      rfl
  have hT_viewsheds : serializeComp (saveWorld w) (fun c => c.viewshed) id =
      rowsOf w (fun c => c.viewshed) (fun c => some c) := by
    rw [serializeComp_eq_rowsOf]
    apply rowsOf_append w (saveWorld w) w.next_entity _ _ _ hWSent
    · intro e he
      rw [hWSold e he]
    · rw [hWSH]
      rfl
  have hT_monsters : serializeComp (saveWorld w) (fun c => c.monster) id =
      rowsOf w (fun c => c.monster) (fun c => some c) := by
    rw [serializeComp_eq_rowsOf]
    apply rowsOf_append w (saveWorld w) w.next_entity _ _ _ hWSent
    · intro e he
      rw [hWSold e he]
    · rw [hWSH]
      rfl
  have hT_names : serializeComp (saveWorld w) (fun c => c.name) id =
      rowsOf w (fun c => c.name) (fun c => some c) := by
    rw [serializeComp_eq_rowsOf]
    apply rowsOf_append w (saveWorld w) w.next_entity _ _ _ hWSent
    · intro e he
      rw [hWSold e he]
    · rw [hWSH]
      rfl
  have hT_blocks_tile : serializeComp (saveWorld w) (fun c => c.blocks_tile) id =
      rowsOf w (fun c => c.blocks_tile) (fun c => some c) := by
    rw [serializeComp_eq_rowsOf]
    apply rowsOf_append w (saveWorld w) w.next_entity _ _ _ hWSent
    · intro e he
      rw [hWSold e he]
    · rw [hWSH]
      rfl
  have hT_combat_stats : serializeComp (saveWorld w) (fun c => c.combat_stats) id =
      rowsOf w (fun c => c.combat_stats) (fun c => some c) := by
    rw [serializeComp_eq_rowsOf]
    apply rowsOf_append w (saveWorld w) w.next_entity _ _ _ hWSent
    · intro e he
      rw [hWSold e he]
    · rw [hWSH]
      rfl
  have hT_suffer_damage : serializeComp (saveWorld w) (fun c => c.suffer_damage) id =
      rowsOf w (fun c => c.suffer_damage) (fun c => some c) := by
    rw [serializeComp_eq_rowsOf]
    apply rowsOf_append w (saveWorld w) w.next_entity _ _ _ hWSent
    · intro e he
      rw [hWSold e he]
    · rw [hWSH]
      rfl
  have hT_wants_melee : rowsOf (saveWorld w) (fun c => c.wants_melee) (fun wm => (((saveWorld w).comps wm.target)).marker) =
      rowsOf w (fun c => c.wants_melee) (fun wm => ((w.comps wm.target)).marker) := by
    apply rowsOf_append w (saveWorld w) w.next_entity _ _ _ hWSent
    · intro e he
      rw [hWSold e he]
      rcases h1 : ((w.comps e)).marker with _ | mm <;>
        rcases h2 : (w.comps e).wants_melee with _ | c <;>
        simp only [h1, h2]
      rw [hWSold c.target (((refTargetsLive_spec w e (hrefs e he)).1) c h2)]
    · rw [hWSH]
      rfl
  have hT_items : serializeComp (saveWorld w) (fun c => c.item) id =
      rowsOf w (fun c => c.item) (fun c => some c) := by
    rw [serializeComp_eq_rowsOf]
    apply rowsOf_append w (saveWorld w) w.next_entity _ _ _ hWSent
    · intro e he
      rw [hWSold e he]
    · rw [hWSH]
      rfl
  have hT_consumables : serializeComp (saveWorld w) (fun c => c.consumable) id =
      rowsOf w (fun c => c.consumable) (fun c => some c) := by
    rw [serializeComp_eq_rowsOf]
    apply rowsOf_append w (saveWorld w) w.next_entity _ _ _ hWSent
    · intro e he
      rw [hWSold e he]
    · rw [hWSH]
      rfl
  have hT_ranged : serializeComp (saveWorld w) (fun c => c.ranged) id =
      rowsOf w (fun c => c.ranged) (fun c => some c) := by
    rw [serializeComp_eq_rowsOf]
    apply rowsOf_append w (saveWorld w) w.next_entity _ _ _ hWSent
    · intro e he
      rw [hWSold e he]
    · rw [hWSH]
      rfl
  have hT_inflicts_damage : serializeComp (saveWorld w) (fun c => c.inflicts_damage) id =
      rowsOf w (fun c => c.inflicts_damage) (fun c => some c) := by
    rw [serializeComp_eq_rowsOf]
    apply rowsOf_append w (saveWorld w) w.next_entity _ _ _ hWSent
    · intro e he
      rw [hWSold e he]
    · rw [hWSH]
      rfl
  have hT_area_of_effect : serializeComp (saveWorld w) (fun c => c.area_of_effect) id =
      rowsOf w (fun c => c.area_of_effect) (fun c => some c) := by
    rw [serializeComp_eq_rowsOf]
    apply rowsOf_append w (saveWorld w) w.next_entity _ _ _ hWSent
    · intro e he
      rw [hWSold e he]
    · rw [hWSH]
      rfl
  have hT_confusion : serializeComp (saveWorld w) (fun c => c.confusion) id =
      rowsOf w (fun c => c.confusion) (fun c => some c) := by
    rw [serializeComp_eq_rowsOf]
    apply rowsOf_append w (saveWorld w) w.next_entity _ _ _ hWSent
    · intro e he
      rw [hWSold e he]
    · rw [hWSH]
      rfl
  have hT_provides_healing : serializeComp (saveWorld w) (fun c => c.provides_healing) id =
      rowsOf w (fun c => c.provides_healing) (fun c => some c) := by
    rw [serializeComp_eq_rowsOf]
    apply rowsOf_append w (saveWorld w) w.next_entity _ _ _ hWSent
    · intro e he
      rw [hWSold e he]
    · rw [hWSH]
      rfl
  have hT_in_backpack : rowsOf (saveWorld w) (fun c => c.in_backpack) (fun bp => (((saveWorld w).comps bp.owner)).marker) =
      rowsOf w (fun c => c.in_backpack) (fun bp => ((w.comps bp.owner)).marker) := by
    apply rowsOf_append w (saveWorld w) w.next_entity _ _ _ hWSent
    · intro e he
      rw [hWSold e he]
      rcases h1 : ((w.comps e)).marker with _ | mm <;>
        rcases h2 : (w.comps e).in_backpack with _ | c <;>
        simp only [h1, h2]
      rw [hWSold c.owner (((refTargetsLive_spec w e (hrefs e he)).2.1) c h2)]
    · rw [hWSH]
      rfl
  have hT_wants_to_pickup : rowsOf (saveWorld w) (fun c => c.wants_to_pickup) (fun wp => ((((saveWorld w).comps wp.collected_by)).marker).bind (fun a => ((((saveWorld w).comps wp.item)).marker).map (fun b => (a, b)))) =
      rowsOf w (fun c => c.wants_to_pickup) (fun wp => (((w.comps wp.collected_by)).marker).bind (fun a => (((w.comps wp.item)).marker).map (fun b => (a, b)))) := by
    apply rowsOf_append w (saveWorld w) w.next_entity _ _ _ hWSent
    · intro e he
      rw [hWSold e he]
      rcases h1 : ((w.comps e)).marker with _ | mm <;>
        rcases h2 : (w.comps e).wants_to_pickup with _ | c <;>
        simp only [h1, h2]
      have hcb := ((refTargetsLive_spec w e (hrefs e he)).2.2.1) c h2
      rw [hWSold c.collected_by hcb.1, hWSold c.item hcb.2]
    · rw [hWSH]
      rfl
  have hT_wants_to_use : rowsOf (saveWorld w) (fun c => c.wants_to_use) (fun wu => ((((saveWorld w).comps wu.item)).marker).map (fun m => (m, wu.target))) =
      rowsOf w (fun c => c.wants_to_use) (fun wu => (((w.comps wu.item)).marker).map (fun m => (m, wu.target))) := by
    apply rowsOf_append w (saveWorld w) w.next_entity _ _ _ hWSent
    · intro e he
      rw [hWSold e he]
      rcases h1 : ((w.comps e)).marker with _ | mm <;>
        rcases h2 : (w.comps e).wants_to_use with _ | c <;>
        simp only [h1, h2]
      rw [hWSold c.item (((refTargetsLive_spec w e (hrefs e he)).2.2.2.1) c h2)]
    · rw [hWSH]
      rfl
  have hT_wants_to_drop : rowsOf (saveWorld w) (fun c => c.wants_to_drop) (fun wd => (((saveWorld w).comps wd.item)).marker) =
      rowsOf w (fun c => c.wants_to_drop) (fun wd => ((w.comps wd.item)).marker) := by
    apply rowsOf_append w (saveWorld w) w.next_entity _ _ _ hWSent
    · intro e he
      rw [hWSold e he]
      rcases h1 : ((w.comps e)).marker with _ | mm <;>
        rcases h2 : (w.comps e).wants_to_drop with _ | c <;>
        simp only [h1, h2]
      rw [hWSold c.item (((refTargetsLive_spec w e (hrefs e he)).2.2.2.2.1) c h2)]
    · rw [hWSH]
      rfl
  have hT_helpers : serializeComp (saveWorld w) (fun c => c.serialization_helper)
      (fun h => HelperSave.mk h.map.toSave h.game_log) =
      [(w.next_marker, HelperSave.mk w.map.toSave w.log)] := by
    unfold serializeComp
    apply filterMap_eq_singleton (saveWorld w).entities _ w.next_entity _ hWSnodup
    · rw [hWSent]
      exact List.mem_append.mpr (Or.inr (List.mem_singleton.mpr rfl))
    · rw [hWSH]
      rfl
    · intro x hx hne
      have hxw : x ∈ w.entities := by
        rw [hWSent] at hx
        rcases List.mem_append.mp hx with h | h
        · exact h
        · exact absurd (List.mem_singleton.mp h) hne
      rw [hWSold x hxw]
      rcases h1 : ((w.comps x)).marker with _ | mm <;>
        simp only [h1, hnohelp x hxw]
  have hT_equippables : serializeComp (saveWorld w) (fun c => c.equippable) id =
      rowsOf w (fun c => c.equippable) (fun c => some c) := by
    rw [serializeComp_eq_rowsOf]
    apply rowsOf_append w (saveWorld w) w.next_entity _ _ _ hWSent
    · intro e he
      rw [hWSold e he]
    · rw [hWSH]
      rfl
  have hT_equipped : rowsOf (saveWorld w) (fun c => c.equipped) (fun eq2 => ((((saveWorld w).comps eq2.owner)).marker).map (fun m => (m, eq2.slot))) =
      rowsOf w (fun c => c.equipped) (fun eq2 => (((w.comps eq2.owner)).marker).map (fun m => (m, eq2.slot))) := by
    apply rowsOf_append w (saveWorld w) w.next_entity _ _ _ hWSent
    · intro e he
      rw [hWSold e he]
      rcases h1 : ((w.comps e)).marker with _ | mm <;>
        rcases h2 : (w.comps e).equipped with _ | c <;>
        simp only [h1, h2]
      rw [hWSold c.owner (((refTargetsLive_spec w e (hrefs e he)).2.2.2.2.2.1) c h2)]
    · rw [hWSH]
      rfl
  have hT_melee_power_bonuses : serializeComp (saveWorld w) (fun c => c.melee_power_bonus) id =
      rowsOf w (fun c => c.melee_power_bonus) (fun c => some c) := by
    rw [serializeComp_eq_rowsOf]
    apply rowsOf_append w (saveWorld w) w.next_entity _ _ _ hWSent
    · intro e he
      rw [hWSold e he]
    · rw [hWSH]
      rfl
  have hT_defense_bonuses : serializeComp (saveWorld w) (fun c => c.defense_bonus) id =
      rowsOf w (fun c => c.defense_bonus) (fun c => some c) := by
    rw [serializeComp_eq_rowsOf]
    apply rowsOf_append w (saveWorld w) w.next_entity _ _ _ hWSent
    · intro e he
      rw [hWSold e he]
    · rw [hWSH]
      rfl
  have hT_wants_to_remove : rowsOf (saveWorld w) (fun c => c.wants_to_remove) (fun wr => (((saveWorld w).comps wr.item)).marker) =
      rowsOf w (fun c => c.wants_to_remove) (fun wr => ((w.comps wr.item)).marker) := by
    apply rowsOf_append w (saveWorld w) w.next_entity _ _ _ hWSent
    · intro e he
      rw [hWSold e he]
      rcases h1 : ((w.comps e)).marker with _ | mm <;>
        rcases h2 : (w.comps e).wants_to_remove with _ | c <;>
        simp only [h1, h2]
      rw [hWSold c.item (((refTargetsLive_spec w e (hrefs e he)).2.2.2.2.2.2) c h2)]
    · rw [hWSH]
      rfl
  have hT_particle_lifetimes : serializeComp (saveWorld w) (fun c => c.particle_lifetime) id =
      rowsOf w (fun c => c.particle_lifetime) (fun c => some c) := by
    rw [serializeComp_eq_rowsOf]
    apply rowsOf_append w (saveWorld w) w.next_entity _ _ _ hWSent
    · intro e he
      rw [hWSold e he]
    · rw [hWSH]
      rfl
  have hT_hunger_clocks : serializeComp (saveWorld w) (fun c => c.hunger_clock) id =
      rowsOf w (fun c => c.hunger_clock) (fun c => some c) := by
    rw [serializeComp_eq_rowsOf]
    apply rowsOf_append w (saveWorld w) w.next_entity _ _ _ hWSent
    · intro e he
      rw [hWSold e he]
    · rw [hWSH]
      rfl
  have hT_provides_food : serializeComp (saveWorld w) (fun c => c.provides_food) id =
      rowsOf w (fun c => c.provides_food) (fun c => some c) := by
    rw [serializeComp_eq_rowsOf]
    apply rowsOf_append w (saveWorld w) w.next_entity _ _ _ hWSent
    · intro e he
      rw [hWSold e he]
    · rw [hWSH]
      rfl
  have hsg : save_game w = (match serializeWorld (saveWorld w) with
      | none => none
      | some data => some (deleteEntity (saveWorld w) w.next_entity, data)) := rfl
  rw [hsg, hser]
  rw [hT_positions, hT_renderables, hT_players, hT_viewsheds, hT_monsters,
    hT_names, hT_blocks_tile, hT_combat_stats, hT_suffer_damage, hT_wants_melee,
    hT_items, hT_consumables, hT_ranged, hT_inflicts_damage, hT_area_of_effect,
    hT_confusion, hT_provides_healing, hT_in_backpack, hT_wants_to_pickup,
    hT_wants_to_use, hT_wants_to_drop, hT_helpers, hT_equippables, hT_equipped,
    hT_melee_power_bonuses, hT_defense_bonuses, hT_wants_to_remove,
    hT_particle_lifetimes, hT_hunger_clocks, hT_provides_food]


set_option maxHeartbeats 3200000 in
/-- Core of the save/load round trip: loading the saved rows into the
post-save world reproduces, marker for marker, every persisted component
value of the original world, leaves no helper, and restores the Map and
GameLog resources. -/
lemma roundtrip_core (w : World) (data : SaveData)
    (hnodup : w.entities.Nodup)
    (helt : ∀ e ∈ w.entities, e < w.next_entity)
    (hmark : ∀ e ∈ w.entities, ((w.comps e).marker).isSome = true)
    (hinj : ∀ e ∈ w.entities, ∀ x ∈ w.entities,
      (w.comps e).marker = (w.comps x).marker → e = x)
    (hmlt : ∀ e ∈ w.entities, ∀ m, (w.comps e).marker = some m → m < w.next_marker)
    (hnohelp : ∀ e ∈ w.entities, (w.comps e).serialization_helper = none)
    (hrefs : ∀ e ∈ w.entities, refTargetsLive w e = true)
    (hd_pos : data.positions = rowsOf w (fun c => c.position) (fun c => some c))
    (hd_rnd : data.renderables = rowsOf w (fun c => c.renderable) (fun c => some c))
    (hd_pl : data.players = rowsOf w (fun c => c.player) (fun c => some c))
    (hd_vs : data.viewsheds = rowsOf w (fun c => c.viewshed) (fun c => some c))
    (hd_mon : data.monsters = rowsOf w (fun c => c.monster) (fun c => some c))
    (hd_nm2 : data.names = rowsOf w (fun c => c.name) (fun c => some c))
    (hd_bt : data.blocks_tile = rowsOf w (fun c => c.blocks_tile) (fun c => some c))
    (hd_cs : data.combat_stats = rowsOf w (fun c => c.combat_stats) (fun c => some c))
    (hd_sd : data.suffer_damage = rowsOf w (fun c => c.suffer_damage) (fun c => some c))
    (hd_wm : data.wants_melee = rowsOf w (fun c => c.wants_melee) (fun c => ((w.comps c.target)).marker))
    (hd_it : data.items = rowsOf w (fun c => c.item) (fun c => some c))
    (hd_con : data.consumables = rowsOf w (fun c => c.consumable) (fun c => some c))
    (hd_rg : data.ranged = rowsOf w (fun c => c.ranged) (fun c => some c))
    (hd_inf : data.inflicts_damage = rowsOf w (fun c => c.inflicts_damage) (fun c => some c))
    (hd_ae : data.area_of_effect = rowsOf w (fun c => c.area_of_effect) (fun c => some c))
    (hd_cf : data.confusion = rowsOf w (fun c => c.confusion) (fun c => some c))
    (hd_ph : data.provides_healing = rowsOf w (fun c => c.provides_healing) (fun c => some c))
    (hd_ib : data.in_backpack = rowsOf w (fun c => c.in_backpack) (fun c => ((w.comps c.owner)).marker))
    (hd_wp : data.wants_to_pickup = rowsOf w (fun c => c.wants_to_pickup) (fun c => (((w.comps c.collected_by)).marker).bind (fun a => (((w.comps c.item)).marker).map (fun b => (a, b)))))
    (hd_wu : data.wants_to_use = rowsOf w (fun c => c.wants_to_use) (fun c => (((w.comps c.item)).marker).map (fun mm => (mm, c.target))))
    (hd_wd : data.wants_to_drop = rowsOf w (fun c => c.wants_to_drop) (fun c => ((w.comps c.item)).marker))
    (hd_sh : data.helpers = [(w.next_marker, HelperSave.mk w.map.toSave w.log)])
    (hd_eqb : data.equippables = rowsOf w (fun c => c.equippable) (fun c => some c))
    (hd_eqp : data.equipped = rowsOf w (fun c => c.equipped) (fun c => (((w.comps c.owner)).marker).map (fun mm => (mm, c.slot))))
    (hd_mp : data.melee_power_bonuses = rowsOf w (fun c => c.melee_power_bonus) (fun c => some c))
    (hd_db : data.defense_bonuses = rowsOf w (fun c => c.defense_bonus) (fun c => some c))
    (hd_wr : data.wants_to_remove = rowsOf w (fun c => c.wants_to_remove) (fun c => ((w.comps c.item)).marker))
    (hd_plt : data.particle_lifetimes = rowsOf w (fun c => c.particle_lifetime) (fun c => some c))
    (hd_hc2 : data.hunger_clocks = rowsOf w (fun c => c.hunger_clock) (fun c => some c))
    (hd_pf : data.provides_food = rowsOf w (fun c => c.provides_food) (fun c => some c))
    :
    (∀ e ∈ (load_game (deleteEntity (saveWorld w) w.next_entity) data).entities, ∃ e0 ∈ w.entities,
       ((load_game (deleteEntity (saveWorld w) w.next_entity) data).comps e).marker = (w.comps e0).marker ∧
       viewOf (load_game (deleteEntity (saveWorld w) w.next_entity) data) e = viewOf w e0) ∧
    (∀ e0 ∈ w.entities, viewOf w e0 ≠ emptyView →
       ∃ e ∈ (load_game (deleteEntity (saveWorld w) w.next_entity) data).entities,
         ((load_game (deleteEntity (saveWorld w) w.next_entity) data).comps e).marker = (w.comps e0).marker) ∧
    (∀ e ∈ (load_game (deleteEntity (saveWorld w) w.next_entity) data).entities,
       ((load_game (deleteEntity (saveWorld w) w.next_entity) data).comps e).serialization_helper = none) ∧
    (load_game (deleteEntity (saveWorld w) w.next_entity) data).map = { w.map with tile_content := List.replicate MAP_COUNT [] } ∧
    (load_game (deleteEntity (saveWorld w) w.next_entity) data).log = ⟨"Loaded game from save" :: w.log.entries⟩ := by
  have hHnm : w.next_entity ∉ w.entities := fun h => absurd (helt _ h) (Nat.lt_irrefl _)
  rw [load_game_decomp]
  set v0 := ((deleteEntity (saveWorld w) w.next_entity)).entities.foldl deleteEntity
    (deleteEntity (saveWorld w) w.next_entity) with hv0def
  set v30 := loadPasses v0 data with hv30def
  set wl := loadFinish v30 with hwldef
  have hv0ent : v0.entities = [] := by
    rw [hv0def]
    apply List.eq_nil_iff_forall_not_mem.mpr
    intro e he
    obtain ⟨h1, h2⟩ := (foldl_deleteEntity_mem _ _ e).mp he
    exact h2 h1
  have hv0inv : LoadInv v0 := by
    refine ⟨?_, ?_, ?_, ?_⟩
    · intro e he
      rw [hv0ent] at he
      exact absurd he (List.not_mem_nil e)
    · rw [hv0ent]
      exact List.nodup_nil
    · intro e he
      rw [hv0ent] at he
      exact absurd he (List.not_mem_nil e)
    · intro e he
      rw [hv0ent] at he
      exact absurd he (List.not_mem_nil e)
  have hK_pos : ((data.positions).map Prod.fst).Nodup := by
    rw [hd_pos]
    exact rowsOf_keys_nodup w _ _ hnodup hinj
  have hK_rnd : ((data.renderables).map Prod.fst).Nodup := by
    rw [hd_rnd]
    exact rowsOf_keys_nodup w _ _ hnodup hinj
  have hK_pl : ((data.players).map Prod.fst).Nodup := by
    rw [hd_pl]
    exact rowsOf_keys_nodup w _ _ hnodup hinj
  have hK_vs : ((data.viewsheds).map Prod.fst).Nodup := by
    rw [hd_vs]
    exact rowsOf_keys_nodup w _ _ hnodup hinj
  have hK_mon : ((data.monsters).map Prod.fst).Nodup := by
    rw [hd_mon]
    exact rowsOf_keys_nodup w _ _ hnodup hinj
  have hK_nm2 : ((data.names).map Prod.fst).Nodup := by
    rw [hd_nm2]
    exact rowsOf_keys_nodup w _ _ hnodup hinj
  have hK_bt : ((data.blocks_tile).map Prod.fst).Nodup := by
    rw [hd_bt]
    exact rowsOf_keys_nodup w _ _ hnodup hinj
  have hK_cs : ((data.combat_stats).map Prod.fst).Nodup := by
    rw [hd_cs]
    exact rowsOf_keys_nodup w _ _ hnodup hinj
  have hK_sd : ((data.suffer_damage).map Prod.fst).Nodup := by
    rw [hd_sd]
    exact rowsOf_keys_nodup w _ _ hnodup hinj
  have hK_wm : ((data.wants_melee).map Prod.fst).Nodup := by
    rw [hd_wm]
    exact rowsOf_keys_nodup w _ _ hnodup hinj
  have hK_it : ((data.items).map Prod.fst).Nodup := by
    rw [hd_it]
    exact rowsOf_keys_nodup w _ _ hnodup hinj
  have hK_con : ((data.consumables).map Prod.fst).Nodup := by
    rw [hd_con]
    exact rowsOf_keys_nodup w _ _ hnodup hinj
  have hK_rg : ((data.ranged).map Prod.fst).Nodup := by
    rw [hd_rg]
    exact rowsOf_keys_nodup w _ _ hnodup hinj
  have hK_inf : ((data.inflicts_damage).map Prod.fst).Nodup := by
    rw [hd_inf]
    exact rowsOf_keys_nodup w _ _ hnodup hinj
  have hK_ae : ((data.area_of_effect).map Prod.fst).Nodup := by
    rw [hd_ae]
    exact rowsOf_keys_nodup w _ _ hnodup hinj
  have hK_cf : ((data.confusion).map Prod.fst).Nodup := by
    rw [hd_cf]
    exact rowsOf_keys_nodup w _ _ hnodup hinj
  have hK_ph : ((data.provides_healing).map Prod.fst).Nodup := by
    rw [hd_ph]
    exact rowsOf_keys_nodup w _ _ hnodup hinj
  have hK_ib : ((data.in_backpack).map Prod.fst).Nodup := by
    rw [hd_ib]
    exact rowsOf_keys_nodup w _ _ hnodup hinj
  have hK_wp : ((data.wants_to_pickup).map Prod.fst).Nodup := by
    rw [hd_wp]
    exact rowsOf_keys_nodup w _ _ hnodup hinj
  have hK_wu : ((data.wants_to_use).map Prod.fst).Nodup := by
    rw [hd_wu]
    exact rowsOf_keys_nodup w _ _ hnodup hinj
  have hK_wd : ((data.wants_to_drop).map Prod.fst).Nodup := by
    rw [hd_wd]
    exact rowsOf_keys_nodup w _ _ hnodup hinj
  have hK_sh : ((data.helpers).map Prod.fst).Nodup := by
    rw [hd_sh]
    simp
  have hK_eqb : ((data.equippables).map Prod.fst).Nodup := by
    rw [hd_eqb]
    exact rowsOf_keys_nodup w _ _ hnodup hinj
  have hK_eqp : ((data.equipped).map Prod.fst).Nodup := by
    rw [hd_eqp]
    exact rowsOf_keys_nodup w _ _ hnodup hinj
  have hK_mp : ((data.melee_power_bonuses).map Prod.fst).Nodup := by
    rw [hd_mp]
    exact rowsOf_keys_nodup w _ _ hnodup hinj
  have hK_db : ((data.defense_bonuses).map Prod.fst).Nodup := by
    rw [hd_db]
    exact rowsOf_keys_nodup w _ _ hnodup hinj
  have hK_wr : ((data.wants_to_remove).map Prod.fst).Nodup := by
    rw [hd_wr]
    exact rowsOf_keys_nodup w _ _ hnodup hinj
  have hK_plt : ((data.particle_lifetimes).map Prod.fst).Nodup := by
    rw [hd_plt]
    exact rowsOf_keys_nodup w _ _ hnodup hinj
  have hK_hc2 : ((data.hunger_clocks).map Prod.fst).Nodup := by
    rw [hd_hc2]
    exact rowsOf_keys_nodup w _ _ hnodup hinj
  have hK_pf : ((data.provides_food).map Prod.fst).Nodup := by
    rw [hd_pf]
    exact rowsOf_keys_nodup w _ _ hnodup hinj
  have hA_pos : ∀ p ∈ data.positions, liveMarker w p.1 ∨ p.1 = w.next_marker := by
    intro p hp
    rw [hd_pos] at hp
    obtain ⟨e1, he1, hm1, _⟩ := (rowsOf_mem w _ _ p.1 p.2).mp hp
    exact Or.inl ⟨e1, he1, hm1⟩
  have hA_rnd : ∀ p ∈ data.renderables, liveMarker w p.1 ∨ p.1 = w.next_marker := by
    intro p hp
    rw [hd_rnd] at hp
    obtain ⟨e1, he1, hm1, _⟩ := (rowsOf_mem w _ _ p.1 p.2).mp hp
    exact Or.inl ⟨e1, he1, hm1⟩
  have hA_pl : ∀ p ∈ data.players, liveMarker w p.1 ∨ p.1 = w.next_marker := by
    intro p hp
    rw [hd_pl] at hp
    obtain ⟨e1, he1, hm1, _⟩ := (rowsOf_mem w _ _ p.1 p.2).mp hp
    exact Or.inl ⟨e1, he1, hm1⟩
  have hA_vs : ∀ p ∈ data.viewsheds, liveMarker w p.1 ∨ p.1 = w.next_marker := by
    intro p hp
    rw [hd_vs] at hp
    obtain ⟨e1, he1, hm1, _⟩ := (rowsOf_mem w _ _ p.1 p.2).mp hp
    exact Or.inl ⟨e1, he1, hm1⟩
  have hA_mon : ∀ p ∈ data.monsters, liveMarker w p.1 ∨ p.1 = w.next_marker := by
    intro p hp
    rw [hd_mon] at hp
    obtain ⟨e1, he1, hm1, _⟩ := (rowsOf_mem w _ _ p.1 p.2).mp hp
    exact Or.inl ⟨e1, he1, hm1⟩
  have hA_nm2 : ∀ p ∈ data.names, liveMarker w p.1 ∨ p.1 = w.next_marker := by
    intro p hp
    rw [hd_nm2] at hp
    obtain ⟨e1, he1, hm1, _⟩ := (rowsOf_mem w _ _ p.1 p.2).mp hp
    exact Or.inl ⟨e1, he1, hm1⟩
  have hA_bt : ∀ p ∈ data.blocks_tile, liveMarker w p.1 ∨ p.1 = w.next_marker := by
    intro p hp
    rw [hd_bt] at hp
    obtain ⟨e1, he1, hm1, _⟩ := (rowsOf_mem w _ _ p.1 p.2).mp hp
    exact Or.inl ⟨e1, he1, hm1⟩
  have hA_cs : ∀ p ∈ data.combat_stats, liveMarker w p.1 ∨ p.1 = w.next_marker := by
    intro p hp
    rw [hd_cs] at hp
    obtain ⟨e1, he1, hm1, _⟩ := (rowsOf_mem w _ _ p.1 p.2).mp hp
    exact Or.inl ⟨e1, he1, hm1⟩
  have hA_sd : ∀ p ∈ data.suffer_damage, liveMarker w p.1 ∨ p.1 = w.next_marker := by
    intro p hp
    rw [hd_sd] at hp
    obtain ⟨e1, he1, hm1, _⟩ := (rowsOf_mem w _ _ p.1 p.2).mp hp
    exact Or.inl ⟨e1, he1, hm1⟩
  have hA_wm : ∀ p ∈ data.wants_melee, (liveMarker w p.1 ∨ p.1 = w.next_marker) ∧
      (liveMarker w p.2 ∨ p.2 = w.next_marker) := by
    intro p hp
    rw [hd_wm] at hp
    obtain ⟨e1, he1, hm1, c1, hc1, hg1⟩ := (rowsOf_mem w _ _ p.1 p.2).mp hp
    refine ⟨Or.inl ⟨e1, he1, hm1⟩, Or.inl ?_⟩
    have htm : c1.target ∈ w.entities := ((refTargetsLive_spec w e1 (hrefs e1 he1)).1) c1 hc1
    exact ⟨c1.target, htm, hg1⟩
  have hA_it : ∀ p ∈ data.items, liveMarker w p.1 ∨ p.1 = w.next_marker := by
    intro p hp
    rw [hd_it] at hp
    obtain ⟨e1, he1, hm1, _⟩ := (rowsOf_mem w _ _ p.1 p.2).mp hp
    exact Or.inl ⟨e1, he1, hm1⟩
  have hA_con : ∀ p ∈ data.consumables, liveMarker w p.1 ∨ p.1 = w.next_marker := by
    intro p hp
    rw [hd_con] at hp
    obtain ⟨e1, he1, hm1, _⟩ := (rowsOf_mem w _ _ p.1 p.2).mp hp
    exact Or.inl ⟨e1, he1, hm1⟩
  have hA_rg : ∀ p ∈ data.ranged, liveMarker w p.1 ∨ p.1 = w.next_marker := by
    intro p hp
    rw [hd_rg] at hp
    obtain ⟨e1, he1, hm1, _⟩ := (rowsOf_mem w _ _ p.1 p.2).mp hp
    exact Or.inl ⟨e1, he1, hm1⟩
  have hA_inf : ∀ p ∈ data.inflicts_damage, liveMarker w p.1 ∨ p.1 = w.next_marker := by
    intro p hp
    rw [hd_inf] at hp
    obtain ⟨e1, he1, hm1, _⟩ := (rowsOf_mem w _ _ p.1 p.2).mp hp
    exact Or.inl ⟨e1, he1, hm1⟩
  have hA_ae : ∀ p ∈ data.area_of_effect, liveMarker w p.1 ∨ p.1 = w.next_marker := by
    intro p hp
    rw [hd_ae] at hp
    obtain ⟨e1, he1, hm1, _⟩ := (rowsOf_mem w _ _ p.1 p.2).mp hp
    exact Or.inl ⟨e1, he1, hm1⟩
  have hA_cf : ∀ p ∈ data.confusion, liveMarker w p.1 ∨ p.1 = w.next_marker := by
    intro p hp
    rw [hd_cf] at hp
    obtain ⟨e1, he1, hm1, _⟩ := (rowsOf_mem w _ _ p.1 p.2).mp hp
    exact Or.inl ⟨e1, he1, hm1⟩
  have hA_ph : ∀ p ∈ data.provides_healing, liveMarker w p.1 ∨ p.1 = w.next_marker := by
    intro p hp
    rw [hd_ph] at hp
    obtain ⟨e1, he1, hm1, _⟩ := (rowsOf_mem w _ _ p.1 p.2).mp hp
    exact Or.inl ⟨e1, he1, hm1⟩
  have hA_ib : ∀ p ∈ data.in_backpack, (liveMarker w p.1 ∨ p.1 = w.next_marker) ∧
      (liveMarker w p.2 ∨ p.2 = w.next_marker) := by
    intro p hp
    rw [hd_ib] at hp
    obtain ⟨e1, he1, hm1, c1, hc1, hg1⟩ := (rowsOf_mem w _ _ p.1 p.2).mp hp
    refine ⟨Or.inl ⟨e1, he1, hm1⟩, Or.inl ?_⟩
    have htm : c1.owner ∈ w.entities := ((refTargetsLive_spec w e1 (hrefs e1 he1)).2.1) c1 hc1
    exact ⟨c1.owner, htm, hg1⟩
  have hA_wp : ∀ p ∈ data.wants_to_pickup, (liveMarker w p.1 ∨ p.1 = w.next_marker) ∧
      (liveMarker w p.2.1 ∨ p.2.1 = w.next_marker) ∧
      (liveMarker w p.2.2 ∨ p.2.2 = w.next_marker) := by
    intro p hp
    rw [hd_wp] at hp
    obtain ⟨e1, he1, hm1, c1, hc1, hg1⟩ := (rowsOf_mem w _ _ p.1 p.2).mp hp
    have htm := ((refTargetsLive_spec w e1 (hrefs e1 he1)).2.2.1) c1 hc1
    rcases hb1 : ((w.comps c1.collected_by)).marker with _ | b1
    · rw [hb1] at hg1
      exact Option.noConfusion hg1
    · rcases hb2 : ((w.comps c1.item)).marker with _ | b2
      · rw [hb1, hb2] at hg1
        exact Option.noConfusion hg1
      · rw [hb1, hb2] at hg1
        have hg2 : some (b1, b2) = some p.2 := hg1
        injection hg2 with h2
        refine ⟨Or.inl ⟨e1, he1, hm1⟩, Or.inl ⟨c1.collected_by, htm.1, ?_⟩,
          Or.inl ⟨c1.item, htm.2, ?_⟩⟩
        · rw [hb1, ← h2]
        · rw [hb2, ← h2]
  have hA_wu : ∀ p ∈ data.wants_to_use, (liveMarker w p.1 ∨ p.1 = w.next_marker) ∧
      (liveMarker w p.2.1 ∨ p.2.1 = w.next_marker) := by
    intro p hp
    rw [hd_wu] at hp
    obtain ⟨e1, he1, hm1, c1, hc1, hg1⟩ := (rowsOf_mem w _ _ p.1 p.2).mp hp
    refine ⟨Or.inl ⟨e1, he1, hm1⟩, Or.inl ?_⟩
    have htm : c1.item ∈ w.entities := ((refTargetsLive_spec w e1 (hrefs e1 he1)).2.2.2.1) c1 hc1
    rcases hb : ((w.comps c1.item)).marker with _ | b
    · rw [hb] at hg1
      exact Option.noConfusion hg1
    · rw [hb] at hg1
      have hg2 : some (b, c1.target) = some p.2 := hg1
      injection hg2 with h2
      refine ⟨c1.item, htm, ?_⟩
      rw [hb, ← h2]
  have hA_wd : ∀ p ∈ data.wants_to_drop, (liveMarker w p.1 ∨ p.1 = w.next_marker) ∧
      (liveMarker w p.2 ∨ p.2 = w.next_marker) := by
    intro p hp
    rw [hd_wd] at hp
    obtain ⟨e1, he1, hm1, c1, hc1, hg1⟩ := (rowsOf_mem w _ _ p.1 p.2).mp hp
    refine ⟨Or.inl ⟨e1, he1, hm1⟩, Or.inl ?_⟩
    have htm : c1.item ∈ w.entities := ((refTargetsLive_spec w e1 (hrefs e1 he1)).2.2.2.2.1) c1 hc1
    exact ⟨c1.item, htm, hg1⟩
  have hA_sh : ∀ p ∈ data.helpers, liveMarker w p.1 ∨ p.1 = w.next_marker := by
    intro p hp
    rw [hd_sh] at hp
    have h2 : p = (w.next_marker, HelperSave.mk w.map.toSave w.log) := List.mem_singleton.mp hp
    rw [h2]
    exact Or.inr rfl
  have hA_eqb : ∀ p ∈ data.equippables, liveMarker w p.1 ∨ p.1 = w.next_marker := by
    intro p hp
    rw [hd_eqb] at hp
    obtain ⟨e1, he1, hm1, _⟩ := (rowsOf_mem w _ _ p.1 p.2).mp hp
    exact Or.inl ⟨e1, he1, hm1⟩
  have hA_eqp : ∀ p ∈ data.equipped, (liveMarker w p.1 ∨ p.1 = w.next_marker) ∧
      (liveMarker w p.2.1 ∨ p.2.1 = w.next_marker) := by
    intro p hp
    rw [hd_eqp] at hp
    obtain ⟨e1, he1, hm1, c1, hc1, hg1⟩ := (rowsOf_mem w _ _ p.1 p.2).mp hp
    refine ⟨Or.inl ⟨e1, he1, hm1⟩, Or.inl ?_⟩
    have htm : c1.owner ∈ w.entities := ((refTargetsLive_spec w e1 (hrefs e1 he1)).2.2.2.2.2.1) c1 hc1
    rcases hb : ((w.comps c1.owner)).marker with _ | b
    · rw [hb] at hg1
      exact Option.noConfusion hg1
    · rw [hb] at hg1
      have hg2 : some (b, c1.slot) = some p.2 := hg1
      injection hg2 with h2
      refine ⟨c1.owner, htm, ?_⟩
      rw [hb, ← h2]
  have hA_mp : ∀ p ∈ data.melee_power_bonuses, liveMarker w p.1 ∨ p.1 = w.next_marker := by
    intro p hp
    rw [hd_mp] at hp
    obtain ⟨e1, he1, hm1, _⟩ := (rowsOf_mem w _ _ p.1 p.2).mp hp
    exact Or.inl ⟨e1, he1, hm1⟩
  have hA_db : ∀ p ∈ data.defense_bonuses, liveMarker w p.1 ∨ p.1 = w.next_marker := by
    intro p hp
    rw [hd_db] at hp
    obtain ⟨e1, he1, hm1, _⟩ := (rowsOf_mem w _ _ p.1 p.2).mp hp
    exact Or.inl ⟨e1, he1, hm1⟩
  have hA_wr : ∀ p ∈ data.wants_to_remove, (liveMarker w p.1 ∨ p.1 = w.next_marker) ∧
      (liveMarker w p.2 ∨ p.2 = w.next_marker) := by
    intro p hp
    rw [hd_wr] at hp
    obtain ⟨e1, he1, hm1, c1, hc1, hg1⟩ := (rowsOf_mem w _ _ p.1 p.2).mp hp
    refine ⟨Or.inl ⟨e1, he1, hm1⟩, Or.inl ?_⟩
    have htm : c1.item ∈ w.entities := ((refTargetsLive_spec w e1 (hrefs e1 he1)).2.2.2.2.2.2) c1 hc1
    exact ⟨c1.item, htm, hg1⟩
  have hA_plt : ∀ p ∈ data.particle_lifetimes, liveMarker w p.1 ∨ p.1 = w.next_marker := by
    intro p hp
    rw [hd_plt] at hp
    obtain ⟨e1, he1, hm1, _⟩ := (rowsOf_mem w _ _ p.1 p.2).mp hp
    exact Or.inl ⟨e1, he1, hm1⟩
  have hA_hc2 : ∀ p ∈ data.hunger_clocks, liveMarker w p.1 ∨ p.1 = w.next_marker := by
    intro p hp
    rw [hd_hc2] at hp
    obtain ⟨e1, he1, hm1, _⟩ := (rowsOf_mem w _ _ p.1 p.2).mp hp
    exact Or.inl ⟨e1, he1, hm1⟩
  have hA_pf : ∀ p ∈ data.provides_food, liveMarker w p.1 ∨ p.1 = w.next_marker := by
    intro p hp
    rw [hd_pf] at hp
    obtain ⟨e1, he1, hm1, _⟩ := (rowsOf_mem w _ _ p.1 p.2).mp hp
    exact Or.inl ⟨e1, he1, hm1⟩
  have hLF := loadPasses_facts (fun m => liveMarker w m ∨ m = w.next_marker) v0 data
    hv0inv hv0ent
    hK_pos hK_rnd hK_pl hK_vs hK_mon hK_nm2 hK_bt hK_cs hK_sd hK_wm hK_it hK_con hK_rg
    hK_inf hK_ae hK_cf hK_ph hK_ib hK_wp hK_wu hK_wd hK_sh hK_eqb hK_eqp hK_mp hK_db
    hK_wr hK_plt hK_hc2 hK_pf
    hA_pos hA_rnd hA_pl hA_vs hA_mon hA_nm2 hA_bt hA_cs hA_sd hA_wm hA_it hA_con hA_rg
    hA_inf hA_ae hA_cf hA_ph hA_ib hA_wp hA_wu hA_wd hA_sh hA_eqb hA_eqp hA_mp hA_db
    hA_wr hA_plt hA_hc2 hA_pf
  rw [← hv30def] at hLF
  obtain ⟨eh, hehmem, hehmk, hfent, hfcomps, hfmap, hflog⟩ :=
    loadFinish_facts (fun m => liveMarker w m ∨ m = w.next_marker) data v30 hLF
      w.next_marker (HelperSave.mk w.map.toSave w.log) hd_sh
  rw [← hwldef] at hfent hfcomps hfmap hflog
  have hnm_ne : ∀ e0 ∈ w.entities, ∀ m, (w.comps e0).marker = some m →
      m ≠ w.next_marker := fun e0 he0 m hm hh =>
    absurd (hmlt e0 he0 m hm) (by rw [hh]; exact Nat.lt_irrefl _)
  have hwl_of_v30 : ∀ t ∈ v30.entities, ∀ k, (v30.comps t).marker = some k →
      k ≠ w.next_marker → t ∈ wl.entities ∧ wl.comps t = v30.comps t := by
    intro t ht k hk hkne
    have htne : t ≠ eh := by
      intro hh
      rw [hh, hehmk] at hk
      injection hk with h2
      exact hkne h2.symm
    have htwl : t ∈ wl.entities := (hfent t).mpr ⟨ht, htne⟩
    exact ⟨htwl, hfcomps t htwl⟩
  refine ⟨?_, ?_, ?_, hfmap, hflog⟩
  · intro e he
    have hev := (hfent e).mp he
    have hcompse : wl.comps e = v30.comps e := hfcomps e he
    have hms := hLF.inv.marked e hev.1
    rcases hk : (v30.comps e).marker with _ | m
    · rw [hk] at hms
      exact absurd hms (by simp)
    · have hmne : m ≠ w.next_marker := by
        intro hh
        exact hev.2 (hLF.inv.inj e hev.1 eh hehmem (by rw [hk, hehmk, hh]))
      have hlm : liveMarker w m := (hLF.marks e hev.1 m hk).resolve_right hmne
      obtain ⟨e0, he0, hm0⟩ := hlm
      have hnotkey : ∀ {α β : Type} (get : Comps → Option α) (g : α → Option β)
          (L : List (Nat × β)), L = rowsOf w get g → get (w.comps e0) = none →
          m ∉ L.map Prod.fst := by
        intro α β get g L hL hnone hmem
        obtain ⟨p, hp, hp1⟩ := List.mem_map.mp hmem
        rw [hL] at hp
        obtain ⟨q1, q2⟩ := p
        have hp1b : q1 = m := hp1
        obtain ⟨e1, he1, hm1, c1, hc1, _⟩ := (rowsOf_mem w get g q1 q2).mp hp
        have he10 : e1 = e0 := hinj e1 he1 e0 he0 (by rw [hm1, hm0, hp1b])
        rw [he10, hnone] at hc1
        exact Option.noConfusion hc1
      have hf_pos : (wl.comps e).position = (w.comps e0).position := by
        rw [hcompse]
        have hfv := hLF.fv_pos e hev.1 m hk
        rcases hcase : (w.comps e0).position with _ | val
        · have hnk := hnotkey (fun c => c.position) (fun c => some c) data.positions hd_pos hcase
          simp only [lookupKey_eq_none data.positions m hnk] at hfv
          have hfv2 : (v30.comps e).position = none := hfv
          rw [hfv2]
        · have hmem : (m, val) ∈ data.positions := by
            rw [hd_pos]
            exact (rowsOf_mem w _ _ m val).mpr ⟨e0, he0, hm0, val, hcase, rfl⟩
          have hlk := mem_lookupKey hK_pos hmem
          simp only [hlk] at hfv
          obtain ⟨a, ha1, ha2⟩ := hfv
          have ha1b : (v30.comps e).position = some a := ha1
          have ha2b : a = val := ha2
          rw [ha1b, ha2b]
      have hf_rnd : (wl.comps e).renderable = (w.comps e0).renderable := by
        rw [hcompse]
        have hfv := hLF.fv_rnd e hev.1 m hk
        rcases hcase : (w.comps e0).renderable with _ | val
        · have hnk := hnotkey (fun c => c.renderable) (fun c => some c) data.renderables hd_rnd hcase
          simp only [lookupKey_eq_none data.renderables m hnk] at hfv
          have hfv2 : (v30.comps e).renderable = none := hfv
          rw [hfv2]
        · have hmem : (m, val) ∈ data.renderables := by
            rw [hd_rnd]
            exact (rowsOf_mem w _ _ m val).mpr ⟨e0, he0, hm0, val, hcase, rfl⟩
          have hlk := mem_lookupKey hK_rnd hmem
          simp only [hlk] at hfv
          obtain ⟨a, ha1, ha2⟩ := hfv
          have ha1b : (v30.comps e).renderable = some a := ha1
          have ha2b : a = val := ha2
          rw [ha1b, ha2b]
      have hf_pl : (wl.comps e).player = (w.comps e0).player := by
        rw [hcompse]
        have hfv := hLF.fv_pl e hev.1 m hk
        rcases hcase : (w.comps e0).player with _ | val
        · have hnk := hnotkey (fun c => c.player) (fun c => some c) data.players hd_pl hcase
          simp only [lookupKey_eq_none data.players m hnk] at hfv
          have hfv2 : (v30.comps e).player = none := hfv
          rw [hfv2]
        · have hmem : (m, val) ∈ data.players := by
            rw [hd_pl]
            exact (rowsOf_mem w _ _ m val).mpr ⟨e0, he0, hm0, val, hcase, rfl⟩
          have hlk := mem_lookupKey hK_pl hmem
          simp only [hlk] at hfv
          obtain ⟨a, ha1, ha2⟩ := hfv
          have ha1b : (v30.comps e).player = some a := ha1
          have ha2b : a = val := ha2
          rw [ha1b, ha2b]
      have hf_vs : (wl.comps e).viewshed = (w.comps e0).viewshed := by
        rw [hcompse]
        have hfv := hLF.fv_vs e hev.1 m hk
        rcases hcase : (w.comps e0).viewshed with _ | val
        · have hnk := hnotkey (fun c => c.viewshed) (fun c => some c) data.viewsheds hd_vs hcase
          simp only [lookupKey_eq_none data.viewsheds m hnk] at hfv
          have hfv2 : (v30.comps e).viewshed = none := hfv
          rw [hfv2]
        · have hmem : (m, val) ∈ data.viewsheds := by
            rw [hd_vs]
            exact (rowsOf_mem w _ _ m val).mpr ⟨e0, he0, hm0, val, hcase, rfl⟩
          have hlk := mem_lookupKey hK_vs hmem
          simp only [hlk] at hfv
          obtain ⟨a, ha1, ha2⟩ := hfv
          have ha1b : (v30.comps e).viewshed = some a := ha1
          have ha2b : a = val := ha2
          rw [ha1b, ha2b]
      have hf_mon : (wl.comps e).monster = (w.comps e0).monster := by
        rw [hcompse]
        have hfv := hLF.fv_mon e hev.1 m hk
        rcases hcase : (w.comps e0).monster with _ | val
        · have hnk := hnotkey (fun c => c.monster) (fun c => some c) data.monsters hd_mon hcase
          simp only [lookupKey_eq_none data.monsters m hnk] at hfv
          have hfv2 : (v30.comps e).monster = none := hfv
          rw [hfv2]
        · have hmem : (m, val) ∈ data.monsters := by
            rw [hd_mon]
            exact (rowsOf_mem w _ _ m val).mpr ⟨e0, he0, hm0, val, hcase, rfl⟩
          have hlk := mem_lookupKey hK_mon hmem
          simp only [hlk] at hfv
          obtain ⟨a, ha1, ha2⟩ := hfv
          have ha1b : (v30.comps e).monster = some a := ha1
          have ha2b : a = val := ha2
          rw [ha1b, ha2b]
      have hf_nm2 : (wl.comps e).name = (w.comps e0).name := by
        rw [hcompse]
        have hfv := hLF.fv_nm e hev.1 m hk
        rcases hcase : (w.comps e0).name with _ | val
        · have hnk := hnotkey (fun c => c.name) (fun c => some c) data.names hd_nm2 hcase
          simp only [lookupKey_eq_none data.names m hnk] at hfv
          have hfv2 : (v30.comps e).name = none := hfv
          rw [hfv2]
        · have hmem : (m, val) ∈ data.names := by
            rw [hd_nm2]
            exact (rowsOf_mem w _ _ m val).mpr ⟨e0, he0, hm0, val, hcase, rfl⟩
          have hlk := mem_lookupKey hK_nm2 hmem
          simp only [hlk] at hfv
          obtain ⟨a, ha1, ha2⟩ := hfv
          have ha1b : (v30.comps e).name = some a := ha1
          have ha2b : a = val := ha2
          rw [ha1b, ha2b]
      have hf_bt : (wl.comps e).blocks_tile = (w.comps e0).blocks_tile := by
        rw [hcompse]
        have hfv := hLF.fv_bt e hev.1 m hk
        rcases hcase : (w.comps e0).blocks_tile with _ | val
        · have hnk := hnotkey (fun c => c.blocks_tile) (fun c => some c) data.blocks_tile hd_bt hcase
          simp only [lookupKey_eq_none data.blocks_tile m hnk] at hfv
          have hfv2 : (v30.comps e).blocks_tile = none := hfv
          rw [hfv2]
        · have hmem : (m, val) ∈ data.blocks_tile := by
            rw [hd_bt]
            exact (rowsOf_mem w _ _ m val).mpr ⟨e0, he0, hm0, val, hcase, rfl⟩
          have hlk := mem_lookupKey hK_bt hmem
          simp only [hlk] at hfv
          obtain ⟨a, ha1, ha2⟩ := hfv
          have ha1b : (v30.comps e).blocks_tile = some a := ha1
          have ha2b : a = val := ha2
          rw [ha1b, ha2b]
      have hf_cs : (wl.comps e).combat_stats = (w.comps e0).combat_stats := by
        rw [hcompse]
        have hfv := hLF.fv_cs e hev.1 m hk
        rcases hcase : (w.comps e0).combat_stats with _ | val
        · have hnk := hnotkey (fun c => c.combat_stats) (fun c => some c) data.combat_stats hd_cs hcase
          simp only [lookupKey_eq_none data.combat_stats m hnk] at hfv
          have hfv2 : (v30.comps e).combat_stats = none := hfv
          rw [hfv2]
        · have hmem : (m, val) ∈ data.combat_stats := by
            rw [hd_cs]
            exact (rowsOf_mem w _ _ m val).mpr ⟨e0, he0, hm0, val, hcase, rfl⟩
          have hlk := mem_lookupKey hK_cs hmem
          simp only [hlk] at hfv
          obtain ⟨a, ha1, ha2⟩ := hfv
          have ha1b : (v30.comps e).combat_stats = some a := ha1
          have ha2b : a = val := ha2
          rw [ha1b, ha2b]
      have hf_sd : (wl.comps e).suffer_damage = (w.comps e0).suffer_damage := by
        rw [hcompse]
        have hfv := hLF.fv_sd e hev.1 m hk
        rcases hcase : (w.comps e0).suffer_damage with _ | val
        · have hnk := hnotkey (fun c => c.suffer_damage) (fun c => some c) data.suffer_damage hd_sd hcase
          simp only [lookupKey_eq_none data.suffer_damage m hnk] at hfv
          have hfv2 : (v30.comps e).suffer_damage = none := hfv
          rw [hfv2]
        · have hmem : (m, val) ∈ data.suffer_damage := by
            rw [hd_sd]
            exact (rowsOf_mem w _ _ m val).mpr ⟨e0, he0, hm0, val, hcase, rfl⟩
          have hlk := mem_lookupKey hK_sd hmem
          simp only [hlk] at hfv
          obtain ⟨a, ha1, ha2⟩ := hfv
          have ha1b : (v30.comps e).suffer_damage = some a := ha1
          have ha2b : a = val := ha2
          rw [ha1b, ha2b]
      have hf_wm : ((wl.comps e).wants_melee).bind (fun c2 => (wl.comps c2.target).marker) =
          ((w.comps e0).wants_melee).bind (fun c2 => (w.comps c2.target).marker) := by
        have hfv := hLF.fv_wm e hev.1 m hk
        rcases hcase : (w.comps e0).wants_melee with _ | c
        · have hnk := hnotkey (fun c => c.wants_melee) (fun c => ((w.comps c.target)).marker) data.wants_melee hd_wm hcase
          simp only [lookupKey_eq_none data.wants_melee m hnk] at hfv
          have hfv2 : (v30.comps e).wants_melee = none := hfv
          rw [hcompse, hfv2]
          rfl
        · have htm : c.target ∈ w.entities := ((refTargetsLive_spec w e0 (hrefs e0 he0)).1) c hcase
          have htms := hmark c.target htm
          rcases hb : ((w.comps c.target)).marker with _ | b
          · rw [hb] at htms
            exact absurd htms (by simp)
          · have hmem : (m, b) ∈ data.wants_melee := by
              rw [hd_wm]
              exact (rowsOf_mem w _ _ m b).mpr ⟨e0, he0, hm0, c, hcase, hb⟩
            have hlk := mem_lookupKey hK_wm hmem
            simp only [hlk] at hfv
            obtain ⟨a, ha1, ha2⟩ := hfv
            have ha1b : (v30.comps e).wants_melee = some a := ha1
            have ha2b : ∃ t, a = WantsToMelee.mk t ∧ t ∈ v30.entities ∧ (v30.comps t).marker = some b := ha2
            obtain ⟨t, hteq, htv30, htmk⟩ := ha2b
            have hbne : b ≠ w.next_marker := hnm_ne c.target htm b hb
            obtain ⟨htwl, htcomps⟩ := hwl_of_v30 t htv30 b htmk hbne
            have hLHS : ((wl.comps e).wants_melee).bind (fun c2 => (wl.comps c2.target).marker) = some b := by
              rw [hcompse, ha1b, hteq]
              show (wl.comps t).marker = some b
              rw [htcomps, htmk]
            rw [hLHS]
            exact hb.symm
      have hf_it : (wl.comps e).item = (w.comps e0).item := by
        rw [hcompse]
        have hfv := hLF.fv_it e hev.1 m hk
        rcases hcase : (w.comps e0).item with _ | val
        · have hnk := hnotkey (fun c => c.item) (fun c => some c) data.items hd_it hcase
          simp only [lookupKey_eq_none data.items m hnk] at hfv
          have hfv2 : (v30.comps e).item = none := hfv
          rw [hfv2]
        · have hmem : (m, val) ∈ data.items := by
            rw [hd_it]
            exact (rowsOf_mem w _ _ m val).mpr ⟨e0, he0, hm0, val, hcase, rfl⟩
          have hlk := mem_lookupKey hK_it hmem
          simp only [hlk] at hfv
          obtain ⟨a, ha1, ha2⟩ := hfv
          have ha1b : (v30.comps e).item = some a := ha1
          have ha2b : a = val := ha2
          rw [ha1b, ha2b]
      have hf_con : (wl.comps e).consumable = (w.comps e0).consumable := by
        rw [hcompse]
        have hfv := hLF.fv_con e hev.1 m hk
        rcases hcase : (w.comps e0).consumable with _ | val
        · have hnk := hnotkey (fun c => c.consumable) (fun c => some c) data.consumables hd_con hcase
          simp only [lookupKey_eq_none data.consumables m hnk] at hfv
          have hfv2 : (v30.comps e).consumable = none := hfv
          rw [hfv2]
        · have hmem : (m, val) ∈ data.consumables := by
            rw [hd_con]
            exact (rowsOf_mem w _ _ m val).mpr ⟨e0, he0, hm0, val, hcase, rfl⟩
          have hlk := mem_lookupKey hK_con hmem
          simp only [hlk] at hfv
          obtain ⟨a, ha1, ha2⟩ := hfv
          have ha1b : (v30.comps e).consumable = some a := ha1
          have ha2b : a = val := ha2
          rw [ha1b, ha2b]
      have hf_rg : (wl.comps e).ranged = (w.comps e0).ranged := by
        rw [hcompse]
        have hfv := hLF.fv_rg e hev.1 m hk
        rcases hcase : (w.comps e0).ranged with _ | val
        · have hnk := hnotkey (fun c => c.ranged) (fun c => some c) data.ranged hd_rg hcase
          simp only [lookupKey_eq_none data.ranged m hnk] at hfv
          have hfv2 : (v30.comps e).ranged = none := hfv
          rw [hfv2]
        · have hmem : (m, val) ∈ data.ranged := by
            rw [hd_rg]
            exact (rowsOf_mem w _ _ m val).mpr ⟨e0, he0, hm0, val, hcase, rfl⟩
          have hlk := mem_lookupKey hK_rg hmem
          simp only [hlk] at hfv
          obtain ⟨a, ha1, ha2⟩ := hfv
          have ha1b : (v30.comps e).ranged = some a := ha1
          have ha2b : a = val := ha2
          rw [ha1b, ha2b]
      have hf_inf : (wl.comps e).inflicts_damage = (w.comps e0).inflicts_damage := by
        rw [hcompse]
        have hfv := hLF.fv_inf e hev.1 m hk
        rcases hcase : (w.comps e0).inflicts_damage with _ | val
        · have hnk := hnotkey (fun c => c.inflicts_damage) (fun c => some c) data.inflicts_damage hd_inf hcase
          simp only [lookupKey_eq_none data.inflicts_damage m hnk] at hfv
          have hfv2 : (v30.comps e).inflicts_damage = none := hfv
          rw [hfv2]
        · have hmem : (m, val) ∈ data.inflicts_damage := by
            rw [hd_inf]
            exact (rowsOf_mem w _ _ m val).mpr ⟨e0, he0, hm0, val, hcase, rfl⟩
          have hlk := mem_lookupKey hK_inf hmem
          simp only [hlk] at hfv
          obtain ⟨a, ha1, ha2⟩ := hfv
          have ha1b : (v30.comps e).inflicts_damage = some a := ha1
          have ha2b : a = val := ha2
          rw [ha1b, ha2b]
      have hf_ae : (wl.comps e).area_of_effect = (w.comps e0).area_of_effect := by
        rw [hcompse]
        have hfv := hLF.fv_ae e hev.1 m hk
        rcases hcase : (w.comps e0).area_of_effect with _ | val
        · have hnk := hnotkey (fun c => c.area_of_effect) (fun c => some c) data.area_of_effect hd_ae hcase
          simp only [lookupKey_eq_none data.area_of_effect m hnk] at hfv
          have hfv2 : (v30.comps e).area_of_effect = none := hfv
          rw [hfv2]
        · have hmem : (m, val) ∈ data.area_of_effect := by
            rw [hd_ae]
            exact (rowsOf_mem w _ _ m val).mpr ⟨e0, he0, hm0, val, hcase, rfl⟩
          have hlk := mem_lookupKey hK_ae hmem
          simp only [hlk] at hfv
          obtain ⟨a, ha1, ha2⟩ := hfv
          have ha1b : (v30.comps e).area_of_effect = some a := ha1
          have ha2b : a = val := ha2
          rw [ha1b, ha2b]
      have hf_cf : (wl.comps e).confusion = (w.comps e0).confusion := by
        rw [hcompse]
        have hfv := hLF.fv_cf e hev.1 m hk
        rcases hcase : (w.comps e0).confusion with _ | val
        · have hnk := hnotkey (fun c => c.confusion) (fun c => some c) data.confusion hd_cf hcase
          simp only [lookupKey_eq_none data.confusion m hnk] at hfv
          have hfv2 : (v30.comps e).confusion = none := hfv
          rw [hfv2]
        · have hmem : (m, val) ∈ data.confusion := by
            rw [hd_cf]
            exact (rowsOf_mem w _ _ m val).mpr ⟨e0, he0, hm0, val, hcase, rfl⟩
          have hlk := mem_lookupKey hK_cf hmem
          simp only [hlk] at hfv
          obtain ⟨a, ha1, ha2⟩ := hfv
          have ha1b : (v30.comps e).confusion = some a := ha1
          have ha2b : a = val := ha2
          rw [ha1b, ha2b]
      have hf_ph : (wl.comps e).provides_healing = (w.comps e0).provides_healing := by
        rw [hcompse]
        have hfv := hLF.fv_ph e hev.1 m hk
        rcases hcase : (w.comps e0).provides_healing with _ | val
        · have hnk := hnotkey (fun c => c.provides_healing) (fun c => some c) data.provides_healing hd_ph hcase
          simp only [lookupKey_eq_none data.provides_healing m hnk] at hfv
          have hfv2 : (v30.comps e).provides_healing = none := hfv
          rw [hfv2]
        · have hmem : (m, val) ∈ data.provides_healing := by
            rw [hd_ph]
            exact (rowsOf_mem w _ _ m val).mpr ⟨e0, he0, hm0, val, hcase, rfl⟩
          have hlk := mem_lookupKey hK_ph hmem
          simp only [hlk] at hfv
          obtain ⟨a, ha1, ha2⟩ := hfv
          have ha1b : (v30.comps e).provides_healing = some a := ha1
          have ha2b : a = val := ha2
          rw [ha1b, ha2b]
      have hf_ib : ((wl.comps e).in_backpack).bind (fun c2 => (wl.comps c2.owner).marker) =
          ((w.comps e0).in_backpack).bind (fun c2 => (w.comps c2.owner).marker) := by
        have hfv := hLF.fv_ib e hev.1 m hk
        rcases hcase : (w.comps e0).in_backpack with _ | c
        · have hnk := hnotkey (fun c => c.in_backpack) (fun c => ((w.comps c.owner)).marker) data.in_backpack hd_ib hcase
          simp only [lookupKey_eq_none data.in_backpack m hnk] at hfv
          have hfv2 : (v30.comps e).in_backpack = none := hfv
          rw [hcompse, hfv2]
          rfl
        · have htm : c.owner ∈ w.entities := ((refTargetsLive_spec w e0 (hrefs e0 he0)).2.1) c hcase
          have htms := hmark c.owner htm
          rcases hb : ((w.comps c.owner)).marker with _ | b
          · rw [hb] at htms
            exact absurd htms (by simp)
          · have hmem : (m, b) ∈ data.in_backpack := by
              rw [hd_ib]
              exact (rowsOf_mem w _ _ m b).mpr ⟨e0, he0, hm0, c, hcase, hb⟩
            have hlk := mem_lookupKey hK_ib hmem
            simp only [hlk] at hfv
            obtain ⟨a, ha1, ha2⟩ := hfv
            have ha1b : (v30.comps e).in_backpack = some a := ha1
            have ha2b : ∃ t, a = InBackpack.mk t ∧ t ∈ v30.entities ∧ (v30.comps t).marker = some b := ha2
            obtain ⟨t, hteq, htv30, htmk⟩ := ha2b
            have hbne : b ≠ w.next_marker := hnm_ne c.owner htm b hb
            obtain ⟨htwl, htcomps⟩ := hwl_of_v30 t htv30 b htmk hbne
            have hLHS : ((wl.comps e).in_backpack).bind (fun c2 => (wl.comps c2.owner).marker) = some b := by
              rw [hcompse, ha1b, hteq]
              show (wl.comps t).marker = some b
              rw [htcomps, htmk]
            rw [hLHS]
            exact hb.symm
      have hf_wp : ((wl.comps e).wants_to_pickup).bind (fun c2 => ((wl.comps c2.collected_by).marker).bind (fun aa => ((wl.comps c2.item).marker).map (fun bb => (aa, bb)))) =
          ((w.comps e0).wants_to_pickup).bind (fun c2 => ((w.comps c2.collected_by).marker).bind (fun aa => ((w.comps c2.item).marker).map (fun bb => (aa, bb)))) := by
        have hfv := hLF.fv_wp e hev.1 m hk
        rcases hcase : (w.comps e0).wants_to_pickup with _ | c
        · have hnk := hnotkey (fun c => c.wants_to_pickup) (fun c => (((w.comps c.collected_by)).marker).bind (fun a => (((w.comps c.item)).marker).map (fun b => (a, b)))) data.wants_to_pickup hd_wp hcase
          simp only [lookupKey_eq_none data.wants_to_pickup m hnk] at hfv
          have hfv2 : (v30.comps e).wants_to_pickup = none := hfv
          rw [hcompse, hfv2]
          rfl
        · have htm := ((refTargetsLive_spec w e0 (hrefs e0 he0)).2.2.1) c hcase
          have htms1 := hmark c.collected_by htm.1
          have htms2 := hmark c.item htm.2
          rcases hb1 : ((w.comps c.collected_by)).marker with _ | b1
          · rw [hb1] at htms1
            exact absurd htms1 (by simp)
          · rcases hb2 : ((w.comps c.item)).marker with _ | b2
            · rw [hb2] at htms2
              exact absurd htms2 (by simp)
            · have hmem : (m, (b1, b2)) ∈ data.wants_to_pickup := by
                rw [hd_wp]
                refine (rowsOf_mem w _ _ m (b1, b2)).mpr ⟨e0, he0, hm0, c, hcase, ?_⟩
                rw [hb1, hb2]
                rfl
              have hlk := mem_lookupKey hK_wp hmem
              simp only [hlk] at hfv
              obtain ⟨a, ha1, ha2⟩ := hfv
              have ha1b : (v30.comps e).wants_to_pickup = some a := ha1
              have ha2b : ∃ t1 t2, a = WantsToPickupItem.mk t1 t2 ∧ t1 ∈ v30.entities ∧ (v30.comps t1).marker = some b1 ∧ t2 ∈ v30.entities ∧ (v30.comps t2).marker = some b2 := ha2
              obtain ⟨t1, t2, hteq, ht1v30, ht1mk, ht2v30, ht2mk⟩ := ha2b
              have hb1ne : b1 ≠ w.next_marker := hnm_ne c.collected_by htm.1 b1 hb1
              have hb2ne : b2 ≠ w.next_marker := hnm_ne c.item htm.2 b2 hb2
              obtain ⟨ht1wl, ht1comps⟩ := hwl_of_v30 t1 ht1v30 b1 ht1mk hb1ne
              obtain ⟨ht2wl, ht2comps⟩ := hwl_of_v30 t2 ht2v30 b2 ht2mk hb2ne
              have hLHS : ((wl.comps e).wants_to_pickup).bind (fun c2 => ((wl.comps c2.collected_by).marker).bind (fun aa => ((wl.comps c2.item).marker).map (fun bb => (aa, bb)))) = some (b1, b2) := by
                rw [hcompse, ha1b, hteq]
                show ((wl.comps t1).marker).bind (fun aa => ((wl.comps t2).marker).map (fun bb => (aa, bb))) = some (b1, b2)
                rw [ht1comps, ht1mk, ht2comps, ht2mk]
                rfl
              have hRHS2 : (((w.comps c.collected_by)).marker).bind (fun aa => (((w.comps c.item)).marker).map (fun bb => (aa, bb))) = some (b1, b2) := by
                rw [hb1, hb2]
                rfl
              rw [hLHS]
              exact hRHS2.symm
      have hf_wu : ((wl.comps e).wants_to_use).bind (fun c2 => ((wl.comps c2.item).marker).map (fun mm => (mm, c2.target))) =
          ((w.comps e0).wants_to_use).bind (fun c2 => ((w.comps c2.item).marker).map (fun mm => (mm, c2.target))) := by
        have hfv := hLF.fv_wu e hev.1 m hk
        rcases hcase : (w.comps e0).wants_to_use with _ | c
        · have hnk := hnotkey (fun c => c.wants_to_use) (fun c => (((w.comps c.item)).marker).map (fun mm => (mm, c.target))) data.wants_to_use hd_wu hcase
          simp only [lookupKey_eq_none data.wants_to_use m hnk] at hfv
          have hfv2 : (v30.comps e).wants_to_use = none := hfv
          rw [hcompse, hfv2]
          rfl
        · have htm : c.item ∈ w.entities := ((refTargetsLive_spec w e0 (hrefs e0 he0)).2.2.2.1) c hcase
          have htms := hmark c.item htm
          rcases hb : ((w.comps c.item)).marker with _ | b
          · rw [hb] at htms
            exact absurd htms (by simp)
          · have hmem : (m, (b, c.target)) ∈ data.wants_to_use := by
              rw [hd_wu]
              refine (rowsOf_mem w _ _ m (b, c.target)).mpr ⟨e0, he0, hm0, c, hcase, ?_⟩
              rw [hb]
              rfl
            have hlk := mem_lookupKey hK_wu hmem
            simp only [hlk] at hfv
            obtain ⟨a, ha1, ha2⟩ := hfv
            have ha1b : (v30.comps e).wants_to_use = some a := ha1
            have ha2b : ∃ t, a = WantsToUseItem.mk t c.target ∧ t ∈ v30.entities ∧ (v30.comps t).marker = some b := ha2
            obtain ⟨t, hteq, htv30, htmk⟩ := ha2b
            have hbne : b ≠ w.next_marker := hnm_ne c.item htm b hb
            obtain ⟨htwl, htcomps⟩ := hwl_of_v30 t htv30 b htmk hbne
            have hLHS : ((wl.comps e).wants_to_use).bind (fun c2 => ((wl.comps c2.item).marker).map (fun mm => (mm, c2.target))) = some (b, c.target) := by
              rw [hcompse, ha1b, hteq]
              show ((wl.comps t).marker).map (fun mm => (mm, c.target)) = some (b, c.target)
              rw [htcomps, htmk]
              rfl
            have hRHS2 : (((w.comps c.item)).marker).map (fun mm => (mm, c.target)) = some (b, c.target) := by
              rw [hb]
              rfl
            rw [hLHS]
            exact hRHS2.symm
      have hf_wd : ((wl.comps e).wants_to_drop).bind (fun c2 => (wl.comps c2.item).marker) =
          ((w.comps e0).wants_to_drop).bind (fun c2 => (w.comps c2.item).marker) := by
        have hfv := hLF.fv_wd e hev.1 m hk
        rcases hcase : (w.comps e0).wants_to_drop with _ | c
        · have hnk := hnotkey (fun c => c.wants_to_drop) (fun c => ((w.comps c.item)).marker) data.wants_to_drop hd_wd hcase
          simp only [lookupKey_eq_none data.wants_to_drop m hnk] at hfv
          have hfv2 : (v30.comps e).wants_to_drop = none := hfv
          rw [hcompse, hfv2]
          rfl
        · have htm : c.item ∈ w.entities := ((refTargetsLive_spec w e0 (hrefs e0 he0)).2.2.2.2.1) c hcase
          have htms := hmark c.item htm
          rcases hb : ((w.comps c.item)).marker with _ | b
          · rw [hb] at htms
            exact absurd htms (by simp)
          · have hmem : (m, b) ∈ data.wants_to_drop := by
              rw [hd_wd]
              exact (rowsOf_mem w _ _ m b).mpr ⟨e0, he0, hm0, c, hcase, hb⟩
            have hlk := mem_lookupKey hK_wd hmem
            simp only [hlk] at hfv
            obtain ⟨a, ha1, ha2⟩ := hfv
            have ha1b : (v30.comps e).wants_to_drop = some a := ha1
            have ha2b : ∃ t, a = WantsToDropItem.mk t ∧ t ∈ v30.entities ∧ (v30.comps t).marker = some b := ha2
            obtain ⟨t, hteq, htv30, htmk⟩ := ha2b
            have hbne : b ≠ w.next_marker := hnm_ne c.item htm b hb
            obtain ⟨htwl, htcomps⟩ := hwl_of_v30 t htv30 b htmk hbne
            have hLHS : ((wl.comps e).wants_to_drop).bind (fun c2 => (wl.comps c2.item).marker) = some b := by
              rw [hcompse, ha1b, hteq]
              show (wl.comps t).marker = some b
              rw [htcomps, htmk]
            rw [hLHS]
            exact hb.symm
      have hf_eqb : (wl.comps e).equippable = (w.comps e0).equippable := by
        rw [hcompse]
        have hfv := hLF.fv_eqb e hev.1 m hk
        rcases hcase : (w.comps e0).equippable with _ | val
        · have hnk := hnotkey (fun c => c.equippable) (fun c => some c) data.equippables hd_eqb hcase
          simp only [lookupKey_eq_none data.equippables m hnk] at hfv
          have hfv2 : (v30.comps e).equippable = none := hfv
          rw [hfv2]
        · have hmem : (m, val) ∈ data.equippables := by
            rw [hd_eqb]
            exact (rowsOf_mem w _ _ m val).mpr ⟨e0, he0, hm0, val, hcase, rfl⟩
          have hlk := mem_lookupKey hK_eqb hmem
          simp only [hlk] at hfv
          obtain ⟨a, ha1, ha2⟩ := hfv
          have ha1b : (v30.comps e).equippable = some a := ha1
          have ha2b : a = val := ha2
          rw [ha1b, ha2b]
      have hf_eqp : ((wl.comps e).equipped).bind (fun c2 => ((wl.comps c2.owner).marker).map (fun mm => (mm, c2.slot))) =
          ((w.comps e0).equipped).bind (fun c2 => ((w.comps c2.owner).marker).map (fun mm => (mm, c2.slot))) := by
        have hfv := hLF.fv_eqp e hev.1 m hk
        rcases hcase : (w.comps e0).equipped with _ | c
        · have hnk := hnotkey (fun c => c.equipped) (fun c => (((w.comps c.owner)).marker).map (fun mm => (mm, c.slot))) data.equipped hd_eqp hcase
          simp only [lookupKey_eq_none data.equipped m hnk] at hfv
          have hfv2 : (v30.comps e).equipped = none := hfv
          rw [hcompse, hfv2]
          rfl
        · have htm : c.owner ∈ w.entities := ((refTargetsLive_spec w e0 (hrefs e0 he0)).2.2.2.2.2.1) c hcase
          have htms := hmark c.owner htm
          rcases hb : ((w.comps c.owner)).marker with _ | b
          · rw [hb] at htms
            exact absurd htms (by simp)
          · have hmem : (m, (b, c.slot)) ∈ data.equipped := by
              rw [hd_eqp]
              refine (rowsOf_mem w _ _ m (b, c.slot)).mpr ⟨e0, he0, hm0, c, hcase, ?_⟩
              rw [hb]
              rfl
            have hlk := mem_lookupKey hK_eqp hmem
            simp only [hlk] at hfv
            obtain ⟨a, ha1, ha2⟩ := hfv
            have ha1b : (v30.comps e).equipped = some a := ha1
            have ha2b : ∃ t, a = Equipped.mk t c.slot ∧ t ∈ v30.entities ∧ (v30.comps t).marker = some b := ha2
            obtain ⟨t, hteq, htv30, htmk⟩ := ha2b
            have hbne : b ≠ w.next_marker := hnm_ne c.owner htm b hb
            obtain ⟨htwl, htcomps⟩ := hwl_of_v30 t htv30 b htmk hbne
            have hLHS : ((wl.comps e).equipped).bind (fun c2 => ((wl.comps c2.owner).marker).map (fun mm => (mm, c2.slot))) = some (b, c.slot) := by
              rw [hcompse, ha1b, hteq]
              show ((wl.comps t).marker).map (fun mm => (mm, c.slot)) = some (b, c.slot)
              rw [htcomps, htmk]
              rfl
            have hRHS2 : (((w.comps c.owner)).marker).map (fun mm => (mm, c.slot)) = some (b, c.slot) := by
              rw [hb]
              rfl
            rw [hLHS]
            exact hRHS2.symm
      have hf_mp : (wl.comps e).melee_power_bonus = (w.comps e0).melee_power_bonus := by
        rw [hcompse]
        have hfv := hLF.fv_mp e hev.1 m hk
        rcases hcase : (w.comps e0).melee_power_bonus with _ | val
        · have hnk := hnotkey (fun c => c.melee_power_bonus) (fun c => some c) data.melee_power_bonuses hd_mp hcase
          simp only [lookupKey_eq_none data.melee_power_bonuses m hnk] at hfv
          have hfv2 : (v30.comps e).melee_power_bonus = none := hfv
          rw [hfv2]
        · have hmem : (m, val) ∈ data.melee_power_bonuses := by
            rw [hd_mp]
            exact (rowsOf_mem w _ _ m val).mpr ⟨e0, he0, hm0, val, hcase, rfl⟩
          have hlk := mem_lookupKey hK_mp hmem
          simp only [hlk] at hfv
          obtain ⟨a, ha1, ha2⟩ := hfv
          have ha1b : (v30.comps e).melee_power_bonus = some a := ha1
          have ha2b : a = val := ha2
          rw [ha1b, ha2b]
      have hf_db : (wl.comps e).defense_bonus = (w.comps e0).defense_bonus := by
        rw [hcompse]
        have hfv := hLF.fv_db e hev.1 m hk
        rcases hcase : (w.comps e0).defense_bonus with _ | val
        · have hnk := hnotkey (fun c => c.defense_bonus) (fun c => some c) data.defense_bonuses hd_db hcase
          simp only [lookupKey_eq_none data.defense_bonuses m hnk] at hfv
          have hfv2 : (v30.comps e).defense_bonus = none := hfv
          rw [hfv2]
        · have hmem : (m, val) ∈ data.defense_bonuses := by
            rw [hd_db]
            exact (rowsOf_mem w _ _ m val).mpr ⟨e0, he0, hm0, val, hcase, rfl⟩
          have hlk := mem_lookupKey hK_db hmem
          simp only [hlk] at hfv
          obtain ⟨a, ha1, ha2⟩ := hfv
          have ha1b : (v30.comps e).defense_bonus = some a := ha1
          have ha2b : a = val := ha2
          rw [ha1b, ha2b]
      have hf_wr : ((wl.comps e).wants_to_remove).bind (fun c2 => (wl.comps c2.item).marker) =
          ((w.comps e0).wants_to_remove).bind (fun c2 => (w.comps c2.item).marker) := by
        have hfv := hLF.fv_wr e hev.1 m hk
        rcases hcase : (w.comps e0).wants_to_remove with _ | c
        · have hnk := hnotkey (fun c => c.wants_to_remove) (fun c => ((w.comps c.item)).marker) data.wants_to_remove hd_wr hcase
          simp only [lookupKey_eq_none data.wants_to_remove m hnk] at hfv
          have hfv2 : (v30.comps e).wants_to_remove = none := hfv
          rw [hcompse, hfv2]
          rfl
        · have htm : c.item ∈ w.entities := ((refTargetsLive_spec w e0 (hrefs e0 he0)).2.2.2.2.2.2) c hcase
          have htms := hmark c.item htm
          rcases hb : ((w.comps c.item)).marker with _ | b
          · rw [hb] at htms
            exact absurd htms (by simp)
          · have hmem : (m, b) ∈ data.wants_to_remove := by
              rw [hd_wr]
              exact (rowsOf_mem w _ _ m b).mpr ⟨e0, he0, hm0, c, hcase, hb⟩
            have hlk := mem_lookupKey hK_wr hmem
            simp only [hlk] at hfv
            obtain ⟨a, ha1, ha2⟩ := hfv
            have ha1b : (v30.comps e).wants_to_remove = some a := ha1
            have ha2b : ∃ t, a = WantsToRemoveItem.mk t ∧ t ∈ v30.entities ∧ (v30.comps t).marker = some b := ha2
            obtain ⟨t, hteq, htv30, htmk⟩ := ha2b
            have hbne : b ≠ w.next_marker := hnm_ne c.item htm b hb
            obtain ⟨htwl, htcomps⟩ := hwl_of_v30 t htv30 b htmk hbne
            have hLHS : ((wl.comps e).wants_to_remove).bind (fun c2 => (wl.comps c2.item).marker) = some b := by
              rw [hcompse, ha1b, hteq]
              show (wl.comps t).marker = some b
              rw [htcomps, htmk]
            rw [hLHS]
            exact hb.symm
      have hf_plt : (wl.comps e).particle_lifetime = (w.comps e0).particle_lifetime := by
        rw [hcompse]
        have hfv := hLF.fv_plt e hev.1 m hk
        rcases hcase : (w.comps e0).particle_lifetime with _ | val
        · have hnk := hnotkey (fun c => c.particle_lifetime) (fun c => some c) data.particle_lifetimes hd_plt hcase
          simp only [lookupKey_eq_none data.particle_lifetimes m hnk] at hfv
          have hfv2 : (v30.comps e).particle_lifetime = none := hfv
          rw [hfv2]
        · have hmem : (m, val) ∈ data.particle_lifetimes := by
            rw [hd_plt]
            exact (rowsOf_mem w _ _ m val).mpr ⟨e0, he0, hm0, val, hcase, rfl⟩
          have hlk := mem_lookupKey hK_plt hmem
          simp only [hlk] at hfv
          obtain ⟨a, ha1, ha2⟩ := hfv
          have ha1b : (v30.comps e).particle_lifetime = some a := ha1
          have ha2b : a = val := ha2
          rw [ha1b, ha2b]
      have hf_hc2 : (wl.comps e).hunger_clock = (w.comps e0).hunger_clock := by
        rw [hcompse]
        have hfv := hLF.fv_hc e hev.1 m hk
        rcases hcase : (w.comps e0).hunger_clock with _ | val
        · have hnk := hnotkey (fun c => c.hunger_clock) (fun c => some c) data.hunger_clocks hd_hc2 hcase
          simp only [lookupKey_eq_none data.hunger_clocks m hnk] at hfv
          have hfv2 : (v30.comps e).hunger_clock = none := hfv
          rw [hfv2]
        · have hmem : (m, val) ∈ data.hunger_clocks := by
            rw [hd_hc2]
            exact (rowsOf_mem w _ _ m val).mpr ⟨e0, he0, hm0, val, hcase, rfl⟩
          have hlk := mem_lookupKey hK_hc2 hmem
          simp only [hlk] at hfv
          obtain ⟨a, ha1, ha2⟩ := hfv
          have ha1b : (v30.comps e).hunger_clock = some a := ha1
          have ha2b : a = val := ha2
          rw [ha1b, ha2b]
      have hf_pf : (wl.comps e).provides_food = (w.comps e0).provides_food := by
        rw [hcompse]
        have hfv := hLF.fv_pf e hev.1 m hk
        rcases hcase : (w.comps e0).provides_food with _ | val
        · have hnk := hnotkey (fun c => c.provides_food) (fun c => some c) data.provides_food hd_pf hcase
          simp only [lookupKey_eq_none data.provides_food m hnk] at hfv
          have hfv2 : (v30.comps e).provides_food = none := hfv
          rw [hfv2]
        · have hmem : (m, val) ∈ data.provides_food := by
            rw [hd_pf]
            exact (rowsOf_mem w _ _ m val).mpr ⟨e0, he0, hm0, val, hcase, rfl⟩
          have hlk := mem_lookupKey hK_pf hmem
          simp only [hlk] at hfv
          obtain ⟨a, ha1, ha2⟩ := hfv
          have ha1b : (v30.comps e).provides_food = some a := ha1
          have ha2b : a = val := ha2
          rw [ha1b, ha2b]
      refine ⟨e0, he0, ?_, ?_⟩
      · rw [hcompse, hk, hm0]
      · show viewOf wl e = viewOf w e0
        simp only [viewOf, CompsView.mk.injEq]
        exact ⟨hf_pos, hf_rnd, hf_pl, hf_vs, hf_mon, hf_nm2, hf_bt, hf_cs, hf_sd, hf_wm, hf_it, hf_con, hf_rg, hf_inf, hf_ae, hf_cf, hf_ph, hf_ib, hf_wp, hf_wu, hf_wd, hf_eqb, hf_eqp, hf_mp, hf_db, hf_wr, hf_plt, hf_hc2, hf_pf⟩
  · intro e0 he0 hne
    have hms := hmark e0 he0
    rcases hm0 : (w.comps e0).marker with _ | m
    · rw [hm0] at hms
      exact absurd hms (by simp)
    · have hfinish : liveMarker v30 m →
          ∃ e ∈ wl.entities, (wl.comps e).marker = some m := by
        intro hlm
        obtain ⟨t, ht, htmk⟩ := hlm
        have hbne : m ≠ w.next_marker := hnm_ne e0 he0 m hm0
        obtain ⟨htwl, htcomps⟩ := hwl_of_v30 t ht m htmk hbne
        exact ⟨t, htwl, by rw [htcomps, htmk]⟩
      rcases hc1 : (w.comps e0).position with _ | v1
      · rcases hc2 : (w.comps e0).renderable with _ | v2
        · rcases hc3 : (w.comps e0).player with _ | v3
          · rcases hc4 : (w.comps e0).viewshed with _ | v4
            · rcases hc5 : (w.comps e0).monster with _ | v5
              · rcases hc6 : (w.comps e0).name with _ | v6
                · rcases hc7 : (w.comps e0).blocks_tile with _ | v7
                  · rcases hc8 : (w.comps e0).combat_stats with _ | v8
                    · rcases hc9 : (w.comps e0).suffer_damage with _ | v9
                      · rcases hc10 : (w.comps e0).wants_melee with _ | v10
                        · rcases hc11 : (w.comps e0).item with _ | v11
                          · rcases hc12 : (w.comps e0).consumable with _ | v12
                            · rcases hc13 : (w.comps e0).ranged with _ | v13
                              · rcases hc14 : (w.comps e0).inflicts_damage with _ | v14
                                · rcases hc15 : (w.comps e0).area_of_effect with _ | v15
                                  · rcases hc16 : (w.comps e0).confusion with _ | v16
                                    · rcases hc17 : (w.comps e0).provides_healing with _ | v17
                                      · rcases hc18 : (w.comps e0).in_backpack with _ | v18
                                        · rcases hc19 : (w.comps e0).wants_to_pickup with _ | v19
                                          · rcases hc20 : (w.comps e0).wants_to_use with _ | v20
                                            · rcases hc21 : (w.comps e0).wants_to_drop with _ | v21
                                              · rcases hc22 : (w.comps e0).equippable with _ | v22
                                                · rcases hc23 : (w.comps e0).equipped with _ | v23
                                                  · rcases hc24 : (w.comps e0).melee_power_bonus with _ | v24
                                                    · rcases hc25 : (w.comps e0).defense_bonus with _ | v25
                                                      · rcases hc26 : (w.comps e0).wants_to_remove with _ | v26
                                                        · rcases hc27 : (w.comps e0).particle_lifetime with _ | v27
                                                          · rcases hc28 : (w.comps e0).hunger_clock with _ | v28
                                                            · rcases hc29 : (w.comps e0).provides_food with _ | v29
                                                              · exfalso
                                                                apply hne
                                                                simp [viewOf, emptyView, hc1, hc2, hc3, hc4, hc5, hc6, hc7, hc8, hc9, hc10, hc11, hc12, hc13, hc14, hc15, hc16, hc17, hc18, hc19, hc20, hc21, hc22, hc23, hc24, hc25, hc26, hc27, hc28, hc29]
                                                              · have hmem : (m, v29) ∈ data.provides_food := by
                                                                  rw [hd_pf]
                                                                  exact (rowsOf_mem w _ _ m v29).mpr ⟨e0, he0, hm0, v29, hc29, rfl⟩
                                                                have hkm : m ∈ data.provides_food.map Prod.fst := List.mem_map.mpr ⟨(m, v29), hmem, rfl⟩
                                                                exact hfinish (hLF.kl_pf m hkm)
                                                            · have hmem : (m, v28) ∈ data.hunger_clocks := by
                                                                rw [hd_hc2]
                                                                exact (rowsOf_mem w _ _ m v28).mpr ⟨e0, he0, hm0, v28, hc28, rfl⟩
                                                              have hkm : m ∈ data.hunger_clocks.map Prod.fst := List.mem_map.mpr ⟨(m, v28), hmem, rfl⟩
                                                              exact hfinish (hLF.kl_hc m hkm)
                                                          · have hmem : (m, v27) ∈ data.particle_lifetimes := by
                                                              rw [hd_plt]
                                                              exact (rowsOf_mem w _ _ m v27).mpr ⟨e0, he0, hm0, v27, hc27, rfl⟩
                                                            have hkm : m ∈ data.particle_lifetimes.map Prod.fst := List.mem_map.mpr ⟨(m, v27), hmem, rfl⟩
                                                            exact hfinish (hLF.kl_plt m hkm)
                                                        · have htm : v26.item ∈ w.entities := ((refTargetsLive_spec w e0 (hrefs e0 he0)).2.2.2.2.2.2) v26 hc26
                                                          have htms := hmark v26.item htm
                                                          rcases hb : ((w.comps v26.item)).marker with _ | b
                                                          · rw [hb] at htms
                                                            exact absurd htms (by simp)
                                                          · have hmem : (m, b) ∈ data.wants_to_remove := by
                                                              rw [hd_wr]
                                                              exact (rowsOf_mem w _ _ m b).mpr ⟨e0, he0, hm0, v26, hc26, hb⟩
                                                            have hkm : m ∈ data.wants_to_remove.map Prod.fst := List.mem_map.mpr ⟨(m, b), hmem, rfl⟩
                                                            exact hfinish (hLF.kl_wr m hkm)
                                                      · have hmem : (m, v25) ∈ data.defense_bonuses := by
                                                          rw [hd_db]
                                                          exact (rowsOf_mem w _ _ m v25).mpr ⟨e0, he0, hm0, v25, hc25, rfl⟩
                                                        have hkm : m ∈ data.defense_bonuses.map Prod.fst := List.mem_map.mpr ⟨(m, v25), hmem, rfl⟩
                                                        exact hfinish (hLF.kl_db m hkm)
                                                    · have hmem : (m, v24) ∈ data.melee_power_bonuses := by
                                                        rw [hd_mp]
                                                        exact (rowsOf_mem w _ _ m v24).mpr ⟨e0, he0, hm0, v24, hc24, rfl⟩
                                                      have hkm : m ∈ data.melee_power_bonuses.map Prod.fst := List.mem_map.mpr ⟨(m, v24), hmem, rfl⟩
                                                      exact hfinish (hLF.kl_mp m hkm)
                                                  · have htm : v23.owner ∈ w.entities := ((refTargetsLive_spec w e0 (hrefs e0 he0)).2.2.2.2.2.1) v23 hc23
                                                    have htms := hmark v23.owner htm
                                                    rcases hb : ((w.comps v23.owner)).marker with _ | b
                                                    · rw [hb] at htms
                                                      exact absurd htms (by simp)
                                                    · have hmem : (m, (b, v23.slot)) ∈ data.equipped := by
                                                        rw [hd_eqp]
                                                        refine (rowsOf_mem w _ _ m (b, v23.slot)).mpr ⟨e0, he0, hm0, v23, hc23, ?_⟩
                                                        rw [hb]
                                                        rfl
                                                      have hkm : m ∈ data.equipped.map Prod.fst := List.mem_map.mpr ⟨(m, (b, v23.slot)), hmem, rfl⟩
                                                      exact hfinish (hLF.kl_eqp m hkm)
                                                · have hmem : (m, v22) ∈ data.equippables := by
                                                    rw [hd_eqb]
                                                    exact (rowsOf_mem w _ _ m v22).mpr ⟨e0, he0, hm0, v22, hc22, rfl⟩
                                                  have hkm : m ∈ data.equippables.map Prod.fst := List.mem_map.mpr ⟨(m, v22), hmem, rfl⟩
                                                  exact hfinish (hLF.kl_eqb m hkm)
                                              · have htm : v21.item ∈ w.entities := ((refTargetsLive_spec w e0 (hrefs e0 he0)).2.2.2.2.1) v21 hc21
                                                have htms := hmark v21.item htm
                                                rcases hb : ((w.comps v21.item)).marker with _ | b
                                                · rw [hb] at htms
                                                  exact absurd htms (by simp)
                                                · have hmem : (m, b) ∈ data.wants_to_drop := by
                                                    rw [hd_wd]
                                                    exact (rowsOf_mem w _ _ m b).mpr ⟨e0, he0, hm0, v21, hc21, hb⟩
                                                  have hkm : m ∈ data.wants_to_drop.map Prod.fst := List.mem_map.mpr ⟨(m, b), hmem, rfl⟩
                                                  exact hfinish (hLF.kl_wd m hkm)
                                            · have htm : v20.item ∈ w.entities := ((refTargetsLive_spec w e0 (hrefs e0 he0)).2.2.2.1) v20 hc20
                                              have htms := hmark v20.item htm
                                              rcases hb : ((w.comps v20.item)).marker with _ | b
                                              · rw [hb] at htms
                                                exact absurd htms (by simp)
                                              · have hmem : (m, (b, v20.target)) ∈ data.wants_to_use := by
                                                  rw [hd_wu]
                                                  refine (rowsOf_mem w _ _ m (b, v20.target)).mpr ⟨e0, he0, hm0, v20, hc20, ?_⟩
                                                  rw [hb]
                                                  rfl
                                                have hkm : m ∈ data.wants_to_use.map Prod.fst := List.mem_map.mpr ⟨(m, (b, v20.target)), hmem, rfl⟩
                                                exact hfinish (hLF.kl_wu m hkm)
                                          · have htm := ((refTargetsLive_spec w e0 (hrefs e0 he0)).2.2.1) v19 hc19
                                            have htms1 := hmark v19.collected_by htm.1
                                            have htms2 := hmark v19.item htm.2
                                            rcases hb1 : ((w.comps v19.collected_by)).marker with _ | b1
                                            · rw [hb1] at htms1
                                              exact absurd htms1 (by simp)
                                            · rcases hb2 : ((w.comps v19.item)).marker with _ | b2
                                              · rw [hb2] at htms2
                                                exact absurd htms2 (by simp)
                                              · have hmem : (m, (b1, b2)) ∈ data.wants_to_pickup := by
                                                  rw [hd_wp]
                                                  refine (rowsOf_mem w _ _ m (b1, b2)).mpr ⟨e0, he0, hm0, v19, hc19, ?_⟩
                                                  rw [hb1, hb2]
                                                  rfl
                                                have hkm : m ∈ data.wants_to_pickup.map Prod.fst := List.mem_map.mpr ⟨(m, (b1, b2)), hmem, rfl⟩
                                                exact hfinish (hLF.kl_wp m hkm)
                                        · have htm : v18.owner ∈ w.entities := ((refTargetsLive_spec w e0 (hrefs e0 he0)).2.1) v18 hc18
                                          have htms := hmark v18.owner htm
                                          rcases hb : ((w.comps v18.owner)).marker with _ | b
                                          · rw [hb] at htms
                                            exact absurd htms (by simp)
                                          · have hmem : (m, b) ∈ data.in_backpack := by
                                              rw [hd_ib]
                                              exact (rowsOf_mem w _ _ m b).mpr ⟨e0, he0, hm0, v18, hc18, hb⟩
                                            have hkm : m ∈ data.in_backpack.map Prod.fst := List.mem_map.mpr ⟨(m, b), hmem, rfl⟩
                                            exact hfinish (hLF.kl_ib m hkm)
                                      · have hmem : (m, v17) ∈ data.provides_healing := by
                                          rw [hd_ph]
                                          exact (rowsOf_mem w _ _ m v17).mpr ⟨e0, he0, hm0, v17, hc17, rfl⟩
                                        have hkm : m ∈ data.provides_healing.map Prod.fst := List.mem_map.mpr ⟨(m, v17), hmem, rfl⟩
                                        exact hfinish (hLF.kl_ph m hkm)
                                    · have hmem : (m, v16) ∈ data.confusion := by
                                        rw [hd_cf]
                                        exact (rowsOf_mem w _ _ m v16).mpr ⟨e0, he0, hm0, v16, hc16, rfl⟩
                                      have hkm : m ∈ data.confusion.map Prod.fst := List.mem_map.mpr ⟨(m, v16), hmem, rfl⟩
                                      exact hfinish (hLF.kl_cf m hkm)
                                  · have hmem : (m, v15) ∈ data.area_of_effect := by
                                      rw [hd_ae]
                                      exact (rowsOf_mem w _ _ m v15).mpr ⟨e0, he0, hm0, v15, hc15, rfl⟩
                                    have hkm : m ∈ data.area_of_effect.map Prod.fst := List.mem_map.mpr ⟨(m, v15), hmem, rfl⟩
                                    exact hfinish (hLF.kl_ae m hkm)
                                · have hmem : (m, v14) ∈ data.inflicts_damage := by
                                    rw [hd_inf]
                                    exact (rowsOf_mem w _ _ m v14).mpr ⟨e0, he0, hm0, v14, hc14, rfl⟩
                                  have hkm : m ∈ data.inflicts_damage.map Prod.fst := List.mem_map.mpr ⟨(m, v14), hmem, rfl⟩
                                  exact hfinish (hLF.kl_inf m hkm)
                              · have hmem : (m, v13) ∈ data.ranged := by
                                  rw [hd_rg]
                                  exact (rowsOf_mem w _ _ m v13).mpr ⟨e0, he0, hm0, v13, hc13, rfl⟩
                                have hkm : m ∈ data.ranged.map Prod.fst := List.mem_map.mpr ⟨(m, v13), hmem, rfl⟩
                                exact hfinish (hLF.kl_rg m hkm)
                            · have hmem : (m, v12) ∈ data.consumables := by
                                rw [hd_con]
                                exact (rowsOf_mem w _ _ m v12).mpr ⟨e0, he0, hm0, v12, hc12, rfl⟩
                              have hkm : m ∈ data.consumables.map Prod.fst := List.mem_map.mpr ⟨(m, v12), hmem, rfl⟩
                              exact hfinish (hLF.kl_con m hkm)
                          · have hmem : (m, v11) ∈ data.items := by
                              rw [hd_it]
                              exact (rowsOf_mem w _ _ m v11).mpr ⟨e0, he0, hm0, v11, hc11, rfl⟩
                            have hkm : m ∈ data.items.map Prod.fst := List.mem_map.mpr ⟨(m, v11), hmem, rfl⟩
                            exact hfinish (hLF.kl_it m hkm)
                        · have htm : v10.target ∈ w.entities := ((refTargetsLive_spec w e0 (hrefs e0 he0)).1) v10 hc10
                          have htms := hmark v10.target htm
                          rcases hb : ((w.comps v10.target)).marker with _ | b
                          · rw [hb] at htms
                            exact absurd htms (by simp)
                          · have hmem : (m, b) ∈ data.wants_melee := by
                              rw [hd_wm]
                              exact (rowsOf_mem w _ _ m b).mpr ⟨e0, he0, hm0, v10, hc10, hb⟩
                            have hkm : m ∈ data.wants_melee.map Prod.fst := List.mem_map.mpr ⟨(m, b), hmem, rfl⟩
                            exact hfinish (hLF.kl_wm m hkm)
                      · have hmem : (m, v9) ∈ data.suffer_damage := by
                          rw [hd_sd]
                          exact (rowsOf_mem w _ _ m v9).mpr ⟨e0, he0, hm0, v9, hc9, rfl⟩
                        have hkm : m ∈ data.suffer_damage.map Prod.fst := List.mem_map.mpr ⟨(m, v9), hmem, rfl⟩
                        exact hfinish (hLF.kl_sd m hkm)
                    · have hmem : (m, v8) ∈ data.combat_stats := by
                        rw [hd_cs]
                        exact (rowsOf_mem w _ _ m v8).mpr ⟨e0, he0, hm0, v8, hc8, rfl⟩
                      have hkm : m ∈ data.combat_stats.map Prod.fst := List.mem_map.mpr ⟨(m, v8), hmem, rfl⟩
                      exact hfinish (hLF.kl_cs m hkm)
                  · have hmem : (m, v7) ∈ data.blocks_tile := by
                      rw [hd_bt]
                      exact (rowsOf_mem w _ _ m v7).mpr ⟨e0, he0, hm0, v7, hc7, rfl⟩
                    have hkm : m ∈ data.blocks_tile.map Prod.fst := List.mem_map.mpr ⟨(m, v7), hmem, rfl⟩
                    exact hfinish (hLF.kl_bt m hkm)
                · have hmem : (m, v6) ∈ data.names := by
                    rw [hd_nm2]
                    exact (rowsOf_mem w _ _ m v6).mpr ⟨e0, he0, hm0, v6, hc6, rfl⟩
                  have hkm : m ∈ data.names.map Prod.fst := List.mem_map.mpr ⟨(m, v6), hmem, rfl⟩
                  exact hfinish (hLF.kl_nm m hkm)
              · have hmem : (m, v5) ∈ data.monsters := by
                  rw [hd_mon]
                  exact (rowsOf_mem w _ _ m v5).mpr ⟨e0, he0, hm0, v5, hc5, rfl⟩
                have hkm : m ∈ data.monsters.map Prod.fst := List.mem_map.mpr ⟨(m, v5), hmem, rfl⟩
                exact hfinish (hLF.kl_mon m hkm)
            · have hmem : (m, v4) ∈ data.viewsheds := by
                rw [hd_vs]
                exact (rowsOf_mem w _ _ m v4).mpr ⟨e0, he0, hm0, v4, hc4, rfl⟩
              have hkm : m ∈ data.viewsheds.map Prod.fst := List.mem_map.mpr ⟨(m, v4), hmem, rfl⟩
              exact hfinish (hLF.kl_vs m hkm)
          · have hmem : (m, v3) ∈ data.players := by
              rw [hd_pl]
              exact (rowsOf_mem w _ _ m v3).mpr ⟨e0, he0, hm0, v3, hc3, rfl⟩
            have hkm : m ∈ data.players.map Prod.fst := List.mem_map.mpr ⟨(m, v3), hmem, rfl⟩
            exact hfinish (hLF.kl_pl m hkm)
        · have hmem : (m, v2) ∈ data.renderables := by
            rw [hd_rnd]
            exact (rowsOf_mem w _ _ m v2).mpr ⟨e0, he0, hm0, v2, hc2, rfl⟩
          have hkm : m ∈ data.renderables.map Prod.fst := List.mem_map.mpr ⟨(m, v2), hmem, rfl⟩
          exact hfinish (hLF.kl_rnd m hkm)
      · have hmem : (m, v1) ∈ data.positions := by
          rw [hd_pos]
          exact (rowsOf_mem w _ _ m v1).mpr ⟨e0, he0, hm0, v1, hc1, rfl⟩
        have hkm : m ∈ data.positions.map Prod.fst := List.mem_map.mpr ⟨(m, v1), hmem, rfl⟩
        exact hfinish (hLF.kl_pos m hkm)
  · intro e he
    have hev := (hfent e).mp he
    rw [hfcomps e he]
    have hms := hLF.inv.marked e hev.1
    rcases hk : (v30.comps e).marker with _ | k
    · rw [hk] at hms
      exact absurd hms (by simp)
    · have hkne : k ≠ w.next_marker := by
        intro hh
        exact hev.2 (hLF.inv.inj e hev.1 eh hehmem (by rw [hk, hehmk, hh]))
      have h2 := hLF.fv_sh e hev.1 k hk
      have hnk : k ∉ data.helpers.map Prod.fst := by
        rw [hd_sh]
        simp only [List.map_cons, List.map_nil, List.mem_singleton]
        exact hkne
      simp only [lookupKey_eq_none data.helpers k hnk] at h2
      exact h2

/-- C4: saving a game and then loading it reproduces the same component
values for every persisted component type, marker for marker — entity
identities may be remapped, but reference fields (owner/target/item)
resolve to entities carrying the same markers after remapping — with no
serialization helper left behind; the Map resource is restored with
tile_content excluded from the serialized form and zero-filled on load,
and the GameLog is restored with exactly one new "Loaded game from
save" entry at the front. -/
theorem save_load_roundtrip (w : World)
    (hnodup : w.entities.Nodup)
    (helt : ∀ e ∈ w.entities, e < w.next_entity)
    (hmark : ∀ e ∈ w.entities, ((w.comps e).marker).isSome = true)
    (hinj : ∀ e ∈ w.entities, ∀ x ∈ w.entities,
      (w.comps e).marker = (w.comps x).marker → e = x)
    (hmlt : ∀ e ∈ w.entities, ∀ m, (w.comps e).marker = some m → m < w.next_marker)
    (hnohelp : ∀ e ∈ w.entities, (w.comps e).serialization_helper = none)
    (hrefs : ∀ e ∈ w.entities, refTargetsLive w e = true) :
    ∃ w2 data, save_game w = some (w2, data) ∧
      (∀ e ∈ (load_game w2 data).entities, ∃ e0 ∈ w.entities,
        ((load_game w2 data).comps e).marker = (w.comps e0).marker ∧
        viewOf (load_game w2 data) e = viewOf w e0) ∧
      (∀ e0 ∈ w.entities, viewOf w e0 ≠ emptyView →
        ∃ e ∈ (load_game w2 data).entities,
          ((load_game w2 data).comps e).marker = (w.comps e0).marker) ∧
      (∀ e ∈ (load_game w2 data).entities,
        ((load_game w2 data).comps e).serialization_helper = none) ∧
      (load_game w2 data).map =
        { w.map with tile_content := List.replicate MAP_COUNT [] } ∧
      (load_game w2 data).log = ⟨"Loaded game from save" :: w.log.entries⟩ := by
  refine ⟨deleteEntity (saveWorld w) w.next_entity, _,
    save_game_facts w hnodup helt hmark hnohelp hrefs, ?_⟩
  exact roundtrip_core w _ hnodup helt hmark hinj hmlt hnohelp hrefs
    rfl rfl rfl rfl rfl rfl rfl rfl rfl rfl rfl rfl rfl rfl rfl
    rfl rfl rfl rfl rfl rfl rfl rfl rfl rfl rfl rfl rfl rfl rfl

/-- A two-entity marked world: the player and an equipped sword. -/
def roundtripExampleWorld : World :=
  { next_entity := 2
    entities := [0, 1]
    comps := fun e =>
      if e = 0 then
        { position := some ⟨3, 4⟩, player := some (), name := some ⟨"Hero"⟩
          combat_stats := some ⟨30, 30, 2, 5⟩, marker := some 0 }
      else if e = 1 then
        { name := some ⟨"Sword"⟩, equipped := some ⟨0, EquipmentSlot.Melee⟩
          melee_power_bonus := some ⟨2⟩, marker := some 1 }
      else {}
    next_marker := 2
    map := ⟨fun _ => TileType.Wall, [], 80, 43, fun _ => false, fun _ => false,
      fun _ => false, 1, [], []⟩
    log := ⟨["hello"]⟩
    runstate := RunState.PreRun
    player_entity := 0
    player_point := (3, 4) }

/-- C4 witness: saving and loading the example world succeeds and
prepends exactly one "Loaded game from save" line to its log. -/
theorem save_load_roundtrip_witness :
    ∃ w2 data, save_game roundtripExampleWorld = some (w2, data) ∧
      (load_game w2 data).log = ⟨["Loaded game from save", "hello"]⟩ := by
  have hmlt : ∀ e ∈ roundtripExampleWorld.entities, ∀ m,
      (roundtripExampleWorld.comps e).marker = some m →
      m < roundtripExampleWorld.next_marker := by
    intro e he m hm
    have h2 : ((roundtripExampleWorld.comps e).marker).all
        (fun k => decide (k < roundtripExampleWorld.next_marker)) = true := by
      fin_cases he <;> decide
    rw [hm] at h2
    simpa using h2
  have hnohelp : ∀ e ∈ roundtripExampleWorld.entities,
      (roundtripExampleWorld.comps e).serialization_helper = none := by
    intro e he
    fin_cases he <;> rfl
  obtain ⟨w2, data, hsave, _, _, _, _, hlog⟩ :=
    save_load_roundtrip roundtripExampleWorld (by decide) (by decide) (by decide)
      (by decide) hmlt hnohelp (by decide)
  refine ⟨w2, data, hsave, ?_⟩
  rw [hlog]
  rfl

end Roguelike
